import Mathlib

/-!
# The `jnsn` JavaScript parser (`src/lib/js/parser.cc`)

A shallow embedding of the recursive-descent parser of `parser_base` and of the
data it works on: tokens, the lexer as the stream of results it still yields,
the AST as a tree of nodes, and the parser state (current token, rewind stack,
recorded error).  Every `parse_*` member function of `parser.cc` is a function
of the same name in the state monad `P`.
-/

set_option maxRecDepth 100000
set_option maxHeartbeats 4000000
set_option linter.unusedTactic false
set_option linter.unreachableTactic false
set_option linter.unusedVariables false

namespace jnsn

/-! ## Source locations, tokens, lexer results -/

/-- A `source_location`: row and column.  A value-initialised location (`{}`) is
`⟨0, 0⟩`. -/
structure source_location where
  row : Nat
  col : Nat
deriving DecidableEq, Repr, Inhabited

/-- Modelled from the spec: `jnsn/js/tokens.def` is not part of the sources; the
token kinds are those of spec §6.1 (all of them are named in `parser.cc`). -/
inductive token_type where
  | INT_LITERAL | FLOAT_LITERAL | HEX_LITERAL | OCT_LITERAL | BIN_LITERAL
  | STRING_LITERAL | REGEX_LITERAL
  | TEMPLATE_STRING | TEMPLATE_HEAD | TEMPLATE_MIDDLE | TEMPLATE_END
  | IDENTIFIER | KEYWORD | SEMICOLON | COMMA | COLON | DOT | DOTDOTDOT | ARROW
  | PAREN_OPEN | PAREN_CLOSE | BRACE_OPEN | BRACE_CLOSE | BRACKET_OPEN | BRACKET_CLOSE
  | QMARK | EXMARK | TILDE
  | PLUS | MINUS | ASTERISK | SLASH | POW | PERCENT | INCR | DECR
  | EQ | EQEQ | EQEQEQ | NEQ | NEQEQ | LT | GT | LT_EQ | GT_EQ
  | LSHIFT | RSHIFT | LOG_RSHIFT | AMPERSAND | VERT_BAR | CARET | LOG_AND | LOG_OR
  | PLUS_EQ | MINUS_EQ | MOD_EQ | MUL_EQ | DIV_EQ | POW_EQ
  | LSH_EQ | RSH_EQ | LOG_RSH_EQ | AND_EQ | OR_EQ | CARET_EQ
  | LINE_COMMENT | BLOCK_COMMENT
deriving DecidableEq, Repr, Inhabited

/-- The file-local `to_string(token_type)`: the name of the enumerator (`#NAME`). -/
def to_string : token_type → String
  | .INT_LITERAL => "INT_LITERAL" | .FLOAT_LITERAL => "FLOAT_LITERAL"
  | .HEX_LITERAL => "HEX_LITERAL" | .OCT_LITERAL => "OCT_LITERAL"
  | .BIN_LITERAL => "BIN_LITERAL" | .STRING_LITERAL => "STRING_LITERAL"
  | .REGEX_LITERAL => "REGEX_LITERAL" | .TEMPLATE_STRING => "TEMPLATE_STRING"
  | .TEMPLATE_HEAD => "TEMPLATE_HEAD" | .TEMPLATE_MIDDLE => "TEMPLATE_MIDDLE"
  | .TEMPLATE_END => "TEMPLATE_END" | .IDENTIFIER => "IDENTIFIER"
  | .KEYWORD => "KEYWORD" | .SEMICOLON => "SEMICOLON" | .COMMA => "COMMA"
  | .COLON => "COLON" | .DOT => "DOT" | .DOTDOTDOT => "DOTDOTDOT" | .ARROW => "ARROW"
  | .PAREN_OPEN => "PAREN_OPEN" | .PAREN_CLOSE => "PAREN_CLOSE"
  | .BRACE_OPEN => "BRACE_OPEN" | .BRACE_CLOSE => "BRACE_CLOSE"
  | .BRACKET_OPEN => "BRACKET_OPEN" | .BRACKET_CLOSE => "BRACKET_CLOSE"
  | .QMARK => "QMARK" | .EXMARK => "EXMARK" | .TILDE => "TILDE"
  | .PLUS => "PLUS" | .MINUS => "MINUS" | .ASTERISK => "ASTERISK" | .SLASH => "SLASH"
  | .POW => "POW" | .PERCENT => "PERCENT" | .INCR => "INCR" | .DECR => "DECR"
  | .EQ => "EQ" | .EQEQ => "EQEQ" | .EQEQEQ => "EQEQEQ" | .NEQ => "NEQ" | .NEQEQ => "NEQEQ"
  | .LT => "LT" | .GT => "GT" | .LT_EQ => "LT_EQ" | .GT_EQ => "GT_EQ"
  | .LSHIFT => "LSHIFT" | .RSHIFT => "RSHIFT" | .LOG_RSHIFT => "LOG_RSHIFT"
  | .AMPERSAND => "AMPERSAND" | .VERT_BAR => "VERT_BAR" | .CARET => "CARET"
  | .LOG_AND => "LOG_AND" | .LOG_OR => "LOG_OR"
  | .PLUS_EQ => "PLUS_EQ" | .MINUS_EQ => "MINUS_EQ" | .MOD_EQ => "MOD_EQ"
  | .MUL_EQ => "MUL_EQ" | .DIV_EQ => "DIV_EQ" | .POW_EQ => "POW_EQ"
  | .LSH_EQ => "LSH_EQ" | .RSH_EQ => "RSH_EQ" | .LOG_RSH_EQ => "LOG_RSH_EQ"
  | .AND_EQ => "AND_EQ" | .OR_EQ => "OR_EQ" | .CARET_EQ => "CARET_EQ"
  | .LINE_COMMENT => "LINE_COMMENT" | .BLOCK_COMMENT => "BLOCK_COMMENT"

/-- A `token`: kind, text and location. -/
structure token where
  type : token_type
  text : String
  loc : source_location
deriving DecidableEq, Repr, Inhabited

/-- Modelled from the spec: the lexer's `keyword_type` is not part of the sources;
the reserved words are those of spec §3 ("Keyword subkind") together with `else`,
which `parse_if_stmt` names; `kw_other` stands for any other keyword text. -/
inductive keyword_type where
  | kw_if | kw_else | kw_for | kw_function | kw_typeof | kw_instanceof | kw_in | kw_new
  | kw_void | kw_delete | kw_return | kw_throw | kw_try | kw_catch | kw_finally
  | kw_do | kw_while | kw_switch | kw_case | kw_default | kw_break | kw_continue
  | kw_var | kw_let | kw_const | kw_class | kw_super | kw_import | kw_export
  | kw_other
deriving DecidableEq, Repr, Inhabited

open keyword_type

/-- Modelled from the spec: `lexer_base::get_keyword_type` is not part of the
sources; the subkind of a keyword token is the reserved word its text spells. -/
def get_keyword_type (t : token) : keyword_type :=
  if t.text = "if" then kw_if else if t.text = "else" then kw_else
  else if t.text = "for" then kw_for else if t.text = "function" then kw_function
  else if t.text = "typeof" then kw_typeof else if t.text = "instanceof" then kw_instanceof
  else if t.text = "in" then kw_in else if t.text = "new" then kw_new
  else if t.text = "void" then kw_void else if t.text = "delete" then kw_delete
  else if t.text = "return" then kw_return else if t.text = "throw" then kw_throw
  else if t.text = "try" then kw_try else if t.text = "catch" then kw_catch
  else if t.text = "finally" then kw_finally else if t.text = "do" then kw_do
  else if t.text = "while" then kw_while else if t.text = "switch" then kw_switch
  else if t.text = "case" then kw_case else if t.text = "default" then kw_default
  else if t.text = "break" then kw_break else if t.text = "continue" then kw_continue
  else if t.text = "var" then kw_var else if t.text = "let" then kw_let
  else if t.text = "const" then kw_const else if t.text = "class" then kw_class
  else if t.text = "super" then kw_super else if t.text = "import" then kw_import
  else if t.text = "export" then kw_export else kw_other

/-- A `lexer_error`: message and location. -/
structure lexer_error where
  msg : String
  loc : source_location
deriving DecidableEq, Repr, Inhabited

/-- One result of `lexer.next()` other than end of input.  The lexer is the list
of the results it still yields; once the list is exhausted it reports `eof_t`. -/
inductive lexer_result where
  | error (e : lexer_error)
  | tok (t : token)
deriving DecidableEq, Repr, Inhabited

/-- A `parser_error`: message and location. -/
structure parser_error where
  msg : String
  loc : source_location
deriving DecidableEq, Repr, Inhabited

/-! ## AST nodes -/

/-- The node kinds built by `make_unary_prefix_op` and by the postfix step of
`parse_atomic_expr` (all carry one child, `value`). -/
inductive unary_kind where
  | prefix_increment | prefix_decrement | prefix_plus | prefix_minus
  | not_expr | binverse_expr | typeof_expr | void_expr | delete_expr
  | postfix_increment | postfix_decrement
deriving DecidableEq, Repr, Inhabited

/-- The node kinds built by `make_binary_expr` (all carry `lhs` and `rhs`). -/
inductive bin_op_kind where
  | add | subtract | multiply | divide | pow_expr | modulo_expr
  | less_expr | less_eq_expr | greater_expr | greater_eq_expr
  | equals_expr | strong_equals_expr | not_equals_expr | strong_not_equals_expr
  | log_and_expr | log_or_expr
  | lshift_expr | rshift_expr | log_rshift_expr
  | bitwise_and_expr | bitwise_or_expr | bitwise_xor_expr
  | assign | add_assign | subtract_assign | multiply_assign | divide_assign
  | modulo_assign | pow_assign | lshift_assign | rshift_assign | log_rshift_assign
  | and_assign | or_assign | xor_assign
  | comma_operator | instanceof_expr | in_expr
deriving DecidableEq, Repr, Inhabited

/-- A pointer to an AST node, as the parser's helpers return it: `null` is the
null pointer, every other constructor is a node of that kind with its location
and children.  Optional children (`MAYBE`) are `Option`s, sequences are lists. -/
inductive Node where
  | null
  | module (loc : source_location) (stmts : List Node)
  | empty_stmt (loc : source_location)
  | block (loc : source_location) (stmts : List Node)
  | label_stmt (loc : source_location) (label : String) (stmt : Node)
  | if_stmt (loc : source_location) (condition body : Node) (else_stmt : Option Node)
  | do_while (loc : source_location) (condition body : Node)
  | while_stmt (loc : source_location) (condition body : Node)
  | for_stmt (loc : source_location) (pre_stmt condition latch_stmt body : Node)
  | for_in (loc : source_location) (keyword : Option String) (var : String)
      (iterable body : Node)
  | for_of (loc : source_location) (keyword : Option String) (var : String)
      (iterable body : Node)
  | switch_stmt (loc : source_location) (value : Node) (clauses : List Node)
  | switch_clause (loc : source_location) (stmts : List Node)
  | case_node (loc : source_location) (stmts : List Node) (condition : Node)
  | return_stmt (loc : source_location) (value : Option Node)
  | throw_stmt (loc : source_location) (value : Node)
  | try_stmt (loc : source_location) (body : Node) (catch_block finally_ : Option Node)
  | catch_node (loc : source_location) (var : String) (body : Node)
  | break_stmt (loc : source_location)
  | continue_stmt (loc : source_location)
  | var_decl (loc : source_location) (keyword : String) (parts : List Node)
  | var_decl_part (loc : source_location) (name : String) (init : Option Node)
  | function_stmt (loc : source_location) (name : String) (params body : Node)
  | function_expr (loc : source_location) (name : Option String) (params body : Node)
  | param_list (loc : source_location) (names : List String) (rest : Option String)
  | arrow_function (loc : source_location) (params body : Node)
  | identifier_expr (loc : source_location) (str : String)
  | int_literal (loc : source_location) (val : String)
  | float_literal (loc : source_location) (val : String)
  | string_literal (loc : source_location) (val : String)
  | regex_literal (loc : source_location) (val : String)
  | template_literal (loc : source_location) (strs : List String) (exprs : List Node)
  | array_literal (loc : source_location) (values : List Node)
  | object_literal (loc : source_location) (entries : List Node)
  | object_entry (loc : source_location) (key : String) (val : Node)
  | spread_expr (loc : source_location) (list : Node)
  | member_access (loc : source_location) (base : Node) (member : String)
  | computed_member_access (loc : source_location) (base member : Node)
  | call_expr (loc : source_location) (callee args : Node)
  | argument_list (loc : source_location) (values : List Node)
  | new_expr (loc : source_location) (constructor_ : Node) (args : Option Node)
  | new_target (loc : source_location)
  | unary_expr (kind : unary_kind) (loc : source_location) (value : Node)
  | bin_op_expr (kind : bin_op_kind) (loc : source_location) (lhs rhs : Node)
  | ternary_operator (loc : source_location) (lhs mid rhs : Node)
deriving Inhabited

namespace Node

/-- Test `!ptr`. -/
def isNull : Node → Bool
  | null => true
  | _ => false

/-- The `loc` member of a node (`⟨0, 0⟩` stands in for reading through a null
pointer, which the parser never does). -/
def loc : Node → source_location
  | null => ⟨0, 0⟩
  | module l _ | empty_stmt l | block l _ | label_stmt l _ _ | if_stmt l _ _ _
  | do_while l _ _ | while_stmt l _ _ | for_stmt l _ _ _ _ | for_in l _ _ _ _
  | for_of l _ _ _ _ | switch_stmt l _ _ | switch_clause l _ | case_node l _ _
  | return_stmt l _ | throw_stmt l _ | try_stmt l _ _ _ | catch_node l _ _
  | break_stmt l | continue_stmt l | var_decl l _ _ | var_decl_part l _ _
  | function_stmt l _ _ _ | function_expr l _ _ _ | param_list l _ _
  | arrow_function l _ _ | identifier_expr l _ | int_literal l _ | float_literal l _
  | string_literal l _ | regex_literal l _ | template_literal l _ _ | array_literal l _
  | object_literal l _ | object_entry l _ _ | spread_expr l _ | member_access l _ _
  | computed_member_access l _ _ | call_expr l _ _ | argument_list l _ | new_expr l _ _
  | new_target l | unary_expr _ l _ | bin_op_expr _ l _ _ | ternary_operator l _ _ _ => l

/-- The test `isa<identifier_expr_node>(n)`. -/
def isa_identifier_expr : Node → Bool
  | identifier_expr _ _ => true
  | _ => false

/-- The test `isa<call_expr_node>(n)`. -/
def isa_call_expr : Node → Bool
  | call_expr _ _ _ => true
  | _ => false

/-- The `str` member of an `identifier_expr_node` (used through a `static_cast`
by `parse_parens_expr`). -/
def str : Node → String
  | identifier_expr _ s => s
  | _ => ""

/-- The `rhs` member of a `bin_op_expr_node` (also of a ternary, which derives
from it). -/
def rhs : Node → Node
  | bin_op_expr _ _ _ r => r
  | ternary_operator _ _ _ r => r
  | _ => null

/-- The assignment `binop->rhs = r`. -/
def set_rhs (binop r : Node) : Node :=
  match binop with
  | bin_op_expr k l a _ => bin_op_expr k l a r
  | ternary_operator l a m _ => ternary_operator l a m r
  | n => n

/-- The call `clause->stmts.emplace_back(stmt)` on a `switch_clause_node` (or on a
`case_node`, which derives from it). -/
def add_stmt (clause stmt : Node) : Node :=
  match clause with
  | switch_clause l stmts => switch_clause l (stmts ++ [stmt])
  | case_node l stmts c => case_node l (stmts ++ [stmt]) c
  | n => n

/-- The assignment `part->init = init` on a `var_decl_part_node`. -/
def set_init (part init : Node) : Node :=
  match part with
  | var_decl_part l name _ => var_decl_part l name (some init)
  | n => n

/-- The direct children of a node, in field order. -/
def children : Node → List Node
  | null => []
  | module _ stmts => stmts
  | empty_stmt _ => []
  | block _ stmts => stmts
  | label_stmt _ _ stmt => [stmt]
  | if_stmt _ c b e => [c, b] ++ e.toList
  | do_while _ c b => [c, b]
  | while_stmt _ c b => [c, b]
  | for_stmt _ p c l b => [p, c, l, b]
  | for_in _ _ _ i b => [i, b]
  | for_of _ _ _ i b => [i, b]
  | switch_stmt _ v cs => v :: cs
  | switch_clause _ stmts => stmts
  | case_node _ stmts c => stmts ++ [c]
  | return_stmt _ v => v.toList
  | throw_stmt _ v => [v]
  | try_stmt _ b c f => [b] ++ c.toList ++ f.toList
  | catch_node _ _ b => [b]
  | break_stmt _ => []
  | continue_stmt _ => []
  | var_decl _ _ parts => parts
  | var_decl_part _ _ init => init.toList
  | function_stmt _ _ p b => [p, b]
  | function_expr _ _ p b => [p, b]
  | param_list _ _ _ => []
  | arrow_function _ p b => [p, b]
  | identifier_expr _ _ => []
  | int_literal _ _ => []
  | float_literal _ _ => []
  | string_literal _ _ => []
  | regex_literal _ _ => []
  | template_literal _ _ exprs => exprs
  | array_literal _ values => values
  | object_literal _ entries => entries
  | object_entry _ _ v => [v]
  | spread_expr _ l => [l]
  | member_access _ b _ => [b]
  | computed_member_access _ b m => [b, m]
  | call_expr _ c a => [c, a]
  | argument_list _ values => values
  | new_expr _ c a => [c] ++ a.toList
  | new_target _ => []
  | unary_expr _ _ v => [v]
  | bin_op_expr _ _ l r => [l, r]
  | ternary_operator _ l m r => [l, m, r]

end Node

/-! ## Token classification -/

/-- The file-local `is_stmt_end`. -/
def is_stmt_end (t : token) : Bool :=
  match t.type with
  | .SEMICOLON | .PAREN_CLOSE | .BRACE_CLOSE => true
  | _ => false

/-- The file-local `is_follow_expression`. -/
def is_follow_expression (t : token) : Bool :=
  match t.type with
  | .SEMICOLON | .DOT | .COMMA | .PAREN_CLOSE | .BRACKET_CLOSE | .BRACE_CLOSE
  | .PLUS | .MINUS | .ASTERISK | .POW | .SLASH | .PERCENT
  | .EQ | .EQEQ | .EQEQEQ | .NEQ | .NEQEQ | .GT | .LT | .GT_EQ | .LT_EQ
  | .LSHIFT | .RSHIFT | .LOG_RSHIFT | .AMPERSAND | .VERT_BAR | .CARET
  | .QMARK | .COLON | .LOG_AND | .LOG_OR
  | .PLUS_EQ | .MINUS_EQ | .MOD_EQ | .MUL_EQ | .DIV_EQ | .POW_EQ
  | .LSH_EQ | .RSH_EQ | .LOG_RSH_EQ | .AND_EQ | .OR_EQ | .CARET_EQ
  | .TEMPLATE_MIDDLE | .TEMPLATE_END => true
  | .KEYWORD =>
    match get_keyword_type t with
    | kw_typeof | kw_instanceof | kw_in => true
    | _ => false
  | _ => false

/-- The file-local `is_expression_end`. -/
def is_expression_end (t : token) (comma_is_operator : Bool) : Bool :=
  match t.type with
  | .SEMICOLON | .PAREN_CLOSE | .BRACE_CLOSE | .BRACKET_CLOSE
  | .TEMPLATE_MIDDLE | .TEMPLATE_END | .COLON => true
  | .COMMA => !comma_is_operator
  | _ => false

/-- Modelled from the spec: the `PREFIX_OP` lines of `jnsn/js/operators.def`, which
is not part of the sources, are the prefix operators of spec §4.2 (`++`, `--`,
unary `+`/`-`, `!`, `~`); they are the token kinds `make_unary_prefix_op` handles. -/
def is_prefix_op_type : token_type → Bool
  | .INCR | .DECR | .PLUS | .MINUS | .EXMARK | .TILDE => true
  | _ => false

/-- Modelled from the spec: the `PREFIX_OP_KW` lines of `jnsn/js/operators.def`
(`typeof`, `void`, `delete`, spec §4.2), the keywords `make_unary_prefix_op`
handles. -/
def is_prefix_op_kw : keyword_type → Bool
  | kw_typeof | kw_void | kw_delete => true
  | _ => false

/-- The file-local `is_unary_prefix_op`. -/
def is_unary_prefix_op (op : token) : Bool :=
  if is_prefix_op_type op.type then true
  else if op.type = .KEYWORD then is_prefix_op_kw (get_keyword_type op)
  else false

/-- Modelled from the spec: the token kinds of the `INFIX_OP` lines of
`jnsn/js/operators.def`, which is not part of the sources: the binary operators of
spec §3 and §6.1, i.e. the kinds `make_binary_expr` handles (the comma apart, which
`is_binary_operator` treats first) and the `?` of the ternary, which `parse_bin_op`
handles. -/
def is_infix_op_type : token_type → Bool
  | .PLUS | .MINUS | .ASTERISK | .SLASH | .POW | .PERCENT
  | .LT | .LT_EQ | .GT | .GT_EQ | .EQEQ | .EQEQEQ | .NEQ | .NEQEQ
  | .LOG_AND | .LOG_OR | .LSHIFT | .RSHIFT | .LOG_RSHIFT
  | .AMPERSAND | .VERT_BAR | .CARET
  | .EQ | .PLUS_EQ | .MINUS_EQ | .MUL_EQ | .DIV_EQ | .MOD_EQ | .POW_EQ
  | .LSH_EQ | .RSH_EQ | .LOG_RSH_EQ | .AND_EQ | .OR_EQ | .CARET_EQ
  | .QMARK => true
  | _ => false

/-- Modelled from the spec: the keywords of the `INFIX_OP_KW` lines of
`jnsn/js/operators.def` (`in`, `instanceof`, spec §4.2). -/
def is_infix_op_kw : keyword_type → Bool
  | kw_instanceof | kw_in => true
  | _ => false

/-- The file-local `is_binary_operator`. -/
def is_binary_operator (op : token) (comma_is_operator : Bool) : Bool :=
  if op.type = .COMMA then comma_is_operator
  else if is_infix_op_type op.type then true
  else if op.type = .KEYWORD then is_infix_op_kw (get_keyword_type op)
  else false

/-- The file-local `is_possible_object_key`. -/
def is_possible_object_key (t : token) : Bool :=
  match t.type with
  | .INT_LITERAL | .FLOAT_LITERAL | .HEX_LITERAL | .OCT_LITERAL | .BIN_LITERAL
  | .STRING_LITERAL | .IDENTIFIER => true
  | _ => false

/-- The file-local `is_var_decl_kw`. -/
def is_var_decl_kw (t : token) : Bool :=
  let kwty := get_keyword_type t
  kwty = kw_var || kwty = kw_const || kwty = kw_let

/-- Modelled from the spec: `token::is_number_literal` is not part of the
sources; the numeric literal kinds are those of spec §6.1, the kinds
`make_number_expression` handles. -/
def token.is_number_literal (t : token) : Bool :=
  match t.type with
  | .INT_LITERAL | .FLOAT_LITERAL | .HEX_LITERAL | .OCT_LITERAL | .BIN_LITERAL => true
  | _ => false

/-- The `enum class associativity` of `parser.cc`. -/
inductive associativity where
  | LEFT_TO_RIGHT
  | RIGHT_TO_LEFT
deriving DecidableEq, Repr, Inhabited

/-- Modelled from the spec: the precedence and associativity columns of
`jnsn/js/operators.def`, which is not part of the sources, taken as a parameter:
the `PRECEDENCE` and `ASSOCIATIVITY` of the `INFIX_OP` line of a token kind and of
the `INFIX_OP_KW` line of a keyword. -/
structure operators_def where
  precedence : token_type → Int
  kw_precedence : keyword_type → Int
  assoc : token_type → associativity
  kw_assoc : keyword_type → associativity

/-- The file-local `get_precedence`: the precedence of an `INFIX_OP` token kind or
of an `INFIX_OP_KW` keyword, and `-1` for everything else. -/
def get_precedence (ops : operators_def) (op : token) : Int :=
  if op.type = .KEYWORD then
    if is_infix_op_kw (get_keyword_type op) then ops.kw_precedence (get_keyword_type op)
    else -1
  else if is_infix_op_type op.type || op.type = .COMMA then ops.precedence op.type
  else -1

/-- The file-local `get_associativity` (its entry assertion is recorded by the
caller; `LEFT_TO_RIGHT` stands in for the `unreachable` end). -/
def get_associativity (ops : operators_def) (op : token) : associativity :=
  if is_infix_op_type op.type || op.type = .COMMA then ops.assoc op.type
  else if op.type = .KEYWORD ∧ is_infix_op_kw (get_keyword_type op) then
    ops.kw_assoc (get_keyword_type op)
  else .LEFT_TO_RIGHT

/-! ## Parser state -/

/-- The assertions of `parser.cc` (and the one use of `front()` on a vector that
may be empty), named after the place where they stand. -/
inductive violation where
  | assert_parse_result
  | rewind_comment
  | number_literal_token
  | keyword_stmt_token
  | keyword_expr_token
  | if_stmt_token | do_while_token | while_stmt_token | for_stmt_token
  | switch_stmt_token | return_stmt_token | throw_stmt_token | try_stmt_token
  | import_token | export_token | class_stmt_token | class_expr_token
  | new_keyword_token | function_stmt_token | function_expr_token
  | template_head_token | template_sizes
  | string_literal_token | var_decl_token
  | parens_expr_token | array_literal_token | object_literal_token
  | computed_access_token | member_access_token | call_token | param_list_token
  | block_brace_open
  | unary_prefix_op | binary_operator | bin_op_token | associativity_operator
  | isa_null_node
  | front_of_empty_vector
deriving DecidableEq, Repr, Inhabited

/-- The state of a `parser_base`: the lexer (the results it still yields), the
current token, the rewind stack (top first) and the recorded error.  The field
`violations` is a ghost: it lists the assertions that failed so far (an `assert`
that holds, or is compiled out, changes nothing else). -/
structure parser_base where
  lexer : List lexer_result
  current_token : token
  rewind_stack : List token
  error : Option parser_error
  violations : List violation
deriving Repr, Inhabited

/-- The monad of the parser's member functions: they read and update the parser
state; `none` means that the fuel of the embedding ran out. -/
abbrev P (α : Type) := StateT parser_base Option α

/-- No fuel is left for a further call. -/
def out_of_fuel {α : Type} : P α := fun _ => none

/-- Read the member `current_token`. -/
def current_token : P token := fun s => some (s.current_token, s)

/-- The test `if (error)`. -/
def has_error : P Bool := fun s => some (s.error.isSome, s)

/-- Record an assertion that does not hold. -/
def parser_base.check (c : Bool) (v : violation) (s : parser_base) : parser_base :=
  if c then s else { s with violations := v :: s.violations }

/-- An `assert(c)`. -/
def assert_that (c : Prop) [Decidable c] (v : violation) : P Unit :=
  fun s => some ((), s.check (decide c) v)

/-- The member function `set_error`. -/
def set_error (msg : String) (loc : source_location) : P Unit :=
  fun s => some ((), { s with error := some ⟨msg, loc⟩ })

/-- The `do ... while` loop of `advance`: take results from the lexer until one
is not a comment; every token taken is stored in `current_token`. -/
def advance_lexer : List lexer_result → parser_base → Bool × parser_base
  | [], s => (false, { s with lexer := [] })
  | .error err :: rest, s =>
    (false, { s with lexer := rest, error := some ⟨"Lexer Error: " ++ err.msg, err.loc⟩ })
  | .tok t :: rest, s =>
    if t.type = .LINE_COMMENT ∨ t.type = .BLOCK_COMMENT then
      advance_lexer rest { s with current_token := t }
    else (true, { s with lexer := rest, current_token := t })

/-- The member function `advance`. -/
def advance : P Bool := fun s =>
  match s.rewind_stack with
  | t :: stack => some (true, { s with current_token := t, rewind_stack := stack })
  | [] => some (advance_lexer s.lexer s)

/-- The member function `rewind`. -/
def rewind (t : token) : P Unit := do
  assert_that (t.type ≠ .BLOCK_COMMENT ∧ t.type ≠ .LINE_COMMENT) .rewind_comment
  fun s => some ((), { s with rewind_stack := s.current_token :: s.rewind_stack,
                              current_token := t })

/-- The macro `ADVANCE_OR_ERROR(MESSAGE, RETURN_VAL)`; `k` is the code that
follows the macro. -/
def ADVANCE_OR_ERROR {α : Type} (message : String) (return_val : α) (k : P α) : P α := do
  if (← has_error) then return return_val
  let read_success ← advance
  if !read_success then set_error message ⟨0, 0⟩
  if (← has_error) then return return_val
  k

/-- The text `#TYPES` of a `TYPELIST(...)` argument. -/
def typelist_text (types : List token_type) : String :=
  "TYPELIST(" ++ ", ".intercalate (types.map fun t => "token_type::" ++ to_string t) ++ ")"

/-- The macro `EXPECT_SEVERAL(TYPES, RETURN_VAL)`; `k` is the code that follows
the macro. -/
def EXPECT_SEVERAL {α : Type} (types : List token_type) (return_val : α) (k : P α) : P α := do
  let tok ← current_token
  if types.contains tok.type then k
  else
    set_error ("Unexpected token. Expected: " ++ typelist_text types ++ ". Was: " ++
      to_string tok.type) tok.loc
    return return_val

/-- The macro `EXPECT(TYPE, RETURN_VAL)`. -/
def EXPECT {α : Type} (type : token_type) (return_val : α) (k : P α) : P α :=
  EXPECT_SEVERAL [type] return_val k

/-- The macro `ASSERT_PARSE_RESULT(VARNAME)`; `k` is the code that follows the
macro. -/
def ASSERT_PARSE_RESULT (v : Node) (k : P Node) : P Node := do
  let error ← has_error
  if error || v.isNull then
    assert_that (error ∧ v.isNull) .assert_parse_result
    return .null
  else k

/-- The macro `SUBPARSE(VARNAME, PARSE_CALL)`; `k` is the code that follows the
macro, with the variable it declares. -/
def SUBPARSE (parse_call : P Node) (k : Node → P Node) : P Node := do
  let v ← parse_call
  ASSERT_PARSE_RESULT v (k v)

/-- The file-local `make_number_expression`. -/
def make_number_expression (t : token) : P Node := do
  let res : Node :=
    if t.type = .INT_LITERAL then .int_literal t.loc t.text
    else if t.type = .FLOAT_LITERAL then .float_literal t.loc t.text
    else if t.type = .HEX_LITERAL then .float_literal t.loc t.text
    else if t.type = .OCT_LITERAL then .float_literal t.loc t.text
    else if t.type = .BIN_LITERAL then .float_literal t.loc t.text
    else .null
  assert_that (!res.isNull) .number_literal_token
  return res

/-- The file-local `make_unary_prefix_op`. -/
def make_unary_prefix_op (op : token) (value : Node) : P Node := do
  assert_that (is_unary_prefix_op op) .unary_prefix_op
  let expr : Node :=
    if op.type = .INCR then .unary_expr .prefix_increment op.loc value
    else if op.type = .DECR then .unary_expr .prefix_decrement op.loc value
    else if op.type = .PLUS then .unary_expr .prefix_plus op.loc value
    else if op.type = .MINUS then .unary_expr .prefix_minus op.loc value
    else if op.type = .EXMARK then .unary_expr .not_expr op.loc value
    else if op.type = .TILDE then .unary_expr .binverse_expr op.loc value
    else if op.type = .KEYWORD then
      if get_keyword_type op = kw_typeof then .unary_expr .typeof_expr op.loc value
      else if get_keyword_type op = kw_void then .unary_expr .void_expr op.loc value
      else if get_keyword_type op = kw_delete then .unary_expr .delete_expr op.loc value
      else .null
    else .null
  assert_that (!expr.isNull) .unary_prefix_op
  return expr

/-- The node kind `make_binary_expr` picks for an operator token, if any. -/
def binary_kind (op : token) : Option bin_op_kind :=
  match op.type with
  | .PLUS => some .add | .MINUS => some .subtract | .ASTERISK => some .multiply
  | .SLASH => some .divide | .POW => some .pow_expr | .PERCENT => some .modulo_expr
  | .LT => some .less_expr | .LT_EQ => some .less_eq_expr
  | .GT => some .greater_expr | .GT_EQ => some .greater_eq_expr
  | .EQEQ => some .equals_expr | .EQEQEQ => some .strong_equals_expr
  | .NEQ => some .not_equals_expr | .NEQEQ => some .strong_not_equals_expr
  | .LOG_AND => some .log_and_expr | .LOG_OR => some .log_or_expr
  | .LSHIFT => some .lshift_expr | .RSHIFT => some .rshift_expr
  | .LOG_RSHIFT => some .log_rshift_expr
  | .AMPERSAND => some .bitwise_and_expr | .VERT_BAR => some .bitwise_or_expr
  | .CARET => some .bitwise_xor_expr
  | .EQ => some .assign | .PLUS_EQ => some .add_assign
  | .MINUS_EQ => some .subtract_assign | .MUL_EQ => some .multiply_assign
  | .DIV_EQ => some .divide_assign | .MOD_EQ => some .modulo_assign
  | .POW_EQ => some .pow_assign | .LSH_EQ => some .lshift_assign
  | .RSH_EQ => some .rshift_assign | .LOG_RSH_EQ => some .log_rshift_assign
  | .AND_EQ => some .and_assign | .OR_EQ => some .or_assign
  | .CARET_EQ => some .xor_assign
  | .COMMA => some .comma_operator
  | .KEYWORD =>
    if get_keyword_type op = kw_instanceof then some .instanceof_expr
    else if get_keyword_type op = kw_in then some .in_expr
    else none
  | _ => none

/-- The file-local `make_binary_expr`. -/
def make_binary_expr (op : token) (lhs rhs : Node) : P Node := do
  assert_that (is_binary_operator op true) .binary_operator
  let res : Node :=
    match binary_kind op with
    | some kind => .bin_op_expr kind op.loc lhs rhs
    | none => .null
  assert_that (!res.isNull) .binary_operator
  return res

/-! ## The parser

The member functions of `parser_base` call each other recursively.  Each of them
is written here against a record `parser_fns` of the functions it may call
(`self`), and `parsers ops fuel` ties the knot: a call goes to the functions one
unit of fuel lower.  The loops of the member functions are functions of their
own, named after the function they belong to. -/

/-- The recursive entry points of the parser: its member functions that take
part in the recursion, and their loops. -/
structure parser_fns where
  parse_statement : P Node
  parse_keyword_stmt : P Node
  parse_keyword_expr : P Node
  parse_if_stmt : P Node
  parse_do_while : P Node
  parse_while_stmt : P Node
  parse_for_stmt : P Node
  parse_switch_stmt : P Node
  switch_clauses_loop : source_location → Node → Bool → List Node → P Node
  switch_stmts_loop : source_location → Node → Bool → List Node → Node → P Node
  parse_return_stmt : P Node
  parse_throw_stmt : P Node
  parse_try_stmt : P Node
  parse_expression : Bool → P Node
  parse_unary_or_atomic_expr : P Node
  parse_atomic_expr : P Node
  atomic_postfix_loop : Node → P Node
  parse_parens_expr : P Node
  parens_list_loop : source_location → Option token → List Node → P Node
  parse_bin_op : Node → Bool → P Node
  parse_atomic_keyword_expr : P Node
  parse_new_keyword : P Node
  parse_template_literal : P Node
  template_loop : source_location → List String → List Node → P Node
  parse_function_stmt : P Node
  parse_function_expr : P Node
  parse_param_list : P Node
  param_list_loop : source_location → List String → P Node
  parse_block : P Node
  block_loop : source_location → List Node → P Node
  parse_var_decl : P Node
  var_decl_loop : source_location → String → List Node → P Node
  parse_array_literal : P Node
  array_loop : source_location → List Node → P Node
  parse_object_literal : P Node
  object_loop : source_location → List Node → P Node
  parse_computed_access : Node → P Node
  parse_call : Node → P Node
  call_loop : source_location → Node → List Node → P Node
  parse_block_or_obj : Bool → P Node

/-- The end of `parse_statement`, from `ASSERT_PARSE_RESULT(stmt)` on: the check
for a statement terminator. -/
def statement_end (stmt : Node) : P Node :=
  ASSERT_PARSE_RESULT stmt do
  let final_token ← current_token
  let read_success ← advance
  if (← has_error) then return .null
  else if read_success then
    let tok ← current_token
    if !is_stmt_end tok then
      set_error ("Unexpected token after statement: " ++ to_string tok.type) tok.loc
      return .null
    else if tok.type ≠ .SEMICOLON then
      rewind final_token
      return stmt
    else return stmt
  else return stmt

/-- The member function `parse_statement`. -/
def parse_statement (self : parser_fns) : P Node := do
  let tok ← current_token
  if tok.type = .SEMICOLON then
    return .empty_stmt tok.loc
  else if tok.type = .BRACE_OPEN then
    self.parse_block_or_obj false
  else if tok.type = .KEYWORD then
    let stmt ← self.parse_keyword_stmt
    statement_end stmt
  else if tok.type = .IDENTIFIER then
    let ident := tok
    let read_success ← advance
    if !read_success then
      let stmt ← self.parse_expression true
      statement_end stmt
    else
      let colon ← current_token
      if colon.type = .COLON then
        ADVANCE_OR_ERROR "Unexpected EOF after label" .null do
        SUBPARSE self.parse_statement fun follow =>
        statement_end (.label_stmt colon.loc ident.text follow)
      else
        rewind ident
        let stmt ← self.parse_expression true
        statement_end stmt
  else
    let stmt ← self.parse_expression true
    statement_end stmt

/-- The member function `parse_import`. -/
def parse_import : P Node := do
  let tok ← current_token
  assert_that (tok.type = .KEYWORD ∧ get_keyword_type tok = kw_import) .import_token
  set_error "Not implemented (parse_import)" tok.loc
  return .null

/-- The member function `parse_export`. -/
def parse_export : P Node := do
  let tok ← current_token
  assert_that (tok.type = .KEYWORD ∧ get_keyword_type tok = kw_export) .export_token
  set_error "Not implemented (parse_export)" tok.loc
  return .null

/-- The member function `parse_class_stmt`. -/
def parse_class_stmt : P Node := do
  let tok ← current_token
  assert_that (tok.type = .KEYWORD ∧ get_keyword_type tok = kw_class) .class_stmt_token
  set_error "Not implemented (parse_class_stmt)" tok.loc
  return .null

/-- The member function `parse_class_expr`. -/
def parse_class_expr : P Node := do
  let tok ← current_token
  assert_that (tok.type = .KEYWORD ∧ get_keyword_type tok = kw_class) .class_expr_token
  set_error "Not implemented (parse_class_expr)" tok.loc
  return .null

/-- The member function `parse_keyword_stmt`. -/
def parse_keyword_stmt (self : parser_fns) : P Node := do
  let tok ← current_token
  assert_that (tok.type = .KEYWORD) .keyword_stmt_token
  let kwty := get_keyword_type tok
  if kwty = kw_function then self.parse_function_stmt
  else if kwty = kw_if then self.parse_if_stmt
  else if kwty = kw_do then self.parse_do_while
  else if kwty = kw_while then self.parse_while_stmt
  else if kwty = kw_for then self.parse_for_stmt
  else if kwty = kw_switch then self.parse_switch_stmt
  else if kwty = kw_break then return .break_stmt tok.loc
  else if kwty = kw_continue then return .continue_stmt tok.loc
  else if kwty = kw_return then self.parse_return_stmt
  else if kwty = kw_throw then self.parse_throw_stmt
  else if kwty = kw_try then self.parse_try_stmt
  else if kwty = kw_import then parse_import
  else if kwty = kw_export then parse_export
  else if kwty = kw_class then parse_class_stmt
  else if kwty = kw_super then self.parse_call (.identifier_expr tok.loc tok.text)
  else if is_var_decl_kw tok then self.parse_var_decl
  else self.parse_keyword_expr

/-- The member function `parse_keyword_expr`. -/
def parse_keyword_expr (self : parser_fns) : P Node := do
  let tok ← current_token
  assert_that (tok.type = .KEYWORD) .keyword_expr_token
  if is_unary_prefix_op tok then self.parse_unary_or_atomic_expr
  else self.parse_atomic_keyword_expr

/-- The member function `parse_if_stmt`. -/
def parse_if_stmt (self : parser_fns) : P Node := do
  let tok ← current_token
  assert_that (tok.type = .KEYWORD ∧ get_keyword_type tok = kw_if) .if_stmt_token
  ADVANCE_OR_ERROR "Unexpected EOF after if" .null do
  EXPECT .PAREN_OPEN .null do
  ADVANCE_OR_ERROR "Unexpected EOF after if (" .null do
  SUBPARSE (self.parse_expression true) fun condition =>
  ADVANCE_OR_ERROR "Unexpected EOF after if condition" .null do
  EXPECT .PAREN_CLOSE .null do
  ADVANCE_OR_ERROR "Unexpected EOF. Expected if body" .null do
  SUBPARSE self.parse_statement fun body => do
  let last_token ← current_token
  let read_success ← advance
  if read_success then
    let next ← current_token
    if next.type = .KEYWORD ∧ get_keyword_type next = kw_else then
      ADVANCE_OR_ERROR "Unexpected EOF after else" .null do
      SUBPARSE self.parse_statement fun else_stmt =>
      return .if_stmt tok.loc condition body (some else_stmt)
    else
      rewind last_token
      return .if_stmt tok.loc condition body none
  else return .if_stmt tok.loc condition body none

/-- The member function `parse_do_while`. -/
def parse_do_while (self : parser_fns) : P Node := do
  let tok ← current_token
  assert_that (tok.type = .KEYWORD ∧ get_keyword_type tok = kw_do) .do_while_token
  ADVANCE_OR_ERROR "Unexpected EOF after do" .null do
  SUBPARSE self.parse_statement fun body =>
  ADVANCE_OR_ERROR "Unexpected EOF. Expected 'while'" .null do
  EXPECT .KEYWORD .null do
  let kw ← current_token
  if get_keyword_type kw ≠ kw_while then
    set_error "Expected while after do" kw.loc
    return .null
  else
    ADVANCE_OR_ERROR "Unexpected EOF after do...while" .null do
    EXPECT .PAREN_OPEN .null do
    ADVANCE_OR_ERROR "Unexpected EOF after do...while(" .null do
    SUBPARSE (self.parse_expression true) fun condition =>
    ADVANCE_OR_ERROR "Unexpected EOF after do...while condition" .null do
    EXPECT .PAREN_CLOSE .null do
    return .do_while tok.loc condition body

/-- The member function `parse_while_stmt`. -/
def parse_while_stmt (self : parser_fns) : P Node := do
  let tok ← current_token
  assert_that (tok.type = .KEYWORD ∧ get_keyword_type tok = kw_while) .while_stmt_token
  ADVANCE_OR_ERROR "Unexpected EOF after while" .null do
  EXPECT .PAREN_OPEN .null do
  ADVANCE_OR_ERROR "Unexpected EOF after while(" .null do
  SUBPARSE (self.parse_expression true) fun condition =>
  ADVANCE_OR_ERROR "Unexpected EOF after while condition" .null do
  EXPECT .PAREN_CLOSE .null do
  ADVANCE_OR_ERROR "Unexpected EOF. Expected while body" .null do
  SUBPARSE self.parse_statement fun body =>
  return .while_stmt tok.loc condition body

/-- The end of `parse_for_stmt`: the C-style `for (...;...;...)`, from the `rewind`
of the declaration keyword on. -/
def for_c_style (self : parser_fns) (for_tok : token) (keyword : Option token) : P Node := do
  match keyword with
  | some kw => rewind kw
  | none => pure ()
  SUBPARSE self.parse_statement fun pre_stmt =>
  EXPECT .SEMICOLON .null do
  ADVANCE_OR_ERROR "Unexpected EOF after for-loop pre-statement" .null do
  SUBPARSE (self.parse_expression true) fun condition =>
  ADVANCE_OR_ERROR "Unexpected EOF after for-loop condition" .null do
  EXPECT .SEMICOLON .null do
  ADVANCE_OR_ERROR "Unexpected EOF after for-loop condition;" .null do
  SUBPARSE self.parse_statement fun latch_stmt =>
  ADVANCE_OR_ERROR "Unexpected EOF after for-loop latch stmt" .null do
  EXPECT .PAREN_CLOSE .null do
  ADVANCE_OR_ERROR "Unexpected EOF after for(...)" .null do
  SUBPARSE self.parse_statement fun body =>
  return .for_stmt for_tok.loc pre_stmt condition latch_stmt body

/-- The middle of `parse_for_stmt`: the attempt at `for (... in ...)` and
`for (... of ...)`, after the optional declaration keyword. -/
def for_in_of (self : parser_fns) (for_tok : token) (keyword : Option token) : P Node := do
  let var ← current_token
  if var.type = .IDENTIFIER then
    ADVANCE_OR_ERROR "Unexpected EOF in for head" .null do
    let next ← current_token
    if next.type = .IDENTIFIER ∧ next.text = "of" then
      ADVANCE_OR_ERROR "Unexpected EOF after for (... of" .null do
      SUBPARSE (self.parse_expression true) fun iterable =>
      ADVANCE_OR_ERROR "Unexpected EOF after for (... of <iterable>" .null do
      EXPECT .PAREN_CLOSE .null do
      ADVANCE_OR_ERROR "Unexpected EOF after for (... of <iterable>)" .null do
      SUBPARSE self.parse_statement fun body =>
      return .for_of for_tok.loc (keyword.map token.text) var.text iterable body
    else if next.type = .KEYWORD ∧ get_keyword_type next = kw_in then
      ADVANCE_OR_ERROR "Unexpected EOF after for (... in" .null do
      SUBPARSE (self.parse_expression true) fun iterable =>
      ADVANCE_OR_ERROR "Unexpected EOF after for (... in <iterable>" .null do
      EXPECT .PAREN_CLOSE .null do
      ADVANCE_OR_ERROR "Unexpected EOF after for (... in <iterable>)" .null do
      SUBPARSE self.parse_statement fun body =>
      return .for_in for_tok.loc (keyword.map token.text) var.text iterable body
    else
      rewind var
      for_c_style self for_tok keyword
  else
    for_c_style self for_tok keyword

/-- The member function `parse_for_stmt`. -/
def parse_for_stmt (self : parser_fns) : P Node := do
  let for_tok ← current_token
  assert_that (for_tok.type = .KEYWORD ∧ get_keyword_type for_tok = kw_for) .for_stmt_token
  ADVANCE_OR_ERROR "Unexpected EOF after for" .null do
  EXPECT .PAREN_OPEN .null do
  ADVANCE_OR_ERROR "Unexpected EOF after for (" .null do
  let kw ← current_token
  if kw.type = .KEYWORD ∧ is_var_decl_kw kw then
    ADVANCE_OR_ERROR "Unexpected EOF after variable decl keyword" .null do
    EXPECT .IDENTIFIER .null do
    for_in_of self for_tok (some kw)
  else
    for_in_of self for_tok none

/-- The member function `parse_switch_stmt`, up to its loop over the clauses. -/
def parse_switch_stmt (self : parser_fns) : P Node := do
  let tok ← current_token
  assert_that (tok.type = .KEYWORD ∧ get_keyword_type tok = kw_switch) .switch_stmt_token
  ADVANCE_OR_ERROR "Unexpected EOF after switch" .null do
  EXPECT .PAREN_OPEN .null do
  ADVANCE_OR_ERROR "Unexpected EOF after switch (" .null do
  SUBPARSE (self.parse_expression true) fun value =>
  ADVANCE_OR_ERROR "Unexpected EOF after switch value" .null do
  EXPECT .PAREN_CLOSE .null do
  ADVANCE_OR_ERROR "Unexpected EOF after switch (value)" .null do
  EXPECT .BRACE_OPEN .null do
  ADVANCE_OR_ERROR "Unexpected EOF after switch (value) \x7b" .null do
  self.switch_clauses_loop tok.loc value false []

/-- The outer loop of `parse_switch_stmt`, one round from its top: `loc` and
`value` are those of the `switch_stmt` under construction, `clauses` the clauses
appended so far. -/
def switch_clauses_loop (self : parser_fns) (loc : source_location) (value : Node)
    (hasDefault : Bool) (clauses : List Node) : P Node :=
  EXPECT_SEVERAL [.KEYWORD, .BRACE_CLOSE] .null do
  let tok ← current_token
  if tok.type = .BRACE_CLOSE then
    return .switch_stmt loc value clauses
  else if get_keyword_type tok = kw_default then
    if hasDefault then
      set_error "Switch statement already has a default clause" tok.loc
      return .null
    else
      ADVANCE_OR_ERROR "Unexpected EOF after default" .null do
      EXPECT .COLON .null do
      ADVANCE_OR_ERROR "Unexpected EOF after colon (switch clause)" .null do
      self.switch_stmts_loop loc value true clauses (.switch_clause tok.loc [])
  else if get_keyword_type tok = kw_case then
    ADVANCE_OR_ERROR "Unexpected EOF after case" .null do
    SUBPARSE (self.parse_expression true) fun condition =>
    ADVANCE_OR_ERROR "Unexpected EOF after case condition" .null do
    EXPECT .COLON .null do
    ADVANCE_OR_ERROR "Unexpected EOF after colon (switch clause)" .null do
    self.switch_stmts_loop loc value hasDefault clauses (.case_node tok.loc [] condition)
  else
    set_error "Unexpected keyword in switch" tok.loc
    return .null

/-- The inner loop of `parse_switch_stmt`, one round from its top: `clause` is the
clause whose statements are being read; it is the last clause of the
`switch_stmt`, after `clauses`. -/
def switch_stmts_loop (self : parser_fns) (loc : source_location) (value : Node)
    (hasDefault : Bool) (clauses : List Node) (clause : Node) : P Node := do
  let tok ← current_token
  if (tok.type = .KEYWORD ∧
        (get_keyword_type tok = kw_case ∨ get_keyword_type tok = kw_default)) ∨
      (tok.type ≠ .KEYWORD ∧ tok.type = .BRACE_CLOSE) then
    self.switch_clauses_loop loc value hasDefault (clauses ++ [clause])
  else
    SUBPARSE self.parse_statement fun stmt =>
    ADVANCE_OR_ERROR "Unexpected EOF in switch clauses block" .null do
    self.switch_stmts_loop loc value hasDefault clauses (clause.add_stmt stmt)

/-- The member function `parse_return_stmt`. -/
def parse_return_stmt (self : parser_fns) : P Node := do
  let tok ← current_token
  assert_that (tok.type = .KEYWORD ∧ get_keyword_type tok = kw_return) .return_stmt_token
  let read_success ← advance
  let next ← current_token
  if read_success ∧ !is_stmt_end next then
    SUBPARSE (self.parse_expression true) fun expr =>
    return .return_stmt tok.loc (some expr)
  else return .return_stmt tok.loc none

/-- The member function `parse_throw_stmt`. -/
def parse_throw_stmt (self : parser_fns) : P Node := do
  let tok ← current_token
  assert_that (tok.type = .KEYWORD ∧ get_keyword_type tok = kw_throw) .throw_stmt_token
  ADVANCE_OR_ERROR "Unexpected EOF after throw" .null do
  SUBPARSE (self.parse_expression true) fun expr =>
  return .throw_stmt tok.loc expr

/-- The end of `parse_try_stmt`: the optional `finally` and the final check. -/
def try_finally (self : parser_fns) (loc : source_location) (body : Node)
    (catch_block : Option Node) : P Node := do
  let tok ← current_token
  if tok.type = .KEYWORD ∧ get_keyword_type tok = kw_finally then
    ADVANCE_OR_ERROR "Unexpected EOF after finally" .null do
    EXPECT .BRACE_OPEN .null do
    SUBPARSE self.parse_block fun finally_block =>
    return .try_stmt loc body catch_block (some finally_block)
  else if catch_block.isNone then
    set_error "Encountered try without any catch or finally block" tok.loc
    return .null
  else return .try_stmt loc body catch_block none

/-- The member function `parse_try_stmt`. -/
def parse_try_stmt (self : parser_fns) : P Node := do
  let tok ← current_token
  assert_that (tok.type = .KEYWORD ∧ get_keyword_type tok = kw_try) .try_stmt_token
  ADVANCE_OR_ERROR "Unexpected EOF after try" .null do
  EXPECT .BRACE_OPEN .null do
  SUBPARSE self.parse_block fun body =>
  ADVANCE_OR_ERROR "Unexpected EOF after try \x7b\x7d" .null do
  let kw ← current_token
  if kw.type = .KEYWORD ∧ get_keyword_type kw = kw_catch then
    ADVANCE_OR_ERROR "Unexpected EOF after catch" .null do
    EXPECT .PAREN_OPEN .null do
    ADVANCE_OR_ERROR "Unexpected EOF after catch(" .null do
    EXPECT .IDENTIFIER .null do
    let id ← current_token
    ADVANCE_OR_ERROR "Unexpected EOF after catch(<name>" .null do
    EXPECT .PAREN_CLOSE .null do
    ADVANCE_OR_ERROR "Unexpected EOF after catch(<name>)" .null do
    EXPECT .BRACE_OPEN .null do
    SUBPARSE self.parse_block fun catch_block => do
    let ctch := Node.catch_node kw.loc id.text catch_block
    let read_success ← advance
    if !read_success then
      return .try_stmt tok.loc body (some ctch) none
    else try_finally self tok.loc body (some ctch)
  else
    try_finally self tok.loc body none

/-- The member function `parse_expression`. -/
def parse_expression (self : parser_fns) (comma_is_operator : Bool) : P Node := do
  let expr ← self.parse_unary_or_atomic_expr
  if !expr.isNull then
    let final_token ← current_token
    let read_success ← advance
    if !read_success then return expr
    else
      let tok ← current_token
      if is_expression_end tok comma_is_operator then
        rewind final_token
        return expr
      else if is_binary_operator tok comma_is_operator then
        self.parse_bin_op expr comma_is_operator
      else
        rewind final_token
        return expr
  else if (← has_error) then return .null
  else
    let tok ← current_token
    set_error "Not implemented (parse expression)" tok.loc
    return .null

/-- The member function `parse_unary_or_atomic_expr`. -/
def parse_unary_or_atomic_expr (self : parser_fns) : P Node := do
  let op ← current_token
  if is_unary_prefix_op op then
    ADVANCE_OR_ERROR "Unexpected EOF after unary prefix operator" .null do
    SUBPARSE self.parse_atomic_expr fun value => do
    let expr ← make_unary_prefix_op op value
    ASSERT_PARSE_RESULT expr do
    return expr
  else
    let expr ← self.parse_atomic_expr
    ASSERT_PARSE_RESULT expr do
    return expr

/-- The member function `parse_number_literal`. -/
def parse_number_literal : P Node := do
  let literal ← current_token
  let res ← make_number_expression literal
  let read_success ← advance
  let next ← current_token
  if !read_success ∨ is_follow_expression next then
    if read_success then
      rewind literal
      return res
    else return res
  else
    set_error "Unexpected token after number literal" next.loc
    return .null

/-- The member function `parse_string_literal`. -/
def parse_string_literal : P Node := do
  let str ← current_token
  assert_that (str.type = .STRING_LITERAL ∨ str.type = .TEMPLATE_STRING) .string_literal_token
  let read_success ← advance
  let next ← current_token
  if !read_success ∨ is_follow_expression next then
    if read_success then
      rewind str
      return .string_literal str.loc str.text
    else return .string_literal str.loc str.text
  else
    set_error "Unexpected token after string literal" next.loc
    return .null

/-- The member function `parse_member_access`. -/
def parse_member_access (base : Node) : P Node := do
  let dot ← current_token
  assert_that (dot.type = .DOT) .member_access_token
  ADVANCE_OR_ERROR "Unexpected EOF while parsing member access" .null do
  EXPECT .IDENTIFIER .null do
  let member ← current_token
  return .member_access dot.loc base member.text

/-- The end of `parse_atomic_expr`: one postfix `++` or `--`, if present. -/
def atomic_postfix_step (expr : Node) : P Node := do
  let prev_token ← current_token
  let read_success ← advance
  if read_success then
    let tok ← current_token
    if tok.type = .INCR then
      return .unary_expr .postfix_increment tok.loc expr
    else if tok.type = .DECR then
      return .unary_expr .postfix_decrement tok.loc expr
    else
      rewind prev_token
      return expr
  else return expr

/-- The first loop of `parse_atomic_expr`, one round from its top: member
accesses, calls and computed member accesses after the expression `expr`. -/
def atomic_postfix_loop (self : parser_fns) (expr : Node) : P Node := do
  let prev_token ← current_token
  let read_success ← advance
  if read_success then
    let tok ← current_token
    if tok.type = .DOT then
      let access ← parse_member_access expr
      self.atomic_postfix_loop access
    else if tok.type = .PAREN_OPEN then
      let call ← self.parse_call expr
      self.atomic_postfix_loop call
    else if tok.type = .BRACKET_OPEN then
      let access ← self.parse_computed_access expr
      self.atomic_postfix_loop access
    else
      rewind prev_token
      return expr
  else
    return expr

/-- The start of `parse_atomic_expr`: the expression its `if` chain picks for the
current token (`null` if no case applies). -/
def atomic_start (self : parser_fns) : P Node := do
  let tok ← current_token
  if tok.type = .KEYWORD then self.parse_atomic_keyword_expr
  else if tok.type = .IDENTIFIER then return .identifier_expr tok.loc tok.text
  else if tok.is_number_literal then parse_number_literal
  else if tok.type = .STRING_LITERAL ∨ tok.type = .TEMPLATE_STRING then parse_string_literal
  else if tok.type = .TEMPLATE_HEAD then self.parse_template_literal
  else if tok.type = .REGEX_LITERAL then return .regex_literal tok.loc tok.text
  else if tok.type = .BRACKET_OPEN then self.parse_array_literal
  else if tok.type = .BRACE_OPEN then self.parse_object_literal
  else if tok.type = .PAREN_OPEN then self.parse_parens_expr
  else return .null

/-- The member function `parse_atomic_expr`. -/
def parse_atomic_expr (self : parser_fns) : P Node := do
  let expr ← atomic_start self
  if expr.isNull then
    if !(← has_error) then
      let cur ← current_token
      set_error ("Unexpected token: " ++ to_string cur.type ++ ". Expected atomic expression")
        cur.loc
      return .null
    else return .null
  else
    let chain ← self.atomic_postfix_loop expr
    atomic_postfix_step chain

/-- The fold at the end of `parse_parens_expr`: the expressions of the list,
joined from left to right by comma operators. -/
def comma_fold (first : Node) (rest : List Node) : Node :=
  rest.foldl (fun expr next => Node.bin_op_expr .comma_operator expr.loc expr next) first

/-- The arrow function of `parse_parens_expr`, from the test of
`reason_no_paramlist` on. -/
def parens_arrow (self : parser_fns) (loc : source_location)
    (reason_no_paramlist rest_param : Option token) (exprs : List Node) : P Node := do
  match reason_no_paramlist with
  | some reason =>
    set_error "Invalid entry in arrow function param list" reason.loc
    return .null
  | none =>
    let params := Node.param_list loc (exprs.map Node.str) (rest_param.map token.text)
    ADVANCE_OR_ERROR "Unexpected EOF after arrow" .null do
    let start ← current_token
    let body ←
      if start.type = .BRACE_OPEN then self.parse_block_or_obj true
      else self.parse_expression false
    ASSERT_PARSE_RESULT body do
    return .arrow_function loc params body

/-- The end of `parse_parens_expr`, from the `EXPECT(PAREN_CLOSE, nullptr)` after
the list on. -/
def parens_tail (self : parser_fns) (loc : source_location)
    (reason_no_paramlist rest_param : Option token) (exprs : List Node) : P Node :=
  EXPECT .PAREN_CLOSE .null do
  let paren_close ← current_token
  let read_success ← advance
  let tok ← current_token
  if read_success ∧ tok.type = .ARROW then
    parens_arrow self loc reason_no_paramlist rest_param exprs
  else
    if read_success then rewind paren_close
    match rest_param with
    | some rest =>
      set_error "Unexpected token" rest.loc
      return .null
    | none =>
      match exprs with
      | [] =>
        assert_that False .front_of_empty_vector
        return .null
      | first :: others => return comma_fold first others

/-- The loop of `parse_parens_expr`, one round from its top. -/
def parens_list_loop (self : parser_fns) (loc : source_location)
    (reason_no_paramlist : Option token) (exprs : List Node) : P Node := do
  let begin ← current_token
  if begin.type = .DOTDOTDOT then
    ADVANCE_OR_ERROR "Unexpected EOF after rest operator" .null do
    EXPECT .IDENTIFIER .null do
    let rest ← current_token
    ADVANCE_OR_ERROR "Unexpected EOF in param list" .null do
    EXPECT .PAREN_CLOSE .null do
    parens_tail self loc reason_no_paramlist (some { rest with loc := begin.loc }) exprs
  else
    SUBPARSE (self.parse_expression false) fun expr => do
    assert_that (!expr.isNull) .isa_null_node
    let reason :=
      if reason_no_paramlist.isNone ∧ !expr.isa_identifier_expr then some begin
      else reason_no_paramlist
    ADVANCE_OR_ERROR "Unexpected EOF before closing parenthesis was encountered" .null do
    EXPECT_SEVERAL [.PAREN_CLOSE, .COMMA] .null do
    let tok ← current_token
    if tok.type = .PAREN_CLOSE then
      parens_tail self loc reason none (exprs ++ [expr])
    else if tok.type = .COMMA then
      ADVANCE_OR_ERROR "Unexpected EOF before closing parenthesis was encountered" .null do
      self.parens_list_loop loc reason (exprs ++ [expr])
    else
      self.parens_list_loop loc reason (exprs ++ [expr])

/-- The member function `parse_parens_expr`. -/
def parse_parens_expr (self : parser_fns) : P Node := do
  let open_ ← current_token
  assert_that (open_.type = .PAREN_OPEN) .parens_expr_token
  ADVANCE_OR_ERROR "Unexpected EOF after opening parenthesis" .null do
  let tok ← current_token
  if tok.type ≠ .PAREN_CLOSE then
    self.parens_list_loop open_.loc none []
  else
    parens_tail self open_.loc none none []

/-- The end of `parse_bin_op`, from `auto prev_token = current_token` on: `binop`
is the operation just built for the operator `op`. -/
def bin_op_tail (ops : operators_def) (self : parser_fns) (op : token) (binop : Node)
    (comma_is_operator : Bool) : P Node := do
  let prev_token ← current_token
  let read_success ← advance
  if !read_success then return binop
  else
    let next ← current_token
    if is_expression_end next comma_is_operator then
      rewind prev_token
      return binop
    else if is_binary_operator next comma_is_operator then
      let current_prec := get_precedence ops op
      let next_prec := get_precedence ops next
      if next_prec > current_prec then
        SUBPARSE (self.parse_bin_op binop.rhs comma_is_operator) fun new_rhs =>
        return binop.set_rhs new_rhs
      else if next_prec = current_prec then
        assert_that (is_binary_operator op true) .associativity_operator
        if get_associativity ops op = .RIGHT_TO_LEFT then
          SUBPARSE (self.parse_bin_op binop.rhs comma_is_operator) fun new_rhs =>
          return binop.set_rhs new_rhs
        else
          SUBPARSE (self.parse_bin_op binop comma_is_operator) fun new_binop =>
          return new_binop
      else
        SUBPARSE (self.parse_bin_op binop comma_is_operator) fun new_binop =>
        return new_binop
    else
      set_error "Unexpected token after binop expression" next.loc
      return .null

/-- The member function `parse_bin_op`. -/
def parse_bin_op (ops : operators_def) (self : parser_fns) (lhs : Node)
    (comma_is_operator : Bool) : P Node := do
  let op ← current_token
  assert_that (is_binary_operator op comma_is_operator) .bin_op_token
  ADVANCE_OR_ERROR "Unexpected EOF. Expected right hand side argument of binary operation"
    .null do
  if op.type = .QMARK then
    SUBPARSE (self.parse_expression false) fun mid =>
    ADVANCE_OR_ERROR "Unexpected EOF. Expected colon for ternary operator (?:)" .null do
    EXPECT .COLON .null do
    ADVANCE_OR_ERROR "Unexpected EOF. Expected third argument to ternary operator (?:)"
      .null do
    SUBPARSE (self.parse_expression false) fun rhs =>
    bin_op_tail ops self op (.ternary_operator op.loc lhs mid rhs) comma_is_operator
  else
    SUBPARSE self.parse_unary_or_atomic_expr fun rhs => do
    let binop ← make_binary_expr op lhs rhs
    bin_op_tail ops self op binop comma_is_operator

/-- The member function `parse_atomic_keyword_expr`. -/
def parse_atomic_keyword_expr (self : parser_fns) : P Node :=
  EXPECT .KEYWORD .null do
  let tok ← current_token
  let kwty := get_keyword_type tok
  if kwty = kw_class then parse_class_expr
  else if kwty = kw_function then self.parse_function_expr
  else if kwty = kw_new then self.parse_new_keyword
  else
    set_error "Not implemented (keyword)" tok.loc
    return .null

/-- The member function `parse_new_keyword`. -/
def parse_new_keyword (self : parser_fns) : P Node := do
  let tok ← current_token
  assert_that (tok.type = .KEYWORD ∧ get_keyword_type tok = kw_new) .new_keyword_token
  ADVANCE_OR_ERROR "Unexpected EOF after new" .null do
  let next ← current_token
  if next.type = .DOT then
    ADVANCE_OR_ERROR "Unexpected EOF after new." .null do
    EXPECT .IDENTIFIER .null do
    let target ← current_token
    if target.text ≠ "target" then
      set_error "Expected new.target after new." target.loc
      return .null
    else return .new_target tok.loc
  else
    SUBPARSE self.parse_atomic_expr fun constructor_ => do
    assert_that (!constructor_.isNull) .isa_null_node
    match constructor_ with
    | .call_expr _ callee args => return .new_expr tok.loc callee (some args)
    | _ => return .new_expr tok.loc constructor_ none

/-- The loop of `parse_template_literal`, one round from its top. -/
def template_loop (self : parser_fns) (loc : source_location) (strs : List String)
    (exprs : List Node) : P Node :=
  ADVANCE_OR_ERROR "Unexpected EOF in template literal" .null do
  SUBPARSE (self.parse_expression true) fun expr =>
  ADVANCE_OR_ERROR "Unexpected EOF after interpolated expression in template literal"
    .null do
  EXPECT_SEVERAL [.TEMPLATE_MIDDLE, .TEMPLATE_END] .null do
  let tok ← current_token
  if tok.type = .TEMPLATE_MIDDLE then
    self.template_loop loc (strs ++ [tok.text]) (exprs ++ [expr])
  else
    assert_that ((strs ++ [tok.text]).length = (exprs ++ [expr]).length + 1) .template_sizes
    return .template_literal loc (strs ++ [tok.text]) (exprs ++ [expr])

/-- The member function `parse_template_literal`. -/
def parse_template_literal (self : parser_fns) : P Node := do
  let head ← current_token
  assert_that (head.type = .TEMPLATE_HEAD) .template_head_token
  self.template_loop head.loc [head.text] []

/-- The member function `parse_function_stmt`. -/
def parse_function_stmt (self : parser_fns) : P Node := do
  let tok ← current_token
  assert_that (tok.type = .KEYWORD ∧ get_keyword_type tok = kw_function) .function_stmt_token
  ADVANCE_OR_ERROR "Unexpected EOF while parsing function" .null do
  EXPECT .IDENTIFIER .null do
  let name ← current_token
  ADVANCE_OR_ERROR "Unexpected EOF while parsing function" .null do
  EXPECT .PAREN_OPEN .null do
  SUBPARSE self.parse_param_list fun params =>
  ADVANCE_OR_ERROR "Unexpected EOF while parsing function" .null do
  EXPECT .BRACE_OPEN .null do
  SUBPARSE self.parse_block fun body =>
  return .function_stmt tok.loc name.text params body

/-- The end of `parse_function_expr`, from `EXPECT(PAREN_OPEN, nullptr)` on. -/
def function_expr_tail (self : parser_fns) (loc : source_location) (name : Option String) :
    P Node :=
  EXPECT .PAREN_OPEN .null do
  SUBPARSE self.parse_param_list fun params =>
  ADVANCE_OR_ERROR "Unexpected EOF while parsing function" .null do
  EXPECT .BRACE_OPEN .null do
  SUBPARSE self.parse_block fun body =>
  return .function_expr loc name params body

/-- The member function `parse_function_expr`. -/
def parse_function_expr (self : parser_fns) : P Node := do
  let tok ← current_token
  assert_that (tok.type = .KEYWORD ∧ get_keyword_type tok = kw_function) .function_expr_token
  ADVANCE_OR_ERROR "Unexpected EOF while parsing function" .null do
  let name ← current_token
  if name.type = .IDENTIFIER then
    ADVANCE_OR_ERROR "Unexpected EOF while parsing function" .null do
    function_expr_tail self tok.loc (some name.text)
  else
    function_expr_tail self tok.loc none

/-- The last test of `parse_param_list`: the closing parenthesis. -/
def param_list_close (loc : source_location) (names : List String) (rest : Option String) :
    P Node := do
  let tok ← current_token
  if tok.type = .PAREN_CLOSE then return .param_list loc names rest
  else
    set_error "Unexpected token in parameter list" tok.loc
    return .null

/-- The end of `parse_param_list`, after its loop: the optional rest parameter
and the closing parenthesis. -/
def param_list_tail (loc : source_location) (names : List String) : P Node := do
  let tok ← current_token
  if tok.type = .DOTDOTDOT then
    ADVANCE_OR_ERROR "Unexpected EOF while parsing parameter list" .null do
    let rest ← current_token
    if rest.type = .IDENTIFIER then
      ADVANCE_OR_ERROR "Unexpected EOF while parsing parameter list" .null do
      param_list_close loc names (some rest.text)
    else param_list_close loc names none
  else param_list_close loc names none

/-- The loop of `parse_param_list`, one round from its top. -/
def param_list_loop (self : parser_fns) (loc : source_location) (names : List String) :
    P Node :=
  ADVANCE_OR_ERROR "Unexpected EOF while parsing parameter list" .null do
  let tok ← current_token
  if tok.type = .IDENTIFIER then
    ADVANCE_OR_ERROR "Unexpected EOF while parsing parameter list" .null do
    let next ← current_token
    if next.type = .COMMA then self.param_list_loop loc (names ++ [tok.text])
    else param_list_tail loc (names ++ [tok.text])
  else if tok.type = .COMMA then self.param_list_loop loc names
  else param_list_tail loc names

/-- The member function `parse_param_list`. -/
def parse_param_list (self : parser_fns) : P Node := do
  let tok ← current_token
  assert_that (tok.type = .PAREN_OPEN) .param_list_token
  self.param_list_loop tok.loc []

/-- The loop of `parse_block`, one round from its test. -/
def block_loop (self : parser_fns) (loc : source_location) (stmts : List Node) : P Node := do
  let tok ← current_token
  if tok.type ≠ .BRACE_CLOSE then
    assert_that (tok.type ≠ .BRACE_OPEN) .block_brace_open
    let stmt ← self.parse_statement
    ADVANCE_OR_ERROR "Unexpected EOF while parsing block" .null do
    self.block_loop loc (stmts ++ [stmt])
  else
    return .block loc stmts

/-- The member function `parse_block`. -/
def parse_block (self : parser_fns) : P Node :=
  EXPECT .BRACE_OPEN .null do
  let tok ← current_token
  ADVANCE_OR_ERROR "Unexpected EOF while parsing block" .null do
  self.block_loop tok.loc []

/-- The assignment `part->init = init` on the last part of a declaration. -/
def set_last_init (init : Node) : List Node → List Node
  | [] => []
  | [part] => [part.set_init init]
  | part :: parts => part :: set_last_init init parts

/-- The loop of `parse_var_decl`, one round from its top: `parts` are the parts
of the declaration so far, the last one being `part`. -/
def var_decl_loop (self : parser_fns) (loc : source_location) (keyword : String)
    (parts : List Node) : P Node := do
  let end_token ← current_token
  let read_success ← advance
  if read_success then
    let tok ← current_token
    if tok.type = .EQ then
      ADVANCE_OR_ERROR "Unexpected EOF in variable initialization. Expected expression"
        .null do
      SUBPARSE (self.parse_expression false) fun init =>
      self.var_decl_loop loc keyword (set_last_init init parts)
    else if tok.type = .COMMA then
      ADVANCE_OR_ERROR "Unexpected EOF in variable declaration" .null do
      EXPECT .IDENTIFIER .null do
      let id ← current_token
      self.var_decl_loop loc keyword (parts ++ [.var_decl_part id.loc id.text none])
    else
      rewind end_token
      return .var_decl loc keyword parts
  else
    return .var_decl loc keyword parts

/-- The member function `parse_var_decl`. -/
def parse_var_decl (self : parser_fns) : P Node := do
  let tok ← current_token
  assert_that (is_var_decl_kw tok) .var_decl_token
  ADVANCE_OR_ERROR "Unecpected EOF while parsing variable declaration" .null do
  EXPECT .IDENTIFIER .null do
  let id ← current_token
  self.var_decl_loop tok.loc tok.text [.var_decl_part id.loc id.text none]

/-- The end of a round of the loop of `parse_array_literal`, after the value
`expr` was appended. -/
def array_entry_end (self : parser_fns) (loc : source_location) (values : List Node) :
    P Node :=
  ADVANCE_OR_ERROR "Unexpected EOF inside array literal" .null do
  EXPECT_SEVERAL [.BRACKET_CLOSE, .COMMA] .null do
  let next ← current_token
  if next.type = .BRACKET_CLOSE then
    return .array_literal loc values
  else if next.type = .COMMA then
    ADVANCE_OR_ERROR "Unexpected EOF inside array literal" .null do
    self.array_loop loc values
  else self.array_loop loc values

/-- The loop of `parse_array_literal`, one round from its top. -/
def array_loop (self : parser_fns) (loc : source_location) (values : List Node) : P Node := do
  let tok ← current_token
  if tok.type = .DOTDOTDOT then
    ADVANCE_OR_ERROR "Unexpected EOF after spread operator" .null do
    let list ← self.parse_expression false
    array_entry_end self loc (values ++ [.spread_expr tok.loc list])
  else
    let expr ← self.parse_expression false
    array_entry_end self loc (values ++ [expr])

/-- The member function `parse_array_literal`. -/
def parse_array_literal (self : parser_fns) : P Node := do
  let tok ← current_token
  assert_that (tok.type = .BRACKET_OPEN) .array_literal_token
  ADVANCE_OR_ERROR "Unexpected EOF inside array literal" .null do
  let first ← current_token
  if first.type ≠ .BRACKET_CLOSE then
    self.array_loop first.loc []
  else
    return .array_literal first.loc []

/-- The end of a round of the loop of `parse_object_literal`, after an entry. -/
def object_entry_end (self : parser_fns) (loc : source_location) (entries : List Node) :
    P Node :=
  ADVANCE_OR_ERROR "Unexpected EOF in object literal" .null do
  EXPECT_SEVERAL [.BRACE_CLOSE, .COMMA] .null do
  let tok ← current_token
  if tok.type = .COMMA then
    ADVANCE_OR_ERROR "Unexpected EOF in object literal" .null do
    self.object_loop loc entries
  else self.object_loop loc entries

/-- The loop of `parse_object_literal`, one round from its top. -/
def object_loop (self : parser_fns) (loc : source_location) (entries : List Node) :
    P Node := do
  let tok ← current_token
  if tok.type = .BRACE_CLOSE then
    EXPECT .BRACE_CLOSE .null do
    return .object_literal loc entries
  else if tok.type = .DOTDOTDOT then
    ADVANCE_OR_ERROR "Unexpected EOF after spread operator" .null do
    let expr ← self.parse_expression false
    object_entry_end self loc (entries ++ [.spread_expr tok.loc expr])
  else if is_possible_object_key tok then
    ADVANCE_OR_ERROR "Unexpected EOF in object literal" .null do
    let next ← current_token
    if next.type ≠ .COLON then
      rewind tok
      object_entry_end self loc (entries ++ [.identifier_expr tok.loc tok.text])
    else
      ADVANCE_OR_ERROR "Unexpected EOF in object literal" .null do
      let val ← self.parse_expression false
      object_entry_end self loc (entries ++ [.object_entry tok.loc tok.text val])
  else
    set_error "Unexpected token" tok.loc
    return .null

/-- The member function `parse_object_literal`. -/
def parse_object_literal (self : parser_fns) : P Node := do
  let tok ← current_token
  assert_that (tok.type = .BRACE_OPEN) .object_literal_token
  ADVANCE_OR_ERROR "Unexpected EOF in object literal" .null do
  self.object_loop tok.loc []

/-- The member function `parse_computed_access`. -/
def parse_computed_access (self : parser_fns) (base : Node) : P Node := do
  let tok ← current_token
  assert_that (tok.type = .BRACKET_OPEN) .computed_access_token
  ADVANCE_OR_ERROR "Unexpected EOF inside computed member access" .null do
  SUBPARSE (self.parse_expression true) fun member =>
  ADVANCE_OR_ERROR "Unexpected EOF inside computed member access" .null do
  EXPECT .BRACKET_CLOSE .null do
  return .computed_member_access tok.loc base member

/-- The loop of `parse_call`, one round from its top: `loc` is the location of
the call and of its argument list, `values` the arguments so far. -/
def call_loop (self : parser_fns) (loc : source_location) (callee : Node)
    (values : List Node) : P Node :=
  SUBPARSE (self.parse_expression false) fun arg =>
  ADVANCE_OR_ERROR "Unexpected EOF in argument list" .null do
  let tok ← current_token
  if tok.type = .COMMA then
    ADVANCE_OR_ERROR "Unexpected EOF in argument list" .null do
    self.call_loop loc callee (values ++ [arg])
  else if tok.type = .PAREN_CLOSE then
    assert_that (tok.type = .PAREN_CLOSE) .call_token
    return .call_expr loc callee (.argument_list loc (values ++ [arg]))
  else
    set_error "Unexpected token in argument list" tok.loc
    return .null

/-- The member function `parse_call`. -/
def parse_call (self : parser_fns) (callee : Node) : P Node := do
  let tok ← current_token
  assert_that (tok.type = .PAREN_OPEN) .call_token
  ADVANCE_OR_ERROR "Unexpected EOF after begin of argument list" .null do
  let next ← current_token
  if next.type = .PAREN_CLOSE then
    return .call_expr tok.loc callee (.argument_list tok.loc [])
  else self.call_loop tok.loc callee []

/-- The member function `parse_block_or_obj`. -/
def parse_block_or_obj (self : parser_fns) (_prefer_block_over_obj : Bool) : P Node :=
  EXPECT .BRACE_OPEN .null do
  self.parse_block

/-- The parser's functions with `fuel` nested calls left: each call of a member
function or round of a loop uses one unit. -/
def parsers (ops : operators_def) : Nat → parser_fns
  | 0 =>
    { parse_statement := out_of_fuel, parse_keyword_stmt := out_of_fuel,
      parse_keyword_expr := out_of_fuel, parse_if_stmt := out_of_fuel,
      parse_do_while := out_of_fuel, parse_while_stmt := out_of_fuel,
      parse_for_stmt := out_of_fuel, parse_switch_stmt := out_of_fuel,
      switch_clauses_loop := fun _ _ _ _ => out_of_fuel,
      switch_stmts_loop := fun _ _ _ _ _ => out_of_fuel,
      parse_return_stmt := out_of_fuel, parse_throw_stmt := out_of_fuel,
      parse_try_stmt := out_of_fuel, parse_expression := fun _ => out_of_fuel,
      parse_unary_or_atomic_expr := out_of_fuel, parse_atomic_expr := out_of_fuel,
      atomic_postfix_loop := fun _ => out_of_fuel, parse_parens_expr := out_of_fuel,
      parens_list_loop := fun _ _ _ => out_of_fuel,
      parse_bin_op := fun _ _ => out_of_fuel,
      parse_atomic_keyword_expr := out_of_fuel, parse_new_keyword := out_of_fuel,
      parse_template_literal := out_of_fuel, template_loop := fun _ _ _ => out_of_fuel,
      parse_function_stmt := out_of_fuel, parse_function_expr := out_of_fuel,
      parse_param_list := out_of_fuel, param_list_loop := fun _ _ => out_of_fuel,
      parse_block := out_of_fuel, block_loop := fun _ _ => out_of_fuel,
      parse_var_decl := out_of_fuel, var_decl_loop := fun _ _ _ => out_of_fuel,
      parse_array_literal := out_of_fuel, array_loop := fun _ _ => out_of_fuel,
      parse_object_literal := out_of_fuel, object_loop := fun _ _ => out_of_fuel,
      parse_computed_access := fun _ => out_of_fuel, parse_call := fun _ => out_of_fuel,
      call_loop := fun _ _ _ => out_of_fuel, parse_block_or_obj := fun _ => out_of_fuel }
  | fuel + 1 =>
    { parse_statement := parse_statement (parsers ops fuel),
      parse_keyword_stmt := parse_keyword_stmt (parsers ops fuel),
      parse_keyword_expr := parse_keyword_expr (parsers ops fuel),
      parse_if_stmt := parse_if_stmt (parsers ops fuel),
      parse_do_while := parse_do_while (parsers ops fuel),
      parse_while_stmt := parse_while_stmt (parsers ops fuel),
      parse_for_stmt := parse_for_stmt (parsers ops fuel),
      parse_switch_stmt := parse_switch_stmt (parsers ops fuel),
      switch_clauses_loop := switch_clauses_loop (parsers ops fuel),
      switch_stmts_loop := switch_stmts_loop (parsers ops fuel),
      parse_return_stmt := parse_return_stmt (parsers ops fuel),
      parse_throw_stmt := parse_throw_stmt (parsers ops fuel),
      parse_try_stmt := parse_try_stmt (parsers ops fuel),
      parse_expression := parse_expression (parsers ops fuel),
      parse_unary_or_atomic_expr := parse_unary_or_atomic_expr (parsers ops fuel),
      parse_atomic_expr := parse_atomic_expr (parsers ops fuel),
      atomic_postfix_loop := atomic_postfix_loop (parsers ops fuel),
      parse_parens_expr := parse_parens_expr (parsers ops fuel),
      parens_list_loop := parens_list_loop (parsers ops fuel),
      parse_bin_op := parse_bin_op ops (parsers ops fuel),
      parse_atomic_keyword_expr := parse_atomic_keyword_expr (parsers ops fuel),
      parse_new_keyword := parse_new_keyword (parsers ops fuel),
      parse_template_literal := parse_template_literal (parsers ops fuel),
      template_loop := template_loop (parsers ops fuel),
      parse_function_stmt := parse_function_stmt (parsers ops fuel),
      parse_function_expr := parse_function_expr (parsers ops fuel),
      parse_param_list := parse_param_list (parsers ops fuel),
      param_list_loop := param_list_loop (parsers ops fuel),
      parse_block := parse_block (parsers ops fuel),
      block_loop := block_loop (parsers ops fuel),
      parse_var_decl := parse_var_decl (parsers ops fuel),
      var_decl_loop := var_decl_loop (parsers ops fuel),
      parse_array_literal := parse_array_literal (parsers ops fuel),
      array_loop := array_loop (parsers ops fuel),
      parse_object_literal := parse_object_literal (parsers ops fuel),
      object_loop := object_loop (parsers ops fuel),
      parse_computed_access := parse_computed_access (parsers ops fuel),
      parse_call := parse_call (parsers ops fuel),
      call_loop := call_loop (parsers ops fuel),
      parse_block_or_obj := parse_block_or_obj (parsers ops fuel) }

/-- The member function `reset` (the node store and the module are rebuilt by
`parse`; the recorded error is not touched). -/
def reset : P Unit := fun s => some ((), { s with rewind_stack := [] })

/-- The `while` loop of `parse`, one round from its test: `stmts` are the
statements appended to the module so far. -/
def parse_loop (ops : operators_def) : Nat → List Node → P (List Node)
  | 0, _ => out_of_fuel
  | fuel + 1, stmts => do
    if (← has_error) then return stmts
    else
      let read_success ← advance
      if !read_success then return stmts
      else
        let stmt ← (parsers ops fuel).parse_statement
        let error ← has_error
        if stmt.isNull ∨ error then return stmts
        else parse_loop ops fuel (stmts ++ [stmt])

/-- The `parser_base::result`: the module, or a parser error. -/
inductive result where
  | module (ast : Node)
  | error (err : parser_error)
deriving Inhabited

/-- The member function `parse`.  The analysis pass `analyze_js_ast` is not part
of the parser and is a parameter: it gives the report, if it has one. -/
def parse (ops : operators_def) (analyze_js_ast : Node → Option String) (fuel : Nat)
    (verify : Bool) : P result := do
  reset
  let stmts ← parse_loop ops fuel []
  let s ← get
  match s.error with
  | some err => return .error err
  | none =>
    let module := Node.module ⟨0, 0⟩ stmts
    if verify then
      match analyze_js_ast module with
      | some report => return .error ⟨"\n" ++ report, ⟨0, 0⟩⟩
      | none => return .module module
    else
      return .module module

/-! ## Concrete inputs -/

/-- Modelled from the spec: the precedence and associativity columns of
`jnsn/js/operators.def`, which is not part of the sources, filled in with the
ECMAScript operator table that spec §4.2 and the comments of `parser.cc`
("precedence >= 16", ">= 17") refer to: comma 1, assignments 3 (right to left),
`?:` 4 (right to left), `||` 5, `&&` 6, `|` 7, `^` 8, `&` 9, equality 10,
relational, `in` and `instanceof` 11, shifts 12, `+ -` 13, `* / %` 14,
`**` 15 (right to left).  It is used for concrete inputs only. -/
def js_operators : operators_def where
  precedence := fun
    | .COMMA => 1
    | .EQ | .PLUS_EQ | .MINUS_EQ | .MUL_EQ | .DIV_EQ | .MOD_EQ | .POW_EQ
    | .LSH_EQ | .RSH_EQ | .LOG_RSH_EQ | .AND_EQ | .OR_EQ | .CARET_EQ => 3
    | .QMARK => 4
    | .LOG_OR => 5
    | .LOG_AND => 6
    | .VERT_BAR => 7
    | .CARET => 8
    | .AMPERSAND => 9
    | .EQEQ | .EQEQEQ | .NEQ | .NEQEQ => 10
    | .LT | .LT_EQ | .GT | .GT_EQ => 11
    | .LSHIFT | .RSHIFT | .LOG_RSHIFT => 12
    | .PLUS | .MINUS => 13
    | .ASTERISK | .SLASH | .PERCENT => 14
    | .POW => 15
    | _ => -1
  kw_precedence := fun _ => 11
  assoc := fun
    | .EQ | .PLUS_EQ | .MINUS_EQ | .MUL_EQ | .DIV_EQ | .MOD_EQ | .POW_EQ
    | .LSH_EQ | .RSH_EQ | .LOG_RSH_EQ | .AND_EQ | .OR_EQ | .CARET_EQ
    | .QMARK | .POW => .RIGHT_TO_LEFT
    | _ => .LEFT_TO_RIGHT
  kw_assoc := fun _ => .LEFT_TO_RIGHT

/-- Tokens of one source line: the `i`-th token of the list gets the location
`⟨1, i + start⟩`. -/
def tokens_from (start : Nat) : List (token_type × String) → List lexer_result
  | [] => []
  | (type, text) :: rest =>
    .tok ⟨type, text, ⟨1, start⟩⟩ :: tokens_from (start + 1) rest

/-- Tokens of one source line, numbered from column 1. -/
def tokens (l : List (token_type × String)) : List lexer_result := tokens_from 1 l

/-- A newly constructed parser over a lexer: nothing rewound, no error, and an
arbitrary (value-initialised) current token. -/
def fresh_state (lexer : List lexer_result) : parser_base :=
  { lexer := lexer, current_token := ⟨.INT_LITERAL, "", ⟨0, 0⟩⟩, rewind_stack := [],
    error := none, violations := [] }

/-- No analysis pass (for `parse` with `verify = false`). -/
def no_analysis : Node → Option String := fun _ => none

/-- Run `parse(false)` of a newly constructed parser on a lexer, with the
ECMAScript operator table, and give its result (`none`: out of fuel). -/
def parse_fresh (fuel : Nat) (lexer : List lexer_result) : Option result :=
  ((parse js_operators no_analysis fuel false) (fresh_state lexer)).map Prod.fst

/-- Run `parse(false)` on a parser in the state `s` (for instance one left behind
by an earlier call) after the lexer was given a new input, with the ECMAScript
operator table. -/
def parse_again (fuel : Nat) (s : parser_base) (lexer : List lexer_result) :
    Option (result × parser_base) :=
  (parse js_operators no_analysis fuel false) { s with lexer := lexer }

/-- The result is the parser error `e`. -/
def is_error (e : parser_error) : Option result → Bool
  | some (.error e') => decide (e' = e)
  | _ => false

/-- The result is a module. -/
def is_module : Option result → Bool
  | some (.module _) => true
  | _ => false

/-! ## The JSON serializer (`src/lib/js/ast_ops.cc`) -/

/-- The body of the loop of `operator<<(std::ostream &, const json_escape)`: a
backslash is written before a double quote, then the character itself. -/
def json_escape_put (stream : List Char) (c : Char) : List Char :=
  (if c = '"' then stream ++ ['\\'] else stream) ++ [c]

/-- The `operator<<` of `json_escape` in `ast_ops.cc`: the characters written to
the stream for the string `str`. -/
def json_escape (str : List Char) : List Char :=
  str.foldl json_escape_put []

/-- The escape as the spec words it: a backslash inserted before each double
quote, every other character copied unchanged. -/
def escape_spec : List Char → List Char
  | [] => []
  | c :: rest => if c = '"' then '\\' :: '"' :: escape_spec rest else c :: escape_spec rest

/-- Delete the backslash that precedes a double quote. -/
def unescape_spec : List Char → List Char
  | [] => []
  | [c] => [c]
  | c :: d :: rest =>
    if c = '\\' ∧ d = '"' then '"' :: unescape_spec rest else c :: unescape_spec (d :: rest)

/-! ## The node classes and `isa` (`src/lib/js/ast_ops.cc`) -/

/-- Modelled from the spec: `jnsn/js/ast.def` is not part of the sources.  A node
class as its line of `ast.def` declares it: `NODE(NAME, ...)` for a class without
a base among the node classes, `DERIVED(NAME, EXTENDS(BASE), ...)` for a class
that extends the class `BASE`. -/
inductive node_class where
  | NODE (name : String)
  | DERIVED (name : String) (base : node_class)
deriving DecidableEq, Repr

/-- The name `NAME` of a node class (the class is `NAME_node`). -/
def node_class.name : node_class → String
  | .NODE name => name
  | .DERIVED name _ => name

/-- The member functions `accept` of `isa_checker<nodety>`: the one for the class
of the node is called; for a derived class it goes on with the overload for its
base.  `std::is_same_v` compares the two classes, which are the same exactly if
they have the same name. -/
def isa_checker (nodety : node_class) : node_class → Bool
  | .NODE name => decide (name = nodety.name)
  | .DERIVED name base => decide (name = nodety.name) || isa_checker nodety base

/-- The function `isa<nodety>(node)`, for a node whose dynamic class is `cls`. -/
def isa (nodety cls : node_class) : Bool := isa_checker nodety cls

/-- The ancestors of a node class in the hierarchy, nearest first. -/
def node_class.ancestors : node_class → List node_class
  | .NODE _ => []
  | .DERIVED _ base => base :: base.ancestors

/-- Modelled from the spec: the class `statement` of `ast.def` (spec §3: every node
is a statement or an expression; the test `isa` constructs it as a base class). -/
def statement_class : node_class := .NODE "statement"

/-- Modelled from the spec: the class `expression` of `ast.def`.  It extends
`statement`: `parse_statement` stores the `expression_node *` that
`parse_expression` returns in a `statement_node *`. -/
def expression_class : node_class := .DERIVED "expression" statement_class

/-- Modelled from the spec: the class `module` of `ast.def`, the root of the tree;
it is not a statement (test `isa`). -/
def module_class : node_class := .NODE "module"

/-- Modelled from the spec: the class `function_expr` of `ast.def`, an
expression (test `isa`). -/
def function_expr_class : node_class := .DERIVED "function_expr" expression_class

/-! ## The node store (`src/lib/ast.cc`) -/

/-- Modelled from the spec: `no_reloc_buf` (`parsing/ast.h`) is not part of the
sources.  It is a chunk of spec §4.1: a buffer of nodes with a reserved capacity.
`relocations` counts how often the buffer had to move its nodes because it grew
past the capacity it had. -/
structure no_reloc_buf (α : Type) where
  capacity : Nat
  items : List α
  relocations : Nat

namespace no_reloc_buf

/-- A new, empty buffer (`std::make_unique<no_reloc_buf<NAME_node>>()`). -/
def new {α : Type} : no_reloc_buf α := ⟨0, [], 0⟩

/-- The member function `reserve`: make room for `n` nodes. -/
def reserve {α : Type} (b : no_reloc_buf α) (n : Nat) : no_reloc_buf α :=
  if b.capacity < n then
    { b with capacity := n,
             relocations := if b.items.isEmpty then b.relocations else b.relocations + 1 }
  else b

/-- The member function `emplace_back`: append a node; a full buffer has to grow
and move its nodes. -/
def emplace_back {α : Type} (b : no_reloc_buf α) (x : α) : no_reloc_buf α :=
  if b.items.length < b.capacity then { b with items := b.items ++ [x] }
  else { capacity := 2 * b.capacity + 1, items := b.items ++ [x],
         relocations := b.relocations + 1 }

end no_reloc_buf

/-- The member function `ast_node_store::make_NAME` on the vector `NAME_vec` of
one node kind: the new vector, and where the new node lies (index of its chunk,
position in the chunk); `x` is the value-initialised node. -/
def make_node {α : Type} (vec : List (no_reloc_buf α)) (x : α) :
    List (no_reloc_buf α) × (Nat × Nat) :=
  let vec1 := if vec.isEmpty then vec ++ [no_reloc_buf.new.reserve 1] else vec
  match vec1.getLast? with
  | none => (vec1, (0, 0))
  | some storage =>
    if storage.items.length = storage.capacity then
      (vec1 ++ [(no_reloc_buf.new.reserve (2 * storage.capacity)).emplace_back x],
        (vec1.length, 0))
    else
      (vec1.dropLast ++ [storage.emplace_back x], (vec1.length - 1, storage.items.length))

/-- The node a handle (chunk index, position) denotes, if any. -/
def node_at {α : Type} (vec : List (no_reloc_buf α)) (h : Nat × Nat) : Option α :=
  vec[h.1]?.bind fun b => b.items[h.2]?

/-- The number of nodes stored in a vector of chunks. -/
def stored {α : Type} (vec : List (no_reloc_buf α)) : Nat :=
  (vec.map fun b => b.items.length).sum

/-- The store of all kinds: one vector of chunks per node kind. -/
abbrev ast_node_store (κ α : Type) := κ → List (no_reloc_buf α)

/-- The member function `make_NAME` of the kind `k` on the whole store. -/
def ast_node_store.make {κ α : Type} [DecidableEq κ] (store : ast_node_store κ α) (k : κ)
    (x : α) : ast_node_store κ α × (Nat × Nat) :=
  (Function.update store k (make_node (store k) x).1, (make_node (store k) x).2)

/-- The member function `ast_node_store::clear`. -/
def ast_node_store.clear {κ α : Type} (_store : ast_node_store κ α) : ast_node_store κ α :=
  fun _ => []

/-- No chunk of the vector was ever moved or holds more than its capacity, and
every chunk has room for a node. -/
def chunks_ok {α : Type} (vec : List (no_reloc_buf α)) : Prop :=
  ∀ b ∈ vec, 1 ≤ b.capacity ∧ b.items.length ≤ b.capacity ∧ b.relocations = 0

/-- The shape of a vector of chunks whose first chunk has the capacity `2 ^ i`:
the capacities double from chunk to chunk, every chunk but the last is full, and
the last holds at least one node and at most its capacity. -/
def chunk_shape {α : Type} : Nat → List (no_reloc_buf α) → Prop
  | _, [] => False
  | i, [c] => c.capacity = 2 ^ i ∧ 1 ≤ c.items.length ∧ c.items.length ≤ 2 ^ i
  | i, c :: d :: rest =>
    c.capacity = 2 ^ i ∧ c.items.length = 2 ^ i ∧ chunk_shape (i + 1) (d :: rest)

/-- The vector of one kind after `n` calls of `make_NAME` on a new (or cleared)
store. -/
def created {α : Type} (x : α) : Nat → List (no_reloc_buf α)
  | 0 => []
  | n + 1 => (make_node (created x n) x).1

/-! ## Invariants of a run -/

/-- The run has used `front()` on an empty vector (the one operation of
`parser.cc` whose behaviour is undefined). -/
def parser_base.crit (s : parser_base) : Prop :=
  violation.front_of_empty_vector ∈ s.violations

/-- An error is recorded, or the run has met undefined behaviour. -/
def parser_base.bad (s : parser_base) : Prop :=
  s.error.isSome = true ∨ s.crit

/-- The state `s'` comes after `s`: a recorded error stays recorded, and so does
the mark of undefined behaviour. -/
def parser_base.le (s s' : parser_base) : Prop :=
  (s.error.isSome = true → s'.error.isSome = true) ∧ (s.crit → s'.crit)

/-- A `template_literal` node holds one more string than expressions. -/
def template_ok : Node → Bool
  | .template_literal _ strs exprs => strs.length = exprs.length + 1
  | _ => true

/-- The clause is a default clause: a `switch_clause` node that is not a `case`. -/
def is_default_clause : Node → Bool
  | .switch_clause _ _ => true
  | _ => false

/-- The number of default clauses in a list of clauses. -/
def default_count (clauses : List Node) : Nat :=
  (clauses.filter is_default_clause).length

/-- A `switch_stmt` node holds at most one default clause. -/
def switch_ok : Node → Bool
  | .switch_stmt _ _ clauses => default_count clauses ≤ 1
  | _ => true

/-- A `try_stmt` node has a catch block or a finally block. -/
def try_ok : Node → Bool
  | .try_stmt _ _ catch_block finally_block => catch_block.isSome || finally_block.isSome
  | _ => true

/-- The three shape conditions together. -/
def node_ok (n : Node) : Bool := template_ok n && switch_ok n && try_ok n

/-- Every node of the tree `n` (the node itself, its children, their children
and so on) satisfies `p`. -/
inductive every_node (p : Node → Bool) : Node → Prop
  | mk (n : Node) : p n = true → (∀ c ∈ n.children, every_node p c) → every_node p n

/-- Every node of the tree satisfies the shape conditions. -/
def ok (n : Node) : Prop := every_node node_ok n

/-- Every tree of the list is well shaped. -/
def oks (l : List Node) : Prop := ∀ n ∈ l, ok n

/-- What holds of the result `n` and the state `s'` of a parse function that was
called in the state `s`, given that `H` holds of its arguments: `s'` comes after
`s`; a null result goes with a recorded error (or undefined behaviour); and,
unless the run has met undefined behaviour, the tree is well shaped. -/
def good_result (s : parser_base) (H : Prop) (n : Node) (s' : parser_base) : Prop :=
  s.le s' ∧ (n.isNull = true → s'.bad) ∧ (¬ s'.crit → H → ok n)

/-- Every result of the code `m`, run in the state `s` inside a parse function
that was called in the state `s0`, is a good result of that function, and its
state comes after `s`. -/
def good_run (s0 : parser_base) (H : Prop) (m : P Node) (s : parser_base) : Prop :=
  s0.le s → ∀ n s', m s = some (n, s') → good_result s0 H n s' ∧ s.le s'

/-- The functions of `fns` return good results: the invariant of the parser's
member functions and loops.  The second argument of `good_run` is what is assumed
of the trees passed in; a hypothesis before it is what the caller has checked. -/
structure good_fns (fns : parser_fns) : Prop where
  parse_statement : ∀ s, good_run s True fns.parse_statement s
  parse_keyword_stmt : ∀ s, good_run s True fns.parse_keyword_stmt s
  parse_keyword_expr : ∀ s, good_run s True fns.parse_keyword_expr s
  parse_if_stmt : ∀ s, good_run s True fns.parse_if_stmt s
  parse_do_while : ∀ s, good_run s True fns.parse_do_while s
  parse_while_stmt : ∀ s, good_run s True fns.parse_while_stmt s
  parse_for_stmt : ∀ s, good_run s True fns.parse_for_stmt s
  parse_switch_stmt : ∀ s, good_run s True fns.parse_switch_stmt s
  switch_clauses_loop : ∀ loc value hasDefault clauses s,
    good_run s (ok value ∧ oks clauses ∧ default_count clauses ≤ 1 ∧
        (hasDefault = false → default_count clauses = 0))
      (fns.switch_clauses_loop loc value hasDefault clauses) s
  switch_stmts_loop : ∀ loc value hasDefault clauses clause s,
    good_run s (ok value ∧ oks clauses ∧ ok clause ∧ default_count (clauses ++ [clause]) ≤ 1 ∧
        (hasDefault = false → default_count (clauses ++ [clause]) = 0))
      (fns.switch_stmts_loop loc value hasDefault clauses clause) s
  parse_return_stmt : ∀ s, good_run s True fns.parse_return_stmt s
  parse_throw_stmt : ∀ s, good_run s True fns.parse_throw_stmt s
  parse_try_stmt : ∀ s, good_run s True fns.parse_try_stmt s
  parse_expression : ∀ comma_is_operator s,
    good_run s True (fns.parse_expression comma_is_operator) s
  parse_unary_or_atomic_expr : ∀ s, good_run s True fns.parse_unary_or_atomic_expr s
  parse_atomic_expr : ∀ s, good_run s True fns.parse_atomic_expr s
  atomic_postfix_loop : ∀ expr s, (expr.isNull = true → s.bad) →
    good_run s (ok expr) (fns.atomic_postfix_loop expr) s
  parse_parens_expr : ∀ s, good_run s True fns.parse_parens_expr s
  parens_list_loop : ∀ loc reason exprs s, (∀ e ∈ exprs, e.isNull = false) →
    good_run s (oks exprs) (fns.parens_list_loop loc reason exprs) s
  parse_bin_op : ∀ lhs comma_is_operator s,
    is_binary_operator s.current_token comma_is_operator = true →
    good_run s (ok lhs) (fns.parse_bin_op lhs comma_is_operator) s
  parse_atomic_keyword_expr : ∀ s, good_run s True fns.parse_atomic_keyword_expr s
  parse_new_keyword : ∀ s, good_run s True fns.parse_new_keyword s
  parse_template_literal : ∀ s, good_run s True fns.parse_template_literal s
  template_loop : ∀ loc strs exprs s,
    good_run s (oks exprs ∧ strs.length = exprs.length + 1)
      (fns.template_loop loc strs exprs) s
  parse_function_stmt : ∀ s, good_run s True fns.parse_function_stmt s
  parse_function_expr : ∀ s, good_run s True fns.parse_function_expr s
  parse_param_list : ∀ s, good_run s True fns.parse_param_list s
  param_list_loop : ∀ loc names s, good_run s True (fns.param_list_loop loc names) s
  parse_block : ∀ s, good_run s True fns.parse_block s
  block_loop : ∀ loc stmts s, good_run s (oks stmts) (fns.block_loop loc stmts) s
  parse_var_decl : ∀ s, good_run s True fns.parse_var_decl s
  var_decl_loop : ∀ loc keyword parts s,
    good_run s (oks parts) (fns.var_decl_loop loc keyword parts) s
  parse_array_literal : ∀ s, good_run s True fns.parse_array_literal s
  array_loop : ∀ loc values s, good_run s (oks values) (fns.array_loop loc values) s
  parse_object_literal : ∀ s, good_run s True fns.parse_object_literal s
  object_loop : ∀ loc entries s, good_run s (oks entries) (fns.object_loop loc entries) s
  parse_computed_access : ∀ base s, good_run s (ok base) (fns.parse_computed_access base) s
  parse_call : ∀ callee s, good_run s (ok callee) (fns.parse_call callee) s
  call_loop : ∀ loc callee values s,
    good_run s (ok callee ∧ oks values) (fns.call_loop loc callee values) s
  parse_block_or_obj : ∀ flag s, good_run s True (fns.parse_block_or_obj flag) s

/-- Every result that the code `m` returns satisfies `Q`, whatever the state it
is run in. -/
def returns (Q : Node → Prop) (m : P Node) : Prop :=
  ∀ s n s1, m s = some (n, s1) → Q n

/-- Whatever the code `m` returns, the code `m2` returns too. -/
def run_le {α : Type} (m m2 : P α) : Prop :=
  ∀ s r, m s = some r → m2 s = some r

/-- Whatever a function of `a` returns, the function of `b` returns too. -/
structure fns_le (a b : parser_fns) : Prop where
  parse_statement : run_le a.parse_statement b.parse_statement
  parse_keyword_stmt : run_le a.parse_keyword_stmt b.parse_keyword_stmt
  parse_keyword_expr : run_le a.parse_keyword_expr b.parse_keyword_expr
  parse_if_stmt : run_le a.parse_if_stmt b.parse_if_stmt
  parse_do_while : run_le a.parse_do_while b.parse_do_while
  parse_while_stmt : run_le a.parse_while_stmt b.parse_while_stmt
  parse_for_stmt : run_le a.parse_for_stmt b.parse_for_stmt
  parse_switch_stmt : run_le a.parse_switch_stmt b.parse_switch_stmt
  switch_clauses_loop : ∀ x0 x1 x2 x3, run_le (a.switch_clauses_loop x0 x1 x2 x3) (b.switch_clauses_loop x0 x1 x2 x3)
  switch_stmts_loop : ∀ x0 x1 x2 x3 x4, run_le (a.switch_stmts_loop x0 x1 x2 x3 x4) (b.switch_stmts_loop x0 x1 x2 x3 x4)
  parse_return_stmt : run_le a.parse_return_stmt b.parse_return_stmt
  parse_throw_stmt : run_le a.parse_throw_stmt b.parse_throw_stmt
  parse_try_stmt : run_le a.parse_try_stmt b.parse_try_stmt
  parse_expression : ∀ x0, run_le (a.parse_expression x0) (b.parse_expression x0)
  parse_unary_or_atomic_expr : run_le a.parse_unary_or_atomic_expr b.parse_unary_or_atomic_expr
  parse_atomic_expr : run_le a.parse_atomic_expr b.parse_atomic_expr
  atomic_postfix_loop : ∀ x0, run_le (a.atomic_postfix_loop x0) (b.atomic_postfix_loop x0)
  parse_parens_expr : run_le a.parse_parens_expr b.parse_parens_expr
  parens_list_loop : ∀ x0 x1 x2, run_le (a.parens_list_loop x0 x1 x2) (b.parens_list_loop x0 x1 x2)
  parse_bin_op : ∀ x0 x1, run_le (a.parse_bin_op x0 x1) (b.parse_bin_op x0 x1)
  parse_atomic_keyword_expr : run_le a.parse_atomic_keyword_expr b.parse_atomic_keyword_expr
  parse_new_keyword : run_le a.parse_new_keyword b.parse_new_keyword
  parse_template_literal : run_le a.parse_template_literal b.parse_template_literal
  template_loop : ∀ x0 x1 x2, run_le (a.template_loop x0 x1 x2) (b.template_loop x0 x1 x2)
  parse_function_stmt : run_le a.parse_function_stmt b.parse_function_stmt
  parse_function_expr : run_le a.parse_function_expr b.parse_function_expr
  parse_param_list : run_le a.parse_param_list b.parse_param_list
  param_list_loop : ∀ x0 x1, run_le (a.param_list_loop x0 x1) (b.param_list_loop x0 x1)
  parse_block : run_le a.parse_block b.parse_block
  block_loop : ∀ x0 x1, run_le (a.block_loop x0 x1) (b.block_loop x0 x1)
  parse_var_decl : run_le a.parse_var_decl b.parse_var_decl
  var_decl_loop : ∀ x0 x1 x2, run_le (a.var_decl_loop x0 x1 x2) (b.var_decl_loop x0 x1 x2)
  parse_array_literal : run_le a.parse_array_literal b.parse_array_literal
  array_loop : ∀ x0 x1, run_le (a.array_loop x0 x1) (b.array_loop x0 x1)
  parse_object_literal : run_le a.parse_object_literal b.parse_object_literal
  object_loop : ∀ x0 x1, run_le (a.object_loop x0 x1) (b.object_loop x0 x1)
  parse_computed_access : ∀ x0, run_le (a.parse_computed_access x0) (b.parse_computed_access x0)
  parse_call : ∀ x0, run_le (a.parse_call x0) (b.parse_call x0)
  call_loop : ∀ x0 x1 x2, run_le (a.call_loop x0 x1 x2) (b.call_loop x0 x1 x2)
  parse_block_or_obj : ∀ x0, run_le (a.parse_block_or_obj x0) (b.parse_block_or_obj x0)

/-- With enough fuel the function `f` of the parser, run in the state `s`,
returns `r`. -/
def runs (ops : operators_def) (f : parser_fns → P Node) (s : parser_base)
    (r : Node × parser_base) : Prop :=
  ∃ fuel, f (parsers ops fuel) s = some r

/-- The entries of a parenthesized list: from the state `s`, whose current token
is the first token of an entry, `parse_expression(false)` returns the trees `ts`
one after the other, a comma follows each of them but the last, and a closing
parenthesis follows the last; it is the current token of the state `s1`. -/
inductive paren_entries (ops : operators_def) : parser_base → List Node → parser_base → Prop
  | last (s s1 s2 : parser_base) (t : Node) :
    s.current_token.type ≠ .DOTDOTDOT →
    runs ops (fun self => self.parse_expression false) s (t, s1) →
    t.isNull = false → s1.error = none →
    advance s1 = some (true, s2) → s2.current_token.type = .PAREN_CLOSE →
    paren_entries ops s [t] s2
  | more (s s1 s2 s3 s4 : parser_base) (t : Node) (ts : List Node) :
    s.current_token.type ≠ .DOTDOTDOT →
    runs ops (fun self => self.parse_expression false) s (t, s1) →
    t.isNull = false → s1.error = none →
    advance s1 = some (true, s2) → s2.current_token.type = .COMMA →
    advance s2 = some (true, s3) →
    paren_entries ops s3 ts s4 →
    paren_entries ops s (t :: ts) s4

/-- The entries of an arrow parameter list: from the state `s`, whose current
token is the first token of an entry, `advance` delivers the identifiers `xs`
with a comma after each of them but the last, then possibly a comma, `...` and
the rest identifier `r` (recorded with the location of the `...`), and then the
closing parenthesis, which is the current token of the state `s1`. -/
inductive ident_params : parser_base → List token → Option token → parser_base → Prop
  | rest (s s1 s2 : parser_base) :
    s.current_token.type = .DOTDOTDOT → advance s = some (true, s1) →
    s1.current_token.type = .IDENTIFIER → advance s1 = some (true, s2) →
    s2.current_token.type = .PAREN_CLOSE →
    ident_params s [] (some { s1.current_token with loc := s.current_token.loc }) s2
  | last (s s1 : parser_base) :
    s.current_token.type = .IDENTIFIER → advance s = some (true, s1) →
    s1.current_token.type = .PAREN_CLOSE →
    ident_params s [s.current_token] none s1
  | more (s s1 s2 s3 : parser_base) (xs : List token) (r : Option token) :
    s.current_token.type = .IDENTIFIER → advance s = some (true, s1) →
    s1.current_token.type = .COMMA → advance s1 = some (true, s2) →
    ident_params s2 xs r s3 →
    ident_params s (s.current_token :: xs) r s3

/-- One entry of an object literal: from the state `s`, whose current token is
the first token of the entry, the loop of `parse_object_literal` reads the entry
`e` (a spread, a shorthand key, or a key with a value) and reaches the state
`s1`, with no error recorded. -/
inductive object_entry (ops : operators_def) : parser_base → Node → parser_base → Prop
  | spread (s sa s1 : parser_base) (expr : Node) :
    s.current_token.type = .DOTDOTDOT → s.error = none →
    advance s = some (true, sa) →
    runs ops (fun self => self.parse_expression false) sa (expr, s1) → s1.error = none →
    object_entry ops s (.spread_expr s.current_token.loc expr) s1
  | shorthand (s sa : parser_base) :
    s.current_token.type ≠ .BRACE_CLOSE → s.current_token.type ≠ .DOTDOTDOT →
    is_possible_object_key s.current_token = true → s.error = none →
    advance s = some (true, sa) → sa.current_token.type ≠ .COLON →
    object_entry ops s (.identifier_expr s.current_token.loc s.current_token.text)
      { sa with rewind_stack := sa.current_token :: sa.rewind_stack,
                current_token := s.current_token }
  | keyed (s sa sb s1 : parser_base) (val : Node) :
    s.current_token.type ≠ .BRACE_CLOSE → s.current_token.type ≠ .DOTDOTDOT →
    is_possible_object_key s.current_token = true → s.error = none →
    advance s = some (true, sa) → sa.current_token.type = .COLON →
    advance sa = some (true, sb) →
    runs ops (fun self => self.parse_expression false) sb (val, s1) → s1.error = none →
    object_entry ops s (.object_entry s.current_token.loc s.current_token.text val) s1

/-- The entries of an object literal: from the state `s` the loop reads the
entries `es` one after the other, with a comma after each of them but the last,
and `s1` is the state after the last entry. -/
inductive object_entries (ops : operators_def) : parser_base → List Node → parser_base → Prop
  | last (s s1 : parser_base) (e : Node) :
    object_entry ops s e s1 → object_entries ops s [e] s1
  | more (s s1 s2 s3 s4 : parser_base) (e : Node) (es : List Node) :
    object_entry ops s e s1 →
    advance s1 = some (true, s2) → s2.current_token.type = .COMMA →
    advance s2 = some (true, s3) →
    object_entries ops s3 es s4 →
    object_entries ops s (e :: es) s4

/-- The node that `make_binary_expr` builds for the operator `op`. -/
def binary_expr_of (op : token) (lhs rhs : Node) : Node :=
  match binary_kind op with
  | some kind => .bin_op_expr kind op.loc lhs rhs
  | none => .null

/-- The left-nested tree of a chain: `op2(op1(lhs, x1), x2)` and so on. -/
def left_nested (lhs : Node) (chain : List (token × Node)) : Node :=
  chain.foldl (fun acc p => binary_expr_of p.1 acc p.2) lhs

/-- The right-nested tree of a chain: `op1(lhs, op2(x1, x2))` and so on. -/
def right_nested (lhs : Node) : List (token × Node) → Node
  | [] => lhs
  | (op, x) :: rest => binary_expr_of op lhs (right_nested x rest)

/-- A chain of operators and operands: the current token of the state `s` is a
binary operator (not `?`), `parse_unary_or_atomic_expr` returns the operand after
it, another binary operator follows that operand, and so on; `chain` lists the
operators with their operands, and `s1` is the state after the last operand. -/
inductive operand_chain (ops : operators_def) ( cio : Bool) :
    parser_base → List (token × Node) → parser_base → Prop
  | last (s sa s1 : parser_base) (x : Node) :
    is_binary_operator s.current_token cio = true → s.current_token.type ≠ .QMARK →
    s.error = none → advance s = some (true, sa) →
    runs ops (fun self => self.parse_unary_or_atomic_expr) sa (x, s1) →
    x.isNull = false → s1.error = none →
    operand_chain ops cio s [(s.current_token, x)] s1
  | more (s sa s1 s2 s3 : parser_base) (x : Node) (rest : List (token × Node)) :
    is_binary_operator s.current_token cio = true → s.current_token.type ≠ .QMARK →
    s.error = none → advance s = some (true, sa) →
    runs ops (fun self => self.parse_unary_or_atomic_expr) sa (x, s1) →
    x.isNull = false → s1.error = none →
    advance s1 = some (true, s2) → is_expression_end s2.current_token cio = false →
    operand_chain ops cio s2 rest s3 →
    operand_chain ops cio s ((s.current_token, x) :: rest) s3

/-- The end of an expression after the state `s1`: the input ends, or the next
token ends the expression and is pushed back; `s2` is the state reached. -/
def expression_ends ( cio : Bool) (s1 s2 : parser_base) : Prop :=
  advance s1 = some (false, s2) ∨
  ∃ sa, advance s1 = some (true, sa) ∧ is_expression_end sa.current_token cio = true ∧
    rewind s1.current_token sa = some ((), s2)

/-! ## The JSON printer (`src/lib/js/ast_ops.cc`) -/

mutual
/-- Modelled from the spec: `jnsn/js/ast.def` is not part of the sources.  A node
object, given by the line of `ast.def` that declares its class, `NODE(NAME,
CHILDREN(...))` or `DERIVED(NAME, EXTENDS(BASE), CHILDREN(...))`, with the values
of the members that its `CHILDREN` list declares, in the order of the list; for
a derived class, `base` is the subobject `static_cast<const ANCESTOR &>(node)`. -/
inductive ast_object where
  | NODE (name : String) (children : List child_value)
  | DERIVED (name : String) (base : ast_object) (children : List child_value)
/-- Modelled from the spec: one entry of a `CHILDREN(...)` list of `ast.def`, i.e.
one of the macros `MANY`, `ONE`, `MAYBE`, `MAYBE_STR`, `STRINGS`, `STRING` with the
member name `NAME`, together with the value of the member `node.NAME`. -/
inductive child_value where
  | MANY (name : String) (value : List ast_object)
  | ONE (name : String) (value : ast_object)
  | MAYBE (name : String) (value : Option ast_object)
  | MAYBE_STR (name : String) (value : Option String)
  | STRINGS (name : String) (value : List String)
  | STRING (name : String) (value : String)
end

/-- The dynamic kind of a node object: the `NAME` of its class. -/
def ast_object.kind : ast_object → String
  | .NODE name _ => name
  | .DERIVED name _ _ => name

/-- The member name `NAME` of an entry. -/
def child_value.name : child_value → String
  | .MANY name _ => name
  | .ONE name _ => name
  | .MAYBE name _ => name
  | .MAYBE_STR name _ => name
  | .STRINGS name _ => name
  | .STRING name _ => name

/-- The loop of the macro `STRINGS`: the strings from index `i` on (`first` says
that `i` is 0), each escaped and quoted, with `, ` before all but the first. -/
def print_strings (first : Bool) : List String → List Char
  | [] => []
  | s :: rest =>
    (if first then [] else ", ".toList) ++ "\"".toList ++ json_escape s.toList ++ "\"".toList ++
      print_strings false rest

mutual
/-- The member functions `accept` of `json_printer`, as the macros `NODE` and
`DERIVED` define them: the characters written to the stream for a node. -/
def json_printer_accept : ast_object → List Char
  | .NODE name children =>
    "\x7b".toList ++ "\"type\": ".toList ++ "\"".toList ++ name.toList ++ "\"".toList ++
      print_children children ++ "\x7d".toList
  | .DERIVED name base children =>
    "\x7b".toList ++ "\"type\": ".toList ++ "\"".toList ++ name.toList ++ "\"".toList ++
      parent_json_printer_accept base ++ print_children children ++ "\x7d".toList
/-- The member functions `accept` of `parent_json_printer`, as its macros `NODE`
and `DERIVED` define them: the members of the ancestor first, then the own ones. -/
def parent_json_printer_accept : ast_object → List Char
  | .NODE _ children => print_children children
  | .DERIVED _ base children => parent_json_printer_accept base ++ print_children children
/-- The macro `CHILDREN(...)`: its entries one after the other. -/
def print_children : List child_value → List Char
  | [] => []
  | c :: cs => print_child c ++ print_children cs
/-- The macros `MANY`, `ONE`, `MAYBE`, `MAYBE_STR`, `STRINGS` and `STRING` (both
printers define them alike; the parent printer hands the child nodes to the
printer it was made for). -/
def print_child : child_value → List Char
  | .MANY name value =>
    ", \"".toList ++ name.toList ++ "\": [".toList ++ print_many true value ++ "]".toList
  | .ONE name value =>
    ", \"".toList ++ name.toList ++ "\": ".toList ++ json_printer_accept value
  | .MAYBE name value =>
    ", \"".toList ++ name.toList ++ "\": ".toList ++ print_maybe value
  | .MAYBE_STR name value =>
    ", \"".toList ++ name.toList ++ "\": ".toList ++
      (match value with
       | some s => "\"".toList ++ json_escape s.toList ++ "\"".toList
       | none => "null".toList)
  | .STRINGS name value =>
    ", \"".toList ++ name.toList ++ "\": [".toList ++ print_strings true value ++ "]".toList
  | .STRING name value =>
    ", \"".toList ++ name.toList ++ "\": \"".toList ++ json_escape value.toList ++ "\"".toList
/-- The loop of the macro `MANY`: the nodes from index `i` on (`first` says that
`i` is 0), with `, ` before all but the first. -/
def print_many (first : Bool) : List ast_object → List Char
  | [] => []
  | n :: rest =>
    (if first then [] else ", ".toList) ++ json_printer_accept n ++ print_many false rest
/-- The body of the macro `MAYBE` after the member name. -/
def print_maybe : Option ast_object → List Char
  | some n => json_printer_accept n
  | none => "null".toList
end

/-- The `operator<<` of `ast_to_json`: `printer.visit(*wrapper.ast)`. -/
def ast_to_json (ast : ast_object) : List Char := json_printer_accept ast

/-- The function `get_ast_node_typename`: the `accept` of the name generator
returns `NAME_name`, the string `#NAME`, for a node of class `NAME_node`. -/
def get_ast_node_typename : ast_object → String
  | .NODE name _ => name
  | .DERIVED name _ _ => name

/-- The members of a node object with those of its ancestors: the members of the
outermost ancestor first, the own members last, each group in the order of its
`CHILDREN` list. -/
def ast_object.fields : ast_object → List child_value
  | .NODE _ children => children
  | .DERIVED _ base children => base.fields ++ children

/-- The value of a field as the spec words it, for child nodes written by
`render`: a sequence is `[`, its elements joined by `, `, `]`; an absent optional
child or optional string is `null`; a string is escaped and quoted. -/
def field_value (render : ast_object → List Char) : child_value → List Char
  | .MANY _ value => "[".toList ++ (", ".toList).intercalate (value.map render) ++ "]".toList
  | .ONE _ value => render value
  | .MAYBE _ (some n) => render n
  | .MAYBE _ none => "null".toList
  | .MAYBE_STR _ (some s) => "\"".toList ++ json_escape s.toList ++ "\"".toList
  | .MAYBE_STR _ none => "null".toList
  | .STRINGS _ value =>
    "[".toList ++ (", ".toList).intercalate
      (value.map fun s => "\"".toList ++ json_escape s.toList ++ "\"".toList) ++ "]".toList
  | .STRING _ value => "\"".toList ++ json_escape value.toList ++ "\"".toList

/-- The layout of a node as the spec words it: one object that opens with the
`type` tag and goes on with `, "<field>": <value>` for every field, the fields of
the ancestors first. -/
def json_layout (render : ast_object → List Char) (node : ast_object) : List Char :=
  "\x7b\"type\": \"".toList ++ node.kind.toList ++ "\"".toList ++
    (node.fields.map fun c =>
      ", \"".toList ++ c.name.toList ++ "\": ".toList ++ field_value render c).flatten ++
    "\x7d".toList

/-- Modelled from the spec: the empty module, an object of the class `module` of
`ast.def` with its one member `MANY(statement, stmts)`. -/
def empty_module_object : ast_object := .NODE "module" [.MANY "stmts" []]

/-- Modelled from the spec: an object of the class `ternary_operator` of `ast.def`,
which extends `bin_op_expr` (members `lhs` and `rhs`) by the member `mid`;
`bin_op_expr` extends `expression`, which extends `statement`. -/
def ternary_operator_object (lhs mid rhs : ast_object) : ast_object :=
  .DERIVED "ternary_operator"
    (.DERIVED "bin_op_expr" (.DERIVED "expression" (.NODE "statement" []) [])
      [.ONE "lhs" lhs, .ONE "rhs" rhs])
    [.ONE "mid" mid]

/-- The number of tokens still to be delivered to the parser: what the lexer has
not produced yet and what `rewind` has put back. -/
def pending (s : parser_base) : Nat := s.lexer.length + s.rewind_stack.length

/-- The code `m` returns from state `s`, and at most `p` tokens are still to be
delivered when it does. -/
def halts {α : Type} (p : Nat) (m : P α) (s : parser_base) : Prop :=
  ∃ a s1, m s = some (a, s1) ∧ pending s1 ≤ p

/-- Every function of `fns` returns from a state whose number of pending tokens
is covered by the budget `B`, and leaves no more tokens pending than it found;
the constant added to the pending tokens orders the functions that call each
other before a token is delivered. -/
structure fns_halt (fns : parser_fns) (B : Nat) : Prop where
  parse_statement : ∀ s, 64 * pending s + 7 ≤ B → halts (pending s) fns.parse_statement s
  parse_keyword_stmt : ∀ s, 64 * pending s + 6 ≤ B → halts (pending s) fns.parse_keyword_stmt s
  parse_keyword_expr : ∀ s, 64 * pending s + 5 ≤ B → halts (pending s) fns.parse_keyword_expr s
  parse_if_stmt : ∀ s, 64 * pending s + 1 ≤ B → halts (pending s) fns.parse_if_stmt s
  parse_do_while : ∀ s, 64 * pending s + 1 ≤ B → halts (pending s) fns.parse_do_while s
  parse_while_stmt : ∀ s, 64 * pending s + 1 ≤ B → halts (pending s) fns.parse_while_stmt s
  parse_for_stmt : ∀ s, 64 * pending s + 1 ≤ B → halts (pending s) fns.parse_for_stmt s
  parse_switch_stmt : ∀ s, 64 * pending s + 1 ≤ B → halts (pending s) fns.parse_switch_stmt s
  switch_clauses_loop : ∀ x0 x1 x2 x3 s, 64 * pending s + 1 ≤ B → halts (pending s) (fns.switch_clauses_loop x0 x1 x2 x3) s
  switch_stmts_loop : ∀ x0 x1 x2 x3 x4 s, 64 * pending s + 8 ≤ B → halts (pending s) (fns.switch_stmts_loop x0 x1 x2 x3 x4) s
  parse_return_stmt : ∀ s, 64 * pending s + 1 ≤ B → halts (pending s) fns.parse_return_stmt s
  parse_throw_stmt : ∀ s, 64 * pending s + 1 ≤ B → halts (pending s) fns.parse_throw_stmt s
  parse_try_stmt : ∀ s, 64 * pending s + 1 ≤ B → halts (pending s) fns.parse_try_stmt s
  parse_expression : ∀ x0 s, 64 * pending s + 5 ≤ B → halts (pending s) (fns.parse_expression x0) s
  parse_unary_or_atomic_expr : ∀ s, 64 * pending s + 4 ≤ B → halts (pending s) fns.parse_unary_or_atomic_expr s
  parse_atomic_expr : ∀ s, 64 * pending s + 3 ≤ B → halts (pending s) fns.parse_atomic_expr s
  atomic_postfix_loop : ∀ x0 s, 64 * pending s + 1 ≤ B → halts (pending s) (fns.atomic_postfix_loop x0) s
  parse_parens_expr : ∀ s, 64 * pending s + 1 ≤ B → halts (pending s) fns.parse_parens_expr s
  parens_list_loop : ∀ x0 x1 x2 s, 64 * pending s + 6 ≤ B → halts (pending s) (fns.parens_list_loop x0 x1 x2) s
  parse_bin_op : ∀ x0 x1 s, 64 * pending s + 1 ≤ B → halts (pending s) (fns.parse_bin_op x0 x1) s
  parse_atomic_keyword_expr : ∀ s, 64 * pending s + 2 ≤ B → halts (pending s) fns.parse_atomic_keyword_expr s
  parse_new_keyword : ∀ s, 64 * pending s + 1 ≤ B → halts (pending s) fns.parse_new_keyword s
  parse_template_literal : ∀ s, 64 * pending s + 2 ≤ B → halts (pending s) fns.parse_template_literal s
  template_loop : ∀ x0 x1 x2 s, 64 * pending s + 1 ≤ B → halts (pending s) (fns.template_loop x0 x1 x2) s
  parse_function_stmt : ∀ s, 64 * pending s + 1 ≤ B → halts (pending s) fns.parse_function_stmt s
  parse_function_expr : ∀ s, 64 * pending s + 1 ≤ B → halts (pending s) fns.parse_function_expr s
  parse_param_list : ∀ s, 64 * pending s + 2 ≤ B → halts (pending s) fns.parse_param_list s
  param_list_loop : ∀ x0 x1 s, 64 * pending s + 1 ≤ B → halts (pending s) (fns.param_list_loop x0 x1) s
  parse_block : ∀ s, 64 * pending s + 1 ≤ B → halts (pending s) fns.parse_block s
  block_loop : ∀ x0 x1 s, 64 * pending s + 8 ≤ B → halts (pending s) (fns.block_loop x0 x1) s
  parse_var_decl : ∀ s, 64 * pending s + 1 ≤ B → halts (pending s) fns.parse_var_decl s
  var_decl_loop : ∀ x0 x1 x2 s, 64 * pending s + 1 ≤ B → halts (pending s) (fns.var_decl_loop x0 x1 x2) s
  parse_array_literal : ∀ s, 64 * pending s + 1 ≤ B → halts (pending s) fns.parse_array_literal s
  array_loop : ∀ x0 x1 s, 64 * pending s + 6 ≤ B → halts (pending s) (fns.array_loop x0 x1) s
  parse_object_literal : ∀ s, 64 * pending s + 1 ≤ B → halts (pending s) fns.parse_object_literal s
  object_loop : ∀ x0 x1 s, 64 * pending s + 1 ≤ B → halts (pending s) (fns.object_loop x0 x1) s
  parse_computed_access : ∀ x0 s, 64 * pending s + 1 ≤ B → halts (pending s) (fns.parse_computed_access x0) s
  parse_call : ∀ x0 s, 64 * pending s + 1 ≤ B → halts (pending s) (fns.parse_call x0) s
  call_loop : ∀ x0 x1 x2 s, 64 * pending s + 6 ≤ B → halts (pending s) (fns.call_loop x0 x1 x2) s
  parse_block_or_obj : ∀ x0 s, 64 * pending s + 2 ≤ B → halts (pending s) (fns.parse_block_or_obj x0) s

/-- The code `m`, refused (no result) from a state whose pending tokens, with the
constant `R` of the function called, are not covered by the budget `B`. -/
def within {α : Type} (B R : Nat) (m : P α) : P α :=
  fun s => if 64 * pending s + R ≤ B then m s else none

/-- The functions `fns`, each refused outside the budget `B`. -/
def guarded (B : Nat) (fns : parser_fns) : parser_fns :=
  { parse_statement := within B 7 fns.parse_statement
    parse_keyword_stmt := within B 6 fns.parse_keyword_stmt
    parse_keyword_expr := within B 5 fns.parse_keyword_expr
    parse_if_stmt := within B 1 fns.parse_if_stmt
    parse_do_while := within B 1 fns.parse_do_while
    parse_while_stmt := within B 1 fns.parse_while_stmt
    parse_for_stmt := within B 1 fns.parse_for_stmt
    parse_switch_stmt := within B 1 fns.parse_switch_stmt
    switch_clauses_loop := fun x0 x1 x2 x3 => within B 1 (fns.switch_clauses_loop x0 x1 x2 x3)
    switch_stmts_loop := fun x0 x1 x2 x3 x4 => within B 8 (fns.switch_stmts_loop x0 x1 x2 x3 x4)
    parse_return_stmt := within B 1 fns.parse_return_stmt
    parse_throw_stmt := within B 1 fns.parse_throw_stmt
    parse_try_stmt := within B 1 fns.parse_try_stmt
    parse_expression := fun x0 => within B 5 (fns.parse_expression x0)
    parse_unary_or_atomic_expr := within B 4 fns.parse_unary_or_atomic_expr
    parse_atomic_expr := within B 3 fns.parse_atomic_expr
    atomic_postfix_loop := fun x0 => within B 1 (fns.atomic_postfix_loop x0)
    parse_parens_expr := within B 1 fns.parse_parens_expr
    parens_list_loop := fun x0 x1 x2 => within B 6 (fns.parens_list_loop x0 x1 x2)
    parse_bin_op := fun x0 x1 => within B 1 (fns.parse_bin_op x0 x1)
    parse_atomic_keyword_expr := within B 2 fns.parse_atomic_keyword_expr
    parse_new_keyword := within B 1 fns.parse_new_keyword
    parse_template_literal := within B 2 fns.parse_template_literal
    template_loop := fun x0 x1 x2 => within B 1 (fns.template_loop x0 x1 x2)
    parse_function_stmt := within B 1 fns.parse_function_stmt
    parse_function_expr := within B 1 fns.parse_function_expr
    parse_param_list := within B 2 fns.parse_param_list
    param_list_loop := fun x0 x1 => within B 1 (fns.param_list_loop x0 x1)
    parse_block := within B 1 fns.parse_block
    block_loop := fun x0 x1 => within B 8 (fns.block_loop x0 x1)
    parse_var_decl := within B 1 fns.parse_var_decl
    var_decl_loop := fun x0 x1 x2 => within B 1 (fns.var_decl_loop x0 x1 x2)
    parse_array_literal := within B 1 fns.parse_array_literal
    array_loop := fun x0 x1 => within B 6 (fns.array_loop x0 x1)
    parse_object_literal := within B 1 fns.parse_object_literal
    object_loop := fun x0 x1 => within B 1 (fns.object_loop x0 x1)
    parse_computed_access := fun x0 => within B 1 (fns.parse_computed_access x0)
    parse_call := fun x0 => within B 1 (fns.parse_call x0)
    call_loop := fun x0 x1 x2 => within B 6 (fns.call_loop x0 x1 x2)
    parse_block_or_obj := fun x0 => within B 2 (fns.parse_block_or_obj x0) }

/-- The bodies of the member functions, with `fns` as the functions they call. -/
def tie (ops : operators_def) (fns : parser_fns) : parser_fns :=
  { parse_statement := parse_statement fns
    parse_keyword_stmt := parse_keyword_stmt fns
    parse_keyword_expr := parse_keyword_expr fns
    parse_if_stmt := parse_if_stmt fns
    parse_do_while := parse_do_while fns
    parse_while_stmt := parse_while_stmt fns
    parse_for_stmt := parse_for_stmt fns
    parse_switch_stmt := parse_switch_stmt fns
    switch_clauses_loop := switch_clauses_loop fns
    switch_stmts_loop := switch_stmts_loop fns
    parse_return_stmt := parse_return_stmt fns
    parse_throw_stmt := parse_throw_stmt fns
    parse_try_stmt := parse_try_stmt fns
    parse_expression := parse_expression fns
    parse_unary_or_atomic_expr := parse_unary_or_atomic_expr fns
    parse_atomic_expr := parse_atomic_expr fns
    atomic_postfix_loop := atomic_postfix_loop fns
    parse_parens_expr := parse_parens_expr fns
    parens_list_loop := parens_list_loop fns
    parse_bin_op := parse_bin_op ops fns
    parse_atomic_keyword_expr := parse_atomic_keyword_expr fns
    parse_new_keyword := parse_new_keyword fns
    parse_template_literal := parse_template_literal fns
    template_loop := template_loop fns
    parse_function_stmt := parse_function_stmt fns
    parse_function_expr := parse_function_expr fns
    parse_param_list := parse_param_list fns
    param_list_loop := param_list_loop fns
    parse_block := parse_block fns
    block_loop := block_loop fns
    parse_var_decl := parse_var_decl fns
    var_decl_loop := var_decl_loop fns
    parse_array_literal := parse_array_literal fns
    array_loop := array_loop fns
    parse_object_literal := parse_object_literal fns
    object_loop := object_loop fns
    parse_computed_access := parse_computed_access fns
    parse_call := parse_call fns
    call_loop := call_loop fns
    parse_block_or_obj := parse_block_or_obj fns }

/-! ## A run on a longer input

The definitions for comparing a run of the parser on some input with its run
on the same input followed by a `;` and more. -/

/-- What `advance` will deliver, in order: the tokens on the rewind stack, then
the results of the lexer. -/
def feed (s : parser_base) : List lexer_result :=
  s.rewind_stack.map lexer_result.tok ++ s.lexer

/-- The token is not a comment. -/
def clean_tok (t : token) : Prop :=
  t.type ≠ .LINE_COMMENT ∧ t.type ≠ .BLOCK_COMMENT

/-- The results are tokens, none of them a comment. -/
def clean (l : List lexer_result) : Prop :=
  ∀ r ∈ l, ∃ t, r = .tok t ∧ clean_tok t

/-- What may follow an expression statement in the input: nothing, or a `;` and
any further input. -/
def tail_ok (X : List lexer_result) : Prop :=
  X = [] ∨ ∃ semi rest, X = .tok semi :: rest ∧ semi.type = .SEMICOLON

/-- The state `t` is the state `s` with `X` appended to what is still to be
delivered: same current token, same recorded error, and the feed of `t` is the
feed of `s` followed by `X`.  The feed of `s` and its current token are free of
comments.  (The record of failed assertions is not compared.) -/
structure longer (X : List lexer_result) (s t : parser_base) : Prop where
  cur_eq : t.current_token = s.current_token
  err_eq : t.error = s.error
  feed_eq : feed t = feed s ++ X
  clean_feed : clean (feed s)
  cur_ok : clean_tok s.current_token

/-- The code `m`, run from `s`, and the code `m2`, run from `t`, agree: whenever
`m` returns a result without a recorded error, either `m2` returns the same
result and the states are again related by `longer`, or (if `w` allows it, and
only when something is appended) `m` has used up its input and returned a node. -/
def keeps (w : Bool) (X : List lexer_result) (m m2 : P Node) (s t : parser_base) : Prop :=
  ∀ a s', m s = some (a, s') → s'.error = none →
    (w = true ∧ X ≠ [] ∧ pending s' = 0 ∧ a.isNull = false) ∨
    ∃ t', m2 t = some (a, t') ∧ longer X s' t'

/-- The code `m`, run from a state with no input left, records an error or (if
`w` allows it) returns a node with no input left. -/
def drained (w : Bool) (m : P Node) (s : parser_base) : Prop :=
  ∀ a s', m s = some (a, s') → s'.error = none →
    w = true ∧ pending s' = 0 ∧ a.isNull = false

/-- A recorded error stays recorded by `m`. -/
def sticky {α : Type} (m : P α) : Prop :=
  ∀ s a s', m s = some (a, s') → s.error.isSome = true → s'.error.isSome = true

/-- The shorter state `s` has nothing left to deliver and the longer one has just
delivered the `;` that follows: its current token is the `;`, and a `rewind` to
the token that was current restores the relation `longer`. -/
structure handed (X : List lexer_result) (s t1 : parser_base) : Prop where
  tail : X ≠ []
  drained : feed s = []
  semi : t1.current_token.type = .SEMICOLON
  err_eq : t1.error = s.error
  back : ∃ t2, rewind s.current_token t1 = some ((), t2) ∧ longer X s t2

/-- Every function of `fns` keeps a recorded error recorded. -/
structure fns_sticky (fns : parser_fns) : Prop where
  parse_statement : sticky fns.parse_statement
  parse_keyword_stmt : sticky fns.parse_keyword_stmt
  parse_keyword_expr : sticky fns.parse_keyword_expr
  parse_if_stmt : sticky fns.parse_if_stmt
  parse_do_while : sticky fns.parse_do_while
  parse_while_stmt : sticky fns.parse_while_stmt
  parse_for_stmt : sticky fns.parse_for_stmt
  parse_switch_stmt : sticky fns.parse_switch_stmt
  switch_clauses_loop : ∀ x0 x1 x2 x3, sticky (fns.switch_clauses_loop x0 x1 x2 x3)
  switch_stmts_loop : ∀ x0 x1 x2 x3 x4, sticky (fns.switch_stmts_loop x0 x1 x2 x3 x4)
  parse_return_stmt : sticky fns.parse_return_stmt
  parse_throw_stmt : sticky fns.parse_throw_stmt
  parse_try_stmt : sticky fns.parse_try_stmt
  parse_expression : ∀ x0, sticky (fns.parse_expression x0)
  parse_unary_or_atomic_expr : sticky fns.parse_unary_or_atomic_expr
  parse_atomic_expr : sticky fns.parse_atomic_expr
  atomic_postfix_loop : ∀ x0, sticky (fns.atomic_postfix_loop x0)
  parse_parens_expr : sticky fns.parse_parens_expr
  parens_list_loop : ∀ x0 x1 x2, sticky (fns.parens_list_loop x0 x1 x2)
  parse_bin_op : ∀ x0 x1, sticky (fns.parse_bin_op x0 x1)
  parse_atomic_keyword_expr : sticky fns.parse_atomic_keyword_expr
  parse_new_keyword : sticky fns.parse_new_keyword
  parse_template_literal : sticky fns.parse_template_literal
  template_loop : ∀ x0 x1 x2, sticky (fns.template_loop x0 x1 x2)
  parse_function_stmt : sticky fns.parse_function_stmt
  parse_function_expr : sticky fns.parse_function_expr
  parse_param_list : sticky fns.parse_param_list
  param_list_loop : ∀ x0 x1, sticky (fns.param_list_loop x0 x1)
  parse_block : sticky fns.parse_block
  block_loop : ∀ x0 x1, sticky (fns.block_loop x0 x1)
  parse_var_decl : sticky fns.parse_var_decl
  var_decl_loop : ∀ x0 x1 x2, sticky (fns.var_decl_loop x0 x1 x2)
  parse_array_literal : sticky fns.parse_array_literal
  array_loop : ∀ x0 x1, sticky (fns.array_loop x0 x1)
  parse_object_literal : sticky fns.parse_object_literal
  object_loop : ∀ x0 x1, sticky (fns.object_loop x0 x1)
  parse_computed_access : ∀ x0, sticky (fns.parse_computed_access x0)
  parse_call : ∀ x0, sticky (fns.parse_call x0)
  call_loop : ∀ x0 x1 x2, sticky (fns.call_loop x0 x1 x2)
  parse_block_or_obj : ∀ x0, sticky (fns.parse_block_or_obj x0)

/-- Every function of `fns` agrees with itself on a longer input (`keeps`); the
functions marked `true` may also use up the input and return a node. -/
structure fns_keeps (X : List lexer_result) (fns : parser_fns) : Prop where
  parse_statement : ∀ s t, longer X s t →
    keeps true X fns.parse_statement fns.parse_statement s t
  parse_keyword_stmt : ∀ s t, longer X s t →
    keeps true X fns.parse_keyword_stmt fns.parse_keyword_stmt s t
  parse_keyword_expr : ∀ s t, longer X s t →
    keeps false X fns.parse_keyword_expr fns.parse_keyword_expr s t
  parse_if_stmt : ∀ s t, longer X s t →
    keeps true X fns.parse_if_stmt fns.parse_if_stmt s t
  parse_do_while : ∀ s t, longer X s t →
    keeps false X fns.parse_do_while fns.parse_do_while s t
  parse_while_stmt : ∀ s t, longer X s t →
    keeps true X fns.parse_while_stmt fns.parse_while_stmt s t
  parse_for_stmt : ∀ s t, longer X s t →
    keeps true X fns.parse_for_stmt fns.parse_for_stmt s t
  parse_switch_stmt : ∀ s t, longer X s t →
    keeps false X fns.parse_switch_stmt fns.parse_switch_stmt s t
  switch_clauses_loop : ∀ x0 x1 x2 x3 s t, longer X s t →
    keeps false X (fns.switch_clauses_loop x0 x1 x2 x3) (fns.switch_clauses_loop x0 x1 x2 x3) s t
  switch_stmts_loop : ∀ x0 x1 x2 x3 x4 s t, longer X s t →
    keeps false X (fns.switch_stmts_loop x0 x1 x2 x3 x4) (fns.switch_stmts_loop x0 x1 x2 x3 x4) s t
  parse_return_stmt : ∀ s t, longer X s t →
    keeps true X fns.parse_return_stmt fns.parse_return_stmt s t
  parse_throw_stmt : ∀ s t, longer X s t →
    keeps false X fns.parse_throw_stmt fns.parse_throw_stmt s t
  parse_try_stmt : ∀ s t, longer X s t →
    keeps true X fns.parse_try_stmt fns.parse_try_stmt s t
  parse_expression : ∀ x0 s t, longer X s t →
    keeps false X (fns.parse_expression x0) (fns.parse_expression x0) s t
  parse_unary_or_atomic_expr : ∀ s t, longer X s t →
    keeps false X fns.parse_unary_or_atomic_expr fns.parse_unary_or_atomic_expr s t
  parse_atomic_expr : ∀ s t, longer X s t →
    keeps false X fns.parse_atomic_expr fns.parse_atomic_expr s t
  atomic_postfix_loop : ∀ x0 s t, longer X s t →
    keeps false X (fns.atomic_postfix_loop x0) (fns.atomic_postfix_loop x0) s t
  parse_parens_expr : ∀ s t, longer X s t →
    keeps false X fns.parse_parens_expr fns.parse_parens_expr s t
  parens_list_loop : ∀ x0 x1 x2 s t, longer X s t →
    keeps false X (fns.parens_list_loop x0 x1 x2) (fns.parens_list_loop x0 x1 x2) s t
  parse_bin_op : ∀ x0 x1 s t, longer X s t →
    keeps false X (fns.parse_bin_op x0 x1) (fns.parse_bin_op x0 x1) s t
  parse_atomic_keyword_expr : ∀ s t, longer X s t →
    keeps false X fns.parse_atomic_keyword_expr fns.parse_atomic_keyword_expr s t
  parse_new_keyword : ∀ s t, longer X s t →
    keeps false X fns.parse_new_keyword fns.parse_new_keyword s t
  parse_template_literal : ∀ s t, longer X s t →
    keeps false X fns.parse_template_literal fns.parse_template_literal s t
  template_loop : ∀ x0 x1 x2 s t, longer X s t →
    keeps false X (fns.template_loop x0 x1 x2) (fns.template_loop x0 x1 x2) s t
  parse_function_stmt : ∀ s t, longer X s t →
    keeps false X fns.parse_function_stmt fns.parse_function_stmt s t
  parse_function_expr : ∀ s t, longer X s t →
    keeps false X fns.parse_function_expr fns.parse_function_expr s t
  parse_param_list : ∀ s t, longer X s t →
    keeps false X fns.parse_param_list fns.parse_param_list s t
  param_list_loop : ∀ x0 x1 s t, longer X s t →
    keeps false X (fns.param_list_loop x0 x1) (fns.param_list_loop x0 x1) s t
  parse_block : ∀ s t, longer X s t →
    keeps false X fns.parse_block fns.parse_block s t
  block_loop : ∀ x0 x1 s t, longer X s t →
    keeps false X (fns.block_loop x0 x1) (fns.block_loop x0 x1) s t
  parse_var_decl : ∀ s t, longer X s t →
    keeps false X fns.parse_var_decl fns.parse_var_decl s t
  var_decl_loop : ∀ x0 x1 x2 s t, longer X s t →
    keeps false X (fns.var_decl_loop x0 x1 x2) (fns.var_decl_loop x0 x1 x2) s t
  parse_array_literal : ∀ s t, longer X s t →
    keeps false X fns.parse_array_literal fns.parse_array_literal s t
  array_loop : ∀ x0 x1 s t, longer X s t →
    keeps false X (fns.array_loop x0 x1) (fns.array_loop x0 x1) s t
  parse_object_literal : ∀ s t, longer X s t →
    keeps false X fns.parse_object_literal fns.parse_object_literal s t
  object_loop : ∀ x0 x1 s t, longer X s t →
    keeps false X (fns.object_loop x0 x1) (fns.object_loop x0 x1) s t
  parse_computed_access : ∀ x0 s t, longer X s t →
    keeps false X (fns.parse_computed_access x0) (fns.parse_computed_access x0) s t
  parse_call : ∀ x0 s t, longer X s t →
    keeps false X (fns.parse_call x0) (fns.parse_call x0) s t
  call_loop : ∀ x0 x1 x2 s t, longer X s t →
    keeps false X (fns.call_loop x0 x1 x2) (fns.call_loop x0 x1 x2) s t
  parse_block_or_obj : ∀ x0 s t, longer X s t →
    keeps false X (fns.parse_block_or_obj x0) (fns.parse_block_or_obj x0) s t

/-- The keywords that `parse_keyword_stmt` passes on to `parse_keyword_expr`:
those that start none of its statements. -/
def is_expression_keyword (t : token) : Bool :=
  let kwty := get_keyword_type t
  kwty ≠ kw_function && kwty ≠ kw_if && kwty ≠ kw_do && kwty ≠ kw_while && kwty ≠ kw_for &&
  kwty ≠ kw_switch && kwty ≠ kw_break && kwty ≠ kw_continue && kwty ≠ kw_return &&
  kwty ≠ kw_throw && kwty ≠ kw_try && kwty ≠ kw_import && kwty ≠ kw_export &&
  kwty ≠ kw_class && kwty ≠ kw_super && !is_var_decl_kw t

/-- The state in which `parse_statement` calls the expression parser on the
tokens `head :: tail` alone: `head` is the current token, `tail` is left in the
lexer. -/
def expression_start (head : token) (tail : List token) : parser_base :=
  { fresh_state (tail.map .tok) with current_token := head }

/-- The expression parser that `parse_statement` reaches from a first token that
is neither `;` nor an opening brace nor the start of a label: `parse_keyword_expr` behind a
keyword, `parse_expression(true)` otherwise. -/
def statement_expression (head : token) (fns : parser_fns) : P Node :=
  if head.type = .KEYWORD then fns.parse_keyword_expr else fns.parse_expression true

/-- An expression statement without a top-level `;`: the tokens `E`, none of them
a comment, do not start with `;`, with an opening brace, with a label or with a keyword
that starts a statement, and the expression parser, run on them alone, takes
all of them and returns the tree `T` without an error. -/
def expression_statement (ops : operators_def) (E : List token) (T : Node) : Prop :=
  ∃ head tail s1, E = head :: tail ∧
    (∀ u ∈ E, u.type ≠ .LINE_COMMENT ∧ u.type ≠ .BLOCK_COMMENT) ∧
    head.type ≠ .SEMICOLON ∧ head.type ≠ .BRACE_OPEN ∧
    (head.type = .IDENTIFIER → ∀ u rest, tail = u :: rest → u.type ≠ .COLON) ∧
    (head.type = .KEYWORD → is_expression_keyword head = true) ∧
    runs ops (statement_expression head) (expression_start head tail) (T, s1) ∧
    s1.error = none ∧ s1.lexer = [] ∧ s1.rewind_stack = [] ∧ T.isNull = false

/-- The token stream `E1 ; E2 ; ... ; En`: every statement but the last with the
`;` token that follows it, then the last statement. -/
def statement_stream : List (List token × token) → List token → List lexer_result
  | [], last => last.map .tok
  | (E, semi) :: more, last => E.map .tok ++ .tok semi :: statement_stream more last

/-! ## Theorems -/

@[simp] theorem P_pure_apply {α : Type} (a : α) (s : parser_base) :
    (pure a : P α) s = some (a, s) := rfl

@[simp] theorem P_bind_apply {α β : Type} (x : P α) (f : α → P β) (s : parser_base) :
    (x >>= f) s = (x s).bind (fun p => f p.1 p.2) := by
  show StateT.bind x f s = _
  unfold StateT.bind
  cases x s <;> rfl

@[simp] theorem P_map_apply {α β : Type} (f : α → β) (x : P α) (s : parser_base) :
    (f <$> x) s = (x s).map (fun p => (f p.1, p.2)) := by
  show StateT.map f x s = _
  unfold StateT.map
  cases x s <;> rfl

theorem is_error_eq {e : parser_error} {r : Option result} (h : is_error e r = true) :
    r = some (.error e) := by
  match r, h with
  | some (.error e'), h =>
    have : e' = e := by simpa [is_error] using h
    rw [this]

/-- C7: the code does not keep comments invisible.  The input `a` parses to a
module, while the same input with a comment before the end of input is a parser
error: `advance` stores the comment in `current_token` before it meets the end of
input, and `parse_statement` goes on with that token. -/
theorem comment_before_eof_is_observed :
    is_module (parse_fresh 20 (tokens [(.IDENTIFIER, "a")])) = true ∧
    parse_fresh 20 (tokens [(.IDENTIFIER, "a"), (.LINE_COMMENT, "// c")]) =
      some (.error ⟨"Unexpected token: LINE_COMMENT. Expected atomic expression", ⟨1, 2⟩⟩) :=
  ⟨by decide!, is_error_eq (by decide!)⟩

/-- C1: the code does not build the tree of a precedence-climbing parser.  On
`1 + 4 / 2 + 3` it returns `add(1, add(divide(4, 2), 3))` instead of
`add(add(1, divide(4, 2)), 3)`, and on `a + b / c = d` it returns
`add(a, assign(divide(b, c), d))`, where an `add` has as its right operand an
assignment, of strictly lower precedence: once `parse_bin_op` has extended a right
operand, the recursive call takes every operator that is left. -/
theorem parse_bin_op_misshapes_mixed_chain :
    (match parse_fresh 30 (tokens [(.INT_LITERAL, "1"), (.PLUS, "+"), (.INT_LITERAL, "4"),
        (.SLASH, "/"), (.INT_LITERAL, "2"), (.PLUS, "+"), (.INT_LITERAL, "3")]) with
     | some (.module (.module _ [.bin_op_expr .add _ (.int_literal _ "1")
          (.bin_op_expr .add _
            (.bin_op_expr .divide _ (.int_literal _ "4") (.int_literal _ "2"))
            (.int_literal _ "3"))])) => true
     | _ => false) = true ∧
    (match parse_fresh 30 (tokens [(.IDENTIFIER, "a"), (.PLUS, "+"), (.IDENTIFIER, "b"),
        (.SLASH, "/"), (.IDENTIFIER, "c"), (.EQ, "="), (.IDENTIFIER, "d")]) with
     | some (.module (.module _ [.bin_op_expr .add _ (.identifier_expr _ "a")
          (.bin_op_expr .assign _
            (.bin_op_expr .divide _ (.identifier_expr _ "b") (.identifier_expr _ "c"))
            (.identifier_expr _ "d"))])) => true
     | _ => false) = true :=
  ⟨by decide!, by decide!⟩

/-- C4: `parse` does not reset the recorded error.  After a parse of `try {}`,
which returns a parser error, a parse of the new input `1` on the same parser
returns that old error again, while a newly constructed parser returns a module
for `1`: `reset` clears the rewind stack and the module, not `error`. -/
theorem parse_keeps_error_of_earlier_parse :
    (match parse_again 20 (fresh_state [])
        (tokens [(.KEYWORD, "try"), (.BRACE_OPEN, "\x7b"), (.BRACE_CLOSE, "\x7d")]) with
     | some (.error e, s) =>
       is_error e ((parse_again 20 s (tokens [(.INT_LITERAL, "1")])).map Prod.fst) &&
       is_module ((parse_again 20 (fresh_state []) (tokens [(.INT_LITERAL, "1")])).map Prod.fst)
     | _ => false) = true := by
  decide!

/-- C6: the code does not forward a lexer error met inside `ADVANCE_OR_ERROR`.  On
the input `if` followed by a lexer error, `parse` returns "Unexpected EOF after
if" at the location `⟨0, 0⟩`: `advance` records the lexer error and returns false,
and the macro then overwrites it. -/
theorem lexer_error_overwritten_by_advance_or_error :
    parse_fresh 20 (tokens [(.KEYWORD, "if")] ++ [.error ⟨"bad character", ⟨1, 4⟩⟩]) =
      some (.error ⟨"Unexpected EOF after if", ⟨0, 0⟩⟩) :=
  is_error_eq (by decide!)

/-- C22: a token stream whose first token is the keyword `import`, `export` or
`class` makes `parse(false)` of a new parser return the parser error "Not
implemented (parse_import)" (resp. "(parse_export)", "(parse_class_stmt)") at the
location of that keyword, whatever the lexer yields after it and whatever the
operator table is; three units of fuel suffice. -/
theorem unimplemented_keyword_statement_is_error (ops : operators_def)
    (an : Node → Option String) (t : token) (rest : List lexer_result) (fuel : Nat)
    (ht : t.type = .KEYWORD) :
    (get_keyword_type t = kw_import →
      ((parse ops an (fuel + 3) false) (fresh_state (.tok t :: rest))).map Prod.fst =
        some (.error ⟨"Not implemented (parse_import)", t.loc⟩)) ∧
    (get_keyword_type t = kw_export →
      ((parse ops an (fuel + 3) false) (fresh_state (.tok t :: rest))).map Prod.fst =
        some (.error ⟨"Not implemented (parse_export)", t.loc⟩)) ∧
    (get_keyword_type t = kw_class →
      ((parse ops an (fuel + 3) false) (fresh_state (.tok t :: rest))).map Prod.fst =
        some (.error ⟨"Not implemented (parse_class_stmt)", t.loc⟩)) := by
  refine ⟨fun hk => ?_, fun hk => ?_, fun hk => ?_⟩ <;>
  simp [parse, reset, parse_loop, has_error, advance, advance_lexer, fresh_state, parsers,
    parse_statement, current_token, ht, hk, parse_keyword_stmt, assert_that, parse_import,
    parse_export, parse_class_stmt,
    set_error, statement_end, ASSERT_PARSE_RESULT, parser_base.check, Node.isNull, get, getThe,
    MonadStateOf.get, StateT.get]

theorem unimplemented_keyword_statement_is_error_witness :
    ((parse js_operators no_analysis 3 false)
        (fresh_state (.tok ⟨.KEYWORD, "import", ⟨1, 1⟩⟩ ::
          tokens_from 2 [(.ASTERISK, "*"), (.IDENTIFIER, "as")]))).map Prod.fst =
      some (.error ⟨"Not implemented (parse_import)", ⟨1, 1⟩⟩) :=
  (unimplemented_keyword_statement_is_error js_operators no_analysis
    ⟨.KEYWORD, "import", ⟨1, 1⟩⟩ _ 0 rfl).1 (by decide)

/-- C21, as stated, fails: `break L` does not parse; `parse` returns the error
"Unexpected token after statement: IDENTIFIER" at the label. -/
theorem break_label_is_rejected :
    parse_fresh 20 (tokens [(.KEYWORD, "break"), (.IDENTIFIER, "L")]) =
      some (.error ⟨"Unexpected token after statement: IDENTIFIER", ⟨1, 2⟩⟩) :=
  is_error_eq (by decide!)

/-- C21, amended: for every identifier token `l`, a token stream that starts with
the keyword `break` (resp. `continue`) followed by `l` makes `parse(false)` of a
new parser return the error "Unexpected token after statement: IDENTIFIER" at the
location of `l`, whatever follows; no break or continue statement is returned. -/
theorem break_continue_label_is_error (ops : operators_def) (an : Node → Option String)
    (t l : token) (rest : List lexer_result) (fuel : Nat) (ht : t.type = .KEYWORD)
    (hk : get_keyword_type t = kw_break ∨ get_keyword_type t = kw_continue)
    (hl : l.type = .IDENTIFIER) :
    ((parse ops an (fuel + 3) false) (fresh_state (.tok t :: .tok l :: rest))).map Prod.fst =
      some (.error ⟨"Unexpected token after statement: IDENTIFIER", l.loc⟩) := by
  rcases hk with hk | hk <;>
  simp [parse, reset, parse_loop, has_error, advance, advance_lexer, fresh_state, parsers,
    parse_statement, current_token, ht, hk, hl, parse_keyword_stmt, assert_that,
    set_error, statement_end, ASSERT_PARSE_RESULT, parser_base.check, Node.isNull, get, getThe,
    MonadStateOf.get, StateT.get, is_stmt_end, to_string]

theorem break_continue_label_is_error_witness :
    ((parse js_operators no_analysis 3 false)
        (fresh_state (.tok ⟨.KEYWORD, "continue", ⟨1, 1⟩⟩ :: .tok ⟨.IDENTIFIER, "L", ⟨1, 10⟩⟩ ::
          tokens_from 3 [(.SEMICOLON, ";")]))).map Prod.fst =
      some (.error ⟨"Unexpected token after statement: IDENTIFIER", ⟨1, 10⟩⟩) :=
  break_continue_label_is_error js_operators no_analysis ⟨.KEYWORD, "continue", ⟨1, 1⟩⟩
    ⟨.IDENTIFIER, "L", ⟨1, 10⟩⟩ _ 0 rfl (Or.inr (by decide)) rfl

theorem json_escape_foldl (acc str : List Char) :
    str.foldl json_escape_put acc = acc ++ escape_spec str := by
  induction str generalizing acc with
  | nil => simp [escape_spec]
  | cons c rest ih =>
    simp only [List.foldl_cons, ih, escape_spec, json_escape_put]
    split <;> simp_all

theorem escape_spec_head (str rest : List Char) : escape_spec str ≠ '"' :: rest := by
  cases str with
  | nil => simp [escape_spec]
  | cons c tl =>
    simp only [escape_spec]
    split
    · simp
    · intro h
      injection h with h1 _
      contradiction

theorem unescape_escape_spec (str : List Char) : unescape_spec (escape_spec str) = str := by
  induction str with
  | nil => simp [escape_spec, unescape_spec]
  | cons c rest ih =>
    simp only [escape_spec]
    split
    · rename_i h
      subst h
      simp [unescape_spec, ih]
    · rename_i h
      cases hr : escape_spec rest with
      | nil =>
        rw [hr] at ih
        simp [unescape_spec] at ih ⊢
        exact ih
      | cons d tl =>
        have hd : d ≠ '"' := by
          intro hd
          exact escape_spec_head rest tl (by rw [hr, hd])
        rw [hr] at ih
        simp [unescape_spec, hd, ih]

/-- C23: the serializer's escape of a string is the string with a backslash
inserted before each double quote and every other character unchanged
(`escape_spec`); its length is the length of the string plus the number of its
double quotes; deleting the backslash before each double quote gives the string
back; and the escape is injective. -/
theorem json_escape_properties (str : List Char) :
    json_escape str = escape_spec str ∧
    (json_escape str).length = str.length + str.count '"' ∧
    unescape_spec (json_escape str) = str ∧
    ∀ other : List Char, json_escape other = json_escape str → other = str := by
  have h1 : ∀ s, json_escape s = escape_spec s := fun s => by
    simp [json_escape, json_escape_foldl]
  refine ⟨h1 str, ?_, ?_, ?_⟩
  · rw [h1]
    induction str with
    | nil => simp [escape_spec]
    | cons c rest ih =>
      simp only [escape_spec]
      split
      · rename_i h; subst h; simp [ih]; omega
      · rename_i h
        have : ¬ (c == '"') = true := by simpa using h
        simp [ih, List.count_cons, this]; omega
  · rw [h1, unescape_escape_spec]
  · intro other h
    rw [h1, h1] at h
    have := congrArg unescape_spec h
    simpa [unescape_escape_spec] using this

theorem isa_iff (nodety cls : node_class) :
    isa nodety cls = true ↔
      nodety.name = cls.name ∨ ∃ a ∈ cls.ancestors, nodety.name = a.name := by
  induction cls with
  | NODE name =>
    simp only [isa, isa_checker, node_class.name, node_class.ancestors, decide_eq_true_eq,
      List.not_mem_nil, false_and, exists_false, or_false]
    exact eq_comm
  | DERIVED name base ih =>
    simp only [isa] at ih
    simp only [isa, isa_checker, node_class.name, node_class.ancestors, Bool.or_eq_true,
      decide_eq_true_eq, ih, List.mem_cons, exists_eq_or_imp]
    constructor
    · rintro (h | h)
      · exact Or.inl h.symm
      · exact Or.inr h
    · rintro (h | h)
      · exact Or.inl h.symm
      · exact Or.inr h

theorem ancestors_trans (a cls : node_class) (h : a ∈ cls.ancestors) :
    ∀ b ∈ a.ancestors, b ∈ cls.ancestors := by
  induction cls with
  | NODE name => simp [node_class.ancestors] at h
  | DERIVED name base ih =>
    intro b hb
    simp only [node_class.ancestors, List.mem_cons] at h ⊢
    rcases h with h | h
    · subst h; exact Or.inr hb
    · exact Or.inr (ih h b hb)

/-- C26: `isa<T>(n)` is true exactly if the dynamic class of `n` is `T` or has `T`
among its ancestors; so it is reflexive, it holds for a derived class whenever it
holds for its base, a module is not a statement and a `function_expr` is an
expression. -/
theorem isa_hierarchy :
    (∀ nodety cls : node_class, isa nodety cls = true ↔
      nodety.name = cls.name ∨ ∃ a ∈ cls.ancestors, nodety.name = a.name) ∧
    (∀ cls : node_class, isa cls cls = true) ∧
    (∀ (nodety : node_class) (name : String) (base : node_class),
      isa nodety base = true → isa nodety (.DERIVED name base) = true) ∧
    isa statement_class module_class = false ∧
    isa expression_class function_expr_class = true := by
  refine ⟨isa_iff, fun cls => ?_, fun nodety name base h => ?_, by decide, by decide⟩
  · exact (isa_iff cls cls).2 (Or.inl rfl)
  · simp only [isa] at h
    simp [isa, isa_checker, h]

/-- C27, as stated, fails: a node whose dynamic class is `expression` does
satisfy `isa<statement>`. -/
theorem isa_statement_of_expression_node : isa statement_class expression_class = true := by
  decide

/-- C27, amended: a node whose dynamic class is `statement` does not satisfy
`isa<expression>`; in the other direction every node whose class is `expression`
or extends it satisfies `isa<statement>`, since `expression` extends `statement`. -/
theorem isa_statement_expression :
    isa expression_class statement_class = false ∧
    ∀ cls : node_class, cls = expression_class ∨ expression_class ∈ cls.ancestors →
      isa statement_class cls = true := by
  refine ⟨by decide, fun cls h => (isa_iff _ _).2 (Or.inr ⟨statement_class, ?_, rfl⟩)⟩
  rcases h with h | h
  · subst h; simp [expression_class, node_class.ancestors]
  · exact ancestors_trans _ _ h _ (by simp [expression_class, node_class.ancestors])

theorem isa_statement_expression_witness :
    isa statement_class function_expr_class = true :=
  isa_statement_expression.2 function_expr_class
    (Or.inr (by simp [function_expr_class, node_class.ancestors]))


theorem isa_hierarchy_witness :
    isa expression_class (.DERIVED "function_expr" expression_class) = true :=
  isa_hierarchy.2.2.1 expression_class "function_expr" expression_class
    (isa_hierarchy.2.1 expression_class)

theorem make_node_nil {α : Type} (x : α) :
    make_node ([] : List (no_reloc_buf α)) x = ([⟨1, [x], 0⟩], (0, 0)) := by
  simp [make_node, no_reloc_buf.new, no_reloc_buf.reserve, no_reloc_buf.emplace_back]

theorem make_node_concat {α : Type} (init : List (no_reloc_buf α)) (last : no_reloc_buf α)
    (x : α) :
    make_node (init ++ [last]) x =
      if last.items.length = last.capacity then
        (init ++ [last] ++ [(no_reloc_buf.new.reserve (2 * last.capacity)).emplace_back x],
          (init.length + 1, 0))
      else (init ++ [last.emplace_back x], (init.length, last.items.length)) := by
  simp [make_node]


theorem new_chunk_eq {α : Type} (cap : Nat) (h : 1 ≤ cap) (x : α) :
    ((no_reloc_buf.new : no_reloc_buf α).reserve (2 * cap)).emplace_back x =
      ⟨2 * cap, [x], 0⟩ := by
  have h1 : 0 < 2 * cap := by omega
  simp [no_reloc_buf.new, no_reloc_buf.reserve, no_reloc_buf.emplace_back, h1]

theorem node_at_append_left {α : Type} (v w : List (no_reloc_buf α)) (h : Nat × Nat) (n : α)
    (hn : node_at v h = some n) : node_at (v ++ w) h = some n := by
  unfold node_at at hn ⊢
  cases hv : v[h.1]? with
  | none => simp [hv] at hn
  | some b =>
    have hlt : h.1 < v.length := by
      by_contra hc
      have := List.getElem?_eq_none (Nat.le_of_not_lt hc)
      rw [this] at hv
      exact Option.noConfusion hv
    have : (v ++ w)[h.1]? = some b := by
      rw [List.getElem?_append_left hlt]; exact hv
    rw [this]
    rw [hv] at hn
    exact hn

theorem node_at_concat_grow {α : Type} (init : List (no_reloc_buf α))
    (last : no_reloc_buf α) (x : α) (hlt : last.items.length < last.capacity)
    (h : Nat × Nat) (n : α)
    (hn : node_at (init ++ [last]) h = some n) :
    node_at (init ++ [last.emplace_back x]) h = some n := by
  unfold node_at at hn ⊢
  by_cases h1 : h.1 < init.length
  · rw [List.getElem?_append_left h1] at hn ⊢
    exact hn
  · have h2 : init.length ≤ h.1 := Nat.le_of_not_lt h1
    rw [List.getElem?_append_right h2] at hn ⊢
    cases hd : h.1 - init.length with
    | zero =>
      rw [hd] at hn
      simp only [List.getElem?_cons_zero, Option.some_bind] at hn ⊢
      simp only [no_reloc_buf.emplace_back, hlt, if_true]
      have hl : h.2 < last.items.length := by
        by_contra hc
        have := List.getElem?_eq_none (Nat.le_of_not_lt hc)
        rw [this] at hn
        exact Option.noConfusion hn
      rw [List.getElem?_append_left hl]
      exact hn
    | succ k =>
      rw [hd] at hn
      simp at hn

/-- C28: `make_NAME` on a store whose chunks were never moved appends exactly one
node and returns a handle to it; the handle was free before; every handle that
denoted a node before still denotes the same node; every chunk that existed
keeps its capacity, no chunk is moved or filled past its capacity; and the
vectors of the other kinds are untouched. -/
theorem make_node_is_address_stable {κ α : Type} [DecidableEq κ]
    (store : ast_node_store κ α) (k : κ) (x : α) (hok : chunks_ok (store k)) :
    node_at ((store.make k x).1 k) (store.make k x).2 = some x ∧
    node_at (store k) (store.make k x).2 = none ∧
    (∀ (h : Nat × Nat) (n : α), node_at (store k) h = some n →
      node_at ((store.make k x).1 k) h = some n) ∧
    stored ((store.make k x).1 k) = stored (store k) + 1 ∧
    chunks_ok ((store.make k x).1 k) ∧
    (∀ (i : Nat) (b : no_reloc_buf α), (store k)[i]? = some b →
      ∃ b', ((store.make k x).1 k)[i]? = some b' ∧ b'.capacity = b.capacity) ∧
    (∀ k', k' ≠ k → (store.make k x).1 k' = store k') := by
  have hupd : (store.make k x).1 k = (make_node (store k) x).1 := by
    simp [ast_node_store.make]
  have hh : (store.make k x).2 = (make_node (store k) x).2 := rfl
  rw [hupd, hh]
  refine ⟨?_, ?_, ?_, ?_, ?_, ?_, fun k' hk' => by simp [ast_node_store.make, hk']⟩
  all_goals
    generalize store k = vec at hok
    rcases List.eq_nil_or_concat vec with hv | ⟨init, last, hv⟩
  all_goals subst hv
  all_goals try rw [List.concat_eq_append] at *
  · simp [make_node_nil, node_at]
  · rw [make_node_concat]
    have hl := hok last (by simp)
    split
    · rename_i hfull
      rw [new_chunk_eq _ hl.1]
      have hlen : (init ++ [last]).length = init.length + 1 := by simp
      simp only [node_at]
      rw [List.getElem?_append_right (by omega)]
      simp [hlen]
    · rename_i hfull
      have hlt : last.items.length < last.capacity := by omega
      simp [node_at, List.getElem?_append_right, no_reloc_buf.emplace_back, hlt]
  · simp [make_node_nil, node_at]
  · rw [make_node_concat]
    split
    · simp [node_at, List.getElem?_append_right]
    · simp [node_at, List.getElem?_append_right]
  · simp [node_at]
  · rw [make_node_concat]
    have hl := hok last (by simp)
    intro h n hn
    split
    · exact node_at_append_left _ _ h n hn
    · rename_i hfull
      exact node_at_concat_grow init last x (by omega) h n hn
  · simp [make_node_nil, stored]
  · rw [make_node_concat]
    have hl := hok last (by simp)
    split
    · rw [new_chunk_eq _ hl.1]
      simp [stored]
      omega
    · rename_i hfull
      have hlt : last.items.length < last.capacity := by omega
      simp [stored, no_reloc_buf.emplace_back, hlt]
      omega
  · simp [make_node_nil, chunks_ok]
  · rw [make_node_concat]
    have hl := hok last (by simp)
    split
    · intro b hb
      simp only [List.mem_append, List.mem_singleton] at hb
      rcases hb with (hb | hb) | hb
      · exact hok b (by simp [hb])
      · subst hb; exact hl
      · subst hb
        rw [new_chunk_eq _ hl.1]
        simp
        omega
    · rename_i hfull
      have hlt : last.items.length < last.capacity := by omega
      intro b hb
      simp only [List.mem_append, List.mem_singleton] at hb
      rcases hb with hb | hb
      · exact hok b (by simp [hb])
      · subst hb
        simp [no_reloc_buf.emplace_back, hlt]
        omega
  · simp
  · rw [make_node_concat]
    have hl := hok last (by simp)
    intro i b hb
    split
    · refine ⟨b, ?_, rfl⟩
      have hi : i < (init ++ [last]).length := by
        by_contra hc
        have := List.getElem?_eq_none (Nat.le_of_not_lt hc)
        rw [this] at hb
        exact Option.noConfusion hb
      rw [List.getElem?_append_left hi]
      exact hb
    · rename_i hfull
      have hlt : last.items.length < last.capacity := by omega
      by_cases h1 : i < init.length
      · refine ⟨b, ?_, rfl⟩
        rw [List.getElem?_append_left h1] at hb ⊢
        exact hb
      · have h2 : init.length ≤ i := Nat.le_of_not_lt h1
        rw [List.getElem?_append_right h2] at hb ⊢
        cases hd : i - init.length with
        | zero =>
          rw [hd] at hb
          simp only [List.getElem?_cons_zero, Option.some.injEq] at hb
          subst hb
          exact ⟨_, rfl, by simp [no_reloc_buf.emplace_back, hlt]⟩
        | succ j =>
          rw [hd] at hb
          simp at hb


theorem make_node_is_address_stable_witness :
    node_at ((ast_node_store.make (fun _ => [] : ast_node_store Unit Nat) () 7).1 ())
      (ast_node_store.make (fun _ => [] : ast_node_store Unit Nat) () 7).2 = some 7 :=
  (make_node_is_address_stable (fun _ => []) () 7 (by simp [chunks_ok])).1

theorem make_node_cons {α : Type} (c : no_reloc_buf α) (vec : List (no_reloc_buf α))
    (hne : vec ≠ []) (x : α) : (make_node (c :: vec) x).1 = c :: (make_node vec x).1 := by
  rcases List.eq_nil_or_concat vec with hv | ⟨init, last, hv⟩
  · exact absurd hv hne
  · subst hv
    rw [List.concat_eq_append]
    have e : c :: (init ++ [last]) = (c :: init) ++ [last] := rfl
    rw [e, make_node_concat, make_node_concat]
    split <;> simp

theorem chunk_shape_make {α : Type} (x : α) (vec : List (no_reloc_buf α)) :
    ∀ i, chunk_shape i vec → chunk_shape i (make_node vec x).1 := by
  induction vec with
  | nil => intro i h; exact absurd h (by simp [chunk_shape])
  | cons c rest ih =>
    intro i h
    cases rest with
    | nil =>
      have e : [c] = ([] : List (no_reloc_buf α)) ++ [c] := rfl
      rw [e, make_node_concat]
      simp only [chunk_shape] at h
      obtain ⟨h1, h2, h3⟩ := h
      split
      · rename_i hfull
        rw [new_chunk_eq _ (by rw [h1]; exact Nat.one_le_two_pow)]
        simp only [List.nil_append, List.cons_append, chunk_shape, h1, List.length_singleton,
          le_refl, true_and]
        refine ⟨by omega, ?_, Nat.one_le_two_pow⟩
        rw [pow_succ]; omega
      · rename_i hfull
        have hlt : c.items.length < c.capacity := by omega
        simp only [List.nil_append, chunk_shape, no_reloc_buf.emplace_back, hlt, if_true,
          List.length_append, List.length_singleton]
        omega
    | cons d rest' =>
      rw [make_node_cons c (d :: rest') (by simp)]
      simp only [chunk_shape] at h
      obtain ⟨h1, h2, h3⟩ := h
      have := ih (i + 1) h3
      cases hm : (make_node (d :: rest') x).1 with
      | nil => rw [hm] at this; exact absurd this (by simp [chunk_shape])
      | cons e rest'' =>
        rw [hm] at this
        exact ⟨h1, h2, this⟩

theorem chunk_shape_created {α : Type} (x : α) (n : Nat) : chunk_shape 0 (created x (n + 1)) := by
  induction n with
  | zero =>
    show chunk_shape 0 (make_node [] x).1
    rw [make_node_nil]
    simp [chunk_shape]
  | succ n ih => exact chunk_shape_make x _ 0 ih

theorem chunk_shape_facts {α : Type} (vec : List (no_reloc_buf α)) :
    ∀ i, chunk_shape i vec →
      vec.map (fun b => b.capacity) = (List.range' i vec.length).map (fun j => 2 ^ j) ∧
      (∀ b ∈ vec.dropLast, b.items.length = b.capacity) ∧
      (∀ b ∈ vec, b.items.length ≤ b.capacity) := by
  induction vec with
  | nil => intro i h; exact absurd h (by simp [chunk_shape])
  | cons c rest ih =>
    intro i h
    cases rest with
    | nil =>
      simp only [chunk_shape] at h
      obtain ⟨h1, h2, h3⟩ := h
      simp [h1, List.range'] ; omega
    | cons d rest' =>
      simp only [chunk_shape] at h
      obtain ⟨h1, h2, h3⟩ := h
      obtain ⟨g1, g2, g3⟩ := ih (i + 1) h3
      refine ⟨?_, ?_, ?_⟩
      · simp only [List.map_cons, List.length_cons] at g1 ⊢
        rw [List.range'_succ]
        simp only [List.map_cons, h1, List.cons.injEq, true_and]
        simpa using g1
      · intro b hb
        simp only [List.dropLast_cons₂, List.mem_cons] at hb
        rcases hb with hb | hb
        · subst hb; omega
        · exact g2 b hb
      · intro b hb
        simp only [List.mem_cons] at hb
        rcases hb with hb | hb
        · subst hb; omega
        · exact g3 b (by simpa using hb)

theorem emplace_back_items {α : Type} (b : no_reloc_buf α) (x : α) :
    (b.emplace_back x).items = b.items ++ [x] := by
  unfold no_reloc_buf.emplace_back
  split <;> rfl

theorem reserve_items {α : Type} (b : no_reloc_buf α) (n : Nat) :
    (b.reserve n).items = b.items := by
  unfold no_reloc_buf.reserve
  split <;> rfl

theorem stored_make_node {α : Type} (vec : List (no_reloc_buf α)) (x : α) :
    stored (make_node vec x).1 = stored vec + 1 := by
  rcases List.eq_nil_or_concat vec with hv | ⟨init, last, hv⟩
  · subst hv; simp [make_node_nil, stored]
  · subst hv
    rw [List.concat_eq_append, make_node_concat]
    split
    · simp [stored, emplace_back_items, reserve_items, no_reloc_buf.new]
      omega
    · simp [stored, emplace_back_items]
      omega

theorem stored_created {α : Type} (x : α) (n : Nat) : stored (created x n) = n := by
  induction n with
  | zero => simp [created, stored]
  | succ n ih => simp [created, stored_make_node, ih]

/-- C29: on a new or cleared store the first node of a kind lies in a chunk of
capacity 1; a call of `make_NAME` opens a new chunk, of twice the capacity of the
last one, exactly if the last chunk is full; and after `n + 1` creations the
capacities of the chunks are `1, 2, 4, ...`, every chunk but the last is full, no
chunk holds more nodes than its capacity, and `n + 1` nodes are stored. -/
theorem chunk_growth {κ α : Type} (x : α) (n : Nat) :
    (∀ (store : ast_node_store κ α) (k : κ), store.clear k = []) ∧
    (make_node ([] : List (no_reloc_buf α)) x).1 = [⟨1, [x], 0⟩] ∧
    (∀ (init : List (no_reloc_buf α)) (last : no_reloc_buf α), 1 ≤ last.capacity →
      (make_node (init ++ [last]) x).1 =
        if last.items.length = last.capacity then init ++ [last, ⟨2 * last.capacity, [x], 0⟩]
        else init ++ [last.emplace_back x]) ∧
    (created x (n + 1)).map (fun b => b.capacity) =
      (List.range (created x (n + 1)).length).map (fun j => 2 ^ j) ∧
    (∀ b ∈ (created x (n + 1)).dropLast, b.items.length = b.capacity) ∧
    (∀ b ∈ created x (n + 1), b.items.length ≤ b.capacity) ∧
    stored (created x (n + 1)) = n + 1 := by
  have hs := chunk_shape_facts _ 0 (chunk_shape_created x n)
  refine ⟨fun _ _ => rfl, by simp [make_node_nil], fun init last hl => ?_, ?_, hs.2.1, hs.2.2,
    stored_created x (n + 1)⟩
  · rw [make_node_concat]
    split
    · rw [new_chunk_eq _ hl]; simp
    · rfl
  · rw [hs.1, List.range_eq_range']

theorem chunk_growth_witness :
    (make_node ([] ++ [(⟨1, [0], 0⟩ : no_reloc_buf Nat)]) 0).1 =
      [] ++ [⟨1, [0], 0⟩, ⟨2 * 1, [0], 0⟩] :=
  ((@chunk_growth Unit Nat 0 0).2.2.1 [] ⟨1, [0], 0⟩ (le_refl 1)).trans (by simp)

theorem binary_kind_isSome (op : token) (h : is_binary_operator op true = true)
    (hq : op.type ≠ .QMARK) : ∃ kind, binary_kind op = some kind := by
  obtain ⟨ty, text, loc⟩ := op
  by_cases hk : ty = .KEYWORD
  · subst hk
    simp only [is_binary_operator, is_infix_op_type] at h
    simp only [binary_kind]
    generalize get_keyword_type _ = k at h ⊢
    cases k <;> simp_all [is_infix_op_kw]
  · cases ty <;> simp_all [is_binary_operator, is_infix_op_type, binary_kind]

/-- C30: the code does not give every node the location of the first token of its
construct.  The label statement of `a : b` has the location of the colon (column
2), not of the label `a`; the array literal of `[ 1 ]` has the location of the
token after the `[` (column 2); and the binary operation of `1 + 2` has the
location of its operator (column 2), not that of its left operand (column 1).
The block of `{ }` and the object literal of `x = { }` do have the location of
their opening brace. -/
theorem node_location_is_not_first_token :
    (match parse_fresh 20 (tokens [(.IDENTIFIER, "a"), (.COLON, ":"), (.IDENTIFIER, "b")]) with
     | some (.module (.module _ [.label_stmt loc "a" _])) => decide (loc = ⟨1, 2⟩)
     | _ => false) = true ∧
    (match parse_fresh 20 (tokens [(.BRACKET_OPEN, "["), (.INT_LITERAL, "1"),
        (.BRACKET_CLOSE, "]")]) with
     | some (.module (.module _ [.array_literal loc _])) => decide (loc = ⟨1, 2⟩)
     | _ => false) = true ∧
    (match parse_fresh 20 (tokens [(.INT_LITERAL, "1"), (.PLUS, "+"), (.INT_LITERAL, "2")]) with
     | some (.module (.module _ [.bin_op_expr .add loc (.int_literal lhs_loc _) _])) =>
       decide (loc = ⟨1, 2⟩ ∧ lhs_loc = ⟨1, 1⟩)
     | _ => false) = true ∧
    (match parse_fresh 20 (tokens [(.BRACE_OPEN, "\x7b"), (.BRACE_CLOSE, "\x7d")]) with
     | some (.module (.module _ [.block loc _])) => decide (loc = ⟨1, 1⟩)
     | _ => false) = true ∧
    (match parse_fresh 20 (tokens [(.IDENTIFIER, "x"), (.EQ, "="), (.BRACE_OPEN, "\x7b"),
        (.BRACE_CLOSE, "\x7d")]) with
     | some (.module (.module _ [.bin_op_expr .assign _ _ (.object_literal loc _)])) =>
       decide (loc = ⟨1, 3⟩)
     | _ => false) = true :=
  ⟨by decide!, by decide!, by decide!, by decide!, by decide!⟩

/-- A binary operation records the location of its operator token: for every binary operator token `op` other than `?`, `make_binary_expr` returns a
node of the operator's kind whose location is `op.loc`, with the given operands,
and changes nothing in the parser. -/
theorem make_binary_expr_location (op : token) (lhs rhs : Node) (s : parser_base)
    (h : is_binary_operator op true = true) (hq : op.type ≠ .QMARK) :
    ∃ kind, binary_kind op = some kind ∧
      make_binary_expr op lhs rhs s = some (.bin_op_expr kind op.loc lhs rhs, s) := by
  obtain ⟨kind, hk⟩ := binary_kind_isSome op h hq
  refine ⟨kind, hk, ?_⟩
  simp [make_binary_expr, assert_that, parser_base.check, h, hk, Node.isNull]

theorem make_binary_expr_location_witness :
    ∃ kind, binary_kind ⟨.PLUS, "+", ⟨1, 2⟩⟩ = some kind ∧
      make_binary_expr ⟨.PLUS, "+", ⟨1, 2⟩⟩ .null .null (fresh_state []) =
        some (.bin_op_expr kind ⟨1, 2⟩ .null .null, fresh_state []) :=
  make_binary_expr_location ⟨.PLUS, "+", ⟨1, 2⟩⟩ .null .null (fresh_state []) (by decide)
    (by decide)

@[simp] theorem parsers_succ_parse_statement (ops : operators_def) (fuel : Nat) :
    (parsers ops (fuel + 1)).parse_statement = parse_statement (parsers ops fuel) := rfl

@[simp] theorem parsers_succ_parse_keyword_stmt (ops : operators_def) (fuel : Nat) :
    (parsers ops (fuel + 1)).parse_keyword_stmt = parse_keyword_stmt (parsers ops fuel) := rfl

@[simp] theorem parsers_succ_parse_keyword_expr (ops : operators_def) (fuel : Nat) :
    (parsers ops (fuel + 1)).parse_keyword_expr = parse_keyword_expr (parsers ops fuel) := rfl

@[simp] theorem parsers_succ_parse_if_stmt (ops : operators_def) (fuel : Nat) :
    (parsers ops (fuel + 1)).parse_if_stmt = parse_if_stmt (parsers ops fuel) := rfl

@[simp] theorem parsers_succ_parse_do_while (ops : operators_def) (fuel : Nat) :
    (parsers ops (fuel + 1)).parse_do_while = parse_do_while (parsers ops fuel) := rfl

@[simp] theorem parsers_succ_parse_while_stmt (ops : operators_def) (fuel : Nat) :
    (parsers ops (fuel + 1)).parse_while_stmt = parse_while_stmt (parsers ops fuel) := rfl

@[simp] theorem parsers_succ_parse_for_stmt (ops : operators_def) (fuel : Nat) :
    (parsers ops (fuel + 1)).parse_for_stmt = parse_for_stmt (parsers ops fuel) := rfl

@[simp] theorem parsers_succ_parse_switch_stmt (ops : operators_def) (fuel : Nat) :
    (parsers ops (fuel + 1)).parse_switch_stmt = parse_switch_stmt (parsers ops fuel) := rfl

@[simp] theorem parsers_succ_switch_clauses_loop (ops : operators_def) (fuel : Nat) :
    (parsers ops (fuel + 1)).switch_clauses_loop = switch_clauses_loop (parsers ops fuel) := rfl

@[simp] theorem parsers_succ_switch_stmts_loop (ops : operators_def) (fuel : Nat) :
    (parsers ops (fuel + 1)).switch_stmts_loop = switch_stmts_loop (parsers ops fuel) := rfl

@[simp] theorem parsers_succ_parse_return_stmt (ops : operators_def) (fuel : Nat) :
    (parsers ops (fuel + 1)).parse_return_stmt = parse_return_stmt (parsers ops fuel) := rfl

@[simp] theorem parsers_succ_parse_throw_stmt (ops : operators_def) (fuel : Nat) :
    (parsers ops (fuel + 1)).parse_throw_stmt = parse_throw_stmt (parsers ops fuel) := rfl

@[simp] theorem parsers_succ_parse_try_stmt (ops : operators_def) (fuel : Nat) :
    (parsers ops (fuel + 1)).parse_try_stmt = parse_try_stmt (parsers ops fuel) := rfl

@[simp] theorem parsers_succ_parse_expression (ops : operators_def) (fuel : Nat) :
    (parsers ops (fuel + 1)).parse_expression = parse_expression (parsers ops fuel) := rfl

@[simp] theorem parsers_succ_parse_unary_or_atomic_expr (ops : operators_def) (fuel : Nat) :
    (parsers ops (fuel + 1)).parse_unary_or_atomic_expr = parse_unary_or_atomic_expr (parsers ops fuel) := rfl

@[simp] theorem parsers_succ_parse_atomic_expr (ops : operators_def) (fuel : Nat) :
    (parsers ops (fuel + 1)).parse_atomic_expr = parse_atomic_expr (parsers ops fuel) := rfl

@[simp] theorem parsers_succ_atomic_postfix_loop (ops : operators_def) (fuel : Nat) :
    (parsers ops (fuel + 1)).atomic_postfix_loop = atomic_postfix_loop (parsers ops fuel) := rfl

@[simp] theorem parsers_succ_parse_parens_expr (ops : operators_def) (fuel : Nat) :
    (parsers ops (fuel + 1)).parse_parens_expr = parse_parens_expr (parsers ops fuel) := rfl

@[simp] theorem parsers_succ_parens_list_loop (ops : operators_def) (fuel : Nat) :
    (parsers ops (fuel + 1)).parens_list_loop = parens_list_loop (parsers ops fuel) := rfl

@[simp] theorem parsers_succ_parse_bin_op (ops : operators_def) (fuel : Nat) :
    (parsers ops (fuel + 1)).parse_bin_op = parse_bin_op ops (parsers ops fuel) := rfl

@[simp] theorem parsers_succ_parse_atomic_keyword_expr (ops : operators_def) (fuel : Nat) :
    (parsers ops (fuel + 1)).parse_atomic_keyword_expr = parse_atomic_keyword_expr (parsers ops fuel) := rfl

@[simp] theorem parsers_succ_parse_new_keyword (ops : operators_def) (fuel : Nat) :
    (parsers ops (fuel + 1)).parse_new_keyword = parse_new_keyword (parsers ops fuel) := rfl

@[simp] theorem parsers_succ_parse_template_literal (ops : operators_def) (fuel : Nat) :
    (parsers ops (fuel + 1)).parse_template_literal = parse_template_literal (parsers ops fuel) := rfl

@[simp] theorem parsers_succ_template_loop (ops : operators_def) (fuel : Nat) :
    (parsers ops (fuel + 1)).template_loop = template_loop (parsers ops fuel) := rfl

@[simp] theorem parsers_succ_parse_function_stmt (ops : operators_def) (fuel : Nat) :
    (parsers ops (fuel + 1)).parse_function_stmt = parse_function_stmt (parsers ops fuel) := rfl

@[simp] theorem parsers_succ_parse_function_expr (ops : operators_def) (fuel : Nat) :
    (parsers ops (fuel + 1)).parse_function_expr = parse_function_expr (parsers ops fuel) := rfl

@[simp] theorem parsers_succ_parse_param_list (ops : operators_def) (fuel : Nat) :
    (parsers ops (fuel + 1)).parse_param_list = parse_param_list (parsers ops fuel) := rfl

@[simp] theorem parsers_succ_param_list_loop (ops : operators_def) (fuel : Nat) :
    (parsers ops (fuel + 1)).param_list_loop = param_list_loop (parsers ops fuel) := rfl

@[simp] theorem parsers_succ_parse_block (ops : operators_def) (fuel : Nat) :
    (parsers ops (fuel + 1)).parse_block = parse_block (parsers ops fuel) := rfl

@[simp] theorem parsers_succ_block_loop (ops : operators_def) (fuel : Nat) :
    (parsers ops (fuel + 1)).block_loop = block_loop (parsers ops fuel) := rfl

@[simp] theorem parsers_succ_parse_var_decl (ops : operators_def) (fuel : Nat) :
    (parsers ops (fuel + 1)).parse_var_decl = parse_var_decl (parsers ops fuel) := rfl

@[simp] theorem parsers_succ_var_decl_loop (ops : operators_def) (fuel : Nat) :
    (parsers ops (fuel + 1)).var_decl_loop = var_decl_loop (parsers ops fuel) := rfl

@[simp] theorem parsers_succ_parse_array_literal (ops : operators_def) (fuel : Nat) :
    (parsers ops (fuel + 1)).parse_array_literal = parse_array_literal (parsers ops fuel) := rfl

@[simp] theorem parsers_succ_array_loop (ops : operators_def) (fuel : Nat) :
    (parsers ops (fuel + 1)).array_loop = array_loop (parsers ops fuel) := rfl

@[simp] theorem parsers_succ_parse_object_literal (ops : operators_def) (fuel : Nat) :
    (parsers ops (fuel + 1)).parse_object_literal = parse_object_literal (parsers ops fuel) := rfl

@[simp] theorem parsers_succ_object_loop (ops : operators_def) (fuel : Nat) :
    (parsers ops (fuel + 1)).object_loop = object_loop (parsers ops fuel) := rfl

@[simp] theorem parsers_succ_parse_computed_access (ops : operators_def) (fuel : Nat) :
    (parsers ops (fuel + 1)).parse_computed_access = parse_computed_access (parsers ops fuel) := rfl

@[simp] theorem parsers_succ_parse_call (ops : operators_def) (fuel : Nat) :
    (parsers ops (fuel + 1)).parse_call = parse_call (parsers ops fuel) := rfl

@[simp] theorem parsers_succ_call_loop (ops : operators_def) (fuel : Nat) :
    (parsers ops (fuel + 1)).call_loop = call_loop (parsers ops fuel) := rfl

@[simp] theorem parsers_succ_parse_block_or_obj (ops : operators_def) (fuel : Nat) :
    (parsers ops (fuel + 1)).parse_block_or_obj = parse_block_or_obj (parsers ops fuel) := rfl

theorem advance_true_error {s s1 : parser_base} (h : advance s = some (true, s1)) :
    s1.error = s.error := by
  unfold advance at h
  split at h
  · simp at h; rw [← h]
  · simp at h
    have key : ∀ (l : List lexer_result) (s0 : parser_base),
        (advance_lexer l s0).1 = true → (advance_lexer l s0).2.error = s0.error := by
      intro l
      induction l with
      | nil => intro s0 h0; simp [advance_lexer] at h0
      | cons r rest ih =>
        intro s0 h0
        cases r with
        | error e => simp [advance_lexer] at h0
        | tok t =>
          simp only [advance_lexer] at h0 ⊢
          split
          · rename_i hc
            simp only [hc, if_true] at h0
            exact ih _ h0
          · rfl
    have := key s.lexer s (by rw [h])
    rw [h] at this
    exact this

theorem ADVANCE_OR_ERROR_ok {α : Type} (message : String) (return_val : α) (k : P α)
    {s s1 : parser_base} (he : s.error = none) (h : advance s = some (true, s1)) :
    ADVANCE_OR_ERROR message return_val k s = k s1 := by
  have h1 := advance_true_error h
  simp [ADVANCE_OR_ERROR, has_error, he, h, h1]

theorem ADVANCE_OR_ERROR_eof {α : Type} (message : String) (return_val : α) (k : P α)
    {s s1 : parser_base} (he : s.error = none) (h : advance s = some (false, s1)) :
    ADVANCE_OR_ERROR message return_val k s =
      some (return_val, { s1 with error := some ⟨message, ⟨0, 0⟩⟩ }) := by
  simp [ADVANCE_OR_ERROR, has_error, he, h, set_error]

theorem ADVANCE_OR_ERROR_error {α : Type} (message : String) (return_val : α) (k : P α)
    {s : parser_base} (he : s.error.isSome = true) :
    ADVANCE_OR_ERROR message return_val k s = some (return_val, s) := by
  simp [ADVANCE_OR_ERROR, has_error, he]

theorem EXPECT_SEVERAL_ok {α : Type} (types : List token_type) (return_val : α) (k : P α)
    {s : parser_base} (h : s.current_token.type ∈ types) :
    EXPECT_SEVERAL types return_val k s = k s := by
  simp [EXPECT_SEVERAL, current_token, h]

theorem EXPECT_SEVERAL_fail {α : Type} (types : List token_type) (return_val : α) (k : P α)
    {s : parser_base} (h : s.current_token.type ∉ types) :
    EXPECT_SEVERAL types return_val k s =
      some (return_val, { s with error := some ⟨"Unexpected token. Expected: " ++
        typelist_text types ++ ". Was: " ++ to_string s.current_token.type,
        s.current_token.loc⟩ }) := by
  simp [EXPECT_SEVERAL, current_token, h, set_error]

theorem EXPECT_ok {α : Type} (type : token_type) (return_val : α) (k : P α)
    {s : parser_base} (h : s.current_token.type = type) :
    EXPECT type return_val k s = k s := by
  unfold EXPECT
  exact EXPECT_SEVERAL_ok _ _ _ (by simp [h])

theorem EXPECT_fail {α : Type} (type : token_type) (return_val : α) (k : P α)
    {s : parser_base} (h : s.current_token.type ≠ type) :
    EXPECT type return_val k s =
      some (return_val, { s with error := some ⟨"Unexpected token. Expected: " ++
        typelist_text [type] ++ ". Was: " ++ to_string s.current_token.type,
        s.current_token.loc⟩ }) := by
  unfold EXPECT
  exact EXPECT_SEVERAL_fail _ _ _ (by simp [h])

theorem ASSERT_PARSE_RESULT_ok (v : Node) (k : P Node) {s : parser_base}
    (he : s.error = none) (hv : v.isNull = false) :
    ASSERT_PARSE_RESULT v k s = k s := by
  simp [ASSERT_PARSE_RESULT, has_error, he, hv]

theorem ASSERT_PARSE_RESULT_fail (k : P Node) {s : parser_base}
    (he : s.error.isSome = true) :
    ASSERT_PARSE_RESULT .null k s = some (.null, s) := by
  simp [ASSERT_PARSE_RESULT, has_error, he, assert_that, parser_base.check, Node.isNull]

theorem SUBPARSE_ok (parse_call : P Node) (k : Node → P Node) {s s1 : parser_base} {v : Node}
    (h : parse_call s = some (v, s1)) (he : s1.error = none) (hv : v.isNull = false) :
    SUBPARSE parse_call k s = k v s1 := by
  simp only [SUBPARSE, P_bind_apply, h, Option.some_bind]
  exact ASSERT_PARSE_RESULT_ok v (k v) he hv

theorem SUBPARSE_fail (parse_call : P Node) (k : Node → P Node) {s s1 : parser_base}
    (h : parse_call s = some (.null, s1)) (he : s1.error.isSome = true) :
    SUBPARSE parse_call k s = some (.null, s1) := by
  simp only [SUBPARSE, P_bind_apply, h, Option.some_bind]
  exact ASSERT_PARSE_RESULT_fail _ he

theorem number_literal_type {n : token} (hn : n.is_number_literal = true) :
    n.type = .INT_LITERAL ∨ n.type = .FLOAT_LITERAL ∨ n.type = .HEX_LITERAL ∨
    n.type = .OCT_LITERAL ∨ n.type = .BIN_LITERAL := by
  revert hn
  unfold token.is_number_literal
  cases n.type <;> simp

theorem parse_number_literal_reject {s s1 : parser_base}
    (hn : s.current_token.is_number_literal = true) (h : advance s = some (true, s1))
    (hf : is_follow_expression s1.current_token = false) :
    parse_number_literal s = some (.null,
      { s1 with error := some ⟨"Unexpected token after number literal", s1.current_token.loc⟩ }) := by
  rcases number_literal_type hn with h' | h' | h' | h' | h' <;>
  simp [parse_number_literal, current_token, make_number_expression, h', assert_that,
    parser_base.check, Node.isNull, h, hf, set_error]

theorem atomic_start_number (self : parser_fns) {s : parser_base}
    (hn : s.current_token.is_number_literal = true) :
    atomic_start self s = parse_number_literal s := by
  rcases number_literal_type hn with h' | h' | h' | h' | h' <;>
  simp [atomic_start, current_token, h', hn]

theorem parse_atomic_expr_fail (self : parser_fns) {s s1 : parser_base}
    (h : atomic_start self s = some (.null, s1)) (he : s1.error.isSome = true) :
    parse_atomic_expr self s = some (.null, s1) := by
  simp [parse_atomic_expr, h, Node.isNull, has_error, he]

theorem parse_unary_or_atomic_expr_fail (self : parser_fns) {s s1 : parser_base}
    (hu : is_unary_prefix_op s.current_token = false)
    (h : self.parse_atomic_expr s = some (.null, s1)) (he : s1.error.isSome = true) :
    parse_unary_or_atomic_expr self s = some (.null, s1) := by
  simp [parse_unary_or_atomic_expr, current_token, hu, h, ASSERT_PARSE_RESULT_fail _ he]

theorem parse_expression_fail (self : parser_fns) (comma_is_operator : Bool)
    {s s1 : parser_base} (h : self.parse_unary_or_atomic_expr s = some (.null, s1))
    (he : s1.error.isSome = true) :
    parse_expression self comma_is_operator s = some (.null, s1) := by
  simp [parse_expression, h, Node.isNull, has_error, he]

theorem statement_end_fail {s : parser_base} (he : s.error.isSome = true) :
    statement_end .null s = some (.null, s) := by
  unfold statement_end
  exact ASSERT_PARSE_RESULT_fail _ he

theorem parse_statement_expression (self : parser_fns) {s : parser_base}
    (h1 : s.current_token.type ≠ .SEMICOLON) (h2 : s.current_token.type ≠ .BRACE_OPEN)
    (h3 : s.current_token.type ≠ .KEYWORD) (h4 : s.current_token.type ≠ .IDENTIFIER) :
    parse_statement self s = (self.parse_expression true >>= statement_end) s := by
  simp [parse_statement, current_token, h1, h2, h3, h4]

theorem parse_statement_expression_fail (self : parser_fns) {s s1 : parser_base}
    (h1 : s.current_token.type ≠ .SEMICOLON) (h2 : s.current_token.type ≠ .BRACE_OPEN)
    (h3 : s.current_token.type ≠ .KEYWORD) (h4 : s.current_token.type ≠ .IDENTIFIER)
    (h : self.parse_expression true s = some (.null, s1)) (he : s1.error.isSome = true) :
    parse_statement self s = some (.null, s1) := by
  rw [parse_statement_expression self h1 h2 h3 h4]
  simp [h, statement_end_fail he]

theorem parse_first_statement_error (ops : operators_def) (an : Node → Option String)
    (fuel : Nat) (t : token) (rest : List lexer_result) {n : Node} {s1 : parser_base}
    {e : parser_error}
    (ht : t.type ≠ .LINE_COMMENT ∧ t.type ≠ .BLOCK_COMMENT)
    (h : (parsers ops fuel).parse_statement
        { fresh_state rest with current_token := t } = some (n, s1))
    (he : s1.error = some e) :
    ((parse ops an (fuel + 1) false) (fresh_state (.tok t :: rest))).map Prod.fst =
      some (.error e) := by
  simp [parse, reset, parse_loop, has_error, advance, advance_lexer, fresh_state, ht.1, ht.2,
    get, getThe, MonadStateOf.get, StateT.get]
  simp only [fresh_state] at h
  simp [h, he]


/-- C18, as stated, fails: the tokens INT_LITERAL, DOT, IDENTIFIER (`1 . window`)
parse to a module that holds the member access of `window` on the literal `1`;
`is_follow_expression` lists DOT among the tokens that may follow a literal. -/
theorem int_dot_identifier_is_member_access :
    (match parse_fresh 20 (tokens [(.INT_LITERAL, "1"), (.DOT, "."),
        (.IDENTIFIER, "window")]) with
     | some (.module (.module _ [.member_access _ (.int_literal _ "1") "window"])) => true
     | _ => false) = true := by
  decide!

/-- C19: the code accepts a shorthand entry whose token is not an IDENTIFIER.
`x = { 1 }` and `x = { 'a' }` parse to an object literal whose entry is an
`identifier_expr` with the text of the number, resp. of the string literal:
`parse_object_literal` takes every token of `is_possible_object_key` that is not
followed by a colon as a shorthand, without a look at its kind. -/
theorem shorthand_entry_of_number_is_accepted :
    (match parse_fresh 30 (tokens [(.IDENTIFIER, "x"), (.EQ, "="), (.BRACE_OPEN, "\x7b"),
        (.INT_LITERAL, "1"), (.BRACE_CLOSE, "\x7d")]) with
     | some (.module (.module _ [.bin_op_expr .assign _ (.identifier_expr _ "x")
          (.object_literal _ [.identifier_expr _ "1"])])) => true
     | _ => false) = true ∧
    (match parse_fresh 30 (tokens [(.IDENTIFIER, "x"), (.EQ, "="), (.BRACE_OPEN, "\x7b"),
        (.STRING_LITERAL, "'a'"), (.BRACE_CLOSE, "\x7d")]) with
     | some (.module (.module _ [.bin_op_expr .assign _ (.identifier_expr _ "x")
          (.object_literal _ [.identifier_expr _ "'a'"])])) => true
     | _ => false) = true :=
  ⟨by decide!, by decide!⟩

theorem check_fields (s : parser_base) (c : Bool) (v : violation) :
    (s.check c v).lexer = s.lexer ∧ (s.check c v).current_token = s.current_token ∧
    (s.check c v).rewind_stack = s.rewind_stack ∧ (s.check c v).error = s.error := by
  unfold parser_base.check
  split <;> simp

/-- C31: the end of `parse_statement`.  A statement that starts with a keyword,
with an identifier that no colon follows, or with any token other than `;` and
`{` is the node of `parse_keyword_stmt`, resp. `parse_expression`, passed to
`statement_end` (a label statement is passed to it in the same way).  For a
statement node that was built without an error: at the end of the input the node is returned; if a
token `T` follows, a `;` is consumed (it stays the current token); a `)` or `}`
is pushed back, so that the current token is the statement's last token again
and the next `advance` returns `T` without a call of the lexer; and any other
`T` gives the error "Unexpected token after statement: <kind of T>" at the
location of `T` with a null result. -/
theorem statement_end_spec (self : parser_fns) (stmt : Node) (s : parser_base)
    (hn : stmt.isNull = false) (he : s.error = none) :
    (s.current_token.type = .KEYWORD →
      parse_statement self s = (self.parse_keyword_stmt >>= statement_end) s) ∧
    (s.current_token.type ≠ .SEMICOLON → s.current_token.type ≠ .BRACE_OPEN →
      s.current_token.type ≠ .KEYWORD → s.current_token.type ≠ .IDENTIFIER →
      parse_statement self s = (self.parse_expression true >>= statement_end) s) ∧
    (∀ s1, s.current_token.type = .IDENTIFIER → advance s = some (true, s1) →
      s1.current_token.type ≠ .COLON →
      parse_statement self s =
        (rewind s.current_token >>= fun _ => self.parse_expression true >>= statement_end) s1) ∧
    (∀ s1, advance s = some (false, s1) → s1.error = none →
      statement_end stmt s = some (stmt, s1)) ∧
    (∀ s1, advance s = some (true, s1) →
      (s1.current_token.type = .SEMICOLON → statement_end stmt s = some (stmt, s1)) ∧
      (s1.current_token.type = .PAREN_CLOSE ∨ s1.current_token.type = .BRACE_CLOSE →
        ∃ s2, statement_end stmt s = some (stmt, s2) ∧
          s2.current_token = s.current_token ∧
          s2.rewind_stack = s1.current_token :: s1.rewind_stack ∧
          s2.lexer = s1.lexer ∧ s2.error = none ∧
          advance s2 = some (true, { s2 with current_token := s1.current_token,
                                             rewind_stack := s1.rewind_stack })) ∧
      (is_stmt_end s1.current_token = false →
        statement_end stmt s = some (.null,
          { s1 with error := some ⟨"Unexpected token after statement: " ++
                                to_string s1.current_token.type, s1.current_token.loc⟩ }))) := by
  refine ⟨fun hk => ?_, fun k1 k2 k3 k4 => parse_statement_expression self k1 k2 k3 k4,
    fun s1 hi h1 hc => ?_, fun s1 h1 he1 => ?_,
    fun s1 h1 => ⟨fun hT => ?_, fun hT => ?_, fun hT => ?_⟩⟩
  · simp [parse_statement, current_token, hk]
  · simp [parse_statement, current_token, hi, h1, hc]
  · unfold statement_end
    rw [ASSERT_PARSE_RESULT_ok _ _ he hn]
    simp [current_token, h1, has_error, he1]
  · have he1 : s1.error = none := by rw [advance_true_error h1, he]
    unfold statement_end
    rw [ASSERT_PARSE_RESULT_ok _ _ he hn]
    simp [current_token, h1, has_error, he1, is_stmt_end, hT]
  · have he1 : s1.error = none := by rw [advance_true_error h1, he]
    have hs : is_stmt_end s1.current_token = true := by
      rcases hT with hT | hT <;> simp [is_stmt_end, hT]
    have hns : s1.current_token.type ≠ .SEMICOLON := by
      rcases hT with hT | hT <;> simp [hT]
    have hc := check_fields s1
      (decide (s.current_token.type ≠ .BLOCK_COMMENT ∧ s.current_token.type ≠ .LINE_COMMENT))
      violation.rewind_comment
    refine ⟨{ s1.check (decide (s.current_token.type ≠ .BLOCK_COMMENT ∧
        s.current_token.type ≠ .LINE_COMMENT)) violation.rewind_comment with
        rewind_stack := (s1.check (decide (s.current_token.type ≠ .BLOCK_COMMENT ∧
          s.current_token.type ≠ .LINE_COMMENT)) violation.rewind_comment).current_token ::
          (s1.check (decide (s.current_token.type ≠ .BLOCK_COMMENT ∧
          s.current_token.type ≠ .LINE_COMMENT)) violation.rewind_comment).rewind_stack,
        current_token := s.current_token }, ?_, ?_⟩
    · unfold statement_end
      rw [ASSERT_PARSE_RESULT_ok _ _ he hn]
      simp only [current_token, P_bind_apply, Option.some_bind, h1, has_error, he1,
        Option.isSome_none, Bool.false_eq_true, if_false, if_true, hs, Bool.not_true, hns,
        ne_eq, not_false_eq_true, rewind, assert_that, P_pure_apply]
    · obtain ⟨c1, c2, c3, c4⟩ := hc
      generalize s1.check (decide (s.current_token.type ≠ .BLOCK_COMMENT ∧
        s.current_token.type ≠ .LINE_COMMENT)) violation.rewind_comment = c at c1 c2 c3 c4 ⊢
      simp [c1, c2, c3, c4, he1, advance]
  · have he1 : s1.error = none := by rw [advance_true_error h1, he]
    unfold statement_end
    rw [ASSERT_PARSE_RESULT_ok _ _ he hn]
    simp [current_token, h1, has_error, he1, hT, set_error]

theorem statement_end_spec_witness :
    statement_end (.identifier_expr ⟨1, 1⟩ "a")
        { fresh_state (tokens_from 2 [(.SEMICOLON, ";")]) with
          current_token := ⟨.IDENTIFIER, "a", ⟨1, 1⟩⟩ } =
      some (.identifier_expr ⟨1, 1⟩ "a",
        { fresh_state [] with current_token := ⟨.SEMICOLON, ";", ⟨1, 2⟩⟩ }) :=
  ((statement_end_spec (parsers js_operators 0) (.identifier_expr ⟨1, 1⟩ "a")
    { fresh_state (tokens_from 2 [(.SEMICOLON, ";")]) with
      current_token := ⟨.IDENTIFIER, "a", ⟨1, 1⟩⟩ } rfl rfl).2.2.2.2
    { fresh_state [] with current_token := ⟨.SEMICOLON, ";", ⟨1, 2⟩⟩ } rfl).1 rfl

/-- C32: for every parser state `s` (current token `c`, rewind stack `S`) and
every token `t` that is not a comment, `rewind t` makes `t` the current token
and pushes `c` on the stack, touching nothing else, and an `advance` right after
it returns true and gives back the state `s` itself: current token `c`, stack
`S`, and the lexer untouched.  More generally `advance` on a non-empty stack
pops its top into the current token and leaves the lexer alone, so rewound
tokens come back last in, first out before the lexer is asked again. -/
theorem rewind_advance_round_trip (s : parser_base) (t : token)
    (ht : t.type ≠ .BLOCK_COMMENT ∧ t.type ≠ .LINE_COMMENT) :
    (∃ s1, rewind t s = some ((), s1) ∧ s1.current_token = t ∧
      s1.rewind_stack = s.current_token :: s.rewind_stack ∧ s1.lexer = s.lexer ∧
      s1.error = s.error ∧ s1.violations = s.violations ∧
      advance s1 = some (true, s)) ∧
    (∀ (s2 : parser_base) (top : token) (rest : List token),
      s2.rewind_stack = top :: rest →
      advance s2 = some (true, { s2 with current_token := top, rewind_stack := rest })) := by
  refine ⟨?_, fun s2 top rest h => ?_⟩
  · simp [rewind, assert_that, parser_base.check, ht.1, ht.2, advance]
  · simp [advance, h]

theorem rewind_advance_round_trip_witness :
    advance
      { fresh_state [] with current_token := ⟨.IDENTIFIER, "a", ⟨1, 1⟩⟩,
                            rewind_stack := [⟨.PAREN_CLOSE, ")", ⟨1, 2⟩⟩,
                              ⟨.BRACE_CLOSE, "\x7d", ⟨1, 3⟩⟩] } =
      some (true,
        { fresh_state [] with current_token := ⟨.PAREN_CLOSE, ")", ⟨1, 2⟩⟩,
                              rewind_stack := [⟨.BRACE_CLOSE, "\x7d", ⟨1, 3⟩⟩] }) :=
  (rewind_advance_round_trip (fresh_state []) ⟨.IDENTIFIER, "a", ⟨1, 1⟩⟩ (by decide)).2 _ _ _ rfl
/-- C33: the code lets a parse helper return a non-null node while the error is
set.  On `a . 1 ++` the member access fails (`1` is not an identifier), the
loop of `parse_atomic_expr` goes on with the null result, and the postfix `++`
wraps it: `parse_atomic_expr` returns a non-null node with the error recorded.
The assertion of `ASSERT_PARSE_RESULT` in its caller then fails: after
`parse(false)` the list of failed assertions holds `assert_parse_result`. -/
theorem null_sentinel_discipline_fails :
    (match (parsers js_operators 20).parse_atomic_expr
        { fresh_state (tokens_from 2 [(.DOT, "."), (.INT_LITERAL, "1"), (.INCR, "++")]) with
          current_token := ⟨.IDENTIFIER, "a", ⟨1, 1⟩⟩ } with
     | some (n, s) => !n.isNull && s.error.isSome
     | none => false) = true ∧
    (match (parse js_operators no_analysis 30 false) (fresh_state (tokens
        [(.IDENTIFIER, "a"), (.DOT, "."), (.INT_LITERAL, "1"), (.INCR, "++")])) with
     | some (.error _, s) => decide (violation.assert_parse_result ∈ s.violations)
     | _ => false) = true :=
  ⟨by decide!, by decide!⟩

/-- C34: the code drops the token that follows a catch block.  On
`try { } catch ( e ) { } a` it returns a module with one statement, the try
statement; the statement `a` is lost: `parse_try_stmt` advances past the catch
block to look for `finally` and does not push the token back. -/
theorem token_after_catch_is_dropped :
    (match parse_fresh 40 (tokens [(.KEYWORD, "try"), (.BRACE_OPEN, "\x7b"),
        (.BRACE_CLOSE, "\x7d"), (.KEYWORD, "catch"), (.PAREN_OPEN, "("), (.IDENTIFIER, "e"),
        (.PAREN_CLOSE, ")"), (.BRACE_OPEN, "\x7b"), (.BRACE_CLOSE, "\x7d"),
        (.IDENTIFIER, "a")]) with
     | some (.module (.module _ [.try_stmt _ (.block _ []) (some (.catch_node _ "e"
          (.block _ []))) none])) => true
     | _ => false) = true ∧
    is_module (parse_fresh 40 (tokens [(.IDENTIFIER, "a")])) = true :=
  ⟨by decide!, by decide!⟩

/-- C35: the code rejects a statement after a compound statement.  `if ( a ) b ; c`
is the error "Unexpected token after statement: IDENTIFIER" at `c`, and so are
`while ( a ) b ; c` and `l : b ; c`: the inner statement consumes the `;`, and
the terminator check of the outer statement then meets `c`. -/
theorem statement_after_compound_is_rejected :
    parse_fresh 40 (tokens [(.KEYWORD, "if"), (.PAREN_OPEN, "("), (.IDENTIFIER, "a"),
        (.PAREN_CLOSE, ")"), (.IDENTIFIER, "b"), (.SEMICOLON, ";"), (.IDENTIFIER, "c")]) =
      some (.error ⟨"Unexpected token after statement: IDENTIFIER", ⟨1, 7⟩⟩) ∧
    parse_fresh 40 (tokens [(.KEYWORD, "while"), (.PAREN_OPEN, "("), (.IDENTIFIER, "a"),
        (.PAREN_CLOSE, ")"), (.IDENTIFIER, "b"), (.SEMICOLON, ";"), (.IDENTIFIER, "c")]) =
      some (.error ⟨"Unexpected token after statement: IDENTIFIER", ⟨1, 7⟩⟩) ∧
    parse_fresh 40 (tokens [(.IDENTIFIER, "l"), (.COLON, ":"), (.IDENTIFIER, "b"),
        (.SEMICOLON, ";"), (.IDENTIFIER, "c")]) =
      some (.error ⟨"Unexpected token after statement: IDENTIFIER", ⟨1, 5⟩⟩) :=
  ⟨is_error_eq (by decide!), is_error_eq (by decide!), is_error_eq (by decide!)⟩

/-- C36: the code does not leave the `}` after a bare `return` to the block.
`function f ( ) { return }` is the error "Unexpected EOF while parsing block":
`parse_return_stmt` advances to the `}` and does not push it back.  With a
semicolon (`return ;`) the function parses. -/
theorem bare_return_before_brace_fails :
    parse_fresh 40 (tokens [(.KEYWORD, "function"), (.IDENTIFIER, "f"), (.PAREN_OPEN, "("),
        (.PAREN_CLOSE, ")"), (.BRACE_OPEN, "\x7b"), (.KEYWORD, "return"),
        (.BRACE_CLOSE, "\x7d")]) =
      some (.error ⟨"Unexpected EOF while parsing block", ⟨0, 0⟩⟩) ∧
    (match parse_fresh 40 (tokens [(.KEYWORD, "function"), (.IDENTIFIER, "f"),
        (.PAREN_OPEN, "("), (.PAREN_CLOSE, ")"), (.BRACE_OPEN, "\x7b"), (.KEYWORD, "return"),
        (.SEMICOLON, ";"), (.BRACE_CLOSE, "\x7d")]) with
     | some (.module (.module _ [.function_stmt _ "f" _ (.block _ [.return_stmt _ none])])) =>
       true
     | _ => false) = true :=
  ⟨is_error_eq (by decide!), by decide!⟩

/-- C37: the code takes `front()` of the empty list.  On `( )` at the end of
the input `parse_parens_expr` records no error: it reaches `exprs.front()` with
no expression collected (the failed check `front_of_empty_vector`; the null
result stands in for the undefined value). -/
theorem empty_parens_take_front_of_empty_list :
    (match (parsers js_operators 20).parse_parens_expr
        { fresh_state (tokens_from 2 [(.PAREN_CLOSE, ")")]) with
          current_token := ⟨.PAREN_OPEN, "(", ⟨1, 1⟩⟩ } with
     | some (_, s) =>
       s.error.isNone && decide (violation.front_of_empty_vector ∈ s.violations)
     | none => false) = true := by
  decide!

/-- C38: the assertion of `parse_block` fails on a nested block.  On
`{ { } }` the loop of `parse_block` meets the inner `{` as the current token, so
`assert(current_token.type != token_type::BRACE_OPEN)` does not hold; with the
assertion compiled out the input parses to a block that holds an empty block. -/
theorem nested_block_fails_assertion :
    (match (parse js_operators no_analysis 30 false) (fresh_state (tokens
        [(.BRACE_OPEN, "\x7b"), (.BRACE_OPEN, "\x7b"), (.BRACE_CLOSE, "\x7d"),
          (.BRACE_CLOSE, "\x7d")])) with
     | some (.module (.module _ [.block _ [.block _ []]]), s) =>
       decide (violation.block_brace_open ∈ s.violations)
     | _ => false) = true := by
  decide!

/-- C39: `parse_call` is reached with a current token that is not `(`.  For a
statement that starts with the keyword `super`, `parse_keyword_stmt` calls
`parse_call` while `super` itself is the current token: on `super ( )` the
entry assertion of `parse_call` fails, and the input is a parser error. -/
theorem super_reaches_parse_call_without_paren :
    (match (parse js_operators no_analysis 30 false) (fresh_state (tokens
        [(.KEYWORD, "super"), (.PAREN_OPEN, "("), (.PAREN_CLOSE, ")")])) with
     | some (.error _, s) => decide (violation.call_token ∈ s.violations)
     | _ => false) = true := by
  decide!

theorem le_refl (s : parser_base) : s.le s := ⟨id, id⟩

theorem le_trans {s s1 s2 : parser_base} (h1 : s.le s1) (h2 : s1.le s2) : s.le s2 :=
  ⟨fun h => h2.1 (h1.1 h), fun h => h2.2 (h1.2 h)⟩

theorem bad_of_le {s s1 : parser_base} (h : s.le s1) (hb : s.bad) : s1.bad := by
  rcases hb with hb | hb
  · exact Or.inl (h.1 hb)
  · exact Or.inr (h.2 hb)

theorem le_of_eq {s s1 : parser_base} (he : s.error.isSome = true → s1.error.isSome = true)
    (hv : s1.violations = s.violations) : s.le s1 :=
  ⟨he, fun h => by unfold parser_base.crit at *; rw [hv]; exact h⟩

theorem le_check (s : parser_base) (c : Bool) (v : violation) : s.le (s.check c v) := by
  unfold parser_base.check
  split
  · exact le_refl s
  · exact ⟨id, fun h => List.mem_cons_of_mem _ h⟩

theorem advance_lexer_le (l : List lexer_result) (s : parser_base) :
    s.le (advance_lexer l s).2 := by
  induction l generalizing s with
  | nil => exact le_of_eq id rfl
  | cons r rest ih =>
    cases r with
    | error e => exact le_of_eq (fun _ => rfl) rfl
    | tok t =>
      simp only [advance_lexer]
      split
      · exact le_trans (le_of_eq id rfl : s.le { s with current_token := t }) (ih _)
      · exact le_of_eq id rfl

theorem le_advance {s s1 : parser_base} {b : Bool} (h : advance s = some (b, s1)) :
    s.le s1 := by
  unfold advance at h
  split at h
  · simp at h; rw [← h.2]; exact le_of_eq id rfl
  · simp at h
    have := advance_lexer_le s.lexer s
    rw [h] at this
    exact this

theorem le_rewind {s s1 : parser_base} {t : token} (h : rewind t s = some ((), s1)) :
    s.le s1 := by
  simp [rewind, assert_that] at h
  rw [← h]
  exact le_trans (le_check s _ _) (le_of_eq id rfl)

theorem ok_intro {n : Node} (h1 : node_ok n = true) (h2 : oks n.children) : ok n :=
  every_node.mk n h1 h2

theorem ok_children {n : Node} (h : ok n) : oks n.children := by
  cases h with
  | mk _ _ h2 => exact h2

theorem ok_null : ok Node.null := ok_intro rfl (fun _ h => by simp [Node.children] at h)

@[simp] theorem oks_nil : oks [] ↔ True := by simp [oks]

@[simp] theorem oks_cons (a : Node) (l : List Node) : oks (a :: l) ↔ ok a ∧ oks l := by
  simp [oks]

@[simp] theorem oks_append (l1 l2 : List Node) : oks (l1 ++ l2) ↔ oks l1 ∧ oks l2 := by
  simp [oks, or_imp, forall_and]

@[simp] theorem oks_toList (o : Option Node) : oks o.toList ↔ ∀ n, o = some n → ok n := by
  cases o <;> simp [oks]

theorem good_run_pure {s0 s : parser_base} {H : Prop} {n : Node}
    (h1 : n.isNull = true → s0.bad ∨ s.bad) (h2 : H → ok n) :
    good_run s0 H (pure n) s := by
  intro hle n' s' h
  simp at h
  obtain ⟨rfl, rfl⟩ := h
  refine ⟨⟨hle, fun hn => ?_, fun _ => h2⟩, le_refl _⟩
  rcases h1 hn with hb | hb
  · exact bad_of_le hle hb
  · exact hb

theorem good_run_null {s0 s : parser_base} {H : Prop} (h : s.error.isSome = true) :
    good_run s0 H (pure Node.null) s :=
  good_run_pure (fun _ => Or.inr (Or.inl h)) (fun _ => ok_null)

theorem good_run_current_token {s0 s : parser_base} {H : Prop} {k : token → P Node}
    (h : good_run s0 H (k s.current_token) s) : good_run s0 H (current_token >>= k) s := by
  intro hle n s' hr
  simp [current_token] at hr
  exact h hle n s' hr

theorem good_run_has_error {s0 s : parser_base} {H : Prop} {k : Bool → P Node}
    (h : good_run s0 H (k s.error.isSome) s) : good_run s0 H (has_error >>= k) s := by
  intro hle n s' hr
  simp [has_error] at hr
  exact h hle n s' hr

theorem good_run_step {α : Type} {s0 s : parser_base} {H : Prop} {m : P α} {k : α → P Node}
    (hm : ∀ a s1, m s = some (a, s1) → s.le s1)
    (h : ∀ a s1, m s = some (a, s1) → good_run s0 H (k a) s1) :
    good_run s0 H (m >>= k) s := by
  intro hle n s' hr
  simp at hr
  cases hms : m s with
  | none => simp [hms] at hr
  | some p =>
    obtain ⟨a, s1⟩ := p
    simp [hms] at hr
    have h1 := hm a s1 hms
    obtain ⟨g, l⟩ := h a s1 hms (le_trans hle h1) n s' hr
    exact ⟨g, le_trans h1 l⟩

@[simp] theorem check_current_token (s : parser_base) (c : Bool) (v : violation) :
    (s.check c v).current_token = s.current_token := by
  unfold parser_base.check
  split <;> rfl

@[simp] theorem check_error (s : parser_base) (c : Bool) (v : violation) :
    (s.check c v).error = s.error := by
  unfold parser_base.check
  split <;> rfl

theorem good_run_assert {s0 s : parser_base} {H : Prop} {c : Prop} [Decidable c]
    {v : violation} {k : Unit → P Node}
    (h : good_run s0 H (k ()) (s.check (decide c) v)) :
    good_run s0 H (assert_that c v >>= k) s :=
  good_run_step (fun a s1 hs => by simp [assert_that] at hs; rw [← hs]; exact le_check _ _ _)
    (fun a s1 hs => by simp [assert_that] at hs; rw [← hs]; exact h)

theorem good_run_set_error {s0 s : parser_base} {H : Prop} {msg : String}
    {loc : source_location} {k : Unit → P Node}
    (h : ∀ s1, s1.error.isSome = true → good_run s0 H (k ()) s1) :
    good_run s0 H (set_error msg loc >>= k) s :=
  good_run_step (fun a s1 hs => by simp [set_error] at hs; rw [← hs]; exact le_of_eq (fun _ => rfl) rfl)
    (fun a s1 hs => h s1 (by simp [set_error] at hs; rw [← hs]; rfl))

theorem good_run_rewind {s0 s : parser_base} {H : Prop} {t : token} {k : Unit → P Node}
    (h : ∀ s1, good_run s0 H (k ()) s1) :
    good_run s0 H (rewind t >>= k) s :=
  good_run_step (fun a s1 hs => le_rewind hs) (fun a s1 hs => h s1)

theorem good_run_advance {s0 s : parser_base} {H : Prop} {k : Bool → P Node}
    (h : ∀ b s1, good_run s0 H (k b) s1) :
    good_run s0 H (advance >>= k) s :=
  good_run_step (fun a s1 hs => le_advance hs) (fun a s1 hs => h a s1)

theorem good_run_ite {s0 s : parser_base} {H : Prop} {c : Prop} [Decidable c] {a b : P Node}
    (h1 : c → good_run s0 H a s) (h2 : ¬ c → good_run s0 H b s) :
    good_run s0 H (if c then a else b) s := by
  split
  · exact h1 ‹_›
  · exact h2 ‹_›

theorem advance_total (s : parser_base) : ∃ b s1, advance s = some (b, s1) := by
  unfold advance
  split
  · exact ⟨_, _, rfl⟩
  · exact ⟨_, _, rfl⟩

theorem good_run_ADVANCE_OR_ERROR {s0 s : parser_base} {H : Prop} {msg : String} {k : P Node}
    (h : ∀ s1, s1.error = none → good_run s0 H k s1) :
    good_run s0 H (ADVANCE_OR_ERROR msg .null k) s := by
  intro hle n s' hr
  cases he : s.error with
  | some e =>
    rw [ADVANCE_OR_ERROR_error msg Node.null k (by simp [he])] at hr
    exact good_run_null (by simp [he]) hle n s' hr
  | none =>
    obtain ⟨b, s1, hadv⟩ := advance_total s
    have hl := le_advance hadv
    cases b with
    | true =>
      rw [ADVANCE_OR_ERROR_ok msg Node.null k he hadv] at hr
      obtain ⟨g, l⟩ := h s1 (by rw [advance_true_error hadv, he]) (le_trans hle hl) n s' hr
      exact ⟨g, le_trans hl l⟩
    | false =>
      rw [ADVANCE_OR_ERROR_eof msg Node.null k he hadv] at hr
      have hl2 : s1.le { s1 with error := some ⟨msg, ⟨0, 0⟩⟩ } := le_of_eq (fun _ => rfl) rfl
      obtain ⟨g, l⟩ := @good_run_null s0 { s1 with error := some ⟨msg, ⟨0, 0⟩⟩ } H rfl
        (le_trans hle (le_trans hl hl2)) n s' hr
      exact ⟨g, le_trans hl (le_trans hl2 l)⟩

theorem good_run_EXPECT_SEVERAL {s0 s : parser_base} {H : Prop} {types : List token_type}
    {k : P Node} (h : s.current_token.type ∈ types → good_run s0 H k s) :
    good_run s0 H (EXPECT_SEVERAL types .null k) s := by
  unfold EXPECT_SEVERAL
  refine good_run_current_token (good_run_ite (fun hc => h (by simpa using hc)) (fun _ => ?_))
  exact good_run_set_error (fun s1 he => good_run_null he)

theorem good_run_EXPECT {s0 s : parser_base} {H : Prop} {type : token_type}
    {k : P Node} (h : s.current_token.type = type → good_run s0 H k s) :
    good_run s0 H (EXPECT type .null k) s :=
  good_run_EXPECT_SEVERAL (fun hc => h (by simpa using hc))

theorem good_run_call {s0 s : parser_base} {H Hc : Prop} {call : P Node}
    (hc : good_run s Hc call s) (hH : H → Hc) : good_run s0 H call s := by
  intro hle n s' hr
  obtain ⟨⟨h1, h2, h3⟩, _⟩ := hc (le_refl s) n s' hr
  exact ⟨⟨le_trans hle h1, h2, fun hv hh => h3 hv (hH hh)⟩, h1⟩

theorem good_run_bind_call {s0 s : parser_base} {H Hc : Prop} {call : P Node}
    {k : Node → P Node} (hc : good_run s Hc call s) (hH : H → Hc)
    (hk : ∀ v s1, (v.isNull = true → s1.bad) → good_run s0 (ok v ∧ H) (k v) s1) :
    good_run s0 H (call >>= k) s := by
  intro hle n s' hr
  simp at hr
  cases hms : call s with
  | none => simp [hms] at hr
  | some p =>
    obtain ⟨v, s1⟩ := p
    simp [hms] at hr
    obtain ⟨⟨h1, h2, h3⟩, _⟩ := hc (le_refl s) v s1 hms
    obtain ⟨⟨g1, g2, g3⟩, l⟩ := hk v s1 h2 (le_trans hle h1) n s' hr
    refine ⟨⟨g1, g2, fun hv hh => g3 hv ⟨h3 (fun hcr => hv (l.2 hcr)) (hH hh), hh⟩⟩, le_trans h1 l⟩

theorem good_run_ASSERT_PARSE_RESULT {s0 s : parser_base} {H : Prop} {v : Node} {k : P Node}
    (hv : v.isNull = true → s.bad)
    (hk : v.isNull = false → s.error = none → good_run s0 H k s) :
    good_run s0 H (ASSERT_PARSE_RESULT v k) s := by
  by_cases hc : (s.error.isSome || v.isNull) = true
  · intro hle n s' hr
    simp only [ASSERT_PARSE_RESULT, P_bind_apply, has_error, Option.some_bind, hc, if_true,
      assert_that, P_pure_apply] at hr
    simp only [Option.some.injEq, Prod.mk.injEq] at hr
    obtain ⟨rfl, rfl⟩ := hr
    have hl := le_check s (decide (s.error.isSome = true ∧ v.isNull = true))
      violation.assert_parse_result
    refine ⟨⟨le_trans hle hl, fun _ => bad_of_le hl ?_, fun _ _ => ok_null⟩, hl⟩
    simp only [Bool.or_eq_true] at hc
    rcases hc with hc | hc
    · exact Or.inl hc
    · exact hv hc
  · have hc' : s.error.isSome = false ∧ v.isNull = false := by simpa using hc
    have : ASSERT_PARSE_RESULT v k s = k s :=
      ASSERT_PARSE_RESULT_ok v k (by simpa using hc'.1) hc'.2
    intro hle n s' hr
    rw [this] at hr
    exact hk hc'.2 (by simpa using hc'.1) hle n s' hr

theorem good_run_SUBPARSE {s0 s : parser_base} {H Hc : Prop} {call : P Node}
    {k : Node → P Node} (hc : good_run s Hc call s) (hH : H → Hc)
    (hk : ∀ v s1, v.isNull = false → s1.error = none → good_run s0 (ok v ∧ H) (k v) s1) :
    good_run s0 H (SUBPARSE call k) s := by
  unfold SUBPARSE
  refine good_run_bind_call hc hH (fun v s1 hb => ?_)
  exact good_run_ASSERT_PARSE_RESULT hb (fun h1 h2 => hk v s1 h1 h2)
@[simp] theorem ok_module (loc : source_location) (stmts : List Node) :
    ok (Node.module loc stmts) ↔ oks stmts := by
  constructor
  · intro h
    have hc : oks (stmts) := ok_children h
    simpa [and_assoc] using hc
  · intro h
    exact ok_intro rfl (show oks (stmts) from by simpa [and_assoc] using h)

@[simp] theorem ok_empty_stmt (loc : source_location) :
    ok (Node.empty_stmt loc) ↔ True := by
  constructor
  · intro h
    have hc : oks ([]) := ok_children h
    simpa [and_assoc] using hc
  · intro h
    exact ok_intro rfl (show oks ([]) from by simpa [and_assoc] using h)

@[simp] theorem ok_block (loc : source_location) (stmts : List Node) :
    ok (Node.block loc stmts) ↔ oks stmts := by
  constructor
  · intro h
    have hc : oks (stmts) := ok_children h
    simpa [and_assoc] using hc
  · intro h
    exact ok_intro rfl (show oks (stmts) from by simpa [and_assoc] using h)

@[simp] theorem ok_label_stmt (loc : source_location) (label : String) (stmt : Node) :
    ok (Node.label_stmt loc label stmt) ↔ ok stmt := by
  constructor
  · intro h
    have hc : oks ([stmt]) := ok_children h
    simpa [and_assoc] using hc
  · intro h
    exact ok_intro rfl (show oks ([stmt]) from by simpa [and_assoc] using h)

@[simp] theorem ok_if_stmt (loc : source_location) (condition : Node) (body : Node) (else_stmt : Option Node) :
    ok (Node.if_stmt loc condition body else_stmt) ↔ ok condition ∧ ok body ∧ (∀ n, else_stmt = some n → ok n) := by
  constructor
  · intro h
    have hc : oks ([condition] ++ [body] ++ else_stmt.toList) := ok_children h
    simpa [and_assoc] using hc
  · intro h
    exact ok_intro rfl (show oks ([condition] ++ [body] ++ else_stmt.toList) from by simpa [and_assoc] using h)

@[simp] theorem ok_do_while (loc : source_location) (condition : Node) (body : Node) :
    ok (Node.do_while loc condition body) ↔ ok condition ∧ ok body := by
  constructor
  · intro h
    have hc : oks ([condition] ++ [body]) := ok_children h
    simpa [and_assoc] using hc
  · intro h
    exact ok_intro rfl (show oks ([condition] ++ [body]) from by simpa [and_assoc] using h)

@[simp] theorem ok_while_stmt (loc : source_location) (condition : Node) (body : Node) :
    ok (Node.while_stmt loc condition body) ↔ ok condition ∧ ok body := by
  constructor
  · intro h
    have hc : oks ([condition] ++ [body]) := ok_children h
    simpa [and_assoc] using hc
  · intro h
    exact ok_intro rfl (show oks ([condition] ++ [body]) from by simpa [and_assoc] using h)

@[simp] theorem ok_for_stmt (loc : source_location) (pre_stmt : Node) (condition : Node) (latch_stmt : Node) (body : Node) :
    ok (Node.for_stmt loc pre_stmt condition latch_stmt body) ↔ ok pre_stmt ∧ ok condition ∧ ok latch_stmt ∧ ok body := by
  constructor
  · intro h
    have hc : oks ([pre_stmt] ++ [condition] ++ [latch_stmt] ++ [body]) := ok_children h
    simpa [and_assoc] using hc
  · intro h
    exact ok_intro rfl (show oks ([pre_stmt] ++ [condition] ++ [latch_stmt] ++ [body]) from by simpa [and_assoc] using h)

@[simp] theorem ok_for_in (loc : source_location) (keyword : Option String) (var : String) (iterable : Node) (body : Node) :
    ok (Node.for_in loc keyword var iterable body) ↔ ok iterable ∧ ok body := by
  constructor
  · intro h
    have hc : oks ([iterable] ++ [body]) := ok_children h
    simpa [and_assoc] using hc
  · intro h
    exact ok_intro rfl (show oks ([iterable] ++ [body]) from by simpa [and_assoc] using h)

@[simp] theorem ok_for_of (loc : source_location) (keyword : Option String) (var : String) (iterable : Node) (body : Node) :
    ok (Node.for_of loc keyword var iterable body) ↔ ok iterable ∧ ok body := by
  constructor
  · intro h
    have hc : oks ([iterable] ++ [body]) := ok_children h
    simpa [and_assoc] using hc
  · intro h
    exact ok_intro rfl (show oks ([iterable] ++ [body]) from by simpa [and_assoc] using h)

@[simp] theorem ok_switch_stmt (loc : source_location) (value : Node) (clauses : List Node) :
    ok (Node.switch_stmt loc value clauses) ↔ default_count clauses ≤ 1 ∧ ok value ∧ oks clauses := by
  constructor
  · intro h
    cases h with
    | mk _ h1 h2 =>
      have hc : oks ([value] ++ clauses) := h2
      simp only [node_ok, template_ok, switch_ok, try_ok, Bool.and_true, Bool.true_and,
        decide_eq_true_eq, Bool.or_eq_true] at h1
      exact ⟨h1, by simpa [and_assoc] using hc⟩
  · intro h
    refine ok_intro ?_ (show oks ([value] ++ clauses) from by simpa [and_assoc] using h.2)
    simp only [node_ok, template_ok, switch_ok, try_ok, Bool.and_true, Bool.true_and,
      decide_eq_true_eq, Bool.or_eq_true]
    exact h.1

@[simp] theorem ok_switch_clause (loc : source_location) (stmts : List Node) :
    ok (Node.switch_clause loc stmts) ↔ oks stmts := by
  constructor
  · intro h
    have hc : oks (stmts) := ok_children h
    simpa [and_assoc] using hc
  · intro h
    exact ok_intro rfl (show oks (stmts) from by simpa [and_assoc] using h)

@[simp] theorem ok_case_node (loc : source_location) (stmts : List Node) (condition : Node) :
    ok (Node.case_node loc stmts condition) ↔ oks stmts ∧ ok condition := by
  constructor
  · intro h
    have hc : oks (stmts ++ [condition]) := ok_children h
    simpa [and_assoc] using hc
  · intro h
    exact ok_intro rfl (show oks (stmts ++ [condition]) from by simpa [and_assoc] using h)

@[simp] theorem ok_return_stmt (loc : source_location) (value : Option Node) :
    ok (Node.return_stmt loc value) ↔ (∀ n, value = some n → ok n) := by
  constructor
  · intro h
    have hc : oks (value.toList) := ok_children h
    simpa [and_assoc] using hc
  · intro h
    exact ok_intro rfl (show oks (value.toList) from by simpa [and_assoc] using h)

@[simp] theorem ok_throw_stmt (loc : source_location) (value : Node) :
    ok (Node.throw_stmt loc value) ↔ ok value := by
  constructor
  · intro h
    have hc : oks ([value]) := ok_children h
    simpa [and_assoc] using hc
  · intro h
    exact ok_intro rfl (show oks ([value]) from by simpa [and_assoc] using h)

@[simp] theorem ok_try_stmt (loc : source_location) (body : Node) (catch_block : Option Node) (finally_ : Option Node) :
    ok (Node.try_stmt loc body catch_block finally_) ↔ (catch_block.isSome = true ∨ finally_.isSome = true) ∧ ok body ∧ (∀ n, catch_block = some n → ok n) ∧ (∀ n, finally_ = some n → ok n) := by
  constructor
  · intro h
    cases h with
    | mk _ h1 h2 =>
      have hc : oks ([body] ++ catch_block.toList ++ finally_.toList) := h2
      simp only [node_ok, template_ok, switch_ok, try_ok, Bool.and_true, Bool.true_and,
        decide_eq_true_eq, Bool.or_eq_true] at h1
      exact ⟨h1, by simpa [and_assoc] using hc⟩
  · intro h
    refine ok_intro ?_ (show oks ([body] ++ catch_block.toList ++ finally_.toList) from by simpa [and_assoc] using h.2)
    simp only [node_ok, template_ok, switch_ok, try_ok, Bool.and_true, Bool.true_and,
      decide_eq_true_eq, Bool.or_eq_true]
    exact h.1

@[simp] theorem ok_catch_node (loc : source_location) (var : String) (body : Node) :
    ok (Node.catch_node loc var body) ↔ ok body := by
  constructor
  · intro h
    have hc : oks ([body]) := ok_children h
    simpa [and_assoc] using hc
  · intro h
    exact ok_intro rfl (show oks ([body]) from by simpa [and_assoc] using h)

@[simp] theorem ok_break_stmt (loc : source_location) :
    ok (Node.break_stmt loc) ↔ True := by
  constructor
  · intro h
    have hc : oks ([]) := ok_children h
    simpa [and_assoc] using hc
  · intro h
    exact ok_intro rfl (show oks ([]) from by simpa [and_assoc] using h)

@[simp] theorem ok_continue_stmt (loc : source_location) :
    ok (Node.continue_stmt loc) ↔ True := by
  constructor
  · intro h
    have hc : oks ([]) := ok_children h
    simpa [and_assoc] using hc
  · intro h
    exact ok_intro rfl (show oks ([]) from by simpa [and_assoc] using h)

@[simp] theorem ok_var_decl (loc : source_location) (keyword : String) (parts : List Node) :
    ok (Node.var_decl loc keyword parts) ↔ oks parts := by
  constructor
  · intro h
    have hc : oks (parts) := ok_children h
    simpa [and_assoc] using hc
  · intro h
    exact ok_intro rfl (show oks (parts) from by simpa [and_assoc] using h)

@[simp] theorem ok_var_decl_part (loc : source_location) (name : String) (init : Option Node) :
    ok (Node.var_decl_part loc name init) ↔ (∀ n, init = some n → ok n) := by
  constructor
  · intro h
    have hc : oks (init.toList) := ok_children h
    simpa [and_assoc] using hc
  · intro h
    exact ok_intro rfl (show oks (init.toList) from by simpa [and_assoc] using h)

@[simp] theorem ok_function_stmt (loc : source_location) (name : String) (params : Node) (body : Node) :
    ok (Node.function_stmt loc name params body) ↔ ok params ∧ ok body := by
  constructor
  · intro h
    have hc : oks ([params] ++ [body]) := ok_children h
    simpa [and_assoc] using hc
  · intro h
    exact ok_intro rfl (show oks ([params] ++ [body]) from by simpa [and_assoc] using h)

@[simp] theorem ok_function_expr (loc : source_location) (name : Option String) (params : Node) (body : Node) :
    ok (Node.function_expr loc name params body) ↔ ok params ∧ ok body := by
  constructor
  · intro h
    have hc : oks ([params] ++ [body]) := ok_children h
    simpa [and_assoc] using hc
  · intro h
    exact ok_intro rfl (show oks ([params] ++ [body]) from by simpa [and_assoc] using h)

@[simp] theorem ok_param_list (loc : source_location) (names : List String) (rest : Option String) :
    ok (Node.param_list loc names rest) ↔ True := by
  constructor
  · intro h
    have hc : oks ([]) := ok_children h
    simpa [and_assoc] using hc
  · intro h
    exact ok_intro rfl (show oks ([]) from by simpa [and_assoc] using h)

@[simp] theorem ok_arrow_function (loc : source_location) (params : Node) (body : Node) :
    ok (Node.arrow_function loc params body) ↔ ok params ∧ ok body := by
  constructor
  · intro h
    have hc : oks ([params] ++ [body]) := ok_children h
    simpa [and_assoc] using hc
  · intro h
    exact ok_intro rfl (show oks ([params] ++ [body]) from by simpa [and_assoc] using h)

@[simp] theorem ok_identifier_expr (loc : source_location) (str : String) :
    ok (Node.identifier_expr loc str) ↔ True := by
  constructor
  · intro h
    have hc : oks ([]) := ok_children h
    simpa [and_assoc] using hc
  · intro h
    exact ok_intro rfl (show oks ([]) from by simpa [and_assoc] using h)

@[simp] theorem ok_int_literal (loc : source_location) (val : String) :
    ok (Node.int_literal loc val) ↔ True := by
  constructor
  · intro h
    have hc : oks ([]) := ok_children h
    simpa [and_assoc] using hc
  · intro h
    exact ok_intro rfl (show oks ([]) from by simpa [and_assoc] using h)

@[simp] theorem ok_float_literal (loc : source_location) (val : String) :
    ok (Node.float_literal loc val) ↔ True := by
  constructor
  · intro h
    have hc : oks ([]) := ok_children h
    simpa [and_assoc] using hc
  · intro h
    exact ok_intro rfl (show oks ([]) from by simpa [and_assoc] using h)

@[simp] theorem ok_string_literal (loc : source_location) (val : String) :
    ok (Node.string_literal loc val) ↔ True := by
  constructor
  · intro h
    have hc : oks ([]) := ok_children h
    simpa [and_assoc] using hc
  · intro h
    exact ok_intro rfl (show oks ([]) from by simpa [and_assoc] using h)

@[simp] theorem ok_regex_literal (loc : source_location) (val : String) :
    ok (Node.regex_literal loc val) ↔ True := by
  constructor
  · intro h
    have hc : oks ([]) := ok_children h
    simpa [and_assoc] using hc
  · intro h
    exact ok_intro rfl (show oks ([]) from by simpa [and_assoc] using h)

@[simp] theorem ok_template_literal (loc : source_location) (strs : List String) (exprs : List Node) :
    ok (Node.template_literal loc strs exprs) ↔ strs.length = exprs.length + 1 ∧ oks exprs := by
  constructor
  · intro h
    cases h with
    | mk _ h1 h2 =>
      have hc : oks (exprs) := h2
      simp only [node_ok, template_ok, switch_ok, try_ok, Bool.and_true, Bool.true_and,
        decide_eq_true_eq, Bool.or_eq_true] at h1
      exact ⟨h1, by simpa [and_assoc] using hc⟩
  · intro h
    refine ok_intro ?_ (show oks (exprs) from by simpa [and_assoc] using h.2)
    simp only [node_ok, template_ok, switch_ok, try_ok, Bool.and_true, Bool.true_and,
      decide_eq_true_eq, Bool.or_eq_true]
    exact h.1

@[simp] theorem ok_array_literal (loc : source_location) (values : List Node) :
    ok (Node.array_literal loc values) ↔ oks values := by
  constructor
  · intro h
    have hc : oks (values) := ok_children h
    simpa [and_assoc] using hc
  · intro h
    exact ok_intro rfl (show oks (values) from by simpa [and_assoc] using h)

@[simp] theorem ok_object_literal (loc : source_location) (entries : List Node) :
    ok (Node.object_literal loc entries) ↔ oks entries := by
  constructor
  · intro h
    have hc : oks (entries) := ok_children h
    simpa [and_assoc] using hc
  · intro h
    exact ok_intro rfl (show oks (entries) from by simpa [and_assoc] using h)

@[simp] theorem ok_object_entry (loc : source_location) (key : String) (val : Node) :
    ok (Node.object_entry loc key val) ↔ ok val := by
  constructor
  · intro h
    have hc : oks ([val]) := ok_children h
    simpa [and_assoc] using hc
  · intro h
    exact ok_intro rfl (show oks ([val]) from by simpa [and_assoc] using h)

@[simp] theorem ok_spread_expr (loc : source_location) (list : Node) :
    ok (Node.spread_expr loc list) ↔ ok list := by
  constructor
  · intro h
    have hc : oks ([list]) := ok_children h
    simpa [and_assoc] using hc
  · intro h
    exact ok_intro rfl (show oks ([list]) from by simpa [and_assoc] using h)

@[simp] theorem ok_member_access (loc : source_location) (base : Node) (member : String) :
    ok (Node.member_access loc base member) ↔ ok base := by
  constructor
  · intro h
    have hc : oks ([base]) := ok_children h
    simpa [and_assoc] using hc
  · intro h
    exact ok_intro rfl (show oks ([base]) from by simpa [and_assoc] using h)

@[simp] theorem ok_computed_member_access (loc : source_location) (base : Node) (member : Node) :
    ok (Node.computed_member_access loc base member) ↔ ok base ∧ ok member := by
  constructor
  · intro h
    have hc : oks ([base] ++ [member]) := ok_children h
    simpa [and_assoc] using hc
  · intro h
    exact ok_intro rfl (show oks ([base] ++ [member]) from by simpa [and_assoc] using h)

@[simp] theorem ok_call_expr (loc : source_location) (callee : Node) (args : Node) :
    ok (Node.call_expr loc callee args) ↔ ok callee ∧ ok args := by
  constructor
  · intro h
    have hc : oks ([callee] ++ [args]) := ok_children h
    simpa [and_assoc] using hc
  · intro h
    exact ok_intro rfl (show oks ([callee] ++ [args]) from by simpa [and_assoc] using h)

@[simp] theorem ok_argument_list (loc : source_location) (values : List Node) :
    ok (Node.argument_list loc values) ↔ oks values := by
  constructor
  · intro h
    have hc : oks (values) := ok_children h
    simpa [and_assoc] using hc
  · intro h
    exact ok_intro rfl (show oks (values) from by simpa [and_assoc] using h)

@[simp] theorem ok_new_expr (loc : source_location) (constructor_ : Node) (args : Option Node) :
    ok (Node.new_expr loc constructor_ args) ↔ ok constructor_ ∧ (∀ n, args = some n → ok n) := by
  constructor
  · intro h
    have hc : oks ([constructor_] ++ args.toList) := ok_children h
    simpa [and_assoc] using hc
  · intro h
    exact ok_intro rfl (show oks ([constructor_] ++ args.toList) from by simpa [and_assoc] using h)

@[simp] theorem ok_new_target (loc : source_location) :
    ok (Node.new_target loc) ↔ True := by
  constructor
  · intro h
    have hc : oks ([]) := ok_children h
    simpa [and_assoc] using hc
  · intro h
    exact ok_intro rfl (show oks ([]) from by simpa [and_assoc] using h)

@[simp] theorem ok_unary_expr (kind : unary_kind) (loc : source_location) (value : Node) :
    ok (Node.unary_expr kind loc value) ↔ ok value := by
  constructor
  · intro h
    have hc : oks ([value]) := ok_children h
    simpa [and_assoc] using hc
  · intro h
    exact ok_intro rfl (show oks ([value]) from by simpa [and_assoc] using h)

@[simp] theorem ok_bin_op_expr (kind : bin_op_kind) (loc : source_location) (lhs : Node) (rhs : Node) :
    ok (Node.bin_op_expr kind loc lhs rhs) ↔ ok lhs ∧ ok rhs := by
  constructor
  · intro h
    have hc : oks ([lhs] ++ [rhs]) := ok_children h
    simpa [and_assoc] using hc
  · intro h
    exact ok_intro rfl (show oks ([lhs] ++ [rhs]) from by simpa [and_assoc] using h)

@[simp] theorem ok_ternary_operator (loc : source_location) (lhs : Node) (mid : Node) (rhs : Node) :
    ok (Node.ternary_operator loc lhs mid rhs) ↔ ok lhs ∧ ok mid ∧ ok rhs := by
  constructor
  · intro h
    have hc : oks ([lhs] ++ [mid] ++ [rhs]) := ok_children h
    simpa [and_assoc] using hc
  · intro h
    exact ok_intro rfl (show oks ([lhs] ++ [mid] ++ [rhs]) from by simpa [and_assoc] using h)
theorem isNull_set_rhs (b r : Node) : (b.set_rhs r).isNull = b.isNull := by
  cases b <;> rfl

theorem ok_rhs {b : Node} (h : ok b) : ok b.rhs := by
  have hc := ok_children h
  match b, hc with
  | .bin_op_expr _ _ _ r, hc => exact hc r (List.mem_cons_of_mem _ (List.mem_cons_self _ _))
  | .ternary_operator _ _ _ r, hc =>
    exact hc r (List.mem_cons_of_mem _ (List.mem_cons_of_mem _ (List.mem_cons_self _ _)))
  | .null, _ | .module _ _, _ | .empty_stmt _, _ | .block _ _, _ | .label_stmt _ _ _, _
  | .if_stmt _ _ _ _, _ | .do_while _ _ _, _ | .while_stmt _ _ _, _ | .for_stmt _ _ _ _ _, _
  | .for_in _ _ _ _ _, _ | .for_of _ _ _ _ _, _ | .switch_stmt _ _ _, _ | .switch_clause _ _, _
  | .case_node _ _ _, _ | .return_stmt _ _, _ | .throw_stmt _ _, _ | .try_stmt _ _ _ _, _
  | .catch_node _ _ _, _ | .break_stmt _, _ | .continue_stmt _, _ | .var_decl _ _ _, _
  | .var_decl_part _ _ _, _ | .function_stmt _ _ _ _, _ | .function_expr _ _ _ _, _
  | .param_list _ _ _, _ | .arrow_function _ _ _, _ | .identifier_expr _ _, _
  | .int_literal _ _, _ | .float_literal _ _, _ | .string_literal _ _, _
  | .regex_literal _ _, _ | .template_literal _ _ _, _ | .array_literal _ _, _
  | .object_literal _ _, _ | .object_entry _ _ _, _ | .spread_expr _ _, _
  | .member_access _ _ _, _ | .computed_member_access _ _ _, _ | .call_expr _ _ _, _
  | .argument_list _ _, _ | .new_expr _ _ _, _ | .new_target _, _ | .unary_expr _ _ _, _ =>
    exact ok_null

theorem ok_set_rhs {b r : Node} (hb : ok b) (hr : ok r) : ok (b.set_rhs r) := by
  have hc := ok_children hb
  cases b
  case bin_op_expr k l a old =>
    exact (ok_bin_op_expr k l a r).2 ⟨((ok_bin_op_expr k l a old).1 hb).1, hr⟩
  case ternary_operator l a m old =>
    have h3 := (ok_ternary_operator l a m old).1 hb
    exact (ok_ternary_operator l a m r).2 ⟨h3.1, h3.2.1, hr⟩
  all_goals exact hb

theorem is_default_clause_add_stmt (c stmt : Node) :
    is_default_clause (c.add_stmt stmt) = is_default_clause c := by
  cases c <;> rfl

theorem ok_add_stmt {c stmt : Node} (hc : ok c) (hs : ok stmt) : ok (c.add_stmt stmt) := by
  have h := ok_children hc
  cases c
  case switch_clause l stmts =>
    exact (ok_switch_clause l _).2 (by
      simp only [oks_append, oks_cons, oks_nil, and_true]
      exact ⟨(ok_switch_clause l stmts).1 hc, hs⟩)
  case case_node l stmts cond =>
    have h3 := (ok_case_node l stmts cond).1 hc
    exact (ok_case_node l _ cond).2 ⟨by
      simp only [oks_append, oks_cons, oks_nil, and_true]
      exact ⟨h3.1, hs⟩, h3.2⟩
  all_goals exact hc

theorem ok_set_init {p init : Node} (hp : ok p) (hi : ok init) : ok (p.set_init init) := by
  cases p
  case var_decl_part l name old =>
    exact (ok_var_decl_part l name (some init)).2 (fun n hn => by
      cases hn
      exact hi)
  all_goals exact hp

theorem oks_set_last_init {init : Node} (hi : ok init) :
    ∀ {parts : List Node}, oks parts → oks (set_last_init init parts)
  | [], _ => by simp [set_last_init]
  | [p], h => by
    simp only [set_last_init, oks_cons, oks_nil, and_true] at h ⊢
    exact ok_set_init h hi
  | p :: q :: rest, h => by
    simp only [set_last_init, oks_cons] at h ⊢
    exact ⟨h.1, by simpa using @oks_set_last_init init hi (q :: rest) (by simpa using h.2)⟩

theorem comma_fold_isNull (first : Node) (rest : List Node) (h : first.isNull = false) :
    (comma_fold first rest).isNull = false := by
  unfold comma_fold
  induction rest generalizing first with
  | nil => exact h
  | cons a l ih => exact ih _ rfl

theorem ok_comma_fold {first : Node} {rest : List Node} (h1 : ok first) (h2 : oks rest) :
    ok (comma_fold first rest) := by
  unfold comma_fold
  induction rest generalizing first with
  | nil => exact h1
  | cons a l ih =>
    simp only [oks_cons] at h2
    exact ih ((ok_bin_op_expr _ _ _ _).2 ⟨h1, h2.1⟩) h2.2

theorem default_count_append (l : List Node) (c : Node) :
    default_count (l ++ [c]) = default_count l + (if is_default_clause c = true then 1 else 0) := by
  unfold default_count
  rw [List.filter_append, List.length_append]
  by_cases h : is_default_clause c = true <;> simp [List.filter, h]

theorem good_run_mono {s0 s : parser_base} {H H' : Prop} {m : P Node} (hH : H → H')
    (h : good_run s0 H' m s) : good_run s0 H m s := by
  intro hle n s' hr
  obtain ⟨⟨h1, h2, h3⟩, l⟩ := h hle n s' hr
  exact ⟨⟨h1, h2, fun hv hh => h3 hv (hH hh)⟩, l⟩

theorem good_run_spec_step {α : Type} {s0 s : parser_base} {H : Prop} {m : P α}
    {k : α → P Node} {Q : α → Prop}
    (spec : ∀ a s1, m s = some (a, s1) → s.le s1 ∧ Q a)
    (h : ∀ a s1, Q a → good_run s0 H (k a) s1) : good_run s0 H (m >>= k) s :=
  good_run_step (fun a s1 hs => (spec a s1 hs).1) (fun a s1 hs => h a s1 (spec a s1 hs).2)

theorem good_run_front {s0 s : parser_base} {H : Prop} :
    good_run s0 H (assert_that False .front_of_empty_vector >>= fun _ => pure Node.null) s := by
  intro hle n s' hr
  simp [assert_that, parser_base.check] at hr
  obtain ⟨rfl, rfl⟩ := hr
  have hl : s.le { s with violations := violation.front_of_empty_vector :: s.violations } :=
    ⟨id, fun h => List.mem_cons_of_mem _ h⟩
  refine ⟨⟨le_trans hle hl, fun _ => Or.inr ?_, fun _ _ => ok_null⟩, hl⟩
  exact List.mem_cons_self _ _

theorem make_number_expression_spec (t : token) (s : parser_base) (res : Node)
    (s1 : parser_base) (h : make_number_expression t s = some (res, s1)) :
    s.le s1 ∧ ((t.is_number_literal = true → res.isNull = false) ∧ ok res) := by
  simp only [make_number_expression, assert_that, P_bind_apply, Option.some_bind, P_pure_apply,
    Option.some.injEq, Prod.mk.injEq] at h
  obtain ⟨rfl, rfl⟩ := h
  refine ⟨le_check _ _ _, fun hn => ?_, ?_⟩
  · rcases number_literal_type hn with e | e | e | e | e <;>
      simp only [e, reduceCtorEq, if_true, if_false] <;> rfl
  · obtain ⟨ty, text, loc⟩ := t
    cases ty <;> first
      | exact ok_null
      | exact (ok_int_literal _ _).2 trivial
      | exact (ok_float_literal _ _).2 trivial

theorem prefix_op_type_cases {t : token_type} (h : is_prefix_op_type t = true) :
    t = .INCR ∨ t = .DECR ∨ t = .PLUS ∨ t = .MINUS ∨ t = .EXMARK ∨ t = .TILDE := by
  cases t <;> first | (exact absurd h (by decide)) | simp

theorem prefix_op_kw_cases {k : keyword_type} (h : is_prefix_op_kw k = true) :
    k = kw_typeof ∨ k = kw_void ∨ k = kw_delete := by
  cases k <;> first | (exact absurd h (by decide)) | simp

theorem unary_prefix_op_cases {op : token} (hn : is_unary_prefix_op op = true) :
    op.type = .INCR ∨ op.type = .DECR ∨ op.type = .PLUS ∨ op.type = .MINUS ∨
    op.type = .EXMARK ∨ op.type = .TILDE ∨ (op.type = .KEYWORD ∧
      (get_keyword_type op = kw_typeof ∨ get_keyword_type op = kw_void ∨
        get_keyword_type op = kw_delete)) := by
  unfold is_unary_prefix_op at hn
  by_cases h1 : is_prefix_op_type op.type = true
  · have := prefix_op_type_cases h1
    tauto
  · simp only [h1, if_false, Bool.false_eq_true] at hn
    by_cases h2 : op.type = .KEYWORD
    · simp only [h2, if_true] at hn
      have := prefix_op_kw_cases hn
      tauto
    · simp [h2] at hn

theorem make_unary_prefix_op_spec (op : token) (value : Node) (s : parser_base) (res : Node)
    (s1 : parser_base) (h : make_unary_prefix_op op value s = some (res, s1)) :
    s.le s1 ∧ ((is_unary_prefix_op op = true → res.isNull = false) ∧ (ok value → ok res)) := by
  simp only [make_unary_prefix_op, assert_that, P_bind_apply, Option.some_bind, P_pure_apply,
    Option.some.injEq, Prod.mk.injEq] at h
  obtain ⟨rfl, rfl⟩ := h
  refine ⟨le_trans (le_check _ _ _) (le_check _ _ _), fun hn => ?_, fun hv => ?_⟩
  · rcases unary_prefix_op_cases hn with e | e | e | e | e | e | ⟨e, k | k | k⟩ <;> first
      | (simp only [e, k, reduceCtorEq, if_true, if_false]; rfl)
      | (simp only [e, reduceCtorEq, if_true, if_false]; rfl)
  · by_cases hk : op.type = .KEYWORD
    · simp only [hk, reduceCtorEq, if_true, if_false]
      generalize get_keyword_type op = k
      cases k <;> first | exact ok_null | exact (ok_unary_expr _ _ _).2 hv
    · obtain ⟨ty, text, loc⟩ := op
      cases ty <;> first
        | exact absurd rfl hk
        | exact ok_null
        | exact (ok_unary_expr _ _ _).2 hv

theorem is_binary_operator_of_comma (op : token) (cio : Bool)
    (h : is_binary_operator op cio = true) : is_binary_operator op true = true := by
  unfold is_binary_operator at *
  split_ifs at * <;> simp_all

theorem make_binary_expr_spec (op : token) (lhs rhs : Node) (s : parser_base) (res : Node)
    (s1 : parser_base) (h : make_binary_expr op lhs rhs s = some (res, s1)) :
    s.le s1 ∧ ((∀ cio, is_binary_operator op cio = true → op.type ≠ .QMARK →
      res.isNull = false) ∧ (ok lhs → ok rhs → ok res)) := by
  simp [make_binary_expr, assert_that] at h
  obtain ⟨rfl, rfl⟩ := h
  refine ⟨le_trans (le_check _ _ _) (le_check _ _ _), fun cio hn hq => ?_, fun hl hr => ?_⟩
  · have := binary_kind_isSome op (is_binary_operator_of_comma op cio hn) hq
    cases hk : binary_kind op with
    | none => simp [hk] at this
    | some k => rfl
  · cases hk : binary_kind op with
    | none => exact ok_null
    | some k => exact (ok_bin_op_expr _ _ _ _).2 ⟨hl, hr⟩

theorem good_run_ite_bind {s0 s : parser_base} {H : Prop} {c : Prop} [Decidable c]
    {a b : P Node} {k : Node → P Node}
    (h1 : c → good_run s0 H (a >>= k) s) (h2 : ¬ c → good_run s0 H (b >>= k) s) :
    good_run s0 H ((if c then a else b) >>= k) s := by
  split
  · exact h1 ‹_›
  · exact h2 ‹_›

theorem good_run_pure_bind {s0 s : parser_base} {H : Prop} {n : Node} {k : Node → P Node}
    (hn : ok n) (h : good_run s0 (ok n ∧ H) (k n) s) : good_run s0 H (pure n >>= k) s := by
  rw [pure_bind]
  exact good_run_mono (fun hh => ⟨hn, hh⟩) h

theorem good_run_maybe_rewind {s0 s : parser_base} {H : Prop} {c : Prop} [Decidable c]
    {t : token} {k : Unit → P Node} (h : ∀ s1, good_run s0 H (k ()) s1) :
    good_run s0 H ((if c then rewind t else pure ()) >>= k) s := by
  refine good_run_step (fun a s1 hs => ?_) (fun a s1 _ => h s1)
  split at hs
  · exact le_rewind hs
  · simp at hs
    rw [← hs]
    exact le_refl s

theorem isNull_append {l : List Node} {x : Node} (h1 : ∀ e ∈ l, e.isNull = false)
    (h2 : x.isNull = false) : ∀ e ∈ l ++ [x], e.isNull = false := by
  intro e he
  rcases List.mem_append.1 he with h | h
  · exact h1 e h
  · rw [List.mem_singleton.1 h]
    exact h2
theorem good_parse_import (s : parser_base) :
    good_run s (True) (parse_import) s := by
  unfold parse_import
  refine good_run_current_token ?_
  refine good_run_assert ?_
  refine good_run_set_error (fun _ _ => ?_)
  exact good_run_null (by first | assumption | simp_all [Option.isSome_iff_ne_none])

theorem good_parse_export (s : parser_base) :
    good_run s (True) (parse_export) s := by
  unfold parse_export
  refine good_run_current_token ?_
  refine good_run_assert ?_
  refine good_run_set_error (fun _ _ => ?_)
  exact good_run_null (by first | assumption | simp_all [Option.isSome_iff_ne_none])

theorem good_parse_class_stmt (s : parser_base) :
    good_run s (True) (parse_class_stmt) s := by
  unfold parse_class_stmt
  refine good_run_current_token ?_
  refine good_run_assert ?_
  refine good_run_set_error (fun _ _ => ?_)
  exact good_run_null (by first | assumption | simp_all [Option.isSome_iff_ne_none])

theorem good_parse_class_expr (s : parser_base) :
    good_run s (True) (parse_class_expr) s := by
  unfold parse_class_expr
  refine good_run_current_token ?_
  refine good_run_assert ?_
  refine good_run_set_error (fun _ _ => ?_)
  exact good_run_null (by first | assumption | simp_all [Option.isSome_iff_ne_none])

theorem good_statement_end (stmt : Node) (s : parser_base)
    (hb : stmt.isNull = true → s.bad) :
    good_run s (ok stmt) (statement_end stmt) s := by
  unfold statement_end
  refine good_run_ASSERT_PARSE_RESULT (by first | assumption | simp_all [Option.isSome_iff_ne_none]) (fun _ _ => ?_)
  refine good_run_current_token ?_
  refine good_run_advance (fun _ _ => ?_)
  refine good_run_has_error ?_
  refine good_run_ite (fun _ => ?_) (fun _ => ?_)
  exact good_run_null (by first | assumption | simp_all [Option.isSome_iff_ne_none])
  refine good_run_ite (fun _ => ?_) (fun _ => ?_)
  refine good_run_current_token ?_
  refine good_run_ite (fun _ => ?_) (fun _ => ?_)
  refine good_run_set_error (fun _ _ => ?_)
  exact good_run_null (by first | assumption | simp_all [Option.isSome_iff_ne_none])
  refine good_run_ite (fun _ => ?_) (fun _ => ?_)
  refine good_run_rewind (fun _ => ?_)
  exact good_run_pure (fun hx => Or.inl (hb hx))
    (fun hx => hx)
  exact good_run_pure (fun hx => Or.inl (hb hx))
    (fun hx => hx)
  exact good_run_pure (fun hx => Or.inl (hb hx))
    (fun hx => hx)

theorem good_parse_string_literal (s : parser_base) :
    good_run s (True) (parse_string_literal) s := by
  unfold parse_string_literal
  refine good_run_current_token ?_
  refine good_run_assert ?_
  refine good_run_advance (fun _ _ => ?_)
  refine good_run_current_token ?_
  refine good_run_ite (fun _ => ?_) (fun _ => ?_)
  refine good_run_ite (fun _ => ?_) (fun _ => ?_)
  refine good_run_rewind (fun _ => ?_)
  exact good_run_pure (fun hx => nomatch hx)
    (fun hx => by with_unfolding_all (first | (simp at hx ⊢ <;> first | exact hx | tauto) | tauto))
  exact good_run_pure (fun hx => nomatch hx)
    (fun hx => by with_unfolding_all (first | (simp at hx ⊢ <;> first | exact hx | tauto) | tauto))
  refine good_run_set_error (fun _ _ => ?_)
  exact good_run_null (by first | assumption | simp_all [Option.isSome_iff_ne_none])

theorem good_parse_member_access (base : Node) (s : parser_base) :
    good_run s (ok base) (parse_member_access base) s := by
  unfold parse_member_access
  refine good_run_current_token ?_
  refine good_run_assert ?_
  refine good_run_ADVANCE_OR_ERROR (fun _ _ => ?_)
  refine good_run_EXPECT (fun _ => ?_)
  refine good_run_current_token ?_
  exact good_run_pure (fun hx => nomatch hx)
    (fun hx => by with_unfolding_all (first | (simp at hx ⊢ <;> first | exact hx | tauto) | tauto))

theorem good_atomic_postfix_step (expr : Node) (s : parser_base)
    (hb : expr.isNull = true → s.bad) :
    good_run s (ok expr) (atomic_postfix_step expr) s := by
  unfold atomic_postfix_step
  refine good_run_current_token ?_
  refine good_run_advance (fun _ _ => ?_)
  refine good_run_ite (fun _ => ?_) (fun _ => ?_)
  refine good_run_current_token ?_
  refine good_run_ite (fun _ => ?_) (fun _ => ?_)
  exact good_run_pure (fun hx => nomatch hx)
    (fun hx => by with_unfolding_all (first | (simp at hx ⊢ <;> first | exact hx | tauto) | tauto))
  refine good_run_ite (fun _ => ?_) (fun _ => ?_)
  exact good_run_pure (fun hx => nomatch hx)
    (fun hx => by with_unfolding_all (first | (simp at hx ⊢ <;> first | exact hx | tauto) | tauto))
  refine good_run_rewind (fun _ => ?_)
  exact good_run_pure (fun hx => Or.inl (hb hx))
    (fun hx => hx)
  exact good_run_pure (fun hx => Or.inl (hb hx))
    (fun hx => hx)

theorem good_param_list_close (loc : source_location) (names : List String) (rest : Option String) (s : parser_base) :
    good_run s (True) (param_list_close loc names rest) s := by
  unfold param_list_close
  refine good_run_current_token ?_
  refine good_run_ite (fun _ => ?_) (fun _ => ?_)
  exact good_run_pure (fun hx => nomatch hx)
    (fun hx => by with_unfolding_all (first | (simp at hx ⊢ <;> first | exact hx | tauto) | tauto))
  refine good_run_set_error (fun _ _ => ?_)
  exact good_run_null (by first | assumption | simp_all [Option.isSome_iff_ne_none])

theorem good_param_list_tail (loc : source_location) (names : List String) (s : parser_base) :
    good_run s (True) (param_list_tail loc names) s := by
  unfold param_list_tail
  refine good_run_current_token ?_
  refine good_run_ite (fun _ => ?_) (fun _ => ?_)
  refine good_run_ADVANCE_OR_ERROR (fun _ _ => ?_)
  refine good_run_current_token ?_
  refine good_run_ite (fun _ => ?_) (fun _ => ?_)
  refine good_run_ADVANCE_OR_ERROR (fun _ _ => ?_)
  exact good_run_call (good_param_list_close _ _ _ _) (fun _ => True.intro)
  exact good_run_call (good_param_list_close _ _ _ _) (fun _ => True.intro)
  exact good_run_call (good_param_list_close _ _ _ _) (fun _ => True.intro)

theorem good_parse_number_literal (s : parser_base)
    (hb : s.current_token.is_number_literal = true) :
    good_run s (True) (parse_number_literal) s := by
  unfold parse_number_literal
  refine good_run_current_token ?_
  refine good_run_spec_step (make_number_expression_spec _ _) (fun _ _ _ => ?_)
  refine good_run_advance (fun _ _ => ?_)
  refine good_run_current_token ?_
  refine good_run_ite (fun _ => ?_) (fun _ => ?_)
  refine good_run_ite (fun _ => ?_) (fun _ => ?_)
  refine good_run_rewind (fun _ => ?_)
  exact good_run_pure (fun hx => by with_unfolding_all (simp_all [Option.isSome_iff_ne_none]; done))
    (fun hx => by with_unfolding_all (first | (simp at hx ⊢ <;> first | exact hx | tauto) | tauto))
  exact good_run_pure (fun hx => by with_unfolding_all (simp_all [Option.isSome_iff_ne_none]; done))
    (fun hx => by with_unfolding_all (first | (simp at hx ⊢ <;> first | exact hx | tauto) | tauto))
  refine good_run_set_error (fun _ _ => ?_)
  exact good_run_null (by first | assumption | simp_all [Option.isSome_iff_ne_none])

theorem good_atomic_start_bind {self : parser_fns} (h : good_fns self) {s0 s : parser_base}
    {H : Prop} {k : Node → P Node} (hk : ∀ v s1, good_run s0 (ok v ∧ H) (k v) s1) :
    good_run s0 H (atomic_start self >>= k) s := by
  unfold atomic_start
  rw [bind_assoc]
  refine good_run_current_token ?_
  refine good_run_ite_bind (fun _ => ?_) (fun _ => good_run_ite_bind (fun _ => ?_) (fun _ =>
    good_run_ite_bind (fun hn => ?_) (fun _ => good_run_ite_bind (fun _ => ?_) (fun _ =>
    good_run_ite_bind (fun _ => ?_) (fun _ => good_run_ite_bind (fun _ => ?_) (fun _ =>
    good_run_ite_bind (fun _ => ?_) (fun _ => good_run_ite_bind (fun _ => ?_) (fun _ =>
    good_run_ite_bind (fun _ => ?_) (fun _ => ?_)))))))))
  · exact good_run_bind_call (h.parse_atomic_keyword_expr _) (fun _ => trivial)
      (fun v s1 _ => hk v s1)
  · exact good_run_pure_bind ((ok_identifier_expr _ _).2 trivial) (hk _ _)
  · exact good_run_bind_call (good_parse_number_literal _ hn) (fun _ => trivial)
      (fun v s1 _ => hk v s1)
  · exact good_run_bind_call (good_parse_string_literal _) (fun _ => trivial)
      (fun v s1 _ => hk v s1)
  · exact good_run_bind_call (h.parse_template_literal _) (fun _ => trivial)
      (fun v s1 _ => hk v s1)
  · exact good_run_pure_bind ((ok_regex_literal _ _).2 trivial) (hk _ _)
  · exact good_run_bind_call (h.parse_array_literal _) (fun _ => trivial)
      (fun v s1 _ => hk v s1)
  · exact good_run_bind_call (h.parse_object_literal _) (fun _ => trivial)
      (fun v s1 _ => hk v s1)
  · exact good_run_bind_call (h.parse_parens_expr _) (fun _ => trivial)
      (fun v s1 _ => hk v s1)
  · exact good_run_pure_bind ok_null (hk _ _)

theorem good_try_finally {self : parser_fns} (h : good_fns self) (loc : source_location) (body : Node) (catch_block : Option Node) (s : parser_base) :
    good_run s (ok body ∧ (∀ n, catch_block = some n → ok n)) (try_finally self loc body catch_block) s := by
  unfold try_finally
  refine good_run_current_token ?_
  refine good_run_ite (fun _ => ?_) (fun _ => ?_)
  refine good_run_ADVANCE_OR_ERROR (fun _ _ => ?_)
  refine good_run_EXPECT (fun _ => ?_)
  refine good_run_SUBPARSE (h.parse_block _) (fun _ => True.intro) (fun _ _ _ _ => ?_)
  exact good_run_pure (fun hx => nomatch hx)
    (fun hx => by with_unfolding_all (first | (simp at hx ⊢ <;> first | exact hx | tauto) | tauto))
  refine good_run_ite (fun _ => ?_) (fun _ => ?_)
  refine good_run_set_error (fun _ _ => ?_)
  exact good_run_null (by first | assumption | simp_all [Option.isSome_iff_ne_none])
  exact good_run_pure (fun hx => nomatch hx)
    (fun hx => by with_unfolding_all (simp_all [Option.isSome_iff_ne_none]; done))

theorem good_for_c_style {self : parser_fns} (h : good_fns self) (for_tok : token) (keyword : Option token) (s : parser_base) :
    good_run s (True) (for_c_style self for_tok keyword) s := by
  unfold for_c_style
  cases keyword <;> simp only [pure_bind]
  refine good_run_SUBPARSE (h.parse_statement _) (fun _ => True.intro) (fun _ _ _ _ => ?_)
  refine good_run_EXPECT (fun _ => ?_)
  refine good_run_ADVANCE_OR_ERROR (fun _ _ => ?_)
  refine good_run_SUBPARSE (h.parse_expression _ _) (fun _ => True.intro) (fun _ _ _ _ => ?_)
  refine good_run_ADVANCE_OR_ERROR (fun _ _ => ?_)
  refine good_run_EXPECT (fun _ => ?_)
  refine good_run_ADVANCE_OR_ERROR (fun _ _ => ?_)
  refine good_run_SUBPARSE (h.parse_statement _) (fun _ => True.intro) (fun _ _ _ _ => ?_)
  refine good_run_ADVANCE_OR_ERROR (fun _ _ => ?_)
  refine good_run_EXPECT (fun _ => ?_)
  refine good_run_ADVANCE_OR_ERROR (fun _ _ => ?_)
  refine good_run_SUBPARSE (h.parse_statement _) (fun _ => True.intro) (fun _ _ _ _ => ?_)
  exact good_run_pure (fun hx => nomatch hx)
    (fun hx => by with_unfolding_all (first | (simp at hx ⊢ <;> first | exact hx | tauto) | tauto))
  refine good_run_rewind (fun _ => ?_)
  refine good_run_SUBPARSE (h.parse_statement _) (fun _ => True.intro) (fun _ _ _ _ => ?_)
  refine good_run_EXPECT (fun _ => ?_)
  refine good_run_ADVANCE_OR_ERROR (fun _ _ => ?_)
  refine good_run_SUBPARSE (h.parse_expression _ _) (fun _ => True.intro) (fun _ _ _ _ => ?_)
  refine good_run_ADVANCE_OR_ERROR (fun _ _ => ?_)
  refine good_run_EXPECT (fun _ => ?_)
  refine good_run_ADVANCE_OR_ERROR (fun _ _ => ?_)
  refine good_run_SUBPARSE (h.parse_statement _) (fun _ => True.intro) (fun _ _ _ _ => ?_)
  refine good_run_ADVANCE_OR_ERROR (fun _ _ => ?_)
  refine good_run_EXPECT (fun _ => ?_)
  refine good_run_ADVANCE_OR_ERROR (fun _ _ => ?_)
  refine good_run_SUBPARSE (h.parse_statement _) (fun _ => True.intro) (fun _ _ _ _ => ?_)
  exact good_run_pure (fun hx => nomatch hx)
    (fun hx => by with_unfolding_all (first | (simp at hx ⊢ <;> first | exact hx | tauto) | tauto))

theorem good_for_in_of {self : parser_fns} (h : good_fns self) (for_tok : token) (keyword : Option token) (s : parser_base) :
    good_run s (True) (for_in_of self for_tok keyword) s := by
  unfold for_in_of
  refine good_run_current_token ?_
  refine good_run_ite (fun _ => ?_) (fun _ => ?_)
  refine good_run_ADVANCE_OR_ERROR (fun _ _ => ?_)
  refine good_run_current_token ?_
  refine good_run_ite (fun _ => ?_) (fun _ => ?_)
  refine good_run_ADVANCE_OR_ERROR (fun _ _ => ?_)
  refine good_run_SUBPARSE (h.parse_expression _ _) (fun _ => True.intro) (fun _ _ _ _ => ?_)
  refine good_run_ADVANCE_OR_ERROR (fun _ _ => ?_)
  refine good_run_EXPECT (fun _ => ?_)
  refine good_run_ADVANCE_OR_ERROR (fun _ _ => ?_)
  refine good_run_SUBPARSE (h.parse_statement _) (fun _ => True.intro) (fun _ _ _ _ => ?_)
  exact good_run_pure (fun hx => nomatch hx)
    (fun hx => by with_unfolding_all (first | (simp at hx ⊢ <;> first | exact hx | tauto) | tauto))
  refine good_run_ite (fun _ => ?_) (fun _ => ?_)
  refine good_run_ADVANCE_OR_ERROR (fun _ _ => ?_)
  refine good_run_SUBPARSE (h.parse_expression _ _) (fun _ => True.intro) (fun _ _ _ _ => ?_)
  refine good_run_ADVANCE_OR_ERROR (fun _ _ => ?_)
  refine good_run_EXPECT (fun _ => ?_)
  refine good_run_ADVANCE_OR_ERROR (fun _ _ => ?_)
  refine good_run_SUBPARSE (h.parse_statement _) (fun _ => True.intro) (fun _ _ _ _ => ?_)
  exact good_run_pure (fun hx => nomatch hx)
    (fun hx => by with_unfolding_all (first | (simp at hx ⊢ <;> first | exact hx | tauto) | tauto))
  refine good_run_rewind (fun _ => ?_)
  exact good_run_call (good_for_c_style h _ _ _) (fun _ => True.intro)
  exact good_run_call (good_for_c_style h _ _ _) (fun _ => True.intro)

theorem good_parens_arrow {self : parser_fns} (h : good_fns self) (loc : source_location) (reason_no_paramlist rest_param : Option token) (exprs : List Node) (s : parser_base) :
    good_run s (True) (parens_arrow self loc reason_no_paramlist rest_param exprs) s := by
  unfold parens_arrow
  cases reason_no_paramlist <;> simp only []
  refine good_run_ADVANCE_OR_ERROR (fun _ _ => ?_)
  refine good_run_current_token ?_
  refine good_run_ite (fun _ => ?_) (fun _ => ?_)
  refine good_run_bind_call (h.parse_block_or_obj _ _) (fun _ => True.intro) (fun _ _ _ => ?_)
  refine good_run_ASSERT_PARSE_RESULT (by first | assumption | simp_all [Option.isSome_iff_ne_none]) (fun _ _ => ?_)
  exact good_run_pure (fun hx => nomatch hx)
    (fun hx => by with_unfolding_all (first | (simp at hx ⊢ <;> first | exact hx | tauto) | tauto))
  refine good_run_bind_call (h.parse_expression _ _) (fun _ => True.intro) (fun _ _ _ => ?_)
  refine good_run_ASSERT_PARSE_RESULT (by first | assumption | simp_all [Option.isSome_iff_ne_none]) (fun _ _ => ?_)
  exact good_run_pure (fun hx => nomatch hx)
    (fun hx => by with_unfolding_all (first | (simp at hx ⊢ <;> first | exact hx | tauto) | tauto))
  refine good_run_set_error (fun _ _ => ?_)
  exact good_run_null (by first | assumption | simp_all [Option.isSome_iff_ne_none])

theorem good_parens_tail {self : parser_fns} (h : good_fns self) (loc : source_location) (reason_no_paramlist rest_param : Option token) (exprs : List Node) (s : parser_base)
    (hb : ∀ e ∈ exprs, e.isNull = false) :
    good_run s (oks exprs) (parens_tail self loc reason_no_paramlist rest_param exprs) s := by
  unfold parens_tail
  refine good_run_EXPECT (fun _ => ?_)
  refine good_run_current_token ?_
  refine good_run_advance (fun _ _ => ?_)
  refine good_run_current_token ?_
  refine good_run_ite (fun _ => ?_) (fun _ => ?_)
  exact good_run_call (good_parens_arrow h _ _ _ _ _) (fun _ => True.intro)
  refine good_run_ite (fun _ => ?_) (fun _ => ?_)
  refine good_run_rewind (fun _ => ?_)
  split
  refine good_run_set_error (fun _ _ => ?_)
  exact good_run_null (by first | assumption | simp_all [Option.isSome_iff_ne_none])
  split
  exact good_run_front
  exact good_run_pure (fun hx => by with_unfolding_all (rw [comma_fold_isNull _ _ (hb _ (List.mem_cons_self _ _))] at hx; cases hx))
    (fun hx => by with_unfolding_all (refine ok_comma_fold ?_ ?_ <;> simp_all))
  split
  simp only [pure_bind]
  refine good_run_set_error (fun _ _ => ?_)
  exact good_run_null (by first | assumption | simp_all [Option.isSome_iff_ne_none])
  split
  simp only [pure_bind]
  exact good_run_front
  simp only [pure_bind]
  exact good_run_pure (fun hx => by with_unfolding_all (rw [comma_fold_isNull _ _ (hb _ (List.mem_cons_self _ _))] at hx; cases hx))
    (fun hx => by with_unfolding_all (refine ok_comma_fold ?_ ?_ <;> simp_all))

theorem good_bin_op_tail (ops : operators_def) {self : parser_fns} (h : good_fns self) (op : token) (binop : Node) (comma_is_operator : Bool) (s : parser_base)
    (hb : binop.isNull = false) :
    good_run s (ok binop) (bin_op_tail ops self op binop comma_is_operator) s := by
  unfold bin_op_tail
  refine good_run_current_token ?_
  refine good_run_advance (fun _ _ => ?_)
  refine good_run_ite (fun _ => ?_) (fun _ => ?_)
  exact good_run_pure (fun hx => by with_unfolding_all (simp_all [Option.isSome_iff_ne_none]; done))
    (fun hx => hx)
  refine good_run_current_token ?_
  refine good_run_ite (fun _ => ?_) (fun _ => ?_)
  refine good_run_rewind (fun _ => ?_)
  exact good_run_pure (fun hx => by with_unfolding_all (simp_all [Option.isSome_iff_ne_none]; done))
    (fun hx => hx)
  refine good_run_ite (fun _ => ?_) (fun _ => ?_)
  refine good_run_ite (fun _ => ?_) (fun _ => ?_)
  refine good_run_SUBPARSE (h.parse_bin_op _ _ _ (by first | assumption | rfl | (intro hn; cases hn; done) | simp_all [Option.isSome_iff_ne_none])) (fun hx => by with_unfolding_all (refine ok_rhs ?_; tauto))
    (fun _ _ _ _ => ?_)
  exact good_run_pure (fun hx => by with_unfolding_all (rw [isNull_set_rhs] at hx; simp_all))
    (fun hx => by with_unfolding_all (refine ok_set_rhs ?_ ?_ <;> tauto))
  refine good_run_ite (fun _ => ?_) (fun _ => ?_)
  refine good_run_assert ?_
  refine good_run_ite (fun _ => ?_) (fun _ => ?_)
  refine good_run_SUBPARSE (h.parse_bin_op _ _ _ (by first | assumption | rfl | (intro hn; cases hn; done) | simp_all [Option.isSome_iff_ne_none])) (fun hx => by with_unfolding_all (refine ok_rhs ?_; tauto))
    (fun _ _ _ _ => ?_)
  exact good_run_pure (fun hx => by with_unfolding_all (rw [isNull_set_rhs] at hx; simp_all))
    (fun hx => by with_unfolding_all (refine ok_set_rhs ?_ ?_ <;> tauto))
  refine good_run_SUBPARSE (h.parse_bin_op _ _ _ (by first | assumption | rfl | (intro hn; cases hn; done) | simp_all [Option.isSome_iff_ne_none])) (fun hx => hx)
    (fun _ _ _ _ => ?_)
  exact good_run_pure (fun hx => by with_unfolding_all (simp_all [Option.isSome_iff_ne_none]; done))
    (fun hx => hx.1)
  refine good_run_SUBPARSE (h.parse_bin_op _ _ _ (by first | assumption | rfl | (intro hn; cases hn; done) | simp_all [Option.isSome_iff_ne_none])) (fun hx => hx)
    (fun _ _ _ _ => ?_)
  exact good_run_pure (fun hx => by with_unfolding_all (simp_all [Option.isSome_iff_ne_none]; done))
    (fun hx => hx.1)
  refine good_run_set_error (fun _ _ => ?_)
  exact good_run_null (by first | assumption | simp_all [Option.isSome_iff_ne_none])

theorem good_function_expr_tail {self : parser_fns} (h : good_fns self) (loc : source_location) (name : Option String) (s : parser_base) :
    good_run s (True) (function_expr_tail self loc name) s := by
  unfold function_expr_tail
  refine good_run_EXPECT (fun _ => ?_)
  refine good_run_SUBPARSE (h.parse_param_list _) (fun _ => True.intro) (fun _ _ _ _ => ?_)
  refine good_run_ADVANCE_OR_ERROR (fun _ _ => ?_)
  refine good_run_EXPECT (fun _ => ?_)
  refine good_run_SUBPARSE (h.parse_block _) (fun _ => True.intro) (fun _ _ _ _ => ?_)
  exact good_run_pure (fun hx => nomatch hx)
    (fun hx => by with_unfolding_all (first | (simp at hx ⊢ <;> first | exact hx | tauto) | tauto))

theorem good_array_entry_end {self : parser_fns} (h : good_fns self) (loc : source_location) (values : List Node) (s : parser_base) :
    good_run s (oks values) (array_entry_end self loc values) s := by
  unfold array_entry_end
  refine good_run_ADVANCE_OR_ERROR (fun _ _ => ?_)
  refine good_run_EXPECT_SEVERAL (fun _ => ?_)
  refine good_run_current_token ?_
  refine good_run_ite (fun _ => ?_) (fun _ => ?_)
  exact good_run_pure (fun hx => nomatch hx)
    (fun hx => by with_unfolding_all (first | (simp at hx ⊢ <;> first | exact hx | tauto) | tauto))
  refine good_run_ite (fun _ => ?_) (fun _ => ?_)
  refine good_run_ADVANCE_OR_ERROR (fun _ _ => ?_)
  exact good_run_call (h.array_loop _ _ _) (fun hx => hx)
  exact good_run_call (h.array_loop _ _ _) (fun hx => hx)

theorem good_object_entry_end {self : parser_fns} (h : good_fns self) (loc : source_location) (entries : List Node) (s : parser_base) :
    good_run s (oks entries) (object_entry_end self loc entries) s := by
  unfold object_entry_end
  refine good_run_ADVANCE_OR_ERROR (fun _ _ => ?_)
  refine good_run_EXPECT_SEVERAL (fun _ => ?_)
  refine good_run_current_token ?_
  refine good_run_ite (fun _ => ?_) (fun _ => ?_)
  refine good_run_ADVANCE_OR_ERROR (fun _ _ => ?_)
  exact good_run_call (h.object_loop _ _ _) (fun hx => hx)
  exact good_run_call (h.object_loop _ _ _) (fun hx => hx)

theorem good_parse_statement {self : parser_fns} (h : good_fns self) (s : parser_base) :
    good_run s (True) (parse_statement self) s := by
  unfold parse_statement
  refine good_run_current_token ?_
  refine good_run_ite (fun _ => ?_) (fun _ => ?_)
  exact good_run_pure (fun hx => nomatch hx)
    (fun hx => by with_unfolding_all (first | (simp at hx ⊢ <;> first | exact hx | tauto) | tauto))
  refine good_run_ite (fun _ => ?_) (fun _ => ?_)
  exact good_run_call (h.parse_block_or_obj _ _) (fun _ => True.intro)
  refine good_run_ite (fun _ => ?_) (fun _ => ?_)
  refine good_run_bind_call (h.parse_keyword_stmt _) (fun _ => True.intro) (fun _ _ _ => ?_)
  exact good_run_call (good_statement_end _ _ (by first | assumption | rfl | (intro hn; cases hn; done) | simp_all [Option.isSome_iff_ne_none])) (fun hx => hx.1)
  refine good_run_ite (fun _ => ?_) (fun _ => ?_)
  refine good_run_advance (fun _ _ => ?_)
  refine good_run_ite (fun _ => ?_) (fun _ => ?_)
  refine good_run_bind_call (h.parse_expression _ _) (fun _ => True.intro) (fun _ _ _ => ?_)
  exact good_run_call (good_statement_end _ _ (by first | assumption | rfl | (intro hn; cases hn; done) | simp_all [Option.isSome_iff_ne_none])) (fun hx => hx.1)
  refine good_run_current_token ?_
  refine good_run_ite (fun _ => ?_) (fun _ => ?_)
  refine good_run_ADVANCE_OR_ERROR (fun _ _ => ?_)
  refine good_run_SUBPARSE (h.parse_statement _) (fun _ => True.intro) (fun _ _ _ _ => ?_)
  exact good_run_call (good_statement_end _ _ (by first | assumption | rfl | (intro hn; cases hn; done) | simp_all [Option.isSome_iff_ne_none])) (fun hx => by with_unfolding_all (first | (simp at hx ⊢ <;> first | exact hx | tauto) | tauto))
  refine good_run_rewind (fun _ => ?_)
  refine good_run_bind_call (h.parse_expression _ _) (fun _ => True.intro) (fun _ _ _ => ?_)
  exact good_run_call (good_statement_end _ _ (by first | assumption | rfl | (intro hn; cases hn; done) | simp_all [Option.isSome_iff_ne_none])) (fun hx => hx.1)
  refine good_run_bind_call (h.parse_expression _ _) (fun _ => True.intro) (fun _ _ _ => ?_)
  exact good_run_call (good_statement_end _ _ (by first | assumption | rfl | (intro hn; cases hn; done) | simp_all [Option.isSome_iff_ne_none])) (fun hx => hx.1)

theorem good_parse_keyword_stmt {self : parser_fns} (h : good_fns self) (s : parser_base) :
    good_run s (True) (parse_keyword_stmt self) s := by
  unfold parse_keyword_stmt
  refine good_run_current_token ?_
  refine good_run_assert ?_
  refine good_run_ite (fun _ => ?_) (fun _ => ?_)
  exact good_run_call (h.parse_function_stmt _) (fun _ => True.intro)
  refine good_run_ite (fun _ => ?_) (fun _ => ?_)
  exact good_run_call (h.parse_if_stmt _) (fun _ => True.intro)
  refine good_run_ite (fun _ => ?_) (fun _ => ?_)
  exact good_run_call (h.parse_do_while _) (fun _ => True.intro)
  refine good_run_ite (fun _ => ?_) (fun _ => ?_)
  exact good_run_call (h.parse_while_stmt _) (fun _ => True.intro)
  refine good_run_ite (fun _ => ?_) (fun _ => ?_)
  exact good_run_call (h.parse_for_stmt _) (fun _ => True.intro)
  refine good_run_ite (fun _ => ?_) (fun _ => ?_)
  exact good_run_call (h.parse_switch_stmt _) (fun _ => True.intro)
  refine good_run_ite (fun _ => ?_) (fun _ => ?_)
  exact good_run_pure (fun hx => nomatch hx)
    (fun hx => by with_unfolding_all (first | (simp at hx ⊢ <;> first | exact hx | tauto) | tauto))
  refine good_run_ite (fun _ => ?_) (fun _ => ?_)
  exact good_run_pure (fun hx => nomatch hx)
    (fun hx => by with_unfolding_all (first | (simp at hx ⊢ <;> first | exact hx | tauto) | tauto))
  refine good_run_ite (fun _ => ?_) (fun _ => ?_)
  exact good_run_call (h.parse_return_stmt _) (fun _ => True.intro)
  refine good_run_ite (fun _ => ?_) (fun _ => ?_)
  exact good_run_call (h.parse_throw_stmt _) (fun _ => True.intro)
  refine good_run_ite (fun _ => ?_) (fun _ => ?_)
  exact good_run_call (h.parse_try_stmt _) (fun _ => True.intro)
  refine good_run_ite (fun _ => ?_) (fun _ => ?_)
  exact good_run_call (good_parse_import _) (fun _ => True.intro)
  refine good_run_ite (fun _ => ?_) (fun _ => ?_)
  exact good_run_call (good_parse_export _) (fun _ => True.intro)
  refine good_run_ite (fun _ => ?_) (fun _ => ?_)
  exact good_run_call (good_parse_class_stmt _) (fun _ => True.intro)
  refine good_run_ite (fun _ => ?_) (fun _ => ?_)
  exact good_run_call (h.parse_call _ _) (fun hx => by with_unfolding_all (first | (simp at hx ⊢ <;> first | exact hx | tauto) | tauto))
  refine good_run_ite (fun _ => ?_) (fun _ => ?_)
  exact good_run_call (h.parse_var_decl _) (fun _ => True.intro)
  exact good_run_call (h.parse_keyword_expr _) (fun _ => True.intro)

theorem good_parse_keyword_expr {self : parser_fns} (h : good_fns self) (s : parser_base) :
    good_run s (True) (parse_keyword_expr self) s := by
  unfold parse_keyword_expr
  refine good_run_current_token ?_
  refine good_run_assert ?_
  refine good_run_ite (fun _ => ?_) (fun _ => ?_)
  exact good_run_call (h.parse_unary_or_atomic_expr _) (fun _ => True.intro)
  exact good_run_call (h.parse_atomic_keyword_expr _) (fun _ => True.intro)

theorem good_parse_if_stmt {self : parser_fns} (h : good_fns self) (s : parser_base) :
    good_run s (True) (parse_if_stmt self) s := by
  unfold parse_if_stmt
  refine good_run_current_token ?_
  refine good_run_assert ?_
  refine good_run_ADVANCE_OR_ERROR (fun _ _ => ?_)
  refine good_run_EXPECT (fun _ => ?_)
  refine good_run_ADVANCE_OR_ERROR (fun _ _ => ?_)
  refine good_run_SUBPARSE (h.parse_expression _ _) (fun _ => True.intro) (fun _ _ _ _ => ?_)
  refine good_run_ADVANCE_OR_ERROR (fun _ _ => ?_)
  refine good_run_EXPECT (fun _ => ?_)
  refine good_run_ADVANCE_OR_ERROR (fun _ _ => ?_)
  refine good_run_SUBPARSE (h.parse_statement _) (fun _ => True.intro) (fun _ _ _ _ => ?_)
  refine good_run_current_token ?_
  refine good_run_advance (fun _ _ => ?_)
  refine good_run_ite (fun _ => ?_) (fun _ => ?_)
  refine good_run_current_token ?_
  refine good_run_ite (fun _ => ?_) (fun _ => ?_)
  refine good_run_ADVANCE_OR_ERROR (fun _ _ => ?_)
  refine good_run_SUBPARSE (h.parse_statement _) (fun _ => True.intro) (fun _ _ _ _ => ?_)
  exact good_run_pure (fun hx => nomatch hx)
    (fun hx => by with_unfolding_all (first | (simp at hx ⊢ <;> first | exact hx | tauto) | tauto))
  refine good_run_rewind (fun _ => ?_)
  exact good_run_pure (fun hx => nomatch hx)
    (fun hx => by with_unfolding_all (first | (simp at hx ⊢ <;> first | exact hx | tauto) | tauto))
  exact good_run_pure (fun hx => nomatch hx)
    (fun hx => by with_unfolding_all (first | (simp at hx ⊢ <;> first | exact hx | tauto) | tauto))

theorem good_parse_do_while {self : parser_fns} (h : good_fns self) (s : parser_base) :
    good_run s (True) (parse_do_while self) s := by
  unfold parse_do_while
  refine good_run_current_token ?_
  refine good_run_assert ?_
  refine good_run_ADVANCE_OR_ERROR (fun _ _ => ?_)
  refine good_run_SUBPARSE (h.parse_statement _) (fun _ => True.intro) (fun _ _ _ _ => ?_)
  refine good_run_ADVANCE_OR_ERROR (fun _ _ => ?_)
  refine good_run_EXPECT (fun _ => ?_)
  refine good_run_current_token ?_
  refine good_run_ite (fun _ => ?_) (fun _ => ?_)
  refine good_run_set_error (fun _ _ => ?_)
  exact good_run_null (by first | assumption | simp_all [Option.isSome_iff_ne_none])
  refine good_run_ADVANCE_OR_ERROR (fun _ _ => ?_)
  refine good_run_EXPECT (fun _ => ?_)
  refine good_run_ADVANCE_OR_ERROR (fun _ _ => ?_)
  refine good_run_SUBPARSE (h.parse_expression _ _) (fun _ => True.intro) (fun _ _ _ _ => ?_)
  refine good_run_ADVANCE_OR_ERROR (fun _ _ => ?_)
  refine good_run_EXPECT (fun _ => ?_)
  exact good_run_pure (fun hx => nomatch hx)
    (fun hx => by with_unfolding_all (first | (simp at hx ⊢ <;> first | exact hx | tauto) | tauto))

theorem good_parse_while_stmt {self : parser_fns} (h : good_fns self) (s : parser_base) :
    good_run s (True) (parse_while_stmt self) s := by
  unfold parse_while_stmt
  refine good_run_current_token ?_
  refine good_run_assert ?_
  refine good_run_ADVANCE_OR_ERROR (fun _ _ => ?_)
  refine good_run_EXPECT (fun _ => ?_)
  refine good_run_ADVANCE_OR_ERROR (fun _ _ => ?_)
  refine good_run_SUBPARSE (h.parse_expression _ _) (fun _ => True.intro) (fun _ _ _ _ => ?_)
  refine good_run_ADVANCE_OR_ERROR (fun _ _ => ?_)
  refine good_run_EXPECT (fun _ => ?_)
  refine good_run_ADVANCE_OR_ERROR (fun _ _ => ?_)
  refine good_run_SUBPARSE (h.parse_statement _) (fun _ => True.intro) (fun _ _ _ _ => ?_)
  exact good_run_pure (fun hx => nomatch hx)
    (fun hx => by with_unfolding_all (first | (simp at hx ⊢ <;> first | exact hx | tauto) | tauto))

theorem good_parse_for_stmt {self : parser_fns} (h : good_fns self) (s : parser_base) :
    good_run s (True) (parse_for_stmt self) s := by
  unfold parse_for_stmt
  refine good_run_current_token ?_
  refine good_run_assert ?_
  refine good_run_ADVANCE_OR_ERROR (fun _ _ => ?_)
  refine good_run_EXPECT (fun _ => ?_)
  refine good_run_ADVANCE_OR_ERROR (fun _ _ => ?_)
  refine good_run_current_token ?_
  refine good_run_ite (fun _ => ?_) (fun _ => ?_)
  refine good_run_ADVANCE_OR_ERROR (fun _ _ => ?_)
  refine good_run_EXPECT (fun _ => ?_)
  exact good_run_call (good_for_in_of h _ _ _) (fun _ => True.intro)
  exact good_run_call (good_for_in_of h _ _ _) (fun _ => True.intro)

theorem good_parse_switch_stmt {self : parser_fns} (h : good_fns self) (s : parser_base) :
    good_run s (True) (parse_switch_stmt self) s := by
  unfold parse_switch_stmt
  refine good_run_current_token ?_
  refine good_run_assert ?_
  refine good_run_ADVANCE_OR_ERROR (fun _ _ => ?_)
  refine good_run_EXPECT (fun _ => ?_)
  refine good_run_ADVANCE_OR_ERROR (fun _ _ => ?_)
  refine good_run_SUBPARSE (h.parse_expression _ _) (fun _ => True.intro) (fun _ _ _ _ => ?_)
  refine good_run_ADVANCE_OR_ERROR (fun _ _ => ?_)
  refine good_run_EXPECT (fun _ => ?_)
  refine good_run_ADVANCE_OR_ERROR (fun _ _ => ?_)
  refine good_run_EXPECT (fun _ => ?_)
  refine good_run_ADVANCE_OR_ERROR (fun _ _ => ?_)
  exact good_run_call (h.switch_clauses_loop _ _ _ _ _) (fun hx => by with_unfolding_all (first | (simp at hx ⊢ <;> first | exact hx | tauto) | tauto))

theorem good_switch_clauses_loop {self : parser_fns} (h : good_fns self) (loc : source_location) (value : Node) (hasDefault : Bool) (clauses : List Node) (s : parser_base) :
    good_run s (ok value ∧ oks clauses ∧ default_count clauses ≤ 1 ∧
      (hasDefault = false → default_count clauses = 0)) (switch_clauses_loop self loc value hasDefault clauses) s := by
  unfold switch_clauses_loop
  refine good_run_EXPECT_SEVERAL (fun _ => ?_)
  refine good_run_current_token ?_
  refine good_run_ite (fun _ => ?_) (fun _ => ?_)
  exact good_run_pure (fun hx => nomatch hx)
    (fun hx => by with_unfolding_all (simp_all [default_count_append, is_default_clause, is_default_clause_add_stmt]; done))
  refine good_run_ite (fun _ => ?_) (fun _ => ?_)
  refine good_run_ite (fun _ => ?_) (fun _ => ?_)
  refine good_run_set_error (fun _ _ => ?_)
  exact good_run_null (by first | assumption | simp_all [Option.isSome_iff_ne_none])
  refine good_run_ADVANCE_OR_ERROR (fun _ _ => ?_)
  refine good_run_EXPECT (fun _ => ?_)
  refine good_run_ADVANCE_OR_ERROR (fun _ _ => ?_)
  exact good_run_call (h.switch_stmts_loop _ _ _ _ _ _) (fun hx => by with_unfolding_all (simp_all [default_count_append, is_default_clause, is_default_clause_add_stmt]; done))
  refine good_run_ite (fun _ => ?_) (fun _ => ?_)
  refine good_run_ADVANCE_OR_ERROR (fun _ _ => ?_)
  refine good_run_SUBPARSE (h.parse_expression _ _) (fun _ => True.intro) (fun _ _ _ _ => ?_)
  refine good_run_ADVANCE_OR_ERROR (fun _ _ => ?_)
  refine good_run_EXPECT (fun _ => ?_)
  refine good_run_ADVANCE_OR_ERROR (fun _ _ => ?_)
  exact good_run_call (h.switch_stmts_loop _ _ _ _ _ _) (fun hx => by with_unfolding_all (simp_all [default_count_append, is_default_clause, is_default_clause_add_stmt]; done))
  refine good_run_set_error (fun _ _ => ?_)
  exact good_run_null (by first | assumption | simp_all [Option.isSome_iff_ne_none])

theorem good_switch_stmts_loop {self : parser_fns} (h : good_fns self) (loc : source_location) (value : Node) (hasDefault : Bool) (clauses : List Node) (clause : Node) (s : parser_base) :
    good_run s (ok value ∧ oks clauses ∧ ok clause ∧ default_count (clauses ++ [clause]) ≤ 1 ∧
      (hasDefault = false → default_count (clauses ++ [clause]) = 0)) (switch_stmts_loop self loc value hasDefault clauses clause) s := by
  unfold switch_stmts_loop
  refine good_run_current_token ?_
  refine good_run_ite (fun _ => ?_) (fun _ => ?_)
  exact good_run_call (h.switch_clauses_loop _ _ _ _ _) (fun hx => by with_unfolding_all (simp_all [default_count_append, is_default_clause, is_default_clause_add_stmt]; done))
  refine good_run_SUBPARSE (h.parse_statement _) (fun _ => True.intro) (fun _ _ _ _ => ?_)
  refine good_run_ADVANCE_OR_ERROR (fun _ _ => ?_)
  exact good_run_call (h.switch_stmts_loop _ _ _ _ _ _) (fun hx => by with_unfolding_all (refine ⟨by tauto, by tauto, ok_add_stmt (by tauto) (by tauto), ?_, ?_⟩ <;> simp_all [default_count_append, is_default_clause_add_stmt]))

theorem good_parse_return_stmt {self : parser_fns} (h : good_fns self) (s : parser_base) :
    good_run s (True) (parse_return_stmt self) s := by
  unfold parse_return_stmt
  refine good_run_current_token ?_
  refine good_run_assert ?_
  refine good_run_advance (fun _ _ => ?_)
  refine good_run_current_token ?_
  refine good_run_ite (fun _ => ?_) (fun _ => ?_)
  refine good_run_SUBPARSE (h.parse_expression _ _) (fun _ => True.intro) (fun _ _ _ _ => ?_)
  exact good_run_pure (fun hx => nomatch hx)
    (fun hx => by with_unfolding_all (first | (simp at hx ⊢ <;> first | exact hx | tauto) | tauto))
  exact good_run_pure (fun hx => nomatch hx)
    (fun hx => by with_unfolding_all (first | (simp at hx ⊢ <;> first | exact hx | tauto) | tauto))

theorem good_parse_throw_stmt {self : parser_fns} (h : good_fns self) (s : parser_base) :
    good_run s (True) (parse_throw_stmt self) s := by
  unfold parse_throw_stmt
  refine good_run_current_token ?_
  refine good_run_assert ?_
  refine good_run_ADVANCE_OR_ERROR (fun _ _ => ?_)
  refine good_run_SUBPARSE (h.parse_expression _ _) (fun _ => True.intro) (fun _ _ _ _ => ?_)
  exact good_run_pure (fun hx => nomatch hx)
    (fun hx => by with_unfolding_all (first | (simp at hx ⊢ <;> first | exact hx | tauto) | tauto))

theorem good_parse_try_stmt {self : parser_fns} (h : good_fns self) (s : parser_base) :
    good_run s (True) (parse_try_stmt self) s := by
  unfold parse_try_stmt
  refine good_run_current_token ?_
  refine good_run_assert ?_
  refine good_run_ADVANCE_OR_ERROR (fun _ _ => ?_)
  refine good_run_EXPECT (fun _ => ?_)
  refine good_run_SUBPARSE (h.parse_block _) (fun _ => True.intro) (fun _ _ _ _ => ?_)
  refine good_run_ADVANCE_OR_ERROR (fun _ _ => ?_)
  refine good_run_current_token ?_
  refine good_run_ite (fun _ => ?_) (fun _ => ?_)
  refine good_run_ADVANCE_OR_ERROR (fun _ _ => ?_)
  refine good_run_EXPECT (fun _ => ?_)
  refine good_run_ADVANCE_OR_ERROR (fun _ _ => ?_)
  refine good_run_EXPECT (fun _ => ?_)
  refine good_run_current_token ?_
  refine good_run_ADVANCE_OR_ERROR (fun _ _ => ?_)
  refine good_run_EXPECT (fun _ => ?_)
  refine good_run_ADVANCE_OR_ERROR (fun _ _ => ?_)
  refine good_run_EXPECT (fun _ => ?_)
  refine good_run_SUBPARSE (h.parse_block _) (fun _ => True.intro) (fun _ _ _ _ => ?_)
  refine good_run_advance (fun _ _ => ?_)
  refine good_run_ite (fun _ => ?_) (fun _ => ?_)
  exact good_run_pure (fun hx => nomatch hx)
    (fun hx => by with_unfolding_all (first | (simp at hx ⊢ <;> first | exact hx | tauto) | tauto))
  exact good_run_call (good_try_finally h _ _ _ _) (fun hx => by with_unfolding_all (first | (simp at hx ⊢ <;> first | exact hx | tauto) | tauto))
  exact good_run_call (good_try_finally h _ _ _ _) (fun hx => by with_unfolding_all (first | (simp at hx ⊢ <;> first | exact hx | tauto) | tauto))

theorem good_parse_expression {self : parser_fns} (h : good_fns self) (comma_is_operator : Bool) (s : parser_base) :
    good_run s (True) (parse_expression self comma_is_operator) s := by
  unfold parse_expression
  refine good_run_bind_call (h.parse_unary_or_atomic_expr _) (fun _ => True.intro) (fun _ _ _ => ?_)
  refine good_run_ite (fun _ => ?_) (fun _ => ?_)
  refine good_run_current_token ?_
  refine good_run_advance (fun _ _ => ?_)
  refine good_run_ite (fun _ => ?_) (fun _ => ?_)
  exact good_run_pure (fun hx => by with_unfolding_all (simp_all [Option.isSome_iff_ne_none]; done))
    (fun hx => hx.1)
  refine good_run_current_token ?_
  refine good_run_ite (fun _ => ?_) (fun _ => ?_)
  refine good_run_rewind (fun _ => ?_)
  exact good_run_pure (fun hx => by with_unfolding_all (simp_all [Option.isSome_iff_ne_none]; done))
    (fun hx => hx.1)
  refine good_run_ite (fun _ => ?_) (fun _ => ?_)
  exact good_run_call (h.parse_bin_op _ _ _ (by first | assumption | rfl | (intro hn; cases hn; done) | simp_all [Option.isSome_iff_ne_none])) (fun hx => hx.1)
  refine good_run_rewind (fun _ => ?_)
  exact good_run_pure (fun hx => by with_unfolding_all (simp_all [Option.isSome_iff_ne_none]; done))
    (fun hx => hx.1)
  refine good_run_has_error ?_
  refine good_run_ite (fun _ => ?_) (fun _ => ?_)
  exact good_run_null (by first | assumption | simp_all [Option.isSome_iff_ne_none])
  refine good_run_current_token ?_
  refine good_run_set_error (fun _ _ => ?_)
  exact good_run_null (by first | assumption | simp_all [Option.isSome_iff_ne_none])

theorem good_parse_unary_or_atomic_expr {self : parser_fns} (h : good_fns self) (s : parser_base) :
    good_run s (True) (parse_unary_or_atomic_expr self) s := by
  unfold parse_unary_or_atomic_expr
  refine good_run_current_token ?_
  refine good_run_ite (fun _ => ?_) (fun _ => ?_)
  refine good_run_ADVANCE_OR_ERROR (fun _ _ => ?_)
  refine good_run_SUBPARSE (h.parse_atomic_expr _) (fun _ => True.intro) (fun _ _ _ _ => ?_)
  refine good_run_spec_step (make_unary_prefix_op_spec _ _ _) (fun _ _ _ => ?_)
  refine good_run_ASSERT_PARSE_RESULT (by first | assumption | simp_all [Option.isSome_iff_ne_none]) (fun _ _ => ?_)
  exact good_run_pure (fun hx => by with_unfolding_all (simp_all [Option.isSome_iff_ne_none]; done))
    (fun hx => by with_unfolding_all (first | (simp at hx ⊢ <;> first | exact hx | tauto) | tauto))
  refine good_run_bind_call (h.parse_atomic_expr _) (fun _ => True.intro) (fun _ _ _ => ?_)
  refine good_run_ASSERT_PARSE_RESULT (by first | assumption | simp_all [Option.isSome_iff_ne_none]) (fun _ _ => ?_)
  exact good_run_pure (fun hx => by with_unfolding_all (first | (simp at hx ⊢ <;> first | exact hx | tauto) | tauto))
    (fun hx => hx.1)

theorem good_parse_atomic_expr {self : parser_fns} (h : good_fns self) (s : parser_base) :
    good_run s (True) (parse_atomic_expr self) s := by
  unfold parse_atomic_expr
  refine good_atomic_start_bind h (fun _ _ => ?_)
  refine good_run_ite (fun _ => ?_) (fun _ => ?_)
  refine good_run_has_error ?_
  refine good_run_ite (fun _ => ?_) (fun _ => ?_)
  refine good_run_current_token ?_
  refine good_run_set_error (fun _ _ => ?_)
  exact good_run_null (by first | assumption | simp_all [Option.isSome_iff_ne_none])
  exact good_run_null (by first | assumption | simp_all [Option.isSome_iff_ne_none])
  refine good_run_bind_call (h.atomic_postfix_loop _ _ (by first | assumption | rfl | (intro hn; cases hn; done) | simp_all [Option.isSome_iff_ne_none])) (fun hx => hx.1)
    (fun _ _ _ => ?_)
  exact good_run_call (good_atomic_postfix_step _ _ (by first | assumption | rfl | (intro hn; cases hn; done) | simp_all [Option.isSome_iff_ne_none])) (fun hx => hx.1)

theorem good_atomic_postfix_loop {self : parser_fns} (h : good_fns self) (expr : Node) (s : parser_base)
    (hb : expr.isNull = true → s.bad) :
    good_run s (ok expr) (atomic_postfix_loop self expr) s := by
  unfold atomic_postfix_loop
  refine good_run_current_token ?_
  refine good_run_advance (fun _ _ => ?_)
  refine good_run_ite (fun _ => ?_) (fun _ => ?_)
  refine good_run_current_token ?_
  refine good_run_ite (fun _ => ?_) (fun _ => ?_)
  refine good_run_bind_call (good_parse_member_access _ _) (fun hx => hx)
    (fun _ _ _ => ?_)
  exact good_run_call (h.atomic_postfix_loop _ _ (by first | assumption | rfl | (intro hn; cases hn; done) | simp_all [Option.isSome_iff_ne_none])) (fun hx => hx.1)
  refine good_run_ite (fun _ => ?_) (fun _ => ?_)
  refine good_run_bind_call (h.parse_call _ _) (fun hx => hx)
    (fun _ _ _ => ?_)
  exact good_run_call (h.atomic_postfix_loop _ _ (by first | assumption | rfl | (intro hn; cases hn; done) | simp_all [Option.isSome_iff_ne_none])) (fun hx => hx.1)
  refine good_run_ite (fun _ => ?_) (fun _ => ?_)
  refine good_run_bind_call (h.parse_computed_access _ _) (fun hx => hx)
    (fun _ _ _ => ?_)
  exact good_run_call (h.atomic_postfix_loop _ _ (by first | assumption | rfl | (intro hn; cases hn; done) | simp_all [Option.isSome_iff_ne_none])) (fun hx => hx.1)
  refine good_run_rewind (fun _ => ?_)
  exact good_run_pure (fun hx => Or.inl (hb hx))
    (fun hx => hx)
  exact good_run_pure (fun hx => Or.inl (hb hx))
    (fun hx => hx)

theorem good_parse_parens_expr {self : parser_fns} (h : good_fns self) (s : parser_base) :
    good_run s (True) (parse_parens_expr self) s := by
  unfold parse_parens_expr
  refine good_run_current_token ?_
  refine good_run_assert ?_
  refine good_run_ADVANCE_OR_ERROR (fun _ _ => ?_)
  refine good_run_current_token ?_
  refine good_run_ite (fun _ => ?_) (fun _ => ?_)
  exact good_run_call (h.parens_list_loop _ _ _ _ (by first | assumption | rfl | (intro hn; cases hn; done) | simp_all [Option.isSome_iff_ne_none])) (fun hx => by with_unfolding_all (first | (simp at hx ⊢ <;> first | exact hx | tauto) | tauto))
  exact good_run_call (good_parens_tail h _ _ _ _ _ (by first | assumption | rfl | (intro hn; cases hn; done) | simp_all [Option.isSome_iff_ne_none])) (fun hx => by with_unfolding_all (first | (simp at hx ⊢ <;> first | exact hx | tauto) | tauto))

theorem good_parens_list_loop {self : parser_fns} (h : good_fns self) (loc : source_location) (reason_no_paramlist : Option token) (exprs : List Node) (s : parser_base)
    (hb : ∀ e ∈ exprs, e.isNull = false) :
    good_run s (oks exprs) (parens_list_loop self loc reason_no_paramlist exprs) s := by
  unfold parens_list_loop
  refine good_run_current_token ?_
  refine good_run_ite (fun _ => ?_) (fun _ => ?_)
  refine good_run_ADVANCE_OR_ERROR (fun _ _ => ?_)
  refine good_run_EXPECT (fun _ => ?_)
  refine good_run_current_token ?_
  refine good_run_ADVANCE_OR_ERROR (fun _ _ => ?_)
  refine good_run_EXPECT (fun _ => ?_)
  exact good_run_call (good_parens_tail h _ _ _ _ _ hb) (fun hx => hx)
  refine good_run_SUBPARSE (h.parse_expression _ _) (fun _ => True.intro) (fun _ _ _ _ => ?_)
  refine good_run_assert ?_
  refine good_run_ADVANCE_OR_ERROR (fun _ _ => ?_)
  refine good_run_EXPECT_SEVERAL (fun _ => ?_)
  refine good_run_current_token ?_
  refine good_run_ite (fun _ => ?_) (fun _ => ?_)
  exact good_run_call (good_parens_tail h _ _ _ _ _ (isNull_append hb (by assumption))) (fun hx => by with_unfolding_all (first | (simp at hx ⊢ <;> first | exact hx | tauto) | tauto))
  refine good_run_ite (fun _ => ?_) (fun _ => ?_)
  refine good_run_ADVANCE_OR_ERROR (fun _ _ => ?_)
  exact good_run_call (h.parens_list_loop _ _ _ _ (isNull_append hb (by assumption))) (fun hx => by with_unfolding_all (first | (simp at hx ⊢ <;> first | exact hx | tauto) | tauto))
  exact good_run_call (h.parens_list_loop _ _ _ _ (isNull_append hb (by assumption))) (fun hx => by with_unfolding_all (first | (simp at hx ⊢ <;> first | exact hx | tauto) | tauto))

theorem good_parse_bin_op (ops : operators_def) {self : parser_fns} (h : good_fns self) (lhs : Node) (comma_is_operator : Bool) (s : parser_base)
    (hb : is_binary_operator s.current_token comma_is_operator = true) :
    good_run s (ok lhs) (parse_bin_op ops self lhs comma_is_operator) s := by
  unfold parse_bin_op
  refine good_run_current_token ?_
  refine good_run_assert ?_
  refine good_run_ADVANCE_OR_ERROR (fun _ _ => ?_)
  refine good_run_ite (fun _ => ?_) (fun _ => ?_)
  refine good_run_SUBPARSE (h.parse_expression _ _) (fun _ => True.intro) (fun _ _ _ _ => ?_)
  refine good_run_ADVANCE_OR_ERROR (fun _ _ => ?_)
  refine good_run_EXPECT (fun _ => ?_)
  refine good_run_ADVANCE_OR_ERROR (fun _ _ => ?_)
  refine good_run_SUBPARSE (h.parse_expression _ _) (fun _ => True.intro) (fun _ _ _ _ => ?_)
  exact good_run_call (good_bin_op_tail ops h _ _ _ _ (by with_unfolding_all rfl)) (fun hx => by with_unfolding_all (first | (simp at hx ⊢ <;> first | exact hx | tauto) | tauto))
  refine good_run_SUBPARSE (h.parse_unary_or_atomic_expr _) (fun _ => True.intro) (fun _ _ _ _ => ?_)
  refine good_run_spec_step (make_binary_expr_spec _ _ _ _) (fun _ _ _ => ?_)
  exact good_run_call (good_bin_op_tail ops h _ _ _ _ (by with_unfolding_all (cases comma_is_operator <;> simp_all))) (fun hx => by with_unfolding_all (first | (simp at hx ⊢ <;> first | exact hx | tauto) | tauto))

theorem good_parse_atomic_keyword_expr {self : parser_fns} (h : good_fns self) (s : parser_base) :
    good_run s (True) (parse_atomic_keyword_expr self) s := by
  unfold parse_atomic_keyword_expr
  refine good_run_EXPECT (fun _ => ?_)
  refine good_run_current_token ?_
  refine good_run_ite (fun _ => ?_) (fun _ => ?_)
  exact good_run_call (good_parse_class_expr _) (fun _ => True.intro)
  refine good_run_ite (fun _ => ?_) (fun _ => ?_)
  exact good_run_call (h.parse_function_expr _) (fun _ => True.intro)
  refine good_run_ite (fun _ => ?_) (fun _ => ?_)
  exact good_run_call (h.parse_new_keyword _) (fun _ => True.intro)
  refine good_run_set_error (fun _ _ => ?_)
  exact good_run_null (by first | assumption | simp_all [Option.isSome_iff_ne_none])

theorem good_parse_new_keyword {self : parser_fns} (h : good_fns self) (s : parser_base) :
    good_run s (True) (parse_new_keyword self) s := by
  unfold parse_new_keyword
  refine good_run_current_token ?_
  refine good_run_assert ?_
  refine good_run_ADVANCE_OR_ERROR (fun _ _ => ?_)
  refine good_run_current_token ?_
  refine good_run_ite (fun _ => ?_) (fun _ => ?_)
  refine good_run_ADVANCE_OR_ERROR (fun _ _ => ?_)
  refine good_run_EXPECT (fun _ => ?_)
  refine good_run_current_token ?_
  refine good_run_ite (fun _ => ?_) (fun _ => ?_)
  refine good_run_set_error (fun _ _ => ?_)
  exact good_run_null (by first | assumption | simp_all [Option.isSome_iff_ne_none])
  exact good_run_pure (fun hx => nomatch hx)
    (fun hx => by with_unfolding_all (first | (simp at hx ⊢ <;> first | exact hx | tauto) | tauto))
  refine good_run_SUBPARSE (h.parse_atomic_expr _) (fun _ => True.intro) (fun _ _ _ _ => ?_)
  refine good_run_assert ?_
  split
  exact good_run_pure (fun hx => nomatch hx)
    (fun hx => by with_unfolding_all (first | (simp at hx ⊢ <;> first | exact hx | tauto) | tauto))
  exact good_run_pure (fun hx => nomatch hx)
    (fun hx => by with_unfolding_all (first | (simp at hx ⊢ <;> first | exact hx | tauto) | tauto))

theorem good_parse_template_literal {self : parser_fns} (h : good_fns self) (s : parser_base) :
    good_run s (True) (parse_template_literal self) s := by
  unfold parse_template_literal
  refine good_run_current_token ?_
  refine good_run_assert ?_
  exact good_run_call (h.template_loop _ _ _ _) (fun hx => by with_unfolding_all (first | (simp at hx ⊢ <;> first | exact hx | tauto) | tauto))

theorem good_template_loop {self : parser_fns} (h : good_fns self) (loc : source_location) (strs : List String) (exprs : List Node) (s : parser_base) :
    good_run s (oks exprs ∧ strs.length = exprs.length + 1) (template_loop self loc strs exprs) s := by
  unfold template_loop
  refine good_run_ADVANCE_OR_ERROR (fun _ _ => ?_)
  refine good_run_SUBPARSE (h.parse_expression _ _) (fun _ => True.intro) (fun _ _ _ _ => ?_)
  refine good_run_ADVANCE_OR_ERROR (fun _ _ => ?_)
  refine good_run_EXPECT_SEVERAL (fun _ => ?_)
  refine good_run_current_token ?_
  refine good_run_ite (fun _ => ?_) (fun _ => ?_)
  exact good_run_call (h.template_loop _ _ _ _) (fun hx => by with_unfolding_all (first | (simp at hx ⊢ <;> first | exact hx | tauto) | tauto))
  refine good_run_assert ?_
  exact good_run_pure (fun hx => nomatch hx)
    (fun hx => by with_unfolding_all (first | (simp at hx ⊢ <;> first | exact hx | tauto) | tauto))

theorem good_parse_function_stmt {self : parser_fns} (h : good_fns self) (s : parser_base) :
    good_run s (True) (parse_function_stmt self) s := by
  unfold parse_function_stmt
  refine good_run_current_token ?_
  refine good_run_assert ?_
  refine good_run_ADVANCE_OR_ERROR (fun _ _ => ?_)
  refine good_run_EXPECT (fun _ => ?_)
  refine good_run_current_token ?_
  refine good_run_ADVANCE_OR_ERROR (fun _ _ => ?_)
  refine good_run_EXPECT (fun _ => ?_)
  refine good_run_SUBPARSE (h.parse_param_list _) (fun _ => True.intro) (fun _ _ _ _ => ?_)
  refine good_run_ADVANCE_OR_ERROR (fun _ _ => ?_)
  refine good_run_EXPECT (fun _ => ?_)
  refine good_run_SUBPARSE (h.parse_block _) (fun _ => True.intro) (fun _ _ _ _ => ?_)
  exact good_run_pure (fun hx => nomatch hx)
    (fun hx => by with_unfolding_all (first | (simp at hx ⊢ <;> first | exact hx | tauto) | tauto))

theorem good_parse_function_expr {self : parser_fns} (h : good_fns self) (s : parser_base) :
    good_run s (True) (parse_function_expr self) s := by
  unfold parse_function_expr
  refine good_run_current_token ?_
  refine good_run_assert ?_
  refine good_run_ADVANCE_OR_ERROR (fun _ _ => ?_)
  refine good_run_current_token ?_
  refine good_run_ite (fun _ => ?_) (fun _ => ?_)
  refine good_run_ADVANCE_OR_ERROR (fun _ _ => ?_)
  exact good_run_call (good_function_expr_tail h _ _ _) (fun _ => True.intro)
  exact good_run_call (good_function_expr_tail h _ _ _) (fun _ => True.intro)

theorem good_parse_param_list {self : parser_fns} (h : good_fns self) (s : parser_base) :
    good_run s (True) (parse_param_list self) s := by
  unfold parse_param_list
  refine good_run_current_token ?_
  refine good_run_assert ?_
  exact good_run_call (h.param_list_loop _ _ _) (fun _ => True.intro)

theorem good_param_list_loop {self : parser_fns} (h : good_fns self) (loc : source_location) (names : List String) (s : parser_base) :
    good_run s (True) (param_list_loop self loc names) s := by
  unfold param_list_loop
  refine good_run_ADVANCE_OR_ERROR (fun _ _ => ?_)
  refine good_run_current_token ?_
  refine good_run_ite (fun _ => ?_) (fun _ => ?_)
  refine good_run_ADVANCE_OR_ERROR (fun _ _ => ?_)
  refine good_run_current_token ?_
  refine good_run_ite (fun _ => ?_) (fun _ => ?_)
  exact good_run_call (h.param_list_loop _ _ _) (fun _ => True.intro)
  exact good_run_call (good_param_list_tail _ _ _) (fun _ => True.intro)
  refine good_run_ite (fun _ => ?_) (fun _ => ?_)
  exact good_run_call (h.param_list_loop _ _ _) (fun _ => True.intro)
  exact good_run_call (good_param_list_tail _ _ _) (fun _ => True.intro)

theorem good_parse_block {self : parser_fns} (h : good_fns self) (s : parser_base) :
    good_run s (True) (parse_block self) s := by
  unfold parse_block
  refine good_run_EXPECT (fun _ => ?_)
  refine good_run_current_token ?_
  refine good_run_ADVANCE_OR_ERROR (fun _ _ => ?_)
  exact good_run_call (h.block_loop _ _ _) (fun hx => by with_unfolding_all (first | (simp at hx ⊢ <;> first | exact hx | tauto) | tauto))

theorem good_block_loop {self : parser_fns} (h : good_fns self) (loc : source_location) (stmts : List Node) (s : parser_base) :
    good_run s (oks stmts) (block_loop self loc stmts) s := by
  unfold block_loop
  refine good_run_current_token ?_
  refine good_run_ite (fun _ => ?_) (fun _ => ?_)
  refine good_run_assert ?_
  refine good_run_bind_call (h.parse_statement _) (fun _ => True.intro) (fun _ _ _ => ?_)
  refine good_run_ADVANCE_OR_ERROR (fun _ _ => ?_)
  exact good_run_call (h.block_loop _ _ _) (fun hx => by with_unfolding_all (first | (simp at hx ⊢ <;> first | exact hx | tauto) | tauto))
  exact good_run_pure (fun hx => nomatch hx)
    (fun hx => by with_unfolding_all (first | (simp at hx ⊢ <;> first | exact hx | tauto) | tauto))

theorem good_parse_var_decl {self : parser_fns} (h : good_fns self) (s : parser_base) :
    good_run s (True) (parse_var_decl self) s := by
  unfold parse_var_decl
  refine good_run_current_token ?_
  refine good_run_assert ?_
  refine good_run_ADVANCE_OR_ERROR (fun _ _ => ?_)
  refine good_run_EXPECT (fun _ => ?_)
  refine good_run_current_token ?_
  exact good_run_call (h.var_decl_loop _ _ _ _) (fun hx => by with_unfolding_all (first | (simp at hx ⊢ <;> first | exact hx | tauto) | tauto))

theorem good_var_decl_loop {self : parser_fns} (h : good_fns self) (loc : source_location) (keyword : String) (parts : List Node) (s : parser_base) :
    good_run s (oks parts) (var_decl_loop self loc keyword parts) s := by
  unfold var_decl_loop
  refine good_run_current_token ?_
  refine good_run_advance (fun _ _ => ?_)
  refine good_run_ite (fun _ => ?_) (fun _ => ?_)
  refine good_run_current_token ?_
  refine good_run_ite (fun _ => ?_) (fun _ => ?_)
  refine good_run_ADVANCE_OR_ERROR (fun _ _ => ?_)
  refine good_run_SUBPARSE (h.parse_expression _ _) (fun _ => True.intro) (fun _ _ _ _ => ?_)
  exact good_run_call (h.var_decl_loop _ _ _ _) (fun hx => by with_unfolding_all (refine oks_set_last_init ?_ ?_ <;> tauto))
  refine good_run_ite (fun _ => ?_) (fun _ => ?_)
  refine good_run_ADVANCE_OR_ERROR (fun _ _ => ?_)
  refine good_run_EXPECT (fun _ => ?_)
  refine good_run_current_token ?_
  exact good_run_call (h.var_decl_loop _ _ _ _) (fun hx => by with_unfolding_all (first | (simp at hx ⊢ <;> first | exact hx | tauto) | tauto))
  refine good_run_rewind (fun _ => ?_)
  exact good_run_pure (fun hx => nomatch hx)
    (fun hx => by with_unfolding_all (first | (simp at hx ⊢ <;> first | exact hx | tauto) | tauto))
  exact good_run_pure (fun hx => nomatch hx)
    (fun hx => by with_unfolding_all (first | (simp at hx ⊢ <;> first | exact hx | tauto) | tauto))

theorem good_parse_array_literal {self : parser_fns} (h : good_fns self) (s : parser_base) :
    good_run s (True) (parse_array_literal self) s := by
  unfold parse_array_literal
  refine good_run_current_token ?_
  refine good_run_assert ?_
  refine good_run_ADVANCE_OR_ERROR (fun _ _ => ?_)
  refine good_run_current_token ?_
  refine good_run_ite (fun _ => ?_) (fun _ => ?_)
  exact good_run_call (h.array_loop _ _ _) (fun hx => by with_unfolding_all (first | (simp at hx ⊢ <;> first | exact hx | tauto) | tauto))
  exact good_run_pure (fun hx => nomatch hx)
    (fun hx => by with_unfolding_all (first | (simp at hx ⊢ <;> first | exact hx | tauto) | tauto))

theorem good_array_loop {self : parser_fns} (h : good_fns self) (loc : source_location) (values : List Node) (s : parser_base) :
    good_run s (oks values) (array_loop self loc values) s := by
  unfold array_loop
  refine good_run_current_token ?_
  refine good_run_ite (fun _ => ?_) (fun _ => ?_)
  refine good_run_ADVANCE_OR_ERROR (fun _ _ => ?_)
  refine good_run_bind_call (h.parse_expression _ _) (fun _ => True.intro) (fun _ _ _ => ?_)
  exact good_run_call (good_array_entry_end h _ _ _) (fun hx => by with_unfolding_all (first | (simp at hx ⊢ <;> first | exact hx | tauto) | tauto))
  refine good_run_bind_call (h.parse_expression _ _) (fun _ => True.intro) (fun _ _ _ => ?_)
  exact good_run_call (good_array_entry_end h _ _ _) (fun hx => by with_unfolding_all (first | (simp at hx ⊢ <;> first | exact hx | tauto) | tauto))

theorem good_parse_object_literal {self : parser_fns} (h : good_fns self) (s : parser_base) :
    good_run s (True) (parse_object_literal self) s := by
  unfold parse_object_literal
  refine good_run_current_token ?_
  refine good_run_assert ?_
  refine good_run_ADVANCE_OR_ERROR (fun _ _ => ?_)
  exact good_run_call (h.object_loop _ _ _) (fun hx => by with_unfolding_all (first | (simp at hx ⊢ <;> first | exact hx | tauto) | tauto))

theorem good_object_loop {self : parser_fns} (h : good_fns self) (loc : source_location) (entries : List Node) (s : parser_base) :
    good_run s (oks entries) (object_loop self loc entries) s := by
  unfold object_loop
  refine good_run_current_token ?_
  refine good_run_ite (fun _ => ?_) (fun _ => ?_)
  refine good_run_EXPECT (fun _ => ?_)
  exact good_run_pure (fun hx => nomatch hx)
    (fun hx => by with_unfolding_all (first | (simp at hx ⊢ <;> first | exact hx | tauto) | tauto))
  refine good_run_ite (fun _ => ?_) (fun _ => ?_)
  refine good_run_ADVANCE_OR_ERROR (fun _ _ => ?_)
  refine good_run_bind_call (h.parse_expression _ _) (fun _ => True.intro) (fun _ _ _ => ?_)
  exact good_run_call (good_object_entry_end h _ _ _) (fun hx => by with_unfolding_all (first | (simp at hx ⊢ <;> first | exact hx | tauto) | tauto))
  refine good_run_ite (fun _ => ?_) (fun _ => ?_)
  refine good_run_ADVANCE_OR_ERROR (fun _ _ => ?_)
  refine good_run_current_token ?_
  refine good_run_ite (fun _ => ?_) (fun _ => ?_)
  refine good_run_rewind (fun _ => ?_)
  exact good_run_call (good_object_entry_end h _ _ _) (fun hx => by with_unfolding_all (first | (simp at hx ⊢ <;> first | exact hx | tauto) | tauto))
  refine good_run_ADVANCE_OR_ERROR (fun _ _ => ?_)
  refine good_run_bind_call (h.parse_expression _ _) (fun _ => True.intro) (fun _ _ _ => ?_)
  exact good_run_call (good_object_entry_end h _ _ _) (fun hx => by with_unfolding_all (first | (simp at hx ⊢ <;> first | exact hx | tauto) | tauto))
  refine good_run_set_error (fun _ _ => ?_)
  exact good_run_null (by first | assumption | simp_all [Option.isSome_iff_ne_none])

theorem good_parse_computed_access {self : parser_fns} (h : good_fns self) (base : Node) (s : parser_base) :
    good_run s (ok base) (parse_computed_access self base) s := by
  unfold parse_computed_access
  refine good_run_current_token ?_
  refine good_run_assert ?_
  refine good_run_ADVANCE_OR_ERROR (fun _ _ => ?_)
  refine good_run_SUBPARSE (h.parse_expression _ _) (fun _ => True.intro) (fun _ _ _ _ => ?_)
  refine good_run_ADVANCE_OR_ERROR (fun _ _ => ?_)
  refine good_run_EXPECT (fun _ => ?_)
  exact good_run_pure (fun hx => nomatch hx)
    (fun hx => by with_unfolding_all (first | (simp at hx ⊢ <;> first | exact hx | tauto) | tauto))

theorem good_parse_call {self : parser_fns} (h : good_fns self) (callee : Node) (s : parser_base) :
    good_run s (ok callee) (parse_call self callee) s := by
  unfold parse_call
  refine good_run_current_token ?_
  refine good_run_assert ?_
  refine good_run_ADVANCE_OR_ERROR (fun _ _ => ?_)
  refine good_run_current_token ?_
  refine good_run_ite (fun _ => ?_) (fun _ => ?_)
  exact good_run_pure (fun hx => nomatch hx)
    (fun hx => by with_unfolding_all (first | (simp at hx ⊢ <;> first | exact hx | tauto) | tauto))
  exact good_run_call (h.call_loop _ _ _ _) (fun hx => by with_unfolding_all (first | (simp at hx ⊢ <;> first | exact hx | tauto) | tauto))

theorem good_call_loop {self : parser_fns} (h : good_fns self) (loc : source_location) (callee : Node) (values : List Node) (s : parser_base) :
    good_run s (ok callee ∧ oks values) (call_loop self loc callee values) s := by
  unfold call_loop
  refine good_run_SUBPARSE (h.parse_expression _ _) (fun _ => True.intro) (fun _ _ _ _ => ?_)
  refine good_run_ADVANCE_OR_ERROR (fun _ _ => ?_)
  refine good_run_current_token ?_
  refine good_run_ite (fun _ => ?_) (fun _ => ?_)
  refine good_run_ADVANCE_OR_ERROR (fun _ _ => ?_)
  exact good_run_call (h.call_loop _ _ _ _) (fun hx => by with_unfolding_all (first | (simp at hx ⊢ <;> first | exact hx | tauto) | tauto))
  refine good_run_ite (fun _ => ?_) (fun _ => ?_)
  refine good_run_assert ?_
  exact good_run_pure (fun hx => nomatch hx)
    (fun hx => by with_unfolding_all (first | (simp at hx ⊢ <;> first | exact hx | tauto) | tauto))
  refine good_run_set_error (fun _ _ => ?_)
  exact good_run_null (by first | assumption | simp_all [Option.isSome_iff_ne_none])

theorem good_parse_block_or_obj {self : parser_fns} (h : good_fns self) (_prefer_block_over_obj : Bool) (s : parser_base) :
    good_run s (True) (parse_block_or_obj self _prefer_block_over_obj) s := by
  unfold parse_block_or_obj
  refine good_run_EXPECT (fun _ => ?_)
  exact good_run_call (h.parse_block _) (fun _ => True.intro)
/-- With no fuel nothing returns, so every result is good. -/
theorem good_run_out_of_fuel (s0 : parser_base) (H : Prop) (s : parser_base) :
    good_run s0 H out_of_fuel s := by
  intro _ n s1 h
  simp [out_of_fuel] at h

/-- The member functions of the parser return good results, whatever the fuel. -/
theorem good_parsers (ops : operators_def) : ∀ fuel, good_fns (parsers ops fuel)
  | 0 => by
    constructor <;> intros <;> exact good_run_out_of_fuel _ _ _
  | fuel + 1 =>
    { parse_statement := fun s => good_parse_statement (good_parsers ops fuel) s
      parse_keyword_stmt := fun s => good_parse_keyword_stmt (good_parsers ops fuel) s
      parse_keyword_expr := fun s => good_parse_keyword_expr (good_parsers ops fuel) s
      parse_if_stmt := fun s => good_parse_if_stmt (good_parsers ops fuel) s
      parse_do_while := fun s => good_parse_do_while (good_parsers ops fuel) s
      parse_while_stmt := fun s => good_parse_while_stmt (good_parsers ops fuel) s
      parse_for_stmt := fun s => good_parse_for_stmt (good_parsers ops fuel) s
      parse_switch_stmt := fun s => good_parse_switch_stmt (good_parsers ops fuel) s
      switch_clauses_loop := fun loc value hasDefault clauses s => good_switch_clauses_loop (good_parsers ops fuel) loc value hasDefault clauses s
      switch_stmts_loop := fun loc value hasDefault clauses clause s => good_switch_stmts_loop (good_parsers ops fuel) loc value hasDefault clauses clause s
      parse_return_stmt := fun s => good_parse_return_stmt (good_parsers ops fuel) s
      parse_throw_stmt := fun s => good_parse_throw_stmt (good_parsers ops fuel) s
      parse_try_stmt := fun s => good_parse_try_stmt (good_parsers ops fuel) s
      parse_expression := fun comma_is_operator s => good_parse_expression (good_parsers ops fuel) comma_is_operator s
      parse_unary_or_atomic_expr := fun s => good_parse_unary_or_atomic_expr (good_parsers ops fuel) s
      parse_atomic_expr := fun s => good_parse_atomic_expr (good_parsers ops fuel) s
      atomic_postfix_loop := fun expr s hb => good_atomic_postfix_loop (good_parsers ops fuel) expr s hb
      parse_parens_expr := fun s => good_parse_parens_expr (good_parsers ops fuel) s
      parens_list_loop := fun loc reason exprs s hb => good_parens_list_loop (good_parsers ops fuel) loc reason exprs s hb
      parse_bin_op := fun lhs comma_is_operator s hb => good_parse_bin_op ops (good_parsers ops fuel) lhs comma_is_operator s hb
      parse_atomic_keyword_expr := fun s => good_parse_atomic_keyword_expr (good_parsers ops fuel) s
      parse_new_keyword := fun s => good_parse_new_keyword (good_parsers ops fuel) s
      parse_template_literal := fun s => good_parse_template_literal (good_parsers ops fuel) s
      template_loop := fun loc strs exprs s => good_template_loop (good_parsers ops fuel) loc strs exprs s
      parse_function_stmt := fun s => good_parse_function_stmt (good_parsers ops fuel) s
      parse_function_expr := fun s => good_parse_function_expr (good_parsers ops fuel) s
      parse_param_list := fun s => good_parse_param_list (good_parsers ops fuel) s
      param_list_loop := fun loc names s => good_param_list_loop (good_parsers ops fuel) loc names s
      parse_block := fun s => good_parse_block (good_parsers ops fuel) s
      block_loop := fun loc stmts s => good_block_loop (good_parsers ops fuel) loc stmts s
      parse_var_decl := fun s => good_parse_var_decl (good_parsers ops fuel) s
      var_decl_loop := fun loc keyword parts s => good_var_decl_loop (good_parsers ops fuel) loc keyword parts s
      parse_array_literal := fun s => good_parse_array_literal (good_parsers ops fuel) s
      array_loop := fun loc values s => good_array_loop (good_parsers ops fuel) loc values s
      parse_object_literal := fun s => good_parse_object_literal (good_parsers ops fuel) s
      object_loop := fun loc entries s => good_object_loop (good_parsers ops fuel) loc entries s
      parse_computed_access := fun base s => good_parse_computed_access (good_parsers ops fuel) base s
      parse_call := fun callee s => good_parse_call (good_parsers ops fuel) callee s
      call_loop := fun loc callee values s => good_call_loop (good_parsers ops fuel) loc callee values s
      parse_block_or_obj := fun flag s => good_parse_block_or_obj (good_parsers ops fuel) flag s }
/-- When `advance` reports that nothing was read and no error is recorded, the
lexer has reported the end of the input and nothing is pending. -/
theorem advance_false_eof {s s1 : parser_base} (h : advance s = some (false, s1))
    (he : s1.error = none) : s1.lexer = [] ∧ s1.rewind_stack = [] := by
  unfold advance at h
  cases hst : s.rewind_stack with
  | cons t stack => rw [hst] at h; simp at h
  | nil =>
    rw [hst] at h
    simp only [Option.some.injEq] at h
    have key : ∀ (l : List lexer_result) (s : parser_base), s.rewind_stack = [] →
        ∀ s1, advance_lexer l s = (false, s1) → s1.error = none →
          s1.lexer = [] ∧ s1.rewind_stack = [] := by
      intro l
      induction l with
      | nil =>
        intro s hs s1 h he
        simp only [advance_lexer, Prod.mk.injEq, true_and] at h
        subst h
        exact ⟨rfl, hs⟩
      | cons r rest ih =>
        intro s hs s1 h he
        cases r with
        | error err =>
          simp only [advance_lexer, Prod.mk.injEq, true_and] at h
          subst h
          simp at he
        | tok t =>
          simp only [advance_lexer] at h
          split at h
          · exact ih _ (by simpa using hs) _ h he
          · simp at h
    exact key _ _ hst _ h he

/-- The loop of `parse`: the state at its end comes after the state at its
start, the statements are well shaped when those passed in are, and when it ends
with no error recorded the whole input is consumed. -/
theorem parse_loop_spec (ops : operators_def) : ∀ (fuel : Nat) (stmts : List Node)
    (s : parser_base) (out : List Node) (s1 : parser_base),
    parse_loop ops fuel stmts s = some (out, s1) →
    s.le s1 ∧ (¬ s1.crit → oks stmts → oks out) ∧
      (s1.error = none → ¬ s1.crit → s1.lexer = [] ∧ s1.rewind_stack = [])
  | 0, _, _, _, _, h => by simp [parse_loop, out_of_fuel] at h
  | fuel + 1, stmts, s, out, s1, h => by
    unfold parse_loop at h
    simp only [bind, StateT.bind, has_error, pure, StateT.pure, Option.bind] at h
    by_cases e0 : s.error.isSome = true
    · simp only [e0, if_true, Option.some.injEq, Prod.mk.injEq] at h
      obtain ⟨rfl, rfl⟩ := h
      refine ⟨le_refl _, fun _ h => h, fun he => ?_⟩
      rw [he] at e0
      simp at e0
    · simp only [e0, Bool.false_eq_true, if_false] at h
      obtain ⟨b, s2, ha⟩ := advance_total s
      simp only [StateT.bind, bind, Option.bind, ha] at h
      have l2 := le_advance ha
      cases b with
      | false =>
        simp only [Bool.not_false, if_true, Option.some.injEq, Prod.mk.injEq] at h
        obtain ⟨rfl, rfl⟩ := h
        exact ⟨l2, fun _ h => h, fun he _ => advance_false_eof ha he⟩
      | true =>
        simp only [Bool.not_true, Bool.false_eq_true, if_false] at h
        cases hp : (parsers ops fuel).parse_statement s2 with
        | none => simp [StateT.bind, hp] at h
        | some r =>
          obtain ⟨stmt, s3⟩ := r
          simp only [StateT.bind, bind, Option.bind, hp, has_error] at h
          obtain ⟨⟨l3, hnull, hok⟩, _⟩ :=
            (good_parsers ops fuel).parse_statement s2 (le_refl _) stmt s3 hp
          by_cases c : stmt.isNull = true ∨ s3.error.isSome = true
          · simp only [c, if_true, Option.some.injEq, Prod.mk.injEq] at h
            obtain ⟨rfl, rfl⟩ := h
            refine ⟨le_trans l2 l3, fun _ h => h, fun he hc => ?_⟩
            rcases c with c | c
            · rcases hnull c with hb | hb
              · rw [he] at hb; simp at hb
              · exact absurd hb hc
            · rw [he] at c; simp at c
          · simp only [c, if_false] at h
            obtain ⟨l4, h1, h2⟩ := parse_loop_spec ops fuel _ _ _ _ h
            refine ⟨le_trans l2 (le_trans l3 l4), fun hc hs => h1 hc ?_, h2⟩
            rw [oks_append]
            refine ⟨hs, ?_⟩
            have hc3 : ¬ s3.crit := fun hh => hc (l4.2 hh)
            simpa using hok hc3 trivial

/-- The result of `parse`: a recorded error is returned, and a module is returned
only when no error is recorded; then, unless the run used `front()` on an empty
vector, the whole input is consumed and the tree is well shaped. -/
theorem parse_spec (ops : operators_def) (analyze_js_ast : Node → Option String)
    (fuel : Nat) (verify : Bool) (s : parser_base) (r : result) (s1 : parser_base)
    (h : parse ops analyze_js_ast fuel verify s = some (r, s1)) :
    (s.error.isSome = true → s1.error.isSome = true) ∧
    (∀ err, s1.error = some err → r = .error err) ∧
    (∀ ast, r = .module ast → s1.error = none ∧
      (¬ s1.crit → s1.lexer = [] ∧ s1.rewind_stack = [] ∧ ok ast)) := by
  unfold parse at h
  simp only [bind, StateT.bind, reset, get, getThe, MonadStateOf.get, StateT.get, pure,
    StateT.pure, Option.bind] at h
  cases hp : parse_loop ops fuel [] { s with rewind_stack := [] } with
  | none => rw [hp] at h; simp at h
  | some q =>
    obtain ⟨out, s2⟩ := q
    rw [hp] at h
    obtain ⟨l, h1, h2⟩ := parse_loop_spec ops fuel _ _ _ _ hp
    simp only at h
    cases he : s2.error with
    | some err =>
      rw [he] at h
      simp only [Option.some.injEq, Prod.mk.injEq] at h
      obtain ⟨rfl, rfl⟩ := h
      refine ⟨fun _ => by simp [he], fun e h => ?_, fun ast h => by cases h⟩
      rw [he] at h
      cases h
      rfl
    | none =>
      rw [he] at h
      have hs : s1 = s2 := by
        cases verify
        · simp [StateT.pure] at h; exact h.2.symm
        · simp only [if_true] at h
          cases ha : analyze_js_ast (Node.module ⟨0, 0⟩ out) <;> rw [ha] at h <;>
            simp [StateT.pure] at h <;> exact h.2.symm
      subst hs
      refine ⟨fun h0 => ?_, fun e h => (by rw [he] at h; cases h), fun ast hr => ⟨he, fun hc => ?_⟩⟩
      · have := l.1 h0
        rw [he] at this
        simp at this
      · obtain ⟨h3, h4⟩ := h2 he hc
        refine ⟨h3, h4, ?_⟩
        have ho : oks out := h1 hc (by simp)
        have hm : ast = Node.module ⟨0, 0⟩ out := by
          cases verify
          · simp [StateT.pure] at h
            subst hr
            cases h
            rfl
          · simp only [if_true] at h
            cases ha : analyze_js_ast (Node.module ⟨0, 0⟩ out) <;> rw [ha] at h <;>
              simp [StateT.pure] at h
            · subst hr; cases h; rfl
            · subst hr; cases h
        subst hm
        simpa using ho

theorem every_node_mono {p q : Node → Bool} (hpq : ∀ n, p n = true → q n = true) {n : Node}
    (h : every_node p n) : every_node q n := by
  induction h with
  | mk n hn _ ih => exact every_node.mk n (hpq n hn) ih

theorem template_ok_of_node_ok (n : Node) (h : node_ok n = true) : template_ok n = true := by
  simp only [node_ok, Bool.and_eq_true] at h
  exact h.1.1

theorem switch_ok_of_node_ok (n : Node) (h : node_ok n = true) : switch_ok n = true := by
  simp only [node_ok, Bool.and_eq_true] at h
  exact h.1.2

theorem try_ok_of_node_ok (n : Node) (h : node_ok n = true) : try_ok n = true := by
  simp only [node_ok, Bool.and_eq_true] at h
  exact h.2

theorem returns_pure {Q : Node → Prop} {n : Node} (h : Q n) : returns Q (pure n) := by
  intro s n1 s1 hr
  simp only [pure, StateT.pure, Option.some.injEq, Prod.mk.injEq] at hr
  rw [← hr.1]
  exact h

theorem returns_bind {α : Type} {Q : Node → Prop} {m : P α} {k : α → P Node}
    (hk : ∀ a, returns Q (k a)) : returns Q (m >>= k) := by
  intro s n1 s1 hr
  simp only [bind, StateT.bind] at hr
  cases hm : m s with
  | none => simp [hm] at hr
  | some r =>
    obtain ⟨a, s2⟩ := r
    simp only [hm, Option.bind] at hr
    exact hk a s2 n1 s1 hr

theorem returns_ite {Q : Node → Prop} {c : Prop} [Decidable c] {a b : P Node}
    (ha : returns Q a) (hb : returns Q b) : returns Q (if c then a else b) := by
  split
  · exact ha
  · exact hb

theorem returns_out_of_fuel {Q : Node → Prop} : returns Q out_of_fuel := by
  intro s n1 s1 hr
  simp [out_of_fuel] at hr

theorem returns_mono {Q R : Node → Prop} {m : P Node} (h : returns Q m)
    (hqr : ∀ n, Q n → R n) : returns R m :=
  fun s n s1 hr => hqr n (h s n s1 hr)

theorem returns_ADVANCE_OR_ERROR {Q : Node → Prop} {msg : String} {rv : Node} {k : P Node}
    (h0 : Q rv) (hk : returns Q k) : returns Q (ADVANCE_OR_ERROR msg rv k) := by
  intro s n s1 hr
  cases he : s.error with
  | some e =>
    rw [ADVANCE_OR_ERROR_error msg rv k (by simp [he])] at hr
    simp only [Option.some.injEq, Prod.mk.injEq] at hr
    rw [← hr.1]
    exact h0
  | none =>
    obtain ⟨b, s2, ha⟩ := advance_total s
    cases b with
    | true =>
      rw [ADVANCE_OR_ERROR_ok msg rv k he ha] at hr
      exact hk _ _ _ hr
    | false =>
      rw [ADVANCE_OR_ERROR_eof msg rv k he ha] at hr
      simp only [Option.some.injEq, Prod.mk.injEq] at hr
      rw [← hr.1]
      exact h0

theorem returns_EXPECT_SEVERAL {Q : Node → Prop} {types : List token_type} {rv : Node}
    {k : P Node} (h0 : Q rv) (hk : returns Q k) : returns Q (EXPECT_SEVERAL types rv k) := by
  intro s n s1 hr
  by_cases h : s.current_token.type ∈ types
  · rw [EXPECT_SEVERAL_ok types rv k h] at hr
    exact hk _ _ _ hr
  · rw [EXPECT_SEVERAL_fail types rv k h] at hr
    simp only [Option.some.injEq, Prod.mk.injEq] at hr
    rw [← hr.1]
    exact h0

theorem returns_EXPECT {Q : Node → Prop} {type : token_type} {rv : Node}
    {k : P Node} (h0 : Q rv) (hk : returns Q k) : returns Q (EXPECT type rv k) :=
  returns_EXPECT_SEVERAL h0 hk

theorem returns_ASSERT_PARSE_RESULT {Q : Node → Prop} {v : Node} {k : P Node}
    (h0 : Q .null) (hk : returns Q k) : returns Q (ASSERT_PARSE_RESULT v k) := by
  unfold ASSERT_PARSE_RESULT
  refine returns_bind fun e => ?_
  refine returns_ite ?_ hk
  exact returns_bind fun _ => returns_pure h0

theorem returns_SUBPARSE {Q : Node → Prop} {call : P Node} {k : Node → P Node}
    (h0 : Q .null) (hk : ∀ v, returns Q (k v)) : returns Q (SUBPARSE call k) := by
  unfold SUBPARSE
  exact returns_bind fun v => returns_ASSERT_PARSE_RESULT h0 (hk v)

/-- What `template_loop` returns keeps the strings and the expressions it was
given in front, and adds as many strings as expressions. -/
theorem template_loop_extends (ops : operators_def) : ∀ (fuel : Nat) (loc : source_location)
    (strs : List String) (exprs : List Node),
    returns (fun n => n = .null ∨ ∃ strs1 exprs1, strs1.length = exprs1.length ∧
        n = .template_literal loc (strs ++ strs1) (exprs ++ exprs1))
      ((parsers ops fuel).template_loop loc strs exprs)
  | 0, _, _, _ => returns_out_of_fuel
  | fuel + 1, loc, strs, exprs => by
    rw [parsers_succ_template_loop]
    unfold template_loop
    refine returns_ADVANCE_OR_ERROR (Or.inl rfl) ?_
    refine returns_SUBPARSE (Or.inl rfl) fun expr => ?_
    refine returns_ADVANCE_OR_ERROR (Or.inl rfl) ?_
    refine returns_EXPECT_SEVERAL (Or.inl rfl) ?_
    refine returns_bind fun tok => ?_
    refine returns_ite ?_ ?_
    · refine returns_mono (template_loop_extends ops fuel loc _ _) ?_
      rintro n (h | ⟨strs1, exprs1, hl, h⟩)
      · exact Or.inl h
      · refine Or.inr ⟨tok.text :: strs1, expr :: exprs1, by simp [hl], ?_⟩
        simpa using h
    · refine returns_bind fun _ => returns_pure ?_
      exact Or.inr ⟨[tok.text], [expr], rfl, rfl⟩

/-- C8: template literals.  In the tree of a successful parse (of a run that has
not used `front()` on an empty vector) every `template_literal` node holds one
more string than expressions.  The strings are in source order: the loop of
`parse_template_literal` starts from the text of the head and no expression, and
what it returns keeps the strings and expressions read so far in front; the
tokens of the template literal with the parts 1, 2, 3, 4, 5 give the strings
of the parts 1, 3, 5 and the expressions 2, 4. -/
theorem template_literal_sizes (ops : operators_def) (analyze_js_ast : Node → Option String)
    (fuel : Nat) (verify : Bool) (s : parser_base) (ast : Node) (s1 : parser_base) :
    (parse ops analyze_js_ast fuel verify s = some (.module ast, s1) → ¬ s1.crit →
      every_node template_ok ast) ∧
    (∀ self : parser_fns, parse_template_literal self s =
      self.template_loop s.current_token.loc [s.current_token.text] []
        (s.check (decide (s.current_token.type = .TEMPLATE_HEAD)) .template_head_token)) ∧
    (∀ loc strs exprs, returns (fun n => n = .null ∨ ∃ strs1 exprs1,
        strs1.length = exprs1.length ∧
        n = .template_literal loc (strs ++ strs1) (exprs ++ exprs1))
      ((parsers ops fuel).template_loop loc strs exprs)) ∧
    (match parse_fresh 40 (tokens [(.TEMPLATE_HEAD, "\x601$\x7b"), (.INT_LITERAL, "2"),
        (.TEMPLATE_MIDDLE, "\x7d3$\x7b"), (.INT_LITERAL, "4"),
        (.TEMPLATE_END, "\x7d5\x60")]) with
     | some (.module (.module _ [.template_literal _ ["\x601$\x7b", "\x7d3$\x7b", "\x7d5\x60"]
          [.int_literal _ "2", .int_literal _ "4"]])) => true
     | _ => false) = true := by
  refine ⟨fun h hc => ?_, fun self => rfl, template_loop_extends ops fuel, by decide!⟩
  obtain ⟨_, _, h3⟩ := parse_spec ops analyze_js_ast fuel verify s _ s1 h
  exact every_node_mono template_ok_of_node_ok ((h3 ast rfl).2 hc).2.2

theorem template_literal_sizes_witness :
    parse js_operators no_analysis 12 false (fresh_state (tokens [(.TEMPLATE_HEAD, "h"),
        (.INT_LITERAL, "2"), (.TEMPLATE_END, "e")])) =
      some (.module (.module ⟨0, 0⟩ [.template_literal ⟨1, 1⟩ ["h", "e"]
          [.int_literal ⟨1, 2⟩ "2"]]),
        { fresh_state [] with current_token := ⟨.TEMPLATE_END, "e", ⟨1, 3⟩⟩ }) ∧
    (¬ ({ fresh_state [] with current_token := ⟨.TEMPLATE_END, "e", ⟨1, 3⟩⟩ } :
        parser_base).crit) ∧
    every_node template_ok (.module ⟨0, 0⟩ [.template_literal ⟨1, 1⟩ ["h", "e"]
          [.int_literal ⟨1, 2⟩ "2"]]) :=
  ⟨by simp only [parse, parse_loop]; rfl, by simp [parser_base.crit, fresh_state],
    (template_literal_sizes js_operators no_analysis 12 false
      (fresh_state (tokens [(.TEMPLATE_HEAD, "h"), (.INT_LITERAL, "2"), (.TEMPLATE_END, "e")]))
      (.module ⟨0, 0⟩ [.template_literal ⟨1, 1⟩ ["h", "e"] [.int_literal ⟨1, 2⟩ "2"]])
      { fresh_state [] with current_token := ⟨.TEMPLATE_END, "e", ⟨1, 3⟩⟩ }).1 (by simp only [parse, parse_loop]; rfl) (by simp [parser_base.crit, fresh_state])⟩
/-- Switch defaults.  When the loop over the clauses of a switch has seen a
default clause (`hasDefault`) and meets the keyword `default`, it records the
error "Switch statement already has a default clause" at that keyword and returns
no node; so `switch ( 1 ) { default : 2 ; default : 3 ; }` is that error at the
second `default`.  In the tree of a successful parse (of a run that has not used
`front()` on an empty vector) every `switch_stmt` node holds at most one default
clause. -/
theorem second_default_is_rejected (ops : operators_def)
    (analyze_js_ast : Node → Option String) (fuel : Nat) (verify : Bool) (s : parser_base)
    (ast : Node) (s1 : parser_base) :
    (∀ (self : parser_fns) (loc : source_location) (value : Node) (clauses : List Node),
      s.current_token.type = .KEYWORD → get_keyword_type s.current_token = kw_default →
      switch_clauses_loop self loc value true clauses s =
        some (.null, { s with error := some ⟨"Switch statement already has a default clause",
          s.current_token.loc⟩ })) ∧
    (∀ (self : parser_fns) (loc : source_location) (value : Node) (clauses : List Node),
      s.current_token.type = .KEYWORD → get_keyword_type s.current_token = kw_default →
      switch_clauses_loop self loc value false clauses s =
        ADVANCE_OR_ERROR "Unexpected EOF after default" .null
          (EXPECT .COLON .null
            (ADVANCE_OR_ERROR "Unexpected EOF after colon (switch clause)" .null
              (self.switch_stmts_loop loc value true clauses
                (.switch_clause s.current_token.loc [])))) s) ∧
    (parse ops analyze_js_ast fuel verify s = some (.module ast, s1) → ¬ s1.crit →
      every_node switch_ok ast) ∧
    parse_fresh 40 (tokens [(.KEYWORD, "switch"), (.PAREN_OPEN, "("), (.INT_LITERAL, "1"),
        (.PAREN_CLOSE, ")"), (.BRACE_OPEN, "\x7b"), (.KEYWORD, "default"), (.COLON, ":"),
        (.INT_LITERAL, "2"), (.SEMICOLON, ";"), (.KEYWORD, "default"), (.COLON, ":"),
        (.INT_LITERAL, "3"), (.SEMICOLON, ";"), (.BRACE_CLOSE, "\x7d")]) =
      some (.error ⟨"Switch statement already has a default clause", ⟨1, 10⟩⟩) := by
  refine ⟨fun self loc value clauses h1 h2 => ?_, fun self loc value clauses h1 h2 => ?_,
    fun h hc => ?_, is_error_eq (by decide!)⟩
  · unfold switch_clauses_loop
    rw [EXPECT_SEVERAL_ok _ _ _ (by simp [h1])]
    simp [current_token, h1, h2, set_error]
  · unfold switch_clauses_loop
    rw [EXPECT_SEVERAL_ok _ _ _ (by simp [h1])]
    simp [current_token, h1, h2]
  · obtain ⟨_, _, h3⟩ := parse_spec ops analyze_js_ast fuel verify s _ s1 h
    exact every_node_mono switch_ok_of_node_ok ((h3 ast rfl).2 hc).2.2

theorem second_default_is_rejected_witness :
    (⟨.KEYWORD, "default", ⟨1, 1⟩⟩ : token).type = .KEYWORD ∧
    get_keyword_type ⟨.KEYWORD, "default", ⟨1, 1⟩⟩ = kw_default ∧
    switch_clauses_loop (parsers js_operators 0) ⟨0, 0⟩ .null true []
        { fresh_state [] with current_token := ⟨.KEYWORD, "default", ⟨1, 1⟩⟩ } =
      some (.null, { fresh_state [] with
        current_token := ⟨.KEYWORD, "default", ⟨1, 1⟩⟩,
        error := some ⟨"Switch statement already has a default clause", ⟨1, 1⟩⟩ }) ∧
    parse js_operators no_analysis 12 false (fresh_state (tokens [(.KEYWORD, "switch"),
        (.PAREN_OPEN, "("), (.INT_LITERAL, "1"), (.PAREN_CLOSE, ")"), (.BRACE_OPEN, "\x7b"),
        (.KEYWORD, "default"), (.COLON, ":"), (.BRACE_CLOSE, "\x7d")])) =
      some (.module (.module ⟨0, 0⟩ [.switch_stmt ⟨1, 1⟩ (.int_literal ⟨1, 3⟩ "1")
          [.switch_clause ⟨1, 6⟩ []]]),
        { fresh_state [] with current_token := ⟨.BRACE_CLOSE, "\x7d", ⟨1, 8⟩⟩ }) ∧
    (¬ ({ fresh_state [] with current_token := ⟨.BRACE_CLOSE, "\x7d", ⟨1, 8⟩⟩ } :
        parser_base).crit) ∧
    every_node switch_ok (.module ⟨0, 0⟩ [.switch_stmt ⟨1, 1⟩ (.int_literal ⟨1, 3⟩ "1")
          [.switch_clause ⟨1, 6⟩ []]]) :=
  ⟨rfl, by decide,
    (second_default_is_rejected js_operators no_analysis 0 false
      { fresh_state [] with current_token := ⟨.KEYWORD, "default", ⟨1, 1⟩⟩ } .null
      (fresh_state [])).1 (parsers js_operators 0) ⟨0, 0⟩ .null [] rfl (by decide),
    by simp only [parse, parse_loop]; rfl, by simp [parser_base.crit, fresh_state],
    (second_default_is_rejected js_operators no_analysis 12 false
      (fresh_state (tokens [(.KEYWORD, "switch"),
        (.PAREN_OPEN, "("), (.INT_LITERAL, "1"), (.PAREN_CLOSE, ")"), (.BRACE_OPEN, "\x7b"),
        (.KEYWORD, "default"), (.COLON, ":"), (.BRACE_CLOSE, "\x7d")]))
      (.module ⟨0, 0⟩ [.switch_stmt ⟨1, 1⟩ (.int_literal ⟨1, 3⟩ "1") [.switch_clause ⟨1, 6⟩ []]])
      { fresh_state [] with current_token := ⟨.BRACE_CLOSE, "\x7d", ⟨1, 8⟩⟩ }).2.2.1
      (by simp only [parse, parse_loop]; rfl) (by simp [parser_base.crit, fresh_state])⟩
/-- In the tree of a successful parse (of a run that has not used `front()` on an
empty vector) every `try_stmt` node has a catch block or a finally block; and
`try { }` alone, two catch clauses, a finally followed by a catch, and two
finally clauses are parser errors. -/
theorem try_stmt_has_handler (ops : operators_def) (analyze_js_ast : Node → Option String)
    (fuel : Nat) (verify : Bool) (s : parser_base) (ast : Node) (s1 : parser_base) :
    (parse ops analyze_js_ast fuel verify s = some (.module ast, s1) → ¬ s1.crit →
      every_node try_ok ast) ∧
    parse_fresh 40 (tokens [(.KEYWORD, "try"), (.BRACE_OPEN, "\x7b"),
        (.BRACE_CLOSE, "\x7d")]) =
      some (.error ⟨"Unexpected EOF after try \x7b\x7d", ⟨0, 0⟩⟩) ∧
    parse_fresh 40 (tokens [(.KEYWORD, "try"), (.BRACE_OPEN, "\x7b"), (.BRACE_CLOSE, "\x7d"),
        (.KEYWORD, "catch"), (.PAREN_OPEN, "("), (.IDENTIFIER, "e1"), (.PAREN_CLOSE, ")"),
        (.BRACE_OPEN, "\x7b"), (.BRACE_CLOSE, "\x7d"),
        (.KEYWORD, "catch"), (.PAREN_OPEN, "("), (.IDENTIFIER, "e2"), (.PAREN_CLOSE, ")"),
        (.BRACE_OPEN, "\x7b"), (.BRACE_CLOSE, "\x7d")]) =
      some (.error ⟨"Unexpected token after statement: PAREN_OPEN", ⟨1, 11⟩⟩) ∧
    parse_fresh 40 (tokens [(.KEYWORD, "try"), (.BRACE_OPEN, "\x7b"), (.BRACE_CLOSE, "\x7d"),
        (.KEYWORD, "finally"), (.BRACE_OPEN, "\x7b"), (.BRACE_CLOSE, "\x7d"),
        (.KEYWORD, "catch"), (.PAREN_OPEN, "("), (.IDENTIFIER, "e"), (.PAREN_CLOSE, ")"),
        (.BRACE_OPEN, "\x7b"), (.BRACE_CLOSE, "\x7d")]) =
      some (.error ⟨"Unexpected token after statement: KEYWORD", ⟨1, 7⟩⟩) ∧
    parse_fresh 40 (tokens [(.KEYWORD, "try"), (.BRACE_OPEN, "\x7b"), (.BRACE_CLOSE, "\x7d"),
        (.KEYWORD, "finally"), (.BRACE_OPEN, "\x7b"), (.BRACE_CLOSE, "\x7d"),
        (.KEYWORD, "finally"), (.BRACE_OPEN, "\x7b"), (.BRACE_CLOSE, "\x7d")]) =
      some (.error ⟨"Unexpected token after statement: KEYWORD", ⟨1, 7⟩⟩) := by
  refine ⟨fun h hc => ?_, is_error_eq (by decide!), is_error_eq (by decide!),
    is_error_eq (by decide!), is_error_eq (by decide!)⟩
  obtain ⟨_, _, h3⟩ := parse_spec ops analyze_js_ast fuel verify s _ s1 h
  exact every_node_mono try_ok_of_node_ok ((h3 ast rfl).2 hc).2.2

/-- C10: the code accepts a try statement that is not of the shape `try` block,
at most one `catch (id)` block, at most one `finally` block.  The tokens
`try { } catch ( e ) { } catch` parse to a module holding the try statement: after
the catch block `parse_try_stmt` advances to look for `finally`, and a token that
is not `finally` (here a second `catch` keyword) is neither rejected nor pushed
back.  The same holds when a `;` follows. -/
theorem stray_catch_keyword_is_accepted :
    (match parse_fresh 40 (tokens [(.KEYWORD, "try"), (.BRACE_OPEN, "\x7b"),
        (.BRACE_CLOSE, "\x7d"), (.KEYWORD, "catch"), (.PAREN_OPEN, "("), (.IDENTIFIER, "e"),
        (.PAREN_CLOSE, ")"), (.BRACE_OPEN, "\x7b"), (.BRACE_CLOSE, "\x7d"),
        (.KEYWORD, "catch")]) with
     | some (.module (.module _ [.try_stmt _ (.block _ []) (some (.catch_node _ "e"
          (.block _ []))) none])) => true
     | _ => false) = true ∧
    (match parse_fresh 40 (tokens [(.KEYWORD, "try"), (.BRACE_OPEN, "\x7b"),
        (.BRACE_CLOSE, "\x7d"), (.KEYWORD, "catch"), (.PAREN_OPEN, "("), (.IDENTIFIER, "e"),
        (.PAREN_CLOSE, ")"), (.BRACE_OPEN, "\x7b"), (.BRACE_CLOSE, "\x7d"),
        (.KEYWORD, "catch"), (.SEMICOLON, ";")]) with
     | some (.module (.module _ [.try_stmt _ (.block _ []) (some (.catch_node _ "e"
          (.block _ []))) none])) => true
     | _ => false) = true :=
  ⟨by decide!, by decide!⟩

/-- C11: the code accepts an arrow parameter that is not a bare identifier.  The
tokens `( ( a ) ) => 1` parse to an arrow function with the parameter `a`, and
`( a , ( b ) ) => 1` to one with the parameters `a`, `b`: the check of the list
looks at the tree of an entry, and the tree of a parenthesized identifier is the
identifier.  An entry whose tree is not an identifier is rejected at its first
token: `( a , 1 , b . c ) => 1` is the error at `1`. -/
theorem parenthesized_arrow_parameter_is_accepted :
    (match parse_fresh 40 (tokens [(.PAREN_OPEN, "("), (.PAREN_OPEN, "("), (.IDENTIFIER, "a"),
        (.PAREN_CLOSE, ")"), (.PAREN_CLOSE, ")"), (.ARROW, "=>"), (.INT_LITERAL, "1")]) with
     | some (.module (.module _ [.arrow_function _ (.param_list _ ["a"] none)
          (.int_literal _ "1")])) => true
     | _ => false) = true ∧
    (match parse_fresh 40 (tokens [(.PAREN_OPEN, "("), (.IDENTIFIER, "a"), (.COMMA, ","),
        (.PAREN_OPEN, "("), (.IDENTIFIER, "b"), (.PAREN_CLOSE, ")"), (.PAREN_CLOSE, ")"),
        (.ARROW, "=>"), (.INT_LITERAL, "1")]) with
     | some (.module (.module _ [.arrow_function _ (.param_list _ ["a", "b"] none)
          (.int_literal _ "1")])) => true
     | _ => false) = true ∧
    parse_fresh 40 (tokens [(.PAREN_OPEN, "("), (.IDENTIFIER, "a"), (.COMMA, ","),
        (.INT_LITERAL, "1"), (.COMMA, ","), (.IDENTIFIER, "b"), (.DOT, "."),
        (.IDENTIFIER, "c"), (.PAREN_CLOSE, ")"), (.ARROW, "=>"), (.INT_LITERAL, "1")]) =
      some (.error ⟨"Invalid entry in arrow function param list", ⟨1, 4⟩⟩) :=
  ⟨by decide!, by decide!, is_error_eq (by decide!)⟩

theorem parse_block_or_obj_eq (self : parser_fns) (flag : Bool) (s : parser_base) :
    parse_block_or_obj self flag s = EXPECT .BRACE_OPEN .null self.parse_block s := rfl

/-- What `block_loop` returns is the block. -/
theorem block_loop_returns_block (ops : operators_def) : ∀ (fuel : Nat) (loc : source_location)
    (stmts : List Node),
    returns (fun n => n = .null ∨ ∃ stmts1, n = .block loc stmts1)
      ((parsers ops fuel).block_loop loc stmts)
  | 0, _, _ => returns_out_of_fuel
  | fuel + 1, loc, stmts => by
    rw [parsers_succ_block_loop]
    unfold block_loop
    refine returns_bind fun tok => ?_
    refine returns_ite ?_ (returns_pure (Or.inr ⟨_, rfl⟩))
    refine returns_bind fun _ => ?_
    refine returns_bind fun stmt => ?_
    refine returns_ADVANCE_OR_ERROR (Or.inl rfl) ?_
    exact block_loop_returns_block ops fuel loc _

/-- C16: block versus object literal.  `parse_block_or_obj` returns what `parse_block`
returns in the same state, whatever its flag; a statement that starts with a brace
is what `parse_block` returns, and that is a block or, on an error, no node, never
an object literal.  The tokens of `{}` give the empty block, and those of
`{ label: window, console }` a block holding a label statement. -/
theorem brace_statement_is_block (ops : operators_def) (fuel : Nat) (flag : Bool)
    (s : parser_base) :
    (parsers ops (fuel + 2)).parse_block_or_obj flag s = (parsers ops (fuel + 1)).parse_block s ∧
    (s.current_token.type = .BRACE_OPEN →
      (parsers ops (fuel + 3)).parse_statement s = (parsers ops (fuel + 1)).parse_block s) ∧
    (∀ n s1, (parsers ops fuel).parse_block s = some (n, s1) →
      n = .null ∨ ∃ loc stmts, n = .block loc stmts) ∧
    (match parse_fresh 40 (tokens [(.BRACE_OPEN, "\x7b"), (.BRACE_CLOSE, "\x7d")]) with
     | some (.module (.module _ [.block _ []])) => true
     | _ => false) = true ∧
    (match parse_fresh 40 (tokens [(.BRACE_OPEN, "\x7b"), (.IDENTIFIER, "label"),
        (.COLON, ":"), (.IDENTIFIER, "window"), (.COMMA, ","), (.IDENTIFIER, "console"),
        (.BRACE_CLOSE, "\x7d")]) with
     | some (.module (.module _ [.block _ [.label_stmt _ "label" (.bin_op_expr .comma_operator _
          (.identifier_expr _ "window") (.identifier_expr _ "console"))]])) => true
     | _ => false) = true := by
  have h1 : (parsers ops (fuel + 2)).parse_block_or_obj flag s =
      (parsers ops (fuel + 1)).parse_block s := by
    rw [parsers_succ_parse_block_or_obj, parse_block_or_obj_eq, parsers_succ_parse_block]
    by_cases hb : s.current_token.type = .BRACE_OPEN
    · rw [EXPECT_ok _ _ _ hb]
    · unfold parse_block
      rw [EXPECT_fail _ _ _ hb, EXPECT_fail _ _ _ hb]
  refine ⟨h1, fun hb => ?_, fun n s1 h => ?_, by decide!, by decide!⟩
  · rw [← h1, parsers_succ_parse_statement]
    unfold parse_statement
    simp only [P_bind_apply, current_token, Option.some_bind, hb, reduceCtorEq, if_false,
      if_true]
    rfl
  · cases fuel with
    | zero => simp [parsers, out_of_fuel] at h
    | succ fuel =>
      rw [parsers_succ_parse_block] at h
      have : returns (fun n => n = .null ∨ ∃ loc stmts, n = .block loc stmts)
          (parse_block (parsers ops fuel)) := by
        unfold parse_block
        refine returns_EXPECT (Or.inl rfl) ?_
        refine returns_bind fun tok => ?_
        refine returns_ADVANCE_OR_ERROR (Or.inl rfl) ?_
        refine returns_mono (block_loop_returns_block ops fuel tok.loc []) ?_
        rintro n (h | ⟨st, h⟩)
        · exact Or.inl h
        · exact Or.inr ⟨_, _, h⟩
      exact this s n s1 h

theorem brace_statement_is_block_witness :
    (⟨.BRACE_OPEN, "\x7b", ⟨1, 1⟩⟩ : token).type = .BRACE_OPEN ∧
    (parsers js_operators 3).parse_statement
        { fresh_state [] with current_token := ⟨.BRACE_OPEN, "\x7b", ⟨1, 1⟩⟩ } =
      (parsers js_operators 1).parse_block
        { fresh_state [] with current_token := ⟨.BRACE_OPEN, "\x7b", ⟨1, 1⟩⟩ } :=
  ⟨rfl, (brace_statement_is_block js_operators 0 false
    { fresh_state [] with current_token := ⟨.BRACE_OPEN, "\x7b", ⟨1, 1⟩⟩ }).2.1 rfl⟩

theorem check_true (s : parser_base) (v : violation) : s.check true v = s := rfl

theorem assert_that_ok {c : Prop} [Decidable c] (v : violation) (s : parser_base) (h : c) :
    assert_that c v s = some ((), s) := by
  simp [assert_that, h, check_true]

/-- C14: `new` disambiguation.  After the keyword `new`, when the next token is
not a dot, `parse_new_keyword` parses one atomic expression `A`.  If `A` is a call
expression the result is a `new_expr` with the callee of `A` as constructor and
the argument list of `A` as arguments; otherwise it is a `new_expr` with `A` as
constructor and no arguments.  So `new target ( 1 , 2 )` has the constructor
`target` and the arguments 1, 2, `new target ( )` an empty argument list, and
`new target` no arguments. -/
theorem new_disambiguation (self : parser_fns) (s s1 s2 : parser_base) (A : Node)
    (hk : s.current_token.type = .KEYWORD ∧ get_keyword_type s.current_token = kw_new)
    (he : s.error = none) (h1 : advance s = some (true, s1))
    (hd : s1.current_token.type ≠ .DOT)
    (hA : self.parse_atomic_expr s1 = some (A, s2)) (he2 : s2.error = none)
    (hA0 : A.isNull = false) :
    (∀ loc callee args, A = .call_expr loc callee args →
      parse_new_keyword self s =
        some (.new_expr s.current_token.loc callee (some args), s2)) ∧
    ((∀ loc callee args, A ≠ .call_expr loc callee args) →
      parse_new_keyword self s = some (.new_expr s.current_token.loc A none, s2)) ∧
    (match parse_fresh 40 (tokens [(.KEYWORD, "new"), (.IDENTIFIER, "target"),
        (.PAREN_OPEN, "("), (.INT_LITERAL, "1"), (.COMMA, ","), (.INT_LITERAL, "2"),
        (.PAREN_CLOSE, ")")]) with
     | some (.module (.module _ [.new_expr _ (.identifier_expr _ "target")
          (some (.argument_list _ [.int_literal _ "1", .int_literal _ "2"]))])) => true
     | _ => false) = true ∧
    (match parse_fresh 40 (tokens [(.KEYWORD, "new"), (.IDENTIFIER, "target"),
        (.PAREN_OPEN, "("), (.PAREN_CLOSE, ")")]) with
     | some (.module (.module _ [.new_expr _ (.identifier_expr _ "target")
          (some (.argument_list _ []))])) => true
     | _ => false) = true ∧
    (match parse_fresh 40 (tokens [(.KEYWORD, "new"), (.IDENTIFIER, "target")]) with
     | some (.module (.module _ [.new_expr _ (.identifier_expr _ "target") none])) => true
     | _ => false) = true := by
  have key : ∀ r, (assert_that (!A.isNull) .isa_null_node >>= fun _ =>
        match A with
        | .call_expr _ callee args =>
          (pure (Node.new_expr s.current_token.loc callee (some args)) : P Node)
        | _ => pure (Node.new_expr s.current_token.loc A none)) s2 = r →
      parse_new_keyword self s = r := by
    intro r hr
    unfold parse_new_keyword
    simp only [P_bind_apply, current_token, Option.some_bind, assert_that_ok _ _ hk]
    rw [ADVANCE_OR_ERROR_ok _ _ _ he h1]
    simp only [P_bind_apply, current_token, Option.some_bind, hd, if_false]
    rw [SUBPARSE_ok _ _ hA he2 hA0]
    exact hr
  refine ⟨fun loc callee args hc => key _ ?_, fun hn => key _ ?_, by decide!, by decide!,
    by decide!⟩
  · subst hc
    simp [assert_that, Node.isNull, check_true]
  · simp only [P_bind_apply, assert_that, hA0, Bool.not_false, decide_True, check_true,
      Option.some_bind]
    first
      | rfl
      | (split
         · exact absurd rfl (hn _ _ _)
         · rfl)

theorem new_disambiguation_witness :
    ((⟨.KEYWORD, "new", ⟨1, 1⟩⟩ : token).type = .KEYWORD ∧
      get_keyword_type ⟨.KEYWORD, "new", ⟨1, 1⟩⟩ = kw_new) ∧
    parse_new_keyword (parsers js_operators 6) { fresh_state (tokens_from 2
        [(.IDENTIFIER, "target")]) with current_token := ⟨.KEYWORD, "new", ⟨1, 1⟩⟩ } =
      some (.new_expr ⟨1, 1⟩ (.identifier_expr ⟨1, 2⟩ "target") none,
        { fresh_state [] with current_token := ⟨.IDENTIFIER, "target", ⟨1, 2⟩⟩ }) :=
  ⟨⟨rfl, by decide⟩,
    (new_disambiguation (parsers js_operators 6)
      { fresh_state (tokens_from 2 [(.IDENTIFIER, "target")]) with
        current_token := ⟨.KEYWORD, "new", ⟨1, 1⟩⟩ }
      { fresh_state [] with current_token := ⟨.IDENTIFIER, "target", ⟨1, 2⟩⟩ }
      { fresh_state [] with current_token := ⟨.IDENTIFIER, "target", ⟨1, 2⟩⟩ }
      (.identifier_expr ⟨1, 2⟩ "target") ⟨rfl, by decide⟩ rfl rfl (by decide) (by rfl) rfl
      rfl).2.1 (fun _ _ _ h => by cases h)⟩
theorem for_in_of_spec (self : parser_fns) (for_tok : token) (keyword : Option token)
    (s s1 s2 s3 s4 s5 s6 : parser_base) (iterable body : Node)
    (hv : s.current_token.type = .IDENTIFIER) (he : s.error = none)
    (h1 : advance s = some (true, s1))
    (hn : (s1.current_token.type = .IDENTIFIER ∧ s1.current_token.text = "of") ∨
      (s1.current_token.type = .KEYWORD ∧ get_keyword_type s1.current_token = kw_in))
    (h2 : advance s1 = some (true, s2))
    (hi : self.parse_expression true s2 = some (iterable, s3)) (he3 : s3.error = none)
    (hi0 : iterable.isNull = false)
    (h3 : advance s3 = some (true, s4)) (hp : s4.current_token.type = .PAREN_CLOSE)
    (h4 : advance s4 = some (true, s5))
    (hb : self.parse_statement s5 = some (body, s6)) (he6 : s6.error = none)
    (hb0 : body.isNull = false) :
    for_in_of self for_tok keyword s =
      some (if s1.current_token.type = .IDENTIFIER then
          .for_of for_tok.loc (keyword.map token.text) s.current_token.text iterable body
        else .for_in for_tok.loc (keyword.map token.text) s.current_token.text iterable body,
        s6) := by
  have e1 := advance_true_error h1
  have e2 := advance_true_error h2
  have e4 := advance_true_error h3
  have e5 := advance_true_error h4
  rw [he] at e1
  rw [e1] at e2
  rw [he3] at e4
  rw [e4] at e5
  unfold for_in_of
  simp only [P_bind_apply, current_token, Option.some_bind, hv, if_true]
  rw [ADVANCE_OR_ERROR_ok _ _ _ he h1]
  simp only [P_bind_apply, current_token, Option.some_bind]
  rcases hn with ⟨ha, hb1⟩ | ⟨ha, hb1⟩
  · simp only [ha, hb1, and_self, if_true]
    rw [ADVANCE_OR_ERROR_ok _ _ _ e1 h2, SUBPARSE_ok _ _ hi he3 hi0,
      ADVANCE_OR_ERROR_ok _ _ _ he3 h3, EXPECT_ok _ _ _ hp, ADVANCE_OR_ERROR_ok _ _ _ e4 h4,
      SUBPARSE_ok _ _ hb he6 hb0]
    rfl
  · simp only [ha, hb1, reduceCtorEq, false_and, if_false, and_self, if_true]
    rw [ADVANCE_OR_ERROR_ok _ _ _ e1 h2, SUBPARSE_ok _ _ hi he3 hi0,
      ADVANCE_OR_ERROR_ok _ _ _ he3 h3, EXPECT_ok _ _ _ hp, ADVANCE_OR_ERROR_ok _ _ _ e4 h4,
      SUBPARSE_ok _ _ hb he6 hb0]
    rfl

/-- C15: `for` disambiguation.  After `for (` and a `var`, `let` or `const`
keyword `k` followed by an identifier, `parse_for_stmt` goes on as `for_in_of`
with the keyword `k`, and after `for (` and a token that is no such keyword it
goes on with no keyword.  There, an identifier `v` followed by the identifier
token `of` gives a `for_of` node, and `v` followed by the keyword `in` a `for_in`
node; the node has the text of the keyword (none when no keyword was written),
the text of `v` as its one variable, the iterable expression and the body. -/
theorem for_disambiguation (self : parser_fns) (for_tok : token) (keyword : Option token)
    (s s1 s2 s3 s4 s5 s6 : parser_base) (iterable body : Node) :
    (s.current_token.type = .KEYWORD ∧ get_keyword_type s.current_token = kw_for →
      s.error = none → advance s = some (true, s1) → s1.current_token.type = .PAREN_OPEN →
      advance s1 = some (true, s2) →
      (s2.current_token.type = .KEYWORD ∧ is_var_decl_kw s2.current_token = true →
        advance s2 = some (true, s3) → s3.current_token.type = .IDENTIFIER →
        parse_for_stmt self s = for_in_of self s.current_token (some s2.current_token) s3) ∧
      (¬ (s2.current_token.type = .KEYWORD ∧ is_var_decl_kw s2.current_token = true) →
        parse_for_stmt self s = for_in_of self s.current_token none s2)) ∧
    (s.current_token.type = .IDENTIFIER → s.error = none → advance s = some (true, s1) →
      advance s1 = some (true, s2) →
      self.parse_expression true s2 = some (iterable, s3) → s3.error = none →
      iterable.isNull = false →
      advance s3 = some (true, s4) → s4.current_token.type = .PAREN_CLOSE →
      advance s4 = some (true, s5) →
      self.parse_statement s5 = some (body, s6) → s6.error = none → body.isNull = false →
      (s1.current_token.type = .IDENTIFIER ∧ s1.current_token.text = "of" →
        for_in_of self for_tok keyword s =
          some (.for_of for_tok.loc (keyword.map token.text) s.current_token.text iterable
            body, s6)) ∧
      (s1.current_token.type = .KEYWORD ∧ get_keyword_type s1.current_token = kw_in →
        for_in_of self for_tok keyword s =
          some (.for_in for_tok.loc (keyword.map token.text) s.current_token.text iterable
            body, s6))) ∧
    (match parse_fresh 40 (tokens [(.KEYWORD, "for"), (.PAREN_OPEN, "("), (.KEYWORD, "let"),
        (.IDENTIFIER, "v"), (.IDENTIFIER, "of"), (.IDENTIFIER, "x"), (.PAREN_CLOSE, ")"),
        (.INT_LITERAL, "1"), (.SEMICOLON, ";")]) with
     | some (.module (.module _ [.for_of _ (some "let") "v" (.identifier_expr _ "x")
          (.int_literal _ "1")])) => true
     | _ => false) = true ∧
    (match parse_fresh 40 (tokens [(.KEYWORD, "for"), (.PAREN_OPEN, "("),
        (.IDENTIFIER, "v"), (.KEYWORD, "in"), (.IDENTIFIER, "x"), (.PAREN_CLOSE, ")"),
        (.INT_LITERAL, "1"), (.SEMICOLON, ";")]) with
     | some (.module (.module _ [.for_in _ none "v" (.identifier_expr _ "x")
          (.int_literal _ "1")])) => true
     | _ => false) = true := by
  refine ⟨fun hk he h1 hp h2 => ⟨fun hkw h3 hid => ?_, fun hkw => ?_⟩,
    fun hv he h1 h2 hi he3 hi0 h3 hp h4 hb he6 hb0 => ⟨fun ho => ?_, fun hin => ?_⟩,
    by decide!, by decide!⟩
  · have e1 := advance_true_error h1
    have e2 := advance_true_error h2
    rw [he] at e1
    rw [e1] at e2
    unfold parse_for_stmt
    simp only [P_bind_apply, current_token, Option.some_bind, assert_that_ok _ _ hk]
    rw [ADVANCE_OR_ERROR_ok _ _ _ he h1, EXPECT_ok _ _ _ hp, ADVANCE_OR_ERROR_ok _ _ _ e1 h2]
    simp only [P_bind_apply, current_token, Option.some_bind, hkw, and_self, if_true]
    rw [ADVANCE_OR_ERROR_ok _ _ _ e2 h3, EXPECT_ok _ _ _ hid]
  · have e1 := advance_true_error h1
    rw [he] at e1
    unfold parse_for_stmt
    simp only [P_bind_apply, current_token, Option.some_bind, assert_that_ok _ _ hk]
    rw [ADVANCE_OR_ERROR_ok _ _ _ he h1, EXPECT_ok _ _ _ hp, ADVANCE_OR_ERROR_ok _ _ _ e1 h2]
    simp only [P_bind_apply, current_token, Option.some_bind, hkw, if_false]
  · rw [for_in_of_spec self for_tok keyword s s1 s2 s3 s4 s5 s6 iterable body hv he h1
      (Or.inl ho) h2 hi he3 hi0 h3 hp h4 hb he6 hb0]
    simp only [ho.1, if_true]
  · rw [for_in_of_spec self for_tok keyword s s1 s2 s3 s4 s5 s6 iterable body hv he h1
      (Or.inr hin) h2 hi he3 hi0 h3 hp h4 hb he6 hb0]
    simp only [hin.1, reduceCtorEq, if_false]

theorem for_disambiguation_witness :
    advance { fresh_state (tokens_from 2 [(.PAREN_OPEN, "("), (.KEYWORD, "let"),
        (.IDENTIFIER, "v")]) with current_token := ⟨.KEYWORD, "for", ⟨1, 1⟩⟩ } =
      some (true, { fresh_state (tokens_from 3 [(.KEYWORD, "let"), (.IDENTIFIER, "v")]) with
        current_token := ⟨.PAREN_OPEN, "(", ⟨1, 2⟩⟩ }) ∧
    advance { fresh_state (tokens_from 3 [(.KEYWORD, "let"), (.IDENTIFIER, "v")]) with
        current_token := ⟨.PAREN_OPEN, "(", ⟨1, 2⟩⟩ } =
      some (true, { fresh_state (tokens_from 4 [(.IDENTIFIER, "v")]) with
        current_token := ⟨.KEYWORD, "let", ⟨1, 3⟩⟩ }) ∧
    advance { fresh_state (tokens_from 4 [(.IDENTIFIER, "v")]) with
        current_token := ⟨.KEYWORD, "let", ⟨1, 3⟩⟩ } =
      some (true, { fresh_state [] with current_token := ⟨.IDENTIFIER, "v", ⟨1, 4⟩⟩ }) ∧
    parse_for_stmt (parsers js_operators 0)
        { fresh_state (tokens_from 2 [(.PAREN_OPEN, "("), (.KEYWORD, "let"),
          (.IDENTIFIER, "v")]) with current_token := ⟨.KEYWORD, "for", ⟨1, 1⟩⟩ } =
      for_in_of (parsers js_operators 0) ⟨.KEYWORD, "for", ⟨1, 1⟩⟩
        (some ⟨.KEYWORD, "let", ⟨1, 3⟩⟩)
        { fresh_state [] with current_token := ⟨.IDENTIFIER, "v", ⟨1, 4⟩⟩ } :=
  ⟨rfl, rfl, rfl,
    ((for_disambiguation (parsers js_operators 0) ⟨.KEYWORD, "for", ⟨1, 1⟩⟩ none
      { fresh_state (tokens_from 2 [(.PAREN_OPEN, "("), (.KEYWORD, "let"),
        (.IDENTIFIER, "v")]) with current_token := ⟨.KEYWORD, "for", ⟨1, 1⟩⟩ }
      { fresh_state (tokens_from 3 [(.KEYWORD, "let"), (.IDENTIFIER, "v")]) with
        current_token := ⟨.PAREN_OPEN, "(", ⟨1, 2⟩⟩ }
      { fresh_state (tokens_from 4 [(.IDENTIFIER, "v")]) with
        current_token := ⟨.KEYWORD, "let", ⟨1, 3⟩⟩ }
      { fresh_state [] with current_token := ⟨.IDENTIFIER, "v", ⟨1, 4⟩⟩ }
      (fresh_state []) (fresh_state []) (fresh_state []) .null .null).1
      ⟨rfl, by decide⟩ rfl rfl rfl rfl).1 ⟨rfl, by decide⟩ rfl rfl⟩
theorem rewind_advance_round_trip_aux (s : parser_base) (t : token)
    (ht : t.type ≠ .BLOCK_COMMENT ∧ t.type ≠ .LINE_COMMENT) :
    (∃ s1, rewind t s = some ((), s1) ∧ s1.current_token = t ∧
      s1.rewind_stack = s.current_token :: s.rewind_stack ∧ s1.lexer = s.lexer ∧
      s1.error = s.error ∧ s1.violations = s.violations ∧
      advance s1 = some (true, s)) ∧ True := by
  refine ⟨?_, trivial⟩
  simp [rewind, assert_that, parser_base.check, ht.1, ht.2, advance]

theorem advance_lexer_violations (l : List lexer_result) (s : parser_base) :
    (advance_lexer l s).2.violations = s.violations := by
  induction l generalizing s with
  | nil => rfl
  | cons r rest ih =>
    cases r with
    | error err => rfl
    | tok t =>
      simp only [advance_lexer]
      split
      · rw [ih]
      · rfl

theorem advance_true_violations {s s1 : parser_base} {b : Bool}
    (h : advance s = some (b, s1)) : s1.violations = s.violations := by
  unfold advance at h
  cases hst : s.rewind_stack with
  | cons t stack =>
    rw [hst] at h
    simp only [Option.some.injEq, Prod.mk.injEq] at h
    rw [← h.2]
  | nil =>
    rw [hst] at h
    simp only [Option.some.injEq] at h
    have := advance_lexer_violations s.lexer s
    rw [h] at this
    exact this

/-- What the terminator check returns is the statement it was given, or no node. -/
theorem statement_end_returns (stmt : Node) :
    returns (fun n => n = .null ∨ n = stmt) (statement_end stmt) := by
  unfold statement_end
  refine returns_ASSERT_PARSE_RESULT (Or.inl rfl) ?_
  refine returns_bind fun final_token => ?_
  refine returns_bind fun read_success => ?_
  refine returns_bind fun e => ?_
  refine returns_ite (returns_pure (Or.inl rfl)) ?_
  refine returns_ite ?_ (returns_pure (Or.inr rfl))
  refine returns_bind fun tok => ?_
  refine returns_ite ?_ ?_
  · exact returns_bind fun _ => returns_pure (Or.inl rfl)
  · refine returns_ite ?_ (returns_pure (Or.inr rfl))
    exact returns_bind fun _ => returns_pure (Or.inr rfl)

/-- Label look-ahead.  For a statement that starts with an identifier `x`,
`parse_statement` reads one token ahead.  If it is a colon, the statement after
the colon is parsed and the node passed to the terminator check is a
`label_stmt` with the text of `x` as label and that statement as child, so that
the node `parse_statement` returns, if any, is this `label_stmt`.  If it
is another token, `x` is made the current token again and the token read is
pushed back: the state then has the current token and the error of the state
before the look-ahead, its next `advance` returns that token and the state the
look-ahead had reached, and the statement is what `parse_expression` returns
from there, passed to the terminator check.  At the end of the input the
expression is parsed from the state as it is. -/
theorem label_look_ahead (self : parser_fns) (s s1 s2 s3 : parser_base) (follow : Node)
    (hx : s.current_token.type = .IDENTIFIER) :
    (advance s = some (true, s1) → s1.current_token.type = .COLON → s.error = none →
      advance s1 = some (true, s2) → self.parse_statement s2 = some (follow, s3) →
      s3.error = none → follow.isNull = false →
      parse_statement self s =
          statement_end (.label_stmt s1.current_token.loc s.current_token.text follow) s3 ∧
        ∀ n s4, parse_statement self s = some (n, s4) → n.isNull = false →
          n = .label_stmt s1.current_token.loc s.current_token.text follow) ∧
    (advance s = some (true, s1) → s1.current_token.type ≠ .COLON →
      ∃ s0, rewind s.current_token s1 = some ((), s0) ∧
        parse_statement self s = (self.parse_expression true >>= statement_end) s0 ∧
        s0.current_token = s.current_token ∧ s0.error = s.error ∧
        s0.violations = s.violations ∧ advance s0 = some (true, s1) ∧
        (s.rewind_stack ≠ [] → s0 = s)) ∧
    (advance s = some (false, s1) →
      parse_statement self s = (self.parse_expression true >>= statement_end) s1) ∧
    (match parse_fresh 40 (tokens [(.IDENTIFIER, "l"), (.COLON, ":"), (.IDENTIFIER, "a")]) with
     | some (.module (.module _ [.label_stmt _ "l" (.identifier_expr _ "a")])) => true
     | _ => false) = true ∧
    (match parse_fresh 40 (tokens [(.IDENTIFIER, "a"), (.DOT, "."), (.IDENTIFIER, "b"),
        (.SEMICOLON, ";"), (.IDENTIFIER, "c")]) with
     | some (.module (.module _ [.member_access _ (.identifier_expr _ "a") "b",
          .identifier_expr _ "c"])) => true
     | _ => false) = true := by
  have hcomment : s.current_token.type ≠ .BLOCK_COMMENT ∧
      s.current_token.type ≠ .LINE_COMMENT := by
    rw [hx]
    exact ⟨by decide, by decide⟩
  refine ⟨fun h1 hc he h2 hf he3 hf0 => ?_, fun h1 hc => ?_, fun h1 => ?_, by decide!,
    by decide!⟩
  · have e1 := advance_true_error h1
    rw [he] at e1
    unfold parse_statement
    simp only [P_bind_apply, current_token, Option.some_bind, hx, reduceCtorEq, if_false,
      if_true, h1, Bool.not_true, Bool.false_eq_true, hc]
    rw [ADVANCE_OR_ERROR_ok _ _ _ e1 h2, SUBPARSE_ok _ _ hf he3 hf0]
    refine ⟨rfl, fun n s4 hr hn => ?_⟩
    rcases statement_end_returns _ _ _ _ hr with h | h
    · rw [h] at hn
      cases hn
    · exact h
  · obtain ⟨⟨s0, r1, r2, r3, r4, r5, r6, r7⟩, _⟩ := rewind_advance_round_trip_aux s1
      s.current_token hcomment
    refine ⟨s0, r1, ?_, r2, ?_, ?_, r7, fun hne => ?_⟩
    · unfold parse_statement
      simp only [P_bind_apply, current_token, Option.some_bind, hx, reduceCtorEq, if_false,
        if_true, h1, Bool.not_true, Bool.false_eq_true, hc, r1]
    · rw [r5, advance_true_error h1]
    · rw [r6, advance_true_violations h1]
    · cases hst : s.rewind_stack with
      | nil => exact absurd hst hne
      | cons t rest =>
        have h1b : advance s =
            some (true, { s with current_token := t, rewind_stack := rest }) := by
          simp [advance, hst]
        rw [h1b] at h1
        simp only [Option.some.injEq, Prod.mk.injEq, true_and] at h1
        subst h1
        cases s0
        cases s
        simp only at r2 r3 r4 r5 r6 hst
        simp only [r2, r3, r4, r5, r6, hst]
  · unfold parse_statement
    simp only [P_bind_apply, current_token, Option.some_bind, hx, reduceCtorEq, if_false,
      if_true, h1, Bool.not_false]

theorem label_look_ahead_witness :
    (⟨.IDENTIFIER, "a", ⟨1, 1⟩⟩ : token).type = .IDENTIFIER ∧
    advance { fresh_state (tokens_from 2 [(.SEMICOLON, ";")]) with
        current_token := ⟨.IDENTIFIER, "a", ⟨1, 1⟩⟩ } =
      some (true, { fresh_state [] with current_token := ⟨.SEMICOLON, ";", ⟨1, 2⟩⟩ }) ∧
    (⟨.SEMICOLON, ";", ⟨1, 2⟩⟩ : token).type ≠ .COLON ∧
    ∃ s0, rewind ⟨.IDENTIFIER, "a", ⟨1, 1⟩⟩
          { fresh_state [] with current_token := ⟨.SEMICOLON, ";", ⟨1, 2⟩⟩ } = some ((), s0) ∧
      parse_statement (parsers js_operators 0)
          { fresh_state (tokens_from 2 [(.SEMICOLON, ";")]) with
            current_token := ⟨.IDENTIFIER, "a", ⟨1, 1⟩⟩ } =
        ((parsers js_operators 0).parse_expression true >>= statement_end) s0 ∧
      s0.current_token = ⟨.IDENTIFIER, "a", ⟨1, 1⟩⟩ ∧
      s0.error = none ∧ s0.violations = [] ∧
      advance s0 =
        some (true, { fresh_state [] with current_token := ⟨.SEMICOLON, ";", ⟨1, 2⟩⟩ }) ∧
      (([] : List token) ≠ [] → s0 = { fresh_state (tokens_from 2 [(.SEMICOLON, ";")]) with
        current_token := ⟨.IDENTIFIER, "a", ⟨1, 1⟩⟩ }) :=
  ⟨rfl, rfl, by decide,
    (label_look_ahead (parsers js_operators 0)
      { fresh_state (tokens_from 2 [(.SEMICOLON, ";")]) with
        current_token := ⟨.IDENTIFIER, "a", ⟨1, 1⟩⟩ }
      { fresh_state [] with current_token := ⟨.SEMICOLON, ";", ⟨1, 2⟩⟩ }
      (fresh_state []) (fresh_state []) .null rfl).2.1 rfl (by decide)⟩

theorem run_le_refl {α : Type} (m : P α) : run_le m m := fun _ _ h => h

theorem run_le_out_of_fuel {α : Type} (m : P α) : run_le out_of_fuel m := by
  intro s r h
  simp [out_of_fuel] at h

theorem run_le_bind {α β : Type} {m m2 : P α} {k k2 : α → P β} (hm : run_le m m2)
    (hk : ∀ a, run_le (k a) (k2 a)) : run_le (m >>= k) (m2 >>= k2) := by
  intro s r h
  simp only [bind, StateT.bind] at h ⊢
  cases hx : m s with
  | none => simp [hx] at h
  | some x =>
    obtain ⟨a, s1⟩ := x
    rw [hm s _ hx]
    simp only [hx, Option.bind] at h ⊢
    exact hk a s1 r h

theorem run_le_ite {α : Type} {c : Prop} [Decidable c] {a a2 b b2 : P α} (ha : run_le a a2)
    (hb : run_le b b2) : run_le (if c then a else b) (if c then a2 else b2) := by
  split
  · exact ha
  · exact hb

theorem run_le_ADVANCE_OR_ERROR {α : Type} {msg : String} {rv : α} {k k2 : P α}
    (hk : run_le k k2) : run_le (ADVANCE_OR_ERROR msg rv k) (ADVANCE_OR_ERROR msg rv k2) := by
  intro s r h
  cases he : s.error with
  | some e =>
    rw [ADVANCE_OR_ERROR_error msg rv _ (by simp [he])] at h ⊢
    exact h
  | none =>
    obtain ⟨b, s2, ha⟩ := advance_total s
    cases b with
    | true =>
      rw [ADVANCE_OR_ERROR_ok msg rv _ he ha] at h ⊢
      exact hk _ _ h
    | false =>
      rw [ADVANCE_OR_ERROR_eof msg rv _ he ha] at h ⊢
      exact h

theorem run_le_EXPECT_SEVERAL {α : Type} {types : List token_type} {rv : α} {k k2 : P α}
    (hk : run_le k k2) : run_le (EXPECT_SEVERAL types rv k) (EXPECT_SEVERAL types rv k2) := by
  intro s r h
  by_cases hc : s.current_token.type ∈ types
  · rw [EXPECT_SEVERAL_ok types rv _ hc] at h ⊢
    exact hk _ _ h
  · rw [EXPECT_SEVERAL_fail types rv _ hc] at h ⊢
    exact h

theorem run_le_EXPECT {α : Type} {type : token_type} {rv : α} {k k2 : P α}
    (hk : run_le k k2) : run_le (EXPECT type rv k) (EXPECT type rv k2) :=
  run_le_EXPECT_SEVERAL hk

theorem run_le_ASSERT_PARSE_RESULT {v : Node} {k k2 : P Node}
    (hk : run_le k k2) : run_le (ASSERT_PARSE_RESULT v k) (ASSERT_PARSE_RESULT v k2) := by
  unfold ASSERT_PARSE_RESULT
  refine run_le_bind (run_le_refl _) (fun e => ?_)
  exact run_le_ite (run_le_refl _) hk

theorem run_le_SUBPARSE {call call2 : P Node} {k k2 : Node → P Node}
    (hc : run_le call call2) (hk : ∀ v, run_le (k v) (k2 v)) :
    run_le (SUBPARSE call k) (SUBPARSE call2 k2) := by
  unfold SUBPARSE
  exact run_le_bind hc (fun v => run_le_ASSERT_PARSE_RESULT (hk v))

theorem mono_parse_statement {a b : parser_fns} (h : fns_le a b) :
    run_le (parse_statement a) (parse_statement b) := by
  unfold parse_statement
  with_reducible refine run_le_bind ?_ (fun _ => ?_)
  with_reducible exact run_le_refl _
  with_reducible refine run_le_ite ?_ ?_
  with_reducible exact run_le_refl _
  with_reducible refine run_le_ite ?_ ?_
  with_reducible exact h.parse_block_or_obj _
  with_reducible refine run_le_ite ?_ ?_
  with_reducible refine run_le_bind ?_ (fun _ => ?_)
  with_reducible exact h.parse_keyword_stmt
  with_reducible exact run_le_refl _
  with_reducible refine run_le_ite ?_ ?_
  with_reducible refine run_le_bind ?_ (fun _ => ?_)
  with_reducible exact run_le_refl _
  with_reducible refine run_le_ite ?_ ?_
  with_reducible refine run_le_bind ?_ (fun _ => ?_)
  with_reducible exact h.parse_expression _
  with_reducible exact run_le_refl _
  with_reducible refine run_le_bind ?_ (fun _ => ?_)
  with_reducible exact run_le_refl _
  with_reducible refine run_le_ite ?_ ?_
  with_reducible refine run_le_ADVANCE_OR_ERROR ?_
  with_reducible refine run_le_SUBPARSE ?_ (fun _ => ?_)
  with_reducible exact h.parse_statement
  with_reducible exact run_le_refl _
  with_reducible refine run_le_bind ?_ (fun _ => ?_)
  with_reducible exact run_le_refl _
  with_reducible refine run_le_bind ?_ (fun _ => ?_)
  with_reducible exact h.parse_expression _
  with_reducible exact run_le_refl _
  with_reducible refine run_le_bind ?_ (fun _ => ?_)
  with_reducible exact h.parse_expression _
  with_reducible exact run_le_refl _

theorem mono_parse_keyword_stmt {a b : parser_fns} (h : fns_le a b) :
    run_le (parse_keyword_stmt a) (parse_keyword_stmt b) := by
  unfold parse_keyword_stmt
  with_reducible refine run_le_bind ?_ (fun _ => ?_)
  with_reducible exact run_le_refl _
  with_reducible refine run_le_bind ?_ (fun _ => ?_)
  with_reducible exact run_le_refl _
  with_reducible refine run_le_ite ?_ ?_
  with_reducible exact h.parse_function_stmt
  with_reducible refine run_le_ite ?_ ?_
  with_reducible exact h.parse_if_stmt
  with_reducible refine run_le_ite ?_ ?_
  with_reducible exact h.parse_do_while
  with_reducible refine run_le_ite ?_ ?_
  with_reducible exact h.parse_while_stmt
  with_reducible refine run_le_ite ?_ ?_
  with_reducible exact h.parse_for_stmt
  with_reducible refine run_le_ite ?_ ?_
  with_reducible exact h.parse_switch_stmt
  with_reducible refine run_le_ite ?_ ?_
  with_reducible exact run_le_refl _
  with_reducible refine run_le_ite ?_ ?_
  with_reducible exact run_le_refl _
  with_reducible refine run_le_ite ?_ ?_
  with_reducible exact h.parse_return_stmt
  with_reducible refine run_le_ite ?_ ?_
  with_reducible exact h.parse_throw_stmt
  with_reducible refine run_le_ite ?_ ?_
  with_reducible exact h.parse_try_stmt
  with_reducible refine run_le_ite ?_ ?_
  with_reducible exact run_le_refl _
  with_reducible refine run_le_ite ?_ ?_
  with_reducible exact run_le_refl _
  with_reducible refine run_le_ite ?_ ?_
  with_reducible exact run_le_refl _
  with_reducible refine run_le_ite ?_ ?_
  with_reducible exact h.parse_call _
  with_reducible refine run_le_ite ?_ ?_
  with_reducible exact h.parse_var_decl
  with_reducible exact h.parse_keyword_expr

theorem mono_parse_keyword_expr {a b : parser_fns} (h : fns_le a b) :
    run_le (parse_keyword_expr a) (parse_keyword_expr b) := by
  unfold parse_keyword_expr
  with_reducible refine run_le_bind ?_ (fun _ => ?_)
  with_reducible exact run_le_refl _
  with_reducible refine run_le_bind ?_ (fun _ => ?_)
  with_reducible exact run_le_refl _
  with_reducible refine run_le_ite ?_ ?_
  with_reducible exact h.parse_unary_or_atomic_expr
  with_reducible exact h.parse_atomic_keyword_expr

theorem mono_parse_if_stmt {a b : parser_fns} (h : fns_le a b) :
    run_le (parse_if_stmt a) (parse_if_stmt b) := by
  unfold parse_if_stmt
  with_reducible refine run_le_bind ?_ (fun _ => ?_)
  with_reducible exact run_le_refl _
  with_reducible refine run_le_bind ?_ (fun _ => ?_)
  with_reducible exact run_le_refl _
  with_reducible refine run_le_ADVANCE_OR_ERROR ?_
  with_reducible refine run_le_EXPECT ?_
  with_reducible refine run_le_ADVANCE_OR_ERROR ?_
  with_reducible refine run_le_SUBPARSE ?_ (fun _ => ?_)
  with_reducible exact h.parse_expression _
  with_reducible refine run_le_ADVANCE_OR_ERROR ?_
  with_reducible refine run_le_EXPECT ?_
  with_reducible refine run_le_ADVANCE_OR_ERROR ?_
  with_reducible refine run_le_SUBPARSE ?_ (fun _ => ?_)
  with_reducible exact h.parse_statement
  with_reducible refine run_le_bind ?_ (fun _ => ?_)
  with_reducible exact run_le_refl _
  with_reducible refine run_le_bind ?_ (fun _ => ?_)
  with_reducible exact run_le_refl _
  with_reducible refine run_le_ite ?_ ?_
  with_reducible refine run_le_bind ?_ (fun _ => ?_)
  with_reducible exact run_le_refl _
  with_reducible refine run_le_ite ?_ ?_
  with_reducible refine run_le_ADVANCE_OR_ERROR ?_
  with_reducible refine run_le_SUBPARSE ?_ (fun _ => ?_)
  with_reducible exact h.parse_statement
  with_reducible exact run_le_refl _
  with_reducible exact run_le_refl _
  with_reducible exact run_le_refl _

theorem mono_parse_do_while {a b : parser_fns} (h : fns_le a b) :
    run_le (parse_do_while a) (parse_do_while b) := by
  unfold parse_do_while
  with_reducible refine run_le_bind ?_ (fun _ => ?_)
  with_reducible exact run_le_refl _
  with_reducible refine run_le_bind ?_ (fun _ => ?_)
  with_reducible exact run_le_refl _
  with_reducible refine run_le_ADVANCE_OR_ERROR ?_
  with_reducible refine run_le_SUBPARSE ?_ (fun _ => ?_)
  with_reducible exact h.parse_statement
  with_reducible refine run_le_ADVANCE_OR_ERROR ?_
  with_reducible refine run_le_EXPECT ?_
  with_reducible refine run_le_bind ?_ (fun _ => ?_)
  with_reducible exact run_le_refl _
  with_reducible refine run_le_ite ?_ ?_
  with_reducible exact run_le_refl _
  with_reducible refine run_le_ADVANCE_OR_ERROR ?_
  with_reducible refine run_le_EXPECT ?_
  with_reducible refine run_le_ADVANCE_OR_ERROR ?_
  with_reducible refine run_le_SUBPARSE ?_ (fun _ => ?_)
  with_reducible exact h.parse_expression _
  with_reducible exact run_le_refl _

theorem mono_parse_while_stmt {a b : parser_fns} (h : fns_le a b) :
    run_le (parse_while_stmt a) (parse_while_stmt b) := by
  unfold parse_while_stmt
  with_reducible refine run_le_bind ?_ (fun _ => ?_)
  with_reducible exact run_le_refl _
  with_reducible refine run_le_bind ?_ (fun _ => ?_)
  with_reducible exact run_le_refl _
  with_reducible refine run_le_ADVANCE_OR_ERROR ?_
  with_reducible refine run_le_EXPECT ?_
  with_reducible refine run_le_ADVANCE_OR_ERROR ?_
  with_reducible refine run_le_SUBPARSE ?_ (fun _ => ?_)
  with_reducible exact h.parse_expression _
  with_reducible refine run_le_ADVANCE_OR_ERROR ?_
  with_reducible refine run_le_EXPECT ?_
  with_reducible refine run_le_ADVANCE_OR_ERROR ?_
  with_reducible refine run_le_SUBPARSE ?_ (fun _ => ?_)
  with_reducible exact h.parse_statement
  with_reducible exact run_le_refl _

theorem mono_for_c_style {a b : parser_fns} (h : fns_le a b) (for_tok : token) (keyword : Option token) :
    run_le (for_c_style a for_tok keyword) (for_c_style b for_tok keyword) := by
  unfold for_c_style
  focus with_reducible (show run_le _ _; split)
  with_reducible refine run_le_bind ?_ (fun _ => ?_)
  with_reducible exact run_le_refl _
  with_reducible refine run_le_SUBPARSE ?_ (fun _ => ?_)
  with_reducible exact h.parse_statement
  with_reducible refine run_le_EXPECT ?_
  with_reducible refine run_le_ADVANCE_OR_ERROR ?_
  with_reducible refine run_le_SUBPARSE ?_ (fun _ => ?_)
  with_reducible exact h.parse_expression _
  with_reducible refine run_le_ADVANCE_OR_ERROR ?_
  with_reducible refine run_le_EXPECT ?_
  with_reducible refine run_le_ADVANCE_OR_ERROR ?_
  with_reducible refine run_le_SUBPARSE ?_ (fun _ => ?_)
  with_reducible exact h.parse_statement
  with_reducible refine run_le_ADVANCE_OR_ERROR ?_
  with_reducible refine run_le_EXPECT ?_
  with_reducible refine run_le_ADVANCE_OR_ERROR ?_
  with_reducible refine run_le_SUBPARSE ?_ (fun _ => ?_)
  with_reducible exact h.parse_statement
  with_reducible exact run_le_refl _
  with_reducible refine run_le_bind ?_ (fun _ => ?_)
  with_reducible exact run_le_refl _
  with_reducible refine run_le_SUBPARSE ?_ (fun _ => ?_)
  with_reducible exact h.parse_statement
  with_reducible refine run_le_EXPECT ?_
  with_reducible refine run_le_ADVANCE_OR_ERROR ?_
  with_reducible refine run_le_SUBPARSE ?_ (fun _ => ?_)
  with_reducible exact h.parse_expression _
  with_reducible refine run_le_ADVANCE_OR_ERROR ?_
  with_reducible refine run_le_EXPECT ?_
  with_reducible refine run_le_ADVANCE_OR_ERROR ?_
  with_reducible refine run_le_SUBPARSE ?_ (fun _ => ?_)
  with_reducible exact h.parse_statement
  with_reducible refine run_le_ADVANCE_OR_ERROR ?_
  with_reducible refine run_le_EXPECT ?_
  with_reducible refine run_le_ADVANCE_OR_ERROR ?_
  with_reducible refine run_le_SUBPARSE ?_ (fun _ => ?_)
  with_reducible exact h.parse_statement
  with_reducible exact run_le_refl _

theorem mono_for_in_of {a b : parser_fns} (h : fns_le a b) (for_tok : token) (keyword : Option token) :
    run_le (for_in_of a for_tok keyword) (for_in_of b for_tok keyword) := by
  unfold for_in_of
  with_reducible refine run_le_bind ?_ (fun _ => ?_)
  with_reducible exact run_le_refl _
  with_reducible refine run_le_ite ?_ ?_
  with_reducible refine run_le_ADVANCE_OR_ERROR ?_
  with_reducible refine run_le_bind ?_ (fun _ => ?_)
  with_reducible exact run_le_refl _
  with_reducible refine run_le_ite ?_ ?_
  with_reducible refine run_le_ADVANCE_OR_ERROR ?_
  with_reducible refine run_le_SUBPARSE ?_ (fun _ => ?_)
  with_reducible exact h.parse_expression _
  with_reducible refine run_le_ADVANCE_OR_ERROR ?_
  with_reducible refine run_le_EXPECT ?_
  with_reducible refine run_le_ADVANCE_OR_ERROR ?_
  with_reducible refine run_le_SUBPARSE ?_ (fun _ => ?_)
  with_reducible exact h.parse_statement
  with_reducible exact run_le_refl _
  with_reducible refine run_le_ite ?_ ?_
  with_reducible refine run_le_ADVANCE_OR_ERROR ?_
  with_reducible refine run_le_SUBPARSE ?_ (fun _ => ?_)
  with_reducible exact h.parse_expression _
  with_reducible refine run_le_ADVANCE_OR_ERROR ?_
  with_reducible refine run_le_EXPECT ?_
  with_reducible refine run_le_ADVANCE_OR_ERROR ?_
  with_reducible refine run_le_SUBPARSE ?_ (fun _ => ?_)
  with_reducible exact h.parse_statement
  with_reducible exact run_le_refl _
  with_reducible refine run_le_bind ?_ (fun _ => ?_)
  with_reducible exact run_le_refl _
  with_reducible exact mono_for_c_style h _ _
  with_reducible exact mono_for_c_style h _ _

theorem mono_parse_for_stmt {a b : parser_fns} (h : fns_le a b) :
    run_le (parse_for_stmt a) (parse_for_stmt b) := by
  unfold parse_for_stmt
  with_reducible refine run_le_bind ?_ (fun _ => ?_)
  with_reducible exact run_le_refl _
  with_reducible refine run_le_bind ?_ (fun _ => ?_)
  with_reducible exact run_le_refl _
  with_reducible refine run_le_ADVANCE_OR_ERROR ?_
  with_reducible refine run_le_EXPECT ?_
  with_reducible refine run_le_ADVANCE_OR_ERROR ?_
  with_reducible refine run_le_bind ?_ (fun _ => ?_)
  with_reducible exact run_le_refl _
  with_reducible refine run_le_ite ?_ ?_
  with_reducible refine run_le_ADVANCE_OR_ERROR ?_
  with_reducible refine run_le_EXPECT ?_
  with_reducible exact mono_for_in_of h _ _
  with_reducible exact mono_for_in_of h _ _

theorem mono_parse_switch_stmt {a b : parser_fns} (h : fns_le a b) :
    run_le (parse_switch_stmt a) (parse_switch_stmt b) := by
  unfold parse_switch_stmt
  with_reducible refine run_le_bind ?_ (fun _ => ?_)
  with_reducible exact run_le_refl _
  with_reducible refine run_le_bind ?_ (fun _ => ?_)
  with_reducible exact run_le_refl _
  with_reducible refine run_le_ADVANCE_OR_ERROR ?_
  with_reducible refine run_le_EXPECT ?_
  with_reducible refine run_le_ADVANCE_OR_ERROR ?_
  with_reducible refine run_le_SUBPARSE ?_ (fun _ => ?_)
  with_reducible exact h.parse_expression _
  with_reducible refine run_le_ADVANCE_OR_ERROR ?_
  with_reducible refine run_le_EXPECT ?_
  with_reducible refine run_le_ADVANCE_OR_ERROR ?_
  with_reducible refine run_le_EXPECT ?_
  with_reducible refine run_le_ADVANCE_OR_ERROR ?_
  with_reducible exact h.switch_clauses_loop _ _ _ _

theorem mono_switch_clauses_loop {a b : parser_fns} (h : fns_le a b) (loc : source_location) (value : Node) (hasDefault : Bool) (clauses : List Node) :
    run_le (switch_clauses_loop a loc value hasDefault clauses) (switch_clauses_loop b loc value hasDefault clauses) := by
  unfold switch_clauses_loop
  with_reducible refine run_le_EXPECT_SEVERAL ?_
  with_reducible refine run_le_bind ?_ (fun _ => ?_)
  with_reducible exact run_le_refl _
  with_reducible refine run_le_ite ?_ ?_
  with_reducible exact run_le_refl _
  with_reducible refine run_le_ite ?_ ?_
  with_reducible refine run_le_ite ?_ ?_
  with_reducible exact run_le_refl _
  with_reducible refine run_le_ADVANCE_OR_ERROR ?_
  with_reducible refine run_le_EXPECT ?_
  with_reducible refine run_le_ADVANCE_OR_ERROR ?_
  with_reducible exact h.switch_stmts_loop _ _ _ _ _
  with_reducible refine run_le_ite ?_ ?_
  with_reducible refine run_le_ADVANCE_OR_ERROR ?_
  with_reducible refine run_le_SUBPARSE ?_ (fun _ => ?_)
  with_reducible exact h.parse_expression _
  with_reducible refine run_le_ADVANCE_OR_ERROR ?_
  with_reducible refine run_le_EXPECT ?_
  with_reducible refine run_le_ADVANCE_OR_ERROR ?_
  with_reducible exact h.switch_stmts_loop _ _ _ _ _
  with_reducible exact run_le_refl _

theorem mono_switch_stmts_loop {a b : parser_fns} (h : fns_le a b) (loc : source_location) (value : Node) (hasDefault : Bool) (clauses : List Node) (clause : Node) :
    run_le (switch_stmts_loop a loc value hasDefault clauses clause) (switch_stmts_loop b loc value hasDefault clauses clause) := by
  unfold switch_stmts_loop
  with_reducible refine run_le_bind ?_ (fun _ => ?_)
  with_reducible exact run_le_refl _
  with_reducible refine run_le_ite ?_ ?_
  with_reducible exact h.switch_clauses_loop _ _ _ _
  with_reducible refine run_le_SUBPARSE ?_ (fun _ => ?_)
  with_reducible exact h.parse_statement
  with_reducible refine run_le_ADVANCE_OR_ERROR ?_
  with_reducible exact h.switch_stmts_loop _ _ _ _ _

theorem mono_parse_return_stmt {a b : parser_fns} (h : fns_le a b) :
    run_le (parse_return_stmt a) (parse_return_stmt b) := by
  unfold parse_return_stmt
  with_reducible refine run_le_bind ?_ (fun _ => ?_)
  with_reducible exact run_le_refl _
  with_reducible refine run_le_bind ?_ (fun _ => ?_)
  with_reducible exact run_le_refl _
  with_reducible refine run_le_bind ?_ (fun _ => ?_)
  with_reducible exact run_le_refl _
  with_reducible refine run_le_bind ?_ (fun _ => ?_)
  with_reducible exact run_le_refl _
  with_reducible refine run_le_ite ?_ ?_
  with_reducible refine run_le_SUBPARSE ?_ (fun _ => ?_)
  with_reducible exact h.parse_expression _
  with_reducible exact run_le_refl _
  with_reducible exact run_le_refl _

theorem mono_parse_throw_stmt {a b : parser_fns} (h : fns_le a b) :
    run_le (parse_throw_stmt a) (parse_throw_stmt b) := by
  unfold parse_throw_stmt
  with_reducible refine run_le_bind ?_ (fun _ => ?_)
  with_reducible exact run_le_refl _
  with_reducible refine run_le_bind ?_ (fun _ => ?_)
  with_reducible exact run_le_refl _
  with_reducible refine run_le_ADVANCE_OR_ERROR ?_
  with_reducible refine run_le_SUBPARSE ?_ (fun _ => ?_)
  with_reducible exact h.parse_expression _
  with_reducible exact run_le_refl _

theorem mono_try_finally {a b : parser_fns} (h : fns_le a b) (loc : source_location) (body : Node) (catch_block : Option Node) :
    run_le (try_finally a loc body catch_block) (try_finally b loc body catch_block) := by
  unfold try_finally
  with_reducible refine run_le_bind ?_ (fun _ => ?_)
  with_reducible exact run_le_refl _
  with_reducible refine run_le_ite ?_ ?_
  with_reducible refine run_le_ADVANCE_OR_ERROR ?_
  with_reducible refine run_le_EXPECT ?_
  with_reducible refine run_le_SUBPARSE ?_ (fun _ => ?_)
  with_reducible exact h.parse_block
  with_reducible exact run_le_refl _
  with_reducible exact run_le_refl _

theorem mono_parse_try_stmt {a b : parser_fns} (h : fns_le a b) :
    run_le (parse_try_stmt a) (parse_try_stmt b) := by
  unfold parse_try_stmt
  with_reducible refine run_le_bind ?_ (fun _ => ?_)
  with_reducible exact run_le_refl _
  with_reducible refine run_le_bind ?_ (fun _ => ?_)
  with_reducible exact run_le_refl _
  with_reducible refine run_le_ADVANCE_OR_ERROR ?_
  with_reducible refine run_le_EXPECT ?_
  with_reducible refine run_le_SUBPARSE ?_ (fun _ => ?_)
  with_reducible exact h.parse_block
  with_reducible refine run_le_ADVANCE_OR_ERROR ?_
  with_reducible refine run_le_bind ?_ (fun _ => ?_)
  with_reducible exact run_le_refl _
  with_reducible refine run_le_ite ?_ ?_
  with_reducible refine run_le_ADVANCE_OR_ERROR ?_
  with_reducible refine run_le_EXPECT ?_
  with_reducible refine run_le_ADVANCE_OR_ERROR ?_
  with_reducible refine run_le_EXPECT ?_
  with_reducible refine run_le_bind ?_ (fun _ => ?_)
  with_reducible exact run_le_refl _
  with_reducible refine run_le_ADVANCE_OR_ERROR ?_
  with_reducible refine run_le_EXPECT ?_
  with_reducible refine run_le_ADVANCE_OR_ERROR ?_
  with_reducible refine run_le_EXPECT ?_
  with_reducible refine run_le_SUBPARSE ?_ (fun _ => ?_)
  with_reducible exact h.parse_block
  with_reducible refine run_le_bind ?_ (fun _ => ?_)
  with_reducible exact run_le_refl _
  with_reducible refine run_le_ite ?_ ?_
  with_reducible exact run_le_refl _
  with_reducible exact mono_try_finally h _ _ _
  with_reducible exact mono_try_finally h _ _ _

theorem mono_parse_expression {a b : parser_fns} (h : fns_le a b) (comma_is_operator : Bool) :
    run_le (parse_expression a comma_is_operator) (parse_expression b comma_is_operator) := by
  unfold parse_expression
  with_reducible refine run_le_bind ?_ (fun _ => ?_)
  with_reducible exact h.parse_unary_or_atomic_expr
  with_reducible refine run_le_ite ?_ ?_
  with_reducible refine run_le_bind ?_ (fun _ => ?_)
  with_reducible exact run_le_refl _
  with_reducible refine run_le_bind ?_ (fun _ => ?_)
  with_reducible exact run_le_refl _
  with_reducible refine run_le_ite ?_ ?_
  with_reducible exact run_le_refl _
  with_reducible refine run_le_bind ?_ (fun _ => ?_)
  with_reducible exact run_le_refl _
  with_reducible refine run_le_ite ?_ ?_
  with_reducible exact run_le_refl _
  with_reducible refine run_le_ite ?_ ?_
  with_reducible exact h.parse_bin_op _ _
  with_reducible exact run_le_refl _
  with_reducible exact run_le_refl _

theorem mono_parse_unary_or_atomic_expr {a b : parser_fns} (h : fns_le a b) :
    run_le (parse_unary_or_atomic_expr a) (parse_unary_or_atomic_expr b) := by
  unfold parse_unary_or_atomic_expr
  with_reducible refine run_le_bind ?_ (fun _ => ?_)
  with_reducible exact run_le_refl _
  with_reducible refine run_le_ite ?_ ?_
  with_reducible refine run_le_ADVANCE_OR_ERROR ?_
  with_reducible refine run_le_SUBPARSE ?_ (fun _ => ?_)
  with_reducible exact h.parse_atomic_expr
  with_reducible exact run_le_refl _
  with_reducible refine run_le_bind ?_ (fun _ => ?_)
  with_reducible exact h.parse_atomic_expr
  with_reducible exact run_le_refl _

theorem mono_atomic_postfix_loop {a b : parser_fns} (h : fns_le a b) (expr : Node) :
    run_le (atomic_postfix_loop a expr) (atomic_postfix_loop b expr) := by
  unfold atomic_postfix_loop
  with_reducible refine run_le_bind ?_ (fun _ => ?_)
  with_reducible exact run_le_refl _
  with_reducible refine run_le_bind ?_ (fun _ => ?_)
  with_reducible exact run_le_refl _
  with_reducible refine run_le_ite ?_ ?_
  with_reducible refine run_le_bind ?_ (fun _ => ?_)
  with_reducible exact run_le_refl _
  with_reducible refine run_le_ite ?_ ?_
  with_reducible refine run_le_bind ?_ (fun _ => ?_)
  with_reducible exact run_le_refl _
  with_reducible exact h.atomic_postfix_loop _
  with_reducible refine run_le_ite ?_ ?_
  with_reducible refine run_le_bind ?_ (fun _ => ?_)
  with_reducible exact h.parse_call _
  with_reducible exact h.atomic_postfix_loop _
  with_reducible refine run_le_ite ?_ ?_
  with_reducible refine run_le_bind ?_ (fun _ => ?_)
  with_reducible exact h.parse_computed_access _
  with_reducible exact h.atomic_postfix_loop _
  with_reducible exact run_le_refl _
  with_reducible exact run_le_refl _

theorem mono_atomic_start {a b : parser_fns} (h : fns_le a b) :
    run_le (atomic_start a) (atomic_start b) := by
  unfold atomic_start
  with_reducible refine run_le_bind ?_ (fun _ => ?_)
  with_reducible exact run_le_refl _
  with_reducible refine run_le_ite ?_ ?_
  with_reducible exact h.parse_atomic_keyword_expr
  with_reducible refine run_le_ite ?_ ?_
  with_reducible exact run_le_refl _
  with_reducible refine run_le_ite ?_ ?_
  with_reducible exact run_le_refl _
  with_reducible refine run_le_ite ?_ ?_
  with_reducible exact run_le_refl _
  with_reducible refine run_le_ite ?_ ?_
  with_reducible exact h.parse_template_literal
  with_reducible refine run_le_ite ?_ ?_
  with_reducible exact run_le_refl _
  with_reducible refine run_le_ite ?_ ?_
  with_reducible exact h.parse_array_literal
  with_reducible refine run_le_ite ?_ ?_
  with_reducible exact h.parse_object_literal
  with_reducible refine run_le_ite ?_ ?_
  with_reducible exact h.parse_parens_expr
  with_reducible exact run_le_refl _

theorem mono_parse_atomic_expr {a b : parser_fns} (h : fns_le a b) :
    run_le (parse_atomic_expr a) (parse_atomic_expr b) := by
  unfold parse_atomic_expr
  with_reducible refine run_le_bind ?_ (fun _ => ?_)
  with_reducible exact mono_atomic_start h
  with_reducible refine run_le_ite ?_ ?_
  with_reducible exact run_le_refl _
  with_reducible refine run_le_bind ?_ (fun _ => ?_)
  with_reducible exact h.atomic_postfix_loop _
  with_reducible exact run_le_refl _

theorem mono_parens_arrow {a b : parser_fns} (h : fns_le a b) (loc : source_location) (reason_no_paramlist : Option token) (rest_param : Option token) (exprs : List Node) :
    run_le (parens_arrow a loc reason_no_paramlist rest_param exprs) (parens_arrow b loc reason_no_paramlist rest_param exprs) := by
  unfold parens_arrow
  focus with_reducible (show run_le _ _; split)
  with_reducible exact run_le_refl _
  with_reducible refine run_le_ADVANCE_OR_ERROR ?_
  with_reducible refine run_le_bind ?_ (fun _ => ?_)
  with_reducible exact run_le_refl _
  with_reducible refine run_le_ite ?_ ?_
  with_reducible refine run_le_bind ?_ (fun _ => ?_)
  with_reducible exact h.parse_block_or_obj _
  with_reducible exact run_le_refl _
  with_reducible refine run_le_bind ?_ (fun _ => ?_)
  with_reducible exact h.parse_expression _
  with_reducible exact run_le_refl _

theorem mono_parens_tail {a b : parser_fns} (h : fns_le a b) (loc : source_location) (reason_no_paramlist : Option token) (rest_param : Option token) (exprs : List Node) :
    run_le (parens_tail a loc reason_no_paramlist rest_param exprs) (parens_tail b loc reason_no_paramlist rest_param exprs) := by
  unfold parens_tail
  with_reducible refine run_le_EXPECT ?_
  with_reducible refine run_le_bind ?_ (fun _ => ?_)
  with_reducible exact run_le_refl _
  with_reducible refine run_le_bind ?_ (fun _ => ?_)
  with_reducible exact run_le_refl _
  with_reducible refine run_le_bind ?_ (fun _ => ?_)
  with_reducible exact run_le_refl _
  with_reducible refine run_le_ite ?_ ?_
  with_reducible exact mono_parens_arrow h _ _ _ _
  with_reducible exact run_le_refl _

theorem mono_parens_list_loop {a b : parser_fns} (h : fns_le a b) (loc : source_location) (reason_no_paramlist : Option token) (exprs : List Node) :
    run_le (parens_list_loop a loc reason_no_paramlist exprs) (parens_list_loop b loc reason_no_paramlist exprs) := by
  unfold parens_list_loop
  with_reducible refine run_le_bind ?_ (fun _ => ?_)
  with_reducible exact run_le_refl _
  with_reducible refine run_le_ite ?_ ?_
  with_reducible refine run_le_ADVANCE_OR_ERROR ?_
  with_reducible refine run_le_EXPECT ?_
  with_reducible refine run_le_bind ?_ (fun _ => ?_)
  with_reducible exact run_le_refl _
  with_reducible refine run_le_ADVANCE_OR_ERROR ?_
  with_reducible refine run_le_EXPECT ?_
  with_reducible exact mono_parens_tail h _ _ _ _
  with_reducible refine run_le_SUBPARSE ?_ (fun _ => ?_)
  with_reducible exact h.parse_expression _
  with_reducible refine run_le_bind ?_ (fun _ => ?_)
  with_reducible exact run_le_refl _
  with_reducible refine run_le_ADVANCE_OR_ERROR ?_
  with_reducible refine run_le_EXPECT_SEVERAL ?_
  with_reducible refine run_le_bind ?_ (fun _ => ?_)
  with_reducible exact run_le_refl _
  with_reducible refine run_le_ite ?_ ?_
  with_reducible exact mono_parens_tail h _ _ _ _
  with_reducible refine run_le_ite ?_ ?_
  with_reducible refine run_le_ADVANCE_OR_ERROR ?_
  with_reducible exact h.parens_list_loop _ _ _
  with_reducible exact h.parens_list_loop _ _ _

theorem mono_parse_parens_expr {a b : parser_fns} (h : fns_le a b) :
    run_le (parse_parens_expr a) (parse_parens_expr b) := by
  unfold parse_parens_expr
  with_reducible refine run_le_bind ?_ (fun _ => ?_)
  with_reducible exact run_le_refl _
  with_reducible refine run_le_bind ?_ (fun _ => ?_)
  with_reducible exact run_le_refl _
  with_reducible refine run_le_ADVANCE_OR_ERROR ?_
  with_reducible refine run_le_bind ?_ (fun _ => ?_)
  with_reducible exact run_le_refl _
  with_reducible refine run_le_ite ?_ ?_
  with_reducible exact h.parens_list_loop _ _ _
  with_reducible exact mono_parens_tail h _ _ _ _

theorem mono_bin_op_tail (ops : operators_def) {a b : parser_fns} (h : fns_le a b) (op : token) (binop : Node) (comma_is_operator : Bool) :
    run_le (bin_op_tail ops a op binop comma_is_operator) (bin_op_tail ops b op binop comma_is_operator) := by
  unfold bin_op_tail
  with_reducible refine run_le_bind ?_ (fun _ => ?_)
  with_reducible exact run_le_refl _
  with_reducible refine run_le_bind ?_ (fun _ => ?_)
  with_reducible exact run_le_refl _
  with_reducible refine run_le_ite ?_ ?_
  with_reducible exact run_le_refl _
  with_reducible refine run_le_bind ?_ (fun _ => ?_)
  with_reducible exact run_le_refl _
  with_reducible refine run_le_ite ?_ ?_
  with_reducible exact run_le_refl _
  with_reducible refine run_le_ite ?_ ?_
  with_reducible refine run_le_ite ?_ ?_
  with_reducible refine run_le_SUBPARSE ?_ (fun _ => ?_)
  with_reducible exact h.parse_bin_op _ _
  with_reducible exact run_le_refl _
  with_reducible refine run_le_ite ?_ ?_
  with_reducible refine run_le_bind ?_ (fun _ => ?_)
  with_reducible exact run_le_refl _
  with_reducible refine run_le_ite ?_ ?_
  with_reducible refine run_le_SUBPARSE ?_ (fun _ => ?_)
  with_reducible exact h.parse_bin_op _ _
  with_reducible exact run_le_refl _
  with_reducible refine run_le_SUBPARSE ?_ (fun _ => ?_)
  with_reducible exact h.parse_bin_op _ _
  with_reducible exact run_le_refl _
  with_reducible refine run_le_SUBPARSE ?_ (fun _ => ?_)
  with_reducible exact h.parse_bin_op _ _
  with_reducible exact run_le_refl _
  with_reducible exact run_le_refl _

theorem mono_parse_bin_op (ops : operators_def) {a b : parser_fns} (h : fns_le a b) (lhs : Node) (comma_is_operator : Bool) :
    run_le (parse_bin_op ops a lhs comma_is_operator) (parse_bin_op ops b lhs comma_is_operator) := by
  unfold parse_bin_op
  with_reducible refine run_le_bind ?_ (fun _ => ?_)
  with_reducible exact run_le_refl _
  with_reducible refine run_le_bind ?_ (fun _ => ?_)
  with_reducible exact run_le_refl _
  with_reducible refine run_le_ADVANCE_OR_ERROR ?_
  with_reducible refine run_le_ite ?_ ?_
  with_reducible refine run_le_SUBPARSE ?_ (fun _ => ?_)
  with_reducible exact h.parse_expression _
  with_reducible refine run_le_ADVANCE_OR_ERROR ?_
  with_reducible refine run_le_EXPECT ?_
  with_reducible refine run_le_ADVANCE_OR_ERROR ?_
  with_reducible refine run_le_SUBPARSE ?_ (fun _ => ?_)
  with_reducible exact h.parse_expression _
  with_reducible exact mono_bin_op_tail ops h _ _ _
  with_reducible refine run_le_SUBPARSE ?_ (fun _ => ?_)
  with_reducible exact h.parse_unary_or_atomic_expr
  with_reducible refine run_le_bind ?_ (fun _ => ?_)
  with_reducible exact run_le_refl _
  with_reducible exact mono_bin_op_tail ops h _ _ _

theorem mono_parse_atomic_keyword_expr {a b : parser_fns} (h : fns_le a b) :
    run_le (parse_atomic_keyword_expr a) (parse_atomic_keyword_expr b) := by
  unfold parse_atomic_keyword_expr
  with_reducible refine run_le_EXPECT ?_
  with_reducible refine run_le_bind ?_ (fun _ => ?_)
  with_reducible exact run_le_refl _
  with_reducible refine run_le_ite ?_ ?_
  with_reducible exact run_le_refl _
  with_reducible refine run_le_ite ?_ ?_
  with_reducible exact h.parse_function_expr
  with_reducible refine run_le_ite ?_ ?_
  with_reducible exact h.parse_new_keyword
  with_reducible exact run_le_refl _

theorem mono_parse_new_keyword {a b : parser_fns} (h : fns_le a b) :
    run_le (parse_new_keyword a) (parse_new_keyword b) := by
  unfold parse_new_keyword
  with_reducible refine run_le_bind ?_ (fun _ => ?_)
  with_reducible exact run_le_refl _
  with_reducible refine run_le_bind ?_ (fun _ => ?_)
  with_reducible exact run_le_refl _
  with_reducible refine run_le_ADVANCE_OR_ERROR ?_
  with_reducible refine run_le_bind ?_ (fun _ => ?_)
  with_reducible exact run_le_refl _
  with_reducible refine run_le_ite ?_ ?_
  with_reducible exact run_le_refl _
  with_reducible refine run_le_SUBPARSE ?_ (fun _ => ?_)
  with_reducible exact h.parse_atomic_expr
  with_reducible exact run_le_refl _

theorem mono_template_loop {a b : parser_fns} (h : fns_le a b) (loc : source_location) (strs : List String) (exprs : List Node) :
    run_le (template_loop a loc strs exprs) (template_loop b loc strs exprs) := by
  unfold template_loop
  with_reducible refine run_le_ADVANCE_OR_ERROR ?_
  with_reducible refine run_le_SUBPARSE ?_ (fun _ => ?_)
  with_reducible exact h.parse_expression _
  with_reducible refine run_le_ADVANCE_OR_ERROR ?_
  with_reducible refine run_le_EXPECT_SEVERAL ?_
  with_reducible refine run_le_bind ?_ (fun _ => ?_)
  with_reducible exact run_le_refl _
  with_reducible refine run_le_ite ?_ ?_
  with_reducible exact h.template_loop _ _ _
  with_reducible exact run_le_refl _

theorem mono_parse_template_literal {a b : parser_fns} (h : fns_le a b) :
    run_le (parse_template_literal a) (parse_template_literal b) := by
  unfold parse_template_literal
  with_reducible refine run_le_bind ?_ (fun _ => ?_)
  with_reducible exact run_le_refl _
  with_reducible refine run_le_bind ?_ (fun _ => ?_)
  with_reducible exact run_le_refl _
  with_reducible exact h.template_loop _ _ _

theorem mono_parse_function_stmt {a b : parser_fns} (h : fns_le a b) :
    run_le (parse_function_stmt a) (parse_function_stmt b) := by
  unfold parse_function_stmt
  with_reducible refine run_le_bind ?_ (fun _ => ?_)
  with_reducible exact run_le_refl _
  with_reducible refine run_le_bind ?_ (fun _ => ?_)
  with_reducible exact run_le_refl _
  with_reducible refine run_le_ADVANCE_OR_ERROR ?_
  with_reducible refine run_le_EXPECT ?_
  with_reducible refine run_le_bind ?_ (fun _ => ?_)
  with_reducible exact run_le_refl _
  with_reducible refine run_le_ADVANCE_OR_ERROR ?_
  with_reducible refine run_le_EXPECT ?_
  with_reducible refine run_le_SUBPARSE ?_ (fun _ => ?_)
  with_reducible exact h.parse_param_list
  with_reducible refine run_le_ADVANCE_OR_ERROR ?_
  with_reducible refine run_le_EXPECT ?_
  with_reducible refine run_le_SUBPARSE ?_ (fun _ => ?_)
  with_reducible exact h.parse_block
  with_reducible exact run_le_refl _

theorem mono_function_expr_tail {a b : parser_fns} (h : fns_le a b) (loc : source_location) (name : Option String) :
    run_le (function_expr_tail a loc name) (function_expr_tail b loc name) := by
  unfold function_expr_tail
  with_reducible refine run_le_EXPECT ?_
  with_reducible refine run_le_SUBPARSE ?_ (fun _ => ?_)
  with_reducible exact h.parse_param_list
  with_reducible refine run_le_ADVANCE_OR_ERROR ?_
  with_reducible refine run_le_EXPECT ?_
  with_reducible refine run_le_SUBPARSE ?_ (fun _ => ?_)
  with_reducible exact h.parse_block
  with_reducible exact run_le_refl _

theorem mono_parse_function_expr {a b : parser_fns} (h : fns_le a b) :
    run_le (parse_function_expr a) (parse_function_expr b) := by
  unfold parse_function_expr
  with_reducible refine run_le_bind ?_ (fun _ => ?_)
  with_reducible exact run_le_refl _
  with_reducible refine run_le_bind ?_ (fun _ => ?_)
  with_reducible exact run_le_refl _
  with_reducible refine run_le_ADVANCE_OR_ERROR ?_
  with_reducible refine run_le_bind ?_ (fun _ => ?_)
  with_reducible exact run_le_refl _
  with_reducible refine run_le_ite ?_ ?_
  with_reducible refine run_le_ADVANCE_OR_ERROR ?_
  with_reducible exact mono_function_expr_tail h _ _
  with_reducible exact mono_function_expr_tail h _ _

theorem mono_param_list_loop {a b : parser_fns} (h : fns_le a b) (loc : source_location) (names : List String) :
    run_le (param_list_loop a loc names) (param_list_loop b loc names) := by
  unfold param_list_loop
  with_reducible refine run_le_ADVANCE_OR_ERROR ?_
  with_reducible refine run_le_bind ?_ (fun _ => ?_)
  with_reducible exact run_le_refl _
  with_reducible refine run_le_ite ?_ ?_
  with_reducible refine run_le_ADVANCE_OR_ERROR ?_
  with_reducible refine run_le_bind ?_ (fun _ => ?_)
  with_reducible exact run_le_refl _
  with_reducible refine run_le_ite ?_ ?_
  with_reducible exact h.param_list_loop _ _
  with_reducible exact run_le_refl _
  with_reducible refine run_le_ite ?_ ?_
  with_reducible exact h.param_list_loop _ _
  with_reducible exact run_le_refl _

theorem mono_parse_param_list {a b : parser_fns} (h : fns_le a b) :
    run_le (parse_param_list a) (parse_param_list b) := by
  unfold parse_param_list
  with_reducible refine run_le_bind ?_ (fun _ => ?_)
  with_reducible exact run_le_refl _
  with_reducible refine run_le_bind ?_ (fun _ => ?_)
  with_reducible exact run_le_refl _
  with_reducible exact h.param_list_loop _ _

theorem mono_block_loop {a b : parser_fns} (h : fns_le a b) (loc : source_location) (stmts : List Node) :
    run_le (block_loop a loc stmts) (block_loop b loc stmts) := by
  unfold block_loop
  with_reducible refine run_le_bind ?_ (fun _ => ?_)
  with_reducible exact run_le_refl _
  with_reducible refine run_le_ite ?_ ?_
  with_reducible refine run_le_bind ?_ (fun _ => ?_)
  with_reducible exact run_le_refl _
  with_reducible refine run_le_bind ?_ (fun _ => ?_)
  with_reducible exact h.parse_statement
  with_reducible refine run_le_ADVANCE_OR_ERROR ?_
  with_reducible exact h.block_loop _ _
  with_reducible exact run_le_refl _

theorem mono_parse_block {a b : parser_fns} (h : fns_le a b) :
    run_le (parse_block a) (parse_block b) := by
  unfold parse_block
  with_reducible refine run_le_EXPECT ?_
  with_reducible refine run_le_bind ?_ (fun _ => ?_)
  with_reducible exact run_le_refl _
  with_reducible refine run_le_ADVANCE_OR_ERROR ?_
  with_reducible exact h.block_loop _ _

theorem mono_var_decl_loop {a b : parser_fns} (h : fns_le a b) (loc : source_location) (keyword : String) (parts : List Node) :
    run_le (var_decl_loop a loc keyword parts) (var_decl_loop b loc keyword parts) := by
  unfold var_decl_loop
  with_reducible refine run_le_bind ?_ (fun _ => ?_)
  with_reducible exact run_le_refl _
  with_reducible refine run_le_bind ?_ (fun _ => ?_)
  with_reducible exact run_le_refl _
  with_reducible refine run_le_ite ?_ ?_
  with_reducible refine run_le_bind ?_ (fun _ => ?_)
  with_reducible exact run_le_refl _
  with_reducible refine run_le_ite ?_ ?_
  with_reducible refine run_le_ADVANCE_OR_ERROR ?_
  with_reducible refine run_le_SUBPARSE ?_ (fun _ => ?_)
  with_reducible exact h.parse_expression _
  with_reducible exact h.var_decl_loop _ _ _
  with_reducible refine run_le_ite ?_ ?_
  with_reducible refine run_le_ADVANCE_OR_ERROR ?_
  with_reducible refine run_le_EXPECT ?_
  with_reducible refine run_le_bind ?_ (fun _ => ?_)
  with_reducible exact run_le_refl _
  with_reducible exact h.var_decl_loop _ _ _
  with_reducible exact run_le_refl _
  with_reducible exact run_le_refl _

theorem mono_parse_var_decl {a b : parser_fns} (h : fns_le a b) :
    run_le (parse_var_decl a) (parse_var_decl b) := by
  unfold parse_var_decl
  with_reducible refine run_le_bind ?_ (fun _ => ?_)
  with_reducible exact run_le_refl _
  with_reducible refine run_le_bind ?_ (fun _ => ?_)
  with_reducible exact run_le_refl _
  with_reducible refine run_le_ADVANCE_OR_ERROR ?_
  with_reducible refine run_le_EXPECT ?_
  with_reducible refine run_le_bind ?_ (fun _ => ?_)
  with_reducible exact run_le_refl _
  with_reducible exact h.var_decl_loop _ _ _

theorem mono_array_entry_end {a b : parser_fns} (h : fns_le a b) (loc : source_location) (values : List Node) :
    run_le (array_entry_end a loc values) (array_entry_end b loc values) := by
  unfold array_entry_end
  with_reducible refine run_le_ADVANCE_OR_ERROR ?_
  with_reducible refine run_le_EXPECT_SEVERAL ?_
  with_reducible refine run_le_bind ?_ (fun _ => ?_)
  with_reducible exact run_le_refl _
  with_reducible refine run_le_ite ?_ ?_
  with_reducible exact run_le_refl _
  with_reducible refine run_le_ite ?_ ?_
  with_reducible refine run_le_ADVANCE_OR_ERROR ?_
  with_reducible exact h.array_loop _ _
  with_reducible exact h.array_loop _ _

theorem mono_array_loop {a b : parser_fns} (h : fns_le a b) (loc : source_location) (values : List Node) :
    run_le (array_loop a loc values) (array_loop b loc values) := by
  unfold array_loop
  with_reducible refine run_le_bind ?_ (fun _ => ?_)
  with_reducible exact run_le_refl _
  with_reducible refine run_le_ite ?_ ?_
  with_reducible refine run_le_ADVANCE_OR_ERROR ?_
  with_reducible refine run_le_bind ?_ (fun _ => ?_)
  with_reducible exact h.parse_expression _
  with_reducible exact mono_array_entry_end h _ _
  with_reducible refine run_le_bind ?_ (fun _ => ?_)
  with_reducible exact h.parse_expression _
  with_reducible exact mono_array_entry_end h _ _

theorem mono_parse_array_literal {a b : parser_fns} (h : fns_le a b) :
    run_le (parse_array_literal a) (parse_array_literal b) := by
  unfold parse_array_literal
  with_reducible refine run_le_bind ?_ (fun _ => ?_)
  with_reducible exact run_le_refl _
  with_reducible refine run_le_bind ?_ (fun _ => ?_)
  with_reducible exact run_le_refl _
  with_reducible refine run_le_ADVANCE_OR_ERROR ?_
  with_reducible refine run_le_bind ?_ (fun _ => ?_)
  with_reducible exact run_le_refl _
  with_reducible refine run_le_ite ?_ ?_
  with_reducible exact h.array_loop _ _
  with_reducible exact run_le_refl _

theorem mono_object_entry_end {a b : parser_fns} (h : fns_le a b) (loc : source_location) (entries : List Node) :
    run_le (object_entry_end a loc entries) (object_entry_end b loc entries) := by
  unfold object_entry_end
  with_reducible refine run_le_ADVANCE_OR_ERROR ?_
  with_reducible refine run_le_EXPECT_SEVERAL ?_
  with_reducible refine run_le_bind ?_ (fun _ => ?_)
  with_reducible exact run_le_refl _
  with_reducible refine run_le_ite ?_ ?_
  with_reducible refine run_le_ADVANCE_OR_ERROR ?_
  with_reducible exact h.object_loop _ _
  with_reducible exact h.object_loop _ _

theorem mono_object_loop {a b : parser_fns} (h : fns_le a b) (loc : source_location) (entries : List Node) :
    run_le (object_loop a loc entries) (object_loop b loc entries) := by
  unfold object_loop
  with_reducible refine run_le_bind ?_ (fun _ => ?_)
  with_reducible exact run_le_refl _
  with_reducible refine run_le_ite ?_ ?_
  with_reducible exact run_le_refl _
  with_reducible refine run_le_ite ?_ ?_
  with_reducible refine run_le_ADVANCE_OR_ERROR ?_
  with_reducible refine run_le_bind ?_ (fun _ => ?_)
  with_reducible exact h.parse_expression _
  with_reducible exact mono_object_entry_end h _ _
  with_reducible refine run_le_ite ?_ ?_
  with_reducible refine run_le_ADVANCE_OR_ERROR ?_
  with_reducible refine run_le_bind ?_ (fun _ => ?_)
  with_reducible exact run_le_refl _
  with_reducible refine run_le_ite ?_ ?_
  with_reducible refine run_le_bind ?_ (fun _ => ?_)
  with_reducible exact run_le_refl _
  with_reducible exact mono_object_entry_end h _ _
  with_reducible refine run_le_ADVANCE_OR_ERROR ?_
  with_reducible refine run_le_bind ?_ (fun _ => ?_)
  with_reducible exact h.parse_expression _
  with_reducible exact mono_object_entry_end h _ _
  with_reducible exact run_le_refl _

theorem mono_parse_object_literal {a b : parser_fns} (h : fns_le a b) :
    run_le (parse_object_literal a) (parse_object_literal b) := by
  unfold parse_object_literal
  with_reducible refine run_le_bind ?_ (fun _ => ?_)
  with_reducible exact run_le_refl _
  with_reducible refine run_le_bind ?_ (fun _ => ?_)
  with_reducible exact run_le_refl _
  with_reducible refine run_le_ADVANCE_OR_ERROR ?_
  with_reducible exact h.object_loop _ _

theorem mono_parse_computed_access {a b : parser_fns} (h : fns_le a b) (base : Node) :
    run_le (parse_computed_access a base) (parse_computed_access b base) := by
  unfold parse_computed_access
  with_reducible refine run_le_bind ?_ (fun _ => ?_)
  with_reducible exact run_le_refl _
  with_reducible refine run_le_bind ?_ (fun _ => ?_)
  with_reducible exact run_le_refl _
  with_reducible refine run_le_ADVANCE_OR_ERROR ?_
  with_reducible refine run_le_SUBPARSE ?_ (fun _ => ?_)
  with_reducible exact h.parse_expression _
  with_reducible exact run_le_refl _

theorem mono_call_loop {a b : parser_fns} (h : fns_le a b) (loc : source_location) (callee : Node) (values : List Node) :
    run_le (call_loop a loc callee values) (call_loop b loc callee values) := by
  unfold call_loop
  with_reducible refine run_le_SUBPARSE ?_ (fun _ => ?_)
  with_reducible exact h.parse_expression _
  with_reducible refine run_le_ADVANCE_OR_ERROR ?_
  with_reducible refine run_le_bind ?_ (fun _ => ?_)
  with_reducible exact run_le_refl _
  with_reducible refine run_le_ite ?_ ?_
  with_reducible refine run_le_ADVANCE_OR_ERROR ?_
  with_reducible exact h.call_loop _ _ _
  with_reducible exact run_le_refl _

theorem mono_parse_call {a b : parser_fns} (h : fns_le a b) (callee : Node) :
    run_le (parse_call a callee) (parse_call b callee) := by
  unfold parse_call
  with_reducible refine run_le_bind ?_ (fun _ => ?_)
  with_reducible exact run_le_refl _
  with_reducible refine run_le_bind ?_ (fun _ => ?_)
  with_reducible exact run_le_refl _
  with_reducible refine run_le_ADVANCE_OR_ERROR ?_
  with_reducible refine run_le_bind ?_ (fun _ => ?_)
  with_reducible exact run_le_refl _
  with_reducible refine run_le_ite ?_ ?_
  with_reducible exact run_le_refl _
  with_reducible exact h.call_loop _ _ _

theorem mono_parse_block_or_obj {a b : parser_fns} (h : fns_le a b) (_prefer_block_over_obj : Bool) :
    run_le (parse_block_or_obj a _prefer_block_over_obj) (parse_block_or_obj b _prefer_block_over_obj) := by
  unfold parse_block_or_obj
  with_reducible refine run_le_EXPECT ?_
  with_reducible exact h.parse_block

/-- One more unit of fuel does not change a result. -/
theorem parsers_le_succ (ops : operators_def) : ∀ fuel, fns_le (parsers ops fuel) (parsers ops (fuel + 1))
  | 0 => by
    constructor <;> intros <;> exact run_le_out_of_fuel _
  | fuel + 1 =>
    { parse_statement := mono_parse_statement (parsers_le_succ ops fuel)
      parse_keyword_stmt := mono_parse_keyword_stmt (parsers_le_succ ops fuel)
      parse_keyword_expr := mono_parse_keyword_expr (parsers_le_succ ops fuel)
      parse_if_stmt := mono_parse_if_stmt (parsers_le_succ ops fuel)
      parse_do_while := mono_parse_do_while (parsers_le_succ ops fuel)
      parse_while_stmt := mono_parse_while_stmt (parsers_le_succ ops fuel)
      parse_for_stmt := mono_parse_for_stmt (parsers_le_succ ops fuel)
      parse_switch_stmt := mono_parse_switch_stmt (parsers_le_succ ops fuel)
      switch_clauses_loop := fun x0 x1 x2 x3 => mono_switch_clauses_loop (parsers_le_succ ops fuel) x0 x1 x2 x3
      switch_stmts_loop := fun x0 x1 x2 x3 x4 => mono_switch_stmts_loop (parsers_le_succ ops fuel) x0 x1 x2 x3 x4
      parse_return_stmt := mono_parse_return_stmt (parsers_le_succ ops fuel)
      parse_throw_stmt := mono_parse_throw_stmt (parsers_le_succ ops fuel)
      parse_try_stmt := mono_parse_try_stmt (parsers_le_succ ops fuel)
      parse_expression := fun x0 => mono_parse_expression (parsers_le_succ ops fuel) x0
      parse_unary_or_atomic_expr := mono_parse_unary_or_atomic_expr (parsers_le_succ ops fuel)
      parse_atomic_expr := mono_parse_atomic_expr (parsers_le_succ ops fuel)
      atomic_postfix_loop := fun x0 => mono_atomic_postfix_loop (parsers_le_succ ops fuel) x0
      parse_parens_expr := mono_parse_parens_expr (parsers_le_succ ops fuel)
      parens_list_loop := fun x0 x1 x2 => mono_parens_list_loop (parsers_le_succ ops fuel) x0 x1 x2
      parse_bin_op := fun x0 x1 => mono_parse_bin_op ops (parsers_le_succ ops fuel) x0 x1
      parse_atomic_keyword_expr := mono_parse_atomic_keyword_expr (parsers_le_succ ops fuel)
      parse_new_keyword := mono_parse_new_keyword (parsers_le_succ ops fuel)
      parse_template_literal := mono_parse_template_literal (parsers_le_succ ops fuel)
      template_loop := fun x0 x1 x2 => mono_template_loop (parsers_le_succ ops fuel) x0 x1 x2
      parse_function_stmt := mono_parse_function_stmt (parsers_le_succ ops fuel)
      parse_function_expr := mono_parse_function_expr (parsers_le_succ ops fuel)
      parse_param_list := mono_parse_param_list (parsers_le_succ ops fuel)
      param_list_loop := fun x0 x1 => mono_param_list_loop (parsers_le_succ ops fuel) x0 x1
      parse_block := mono_parse_block (parsers_le_succ ops fuel)
      block_loop := fun x0 x1 => mono_block_loop (parsers_le_succ ops fuel) x0 x1
      parse_var_decl := mono_parse_var_decl (parsers_le_succ ops fuel)
      var_decl_loop := fun x0 x1 x2 => mono_var_decl_loop (parsers_le_succ ops fuel) x0 x1 x2
      parse_array_literal := mono_parse_array_literal (parsers_le_succ ops fuel)
      array_loop := fun x0 x1 => mono_array_loop (parsers_le_succ ops fuel) x0 x1
      parse_object_literal := mono_parse_object_literal (parsers_le_succ ops fuel)
      object_loop := fun x0 x1 => mono_object_loop (parsers_le_succ ops fuel) x0 x1
      parse_computed_access := fun x0 => mono_parse_computed_access (parsers_le_succ ops fuel) x0
      parse_call := fun x0 => mono_parse_call (parsers_le_succ ops fuel) x0
      call_loop := fun x0 x1 x2 => mono_call_loop (parsers_le_succ ops fuel) x0 x1 x2
      parse_block_or_obj := fun x0 => mono_parse_block_or_obj (parsers_le_succ ops fuel) x0 }

theorem fns_le_refl (a : parser_fns) : fns_le a a := by
  constructor <;> intros <;> exact run_le_refl _

theorem run_le_trans {α : Type} {a b c : P α} (h1 : run_le a b) (h2 : run_le b c) :
    run_le a c := fun s r h => h2 s r (h1 s r h)

theorem fns_le_trans {a b c : parser_fns} (h1 : fns_le a b) (h2 : fns_le b c) : fns_le a c := by
  constructor
  all_goals first
    | exact run_le_trans (by first
        | exact h1.parse_statement | exact h1.parse_keyword_stmt | exact h1.parse_keyword_expr
        | exact h1.parse_if_stmt | exact h1.parse_do_while | exact h1.parse_while_stmt
        | exact h1.parse_for_stmt | exact h1.parse_switch_stmt | exact h1.parse_return_stmt
        | exact h1.parse_throw_stmt | exact h1.parse_try_stmt
        | exact h1.parse_unary_or_atomic_expr | exact h1.parse_atomic_expr
        | exact h1.parse_parens_expr | exact h1.parse_atomic_keyword_expr
        | exact h1.parse_new_keyword | exact h1.parse_template_literal
        | exact h1.parse_function_stmt | exact h1.parse_function_expr
        | exact h1.parse_param_list | exact h1.parse_block | exact h1.parse_var_decl
        | exact h1.parse_array_literal | exact h1.parse_object_literal)
        (by first
        | exact h2.parse_statement | exact h2.parse_keyword_stmt | exact h2.parse_keyword_expr
        | exact h2.parse_if_stmt | exact h2.parse_do_while | exact h2.parse_while_stmt
        | exact h2.parse_for_stmt | exact h2.parse_switch_stmt | exact h2.parse_return_stmt
        | exact h2.parse_throw_stmt | exact h2.parse_try_stmt
        | exact h2.parse_unary_or_atomic_expr | exact h2.parse_atomic_expr
        | exact h2.parse_parens_expr | exact h2.parse_atomic_keyword_expr
        | exact h2.parse_new_keyword | exact h2.parse_template_literal
        | exact h2.parse_function_stmt | exact h2.parse_function_expr
        | exact h2.parse_param_list | exact h2.parse_block | exact h2.parse_var_decl
        | exact h2.parse_array_literal | exact h2.parse_object_literal)
    | (intros
       exact run_le_trans (by first
        | exact h1.switch_clauses_loop _ _ _ _ | exact h1.switch_stmts_loop _ _ _ _ _
        | exact h1.parse_expression _ | exact h1.atomic_postfix_loop _
        | exact h1.parens_list_loop _ _ _ | exact h1.parse_bin_op _ _
        | exact h1.template_loop _ _ _ | exact h1.param_list_loop _ _
        | exact h1.block_loop _ _ | exact h1.var_decl_loop _ _ _ | exact h1.array_loop _ _
        | exact h1.object_loop _ _ | exact h1.parse_computed_access _ | exact h1.parse_call _
        | exact h1.call_loop _ _ _ | exact h1.parse_block_or_obj _)
        (by first
        | exact h2.switch_clauses_loop _ _ _ _ | exact h2.switch_stmts_loop _ _ _ _ _
        | exact h2.parse_expression _ | exact h2.atomic_postfix_loop _
        | exact h2.parens_list_loop _ _ _ | exact h2.parse_bin_op _ _
        | exact h2.template_loop _ _ _ | exact h2.param_list_loop _ _
        | exact h2.block_loop _ _ | exact h2.var_decl_loop _ _ _ | exact h2.array_loop _ _
        | exact h2.object_loop _ _ | exact h2.parse_computed_access _ | exact h2.parse_call _
        | exact h2.call_loop _ _ _ | exact h2.parse_block_or_obj _))

/-- More fuel does not change a result. -/
theorem parsers_mono (ops : operators_def) {m n : Nat} (h : m ≤ n) :
    fns_le (parsers ops m) (parsers ops n) := by
  induction h with
  | refl => exact fns_le_refl _
  | step _ ih => exact fns_le_trans ih (parsers_le_succ ops _)

theorem runs_mono {ops : operators_def} {f : parser_fns → P Node}
    (hf : ∀ a b, fns_le a b → run_le (f a) (f b)) {s : parser_base} {r : Node × parser_base}
    {fuel fuel2 : Nat} (h : f (parsers ops fuel) s = some r) (hle : fuel ≤ fuel2) :
    f (parsers ops fuel2) s = some r :=
  hf _ _ (parsers_mono ops hle) s r h

theorem runs_member {ops : operators_def} {f : parser_fns → P Node}
    (hf : ∀ a b, fns_le a b → run_le (f a) (f b)) {s : parser_base} {r : Node × parser_base}
    (h : runs ops f s r) : ∃ fuel0, ∀ fuel, fuel0 ≤ fuel → f (parsers ops fuel) s = some r := by
  obtain ⟨fuel0, h0⟩ := h
  exact ⟨fuel0, fun fuel hle => runs_mono hf h0 hle⟩

theorem paren_entries_ne_nil {ops : operators_def} {s s1 : parser_base} {ts : List Node}
    (h : paren_entries ops s ts s1) : ts ≠ [] := by
  cases h <;> simp

theorem paren_entries_close {ops : operators_def} {s s1 : parser_base} {ts : List Node}
    (h : paren_entries ops s ts s1) : s1.current_token.type = .PAREN_CLOSE := by
  induction h with
  | last _ _ _ _ _ _ _ _ _ hc => exact hc
  | more _ _ _ _ _ _ _ _ _ _ _ _ _ _ _ ih => exact ih

/-- The loop of `parse_parens_expr` over the entries of a list: it ends in
`parens_tail` with the trees of the entries appended, in their order. -/
theorem parens_list_loop_entries (ops : operators_def) {s s1 : parser_base} {ts : List Node}
    (h : paren_entries ops s ts s1) :
    ∀ (loc : source_location) (reason : Option token) (exprs : List Node)
      (r : Node × parser_base),
      (∀ reason2, runs ops (fun self => parens_tail self loc reason2 none (exprs ++ ts)) s1 r) →
      runs ops (fun self => self.parens_list_loop loc reason exprs) s r := by
  induction h with
  | last s s1 s2 t hd hp ht he ha hc =>
    intro loc reason exprs r htail
    obtain ⟨f1, h1⟩ := runs_member (fun a b h => h.parse_expression false) hp
    obtain ⟨f2, h2⟩ := runs_member (fun a b h => mono_parens_tail h _ _ _ _)
      (htail (if reason.isNone ∧ !t.isa_identifier_expr then some s.current_token else reason))
    refine ⟨max f1 f2 + 1, ?_⟩
    show (parsers ops (max f1 f2 + 1)).parens_list_loop loc reason exprs s = some r
    rw [parsers_succ_parens_list_loop]
    unfold parens_list_loop
    simp only [P_bind_apply, current_token, Option.some_bind, hd, if_false]
    rw [SUBPARSE_ok _ _ (h1 _ (le_max_left _ _)) he ht]
    simp only [P_bind_apply, Option.some_bind, assert_that_ok _ _ (by simp [ht] : (!t.isNull) = true)]
    rw [ADVANCE_OR_ERROR_ok _ _ _ he ha, EXPECT_SEVERAL_ok _ _ _ (by simp [hc])]
    simp only [P_bind_apply, current_token, Option.some_bind, hc, if_true]
    exact h2 _ (le_max_right _ _)
  | more s s1 s2 s3 s4 t ts hd hp ht he ha hc ha2 _ ih =>
    intro loc reason exprs r htail
    obtain ⟨f1, h1⟩ := runs_member (fun a b h => h.parse_expression false) hp
    obtain ⟨f2, h2⟩ := runs_member (fun a b h => h.parens_list_loop _ _ _)
      (ih loc (if reason.isNone ∧ !t.isa_identifier_expr then some s.current_token else reason)
        (exprs ++ [t]) r (fun reason2 => by simpa using htail reason2))
    have e2 : s2.error = none := by rw [advance_true_error ha, he]
    refine ⟨max f1 f2 + 1, ?_⟩
    show (parsers ops (max f1 f2 + 1)).parens_list_loop loc reason exprs s = some r
    rw [parsers_succ_parens_list_loop]
    unfold parens_list_loop
    simp only [P_bind_apply, current_token, Option.some_bind, hd, if_false]
    rw [SUBPARSE_ok _ _ (h1 _ (le_max_left _ _)) he ht]
    simp only [P_bind_apply, Option.some_bind, assert_that_ok _ _ (by simp [ht] : (!t.isNull) = true)]
    rw [ADVANCE_OR_ERROR_ok _ _ _ he ha, EXPECT_SEVERAL_ok _ _ _ (by simp [hc])]
    simp only [P_bind_apply, current_token, Option.some_bind, hc, reduceCtorEq, if_false, if_true]
    rw [ADVANCE_OR_ERROR_ok _ _ _ e2 ha2]
    exact h2 _ (le_max_right _ _)

/-- C13: parenthesized expressions.  When the entries of a parenthesized list
parse, with the comma as separator, to the trees `t`, `ts` and the token after
the closing parenthesis is not `=>` (or the input ends there), then
`parse_parens_expr` returns the left fold of the trees under the comma operator:
for one entry the tree of the entry itself, and for an entry more the comma
operation of the fold so far and the tree of that entry.  So the tokens of
`( ( ( 1 ) ) )` give the literal `1`. -/
theorem parenthesized_list_is_left_fold (ops : operators_def) (s0 s s1 : parser_base)
    (t : Node) (ts : List Node)
    (ho : s0.current_token.type = .PAREN_OPEN) (he : s0.error = none)
    (ha : advance s0 = some (true, s)) (hne : s.current_token.type ≠ .PAREN_CLOSE)
    (hl : paren_entries ops s (t :: ts) s1) :
    (∀ s2, advance s1 = some (false, s2) →
      runs ops (fun self => self.parse_parens_expr) s0 (comma_fold t ts, s2)) ∧
    (∀ s2, advance s1 = some (true, s2) → s2.current_token.type ≠ .ARROW →
      ∃ s3, rewind s1.current_token s2 = some ((), s3) ∧
        runs ops (fun self => self.parse_parens_expr) s0 (comma_fold t ts, s3)) ∧
    comma_fold t [] = t ∧
    (∀ u, comma_fold t (ts ++ [u]) =
      .bin_op_expr .comma_operator (comma_fold t ts).loc (comma_fold t ts) u) ∧
    (match parse_fresh 40 (tokens [(.PAREN_OPEN, "("), (.PAREN_OPEN, "("), (.PAREN_OPEN, "("),
        (.INT_LITERAL, "1"), (.PAREN_CLOSE, ")"), (.PAREN_CLOSE, ")"),
        (.PAREN_CLOSE, ")")]) with
     | some (.module (.module _ [.int_literal _ "1"])) => true
     | _ => false) = true ∧
    (match parse_fresh 40 (tokens [(.PAREN_OPEN, "("), (.IDENTIFIER, "a"), (.COMMA, ","),
        (.IDENTIFIER, "b"), (.COMMA, ","), (.IDENTIFIER, "c"), (.PAREN_CLOSE, ")")]) with
     | some (.module (.module _ [.bin_op_expr .comma_operator _ (.bin_op_expr .comma_operator _
          (.identifier_expr _ "a") (.identifier_expr _ "b")) (.identifier_expr _ "c")])) => true
     | _ => false) = true := by
  have hc := paren_entries_close hl
  have e1 : s.error = none := by rw [advance_true_error ha, he]
  have start : ∀ r, runs ops (fun self => self.parens_list_loop s0.current_token.loc none []) s r →
      runs ops (fun self => self.parse_parens_expr) s0 r := by
    rintro r ⟨fuel, hr⟩
    refine ⟨fuel + 1, ?_⟩
    show (parsers ops (fuel + 1)).parse_parens_expr s0 = some r
    rw [parsers_succ_parse_parens_expr]
    unfold parse_parens_expr
    simp only [P_bind_apply, current_token, Option.some_bind, assert_that_ok _ _ ho]
    rw [ADVANCE_OR_ERROR_ok _ _ _ he ha]
    simp only [P_bind_apply, current_token, Option.some_bind, hne, ne_eq, not_false_eq_true,
      if_true]
    exact hr
  refine ⟨fun s2 h2 => start _ ?_, fun s2 h2 hna => ?_, rfl, fun u => ?_, by decide!,
    by decide!⟩
  · refine parens_list_loop_entries ops hl _ _ _ _ (fun reason2 => ⟨0, ?_⟩)
    show parens_tail (parsers ops 0) s0.current_token.loc reason2 none ([] ++ t :: ts) s1 = _
    unfold parens_tail
    rw [EXPECT_ok _ _ _ hc]
    simp [current_token, h2]
  · have hcm : s1.current_token.type ≠ .BLOCK_COMMENT ∧
        s1.current_token.type ≠ .LINE_COMMENT := by
      rw [hc]
      exact ⟨by decide, by decide⟩
    obtain ⟨⟨s3, r1, _⟩, _⟩ := rewind_advance_round_trip_aux s2 s1.current_token hcm
    refine ⟨s3, r1, start _ ?_⟩
    refine parens_list_loop_entries ops hl _ _ _ _ (fun reason2 => ⟨0, ?_⟩)
    show parens_tail (parsers ops 0) s0.current_token.loc reason2 none ([] ++ t :: ts) s1 = _
    unfold parens_tail
    rw [EXPECT_ok _ _ _ hc]
    simp [current_token, h2, hna, r1]
  · simp [comma_fold, List.foldl_append]

theorem parenthesized_list_is_left_fold_witness :
    runs js_operators (fun self => self.parse_parens_expr)
      { fresh_state (tokens_from 2 [(.INT_LITERAL, "1"), (.PAREN_CLOSE, ")")]) with
        current_token := ⟨.PAREN_OPEN, "(", ⟨1, 1⟩⟩ }
      (.int_literal ⟨1, 2⟩ "1",
        { fresh_state [] with current_token := ⟨.PAREN_CLOSE, ")", ⟨1, 3⟩⟩ }) :=
  (parenthesized_list_is_left_fold js_operators
    { fresh_state (tokens_from 2 [(.INT_LITERAL, "1"), (.PAREN_CLOSE, ")")]) with
      current_token := ⟨.PAREN_OPEN, "(", ⟨1, 1⟩⟩ }
    { fresh_state (tokens_from 3 [(.PAREN_CLOSE, ")")]) with
      current_token := ⟨.INT_LITERAL, "1", ⟨1, 2⟩⟩ }
    { fresh_state [] with current_token := ⟨.PAREN_CLOSE, ")", ⟨1, 3⟩⟩ }
    (.int_literal ⟨1, 2⟩ "1") [] rfl rfl rfl (by decide)
    (paren_entries.last _
      { fresh_state [] with current_token := ⟨.INT_LITERAL, "1", ⟨1, 2⟩⟩,
                            rewind_stack := [⟨.PAREN_CLOSE, ")", ⟨1, 3⟩⟩] }
      _ _ (by decide) ⟨6, rfl⟩ rfl rfl rfl rfl)).1 _ rfl

theorem rewind_ok (t : token) (s : parser_base)
    (ht : t.type ≠ .BLOCK_COMMENT ∧ t.type ≠ .LINE_COMMENT) :
    rewind t s = some ((), { s with rewind_stack := s.current_token :: s.rewind_stack,
                                    current_token := t }) := by
  simp [rewind, assert_that, parser_base.check, ht.1, ht.2]

theorem advance_rewound (t : token) (s : parser_base) :
    advance { s with rewind_stack := s.current_token :: s.rewind_stack, current_token := t } =
      some (true, s) := by
  simp [advance]

/-- An identifier that a comma or a closing parenthesis follows parses, as an
expression with the comma as separator, to its `identifier_expr`; the token
after it is pushed back. -/
theorem parse_identifier_entry (ops : operators_def) (fuel : Nat) {s s1 : parser_base}
    (hx : s.current_token.type = .IDENTIFIER) (he : s.error = none)
    (ha : advance s = some (true, s1))
    (hn : s1.current_token.type = .COMMA ∨ s1.current_token.type = .PAREN_CLOSE) :
    (parsers ops (fuel + 4)).parse_expression false s =
      some (.identifier_expr s.current_token.loc s.current_token.text,
        { s1 with rewind_stack := s1.current_token :: s1.rewind_stack,
                  current_token := s.current_token }) := by
  have hcm : s.current_token.type ≠ .BLOCK_COMMENT ∧ s.current_token.type ≠ .LINE_COMMENT := by
    rw [hx]
    exact ⟨by decide, by decide⟩
  have e1 : s1.error = none := by rw [advance_true_error ha, he]
  have hr := rewind_ok s.current_token s1 hcm
  have hadv := advance_rewound s.current_token s1
  have hnd : s1.current_token.type ≠ .DOT ∧ s1.current_token.type ≠ .PAREN_OPEN ∧
      s1.current_token.type ≠ .BRACKET_OPEN ∧ s1.current_token.type ≠ .INCR ∧
      s1.current_token.type ≠ .DECR := by
    rcases hn with h | h <;> rw [h] <;> decide
  have hend : is_expression_end s1.current_token false = true := by
    rcases hn with h | h <;> simp [is_expression_end, h]
  have hpost : (parsers ops (fuel + 1)).atomic_postfix_loop
      (.identifier_expr s.current_token.loc s.current_token.text) s =
      some (.identifier_expr s.current_token.loc s.current_token.text,
        { s1 with rewind_stack := s1.current_token :: s1.rewind_stack,
                  current_token := s.current_token }) := by
    rw [parsers_succ_atomic_postfix_loop]
    unfold atomic_postfix_loop
    simp only [P_bind_apply, current_token, Option.some_bind, ha, if_true, hnd.1, hnd.2.1,
      hnd.2.2.1, if_false, hr, P_pure_apply]
  have hatom : (parsers ops (fuel + 2)).parse_atomic_expr s =
      some (.identifier_expr s.current_token.loc s.current_token.text,
        { s1 with rewind_stack := s1.current_token :: s1.rewind_stack,
                  current_token := s.current_token }) := by
    rw [parsers_succ_parse_atomic_expr]
    unfold parse_atomic_expr atomic_start
    simp only [P_bind_apply, current_token, Option.some_bind, hx, reduceCtorEq, if_false,
      if_true, P_pure_apply, Node.isNull, Bool.false_eq_true, hpost]
    unfold atomic_postfix_step
    simp only [P_bind_apply, current_token, Option.some_bind, hadv, if_true, hnd.2.2.2.1,
      hnd.2.2.2.2, if_false, hr, P_pure_apply]
  have hun : (parsers ops (fuel + 3)).parse_unary_or_atomic_expr s =
      some (.identifier_expr s.current_token.loc s.current_token.text,
        { s1 with rewind_stack := s1.current_token :: s1.rewind_stack,
                  current_token := s.current_token }) := by
    rw [parsers_succ_parse_unary_or_atomic_expr]
    unfold parse_unary_or_atomic_expr
    have hu : is_unary_prefix_op s.current_token = false := by
      simp [is_unary_prefix_op, is_prefix_op_type, hx]
    simp only [P_bind_apply, current_token, Option.some_bind, hu, Bool.false_eq_true, if_false,
      hatom]
    refine Eq.trans (ASSERT_PARSE_RESULT_ok _ _ e1 ?_) ?_ <;> rfl
  rw [parsers_succ_parse_expression]
  unfold parse_expression
  simp only [P_bind_apply, Option.some_bind, hun, Node.isNull, Bool.not_false, if_true,
    current_token, hadv, Bool.not_true, Bool.false_eq_true, if_false, hend, hr, P_pure_apply]

theorem ident_params_close {s s1 : parser_base} {xs : List token} {r : Option token}
    (h : ident_params s xs r s1) : s1.current_token.type = .PAREN_CLOSE := by
  induction h with
  | rest _ _ _ _ _ _ _ hc => exact hc
  | last _ _ _ _ hc => exact hc
  | more _ _ _ _ _ _ _ _ _ _ _ ih => exact ih

theorem ident_params_error {s s1 : parser_base} {xs : List token} {r : Option token}
    (h : ident_params s xs r s1) : s1.error = s.error := by
  induction h with
  | rest _ _ _ _ h1 _ h2 _ => rw [advance_true_error h2, advance_true_error h1]
  | last _ _ _ h1 _ => rw [advance_true_error h1]
  | more _ _ _ _ _ _ _ h1 _ h2 _ ih => rw [ih, advance_true_error h2, advance_true_error h1]

theorem ident_params_start {s s1 : parser_base} {xs : List token} {r : Option token}
    (h : ident_params s xs r s1) : s.current_token.type ≠ .PAREN_CLOSE := by
  cases h with
  | rest _ _ _ h => rw [h]; decide
  | last _ _ h => rw [h]; decide
  | more _ _ _ _ _ _ h => rw [h]; decide

/-- The loop of `parse_parens_expr` over a list of identifiers: it ends in
`parens_tail` with the `identifier_expr` nodes of the identifiers appended, in
their order, the rest parameter if there is one, and no invalid entry. -/
theorem parens_list_loop_idents (ops : operators_def) {s s1 : parser_base} {xs : List token}
    {r : Option token} (h : ident_params s xs r s1) :
    s.error = none →
    ∀ (loc : source_location) (exprs : List Node) (res : Node × parser_base),
      runs ops (fun self => parens_tail self loc none r
        (exprs ++ xs.map fun x => .identifier_expr x.loc x.text)) s1 res →
      runs ops (fun self => self.parens_list_loop loc none exprs) s res := by
  induction h with
  | rest s s1 s2 hd h1 hi h2 hc =>
    intro he loc exprs res htail
    obtain ⟨f2, hf2⟩ := runs_member (fun a b h => mono_parens_tail h _ _ _ _) htail
    have e1 : s1.error = none := by rw [advance_true_error h1, he]
    refine ⟨f2 + 1, ?_⟩
    show (parsers ops (f2 + 1)).parens_list_loop loc none exprs s = some res
    rw [parsers_succ_parens_list_loop]
    unfold parens_list_loop
    simp only [P_bind_apply, current_token, Option.some_bind, hd, if_true]
    rw [ADVANCE_OR_ERROR_ok _ _ _ he h1, EXPECT_ok _ _ _ hi]
    simp only [P_bind_apply, current_token, Option.some_bind]
    rw [ADVANCE_OR_ERROR_ok _ _ _ e1 h2, EXPECT_ok _ _ _ hc]
    simpa using hf2 _ (Nat.le_refl _)
  | last s s1 hx h1 hc =>
    intro he loc exprs res htail
    obtain ⟨f2, hf2⟩ := runs_member (fun a b h => mono_parens_tail h _ _ _ _) htail
    have e1 : s1.error = none := by rw [advance_true_error h1, he]
    have hnd : s.current_token.type ≠ .DOTDOTDOT := by rw [hx]; decide
    refine ⟨f2 + 4 + 1, ?_⟩
    show (parsers ops (f2 + 4 + 1)).parens_list_loop loc none exprs s = some res
    rw [parsers_succ_parens_list_loop]
    unfold parens_list_loop
    simp only [P_bind_apply, current_token, Option.some_bind, hnd, if_false]
    rw [SUBPARSE_ok _ _ (parse_identifier_entry ops f2 hx he h1 (Or.inr hc)) e1 rfl]
    simp only [P_bind_apply, Option.some_bind, Node.isNull, Bool.not_false, assert_that,
      decide_True, check_true]
    have e1r : ({ s1 with rewind_stack := s1.current_token :: s1.rewind_stack,
                          current_token := s.current_token } : parser_base).error = none := e1
    rw [ADVANCE_OR_ERROR_ok _ _ _ e1r (advance_rewound _ _),
      EXPECT_SEVERAL_ok _ _ _ (by simp [hc])]
    simp only [P_bind_apply, current_token, Option.some_bind, hc, if_true, Option.isNone_none,
      Node.isa_identifier_expr, Bool.not_true, Bool.false_eq_true, and_false, if_false]
    exact hf2 _ (by omega)
  | more s s1 s2 s3 xs r hx h1 hc h2 _ ih =>
    intro he loc exprs res htail
    have e1 : s1.error = none := by rw [advance_true_error h1, he]
    have e2 : s2.error = none := by rw [advance_true_error h2, e1]
    obtain ⟨f2, hf2⟩ := runs_member (fun a b h => h.parens_list_loop _ _ _)
      (ih e2 loc (exprs ++ [.identifier_expr s.current_token.loc s.current_token.text]) res
        (by simpa using htail))
    have hnd : s.current_token.type ≠ .DOTDOTDOT := by rw [hx]; decide
    refine ⟨f2 + 4 + 1, ?_⟩
    show (parsers ops (f2 + 4 + 1)).parens_list_loop loc none exprs s = some res
    rw [parsers_succ_parens_list_loop]
    unfold parens_list_loop
    simp only [P_bind_apply, current_token, Option.some_bind, hnd, if_false]
    rw [SUBPARSE_ok _ _ (parse_identifier_entry ops f2 hx he h1 (Or.inl hc)) e1 rfl]
    simp only [P_bind_apply, Option.some_bind, Node.isNull, Bool.not_false, assert_that,
      decide_True, check_true]
    have e1r : ({ s1 with rewind_stack := s1.current_token :: s1.rewind_stack,
                          current_token := s.current_token } : parser_base).error = none := e1
    rw [ADVANCE_OR_ERROR_ok _ _ _ e1r (advance_rewound _ _),
      EXPECT_SEVERAL_ok _ _ _ (by simp [hc])]
    simp only [P_bind_apply, current_token, Option.some_bind, hc, reduceCtorEq, if_false,
      if_true, Option.isNone_none, Node.isa_identifier_expr, Bool.not_true, Bool.false_eq_true,
      and_false]
    rw [ADVANCE_OR_ERROR_ok _ _ _ e1 h2]
    exact hf2 _ (by omega)

theorem map_str_identifier_exprs (xs : List token) :
    (xs.map fun x => Node.identifier_expr x.loc x.text).map Node.str = xs.map token.text := by
  induction xs with
  | nil => rfl
  | cons x xs ih => simp [Node.str]

/-- C12: arrow function shape.  When the tokens after an opening parenthesis are
the identifiers `xs` separated by commas, possibly followed by `...` and a rest
identifier `r`, then the closing parenthesis and `=>`, `parse_parens_expr`
returns an `arrow_function` at the opening parenthesis whose `param_list` has the
texts of `xs` in order as names and the text of `r` as rest (none if absent), and
whose body is what `parse_block_or_obj` returns when the token after `=>` is an
opening brace and otherwise what `parse_expression` returns with the comma as
separator.  So `( test ) => console . log ( test )` has the names `test` and a
call as body. -/
theorem arrow_function_shape (ops : operators_def) (s0 s s1 sa sb s2 : parser_base)
    (xs : List token) (r : Option token) (body : Node)
    (ho : s0.current_token.type = .PAREN_OPEN) (he : s0.error = none)
    (ha : advance s0 = some (true, s))
    (hl : (s.current_token.type = .PAREN_CLOSE ∧ xs = [] ∧ r = none ∧ s1 = s) ∨
      ident_params s xs r s1)
    (h1 : advance s1 = some (true, sa)) (harrow : sa.current_token.type = .ARROW)
    (h2 : advance sa = some (true, sb))
    (hb : if sb.current_token.type = .BRACE_OPEN then
        runs ops (fun self => self.parse_block_or_obj true) sb (body, s2)
      else runs ops (fun self => self.parse_expression false) sb (body, s2))
    (hb0 : body.isNull = false) (hbe : s2.error = none) :
    runs ops (fun self => self.parse_parens_expr) s0
      (.arrow_function s0.current_token.loc
        (.param_list s0.current_token.loc (xs.map token.text) (r.map token.text)) body, s2) ∧
    (match parse_fresh 40 (tokens [(.PAREN_OPEN, "("), (.IDENTIFIER, "test"),
        (.PAREN_CLOSE, ")"), (.ARROW, "=>"), (.IDENTIFIER, "console"), (.DOT, "."),
        (.IDENTIFIER, "log"), (.PAREN_OPEN, "("), (.IDENTIFIER, "test"),
        (.PAREN_CLOSE, ")")]) with
     | some (.module (.module _ [.arrow_function _ (.param_list _ ["test"] none)
          (.call_expr _ _ _)])) => true
     | _ => false) = true ∧
    (match parse_fresh 40 (tokens [(.PAREN_OPEN, "("), (.IDENTIFIER, "a"), (.COMMA, ","),
        (.IDENTIFIER, "b"), (.COMMA, ","), (.DOTDOTDOT, "..."), (.IDENTIFIER, "r"),
        (.PAREN_CLOSE, ")"), (.ARROW, "=>"), (.BRACE_OPEN, "\x7b"),
        (.BRACE_CLOSE, "\x7d")]) with
     | some (.module (.module _ [.arrow_function _ (.param_list _ ["a", "b"] (some "r"))
          (.block _ [])])) => true
     | _ => false) = true := by
  refine ⟨?_, by decide!, by decide!⟩
  have e0 : s.error = none := by rw [advance_true_error ha, he]
  have hc : s1.current_token.type = .PAREN_CLOSE := by
    rcases hl with ⟨h, _, _, rfl⟩ | h
    · exact h
    · exact ident_params_close h
  have e1 : s1.error = none := by
    rcases hl with ⟨_, _, _, rfl⟩ | h
    · exact e0
    · rw [ident_params_error h, e0]
  have ea : sa.error = none := by rw [advance_true_error h1, e1]
  -- the end of the list: the arrow function
  have tail : ∀ exprs : List Node, runs ops (fun self =>
      parens_tail self s0.current_token.loc none r exprs) s1
      (.arrow_function s0.current_token.loc
        (.param_list s0.current_token.loc (exprs.map Node.str) (r.map token.text)) body, s2) := by
    intro exprs
    have key : ∀ fuel, (if sb.current_token.type = .BRACE_OPEN then
          (parsers ops fuel).parse_block_or_obj true sb = some (body, s2)
        else (parsers ops fuel).parse_expression false sb = some (body, s2)) →
        parens_tail (parsers ops fuel) s0.current_token.loc none r exprs s1 =
          some (.arrow_function s0.current_token.loc
            (.param_list s0.current_token.loc (exprs.map Node.str) (r.map token.text)) body,
            s2) := by
      intro fuel hf
      unfold parens_tail
      rw [EXPECT_ok _ _ _ hc]
      simp only [P_bind_apply, current_token, Option.some_bind, h1, harrow, and_self, if_true]
      unfold parens_arrow
      simp only []
      rw [ADVANCE_OR_ERROR_ok _ _ _ ea h2]
      simp only [P_bind_apply, current_token, Option.some_bind]
      split at hf
      · rename_i hbr
        simp only [hbr, if_true, P_bind_apply, hf, Option.some_bind]
        refine Eq.trans (ASSERT_PARSE_RESULT_ok _ _ hbe hb0) rfl
      · rename_i hbr
        simp only [hbr, if_false, P_bind_apply, hf, Option.some_bind]
        refine Eq.trans (ASSERT_PARSE_RESULT_ok _ _ hbe hb0) rfl
    split at hb
    · rename_i hbr
      obtain ⟨fuel, hf⟩ := hb
      exact ⟨fuel, key fuel (by simpa [hbr] using hf)⟩
    · rename_i hbr
      obtain ⟨fuel, hf⟩ := hb
      exact ⟨fuel, key fuel (by simpa [hbr] using hf)⟩
  have start : ∀ res, (if s.current_token.type ≠ .PAREN_CLOSE then
        runs ops (fun self => self.parens_list_loop s0.current_token.loc none []) s res
      else runs ops (fun self => parens_tail self s0.current_token.loc none none []) s res) →
      runs ops (fun self => self.parse_parens_expr) s0 res := by
    intro res hres
    have key : ∀ fuel, (if s.current_token.type ≠ .PAREN_CLOSE then
          (parsers ops fuel).parens_list_loop s0.current_token.loc none [] s = some res
        else parens_tail (parsers ops fuel) s0.current_token.loc none none [] s = some res) →
        (parsers ops (fuel + 1)).parse_parens_expr s0 = some res := by
      intro fuel hf
      rw [parsers_succ_parse_parens_expr]
      unfold parse_parens_expr
      simp only [P_bind_apply, current_token, Option.some_bind, assert_that_ok _ _ ho]
      rw [ADVANCE_OR_ERROR_ok _ _ _ he ha]
      simp only [P_bind_apply, current_token, Option.some_bind]
      split at hf
      · rename_i hp
        simp only [hp, ne_eq, not_false_eq_true, if_true]
        exact hf
      · rename_i hp
        simp only [hp, if_false]
        exact hf
    split at hres
    · rename_i hp
      obtain ⟨fuel, hf⟩ := hres
      exact ⟨fuel + 1, key fuel (by simpa [hp] using hf)⟩
    · rename_i hp
      obtain ⟨fuel, hf⟩ := hres
      exact ⟨fuel + 1, key fuel (by simpa [hp] using hf)⟩
  apply start
  rcases hl with ⟨hp, rfl, rfl, rfl⟩ | hl
  · simp only [hp, ne_eq, not_true_eq_false, if_false]
    simpa using tail []
  · simp only [ident_params_start hl, ne_eq, not_false_eq_true, if_true]
    refine parens_list_loop_idents ops hl e0 _ _ _ ?_
    have := tail ([] ++ xs.map fun x => Node.identifier_expr x.loc x.text)
    rw [List.nil_append, map_str_identifier_exprs] at this
    simpa using this

theorem arrow_function_shape_witness :
    runs js_operators (fun self => self.parse_parens_expr)
      { fresh_state (tokens_from 2 [(.IDENTIFIER, "a"), (.PAREN_CLOSE, ")"), (.ARROW, "=>"),
          (.INT_LITERAL, "1")]) with current_token := ⟨.PAREN_OPEN, "(", ⟨1, 1⟩⟩ }
      (.arrow_function ⟨1, 1⟩ (.param_list ⟨1, 1⟩ ["a"] none) (.int_literal ⟨1, 5⟩ "1"),
        { fresh_state [] with current_token := ⟨.INT_LITERAL, "1", ⟨1, 5⟩⟩ }) :=
  (arrow_function_shape js_operators
    { fresh_state (tokens_from 2 [(.IDENTIFIER, "a"), (.PAREN_CLOSE, ")"), (.ARROW, "=>"),
        (.INT_LITERAL, "1")]) with current_token := ⟨.PAREN_OPEN, "(", ⟨1, 1⟩⟩ }
    { fresh_state (tokens_from 3 [(.PAREN_CLOSE, ")"), (.ARROW, "=>"), (.INT_LITERAL, "1")]) with
      current_token := ⟨.IDENTIFIER, "a", ⟨1, 2⟩⟩ }
    { fresh_state (tokens_from 4 [(.ARROW, "=>"), (.INT_LITERAL, "1")]) with
      current_token := ⟨.PAREN_CLOSE, ")", ⟨1, 3⟩⟩ }
    { fresh_state (tokens_from 5 [(.INT_LITERAL, "1")]) with
      current_token := ⟨.ARROW, "=>", ⟨1, 4⟩⟩ }
    { fresh_state [] with current_token := ⟨.INT_LITERAL, "1", ⟨1, 5⟩⟩ }
    { fresh_state [] with current_token := ⟨.INT_LITERAL, "1", ⟨1, 5⟩⟩ }
    [⟨.IDENTIFIER, "a", ⟨1, 2⟩⟩] none (.int_literal ⟨1, 5⟩ "1") rfl rfl rfl
    (Or.inr (ident_params.last _ _ rfl rfl rfl)) rfl rfl rfl
    (by rw [if_neg (by decide)]; exact ⟨6, rfl⟩) rfl rfl).1

theorem is_possible_object_key_comment {t : token} (h : is_possible_object_key t = true) :
    t.type ≠ .BLOCK_COMMENT ∧ t.type ≠ .LINE_COMMENT := by
  unfold is_possible_object_key at h
  constructor <;> intro hc <;> rw [hc] at h <;> cases h

/-- One round of the loop of `parse_object_literal` over an entry. -/
theorem object_loop_entry (ops : operators_def) {s s1 : parser_base} {e : Node}
    (h : object_entry ops s e s1) (loc : source_location) (entries : List Node)
    (res : Node × parser_base)
    (htail : runs ops (fun self => object_entry_end self loc (entries ++ [e])) s1 res) :
    runs ops (fun self => self.object_loop loc entries) s res ∧ s1.error = none := by
  obtain ⟨f2, hf2⟩ := runs_member (fun a b h => mono_object_entry_end h _ _) htail
  cases h with
  | spread sa _ expr hd he ha hp he1 =>
    obtain ⟨f1, hf1⟩ := runs_member (fun a b h => h.parse_expression false) hp
    refine ⟨⟨max f1 f2 + 1, ?_⟩, he1⟩
    show (parsers ops (max f1 f2 + 1)).object_loop loc entries s = some res
    rw [parsers_succ_object_loop]
    unfold object_loop
    simp only [P_bind_apply, current_token, Option.some_bind, hd, reduceCtorEq, if_false, if_true]
    rw [ADVANCE_OR_ERROR_ok _ _ _ he ha]
    simp only [P_bind_apply, Option.some_bind, hf1 _ (le_max_left _ _)]
    exact hf2 _ (le_max_right _ _)
  | shorthand sa hb hd hk he ha hc =>
    refine ⟨⟨f2 + 1, ?_⟩, ?_⟩
    · show (parsers ops (f2 + 1)).object_loop loc entries s = some res
      rw [parsers_succ_object_loop]
      unfold object_loop
      simp only [P_bind_apply, current_token, Option.some_bind, hb, hd, hk, if_false, if_true]
      rw [ADVANCE_OR_ERROR_ok _ _ _ he ha]
      simp only [P_bind_apply, current_token, Option.some_bind, hc, ne_eq, not_false_eq_true,
        if_true, rewind_ok _ _ (is_possible_object_key_comment hk)]
      exact hf2 _ (Nat.le_refl _)
    · show sa.error = none
      rw [advance_true_error ha, he]
  | keyed sa sb _ val hb hd hk he ha hc ha2 hp he1 =>
    obtain ⟨f1, hf1⟩ := runs_member (fun a b h => h.parse_expression false) hp
    have ea : sa.error = none := by rw [advance_true_error ha, he]
    refine ⟨⟨max f1 f2 + 1, ?_⟩, he1⟩
    show (parsers ops (max f1 f2 + 1)).object_loop loc entries s = some res
    rw [parsers_succ_object_loop]
    unfold object_loop
    simp only [P_bind_apply, current_token, Option.some_bind, hb, hd, hk, if_false, if_true]
    rw [ADVANCE_OR_ERROR_ok _ _ _ he ha]
    simp only [P_bind_apply, current_token, Option.some_bind, hc, ne_eq, not_true_eq_false,
      if_false]
    rw [ADVANCE_OR_ERROR_ok _ _ _ ea ha2]
    simp only [P_bind_apply, Option.some_bind, hf1 _ (le_max_left _ _)]
    exact hf2 _ (le_max_right _ _)

/-- The loop of `parse_object_literal` over the entries of a literal: it comes
to the end of a round with the entries appended, in their order. -/
theorem object_loop_entries (ops : operators_def) {s s1 : parser_base} {es : List Node}
    (h : object_entries ops s es s1) :
    ∀ (loc : source_location) (entries : List Node) (res : Node × parser_base),
      runs ops (fun self => object_entry_end self loc (entries ++ es)) s1 res →
      runs ops (fun self => self.object_loop loc entries) s res := by
  induction h with
  | last s s1 e he =>
    intro loc entries res htail
    exact (object_loop_entry ops he loc entries res htail).1
  | more s s1 s2 s3 s4 e es he ha hc ha2 _ ih =>
    intro loc entries res htail
    have hnext := ih loc (entries ++ [e]) res (by simpa using htail)
    obtain ⟨f2, hf2⟩ := runs_member (fun a b h => h.object_loop _ _) hnext
    have hround : runs ops (fun self => object_entry_end self loc (entries ++ [e])) s1 res := by
      have e1 : s1.error = none := by
        cases he with
        | spread _ _ _ _ _ _ _ h => exact h
        | shorthand sa _ _ _ he0 ha0 _ =>
          show sa.error = none
          rw [advance_true_error ha0, he0]
        | keyed _ _ _ _ _ _ _ _ _ _ _ _ h => exact h
      have e2 : s2.error = none := by rw [advance_true_error ha, e1]
      refine ⟨f2, ?_⟩
      show object_entry_end (parsers ops f2) loc (entries ++ [e]) s1 = some res
      unfold object_entry_end
      rw [ADVANCE_OR_ERROR_ok _ _ _ e1 ha, EXPECT_SEVERAL_ok _ _ _ (by simp [hc])]
      simp only [P_bind_apply, current_token, Option.some_bind, hc, if_true]
      rw [ADVANCE_OR_ERROR_ok _ _ _ e2 ha2]
      exact hf2 _ (Nat.le_refl _)
    exact (object_loop_entry ops he loc entries res hround).1

theorem object_entries_error {ops : operators_def} {s s1 : parser_base} {es : List Node}
    (h : object_entries ops s es s1) : s1.error = none := by
  induction h with
  | last s s1 e he =>
    cases he with
    | spread _ _ _ _ _ _ _ h => exact h
    | shorthand sa _ _ _ he0 ha0 _ =>
      show sa.error = none
      rw [advance_true_error ha0, he0]
    | keyed _ _ _ _ _ _ _ _ _ _ _ _ h => exact h
  | more _ _ _ _ _ _ _ _ _ _ _ _ ih => exact ih

/-- C20: object literal trailing comma.  When the loop of `parse_object_literal`
reads the entries `es` (at least one) and the closing brace follows the last
entry either directly or after one comma, `parse_object_literal` returns the
`object_literal` with exactly the entries `es`, in their order, in both cases.
So `let x = { a , }` and `let x = { a }` have the single entry `a`. -/
theorem object_literal_trailing_comma (ops : operators_def) (s0 s s1 s2 s3 : parser_base)
    (es : List Node)
    (ho : s0.current_token.type = .BRACE_OPEN) (he : s0.error = none)
    (ha : advance s0 = some (true, s))
    (hl : object_entries ops s es s1) :
    (advance s1 = some (true, s2) → s2.current_token.type = .BRACE_CLOSE →
      runs ops (fun self => self.parse_object_literal) s0
        (.object_literal s0.current_token.loc es, s2)) ∧
    (advance s1 = some (true, s2) → s2.current_token.type = .COMMA →
      advance s2 = some (true, s3) → s3.current_token.type = .BRACE_CLOSE →
      runs ops (fun self => self.parse_object_literal) s0
        (.object_literal s0.current_token.loc es, s3)) ∧
    (match parse_fresh 40 (tokens [(.KEYWORD, "let"), (.IDENTIFIER, "x"), (.EQ, "="),
        (.BRACE_OPEN, "\x7b"), (.IDENTIFIER, "a"), (.COMMA, ","), (.BRACE_CLOSE, "\x7d")]) with
     | some (.module (.module _ [.var_decl _ "let" [.var_decl_part _ "x"
          (some (.object_literal _ [.identifier_expr _ "a"]))]])) => true
     | _ => false) = true ∧
    (match parse_fresh 40 (tokens [(.KEYWORD, "let"), (.IDENTIFIER, "x"), (.EQ, "="),
        (.BRACE_OPEN, "\x7b"), (.IDENTIFIER, "a"), (.BRACE_CLOSE, "\x7d")]) with
     | some (.module (.module _ [.var_decl _ "let" [.var_decl_part _ "x"
          (some (.object_literal _ [.identifier_expr _ "a"]))]])) => true
     | _ => false) = true := by
  have e1 := object_entries_error hl
  have start : ∀ res, runs ops (fun self => self.object_loop s0.current_token.loc []) s res →
      runs ops (fun self => self.parse_object_literal) s0 res := by
    rintro res ⟨fuel, hr⟩
    refine ⟨fuel + 1, ?_⟩
    show (parsers ops (fuel + 1)).parse_object_literal s0 = some res
    rw [parsers_succ_parse_object_literal]
    unfold parse_object_literal
    simp only [P_bind_apply, current_token, Option.some_bind, assert_that_ok _ _ ho]
    rw [ADVANCE_OR_ERROR_ok _ _ _ he ha]
    exact hr
  have close : ∀ (sc : parser_base), sc.current_token.type = .BRACE_CLOSE →
      (parsers ops 1).object_loop s0.current_token.loc es sc =
        some (.object_literal s0.current_token.loc es, sc) := by
    intro sc hc
    rw [parsers_succ_object_loop]
    unfold object_loop
    simp only [P_bind_apply, current_token, Option.some_bind, hc, if_true]
    rw [EXPECT_ok _ _ _ hc]
    rfl
  refine ⟨fun h2 hc => start _ ?_, fun h2 hc h3 hc3 => start _ ?_, by decide!, by decide!⟩
  · refine object_loop_entries ops hl _ _ _ ⟨1, ?_⟩
    show object_entry_end (parsers ops 1) s0.current_token.loc ([] ++ es) s1 = _
    unfold object_entry_end
    rw [ADVANCE_OR_ERROR_ok _ _ _ e1 h2, EXPECT_SEVERAL_ok _ _ _ (by simp [hc])]
    simp only [P_bind_apply, current_token, Option.some_bind, hc, reduceCtorEq, if_false,
      List.nil_append]
    exact close s2 hc
  · have e2 : s2.error = none := by rw [advance_true_error h2, e1]
    refine object_loop_entries ops hl _ _ _ ⟨1, ?_⟩
    show object_entry_end (parsers ops 1) s0.current_token.loc ([] ++ es) s1 = _
    unfold object_entry_end
    rw [ADVANCE_OR_ERROR_ok _ _ _ e1 h2, EXPECT_SEVERAL_ok _ _ _ (by simp [hc])]
    simp only [P_bind_apply, current_token, Option.some_bind, hc, if_true, List.nil_append]
    rw [ADVANCE_OR_ERROR_ok _ _ _ e2 h3]
    exact close s3 hc3

theorem object_literal_trailing_comma_witness :
    runs js_operators (fun self => self.parse_object_literal)
      { fresh_state (tokens_from 2 [(.IDENTIFIER, "a"), (.COMMA, ","),
          (.BRACE_CLOSE, "\x7d")]) with current_token := ⟨.BRACE_OPEN, "\x7b", ⟨1, 1⟩⟩ }
      (.object_literal ⟨1, 1⟩ [.identifier_expr ⟨1, 2⟩ "a"],
        { fresh_state [] with current_token := ⟨.BRACE_CLOSE, "\x7d", ⟨1, 4⟩⟩ }) :=
  (object_literal_trailing_comma js_operators
    { fresh_state (tokens_from 2 [(.IDENTIFIER, "a"), (.COMMA, ","),
        (.BRACE_CLOSE, "\x7d")]) with current_token := ⟨.BRACE_OPEN, "\x7b", ⟨1, 1⟩⟩ }
    { fresh_state (tokens_from 3 [(.COMMA, ","), (.BRACE_CLOSE, "\x7d")]) with
      current_token := ⟨.IDENTIFIER, "a", ⟨1, 2⟩⟩ }
    { fresh_state (tokens_from 4 [(.BRACE_CLOSE, "\x7d")]) with
      current_token := ⟨.IDENTIFIER, "a", ⟨1, 2⟩⟩,
      rewind_stack := [⟨.COMMA, ",", ⟨1, 3⟩⟩] }
    { fresh_state (tokens_from 4 [(.BRACE_CLOSE, "\x7d")]) with
      current_token := ⟨.COMMA, ",", ⟨1, 3⟩⟩ }
    { fresh_state [] with current_token := ⟨.BRACE_CLOSE, "\x7d", ⟨1, 4⟩⟩ }
    [.identifier_expr ⟨1, 2⟩ "a"] rfl rfl rfl
    (object_entries.last _ _ _
      (object_entry.shorthand
        { fresh_state (tokens_from 3 [(.COMMA, ","), (.BRACE_CLOSE, "\x7d")]) with
          current_token := ⟨.IDENTIFIER, "a", ⟨1, 2⟩⟩ }
        { fresh_state (tokens_from 4 [(.BRACE_CLOSE, "\x7d")]) with
          current_token := ⟨.COMMA, ",", ⟨1, 3⟩⟩ }
        (by decide) (by decide) rfl rfl rfl (by decide)))).2.1 rfl rfl rfl rfl

theorem binary_expr_of_eq (op : token) (lhs rhs : Node) (cio : Bool)
    (h : is_binary_operator op cio = true) (hq : op.type ≠ .QMARK) :
    ∃ kind, binary_expr_of op lhs rhs = .bin_op_expr kind op.loc lhs rhs := by
  obtain ⟨kind, hk⟩ := binary_kind_isSome op (is_binary_operator_of_comma op cio h) hq
  exact ⟨kind, by simp [binary_expr_of, hk]⟩

theorem make_binary_expr_ok (op : token) (lhs rhs : Node) (cio : Bool) (s : parser_base)
    (h : is_binary_operator op cio = true) (hq : op.type ≠ .QMARK) :
    make_binary_expr op lhs rhs s = some (binary_expr_of op lhs rhs, s) := by
  obtain ⟨kind, hk⟩ := binary_kind_isSome op (is_binary_operator_of_comma op cio h) hq
  simp [make_binary_expr, assert_that, is_binary_operator_of_comma op cio h, hk,
    binary_expr_of, Node.isNull, check_true]

theorem operand_chain_start {ops : operators_def} {cio : Bool} {s s1 : parser_base}
    {chain : List (token × Node)} (h : operand_chain ops cio s chain s1) :
    is_binary_operator s.current_token cio = true ∧ s.current_token.type ≠ .QMARK ∧
      ∃ x rest, chain = (s.current_token, x) :: rest := by
  cases h with
  | last _ _ _ x h1 h2 => exact ⟨h1, h2, x, [], rfl⟩
  | more _ _ _ _ _ x rest h1 h2 => exact ⟨h1, h2, x, rest, rfl⟩

theorem left_nested_isNull (lhs : Node) (chain : List (token × Node)) (cio : Bool)
    (hne : chain ≠ [])
    (h : ∀ p ∈ chain, is_binary_operator p.1 cio = true ∧ p.1.type ≠ .QMARK) :
    (left_nested lhs chain).isNull = false := by
  induction chain using List.reverseRecOn with
  | nil => exact absurd rfl hne
  | append_singleton l p _ =>
    obtain ⟨kind, hk⟩ := binary_expr_of_eq p.1 (left_nested lhs l) p.2 cio
      (h p (by simp)).1 (h p (by simp)).2
    simp [left_nested, List.foldl_append] at hk ⊢
    rw [hk]
    rfl

theorem operand_chain_ops {ops : operators_def} {cio : Bool} {s s1 : parser_base}
    {chain : List (token × Node)} (h : operand_chain ops cio s chain s1) :
    chain ≠ [] ∧ ∀ p ∈ chain, is_binary_operator p.1 cio = true ∧ p.1.type ≠ .QMARK := by
  induction h with
  | last s sa s1 x h1 h2 =>
    refine ⟨by simp, fun p hp => ?_⟩
    simp only [List.mem_singleton] at hp
    subst hp
    exact ⟨h1, h2⟩
  | more s sa s1 s2 s3 x rest h1 h2 _ _ _ _ _ _ _ _ ih =>
    refine ⟨by simp, fun p hp => ?_⟩
    simp only [List.mem_cons] at hp
    rcases hp with rfl | hp
    · exact ⟨h1, h2⟩
    · exact ih.2 p hp

/-- The body of `parse_bin_op` up to the operation it builds. -/
theorem parse_bin_op_head (ops : operators_def) (self : parser_fns) (lhs : Node) (cio : Bool)
    {s sa s1 : parser_base} {x : Node}
    (h1 : is_binary_operator s.current_token cio = true) (h2 : s.current_token.type ≠ .QMARK)
    (he : s.error = none) (ha : advance s = some (true, sa))
    (hx : self.parse_unary_or_atomic_expr sa = some (x, s1)) (hx0 : x.isNull = false)
    (he1 : s1.error = none) :
    parse_bin_op ops self lhs cio s =
      bin_op_tail ops self s.current_token (binary_expr_of s.current_token lhs x) cio s1 := by
  unfold parse_bin_op
  simp only [P_bind_apply, current_token, Option.some_bind]
  rw [assert_that_ok _ _ h1]
  simp only [Option.some_bind]
  rw [ADVANCE_OR_ERROR_ok _ _ _ he ha]
  simp only [h2, if_false]
  rw [SUBPARSE_ok _ _ hx he1 hx0]
  simp only [P_bind_apply, make_binary_expr_ok _ _ _ cio _ h1 h2, Option.some_bind]

theorem bin_op_tail_end (ops : operators_def) (self : parser_fns) (op : token) (binop : Node)
    (cio : Bool) {s1 s2 : parser_base} (h : expression_ends cio s1 s2) :
    bin_op_tail ops self op binop cio s1 = some (binop, s2) := by
  unfold bin_op_tail
  rcases h with h | ⟨sa, h, hend, hr⟩
  · simp [current_token, h]
  · simp [current_token, h, hend, hr]

theorem bin_op_tail_same_left (ops : operators_def) (self : parser_fns) (op : token)
    (binop : Node) (cio : Bool) {s1 s2 sf : parser_base} {r : Node}
    (ha : advance s1 = some (true, s2)) (hend : is_expression_end s2.current_token cio = false)
    (hb : is_binary_operator s2.current_token cio = true)
    (hp : get_precedence ops s2.current_token = get_precedence ops op)
    (hop : is_binary_operator op cio = true)
    (hassoc : get_associativity ops op ≠ .RIGHT_TO_LEFT)
    (hr : self.parse_bin_op binop cio s2 = some (r, sf)) (hr0 : r.isNull = false)
    (hef : sf.error = none) :
    bin_op_tail ops self op binop cio s1 = some (r, sf) := by
  unfold bin_op_tail
  simp only [P_bind_apply, current_token, Option.some_bind, ha, Bool.not_true,
    Bool.false_eq_true, if_false, hend, hb, if_true, hp, gt_iff_lt, lt_self_iff_false,
    assert_that_ok _ _ (is_binary_operator_of_comma op cio hop), hassoc]
  rw [SUBPARSE_ok _ _ hr hef hr0]
  rfl

theorem bin_op_tail_same_right (ops : operators_def) (self : parser_fns) (op : token)
    (binop : Node) (cio : Bool) {s1 s2 sf : parser_base} {r : Node}
    (ha : advance s1 = some (true, s2)) (hend : is_expression_end s2.current_token cio = false)
    (hb : is_binary_operator s2.current_token cio = true)
    (hp : get_precedence ops s2.current_token = get_precedence ops op)
    (hop : is_binary_operator op cio = true)
    (hassoc : get_associativity ops op = .RIGHT_TO_LEFT)
    (hr : self.parse_bin_op binop.rhs cio s2 = some (r, sf)) (hr0 : r.isNull = false)
    (hef : sf.error = none) :
    bin_op_tail ops self op binop cio s1 = some (binop.set_rhs r, sf) := by
  unfold bin_op_tail
  simp only [P_bind_apply, current_token, Option.some_bind, ha, Bool.not_true,
    Bool.false_eq_true, if_false, hend, hb, if_true, hp, gt_iff_lt, lt_self_iff_false,
    assert_that_ok _ _ (is_binary_operator_of_comma op cio hop), hassoc]
  rw [SUBPARSE_ok _ _ hr hef hr0]
  rfl

/-- A chain of operators of one precedence that are not right-to-left
associative: `parse_bin_op` returns the left-nested tree. -/
theorem parse_bin_op_left (ops : operators_def) {cio : Bool} {s s1 : parser_base}
    {chain : List (token × Node)} (h : operand_chain ops cio s chain s1) :
    ∀ (prec : Int) (sf : parser_base) (lhs : Node), expression_ends cio s1 sf →
      sf.error = none →
      (∀ p ∈ chain, get_precedence ops p.1 = prec ∧
        get_associativity ops p.1 ≠ .RIGHT_TO_LEFT) →
      runs ops (fun self => self.parse_bin_op lhs cio) s (left_nested lhs chain, sf) := by
  induction h with
  | last s sa s1 x h1 h2 he ha hx hx0 he1 =>
    intro prec sf lhs hend hef _
    obtain ⟨f1, hf1⟩ := hx
    refine ⟨f1 + 1, ?_⟩
    show (parsers ops (f1 + 1)).parse_bin_op lhs cio s = _
    rw [parsers_succ_parse_bin_op, parse_bin_op_head ops _ lhs cio h1 h2 he ha hf1 hx0 he1,
      bin_op_tail_end ops _ _ _ cio hend]
    rfl
  | more s sa s1 s2 s3 x rest h1 h2 he ha hx hx0 he1 ha2 hne hrest ih =>
    intro prec sf lhs hend hef hall
    obtain ⟨hb2, _, x2, rest2, hrest2⟩ := operand_chain_start hrest
    obtain ⟨hne2, hops2⟩ := operand_chain_ops hrest
    have hp1 := hall (s.current_token, x) (by simp)
    have hp2 := hall (s2.current_token, x2) (by rw [hrest2]; simp)
    obtain ⟨f1, hf1⟩ := runs_member (fun a b h => h.parse_unary_or_atomic_expr) hx
    obtain ⟨f2, hf2⟩ := runs_member (fun a b h => h.parse_bin_op _ _)
      (ih prec sf (binary_expr_of s.current_token lhs x) hend hef
        (fun p hp => hall p (by simp [hp])))
    refine ⟨max f1 f2 + 1, ?_⟩
    show (parsers ops (max f1 f2 + 1)).parse_bin_op lhs cio s = _
    rw [parsers_succ_parse_bin_op,
      parse_bin_op_head ops _ lhs cio h1 h2 he ha (hf1 _ (le_max_left _ _)) hx0 he1,
      bin_op_tail_same_left ops _ _ _ cio ha2 hne hb2 (by rw [hp2.1, hp1.1]) h1 hp1.2
        (hf2 _ (le_max_right _ _)) (left_nested_isNull _ _ cio hne2 hops2) hef]
    rfl

theorem right_nested_isNull (lhs : Node) (chain : List (token × Node)) (cio : Bool)
    (hne : chain ≠ [])
    (h : ∀ p ∈ chain, is_binary_operator p.1 cio = true ∧ p.1.type ≠ .QMARK) :
    (right_nested lhs chain).isNull = false := by
  cases chain with
  | nil => exact absurd rfl hne
  | cons p rest =>
    obtain ⟨kind, hk⟩ := binary_expr_of_eq p.1 lhs (right_nested p.2 rest) cio
      (h p (by simp)).1 (h p (by simp)).2
    simp only [right_nested]
    rw [hk]
    rfl

/-- A chain of right-to-left associative operators of one precedence:
`parse_bin_op` returns the right-nested tree. -/
theorem parse_bin_op_right (ops : operators_def) {cio : Bool} {s s1 : parser_base}
    {chain : List (token × Node)} (h : operand_chain ops cio s chain s1) :
    ∀ (prec : Int) (sf : parser_base) (lhs : Node), expression_ends cio s1 sf →
      sf.error = none →
      (∀ p ∈ chain, get_precedence ops p.1 = prec ∧
        get_associativity ops p.1 = .RIGHT_TO_LEFT) →
      runs ops (fun self => self.parse_bin_op lhs cio) s (right_nested lhs chain, sf) := by
  induction h with
  | last s sa s1 x h1 h2 he ha hx hx0 he1 =>
    intro prec sf lhs hend hef _
    obtain ⟨f1, hf1⟩ := hx
    refine ⟨f1 + 1, ?_⟩
    show (parsers ops (f1 + 1)).parse_bin_op lhs cio s = _
    rw [parsers_succ_parse_bin_op, parse_bin_op_head ops _ lhs cio h1 h2 he ha hf1 hx0 he1,
      bin_op_tail_end ops _ _ _ cio hend]
    rfl
  | more s sa s1 s2 s3 x rest h1 h2 he ha hx hx0 he1 ha2 hne hrest ih =>
    intro prec sf lhs hend hef hall
    obtain ⟨hb2, _, x2, rest2, hrest2⟩ := operand_chain_start hrest
    obtain ⟨hne2, hops2⟩ := operand_chain_ops hrest
    have hp1 := hall (s.current_token, x) (by simp)
    have hp2 := hall (s2.current_token, x2) (by rw [hrest2]; simp)
    obtain ⟨kind, hk⟩ := binary_expr_of_eq s.current_token lhs x cio h1 h2
    obtain ⟨kind2, hk2⟩ := binary_expr_of_eq s.current_token lhs (right_nested x rest) cio h1 h2
    have hkk : kind2 = kind := by
      simp only [binary_expr_of] at hk hk2
      cases hbk : binary_kind s.current_token with
      | none => simp [hbk] at hk
      | some k =>
        simp only [hbk, Node.bin_op_expr.injEq, true_and, and_true] at hk hk2
        rw [← hk, ← hk2]
    obtain ⟨f1, hf1⟩ := runs_member (fun a b h => h.parse_unary_or_atomic_expr) hx
    obtain ⟨f2, hf2⟩ := runs_member (fun a b h => h.parse_bin_op _ _)
      (ih prec sf x hend hef (fun p hp => hall p (by simp [hp])))
    refine ⟨max f1 f2 + 1, ?_⟩
    show (parsers ops (max f1 f2 + 1)).parse_bin_op lhs cio s = _
    have hrhs : (binary_expr_of s.current_token lhs x).rhs = x := by rw [hk]; rfl
    rw [parsers_succ_parse_bin_op,
      parse_bin_op_head ops _ lhs cio h1 h2 he ha (hf1 _ (le_max_left _ _)) hx0 he1,
      bin_op_tail_same_right ops _ _ _ cio ha2 hne hb2 (by rw [hp2.1, hp1.1]) h1 hp1.2
        (by rw [hrhs]; exact hf2 _ (le_max_right _ _))
        (right_nested_isNull _ _ cio hne2 hops2) hef]
    simp only [right_nested]
    rw [hk, hk2, hkk]
    rfl

/-- C2: associativity.  For a chain `x0 op1 x1 ... opn xn` of operands (each what
`parse_unary_or_atomic_expr` returns) joined by binary operators of one
precedence, `parse_expression` returns the right-nested tree
`op1(x0, op2(x1, ...))` when the operators are right-to-left associative, and the
left-nested tree `opn(...op2(op1(x0, x1), x2)..., xn)` when they are left-to-right
associative.  So `a = b = c` is `assign(a, assign(b, c))` and `a - b - c` is
`subtract(subtract(a, b), c)`. -/
theorem same_precedence_chain_nesting (ops : operators_def) ( cio : Bool)
    (s0 sa s s1 sf : parser_base) (x0 : Node) (chain : List (token × Node)) (prec : Int)
    (hx : runs ops (fun self => self.parse_unary_or_atomic_expr) s0 (x0, sa))
    (hx0 : x0.isNull = false)
    (ha : advance sa = some (true, s)) (hne : is_expression_end s.current_token cio = false)
    (hc : operand_chain ops cio s chain s1) (hend : expression_ends cio s1 sf)
    (hef : sf.error = none)
    (hprec : ∀ p ∈ chain, get_precedence ops p.1 = prec) :
    ((∀ p ∈ chain, get_associativity ops p.1 = .RIGHT_TO_LEFT) →
      runs ops (fun self => self.parse_expression cio) s0 (right_nested x0 chain, sf)) ∧
    ((∀ p ∈ chain, get_associativity ops p.1 = .LEFT_TO_RIGHT) →
      runs ops (fun self => self.parse_expression cio) s0 (left_nested x0 chain, sf)) ∧
    (match parse_fresh 40 (tokens [(.IDENTIFIER, "a"), (.EQ, "="), (.IDENTIFIER, "b"),
        (.EQ, "="), (.IDENTIFIER, "c"), (.EQ, "="), (.IDENTIFIER, "d")]) with
     | some (.module (.module _ [.bin_op_expr .assign _ (.identifier_expr _ "a")
          (.bin_op_expr .assign _ (.identifier_expr _ "b")
            (.bin_op_expr .assign _ (.identifier_expr _ "c") (.identifier_expr _ "d")))])) =>
       true
     | _ => false) = true ∧
    (match parse_fresh 40 (tokens [(.IDENTIFIER, "a"), (.MINUS, "-"), (.IDENTIFIER, "b"),
        (.PLUS, "+"), (.IDENTIFIER, "c"), (.MINUS, "-"), (.IDENTIFIER, "d")]) with
     | some (.module (.module _ [.bin_op_expr .subtract _ (.bin_op_expr .add _
          (.bin_op_expr .subtract _ (.identifier_expr _ "a") (.identifier_expr _ "b"))
            (.identifier_expr _ "c")) (.identifier_expr _ "d")])) => true
     | _ => false) = true := by
  have start : ∀ res, runs ops (fun self => self.parse_bin_op x0 cio) s res →
      runs ops (fun self => self.parse_expression cio) s0 res := by
    intro res hres
    obtain ⟨f1, hf1⟩ := runs_member (fun a b h => h.parse_unary_or_atomic_expr) hx
    obtain ⟨f2, hf2⟩ := runs_member (fun a b h => h.parse_bin_op _ _) hres
    refine ⟨max f1 f2 + 1, ?_⟩
    show (parsers ops (max f1 f2 + 1)).parse_expression cio s0 = some res
    rw [parsers_succ_parse_expression]
    unfold parse_expression
    simp only [P_bind_apply, Option.some_bind, hf1 _ (le_max_left _ _), hx0, Bool.not_false,
      if_true, current_token, ha, Bool.not_true, Bool.false_eq_true, if_false, hne,
      (operand_chain_start hc).1]
    exact hf2 _ (le_max_right _ _)
  refine ⟨fun hr => start _ ?_, fun hl => start _ ?_, by decide!, by decide!⟩
  · exact parse_bin_op_right ops hc prec sf x0 hend hef (fun p hp => ⟨hprec p hp, hr p hp⟩)
  · refine parse_bin_op_left ops hc prec sf x0 hend hef (fun p hp => ⟨hprec p hp, ?_⟩)
    rw [hl p hp]
    decide

theorem same_precedence_chain_nesting_witness :
    runs js_operators (fun self => self.parse_expression true)
      { fresh_state (tokens_from 2 [(.EQ, "="), (.IDENTIFIER, "b")]) with
        current_token := ⟨.IDENTIFIER, "a", ⟨1, 1⟩⟩ }
      (.bin_op_expr .assign ⟨1, 2⟩ (.identifier_expr ⟨1, 1⟩ "a") (.identifier_expr ⟨1, 3⟩ "b"),
        { fresh_state [] with current_token := ⟨.IDENTIFIER, "b", ⟨1, 3⟩⟩ }) :=
  (same_precedence_chain_nesting js_operators true
    { fresh_state (tokens_from 2 [(.EQ, "="), (.IDENTIFIER, "b")]) with
      current_token := ⟨.IDENTIFIER, "a", ⟨1, 1⟩⟩ }
    { fresh_state (tokens_from 3 [(.IDENTIFIER, "b")]) with
      current_token := ⟨.IDENTIFIER, "a", ⟨1, 1⟩⟩, rewind_stack := [⟨.EQ, "=", ⟨1, 2⟩⟩] }
    { fresh_state (tokens_from 3 [(.IDENTIFIER, "b")]) with
      current_token := ⟨.EQ, "=", ⟨1, 2⟩⟩ }
    { fresh_state [] with current_token := ⟨.IDENTIFIER, "b", ⟨1, 3⟩⟩ }
    { fresh_state [] with current_token := ⟨.IDENTIFIER, "b", ⟨1, 3⟩⟩ }
    (.identifier_expr ⟨1, 1⟩ "a")
    [(⟨.EQ, "=", ⟨1, 2⟩⟩, .identifier_expr ⟨1, 3⟩ "b")] 3
    ⟨6, rfl⟩ rfl rfl rfl
    (operand_chain.last _ { fresh_state [] with current_token := ⟨.IDENTIFIER, "b", ⟨1, 3⟩⟩ }
      _ _ rfl (by decide) rfl rfl ⟨6, rfl⟩ rfl rfl)
    (Or.inl rfl) rfl
    (fun p hp => by rw [List.mem_singleton.1 hp]; rfl)).1
    (fun p hp => by rw [List.mem_singleton.1 hp]; rfl)

theorem print_strings_false (l : List String) :
    print_strings false l = (l.map fun s =>
      ", ".toList ++ ("\"".toList ++ json_escape s.toList ++ "\"".toList)).flatten := by
  induction l with
  | nil => rfl
  | cons s rest ih => simp [print_strings, ih]

theorem intercalate_cons {α : Type} (sep x : List α) (l : List (List α)) :
    sep.intercalate (x :: l) = x ++ (l.map fun y => sep ++ y).flatten := by
  induction l generalizing x with
  | nil => simp [List.intercalate]
  | cons y rest ih =>
    have := ih y
    simp only [List.intercalate, List.intersperse, List.flatten_cons, List.map_cons] at this ⊢
    rw [this]
    simp

theorem print_strings_true (l : List String) :
    print_strings true l = (", ".toList).intercalate
      (l.map fun s => "\"".toList ++ json_escape s.toList ++ "\"".toList) := by
  cases l with
  | nil => rfl
  | cons s rest =>
    rw [List.map_cons, intercalate_cons]
    simp [print_strings, print_strings_false, List.map_map, Function.comp_def]

theorem print_many_false (l : List ast_object) :
    print_many false l = (l.map fun n => ", ".toList ++ json_printer_accept n).flatten := by
  induction l with
  | nil => simp [print_many]
  | cons n rest ih => simp [print_many, ih]

theorem print_many_true (l : List ast_object) :
    print_many true l = (", ".toList).intercalate (l.map json_printer_accept) := by
  cases l with
  | nil => rfl
  | cons n rest =>
    rw [List.map_cons, intercalate_cons]
    simp [print_many, print_many_false, List.map_map, Function.comp_def]

theorem print_child_eq (c : child_value) :
    print_child c = ", \"".toList ++ c.name.toList ++ "\": ".toList ++
      field_value json_printer_accept c := by
  cases c with
  | MANY name value =>
    simp [print_child, field_value, child_value.name, print_many_true]
  | ONE name value => simp [print_child, field_value, child_value.name]
  | MAYBE name value =>
    cases value <;> simp [print_child, field_value, child_value.name, print_maybe]
  | MAYBE_STR name value =>
    cases value <;> simp [print_child, field_value, child_value.name]
  | STRINGS name value =>
    simp [print_child, field_value, child_value.name, print_strings_true]
  | STRING name value => simp [print_child, field_value, child_value.name]

theorem print_children_eq (cs : List child_value) :
    print_children cs = (cs.map fun c =>
      ", \"".toList ++ c.name.toList ++ "\": ".toList ++
        field_value json_printer_accept c).flatten := by
  induction cs with
  | nil => simp [print_children]
  | cons c rest ih => simp [print_children, ih, print_child_eq]

theorem parent_json_printer_accept_eq : ∀ node : ast_object,
    parent_json_printer_accept node = (node.fields.map fun c =>
      ", \"".toList ++ c.name.toList ++ "\": ".toList ++
        field_value json_printer_accept c).flatten
  | .NODE _ children => by
    simp [parent_json_printer_accept, ast_object.fields, print_children_eq]
  | .DERIVED _ base children => by
    simp [parent_json_printer_accept, ast_object.fields, print_children_eq,
      parent_json_printer_accept_eq base]

/-- C24: JSON layout.  For every node `ast_to_json` writes one object: the
opening brace and the `type` tag with the kind of the node, then
`, "<field>": <value>` for the fields of its ancestors, the outermost ancestor
first, and then for its own fields, each group in the order of the schema, then
the closing brace; child nodes are written by the printer in the same way, a
sequence as `[`, its elements joined by `, `, `]`, and an absent optional child
or string as `null`.  The empty module is `{"type": "module", "stmts": []}`, and
a ternary operator lists `lhs` and `rhs` (of its parent `bin_op_expr`) before
`mid`. -/
theorem ast_to_json_layout (node lhs mid rhs : ast_object) :
    ast_to_json node = json_layout ast_to_json node ∧
    ast_to_json empty_module_object = "\x7b\"type\": \"module\", \"stmts\": []\x7d".toList ∧
    ast_to_json (ternary_operator_object lhs mid rhs) =
      "\x7b\"type\": \"ternary_operator\", \"lhs\": ".toList ++ ast_to_json lhs ++
        ", \"rhs\": ".toList ++ ast_to_json rhs ++ ", \"mid\": ".toList ++ ast_to_json mid ++
        "\x7d".toList := by
  have key : ∀ n : ast_object, ast_to_json n = json_layout ast_to_json n := by
    intro n
    have hfun : ast_to_json = json_printer_accept := rfl
    cases n with
    | NODE name children =>
      simp only [hfun, json_layout, ast_object.kind, ast_object.fields, json_printer_accept,
        print_children_eq]
      simp
    | DERIVED name base children =>
      simp only [hfun, json_layout, ast_object.kind, ast_object.fields, json_printer_accept,
        print_children_eq, parent_json_printer_accept_eq]
      simp
  refine ⟨key node, by decide, ?_⟩
  rw [key]
  simp [json_layout, ternary_operator_object, ast_object.kind, ast_object.fields,
    field_value, child_value.name]

/-- C25: round-trip naming.  For a node whose dynamic kind is `K`,
`get_ast_node_typename` returns the string `K`, and the `type` tag that
`ast_to_json` writes for the node is that string: the output opens with
`{"type": "K"`. -/
theorem typename_is_type_tag (node : ast_object) :
    get_ast_node_typename node = node.kind ∧
    ∃ rest, ast_to_json node =
      "\x7b\"type\": \"".toList ++ (get_ast_node_typename node).toList ++ "\"".toList ++ rest := by
  refine ⟨by cases node <;> rfl, ?_⟩
  cases node with
  | NODE name children =>
    exact ⟨print_children children ++ "\x7d".toList, by
      simp [ast_to_json, json_printer_accept, get_ast_node_typename]⟩
  | DERIVED name base children =>
    exact ⟨parent_json_printer_accept base ++ print_children children ++ "\x7d".toList, by
      simp [ast_to_json, json_printer_accept, get_ast_node_typename]⟩

theorem pending_check (c : Bool) (v : violation) (s : parser_base) :
    pending (s.check c v) = pending s := by
  unfold parser_base.check
  split <;> rfl

theorem advance_lexer_pending : ∀ (l : List lexer_result) (s : parser_base),
    pending (advance_lexer l s).2 ≤ l.length + s.rewind_stack.length ∧
    ((advance_lexer l s).1 = true →
      pending (advance_lexer l s).2 + 1 ≤ l.length + s.rewind_stack.length)
  | [], s => by simp [advance_lexer, pending]
  | .error err :: rest, s => by simp [advance_lexer, pending]
  | .tok t :: rest, s => by
    unfold advance_lexer
    split
    · have h := advance_lexer_pending rest { s with current_token := t }
      simp only [List.length_cons] at h ⊢
      exact ⟨by omega, fun hb => by have := h.2 hb; omega⟩
    · simp [pending]; omega

/-- A call of `advance` never adds a token to deliver, and delivers one when it
returns `true`. -/
theorem advance_pending {s s1 : parser_base} {b : Bool} (h : advance s = some (b, s1)) :
    pending s1 ≤ pending s ∧ (b = true → pending s1 + 1 ≤ pending s) := by
  unfold advance at h
  split at h
  · next t stack hs =>
    simp only [Option.some.injEq, Prod.mk.injEq] at h
    obtain ⟨_, rfl⟩ := h
    simp only [pending, hs, List.length_cons]
    exact ⟨by omega, fun _ => by omega⟩
  · next hs =>
    simp only [Option.some.injEq] at h
    have := advance_lexer_pending s.lexer s
    rw [h] at this
    simpa [pending, hs] using this

theorem halts_pure {α : Type} {p : Nat} {a : α} {s : parser_base} (h : pending s ≤ p) :
    halts p (pure a : P α) s := ⟨a, s, rfl, h⟩

theorem halts_bind_pure {α β : Type} {p : Nat} {a : α} {k : α → P β} {s : parser_base}
    (h : halts p (k a) s) : halts p ((pure a : P α) >>= k) s := h

theorem halts_bind_current_token {β : Type} {p : Nat} {k : token → P β} {s : parser_base}
    (h : halts p (k s.current_token) s) : halts p (current_token >>= k) s := h

theorem halts_bind_has_error {β : Type} {p : Nat} {k : Bool → P β} {s : parser_base}
    (h : halts p (k s.error.isSome) s) : halts p (has_error >>= k) s := h

theorem halts_bind_assert_that {β : Type} {p : Nat} {c : Prop} [Decidable c] {v : violation}
    {k : Unit → P β} {s : parser_base}
    (h : ∀ s1, pending s1 = pending s → halts p (k ()) s1) :
    halts p (assert_that c v >>= k) s :=
  h _ (pending_check _ _ _)

theorem halts_bind_set_error {β : Type} {p : Nat} {msg : String} {loc : source_location}
    {k : Unit → P β} {s : parser_base}
    (h : ∀ s1, pending s1 = pending s → halts p (k ()) s1) :
    halts p (set_error msg loc >>= k) s :=
  h _ rfl

theorem halts_bind_rewind {β : Type} {p : Nat} {t : token} {k : Unit → P β} {s : parser_base}
    (h : ∀ s1, pending s1 = pending s + 1 → halts p (k ()) s1) :
    halts p (rewind t >>= k) s := by
  refine h _ ?_
  simp only [pending, List.length_cons]
  have := pending_check (decide (t.type ≠ .BLOCK_COMMENT ∧ t.type ≠ .LINE_COMMENT))
    .rewind_comment s
  simp only [pending] at this
  omega

theorem halts_bind_advance {β : Type} {p : Nat} {k : Bool → P β} {s : parser_base}
    (ht : ∀ s1, pending s1 + 1 ≤ pending s → halts p (k true) s1)
    (hf : ∀ s1, pending s1 ≤ pending s → halts p (k false) s1) :
    halts p (advance >>= k) s := by
  obtain ⟨b, s1, ha⟩ := advance_total s
  have hp := advance_pending ha
  have e : (advance >>= k) s = k b s1 := by simp [ha]
  unfold halts
  rw [e]
  cases b with
  | true => exact ht s1 (hp.2 rfl)
  | false => exact hf s1 hp.1

theorem halts_bind_call {α β : Type} {p : Nat} {m : P α} {k : α → P β} {s : parser_base}
    (hm : halts (pending s) m s)
    (hk : ∀ a s1, pending s1 ≤ pending s → halts p (k a) s1) :
    halts p (m >>= k) s := by
  obtain ⟨a, s1, e, hp⟩ := hm
  have e2 : (m >>= k) s = k a s1 := by simp [e]
  unfold halts
  rw [e2]
  exact hk a s1 hp

theorem halts_call {α : Type} {p : Nat} {m : P α} {s : parser_base}
    (hm : halts (pending s) m s) (hp : pending s ≤ p) : halts p m s := by
  obtain ⟨a, s1, e, h⟩ := hm
  exact ⟨a, s1, e, by omega⟩

theorem halts_bind_ite {α β : Type} {p : Nat} {c : Prop} [Decidable c] {t e : P α}
    {k : α → P β} {s : parser_base}
    (h1 : c → halts p (t >>= k) s) (h2 : ¬ c → halts p (e >>= k) s) :
    halts p ((if c then t else e) >>= k) s := by
  split
  · exact h1 ‹_›
  · exact h2 ‹_›

theorem halts_ite {α : Type} {p : Nat} {c : Prop} [Decidable c] {t e : P α} {s : parser_base}
    (h1 : c → halts p t s) (h2 : ¬ c → halts p e s) :
    halts p (if c then t else e) s := by
  split
  · exact h1 ‹_›
  · exact h2 ‹_›

theorem halts_ADVANCE_OR_ERROR {α : Type} {p : Nat} {msg : String} {rv : α} {k : P α}
    {s : parser_base} (h0 : pending s ≤ p)
    (hk : ∀ s1, pending s1 + 1 ≤ pending s → halts p k s1) :
    halts p (ADVANCE_OR_ERROR msg rv k) s := by
  unfold halts
  cases he : s.error with
  | some e =>
    rw [ADVANCE_OR_ERROR_error msg rv k (by simp [he])]
    exact ⟨_, _, rfl, h0⟩
  | none =>
    obtain ⟨b, s2, ha⟩ := advance_total s
    have hp := advance_pending ha
    cases b with
    | true =>
      rw [ADVANCE_OR_ERROR_ok msg rv k he ha]
      exact hk s2 (hp.2 rfl)
    | false =>
      rw [ADVANCE_OR_ERROR_eof msg rv k he ha]
      exact ⟨_, _, rfl, Nat.le_trans hp.1 h0⟩

theorem halts_EXPECT_SEVERAL {α : Type} {p : Nat} {types : List token_type} {rv : α}
    {k : P α} {s : parser_base} (h0 : pending s ≤ p) (hk : halts p k s) :
    halts p (EXPECT_SEVERAL types rv k) s := by
  unfold halts
  by_cases h : s.current_token.type ∈ types
  · rw [EXPECT_SEVERAL_ok types rv k h]
    exact hk
  · rw [EXPECT_SEVERAL_fail types rv k h]
    exact ⟨_, _, rfl, h0⟩

theorem halts_EXPECT {α : Type} {p : Nat} {type : token_type} {rv : α}
    {k : P α} {s : parser_base} (h0 : pending s ≤ p) (hk : halts p k s) :
    halts p (EXPECT type rv k) s :=
  halts_EXPECT_SEVERAL h0 hk

theorem halts_ASSERT_PARSE_RESULT {p : Nat} {v : Node} {k : P Node} {s : parser_base}
    (h0 : pending s ≤ p) (hk : halts p k s) : halts p (ASSERT_PARSE_RESULT v k) s := by
  unfold ASSERT_PARSE_RESULT
  refine halts_bind_has_error ?_
  refine halts_ite (fun _ => ?_) (fun _ => hk)
  refine halts_bind_assert_that (fun s1 h1 => ?_)
  exact halts_pure (by omega)

theorem halts_SUBPARSE {p : Nat} {m : P Node} {k : Node → P Node} {s : parser_base}
    (hm : halts (pending s) m s) (h0 : pending s ≤ p)
    (hk : ∀ a s1, pending s1 ≤ pending s → halts p (k a) s1) :
    halts p (SUBPARSE m k) s := by
  unfold SUBPARSE
  refine halts_bind_call hm (fun a s1 h1 => ?_)
  exact halts_ASSERT_PARSE_RESULT (by omega) (hk a s1 h1)

theorem halts_bind_assoc {α β γ : Type} {p : Nat} {m : P α} {f : α → P β} {k : β → P γ}
    {s : parser_base} (h : halts p (m >>= fun a => f a >>= k) s) :
    halts p ((m >>= f) >>= k) s := by
  rw [bind_assoc]
  exact h

theorem within_halts {α : Type} {B R p : Nat} {m : P α} {s : parser_base}
    (hb : 64 * pending s + R ≤ B) (h : halts p m s) : halts p (within B R m) s := by
  unfold halts within
  rw [if_pos hb]
  exact h

theorem run_le_within {α : Type} (B R : Nat) (m : P α) : run_le (within B R m) m := by
  intro s r h
  unfold within at h
  split at h
  · exact h
  · cases h

theorem halt_make_number_expression (t : token) (s : parser_base) :
    halts (pending s) (make_number_expression t) s := by
  unfold make_number_expression
  with_reducible refine halts_bind_assert_that (fun _ _ => ?_)
  with_reducible refine halts_pure ?_
  with_reducible omega

theorem halt_make_unary_prefix_op (op : token) (value : Node) (s : parser_base) :
    halts (pending s) (make_unary_prefix_op op value) s := by
  unfold make_unary_prefix_op
  with_reducible refine halts_bind_assert_that (fun _ _ => ?_)
  with_reducible refine halts_bind_assert_that (fun _ _ => ?_)
  with_reducible refine halts_pure ?_
  with_reducible omega

theorem halt_make_binary_expr (op : token) (lhs : Node) (rhs : Node) (s : parser_base) :
    halts (pending s) (make_binary_expr op lhs rhs) s := by
  unfold make_binary_expr
  with_reducible refine halts_bind_assert_that (fun _ _ => ?_)
  with_reducible refine halts_bind_assert_that (fun _ _ => ?_)
  with_reducible refine halts_pure ?_
  with_reducible omega

theorem halt_statement_end (stmt : Node) (s : parser_base) :
    halts (pending s) (statement_end stmt) s := by
  unfold statement_end
  with_reducible refine halts_ASSERT_PARSE_RESULT ?_ ?_
  with_reducible omega
  with_reducible refine halts_bind_current_token ?_
  with_reducible refine halts_bind_advance (fun _ _ => ?_) (fun _ _ => ?_)
  with_reducible refine halts_bind_has_error ?_
  with_reducible refine halts_ite (fun _ => ?_) (fun _ => ?_)
  with_reducible refine halts_pure ?_
  with_reducible omega
  with_reducible refine halts_ite (fun _ => ?_) (fun _ => ?_)
  with_reducible refine halts_bind_current_token ?_
  with_reducible refine halts_ite (fun _ => ?_) (fun _ => ?_)
  with_reducible refine halts_bind_set_error (fun _ _ => ?_)
  with_reducible refine halts_pure ?_
  with_reducible omega
  with_reducible refine halts_ite (fun _ => ?_) (fun _ => ?_)
  with_reducible refine halts_bind_rewind (fun _ _ => ?_)
  with_reducible refine halts_pure ?_
  with_reducible omega
  with_reducible refine halts_pure ?_
  with_reducible omega
  with_reducible refine halts_pure ?_
  with_reducible omega
  with_reducible refine halts_bind_has_error ?_
  with_reducible refine halts_ite (fun _ => ?_) (fun _ => ?_)
  with_reducible refine halts_pure ?_
  with_reducible omega
  with_reducible refine halts_ite (fun _ => ?_) (fun _ => ?_)
  with_reducible refine halts_bind_current_token ?_
  with_reducible refine halts_ite (fun _ => ?_) (fun _ => ?_)
  with_reducible refine halts_bind_set_error (fun _ _ => ?_)
  with_reducible refine halts_pure ?_
  with_reducible omega
  with_reducible refine halts_ite (fun _ => ?_) (fun _ => ?_)
  with_reducible refine halts_bind_rewind (fun _ _ => ?_)
  with_reducible refine halts_pure ?_
  focus with_reducible (exfalso; simp at *; done)
  with_reducible refine halts_pure ?_
  with_reducible omega
  with_reducible refine halts_pure ?_
  with_reducible omega

theorem halt_parse_import (s : parser_base) :
    halts (pending s) parse_import s := by
  unfold parse_import
  with_reducible refine halts_bind_current_token ?_
  with_reducible refine halts_bind_assert_that (fun _ _ => ?_)
  with_reducible refine halts_bind_set_error (fun _ _ => ?_)
  with_reducible refine halts_pure ?_
  with_reducible omega

theorem halt_parse_export (s : parser_base) :
    halts (pending s) parse_export s := by
  unfold parse_export
  with_reducible refine halts_bind_current_token ?_
  with_reducible refine halts_bind_assert_that (fun _ _ => ?_)
  with_reducible refine halts_bind_set_error (fun _ _ => ?_)
  with_reducible refine halts_pure ?_
  with_reducible omega

theorem halt_parse_class_stmt (s : parser_base) :
    halts (pending s) parse_class_stmt s := by
  unfold parse_class_stmt
  with_reducible refine halts_bind_current_token ?_
  with_reducible refine halts_bind_assert_that (fun _ _ => ?_)
  with_reducible refine halts_bind_set_error (fun _ _ => ?_)
  with_reducible refine halts_pure ?_
  with_reducible omega

theorem halt_parse_class_expr (s : parser_base) :
    halts (pending s) parse_class_expr s := by
  unfold parse_class_expr
  with_reducible refine halts_bind_current_token ?_
  with_reducible refine halts_bind_assert_that (fun _ _ => ?_)
  with_reducible refine halts_bind_set_error (fun _ _ => ?_)
  with_reducible refine halts_pure ?_
  with_reducible omega

theorem halt_parse_number_literal (s : parser_base) :
    halts (pending s) parse_number_literal s := by
  unfold parse_number_literal
  with_reducible refine halts_bind_current_token ?_
  with_reducible refine halts_bind_call (halt_make_number_expression _ _) (fun _ _ _ => ?_)
  with_reducible refine halts_bind_advance (fun _ _ => ?_) (fun _ _ => ?_)
  with_reducible refine halts_bind_current_token ?_
  with_reducible refine halts_ite (fun _ => ?_) (fun _ => ?_)
  with_reducible refine halts_ite (fun _ => ?_) (fun _ => ?_)
  with_reducible refine halts_bind_rewind (fun _ _ => ?_)
  with_reducible refine halts_pure ?_
  with_reducible omega
  with_reducible refine halts_pure ?_
  with_reducible omega
  with_reducible refine halts_bind_set_error (fun _ _ => ?_)
  with_reducible refine halts_pure ?_
  with_reducible omega
  with_reducible refine halts_bind_current_token ?_
  with_reducible refine halts_ite (fun _ => ?_) (fun _ => ?_)
  with_reducible refine halts_ite (fun _ => ?_) (fun _ => ?_)
  with_reducible refine halts_bind_rewind (fun _ _ => ?_)
  with_reducible refine halts_pure ?_
  focus with_reducible (exfalso; simp at *; done)
  with_reducible refine halts_pure ?_
  with_reducible omega
  with_reducible refine halts_bind_set_error (fun _ _ => ?_)
  with_reducible refine halts_pure ?_
  with_reducible omega

theorem halt_parse_string_literal (s : parser_base) :
    halts (pending s) parse_string_literal s := by
  unfold parse_string_literal
  with_reducible refine halts_bind_current_token ?_
  with_reducible refine halts_bind_assert_that (fun _ _ => ?_)
  with_reducible refine halts_bind_advance (fun _ _ => ?_) (fun _ _ => ?_)
  with_reducible refine halts_bind_current_token ?_
  with_reducible refine halts_ite (fun _ => ?_) (fun _ => ?_)
  with_reducible refine halts_ite (fun _ => ?_) (fun _ => ?_)
  with_reducible refine halts_bind_rewind (fun _ _ => ?_)
  with_reducible refine halts_pure ?_
  with_reducible omega
  with_reducible refine halts_pure ?_
  with_reducible omega
  with_reducible refine halts_bind_set_error (fun _ _ => ?_)
  with_reducible refine halts_pure ?_
  with_reducible omega
  with_reducible refine halts_bind_current_token ?_
  with_reducible refine halts_ite (fun _ => ?_) (fun _ => ?_)
  with_reducible refine halts_ite (fun _ => ?_) (fun _ => ?_)
  with_reducible refine halts_bind_rewind (fun _ _ => ?_)
  with_reducible refine halts_pure ?_
  focus with_reducible (exfalso; simp at *; done)
  with_reducible refine halts_pure ?_
  with_reducible omega
  with_reducible refine halts_bind_set_error (fun _ _ => ?_)
  with_reducible refine halts_pure ?_
  with_reducible omega

theorem halt_parse_member_access (base : Node) (s : parser_base) :
    halts (pending s) (parse_member_access base) s := by
  unfold parse_member_access
  with_reducible refine halts_bind_current_token ?_
  with_reducible refine halts_bind_assert_that (fun _ _ => ?_)
  with_reducible refine halts_ADVANCE_OR_ERROR ?_ (fun _ _ => ?_)
  with_reducible omega
  with_reducible refine halts_EXPECT ?_ ?_
  with_reducible omega
  with_reducible refine halts_bind_current_token ?_
  with_reducible refine halts_pure ?_
  with_reducible omega

theorem halt_atomic_postfix_step (expr : Node) (s : parser_base) :
    halts (pending s) (atomic_postfix_step expr) s := by
  unfold atomic_postfix_step
  with_reducible refine halts_bind_current_token ?_
  with_reducible refine halts_bind_advance (fun _ _ => ?_) (fun _ _ => ?_)
  with_reducible refine halts_ite (fun _ => ?_) (fun _ => ?_)
  with_reducible refine halts_bind_current_token ?_
  with_reducible refine halts_ite (fun _ => ?_) (fun _ => ?_)
  with_reducible refine halts_pure ?_
  with_reducible omega
  with_reducible refine halts_ite (fun _ => ?_) (fun _ => ?_)
  with_reducible refine halts_pure ?_
  with_reducible omega
  with_reducible refine halts_bind_rewind (fun _ _ => ?_)
  with_reducible refine halts_pure ?_
  with_reducible omega
  with_reducible refine halts_pure ?_
  with_reducible omega
  with_reducible refine halts_ite (fun _ => ?_) (fun _ => ?_)
  with_reducible refine halts_bind_current_token ?_
  with_reducible refine halts_ite (fun _ => ?_) (fun _ => ?_)
  with_reducible refine halts_pure ?_
  with_reducible omega
  with_reducible refine halts_ite (fun _ => ?_) (fun _ => ?_)
  with_reducible refine halts_pure ?_
  with_reducible omega
  with_reducible refine halts_bind_rewind (fun _ _ => ?_)
  with_reducible refine halts_pure ?_
  focus with_reducible (exfalso; simp at *; done)
  with_reducible refine halts_pure ?_
  with_reducible omega

theorem halt_param_list_close (loc : source_location) (names : List String) (rest : Option String) (s : parser_base) :
    halts (pending s) (param_list_close loc names rest) s := by
  unfold param_list_close
  with_reducible refine halts_bind_current_token ?_
  with_reducible refine halts_ite (fun _ => ?_) (fun _ => ?_)
  with_reducible refine halts_pure ?_
  with_reducible omega
  with_reducible refine halts_bind_set_error (fun _ _ => ?_)
  with_reducible refine halts_pure ?_
  with_reducible omega

theorem halt_param_list_tail (loc : source_location) (names : List String) (s : parser_base) :
    halts (pending s) (param_list_tail loc names) s := by
  unfold param_list_tail
  with_reducible refine halts_bind_current_token ?_
  with_reducible refine halts_ite (fun _ => ?_) (fun _ => ?_)
  with_reducible refine halts_ADVANCE_OR_ERROR ?_ (fun _ _ => ?_)
  with_reducible omega
  with_reducible refine halts_bind_current_token ?_
  with_reducible refine halts_ite (fun _ => ?_) (fun _ => ?_)
  with_reducible refine halts_ADVANCE_OR_ERROR ?_ (fun _ _ => ?_)
  with_reducible omega
  with_reducible refine halts_call (halt_param_list_close _ _ _ _) ?_
  with_reducible omega
  with_reducible refine halts_call (halt_param_list_close _ _ _ _) ?_
  with_reducible omega
  with_reducible refine halts_call (halt_param_list_close _ _ _ _) ?_
  with_reducible omega

theorem halt_parse_statement {self : parser_fns} {B : Nat} (h : fns_halt self B)
    (s : parser_base) (hb : 64 * pending s + 7 ≤ B + 1) :
    halts (pending s) (parse_statement self) s := by
  unfold parse_statement
  with_reducible refine halts_bind_current_token ?_
  with_reducible refine halts_ite (fun _ => ?_) (fun _ => ?_)
  with_reducible refine halts_pure ?_
  with_reducible omega
  with_reducible refine halts_ite (fun _ => ?_) (fun _ => ?_)
  with_reducible refine halts_call (h.parse_block_or_obj _ _ ?_) ?_
  with_reducible omega
  with_reducible omega
  with_reducible refine halts_ite (fun _ => ?_) (fun _ => ?_)
  with_reducible refine halts_bind_call (h.parse_keyword_stmt _ ?_) (fun _ _ _ => ?_)
  with_reducible omega
  with_reducible refine halts_call (halt_statement_end _ _) ?_
  with_reducible omega
  with_reducible refine halts_ite (fun _ => ?_) (fun _ => ?_)
  with_reducible refine halts_bind_advance (fun _ _ => ?_) (fun _ _ => ?_)
  with_reducible refine halts_ite (fun _ => ?_) (fun _ => ?_)
  with_reducible refine halts_bind_call (h.parse_expression _ _ ?_) (fun _ _ _ => ?_)
  with_reducible omega
  with_reducible refine halts_call (halt_statement_end _ _) ?_
  with_reducible omega
  with_reducible refine halts_bind_current_token ?_
  with_reducible refine halts_ite (fun _ => ?_) (fun _ => ?_)
  with_reducible refine halts_ADVANCE_OR_ERROR ?_ (fun _ _ => ?_)
  with_reducible omega
  with_reducible refine halts_SUBPARSE (h.parse_statement _ ?_) ?_ (fun _ _ _ => ?_)
  with_reducible omega
  with_reducible omega
  with_reducible refine halts_call (halt_statement_end _ _) ?_
  with_reducible omega
  with_reducible refine halts_bind_rewind (fun _ _ => ?_)
  with_reducible refine halts_bind_call (h.parse_expression _ _ ?_) (fun _ _ _ => ?_)
  with_reducible omega
  with_reducible refine halts_call (halt_statement_end _ _) ?_
  with_reducible omega
  with_reducible refine halts_ite (fun _ => ?_) (fun _ => ?_)
  with_reducible refine halts_bind_call (h.parse_expression _ _ ?_) (fun _ _ _ => ?_)
  with_reducible omega
  with_reducible refine halts_call (halt_statement_end _ _) ?_
  with_reducible omega
  with_reducible refine halts_bind_current_token ?_
  with_reducible refine halts_ite (fun _ => ?_) (fun _ => ?_)
  with_reducible refine halts_ADVANCE_OR_ERROR ?_ (fun _ _ => ?_)
  with_reducible omega
  with_reducible refine halts_SUBPARSE (h.parse_statement _ ?_) ?_ (fun _ _ _ => ?_)
  with_reducible omega
  with_reducible omega
  with_reducible refine halts_call (halt_statement_end _ _) ?_
  with_reducible omega
  with_reducible refine halts_bind_rewind (fun _ _ => ?_)
  with_reducible refine halts_bind_call (h.parse_expression _ _ ?_) (fun _ _ _ => ?_)
  focus with_reducible (exfalso; simp at *; done)
  with_reducible refine halts_call (halt_statement_end _ _) ?_
  focus with_reducible (exfalso; simp at *; done)
  with_reducible refine halts_bind_call (h.parse_expression _ _ ?_) (fun _ _ _ => ?_)
  with_reducible omega
  with_reducible refine halts_call (halt_statement_end _ _) ?_
  with_reducible omega

theorem halt_parse_keyword_stmt {self : parser_fns} {B : Nat} (h : fns_halt self B)
    (s : parser_base) (hb : 64 * pending s + 6 ≤ B + 1) :
    halts (pending s) (parse_keyword_stmt self) s := by
  unfold parse_keyword_stmt
  with_reducible refine halts_bind_current_token ?_
  with_reducible refine halts_bind_assert_that (fun _ _ => ?_)
  with_reducible refine halts_ite (fun _ => ?_) (fun _ => ?_)
  with_reducible refine halts_call (h.parse_function_stmt _ ?_) ?_
  with_reducible omega
  with_reducible omega
  with_reducible refine halts_ite (fun _ => ?_) (fun _ => ?_)
  with_reducible refine halts_call (h.parse_if_stmt _ ?_) ?_
  with_reducible omega
  with_reducible omega
  with_reducible refine halts_ite (fun _ => ?_) (fun _ => ?_)
  with_reducible refine halts_call (h.parse_do_while _ ?_) ?_
  with_reducible omega
  with_reducible omega
  with_reducible refine halts_ite (fun _ => ?_) (fun _ => ?_)
  with_reducible refine halts_call (h.parse_while_stmt _ ?_) ?_
  with_reducible omega
  with_reducible omega
  with_reducible refine halts_ite (fun _ => ?_) (fun _ => ?_)
  with_reducible refine halts_call (h.parse_for_stmt _ ?_) ?_
  with_reducible omega
  with_reducible omega
  with_reducible refine halts_ite (fun _ => ?_) (fun _ => ?_)
  with_reducible refine halts_call (h.parse_switch_stmt _ ?_) ?_
  with_reducible omega
  with_reducible omega
  with_reducible refine halts_ite (fun _ => ?_) (fun _ => ?_)
  with_reducible refine halts_pure ?_
  with_reducible omega
  with_reducible refine halts_ite (fun _ => ?_) (fun _ => ?_)
  with_reducible refine halts_pure ?_
  with_reducible omega
  with_reducible refine halts_ite (fun _ => ?_) (fun _ => ?_)
  with_reducible refine halts_call (h.parse_return_stmt _ ?_) ?_
  with_reducible omega
  with_reducible omega
  with_reducible refine halts_ite (fun _ => ?_) (fun _ => ?_)
  with_reducible refine halts_call (h.parse_throw_stmt _ ?_) ?_
  with_reducible omega
  with_reducible omega
  with_reducible refine halts_ite (fun _ => ?_) (fun _ => ?_)
  with_reducible refine halts_call (h.parse_try_stmt _ ?_) ?_
  with_reducible omega
  with_reducible omega
  with_reducible refine halts_ite (fun _ => ?_) (fun _ => ?_)
  with_reducible refine halts_call (halt_parse_import _) ?_
  with_reducible omega
  with_reducible refine halts_ite (fun _ => ?_) (fun _ => ?_)
  with_reducible refine halts_call (halt_parse_export _) ?_
  with_reducible omega
  with_reducible refine halts_ite (fun _ => ?_) (fun _ => ?_)
  with_reducible refine halts_call (halt_parse_class_stmt _) ?_
  with_reducible omega
  with_reducible refine halts_ite (fun _ => ?_) (fun _ => ?_)
  with_reducible refine halts_call (h.parse_call _ _ ?_) ?_
  with_reducible omega
  with_reducible omega
  with_reducible refine halts_ite (fun _ => ?_) (fun _ => ?_)
  with_reducible refine halts_call (h.parse_var_decl _ ?_) ?_
  with_reducible omega
  with_reducible omega
  with_reducible refine halts_call (h.parse_keyword_expr _ ?_) ?_
  with_reducible omega
  with_reducible omega

theorem halt_parse_keyword_expr {self : parser_fns} {B : Nat} (h : fns_halt self B)
    (s : parser_base) (hb : 64 * pending s + 5 ≤ B + 1) :
    halts (pending s) (parse_keyword_expr self) s := by
  unfold parse_keyword_expr
  with_reducible refine halts_bind_current_token ?_
  with_reducible refine halts_bind_assert_that (fun _ _ => ?_)
  with_reducible refine halts_ite (fun _ => ?_) (fun _ => ?_)
  with_reducible refine halts_call (h.parse_unary_or_atomic_expr _ ?_) ?_
  with_reducible omega
  with_reducible omega
  with_reducible refine halts_call (h.parse_atomic_keyword_expr _ ?_) ?_
  with_reducible omega
  with_reducible omega

theorem halt_parse_if_stmt {self : parser_fns} {B : Nat} (h : fns_halt self B)
    (s : parser_base) (hb : 64 * pending s + 1 ≤ B + 1) :
    halts (pending s) (parse_if_stmt self) s := by
  unfold parse_if_stmt
  with_reducible refine halts_bind_current_token ?_
  with_reducible refine halts_bind_assert_that (fun _ _ => ?_)
  with_reducible refine halts_ADVANCE_OR_ERROR ?_ (fun _ _ => ?_)
  with_reducible omega
  with_reducible refine halts_EXPECT ?_ ?_
  with_reducible omega
  with_reducible refine halts_ADVANCE_OR_ERROR ?_ (fun _ _ => ?_)
  with_reducible omega
  with_reducible refine halts_SUBPARSE (h.parse_expression _ _ ?_) ?_ (fun _ _ _ => ?_)
  with_reducible omega
  with_reducible omega
  with_reducible refine halts_ADVANCE_OR_ERROR ?_ (fun _ _ => ?_)
  with_reducible omega
  with_reducible refine halts_EXPECT ?_ ?_
  with_reducible omega
  with_reducible refine halts_ADVANCE_OR_ERROR ?_ (fun _ _ => ?_)
  with_reducible omega
  with_reducible refine halts_SUBPARSE (h.parse_statement _ ?_) ?_ (fun _ _ _ => ?_)
  with_reducible omega
  with_reducible omega
  with_reducible refine halts_bind_current_token ?_
  with_reducible refine halts_bind_advance (fun _ _ => ?_) (fun _ _ => ?_)
  with_reducible refine halts_ite (fun _ => ?_) (fun _ => ?_)
  with_reducible refine halts_bind_current_token ?_
  with_reducible refine halts_ite (fun _ => ?_) (fun _ => ?_)
  with_reducible refine halts_ADVANCE_OR_ERROR ?_ (fun _ _ => ?_)
  with_reducible omega
  with_reducible refine halts_SUBPARSE (h.parse_statement _ ?_) ?_ (fun _ _ _ => ?_)
  with_reducible omega
  with_reducible omega
  with_reducible refine halts_pure ?_
  with_reducible omega
  with_reducible refine halts_bind_rewind (fun _ _ => ?_)
  with_reducible refine halts_pure ?_
  with_reducible omega
  with_reducible refine halts_pure ?_
  with_reducible omega
  with_reducible refine halts_ite (fun _ => ?_) (fun _ => ?_)
  with_reducible refine halts_bind_current_token ?_
  with_reducible refine halts_ite (fun _ => ?_) (fun _ => ?_)
  with_reducible refine halts_ADVANCE_OR_ERROR ?_ (fun _ _ => ?_)
  with_reducible omega
  with_reducible refine halts_SUBPARSE (h.parse_statement _ ?_) ?_ (fun _ _ _ => ?_)
  with_reducible omega
  with_reducible omega
  with_reducible refine halts_pure ?_
  with_reducible omega
  with_reducible refine halts_bind_rewind (fun _ _ => ?_)
  with_reducible refine halts_pure ?_
  with_reducible omega
  with_reducible refine halts_pure ?_
  with_reducible omega

theorem halt_parse_do_while {self : parser_fns} {B : Nat} (h : fns_halt self B)
    (s : parser_base) (hb : 64 * pending s + 1 ≤ B + 1) :
    halts (pending s) (parse_do_while self) s := by
  unfold parse_do_while
  with_reducible refine halts_bind_current_token ?_
  with_reducible refine halts_bind_assert_that (fun _ _ => ?_)
  with_reducible refine halts_ADVANCE_OR_ERROR ?_ (fun _ _ => ?_)
  with_reducible omega
  with_reducible refine halts_SUBPARSE (h.parse_statement _ ?_) ?_ (fun _ _ _ => ?_)
  with_reducible omega
  with_reducible omega
  with_reducible refine halts_ADVANCE_OR_ERROR ?_ (fun _ _ => ?_)
  with_reducible omega
  with_reducible refine halts_EXPECT ?_ ?_
  with_reducible omega
  with_reducible refine halts_bind_current_token ?_
  with_reducible refine halts_ite (fun _ => ?_) (fun _ => ?_)
  with_reducible refine halts_bind_set_error (fun _ _ => ?_)
  with_reducible refine halts_pure ?_
  with_reducible omega
  with_reducible refine halts_ADVANCE_OR_ERROR ?_ (fun _ _ => ?_)
  with_reducible omega
  with_reducible refine halts_EXPECT ?_ ?_
  with_reducible omega
  with_reducible refine halts_ADVANCE_OR_ERROR ?_ (fun _ _ => ?_)
  with_reducible omega
  with_reducible refine halts_SUBPARSE (h.parse_expression _ _ ?_) ?_ (fun _ _ _ => ?_)
  with_reducible omega
  with_reducible omega
  with_reducible refine halts_ADVANCE_OR_ERROR ?_ (fun _ _ => ?_)
  with_reducible omega
  with_reducible refine halts_EXPECT ?_ ?_
  with_reducible omega
  with_reducible refine halts_pure ?_
  with_reducible omega

theorem halt_parse_while_stmt {self : parser_fns} {B : Nat} (h : fns_halt self B)
    (s : parser_base) (hb : 64 * pending s + 1 ≤ B + 1) :
    halts (pending s) (parse_while_stmt self) s := by
  unfold parse_while_stmt
  with_reducible refine halts_bind_current_token ?_
  with_reducible refine halts_bind_assert_that (fun _ _ => ?_)
  with_reducible refine halts_ADVANCE_OR_ERROR ?_ (fun _ _ => ?_)
  with_reducible omega
  with_reducible refine halts_EXPECT ?_ ?_
  with_reducible omega
  with_reducible refine halts_ADVANCE_OR_ERROR ?_ (fun _ _ => ?_)
  with_reducible omega
  with_reducible refine halts_SUBPARSE (h.parse_expression _ _ ?_) ?_ (fun _ _ _ => ?_)
  with_reducible omega
  with_reducible omega
  with_reducible refine halts_ADVANCE_OR_ERROR ?_ (fun _ _ => ?_)
  with_reducible omega
  with_reducible refine halts_EXPECT ?_ ?_
  with_reducible omega
  with_reducible refine halts_ADVANCE_OR_ERROR ?_ (fun _ _ => ?_)
  with_reducible omega
  with_reducible refine halts_SUBPARSE (h.parse_statement _ ?_) ?_ (fun _ _ _ => ?_)
  with_reducible omega
  with_reducible omega
  with_reducible refine halts_pure ?_
  with_reducible omega

theorem halt_parse_for_stmt {self : parser_fns} {B : Nat} (h : fns_halt self B)
    (s : parser_base) (hb : 64 * pending s + 1 ≤ B + 1) :
    halts (pending s) (parse_for_stmt self) s := by
  unfold parse_for_stmt for_in_of for_c_style
  with_reducible refine halts_bind_current_token ?_
  with_reducible refine halts_bind_assert_that (fun _ _ => ?_)
  with_reducible refine halts_ADVANCE_OR_ERROR ?_ (fun _ _ => ?_)
  with_reducible omega
  with_reducible refine halts_EXPECT ?_ ?_
  with_reducible omega
  with_reducible refine halts_ADVANCE_OR_ERROR ?_ (fun _ _ => ?_)
  with_reducible omega
  with_reducible refine halts_bind_current_token ?_
  with_reducible refine halts_ite (fun _ => ?_) (fun _ => ?_)
  with_reducible refine halts_ADVANCE_OR_ERROR ?_ (fun _ _ => ?_)
  with_reducible omega
  with_reducible refine halts_EXPECT ?_ ?_
  with_reducible omega
  with_reducible refine halts_bind_current_token ?_
  with_reducible refine halts_ite (fun _ => ?_) (fun _ => ?_)
  with_reducible refine halts_ADVANCE_OR_ERROR ?_ (fun _ _ => ?_)
  with_reducible omega
  with_reducible refine halts_bind_current_token ?_
  with_reducible refine halts_ite (fun _ => ?_) (fun _ => ?_)
  with_reducible refine halts_ADVANCE_OR_ERROR ?_ (fun _ _ => ?_)
  with_reducible omega
  with_reducible refine halts_SUBPARSE (h.parse_expression _ _ ?_) ?_ (fun _ _ _ => ?_)
  with_reducible omega
  with_reducible omega
  with_reducible refine halts_ADVANCE_OR_ERROR ?_ (fun _ _ => ?_)
  with_reducible omega
  with_reducible refine halts_EXPECT ?_ ?_
  with_reducible omega
  with_reducible refine halts_ADVANCE_OR_ERROR ?_ (fun _ _ => ?_)
  with_reducible omega
  with_reducible refine halts_SUBPARSE (h.parse_statement _ ?_) ?_ (fun _ _ _ => ?_)
  with_reducible omega
  with_reducible omega
  with_reducible refine halts_pure ?_
  with_reducible omega
  with_reducible refine halts_ite (fun _ => ?_) (fun _ => ?_)
  with_reducible refine halts_ADVANCE_OR_ERROR ?_ (fun _ _ => ?_)
  with_reducible omega
  with_reducible refine halts_SUBPARSE (h.parse_expression _ _ ?_) ?_ (fun _ _ _ => ?_)
  with_reducible omega
  with_reducible omega
  with_reducible refine halts_ADVANCE_OR_ERROR ?_ (fun _ _ => ?_)
  with_reducible omega
  with_reducible refine halts_EXPECT ?_ ?_
  with_reducible omega
  with_reducible refine halts_ADVANCE_OR_ERROR ?_ (fun _ _ => ?_)
  with_reducible omega
  with_reducible refine halts_SUBPARSE (h.parse_statement _ ?_) ?_ (fun _ _ _ => ?_)
  with_reducible omega
  with_reducible omega
  with_reducible refine halts_pure ?_
  with_reducible omega
  with_reducible refine halts_bind_rewind (fun _ _ => ?_)
  with_reducible refine halts_bind_rewind (fun _ _ => ?_)
  with_reducible refine halts_SUBPARSE (h.parse_statement _ ?_) ?_ (fun _ _ _ => ?_)
  with_reducible omega
  with_reducible omega
  with_reducible refine halts_EXPECT ?_ ?_
  with_reducible omega
  with_reducible refine halts_ADVANCE_OR_ERROR ?_ (fun _ _ => ?_)
  with_reducible omega
  with_reducible refine halts_SUBPARSE (h.parse_expression _ _ ?_) ?_ (fun _ _ _ => ?_)
  with_reducible omega
  with_reducible omega
  with_reducible refine halts_ADVANCE_OR_ERROR ?_ (fun _ _ => ?_)
  with_reducible omega
  with_reducible refine halts_EXPECT ?_ ?_
  with_reducible omega
  with_reducible refine halts_ADVANCE_OR_ERROR ?_ (fun _ _ => ?_)
  with_reducible omega
  with_reducible refine halts_SUBPARSE (h.parse_statement _ ?_) ?_ (fun _ _ _ => ?_)
  with_reducible omega
  with_reducible omega
  with_reducible refine halts_ADVANCE_OR_ERROR ?_ (fun _ _ => ?_)
  with_reducible omega
  with_reducible refine halts_EXPECT ?_ ?_
  with_reducible omega
  with_reducible refine halts_ADVANCE_OR_ERROR ?_ (fun _ _ => ?_)
  with_reducible omega
  with_reducible refine halts_SUBPARSE (h.parse_statement _ ?_) ?_ (fun _ _ _ => ?_)
  with_reducible omega
  with_reducible omega
  with_reducible refine halts_pure ?_
  with_reducible omega
  with_reducible refine halts_bind_rewind (fun _ _ => ?_)
  with_reducible refine halts_SUBPARSE (h.parse_statement _ ?_) ?_ (fun _ _ _ => ?_)
  with_reducible omega
  with_reducible omega
  with_reducible refine halts_EXPECT ?_ ?_
  with_reducible omega
  with_reducible refine halts_ADVANCE_OR_ERROR ?_ (fun _ _ => ?_)
  with_reducible omega
  with_reducible refine halts_SUBPARSE (h.parse_expression _ _ ?_) ?_ (fun _ _ _ => ?_)
  with_reducible omega
  with_reducible omega
  with_reducible refine halts_ADVANCE_OR_ERROR ?_ (fun _ _ => ?_)
  with_reducible omega
  with_reducible refine halts_EXPECT ?_ ?_
  with_reducible omega
  with_reducible refine halts_ADVANCE_OR_ERROR ?_ (fun _ _ => ?_)
  with_reducible omega
  with_reducible refine halts_SUBPARSE (h.parse_statement _ ?_) ?_ (fun _ _ _ => ?_)
  with_reducible omega
  with_reducible omega
  with_reducible refine halts_ADVANCE_OR_ERROR ?_ (fun _ _ => ?_)
  with_reducible omega
  with_reducible refine halts_EXPECT ?_ ?_
  with_reducible omega
  with_reducible refine halts_ADVANCE_OR_ERROR ?_ (fun _ _ => ?_)
  with_reducible omega
  with_reducible refine halts_SUBPARSE (h.parse_statement _ ?_) ?_ (fun _ _ _ => ?_)
  with_reducible omega
  with_reducible omega
  with_reducible refine halts_pure ?_
  with_reducible omega
  with_reducible refine halts_bind_current_token ?_
  with_reducible refine halts_ite (fun _ => ?_) (fun _ => ?_)
  with_reducible refine halts_ADVANCE_OR_ERROR ?_ (fun _ _ => ?_)
  with_reducible omega
  with_reducible refine halts_bind_current_token ?_
  with_reducible refine halts_ite (fun _ => ?_) (fun _ => ?_)
  with_reducible refine halts_ADVANCE_OR_ERROR ?_ (fun _ _ => ?_)
  with_reducible omega
  with_reducible refine halts_SUBPARSE (h.parse_expression _ _ ?_) ?_ (fun _ _ _ => ?_)
  with_reducible omega
  with_reducible omega
  with_reducible refine halts_ADVANCE_OR_ERROR ?_ (fun _ _ => ?_)
  with_reducible omega
  with_reducible refine halts_EXPECT ?_ ?_
  with_reducible omega
  with_reducible refine halts_ADVANCE_OR_ERROR ?_ (fun _ _ => ?_)
  with_reducible omega
  with_reducible refine halts_SUBPARSE (h.parse_statement _ ?_) ?_ (fun _ _ _ => ?_)
  with_reducible omega
  with_reducible omega
  with_reducible refine halts_pure ?_
  with_reducible omega
  with_reducible refine halts_ite (fun _ => ?_) (fun _ => ?_)
  with_reducible refine halts_ADVANCE_OR_ERROR ?_ (fun _ _ => ?_)
  with_reducible omega
  with_reducible refine halts_SUBPARSE (h.parse_expression _ _ ?_) ?_ (fun _ _ _ => ?_)
  with_reducible omega
  with_reducible omega
  with_reducible refine halts_ADVANCE_OR_ERROR ?_ (fun _ _ => ?_)
  with_reducible omega
  with_reducible refine halts_EXPECT ?_ ?_
  with_reducible omega
  with_reducible refine halts_ADVANCE_OR_ERROR ?_ (fun _ _ => ?_)
  with_reducible omega
  with_reducible refine halts_SUBPARSE (h.parse_statement _ ?_) ?_ (fun _ _ _ => ?_)
  with_reducible omega
  with_reducible omega
  with_reducible refine halts_pure ?_
  with_reducible omega
  with_reducible refine halts_bind_rewind (fun _ _ => ?_)
  with_reducible refine halts_bind_pure ?_
  with_reducible refine halts_SUBPARSE (h.parse_statement _ ?_) ?_ (fun _ _ _ => ?_)
  with_reducible omega
  with_reducible omega
  with_reducible refine halts_EXPECT ?_ ?_
  with_reducible omega
  with_reducible refine halts_ADVANCE_OR_ERROR ?_ (fun _ _ => ?_)
  with_reducible omega
  with_reducible refine halts_SUBPARSE (h.parse_expression _ _ ?_) ?_ (fun _ _ _ => ?_)
  with_reducible omega
  with_reducible omega
  with_reducible refine halts_ADVANCE_OR_ERROR ?_ (fun _ _ => ?_)
  with_reducible omega
  with_reducible refine halts_EXPECT ?_ ?_
  with_reducible omega
  with_reducible refine halts_ADVANCE_OR_ERROR ?_ (fun _ _ => ?_)
  with_reducible omega
  with_reducible refine halts_SUBPARSE (h.parse_statement _ ?_) ?_ (fun _ _ _ => ?_)
  with_reducible omega
  with_reducible omega
  with_reducible refine halts_ADVANCE_OR_ERROR ?_ (fun _ _ => ?_)
  with_reducible omega
  with_reducible refine halts_EXPECT ?_ ?_
  with_reducible omega
  with_reducible refine halts_ADVANCE_OR_ERROR ?_ (fun _ _ => ?_)
  with_reducible omega
  with_reducible refine halts_SUBPARSE (h.parse_statement _ ?_) ?_ (fun _ _ _ => ?_)
  with_reducible omega
  with_reducible omega
  with_reducible refine halts_pure ?_
  with_reducible omega
  with_reducible refine halts_bind_pure ?_
  with_reducible refine halts_SUBPARSE (h.parse_statement _ ?_) ?_ (fun _ _ _ => ?_)
  with_reducible omega
  with_reducible omega
  with_reducible refine halts_EXPECT ?_ ?_
  with_reducible omega
  with_reducible refine halts_ADVANCE_OR_ERROR ?_ (fun _ _ => ?_)
  with_reducible omega
  with_reducible refine halts_SUBPARSE (h.parse_expression _ _ ?_) ?_ (fun _ _ _ => ?_)
  with_reducible omega
  with_reducible omega
  with_reducible refine halts_ADVANCE_OR_ERROR ?_ (fun _ _ => ?_)
  with_reducible omega
  with_reducible refine halts_EXPECT ?_ ?_
  with_reducible omega
  with_reducible refine halts_ADVANCE_OR_ERROR ?_ (fun _ _ => ?_)
  with_reducible omega
  with_reducible refine halts_SUBPARSE (h.parse_statement _ ?_) ?_ (fun _ _ _ => ?_)
  with_reducible omega
  with_reducible omega
  with_reducible refine halts_ADVANCE_OR_ERROR ?_ (fun _ _ => ?_)
  with_reducible omega
  with_reducible refine halts_EXPECT ?_ ?_
  with_reducible omega
  with_reducible refine halts_ADVANCE_OR_ERROR ?_ (fun _ _ => ?_)
  with_reducible omega
  with_reducible refine halts_SUBPARSE (h.parse_statement _ ?_) ?_ (fun _ _ _ => ?_)
  with_reducible omega
  with_reducible omega
  with_reducible refine halts_pure ?_
  with_reducible omega

theorem halt_parse_switch_stmt {self : parser_fns} {B : Nat} (h : fns_halt self B)
    (s : parser_base) (hb : 64 * pending s + 1 ≤ B + 1) :
    halts (pending s) (parse_switch_stmt self) s := by
  unfold parse_switch_stmt
  with_reducible refine halts_bind_current_token ?_
  with_reducible refine halts_bind_assert_that (fun _ _ => ?_)
  with_reducible refine halts_ADVANCE_OR_ERROR ?_ (fun _ _ => ?_)
  with_reducible omega
  with_reducible refine halts_EXPECT ?_ ?_
  with_reducible omega
  with_reducible refine halts_ADVANCE_OR_ERROR ?_ (fun _ _ => ?_)
  with_reducible omega
  with_reducible refine halts_SUBPARSE (h.parse_expression _ _ ?_) ?_ (fun _ _ _ => ?_)
  with_reducible omega
  with_reducible omega
  with_reducible refine halts_ADVANCE_OR_ERROR ?_ (fun _ _ => ?_)
  with_reducible omega
  with_reducible refine halts_EXPECT ?_ ?_
  with_reducible omega
  with_reducible refine halts_ADVANCE_OR_ERROR ?_ (fun _ _ => ?_)
  with_reducible omega
  with_reducible refine halts_EXPECT ?_ ?_
  with_reducible omega
  with_reducible refine halts_ADVANCE_OR_ERROR ?_ (fun _ _ => ?_)
  with_reducible omega
  with_reducible refine halts_call (h.switch_clauses_loop _ _ _ _ _ ?_) ?_
  with_reducible omega
  with_reducible omega

theorem halt_switch_clauses_loop {self : parser_fns} {B : Nat} (h : fns_halt self B) (loc : source_location) (value : Node) (hasDefault : Bool) (clauses : List Node)
    (s : parser_base) (hb : 64 * pending s + 1 ≤ B + 1) :
    halts (pending s) (switch_clauses_loop self loc value hasDefault clauses) s := by
  unfold switch_clauses_loop
  with_reducible refine halts_EXPECT_SEVERAL ?_ ?_
  with_reducible omega
  with_reducible refine halts_bind_current_token ?_
  with_reducible refine halts_ite (fun _ => ?_) (fun _ => ?_)
  with_reducible refine halts_pure ?_
  with_reducible omega
  with_reducible refine halts_ite (fun _ => ?_) (fun _ => ?_)
  with_reducible refine halts_ite (fun _ => ?_) (fun _ => ?_)
  with_reducible refine halts_bind_set_error (fun _ _ => ?_)
  with_reducible refine halts_pure ?_
  with_reducible omega
  with_reducible refine halts_ADVANCE_OR_ERROR ?_ (fun _ _ => ?_)
  with_reducible omega
  with_reducible refine halts_EXPECT ?_ ?_
  with_reducible omega
  with_reducible refine halts_ADVANCE_OR_ERROR ?_ (fun _ _ => ?_)
  with_reducible omega
  with_reducible refine halts_call (h.switch_stmts_loop _ _ _ _ _ _ ?_) ?_
  with_reducible omega
  with_reducible omega
  with_reducible refine halts_ite (fun _ => ?_) (fun _ => ?_)
  with_reducible refine halts_ADVANCE_OR_ERROR ?_ (fun _ _ => ?_)
  with_reducible omega
  with_reducible refine halts_SUBPARSE (h.parse_expression _ _ ?_) ?_ (fun _ _ _ => ?_)
  with_reducible omega
  with_reducible omega
  with_reducible refine halts_ADVANCE_OR_ERROR ?_ (fun _ _ => ?_)
  with_reducible omega
  with_reducible refine halts_EXPECT ?_ ?_
  with_reducible omega
  with_reducible refine halts_ADVANCE_OR_ERROR ?_ (fun _ _ => ?_)
  with_reducible omega
  with_reducible refine halts_call (h.switch_stmts_loop _ _ _ _ _ _ ?_) ?_
  with_reducible omega
  with_reducible omega
  with_reducible refine halts_bind_set_error (fun _ _ => ?_)
  with_reducible refine halts_pure ?_
  with_reducible omega

theorem halt_switch_stmts_loop {self : parser_fns} {B : Nat} (h : fns_halt self B) (loc : source_location) (value : Node) (hasDefault : Bool) (clauses : List Node) (clause : Node)
    (s : parser_base) (hb : 64 * pending s + 8 ≤ B + 1) :
    halts (pending s) (switch_stmts_loop self loc value hasDefault clauses clause) s := by
  unfold switch_stmts_loop
  with_reducible refine halts_bind_current_token ?_
  with_reducible refine halts_ite (fun _ => ?_) (fun _ => ?_)
  with_reducible refine halts_call (h.switch_clauses_loop _ _ _ _ _ ?_) ?_
  with_reducible omega
  with_reducible omega
  with_reducible refine halts_SUBPARSE (h.parse_statement _ ?_) ?_ (fun _ _ _ => ?_)
  with_reducible omega
  with_reducible omega
  with_reducible refine halts_ADVANCE_OR_ERROR ?_ (fun _ _ => ?_)
  with_reducible omega
  with_reducible refine halts_call (h.switch_stmts_loop _ _ _ _ _ _ ?_) ?_
  with_reducible omega
  with_reducible omega

theorem halt_parse_return_stmt {self : parser_fns} {B : Nat} (h : fns_halt self B)
    (s : parser_base) (hb : 64 * pending s + 1 ≤ B + 1) :
    halts (pending s) (parse_return_stmt self) s := by
  unfold parse_return_stmt
  with_reducible refine halts_bind_current_token ?_
  with_reducible refine halts_bind_assert_that (fun _ _ => ?_)
  with_reducible refine halts_bind_advance (fun _ _ => ?_) (fun _ _ => ?_)
  with_reducible refine halts_bind_current_token ?_
  with_reducible refine halts_ite (fun _ => ?_) (fun _ => ?_)
  with_reducible refine halts_SUBPARSE (h.parse_expression _ _ ?_) ?_ (fun _ _ _ => ?_)
  with_reducible omega
  with_reducible omega
  with_reducible refine halts_pure ?_
  with_reducible omega
  with_reducible refine halts_pure ?_
  with_reducible omega
  with_reducible refine halts_bind_current_token ?_
  with_reducible refine halts_ite (fun _ => ?_) (fun _ => ?_)
  with_reducible refine halts_SUBPARSE (h.parse_expression _ _ ?_) ?_ (fun _ _ _ => ?_)
  focus with_reducible (exfalso; simp at *; done)
  with_reducible omega
  with_reducible refine halts_pure ?_
  with_reducible omega
  with_reducible refine halts_pure ?_
  with_reducible omega

theorem halt_parse_throw_stmt {self : parser_fns} {B : Nat} (h : fns_halt self B)
    (s : parser_base) (hb : 64 * pending s + 1 ≤ B + 1) :
    halts (pending s) (parse_throw_stmt self) s := by
  unfold parse_throw_stmt
  with_reducible refine halts_bind_current_token ?_
  with_reducible refine halts_bind_assert_that (fun _ _ => ?_)
  with_reducible refine halts_ADVANCE_OR_ERROR ?_ (fun _ _ => ?_)
  with_reducible omega
  with_reducible refine halts_SUBPARSE (h.parse_expression _ _ ?_) ?_ (fun _ _ _ => ?_)
  with_reducible omega
  with_reducible omega
  with_reducible refine halts_pure ?_
  with_reducible omega

theorem halt_parse_try_stmt {self : parser_fns} {B : Nat} (h : fns_halt self B)
    (s : parser_base) (hb : 64 * pending s + 1 ≤ B + 1) :
    halts (pending s) (parse_try_stmt self) s := by
  unfold parse_try_stmt try_finally
  with_reducible refine halts_bind_current_token ?_
  with_reducible refine halts_bind_assert_that (fun _ _ => ?_)
  with_reducible refine halts_ADVANCE_OR_ERROR ?_ (fun _ _ => ?_)
  with_reducible omega
  with_reducible refine halts_EXPECT ?_ ?_
  with_reducible omega
  with_reducible refine halts_SUBPARSE (h.parse_block _ ?_) ?_ (fun _ _ _ => ?_)
  with_reducible omega
  with_reducible omega
  with_reducible refine halts_ADVANCE_OR_ERROR ?_ (fun _ _ => ?_)
  with_reducible omega
  with_reducible refine halts_bind_current_token ?_
  with_reducible refine halts_ite (fun _ => ?_) (fun _ => ?_)
  with_reducible refine halts_ADVANCE_OR_ERROR ?_ (fun _ _ => ?_)
  with_reducible omega
  with_reducible refine halts_EXPECT ?_ ?_
  with_reducible omega
  with_reducible refine halts_ADVANCE_OR_ERROR ?_ (fun _ _ => ?_)
  with_reducible omega
  with_reducible refine halts_EXPECT ?_ ?_
  with_reducible omega
  with_reducible refine halts_bind_current_token ?_
  with_reducible refine halts_ADVANCE_OR_ERROR ?_ (fun _ _ => ?_)
  with_reducible omega
  with_reducible refine halts_EXPECT ?_ ?_
  with_reducible omega
  with_reducible refine halts_ADVANCE_OR_ERROR ?_ (fun _ _ => ?_)
  with_reducible omega
  with_reducible refine halts_EXPECT ?_ ?_
  with_reducible omega
  with_reducible refine halts_SUBPARSE (h.parse_block _ ?_) ?_ (fun _ _ _ => ?_)
  with_reducible omega
  with_reducible omega
  with_reducible refine halts_bind_advance (fun _ _ => ?_) (fun _ _ => ?_)
  with_reducible refine halts_ite (fun _ => ?_) (fun _ => ?_)
  with_reducible refine halts_pure ?_
  with_reducible omega
  with_reducible refine halts_bind_current_token ?_
  with_reducible refine halts_ite (fun _ => ?_) (fun _ => ?_)
  with_reducible refine halts_ADVANCE_OR_ERROR ?_ (fun _ _ => ?_)
  with_reducible omega
  with_reducible refine halts_EXPECT ?_ ?_
  with_reducible omega
  with_reducible refine halts_SUBPARSE (h.parse_block _ ?_) ?_ (fun _ _ _ => ?_)
  with_reducible omega
  with_reducible omega
  with_reducible refine halts_pure ?_
  with_reducible omega
  with_reducible refine halts_ite (fun _ => ?_) (fun _ => ?_)
  with_reducible refine halts_bind_set_error (fun _ _ => ?_)
  with_reducible refine halts_pure ?_
  with_reducible omega
  with_reducible refine halts_pure ?_
  with_reducible omega
  with_reducible refine halts_ite (fun _ => ?_) (fun _ => ?_)
  with_reducible refine halts_pure ?_
  with_reducible omega
  with_reducible refine halts_bind_current_token ?_
  with_reducible refine halts_ite (fun _ => ?_) (fun _ => ?_)
  with_reducible refine halts_ADVANCE_OR_ERROR ?_ (fun _ _ => ?_)
  with_reducible omega
  with_reducible refine halts_EXPECT ?_ ?_
  with_reducible omega
  with_reducible refine halts_SUBPARSE (h.parse_block _ ?_) ?_ (fun _ _ _ => ?_)
  with_reducible omega
  with_reducible omega
  with_reducible refine halts_pure ?_
  with_reducible omega
  with_reducible refine halts_ite (fun _ => ?_) (fun _ => ?_)
  with_reducible refine halts_bind_set_error (fun _ _ => ?_)
  with_reducible refine halts_pure ?_
  with_reducible omega
  with_reducible refine halts_pure ?_
  with_reducible omega
  with_reducible refine halts_bind_current_token ?_
  with_reducible refine halts_ite (fun _ => ?_) (fun _ => ?_)
  with_reducible refine halts_ADVANCE_OR_ERROR ?_ (fun _ _ => ?_)
  with_reducible omega
  with_reducible refine halts_EXPECT ?_ ?_
  with_reducible omega
  with_reducible refine halts_SUBPARSE (h.parse_block _ ?_) ?_ (fun _ _ _ => ?_)
  with_reducible omega
  with_reducible omega
  with_reducible refine halts_pure ?_
  with_reducible omega
  with_reducible refine halts_ite (fun _ => ?_) (fun _ => ?_)
  with_reducible refine halts_bind_set_error (fun _ _ => ?_)
  with_reducible refine halts_pure ?_
  with_reducible omega
  with_reducible refine halts_pure ?_
  with_reducible omega

theorem halt_parse_expression {self : parser_fns} {B : Nat} (h : fns_halt self B) (comma_is_operator : Bool)
    (s : parser_base) (hb : 64 * pending s + 5 ≤ B + 1) :
    halts (pending s) (parse_expression self comma_is_operator) s := by
  unfold parse_expression
  with_reducible refine halts_bind_call (h.parse_unary_or_atomic_expr _ ?_) (fun _ _ _ => ?_)
  with_reducible omega
  with_reducible refine halts_ite (fun _ => ?_) (fun _ => ?_)
  with_reducible refine halts_bind_current_token ?_
  with_reducible refine halts_bind_advance (fun _ _ => ?_) (fun _ _ => ?_)
  with_reducible refine halts_ite (fun _ => ?_) (fun _ => ?_)
  with_reducible refine halts_pure ?_
  with_reducible omega
  with_reducible refine halts_bind_current_token ?_
  with_reducible refine halts_ite (fun _ => ?_) (fun _ => ?_)
  with_reducible refine halts_bind_rewind (fun _ _ => ?_)
  with_reducible refine halts_pure ?_
  with_reducible omega
  with_reducible refine halts_ite (fun _ => ?_) (fun _ => ?_)
  with_reducible refine halts_call (h.parse_bin_op _ _ _ ?_) ?_
  with_reducible omega
  with_reducible omega
  with_reducible refine halts_bind_rewind (fun _ _ => ?_)
  with_reducible refine halts_pure ?_
  with_reducible omega
  with_reducible refine halts_ite (fun _ => ?_) (fun _ => ?_)
  with_reducible refine halts_pure ?_
  with_reducible omega
  with_reducible refine halts_bind_current_token ?_
  with_reducible refine halts_ite (fun _ => ?_) (fun _ => ?_)
  with_reducible refine halts_bind_rewind (fun _ _ => ?_)
  with_reducible refine halts_pure ?_
  focus with_reducible (exfalso; simp at *; done)
  with_reducible refine halts_ite (fun _ => ?_) (fun _ => ?_)
  with_reducible refine halts_call (h.parse_bin_op _ _ _ ?_) ?_
  with_reducible omega
  with_reducible omega
  with_reducible refine halts_bind_rewind (fun _ _ => ?_)
  with_reducible refine halts_pure ?_
  focus with_reducible (exfalso; simp at *; done)
  with_reducible refine halts_bind_has_error ?_
  with_reducible refine halts_ite (fun _ => ?_) (fun _ => ?_)
  with_reducible refine halts_pure ?_
  with_reducible omega
  with_reducible refine halts_bind_current_token ?_
  with_reducible refine halts_bind_set_error (fun _ _ => ?_)
  with_reducible refine halts_pure ?_
  with_reducible omega

theorem halt_parse_unary_or_atomic_expr {self : parser_fns} {B : Nat} (h : fns_halt self B)
    (s : parser_base) (hb : 64 * pending s + 4 ≤ B + 1) :
    halts (pending s) (parse_unary_or_atomic_expr self) s := by
  unfold parse_unary_or_atomic_expr
  with_reducible refine halts_bind_current_token ?_
  with_reducible refine halts_ite (fun _ => ?_) (fun _ => ?_)
  with_reducible refine halts_ADVANCE_OR_ERROR ?_ (fun _ _ => ?_)
  with_reducible omega
  with_reducible refine halts_SUBPARSE (h.parse_atomic_expr _ ?_) ?_ (fun _ _ _ => ?_)
  with_reducible omega
  with_reducible omega
  with_reducible refine halts_bind_call (halt_make_unary_prefix_op _ _ _) (fun _ _ _ => ?_)
  with_reducible refine halts_ASSERT_PARSE_RESULT ?_ ?_
  with_reducible omega
  with_reducible refine halts_pure ?_
  with_reducible omega
  with_reducible refine halts_bind_call (h.parse_atomic_expr _ ?_) (fun _ _ _ => ?_)
  with_reducible omega
  with_reducible refine halts_ASSERT_PARSE_RESULT ?_ ?_
  with_reducible omega
  with_reducible refine halts_pure ?_
  with_reducible omega

theorem halt_atomic_postfix_loop {self : parser_fns} {B : Nat} (h : fns_halt self B) (expr : Node)
    (s : parser_base) (hb : 64 * pending s + 1 ≤ B + 1) :
    halts (pending s) (atomic_postfix_loop self expr) s := by
  unfold atomic_postfix_loop
  with_reducible refine halts_bind_current_token ?_
  with_reducible refine halts_bind_advance (fun _ _ => ?_) (fun _ _ => ?_)
  with_reducible refine halts_ite (fun _ => ?_) (fun _ => ?_)
  with_reducible refine halts_bind_current_token ?_
  with_reducible refine halts_ite (fun _ => ?_) (fun _ => ?_)
  with_reducible refine halts_bind_call (halt_parse_member_access _ _) (fun _ _ _ => ?_)
  with_reducible refine halts_call (h.atomic_postfix_loop _ _ ?_) ?_
  with_reducible omega
  with_reducible omega
  with_reducible refine halts_ite (fun _ => ?_) (fun _ => ?_)
  with_reducible refine halts_bind_call (h.parse_call _ _ ?_) (fun _ _ _ => ?_)
  with_reducible omega
  with_reducible refine halts_call (h.atomic_postfix_loop _ _ ?_) ?_
  with_reducible omega
  with_reducible omega
  with_reducible refine halts_ite (fun _ => ?_) (fun _ => ?_)
  with_reducible refine halts_bind_call (h.parse_computed_access _ _ ?_) (fun _ _ _ => ?_)
  with_reducible omega
  with_reducible refine halts_call (h.atomic_postfix_loop _ _ ?_) ?_
  with_reducible omega
  with_reducible omega
  with_reducible refine halts_bind_rewind (fun _ _ => ?_)
  with_reducible refine halts_pure ?_
  with_reducible omega
  with_reducible refine halts_pure ?_
  with_reducible omega
  with_reducible refine halts_ite (fun _ => ?_) (fun _ => ?_)
  with_reducible refine halts_bind_current_token ?_
  with_reducible refine halts_ite (fun _ => ?_) (fun _ => ?_)
  with_reducible refine halts_bind_call (halt_parse_member_access _ _) (fun _ _ _ => ?_)
  with_reducible refine halts_call (h.atomic_postfix_loop _ _ ?_) ?_
  focus with_reducible (exfalso; simp at *; done)
  with_reducible omega
  with_reducible refine halts_ite (fun _ => ?_) (fun _ => ?_)
  with_reducible refine halts_bind_call (h.parse_call _ _ ?_) (fun _ _ _ => ?_)
  focus with_reducible (exfalso; simp at *; done)
  with_reducible refine halts_call (h.atomic_postfix_loop _ _ ?_) ?_
  focus with_reducible (exfalso; simp at *; done)
  with_reducible omega
  with_reducible refine halts_ite (fun _ => ?_) (fun _ => ?_)
  with_reducible refine halts_bind_call (h.parse_computed_access _ _ ?_) (fun _ _ _ => ?_)
  focus with_reducible (exfalso; simp at *; done)
  with_reducible refine halts_call (h.atomic_postfix_loop _ _ ?_) ?_
  focus with_reducible (exfalso; simp at *; done)
  with_reducible omega
  with_reducible refine halts_bind_rewind (fun _ _ => ?_)
  with_reducible refine halts_pure ?_
  focus with_reducible (exfalso; simp at *; done)
  with_reducible refine halts_pure ?_
  with_reducible omega

theorem halt_parse_atomic_expr {self : parser_fns} {B : Nat} (h : fns_halt self B)
    (s : parser_base) (hb : 64 * pending s + 3 ≤ B + 1) :
    halts (pending s) (parse_atomic_expr self) s := by
  unfold parse_atomic_expr atomic_start
  with_reducible refine halts_bind_assoc ?_
  with_reducible refine halts_bind_current_token ?_
  with_reducible refine halts_bind_ite (fun _ => ?_) (fun _ => ?_)
  with_reducible refine halts_bind_call (h.parse_atomic_keyword_expr _ ?_) (fun _ _ _ => ?_)
  with_reducible omega
  with_reducible refine halts_ite (fun _ => ?_) (fun _ => ?_)
  with_reducible refine halts_bind_has_error ?_
  with_reducible refine halts_ite (fun _ => ?_) (fun _ => ?_)
  with_reducible refine halts_bind_current_token ?_
  with_reducible refine halts_bind_set_error (fun _ _ => ?_)
  with_reducible refine halts_pure ?_
  with_reducible omega
  with_reducible refine halts_pure ?_
  with_reducible omega
  with_reducible refine halts_bind_call (h.atomic_postfix_loop _ _ ?_) (fun _ _ _ => ?_)
  with_reducible omega
  with_reducible refine halts_call (halt_atomic_postfix_step _ _) ?_
  with_reducible omega
  with_reducible refine halts_bind_ite (fun _ => ?_) (fun _ => ?_)
  with_reducible refine halts_bind_pure ?_
  with_reducible refine halts_ite (fun _ => ?_) (fun _ => ?_)
  with_reducible refine halts_bind_has_error ?_
  with_reducible refine halts_ite (fun _ => ?_) (fun _ => ?_)
  with_reducible refine halts_bind_current_token ?_
  with_reducible refine halts_bind_set_error (fun _ _ => ?_)
  with_reducible refine halts_pure ?_
  with_reducible omega
  with_reducible refine halts_pure ?_
  with_reducible omega
  with_reducible refine halts_bind_call (h.atomic_postfix_loop _ _ ?_) (fun _ _ _ => ?_)
  with_reducible omega
  with_reducible refine halts_call (halt_atomic_postfix_step _ _) ?_
  with_reducible omega
  with_reducible refine halts_bind_ite (fun _ => ?_) (fun _ => ?_)
  with_reducible refine halts_bind_call (halt_parse_number_literal _) (fun _ _ _ => ?_)
  with_reducible refine halts_ite (fun _ => ?_) (fun _ => ?_)
  with_reducible refine halts_bind_has_error ?_
  with_reducible refine halts_ite (fun _ => ?_) (fun _ => ?_)
  with_reducible refine halts_bind_current_token ?_
  with_reducible refine halts_bind_set_error (fun _ _ => ?_)
  with_reducible refine halts_pure ?_
  with_reducible omega
  with_reducible refine halts_pure ?_
  with_reducible omega
  with_reducible refine halts_bind_call (h.atomic_postfix_loop _ _ ?_) (fun _ _ _ => ?_)
  with_reducible omega
  with_reducible refine halts_call (halt_atomic_postfix_step _ _) ?_
  with_reducible omega
  with_reducible refine halts_bind_ite (fun _ => ?_) (fun _ => ?_)
  with_reducible refine halts_bind_call (halt_parse_string_literal _) (fun _ _ _ => ?_)
  with_reducible refine halts_ite (fun _ => ?_) (fun _ => ?_)
  with_reducible refine halts_bind_has_error ?_
  with_reducible refine halts_ite (fun _ => ?_) (fun _ => ?_)
  with_reducible refine halts_bind_current_token ?_
  with_reducible refine halts_bind_set_error (fun _ _ => ?_)
  with_reducible refine halts_pure ?_
  with_reducible omega
  with_reducible refine halts_pure ?_
  with_reducible omega
  with_reducible refine halts_bind_call (h.atomic_postfix_loop _ _ ?_) (fun _ _ _ => ?_)
  with_reducible omega
  with_reducible refine halts_call (halt_atomic_postfix_step _ _) ?_
  with_reducible omega
  with_reducible refine halts_bind_ite (fun _ => ?_) (fun _ => ?_)
  with_reducible refine halts_bind_call (h.parse_template_literal _ ?_) (fun _ _ _ => ?_)
  with_reducible omega
  with_reducible refine halts_ite (fun _ => ?_) (fun _ => ?_)
  with_reducible refine halts_bind_has_error ?_
  with_reducible refine halts_ite (fun _ => ?_) (fun _ => ?_)
  with_reducible refine halts_bind_current_token ?_
  with_reducible refine halts_bind_set_error (fun _ _ => ?_)
  with_reducible refine halts_pure ?_
  with_reducible omega
  with_reducible refine halts_pure ?_
  with_reducible omega
  with_reducible refine halts_bind_call (h.atomic_postfix_loop _ _ ?_) (fun _ _ _ => ?_)
  with_reducible omega
  with_reducible refine halts_call (halt_atomic_postfix_step _ _) ?_
  with_reducible omega
  with_reducible refine halts_bind_ite (fun _ => ?_) (fun _ => ?_)
  with_reducible refine halts_bind_pure ?_
  with_reducible refine halts_ite (fun _ => ?_) (fun _ => ?_)
  with_reducible refine halts_bind_has_error ?_
  with_reducible refine halts_ite (fun _ => ?_) (fun _ => ?_)
  with_reducible refine halts_bind_current_token ?_
  with_reducible refine halts_bind_set_error (fun _ _ => ?_)
  with_reducible refine halts_pure ?_
  with_reducible omega
  with_reducible refine halts_pure ?_
  with_reducible omega
  with_reducible refine halts_bind_call (h.atomic_postfix_loop _ _ ?_) (fun _ _ _ => ?_)
  with_reducible omega
  with_reducible refine halts_call (halt_atomic_postfix_step _ _) ?_
  with_reducible omega
  with_reducible refine halts_bind_ite (fun _ => ?_) (fun _ => ?_)
  with_reducible refine halts_bind_call (h.parse_array_literal _ ?_) (fun _ _ _ => ?_)
  with_reducible omega
  with_reducible refine halts_ite (fun _ => ?_) (fun _ => ?_)
  with_reducible refine halts_bind_has_error ?_
  with_reducible refine halts_ite (fun _ => ?_) (fun _ => ?_)
  with_reducible refine halts_bind_current_token ?_
  with_reducible refine halts_bind_set_error (fun _ _ => ?_)
  with_reducible refine halts_pure ?_
  with_reducible omega
  with_reducible refine halts_pure ?_
  with_reducible omega
  with_reducible refine halts_bind_call (h.atomic_postfix_loop _ _ ?_) (fun _ _ _ => ?_)
  with_reducible omega
  with_reducible refine halts_call (halt_atomic_postfix_step _ _) ?_
  with_reducible omega
  with_reducible refine halts_bind_ite (fun _ => ?_) (fun _ => ?_)
  with_reducible refine halts_bind_call (h.parse_object_literal _ ?_) (fun _ _ _ => ?_)
  with_reducible omega
  with_reducible refine halts_ite (fun _ => ?_) (fun _ => ?_)
  with_reducible refine halts_bind_has_error ?_
  with_reducible refine halts_ite (fun _ => ?_) (fun _ => ?_)
  with_reducible refine halts_bind_current_token ?_
  with_reducible refine halts_bind_set_error (fun _ _ => ?_)
  with_reducible refine halts_pure ?_
  with_reducible omega
  with_reducible refine halts_pure ?_
  with_reducible omega
  with_reducible refine halts_bind_call (h.atomic_postfix_loop _ _ ?_) (fun _ _ _ => ?_)
  with_reducible omega
  with_reducible refine halts_call (halt_atomic_postfix_step _ _) ?_
  with_reducible omega
  with_reducible refine halts_bind_ite (fun _ => ?_) (fun _ => ?_)
  with_reducible refine halts_bind_call (h.parse_parens_expr _ ?_) (fun _ _ _ => ?_)
  with_reducible omega
  with_reducible refine halts_ite (fun _ => ?_) (fun _ => ?_)
  with_reducible refine halts_bind_has_error ?_
  with_reducible refine halts_ite (fun _ => ?_) (fun _ => ?_)
  with_reducible refine halts_bind_current_token ?_
  with_reducible refine halts_bind_set_error (fun _ _ => ?_)
  with_reducible refine halts_pure ?_
  with_reducible omega
  with_reducible refine halts_pure ?_
  with_reducible omega
  with_reducible refine halts_bind_call (h.atomic_postfix_loop _ _ ?_) (fun _ _ _ => ?_)
  with_reducible omega
  with_reducible refine halts_call (halt_atomic_postfix_step _ _) ?_
  with_reducible omega
  with_reducible refine halts_bind_pure ?_
  with_reducible refine halts_ite (fun _ => ?_) (fun _ => ?_)
  with_reducible refine halts_bind_has_error ?_
  with_reducible refine halts_ite (fun _ => ?_) (fun _ => ?_)
  with_reducible refine halts_bind_current_token ?_
  with_reducible refine halts_bind_set_error (fun _ _ => ?_)
  with_reducible refine halts_pure ?_
  with_reducible omega
  with_reducible refine halts_pure ?_
  with_reducible omega
  with_reducible refine halts_bind_call (h.atomic_postfix_loop _ _ ?_) (fun _ _ _ => ?_)
  with_reducible omega
  with_reducible refine halts_call (halt_atomic_postfix_step _ _) ?_
  with_reducible omega

theorem halt_parens_list_loop {self : parser_fns} {B : Nat} (h : fns_halt self B) (loc : source_location) (reason_no_paramlist : Option token) (exprs : List Node)
    (s : parser_base) (hb : 64 * pending s + 6 ≤ B + 1) :
    halts (pending s) (parens_list_loop self loc reason_no_paramlist exprs) s := by
  unfold parens_list_loop parens_tail parens_arrow
  with_reducible refine halts_bind_current_token ?_
  with_reducible refine halts_ite (fun _ => ?_) (fun _ => ?_)
  with_reducible refine halts_ADVANCE_OR_ERROR ?_ (fun _ _ => ?_)
  with_reducible omega
  with_reducible refine halts_EXPECT ?_ ?_
  with_reducible omega
  with_reducible refine halts_bind_current_token ?_
  with_reducible refine halts_ADVANCE_OR_ERROR ?_ (fun _ _ => ?_)
  with_reducible omega
  with_reducible refine halts_EXPECT ?_ ?_
  with_reducible omega
  with_reducible refine halts_EXPECT ?_ ?_
  with_reducible omega
  with_reducible refine halts_bind_current_token ?_
  with_reducible refine halts_bind_advance (fun _ _ => ?_) (fun _ _ => ?_)
  with_reducible refine halts_bind_current_token ?_
  with_reducible refine halts_ite (fun _ => ?_) (fun _ => ?_)
  focus with_reducible (show halts _ _ _; split)
  with_reducible refine halts_bind_set_error (fun _ _ => ?_)
  with_reducible refine halts_pure ?_
  with_reducible omega
  with_reducible refine halts_ADVANCE_OR_ERROR ?_ (fun _ _ => ?_)
  with_reducible omega
  with_reducible refine halts_bind_current_token ?_
  with_reducible refine halts_ite (fun _ => ?_) (fun _ => ?_)
  with_reducible refine halts_bind_call (h.parse_block_or_obj _ _ ?_) (fun _ _ _ => ?_)
  with_reducible omega
  with_reducible refine halts_ASSERT_PARSE_RESULT ?_ ?_
  with_reducible omega
  with_reducible refine halts_pure ?_
  with_reducible omega
  with_reducible refine halts_bind_call (h.parse_expression _ _ ?_) (fun _ _ _ => ?_)
  with_reducible omega
  with_reducible refine halts_ASSERT_PARSE_RESULT ?_ ?_
  with_reducible omega
  with_reducible refine halts_pure ?_
  with_reducible omega
  with_reducible refine halts_ite (fun _ => ?_) (fun _ => ?_)
  with_reducible refine halts_bind_rewind (fun _ _ => ?_)
  with_reducible refine halts_bind_set_error (fun _ _ => ?_)
  with_reducible refine halts_pure ?_
  with_reducible omega
  with_reducible refine halts_bind_pure ?_
  with_reducible refine halts_bind_set_error (fun _ _ => ?_)
  with_reducible refine halts_pure ?_
  with_reducible omega
  with_reducible refine halts_bind_current_token ?_
  with_reducible refine halts_ite (fun _ => ?_) (fun _ => ?_)
  focus with_reducible (show halts _ _ _; split)
  with_reducible refine halts_bind_set_error (fun _ _ => ?_)
  with_reducible refine halts_pure ?_
  with_reducible omega
  with_reducible refine halts_ADVANCE_OR_ERROR ?_ (fun _ _ => ?_)
  with_reducible omega
  with_reducible refine halts_bind_current_token ?_
  with_reducible refine halts_ite (fun _ => ?_) (fun _ => ?_)
  with_reducible refine halts_bind_call (h.parse_block_or_obj _ _ ?_) (fun _ _ _ => ?_)
  with_reducible omega
  with_reducible refine halts_ASSERT_PARSE_RESULT ?_ ?_
  with_reducible omega
  with_reducible refine halts_pure ?_
  with_reducible omega
  with_reducible refine halts_bind_call (h.parse_expression _ _ ?_) (fun _ _ _ => ?_)
  with_reducible omega
  with_reducible refine halts_ASSERT_PARSE_RESULT ?_ ?_
  with_reducible omega
  with_reducible refine halts_pure ?_
  with_reducible omega
  with_reducible refine halts_ite (fun _ => ?_) (fun _ => ?_)
  with_reducible refine halts_bind_rewind (fun _ _ => ?_)
  with_reducible refine halts_bind_set_error (fun _ _ => ?_)
  with_reducible refine halts_pure ?_
  with_reducible omega
  with_reducible refine halts_bind_pure ?_
  with_reducible refine halts_bind_set_error (fun _ _ => ?_)
  with_reducible refine halts_pure ?_
  with_reducible omega
  with_reducible refine halts_SUBPARSE (h.parse_expression _ _ ?_) ?_ (fun _ _ _ => ?_)
  with_reducible omega
  with_reducible omega
  with_reducible refine halts_bind_assert_that (fun _ _ => ?_)
  with_reducible refine halts_ADVANCE_OR_ERROR ?_ (fun _ _ => ?_)
  with_reducible omega
  with_reducible refine halts_EXPECT_SEVERAL ?_ ?_
  with_reducible omega
  with_reducible refine halts_bind_current_token ?_
  with_reducible refine halts_ite (fun _ => ?_) (fun _ => ?_)
  with_reducible refine halts_EXPECT ?_ ?_
  with_reducible omega
  with_reducible refine halts_bind_current_token ?_
  with_reducible refine halts_bind_advance (fun _ _ => ?_) (fun _ _ => ?_)
  with_reducible refine halts_bind_current_token ?_
  with_reducible refine halts_ite (fun _ => ?_) (fun _ => ?_)
  focus with_reducible (show halts _ _ _; split)
  with_reducible refine halts_bind_set_error (fun _ _ => ?_)
  with_reducible refine halts_pure ?_
  with_reducible omega
  with_reducible refine halts_ADVANCE_OR_ERROR ?_ (fun _ _ => ?_)
  with_reducible omega
  with_reducible refine halts_bind_current_token ?_
  with_reducible refine halts_ite (fun _ => ?_) (fun _ => ?_)
  with_reducible refine halts_bind_call (h.parse_block_or_obj _ _ ?_) (fun _ _ _ => ?_)
  with_reducible omega
  with_reducible refine halts_ASSERT_PARSE_RESULT ?_ ?_
  with_reducible omega
  with_reducible refine halts_pure ?_
  with_reducible omega
  with_reducible refine halts_bind_call (h.parse_expression _ _ ?_) (fun _ _ _ => ?_)
  with_reducible omega
  with_reducible refine halts_ASSERT_PARSE_RESULT ?_ ?_
  with_reducible omega
  with_reducible refine halts_pure ?_
  with_reducible omega
  with_reducible refine halts_ite (fun _ => ?_) (fun _ => ?_)
  with_reducible refine halts_bind_rewind (fun _ _ => ?_)
  focus with_reducible (show halts _ _ _; split)
  with_reducible refine halts_bind_set_error (fun _ _ => ?_)
  with_reducible refine halts_pure ?_
  with_reducible omega
  focus with_reducible (show halts _ _ _; split)
  with_reducible refine halts_bind_assert_that (fun _ _ => ?_)
  with_reducible refine halts_pure ?_
  with_reducible omega
  with_reducible refine halts_pure ?_
  with_reducible omega
  with_reducible refine halts_bind_pure ?_
  focus with_reducible (show halts _ _ _; split)
  with_reducible refine halts_bind_set_error (fun _ _ => ?_)
  with_reducible refine halts_pure ?_
  with_reducible omega
  focus with_reducible (show halts _ _ _; split)
  with_reducible refine halts_bind_assert_that (fun _ _ => ?_)
  with_reducible refine halts_pure ?_
  with_reducible omega
  with_reducible refine halts_pure ?_
  with_reducible omega
  with_reducible refine halts_bind_current_token ?_
  with_reducible refine halts_ite (fun _ => ?_) (fun _ => ?_)
  focus with_reducible (show halts _ _ _; split)
  with_reducible refine halts_bind_set_error (fun _ _ => ?_)
  with_reducible refine halts_pure ?_
  with_reducible omega
  with_reducible refine halts_ADVANCE_OR_ERROR ?_ (fun _ _ => ?_)
  with_reducible omega
  with_reducible refine halts_bind_current_token ?_
  with_reducible refine halts_ite (fun _ => ?_) (fun _ => ?_)
  with_reducible refine halts_bind_call (h.parse_block_or_obj _ _ ?_) (fun _ _ _ => ?_)
  with_reducible omega
  with_reducible refine halts_ASSERT_PARSE_RESULT ?_ ?_
  with_reducible omega
  with_reducible refine halts_pure ?_
  with_reducible omega
  with_reducible refine halts_bind_call (h.parse_expression _ _ ?_) (fun _ _ _ => ?_)
  with_reducible omega
  with_reducible refine halts_ASSERT_PARSE_RESULT ?_ ?_
  with_reducible omega
  with_reducible refine halts_pure ?_
  with_reducible omega
  with_reducible refine halts_ite (fun _ => ?_) (fun _ => ?_)
  with_reducible refine halts_bind_rewind (fun _ _ => ?_)
  focus with_reducible (show halts _ _ _; split)
  with_reducible refine halts_bind_set_error (fun _ _ => ?_)
  with_reducible refine halts_pure ?_
  with_reducible omega
  focus with_reducible (show halts _ _ _; split)
  with_reducible refine halts_bind_assert_that (fun _ _ => ?_)
  with_reducible refine halts_pure ?_
  with_reducible omega
  with_reducible refine halts_pure ?_
  with_reducible omega
  with_reducible refine halts_bind_pure ?_
  focus with_reducible (show halts _ _ _; split)
  with_reducible refine halts_bind_set_error (fun _ _ => ?_)
  with_reducible refine halts_pure ?_
  with_reducible omega
  focus with_reducible (show halts _ _ _; split)
  with_reducible refine halts_bind_assert_that (fun _ _ => ?_)
  with_reducible refine halts_pure ?_
  with_reducible omega
  with_reducible refine halts_pure ?_
  with_reducible omega
  with_reducible refine halts_ite (fun _ => ?_) (fun _ => ?_)
  with_reducible refine halts_ADVANCE_OR_ERROR ?_ (fun _ _ => ?_)
  with_reducible omega
  with_reducible refine halts_call (h.parens_list_loop _ _ _ _ ?_) ?_
  with_reducible omega
  with_reducible omega
  with_reducible refine halts_call (h.parens_list_loop _ _ _ _ ?_) ?_
  with_reducible omega
  with_reducible omega

theorem halt_parse_parens_expr {self : parser_fns} {B : Nat} (h : fns_halt self B)
    (s : parser_base) (hb : 64 * pending s + 1 ≤ B + 1) :
    halts (pending s) (parse_parens_expr self) s := by
  unfold parse_parens_expr parens_tail parens_arrow
  with_reducible refine halts_bind_current_token ?_
  with_reducible refine halts_bind_assert_that (fun _ _ => ?_)
  with_reducible refine halts_ADVANCE_OR_ERROR ?_ (fun _ _ => ?_)
  with_reducible omega
  with_reducible refine halts_bind_current_token ?_
  with_reducible refine halts_ite (fun _ => ?_) (fun _ => ?_)
  with_reducible refine halts_call (h.parens_list_loop _ _ _ _ ?_) ?_
  with_reducible omega
  with_reducible omega
  with_reducible refine halts_EXPECT ?_ ?_
  with_reducible omega
  with_reducible refine halts_bind_current_token ?_
  with_reducible refine halts_bind_advance (fun _ _ => ?_) (fun _ _ => ?_)
  with_reducible refine halts_bind_current_token ?_
  with_reducible refine halts_ite (fun _ => ?_) (fun _ => ?_)
  with_reducible refine halts_ADVANCE_OR_ERROR ?_ (fun _ _ => ?_)
  with_reducible omega
  with_reducible refine halts_bind_current_token ?_
  with_reducible refine halts_ite (fun _ => ?_) (fun _ => ?_)
  with_reducible refine halts_bind_call (h.parse_block_or_obj _ _ ?_) (fun _ _ _ => ?_)
  with_reducible omega
  with_reducible refine halts_ASSERT_PARSE_RESULT ?_ ?_
  with_reducible omega
  with_reducible refine halts_pure ?_
  with_reducible omega
  with_reducible refine halts_bind_call (h.parse_expression _ _ ?_) (fun _ _ _ => ?_)
  with_reducible omega
  with_reducible refine halts_ASSERT_PARSE_RESULT ?_ ?_
  with_reducible omega
  with_reducible refine halts_pure ?_
  with_reducible omega
  with_reducible refine halts_ite (fun _ => ?_) (fun _ => ?_)
  with_reducible refine halts_bind_rewind (fun _ _ => ?_)
  with_reducible refine halts_bind_assert_that (fun _ _ => ?_)
  with_reducible refine halts_pure ?_
  with_reducible omega
  with_reducible refine halts_bind_pure ?_
  with_reducible refine halts_bind_assert_that (fun _ _ => ?_)
  with_reducible refine halts_pure ?_
  with_reducible omega
  with_reducible refine halts_bind_current_token ?_
  with_reducible refine halts_ite (fun _ => ?_) (fun _ => ?_)
  with_reducible refine halts_ADVANCE_OR_ERROR ?_ (fun _ _ => ?_)
  with_reducible omega
  with_reducible refine halts_bind_current_token ?_
  with_reducible refine halts_ite (fun _ => ?_) (fun _ => ?_)
  with_reducible refine halts_bind_call (h.parse_block_or_obj _ _ ?_) (fun _ _ _ => ?_)
  with_reducible omega
  with_reducible refine halts_ASSERT_PARSE_RESULT ?_ ?_
  with_reducible omega
  with_reducible refine halts_pure ?_
  with_reducible omega
  with_reducible refine halts_bind_call (h.parse_expression _ _ ?_) (fun _ _ _ => ?_)
  with_reducible omega
  with_reducible refine halts_ASSERT_PARSE_RESULT ?_ ?_
  with_reducible omega
  with_reducible refine halts_pure ?_
  with_reducible omega
  with_reducible refine halts_ite (fun _ => ?_) (fun _ => ?_)
  with_reducible refine halts_bind_rewind (fun _ _ => ?_)
  with_reducible refine halts_bind_assert_that (fun _ _ => ?_)
  with_reducible refine halts_pure ?_
  with_reducible omega
  with_reducible refine halts_bind_pure ?_
  with_reducible refine halts_bind_assert_that (fun _ _ => ?_)
  with_reducible refine halts_pure ?_
  with_reducible omega

theorem halt_parse_bin_op (ops : operators_def) {self : parser_fns} {B : Nat} (h : fns_halt self B) (lhs : Node) (comma_is_operator : Bool)
    (s : parser_base) (hb : 64 * pending s + 1 ≤ B + 1) :
    halts (pending s) (parse_bin_op ops self lhs comma_is_operator) s := by
  unfold parse_bin_op bin_op_tail
  with_reducible refine halts_bind_current_token ?_
  with_reducible refine halts_bind_assert_that (fun _ _ => ?_)
  with_reducible refine halts_ADVANCE_OR_ERROR ?_ (fun _ _ => ?_)
  with_reducible omega
  with_reducible refine halts_ite (fun _ => ?_) (fun _ => ?_)
  with_reducible refine halts_SUBPARSE (h.parse_expression _ _ ?_) ?_ (fun _ _ _ => ?_)
  with_reducible omega
  with_reducible omega
  with_reducible refine halts_ADVANCE_OR_ERROR ?_ (fun _ _ => ?_)
  with_reducible omega
  with_reducible refine halts_EXPECT ?_ ?_
  with_reducible omega
  with_reducible refine halts_ADVANCE_OR_ERROR ?_ (fun _ _ => ?_)
  with_reducible omega
  with_reducible refine halts_SUBPARSE (h.parse_expression _ _ ?_) ?_ (fun _ _ _ => ?_)
  with_reducible omega
  with_reducible omega
  with_reducible refine halts_bind_current_token ?_
  with_reducible refine halts_bind_advance (fun _ _ => ?_) (fun _ _ => ?_)
  with_reducible refine halts_ite (fun _ => ?_) (fun _ => ?_)
  with_reducible refine halts_pure ?_
  with_reducible omega
  with_reducible refine halts_bind_current_token ?_
  with_reducible refine halts_ite (fun _ => ?_) (fun _ => ?_)
  with_reducible refine halts_bind_rewind (fun _ _ => ?_)
  with_reducible refine halts_pure ?_
  with_reducible omega
  with_reducible refine halts_ite (fun _ => ?_) (fun _ => ?_)
  with_reducible refine halts_ite (fun _ => ?_) (fun _ => ?_)
  with_reducible refine halts_SUBPARSE (h.parse_bin_op _ _ _ ?_) ?_ (fun _ _ _ => ?_)
  with_reducible omega
  with_reducible omega
  with_reducible refine halts_pure ?_
  with_reducible omega
  with_reducible refine halts_ite (fun _ => ?_) (fun _ => ?_)
  with_reducible refine halts_bind_assert_that (fun _ _ => ?_)
  with_reducible refine halts_ite (fun _ => ?_) (fun _ => ?_)
  with_reducible refine halts_SUBPARSE (h.parse_bin_op _ _ _ ?_) ?_ (fun _ _ _ => ?_)
  with_reducible omega
  with_reducible omega
  with_reducible refine halts_pure ?_
  with_reducible omega
  with_reducible refine halts_SUBPARSE (h.parse_bin_op _ _ _ ?_) ?_ (fun _ _ _ => ?_)
  with_reducible omega
  with_reducible omega
  with_reducible refine halts_pure ?_
  with_reducible omega
  with_reducible refine halts_SUBPARSE (h.parse_bin_op _ _ _ ?_) ?_ (fun _ _ _ => ?_)
  with_reducible omega
  with_reducible omega
  with_reducible refine halts_pure ?_
  with_reducible omega
  with_reducible refine halts_bind_set_error (fun _ _ => ?_)
  with_reducible refine halts_pure ?_
  with_reducible omega
  with_reducible refine halts_ite (fun _ => ?_) (fun _ => ?_)
  with_reducible refine halts_pure ?_
  with_reducible omega
  with_reducible refine halts_bind_current_token ?_
  with_reducible refine halts_ite (fun _ => ?_) (fun _ => ?_)
  with_reducible refine halts_bind_rewind (fun _ _ => ?_)
  with_reducible refine halts_pure ?_
  with_reducible omega
  with_reducible refine halts_ite (fun _ => ?_) (fun _ => ?_)
  with_reducible refine halts_ite (fun _ => ?_) (fun _ => ?_)
  with_reducible refine halts_SUBPARSE (h.parse_bin_op _ _ _ ?_) ?_ (fun _ _ _ => ?_)
  with_reducible omega
  with_reducible omega
  with_reducible refine halts_pure ?_
  with_reducible omega
  with_reducible refine halts_ite (fun _ => ?_) (fun _ => ?_)
  with_reducible refine halts_bind_assert_that (fun _ _ => ?_)
  with_reducible refine halts_ite (fun _ => ?_) (fun _ => ?_)
  with_reducible refine halts_SUBPARSE (h.parse_bin_op _ _ _ ?_) ?_ (fun _ _ _ => ?_)
  with_reducible omega
  with_reducible omega
  with_reducible refine halts_pure ?_
  with_reducible omega
  with_reducible refine halts_SUBPARSE (h.parse_bin_op _ _ _ ?_) ?_ (fun _ _ _ => ?_)
  with_reducible omega
  with_reducible omega
  with_reducible refine halts_pure ?_
  with_reducible omega
  with_reducible refine halts_SUBPARSE (h.parse_bin_op _ _ _ ?_) ?_ (fun _ _ _ => ?_)
  with_reducible omega
  with_reducible omega
  with_reducible refine halts_pure ?_
  with_reducible omega
  with_reducible refine halts_bind_set_error (fun _ _ => ?_)
  with_reducible refine halts_pure ?_
  with_reducible omega
  with_reducible refine halts_SUBPARSE (h.parse_unary_or_atomic_expr _ ?_) ?_ (fun _ _ _ => ?_)
  with_reducible omega
  with_reducible omega
  with_reducible refine halts_bind_call (halt_make_binary_expr _ _ _ _) (fun _ _ _ => ?_)
  with_reducible refine halts_bind_current_token ?_
  with_reducible refine halts_bind_advance (fun _ _ => ?_) (fun _ _ => ?_)
  with_reducible refine halts_ite (fun _ => ?_) (fun _ => ?_)
  with_reducible refine halts_pure ?_
  with_reducible omega
  with_reducible refine halts_bind_current_token ?_
  with_reducible refine halts_ite (fun _ => ?_) (fun _ => ?_)
  with_reducible refine halts_bind_rewind (fun _ _ => ?_)
  with_reducible refine halts_pure ?_
  with_reducible omega
  with_reducible refine halts_ite (fun _ => ?_) (fun _ => ?_)
  with_reducible refine halts_ite (fun _ => ?_) (fun _ => ?_)
  with_reducible refine halts_SUBPARSE (h.parse_bin_op _ _ _ ?_) ?_ (fun _ _ _ => ?_)
  with_reducible omega
  with_reducible omega
  with_reducible refine halts_pure ?_
  with_reducible omega
  with_reducible refine halts_ite (fun _ => ?_) (fun _ => ?_)
  with_reducible refine halts_bind_assert_that (fun _ _ => ?_)
  with_reducible refine halts_ite (fun _ => ?_) (fun _ => ?_)
  with_reducible refine halts_SUBPARSE (h.parse_bin_op _ _ _ ?_) ?_ (fun _ _ _ => ?_)
  with_reducible omega
  with_reducible omega
  with_reducible refine halts_pure ?_
  with_reducible omega
  with_reducible refine halts_SUBPARSE (h.parse_bin_op _ _ _ ?_) ?_ (fun _ _ _ => ?_)
  with_reducible omega
  with_reducible omega
  with_reducible refine halts_pure ?_
  with_reducible omega
  with_reducible refine halts_SUBPARSE (h.parse_bin_op _ _ _ ?_) ?_ (fun _ _ _ => ?_)
  with_reducible omega
  with_reducible omega
  with_reducible refine halts_pure ?_
  with_reducible omega
  with_reducible refine halts_bind_set_error (fun _ _ => ?_)
  with_reducible refine halts_pure ?_
  with_reducible omega
  with_reducible refine halts_ite (fun _ => ?_) (fun _ => ?_)
  with_reducible refine halts_pure ?_
  with_reducible omega
  with_reducible refine halts_bind_current_token ?_
  with_reducible refine halts_ite (fun _ => ?_) (fun _ => ?_)
  with_reducible refine halts_bind_rewind (fun _ _ => ?_)
  with_reducible refine halts_pure ?_
  with_reducible omega
  with_reducible refine halts_ite (fun _ => ?_) (fun _ => ?_)
  with_reducible refine halts_ite (fun _ => ?_) (fun _ => ?_)
  with_reducible refine halts_SUBPARSE (h.parse_bin_op _ _ _ ?_) ?_ (fun _ _ _ => ?_)
  with_reducible omega
  with_reducible omega
  with_reducible refine halts_pure ?_
  with_reducible omega
  with_reducible refine halts_ite (fun _ => ?_) (fun _ => ?_)
  with_reducible refine halts_bind_assert_that (fun _ _ => ?_)
  with_reducible refine halts_ite (fun _ => ?_) (fun _ => ?_)
  with_reducible refine halts_SUBPARSE (h.parse_bin_op _ _ _ ?_) ?_ (fun _ _ _ => ?_)
  with_reducible omega
  with_reducible omega
  with_reducible refine halts_pure ?_
  with_reducible omega
  with_reducible refine halts_SUBPARSE (h.parse_bin_op _ _ _ ?_) ?_ (fun _ _ _ => ?_)
  with_reducible omega
  with_reducible omega
  with_reducible refine halts_pure ?_
  with_reducible omega
  with_reducible refine halts_SUBPARSE (h.parse_bin_op _ _ _ ?_) ?_ (fun _ _ _ => ?_)
  with_reducible omega
  with_reducible omega
  with_reducible refine halts_pure ?_
  with_reducible omega
  with_reducible refine halts_bind_set_error (fun _ _ => ?_)
  with_reducible refine halts_pure ?_
  with_reducible omega

theorem halt_parse_atomic_keyword_expr {self : parser_fns} {B : Nat} (h : fns_halt self B)
    (s : parser_base) (hb : 64 * pending s + 2 ≤ B + 1) :
    halts (pending s) (parse_atomic_keyword_expr self) s := by
  unfold parse_atomic_keyword_expr
  with_reducible refine halts_EXPECT ?_ ?_
  with_reducible omega
  with_reducible refine halts_bind_current_token ?_
  with_reducible refine halts_ite (fun _ => ?_) (fun _ => ?_)
  with_reducible refine halts_call (halt_parse_class_expr _) ?_
  with_reducible omega
  with_reducible refine halts_ite (fun _ => ?_) (fun _ => ?_)
  with_reducible refine halts_call (h.parse_function_expr _ ?_) ?_
  with_reducible omega
  with_reducible omega
  with_reducible refine halts_ite (fun _ => ?_) (fun _ => ?_)
  with_reducible refine halts_call (h.parse_new_keyword _ ?_) ?_
  with_reducible omega
  with_reducible omega
  with_reducible refine halts_bind_set_error (fun _ _ => ?_)
  with_reducible refine halts_pure ?_
  with_reducible omega

theorem halt_parse_new_keyword {self : parser_fns} {B : Nat} (h : fns_halt self B)
    (s : parser_base) (hb : 64 * pending s + 1 ≤ B + 1) :
    halts (pending s) (parse_new_keyword self) s := by
  unfold parse_new_keyword
  with_reducible refine halts_bind_current_token ?_
  with_reducible refine halts_bind_assert_that (fun _ _ => ?_)
  with_reducible refine halts_ADVANCE_OR_ERROR ?_ (fun _ _ => ?_)
  with_reducible omega
  with_reducible refine halts_bind_current_token ?_
  with_reducible refine halts_ite (fun _ => ?_) (fun _ => ?_)
  with_reducible refine halts_ADVANCE_OR_ERROR ?_ (fun _ _ => ?_)
  with_reducible omega
  with_reducible refine halts_EXPECT ?_ ?_
  with_reducible omega
  with_reducible refine halts_bind_current_token ?_
  with_reducible refine halts_ite (fun _ => ?_) (fun _ => ?_)
  with_reducible refine halts_bind_set_error (fun _ _ => ?_)
  with_reducible refine halts_pure ?_
  with_reducible omega
  with_reducible refine halts_pure ?_
  with_reducible omega
  with_reducible refine halts_SUBPARSE (h.parse_atomic_expr _ ?_) ?_ (fun _ _ _ => ?_)
  with_reducible omega
  with_reducible omega
  with_reducible refine halts_bind_assert_that (fun _ _ => ?_)
  focus with_reducible (show halts _ _ _; split)
  with_reducible refine halts_pure ?_
  with_reducible omega
  with_reducible refine halts_pure ?_
  with_reducible omega

theorem halt_template_loop {self : parser_fns} {B : Nat} (h : fns_halt self B) (loc : source_location) (strs : List String) (exprs : List Node)
    (s : parser_base) (hb : 64 * pending s + 1 ≤ B + 1) :
    halts (pending s) (template_loop self loc strs exprs) s := by
  unfold template_loop
  with_reducible refine halts_ADVANCE_OR_ERROR ?_ (fun _ _ => ?_)
  with_reducible omega
  with_reducible refine halts_SUBPARSE (h.parse_expression _ _ ?_) ?_ (fun _ _ _ => ?_)
  with_reducible omega
  with_reducible omega
  with_reducible refine halts_ADVANCE_OR_ERROR ?_ (fun _ _ => ?_)
  with_reducible omega
  with_reducible refine halts_EXPECT_SEVERAL ?_ ?_
  with_reducible omega
  with_reducible refine halts_bind_current_token ?_
  with_reducible refine halts_ite (fun _ => ?_) (fun _ => ?_)
  with_reducible refine halts_call (h.template_loop _ _ _ _ ?_) ?_
  with_reducible omega
  with_reducible omega
  with_reducible refine halts_bind_assert_that (fun _ _ => ?_)
  with_reducible refine halts_pure ?_
  with_reducible omega

theorem halt_parse_template_literal {self : parser_fns} {B : Nat} (h : fns_halt self B)
    (s : parser_base) (hb : 64 * pending s + 2 ≤ B + 1) :
    halts (pending s) (parse_template_literal self) s := by
  unfold parse_template_literal
  with_reducible refine halts_bind_current_token ?_
  with_reducible refine halts_bind_assert_that (fun _ _ => ?_)
  with_reducible refine halts_call (h.template_loop _ _ _ _ ?_) ?_
  with_reducible omega
  with_reducible omega

theorem halt_parse_function_stmt {self : parser_fns} {B : Nat} (h : fns_halt self B)
    (s : parser_base) (hb : 64 * pending s + 1 ≤ B + 1) :
    halts (pending s) (parse_function_stmt self) s := by
  unfold parse_function_stmt
  with_reducible refine halts_bind_current_token ?_
  with_reducible refine halts_bind_assert_that (fun _ _ => ?_)
  with_reducible refine halts_ADVANCE_OR_ERROR ?_ (fun _ _ => ?_)
  with_reducible omega
  with_reducible refine halts_EXPECT ?_ ?_
  with_reducible omega
  with_reducible refine halts_bind_current_token ?_
  with_reducible refine halts_ADVANCE_OR_ERROR ?_ (fun _ _ => ?_)
  with_reducible omega
  with_reducible refine halts_EXPECT ?_ ?_
  with_reducible omega
  with_reducible refine halts_SUBPARSE (h.parse_param_list _ ?_) ?_ (fun _ _ _ => ?_)
  with_reducible omega
  with_reducible omega
  with_reducible refine halts_ADVANCE_OR_ERROR ?_ (fun _ _ => ?_)
  with_reducible omega
  with_reducible refine halts_EXPECT ?_ ?_
  with_reducible omega
  with_reducible refine halts_SUBPARSE (h.parse_block _ ?_) ?_ (fun _ _ _ => ?_)
  with_reducible omega
  with_reducible omega
  with_reducible refine halts_pure ?_
  with_reducible omega

theorem halt_parse_function_expr {self : parser_fns} {B : Nat} (h : fns_halt self B)
    (s : parser_base) (hb : 64 * pending s + 1 ≤ B + 1) :
    halts (pending s) (parse_function_expr self) s := by
  unfold parse_function_expr function_expr_tail
  with_reducible refine halts_bind_current_token ?_
  with_reducible refine halts_bind_assert_that (fun _ _ => ?_)
  with_reducible refine halts_ADVANCE_OR_ERROR ?_ (fun _ _ => ?_)
  with_reducible omega
  with_reducible refine halts_bind_current_token ?_
  with_reducible refine halts_ite (fun _ => ?_) (fun _ => ?_)
  with_reducible refine halts_ADVANCE_OR_ERROR ?_ (fun _ _ => ?_)
  with_reducible omega
  with_reducible refine halts_EXPECT ?_ ?_
  with_reducible omega
  with_reducible refine halts_SUBPARSE (h.parse_param_list _ ?_) ?_ (fun _ _ _ => ?_)
  with_reducible omega
  with_reducible omega
  with_reducible refine halts_ADVANCE_OR_ERROR ?_ (fun _ _ => ?_)
  with_reducible omega
  with_reducible refine halts_EXPECT ?_ ?_
  with_reducible omega
  with_reducible refine halts_SUBPARSE (h.parse_block _ ?_) ?_ (fun _ _ _ => ?_)
  with_reducible omega
  with_reducible omega
  with_reducible refine halts_pure ?_
  with_reducible omega
  with_reducible refine halts_EXPECT ?_ ?_
  with_reducible omega
  with_reducible refine halts_SUBPARSE (h.parse_param_list _ ?_) ?_ (fun _ _ _ => ?_)
  with_reducible omega
  with_reducible omega
  with_reducible refine halts_ADVANCE_OR_ERROR ?_ (fun _ _ => ?_)
  with_reducible omega
  with_reducible refine halts_EXPECT ?_ ?_
  with_reducible omega
  with_reducible refine halts_SUBPARSE (h.parse_block _ ?_) ?_ (fun _ _ _ => ?_)
  with_reducible omega
  with_reducible omega
  with_reducible refine halts_pure ?_
  with_reducible omega

theorem halt_param_list_loop {self : parser_fns} {B : Nat} (h : fns_halt self B) (loc : source_location) (names : List String)
    (s : parser_base) (hb : 64 * pending s + 1 ≤ B + 1) :
    halts (pending s) (param_list_loop self loc names) s := by
  unfold param_list_loop
  with_reducible refine halts_ADVANCE_OR_ERROR ?_ (fun _ _ => ?_)
  with_reducible omega
  with_reducible refine halts_bind_current_token ?_
  with_reducible refine halts_ite (fun _ => ?_) (fun _ => ?_)
  with_reducible refine halts_ADVANCE_OR_ERROR ?_ (fun _ _ => ?_)
  with_reducible omega
  with_reducible refine halts_bind_current_token ?_
  with_reducible refine halts_ite (fun _ => ?_) (fun _ => ?_)
  with_reducible refine halts_call (h.param_list_loop _ _ _ ?_) ?_
  with_reducible omega
  with_reducible omega
  with_reducible refine halts_call (halt_param_list_tail _ _ _) ?_
  with_reducible omega
  with_reducible refine halts_ite (fun _ => ?_) (fun _ => ?_)
  with_reducible refine halts_call (h.param_list_loop _ _ _ ?_) ?_
  with_reducible omega
  with_reducible omega
  with_reducible refine halts_call (halt_param_list_tail _ _ _) ?_
  with_reducible omega

theorem halt_parse_param_list {self : parser_fns} {B : Nat} (h : fns_halt self B)
    (s : parser_base) (hb : 64 * pending s + 2 ≤ B + 1) :
    halts (pending s) (parse_param_list self) s := by
  unfold parse_param_list
  with_reducible refine halts_bind_current_token ?_
  with_reducible refine halts_bind_assert_that (fun _ _ => ?_)
  with_reducible refine halts_call (h.param_list_loop _ _ _ ?_) ?_
  with_reducible omega
  with_reducible omega

theorem halt_block_loop {self : parser_fns} {B : Nat} (h : fns_halt self B) (loc : source_location) (stmts : List Node)
    (s : parser_base) (hb : 64 * pending s + 8 ≤ B + 1) :
    halts (pending s) (block_loop self loc stmts) s := by
  unfold block_loop
  with_reducible refine halts_bind_current_token ?_
  with_reducible refine halts_ite (fun _ => ?_) (fun _ => ?_)
  with_reducible refine halts_bind_assert_that (fun _ _ => ?_)
  with_reducible refine halts_bind_call (h.parse_statement _ ?_) (fun _ _ _ => ?_)
  with_reducible omega
  with_reducible refine halts_ADVANCE_OR_ERROR ?_ (fun _ _ => ?_)
  with_reducible omega
  with_reducible refine halts_call (h.block_loop _ _ _ ?_) ?_
  with_reducible omega
  with_reducible omega
  with_reducible refine halts_pure ?_
  with_reducible omega

theorem halt_parse_block {self : parser_fns} {B : Nat} (h : fns_halt self B)
    (s : parser_base) (hb : 64 * pending s + 1 ≤ B + 1) :
    halts (pending s) (parse_block self) s := by
  unfold parse_block
  with_reducible refine halts_EXPECT ?_ ?_
  with_reducible omega
  with_reducible refine halts_bind_current_token ?_
  with_reducible refine halts_ADVANCE_OR_ERROR ?_ (fun _ _ => ?_)
  with_reducible omega
  with_reducible refine halts_call (h.block_loop _ _ _ ?_) ?_
  with_reducible omega
  with_reducible omega

theorem halt_var_decl_loop {self : parser_fns} {B : Nat} (h : fns_halt self B) (loc : source_location) (keyword : String) (parts : List Node)
    (s : parser_base) (hb : 64 * pending s + 1 ≤ B + 1) :
    halts (pending s) (var_decl_loop self loc keyword parts) s := by
  unfold var_decl_loop
  with_reducible refine halts_bind_current_token ?_
  with_reducible refine halts_bind_advance (fun _ _ => ?_) (fun _ _ => ?_)
  with_reducible refine halts_ite (fun _ => ?_) (fun _ => ?_)
  with_reducible refine halts_bind_current_token ?_
  with_reducible refine halts_ite (fun _ => ?_) (fun _ => ?_)
  with_reducible refine halts_ADVANCE_OR_ERROR ?_ (fun _ _ => ?_)
  with_reducible omega
  with_reducible refine halts_SUBPARSE (h.parse_expression _ _ ?_) ?_ (fun _ _ _ => ?_)
  with_reducible omega
  with_reducible omega
  with_reducible refine halts_call (h.var_decl_loop _ _ _ _ ?_) ?_
  with_reducible omega
  with_reducible omega
  with_reducible refine halts_ite (fun _ => ?_) (fun _ => ?_)
  with_reducible refine halts_ADVANCE_OR_ERROR ?_ (fun _ _ => ?_)
  with_reducible omega
  with_reducible refine halts_EXPECT ?_ ?_
  with_reducible omega
  with_reducible refine halts_bind_current_token ?_
  with_reducible refine halts_call (h.var_decl_loop _ _ _ _ ?_) ?_
  with_reducible omega
  with_reducible omega
  with_reducible refine halts_bind_rewind (fun _ _ => ?_)
  with_reducible refine halts_pure ?_
  with_reducible omega
  with_reducible refine halts_pure ?_
  with_reducible omega
  with_reducible refine halts_ite (fun _ => ?_) (fun _ => ?_)
  with_reducible refine halts_bind_current_token ?_
  with_reducible refine halts_ite (fun _ => ?_) (fun _ => ?_)
  with_reducible refine halts_ADVANCE_OR_ERROR ?_ (fun _ _ => ?_)
  with_reducible omega
  with_reducible refine halts_SUBPARSE (h.parse_expression _ _ ?_) ?_ (fun _ _ _ => ?_)
  with_reducible omega
  with_reducible omega
  with_reducible refine halts_call (h.var_decl_loop _ _ _ _ ?_) ?_
  with_reducible omega
  with_reducible omega
  with_reducible refine halts_ite (fun _ => ?_) (fun _ => ?_)
  with_reducible refine halts_ADVANCE_OR_ERROR ?_ (fun _ _ => ?_)
  with_reducible omega
  with_reducible refine halts_EXPECT ?_ ?_
  with_reducible omega
  with_reducible refine halts_bind_current_token ?_
  with_reducible refine halts_call (h.var_decl_loop _ _ _ _ ?_) ?_
  with_reducible omega
  with_reducible omega
  with_reducible refine halts_bind_rewind (fun _ _ => ?_)
  with_reducible refine halts_pure ?_
  focus with_reducible (exfalso; simp at *; done)
  with_reducible refine halts_pure ?_
  with_reducible omega

theorem halt_parse_var_decl {self : parser_fns} {B : Nat} (h : fns_halt self B)
    (s : parser_base) (hb : 64 * pending s + 1 ≤ B + 1) :
    halts (pending s) (parse_var_decl self) s := by
  unfold parse_var_decl
  with_reducible refine halts_bind_current_token ?_
  with_reducible refine halts_bind_assert_that (fun _ _ => ?_)
  with_reducible refine halts_ADVANCE_OR_ERROR ?_ (fun _ _ => ?_)
  with_reducible omega
  with_reducible refine halts_EXPECT ?_ ?_
  with_reducible omega
  with_reducible refine halts_bind_current_token ?_
  with_reducible refine halts_call (h.var_decl_loop _ _ _ _ ?_) ?_
  with_reducible omega
  with_reducible omega

theorem halt_array_loop {self : parser_fns} {B : Nat} (h : fns_halt self B) (loc : source_location) (values : List Node)
    (s : parser_base) (hb : 64 * pending s + 6 ≤ B + 1) :
    halts (pending s) (array_loop self loc values) s := by
  unfold array_loop array_entry_end
  with_reducible refine halts_bind_current_token ?_
  with_reducible refine halts_ite (fun _ => ?_) (fun _ => ?_)
  with_reducible refine halts_ADVANCE_OR_ERROR ?_ (fun _ _ => ?_)
  with_reducible omega
  with_reducible refine halts_bind_call (h.parse_expression _ _ ?_) (fun _ _ _ => ?_)
  with_reducible omega
  with_reducible refine halts_ADVANCE_OR_ERROR ?_ (fun _ _ => ?_)
  with_reducible omega
  with_reducible refine halts_EXPECT_SEVERAL ?_ ?_
  with_reducible omega
  with_reducible refine halts_bind_current_token ?_
  with_reducible refine halts_ite (fun _ => ?_) (fun _ => ?_)
  with_reducible refine halts_pure ?_
  with_reducible omega
  with_reducible refine halts_ite (fun _ => ?_) (fun _ => ?_)
  with_reducible refine halts_ADVANCE_OR_ERROR ?_ (fun _ _ => ?_)
  with_reducible omega
  with_reducible refine halts_call (h.array_loop _ _ _ ?_) ?_
  with_reducible omega
  with_reducible omega
  with_reducible refine halts_call (h.array_loop _ _ _ ?_) ?_
  with_reducible omega
  with_reducible omega
  with_reducible refine halts_bind_call (h.parse_expression _ _ ?_) (fun _ _ _ => ?_)
  with_reducible omega
  with_reducible refine halts_ADVANCE_OR_ERROR ?_ (fun _ _ => ?_)
  with_reducible omega
  with_reducible refine halts_EXPECT_SEVERAL ?_ ?_
  with_reducible omega
  with_reducible refine halts_bind_current_token ?_
  with_reducible refine halts_ite (fun _ => ?_) (fun _ => ?_)
  with_reducible refine halts_pure ?_
  with_reducible omega
  with_reducible refine halts_ite (fun _ => ?_) (fun _ => ?_)
  with_reducible refine halts_ADVANCE_OR_ERROR ?_ (fun _ _ => ?_)
  with_reducible omega
  with_reducible refine halts_call (h.array_loop _ _ _ ?_) ?_
  with_reducible omega
  with_reducible omega
  with_reducible refine halts_call (h.array_loop _ _ _ ?_) ?_
  with_reducible omega
  with_reducible omega

theorem halt_parse_array_literal {self : parser_fns} {B : Nat} (h : fns_halt self B)
    (s : parser_base) (hb : 64 * pending s + 1 ≤ B + 1) :
    halts (pending s) (parse_array_literal self) s := by
  unfold parse_array_literal
  with_reducible refine halts_bind_current_token ?_
  with_reducible refine halts_bind_assert_that (fun _ _ => ?_)
  with_reducible refine halts_ADVANCE_OR_ERROR ?_ (fun _ _ => ?_)
  with_reducible omega
  with_reducible refine halts_bind_current_token ?_
  with_reducible refine halts_ite (fun _ => ?_) (fun _ => ?_)
  with_reducible refine halts_call (h.array_loop _ _ _ ?_) ?_
  with_reducible omega
  with_reducible omega
  with_reducible refine halts_pure ?_
  with_reducible omega

theorem halt_object_loop {self : parser_fns} {B : Nat} (h : fns_halt self B) (loc : source_location) (entries : List Node)
    (s : parser_base) (hb : 64 * pending s + 1 ≤ B + 1) :
    halts (pending s) (object_loop self loc entries) s := by
  unfold object_loop object_entry_end
  with_reducible refine halts_bind_current_token ?_
  with_reducible refine halts_ite (fun _ => ?_) (fun _ => ?_)
  with_reducible refine halts_EXPECT ?_ ?_
  with_reducible omega
  with_reducible refine halts_pure ?_
  with_reducible omega
  with_reducible refine halts_ite (fun _ => ?_) (fun _ => ?_)
  with_reducible refine halts_ADVANCE_OR_ERROR ?_ (fun _ _ => ?_)
  with_reducible omega
  with_reducible refine halts_bind_call (h.parse_expression _ _ ?_) (fun _ _ _ => ?_)
  with_reducible omega
  with_reducible refine halts_ADVANCE_OR_ERROR ?_ (fun _ _ => ?_)
  with_reducible omega
  with_reducible refine halts_EXPECT_SEVERAL ?_ ?_
  with_reducible omega
  with_reducible refine halts_bind_current_token ?_
  with_reducible refine halts_ite (fun _ => ?_) (fun _ => ?_)
  with_reducible refine halts_ADVANCE_OR_ERROR ?_ (fun _ _ => ?_)
  with_reducible omega
  with_reducible refine halts_call (h.object_loop _ _ _ ?_) ?_
  with_reducible omega
  with_reducible omega
  with_reducible refine halts_call (h.object_loop _ _ _ ?_) ?_
  with_reducible omega
  with_reducible omega
  with_reducible refine halts_ite (fun _ => ?_) (fun _ => ?_)
  with_reducible refine halts_ADVANCE_OR_ERROR ?_ (fun _ _ => ?_)
  with_reducible omega
  with_reducible refine halts_bind_current_token ?_
  with_reducible refine halts_ite (fun _ => ?_) (fun _ => ?_)
  with_reducible refine halts_bind_rewind (fun _ _ => ?_)
  with_reducible refine halts_ADVANCE_OR_ERROR ?_ (fun _ _ => ?_)
  with_reducible omega
  with_reducible refine halts_EXPECT_SEVERAL ?_ ?_
  with_reducible omega
  with_reducible refine halts_bind_current_token ?_
  with_reducible refine halts_ite (fun _ => ?_) (fun _ => ?_)
  with_reducible refine halts_ADVANCE_OR_ERROR ?_ (fun _ _ => ?_)
  with_reducible omega
  with_reducible refine halts_call (h.object_loop _ _ _ ?_) ?_
  with_reducible omega
  with_reducible omega
  with_reducible refine halts_call (h.object_loop _ _ _ ?_) ?_
  with_reducible omega
  with_reducible omega
  with_reducible refine halts_ADVANCE_OR_ERROR ?_ (fun _ _ => ?_)
  with_reducible omega
  with_reducible refine halts_bind_call (h.parse_expression _ _ ?_) (fun _ _ _ => ?_)
  with_reducible omega
  with_reducible refine halts_ADVANCE_OR_ERROR ?_ (fun _ _ => ?_)
  with_reducible omega
  with_reducible refine halts_EXPECT_SEVERAL ?_ ?_
  with_reducible omega
  with_reducible refine halts_bind_current_token ?_
  with_reducible refine halts_ite (fun _ => ?_) (fun _ => ?_)
  with_reducible refine halts_ADVANCE_OR_ERROR ?_ (fun _ _ => ?_)
  with_reducible omega
  with_reducible refine halts_call (h.object_loop _ _ _ ?_) ?_
  with_reducible omega
  with_reducible omega
  with_reducible refine halts_call (h.object_loop _ _ _ ?_) ?_
  with_reducible omega
  with_reducible omega
  with_reducible refine halts_bind_set_error (fun _ _ => ?_)
  with_reducible refine halts_pure ?_
  with_reducible omega

theorem halt_parse_object_literal {self : parser_fns} {B : Nat} (h : fns_halt self B)
    (s : parser_base) (hb : 64 * pending s + 1 ≤ B + 1) :
    halts (pending s) (parse_object_literal self) s := by
  unfold parse_object_literal
  with_reducible refine halts_bind_current_token ?_
  with_reducible refine halts_bind_assert_that (fun _ _ => ?_)
  with_reducible refine halts_ADVANCE_OR_ERROR ?_ (fun _ _ => ?_)
  with_reducible omega
  with_reducible refine halts_call (h.object_loop _ _ _ ?_) ?_
  with_reducible omega
  with_reducible omega

theorem halt_parse_computed_access {self : parser_fns} {B : Nat} (h : fns_halt self B) (base : Node)
    (s : parser_base) (hb : 64 * pending s + 1 ≤ B + 1) :
    halts (pending s) (parse_computed_access self base) s := by
  unfold parse_computed_access
  with_reducible refine halts_bind_current_token ?_
  with_reducible refine halts_bind_assert_that (fun _ _ => ?_)
  with_reducible refine halts_ADVANCE_OR_ERROR ?_ (fun _ _ => ?_)
  with_reducible omega
  with_reducible refine halts_SUBPARSE (h.parse_expression _ _ ?_) ?_ (fun _ _ _ => ?_)
  with_reducible omega
  with_reducible omega
  with_reducible refine halts_ADVANCE_OR_ERROR ?_ (fun _ _ => ?_)
  with_reducible omega
  with_reducible refine halts_EXPECT ?_ ?_
  with_reducible omega
  with_reducible refine halts_pure ?_
  with_reducible omega

theorem halt_call_loop {self : parser_fns} {B : Nat} (h : fns_halt self B) (loc : source_location) (callee : Node) (values : List Node)
    (s : parser_base) (hb : 64 * pending s + 6 ≤ B + 1) :
    halts (pending s) (call_loop self loc callee values) s := by
  unfold call_loop
  with_reducible refine halts_SUBPARSE (h.parse_expression _ _ ?_) ?_ (fun _ _ _ => ?_)
  with_reducible omega
  with_reducible omega
  with_reducible refine halts_ADVANCE_OR_ERROR ?_ (fun _ _ => ?_)
  with_reducible omega
  with_reducible refine halts_bind_current_token ?_
  with_reducible refine halts_ite (fun _ => ?_) (fun _ => ?_)
  with_reducible refine halts_ADVANCE_OR_ERROR ?_ (fun _ _ => ?_)
  with_reducible omega
  with_reducible refine halts_call (h.call_loop _ _ _ _ ?_) ?_
  with_reducible omega
  with_reducible omega
  with_reducible refine halts_ite (fun _ => ?_) (fun _ => ?_)
  with_reducible refine halts_bind_assert_that (fun _ _ => ?_)
  with_reducible refine halts_pure ?_
  with_reducible omega
  with_reducible refine halts_bind_set_error (fun _ _ => ?_)
  with_reducible refine halts_pure ?_
  with_reducible omega

theorem halt_parse_call {self : parser_fns} {B : Nat} (h : fns_halt self B) (callee : Node)
    (s : parser_base) (hb : 64 * pending s + 1 ≤ B + 1) :
    halts (pending s) (parse_call self callee) s := by
  unfold parse_call
  with_reducible refine halts_bind_current_token ?_
  with_reducible refine halts_bind_assert_that (fun _ _ => ?_)
  with_reducible refine halts_ADVANCE_OR_ERROR ?_ (fun _ _ => ?_)
  with_reducible omega
  with_reducible refine halts_bind_current_token ?_
  with_reducible refine halts_ite (fun _ => ?_) (fun _ => ?_)
  with_reducible refine halts_pure ?_
  with_reducible omega
  with_reducible refine halts_call (h.call_loop _ _ _ _ ?_) ?_
  with_reducible omega
  with_reducible omega

theorem halt_parse_block_or_obj {self : parser_fns} {B : Nat} (h : fns_halt self B) (_prefer_block_over_obj : Bool)
    (s : parser_base) (hb : 64 * pending s + 2 ≤ B + 1) :
    halts (pending s) (parse_block_or_obj self _prefer_block_over_obj) s := by
  unfold parse_block_or_obj
  with_reducible refine halts_EXPECT ?_ ?_
  with_reducible omega
  with_reducible refine halts_call (h.parse_block _ ?_) ?_
  with_reducible omega
  with_reducible omega

theorem guarded_halt {fns : parser_fns} {B : Nat} (h : fns_halt fns B) :
    fns_halt (guarded B fns) B :=
  { parse_statement := fun s hb => within_halts hb (h.parse_statement s hb)
    parse_keyword_stmt := fun s hb => within_halts hb (h.parse_keyword_stmt s hb)
    parse_keyword_expr := fun s hb => within_halts hb (h.parse_keyword_expr s hb)
    parse_if_stmt := fun s hb => within_halts hb (h.parse_if_stmt s hb)
    parse_do_while := fun s hb => within_halts hb (h.parse_do_while s hb)
    parse_while_stmt := fun s hb => within_halts hb (h.parse_while_stmt s hb)
    parse_for_stmt := fun s hb => within_halts hb (h.parse_for_stmt s hb)
    parse_switch_stmt := fun s hb => within_halts hb (h.parse_switch_stmt s hb)
    switch_clauses_loop := fun x0 x1 x2 x3 s hb => within_halts hb (h.switch_clauses_loop x0 x1 x2 x3 s hb)
    switch_stmts_loop := fun x0 x1 x2 x3 x4 s hb => within_halts hb (h.switch_stmts_loop x0 x1 x2 x3 x4 s hb)
    parse_return_stmt := fun s hb => within_halts hb (h.parse_return_stmt s hb)
    parse_throw_stmt := fun s hb => within_halts hb (h.parse_throw_stmt s hb)
    parse_try_stmt := fun s hb => within_halts hb (h.parse_try_stmt s hb)
    parse_expression := fun x0 s hb => within_halts hb (h.parse_expression x0 s hb)
    parse_unary_or_atomic_expr := fun s hb => within_halts hb (h.parse_unary_or_atomic_expr s hb)
    parse_atomic_expr := fun s hb => within_halts hb (h.parse_atomic_expr s hb)
    atomic_postfix_loop := fun x0 s hb => within_halts hb (h.atomic_postfix_loop x0 s hb)
    parse_parens_expr := fun s hb => within_halts hb (h.parse_parens_expr s hb)
    parens_list_loop := fun x0 x1 x2 s hb => within_halts hb (h.parens_list_loop x0 x1 x2 s hb)
    parse_bin_op := fun x0 x1 s hb => within_halts hb (h.parse_bin_op x0 x1 s hb)
    parse_atomic_keyword_expr := fun s hb => within_halts hb (h.parse_atomic_keyword_expr s hb)
    parse_new_keyword := fun s hb => within_halts hb (h.parse_new_keyword s hb)
    parse_template_literal := fun s hb => within_halts hb (h.parse_template_literal s hb)
    template_loop := fun x0 x1 x2 s hb => within_halts hb (h.template_loop x0 x1 x2 s hb)
    parse_function_stmt := fun s hb => within_halts hb (h.parse_function_stmt s hb)
    parse_function_expr := fun s hb => within_halts hb (h.parse_function_expr s hb)
    parse_param_list := fun s hb => within_halts hb (h.parse_param_list s hb)
    param_list_loop := fun x0 x1 s hb => within_halts hb (h.param_list_loop x0 x1 s hb)
    parse_block := fun s hb => within_halts hb (h.parse_block s hb)
    block_loop := fun x0 x1 s hb => within_halts hb (h.block_loop x0 x1 s hb)
    parse_var_decl := fun s hb => within_halts hb (h.parse_var_decl s hb)
    var_decl_loop := fun x0 x1 x2 s hb => within_halts hb (h.var_decl_loop x0 x1 x2 s hb)
    parse_array_literal := fun s hb => within_halts hb (h.parse_array_literal s hb)
    array_loop := fun x0 x1 s hb => within_halts hb (h.array_loop x0 x1 s hb)
    parse_object_literal := fun s hb => within_halts hb (h.parse_object_literal s hb)
    object_loop := fun x0 x1 s hb => within_halts hb (h.object_loop x0 x1 s hb)
    parse_computed_access := fun x0 s hb => within_halts hb (h.parse_computed_access x0 s hb)
    parse_call := fun x0 s hb => within_halts hb (h.parse_call x0 s hb)
    call_loop := fun x0 x1 x2 s hb => within_halts hb (h.call_loop x0 x1 x2 s hb)
    parse_block_or_obj := fun x0 s hb => within_halts hb (h.parse_block_or_obj x0 s hb) }

theorem guarded_le (B : Nat) (fns : parser_fns) : fns_le (guarded B fns) fns := by
  constructor <;> intros <;> exact run_le_within _ _ _

theorem tie_halt (ops : operators_def) {fns : parser_fns} {B : Nat} (h : fns_halt fns B) :
    fns_halt (tie ops fns) (B + 1) :=
  { parse_statement := fun s hb => halt_parse_statement h s hb
    parse_keyword_stmt := fun s hb => halt_parse_keyword_stmt h s hb
    parse_keyword_expr := fun s hb => halt_parse_keyword_expr h s hb
    parse_if_stmt := fun s hb => halt_parse_if_stmt h s hb
    parse_do_while := fun s hb => halt_parse_do_while h s hb
    parse_while_stmt := fun s hb => halt_parse_while_stmt h s hb
    parse_for_stmt := fun s hb => halt_parse_for_stmt h s hb
    parse_switch_stmt := fun s hb => halt_parse_switch_stmt h s hb
    switch_clauses_loop := fun x0 x1 x2 x3 s hb => halt_switch_clauses_loop h x0 x1 x2 x3 s hb
    switch_stmts_loop := fun x0 x1 x2 x3 x4 s hb => halt_switch_stmts_loop h x0 x1 x2 x3 x4 s hb
    parse_return_stmt := fun s hb => halt_parse_return_stmt h s hb
    parse_throw_stmt := fun s hb => halt_parse_throw_stmt h s hb
    parse_try_stmt := fun s hb => halt_parse_try_stmt h s hb
    parse_expression := fun x0 s hb => halt_parse_expression h x0 s hb
    parse_unary_or_atomic_expr := fun s hb => halt_parse_unary_or_atomic_expr h s hb
    parse_atomic_expr := fun s hb => halt_parse_atomic_expr h s hb
    atomic_postfix_loop := fun x0 s hb => halt_atomic_postfix_loop h x0 s hb
    parse_parens_expr := fun s hb => halt_parse_parens_expr h s hb
    parens_list_loop := fun x0 x1 x2 s hb => halt_parens_list_loop h x0 x1 x2 s hb
    parse_bin_op := fun x0 x1 s hb => halt_parse_bin_op ops h x0 x1 s hb
    parse_atomic_keyword_expr := fun s hb => halt_parse_atomic_keyword_expr h s hb
    parse_new_keyword := fun s hb => halt_parse_new_keyword h s hb
    parse_template_literal := fun s hb => halt_parse_template_literal h s hb
    template_loop := fun x0 x1 x2 s hb => halt_template_loop h x0 x1 x2 s hb
    parse_function_stmt := fun s hb => halt_parse_function_stmt h s hb
    parse_function_expr := fun s hb => halt_parse_function_expr h s hb
    parse_param_list := fun s hb => halt_parse_param_list h s hb
    param_list_loop := fun x0 x1 s hb => halt_param_list_loop h x0 x1 s hb
    parse_block := fun s hb => halt_parse_block h s hb
    block_loop := fun x0 x1 s hb => halt_block_loop h x0 x1 s hb
    parse_var_decl := fun s hb => halt_parse_var_decl h s hb
    var_decl_loop := fun x0 x1 x2 s hb => halt_var_decl_loop h x0 x1 x2 s hb
    parse_array_literal := fun s hb => halt_parse_array_literal h s hb
    array_loop := fun x0 x1 s hb => halt_array_loop h x0 x1 s hb
    parse_object_literal := fun s hb => halt_parse_object_literal h s hb
    object_loop := fun x0 x1 s hb => halt_object_loop h x0 x1 s hb
    parse_computed_access := fun x0 s hb => halt_parse_computed_access h x0 s hb
    parse_call := fun x0 s hb => halt_parse_call h x0 s hb
    call_loop := fun x0 x1 x2 s hb => halt_call_loop h x0 x1 x2 s hb
    parse_block_or_obj := fun x0 s hb => halt_parse_block_or_obj h x0 s hb }

theorem tie_le (ops : operators_def) {a b : parser_fns} (h : fns_le a b) :
    fns_le (tie ops a) (tie ops b) :=
  { parse_statement := mono_parse_statement h
    parse_keyword_stmt := mono_parse_keyword_stmt h
    parse_keyword_expr := mono_parse_keyword_expr h
    parse_if_stmt := mono_parse_if_stmt h
    parse_do_while := mono_parse_do_while h
    parse_while_stmt := mono_parse_while_stmt h
    parse_for_stmt := mono_parse_for_stmt h
    parse_switch_stmt := mono_parse_switch_stmt h
    switch_clauses_loop := fun x0 x1 x2 x3 => mono_switch_clauses_loop h x0 x1 x2 x3
    switch_stmts_loop := fun x0 x1 x2 x3 x4 => mono_switch_stmts_loop h x0 x1 x2 x3 x4
    parse_return_stmt := mono_parse_return_stmt h
    parse_throw_stmt := mono_parse_throw_stmt h
    parse_try_stmt := mono_parse_try_stmt h
    parse_expression := fun x0 => mono_parse_expression h x0
    parse_unary_or_atomic_expr := mono_parse_unary_or_atomic_expr h
    parse_atomic_expr := mono_parse_atomic_expr h
    atomic_postfix_loop := fun x0 => mono_atomic_postfix_loop h x0
    parse_parens_expr := mono_parse_parens_expr h
    parens_list_loop := fun x0 x1 x2 => mono_parens_list_loop h x0 x1 x2
    parse_bin_op := fun x0 x1 => mono_parse_bin_op ops h x0 x1
    parse_atomic_keyword_expr := mono_parse_atomic_keyword_expr h
    parse_new_keyword := mono_parse_new_keyword h
    parse_template_literal := mono_parse_template_literal h
    template_loop := fun x0 x1 x2 => mono_template_loop h x0 x1 x2
    parse_function_stmt := mono_parse_function_stmt h
    parse_function_expr := mono_parse_function_expr h
    parse_param_list := mono_parse_param_list h
    param_list_loop := fun x0 x1 => mono_param_list_loop h x0 x1
    parse_block := mono_parse_block h
    block_loop := fun x0 x1 => mono_block_loop h x0 x1
    parse_var_decl := mono_parse_var_decl h
    var_decl_loop := fun x0 x1 x2 => mono_var_decl_loop h x0 x1 x2
    parse_array_literal := mono_parse_array_literal h
    array_loop := fun x0 x1 => mono_array_loop h x0 x1
    parse_object_literal := mono_parse_object_literal h
    object_loop := fun x0 x1 => mono_object_loop h x0 x1
    parse_computed_access := fun x0 => mono_parse_computed_access h x0
    parse_call := fun x0 => mono_parse_call h x0
    call_loop := fun x0 x1 x2 => mono_call_loop h x0 x1 x2
    parse_block_or_obj := fun x0 => mono_parse_block_or_obj h x0 }

theorem parsers_succ_tie (ops : operators_def) (fuel : Nat) :
    parsers ops (fuel + 1) = tie ops (parsers ops fuel) := rfl

/-- With `fuel` nested calls left, every member function returns from a state
whose pending tokens the fuel covers. -/
theorem parsers_halt (ops : operators_def) : ∀ fuel, fns_halt (parsers ops fuel) fuel
  | 0 => by
    constructor <;> intros <;> omega
  | fuel + 1 => tie_halt ops (parsers_halt ops fuel)

/-- The loop of `parse` returns when the fuel covers the pending tokens. -/
theorem parse_loop_halts (ops : operators_def) : ∀ (fuel : Nat) (stmts : List Node)
    (s : parser_base), 64 * pending s + 8 ≤ fuel → halts (pending s) (parse_loop ops fuel stmts) s
  | 0, _, _, h => by omega
  | fuel + 1, stmts, s, h => by
    unfold parse_loop
    refine halts_bind_has_error ?_
    refine halts_ite (fun _ => halts_pure (Nat.le_refl _)) (fun _ => ?_)
    refine halts_bind_advance (fun s1 h1 => ?_) (fun s1 h1 => ?_)
    · refine halts_ite (fun _ => halts_pure (by omega)) (fun _ => ?_)
      refine halts_bind_call ((parsers_halt ops fuel).parse_statement s1 (by omega))
        (fun stmt s2 h2 => ?_)
      refine halts_bind_has_error ?_
      refine halts_ite (fun _ => halts_pure (by omega)) (fun _ => ?_)
      exact halts_call (parse_loop_halts ops fuel _ s2 (by omega)) (by omega)
    · refine halts_ite (fun _ => halts_pure (by omega)) (fun hc => ?_)
      simp at hc

/-- The member function `parse` returns when the fuel covers the pending tokens. -/
theorem parse_halts (ops : operators_def) (analyze_js_ast : Node → Option String)
    (verify : Bool) (s : parser_base) (fuel : Nat) (h : 64 * pending s + 8 ≤ fuel) :
    ∃ r s1, parse ops analyze_js_ast fuel verify s = some (r, s1) ∧ pending s1 ≤ pending s := by
  have hp : pending { s with rewind_stack := [] } ≤ pending s := by
    simp [pending]
  obtain ⟨out, s2, e, h2⟩ := parse_loop_halts ops fuel [] { s with rewind_stack := [] }
    (by omega)
  unfold parse
  simp only [bind, StateT.bind, reset, get, getThe, MonadStateOf.get, StateT.get, pure,
    StateT.pure, Option.bind, e]
  cases he : s2.error with
  | some err => exact ⟨_, _, rfl, by omega⟩
  | none =>
    cases verify
    · exact ⟨_, _, rfl, by omega⟩
    · simp only [if_true]
      cases analyze_js_ast (Node.module ⟨0, 0⟩ out) with
      | none => exact ⟨_, _, rfl, by omega⟩
      | some report => exact ⟨_, _, rfl, by omega⟩

theorem parse_loop_le_succ (ops : operators_def) : ∀ (fuel : Nat) (stmts : List Node),
    run_le (parse_loop ops fuel stmts) (parse_loop ops (fuel + 1) stmts)
  | 0, _ => run_le_out_of_fuel _
  | fuel + 1, stmts => by
    rw [parse_loop, parse_loop]
    refine run_le_bind (run_le_refl _) (fun _ => run_le_ite (run_le_refl _) ?_)
    refine run_le_bind (run_le_refl _) (fun _ => run_le_ite (run_le_refl _) ?_)
    refine run_le_bind (parsers_le_succ ops fuel).parse_statement (fun _ => ?_)
    refine run_le_bind (run_le_refl _) (fun _ => run_le_ite (run_le_refl _) ?_)
    exact parse_loop_le_succ ops fuel _

theorem parse_loop_mono (ops : operators_def) {m n : Nat} (h : m ≤ n) (stmts : List Node) :
    run_le (parse_loop ops m stmts) (parse_loop ops n stmts) := by
  induction h with
  | refl => exact run_le_refl _
  | step _ ih => exact run_le_trans ih (parse_loop_le_succ ops _ _)

/-- More fuel does not change what `parse` returns. -/
theorem parse_mono (ops : operators_def) (analyze_js_ast : Node → Option String)
    (verify : Bool) {m n : Nat} (h : m ≤ n) :
    run_le (parse ops analyze_js_ast m verify) (parse ops analyze_js_ast n verify) := by
  unfold parse
  refine run_le_bind (run_le_refl _) (fun _ => ?_)
  refine run_le_bind (parse_loop_mono ops h _) (fun _ => run_le_refl _)

/-- C40: termination.  The tokens still to be delivered are those left in the
lexer and those on the rewind stack (`pending`).  From every state, `parse`
returns, with `64 * pending + 8` nested calls and loop rounds at its disposal,
and more of them do not change the result.  Every call is to a function whose
measure `64 * pending + c` (`c < 64` a constant of the function called, the same
at every call of it) is strictly below that of its caller; so a round of a loop
and a call that leads back to its caller start with strictly fewer pending tokens:
the body of each member function, run with every call refused that does not lower
the measure (`guarded`), returns, and returns what the parser returns.  `advance`
never adds a pending token and removes one when it delivers a token; `rewind`
adds exactly one. -/
theorem parse_terminates (ops : operators_def) (analyze_js_ast : Node → Option String)
    (verify : Bool) (s : parser_base) :
    (∃ r s1, (∀ fuel, 64 * pending s + 8 ≤ fuel →
        parse ops analyze_js_ast fuel verify s = some (r, s1)) ∧ pending s1 ≤ pending s) ∧
    (∀ fuel, fns_halt (tie ops (guarded fuel (parsers ops fuel))) (fuel + 1) ∧
      fns_le (tie ops (guarded fuel (parsers ops fuel))) (parsers ops (fuel + 1))) ∧
    (∀ b s1, advance s = some (b, s1) →
      pending s1 ≤ pending s ∧ (b = true → pending s1 < pending s)) ∧
    (∀ t, ∃ s1, rewind t s = some ((), s1) ∧ pending s1 = pending s + 1) := by
  refine ⟨?_, fun fuel => ⟨tie_halt ops (guarded_halt (parsers_halt ops fuel)),
    tie_le ops (guarded_le fuel _)⟩, fun b s1 h => ?_, fun t => ?_⟩
  · obtain ⟨r, s1, e, hp⟩ := parse_halts ops analyze_js_ast verify s _ (Nat.le_refl _)
    exact ⟨r, s1, fun fuel hf => parse_mono ops analyze_js_ast verify hf s _ e, hp⟩
  · have := advance_pending h
    exact ⟨this.1, fun hb => by have := this.2 hb; omega⟩
  · refine ⟨_, rfl, ?_⟩
    simp only [pending, List.length_cons]
    have := pending_check (decide (t.type ≠ .BLOCK_COMMENT ∧ t.type ≠ .LINE_COMMENT))
      .rewind_comment s
    simp only [pending] at this
    omega

/-- C5: no partial trees.  From every state `parse(false)` returns: `64 * pending
+ 8` nested calls and loop rounds are enough, and more of them give the same
result.  Whenever it returns: if the result is a module then no error is
recorded and, in a run that has not used `front()` on an empty vector (whose
behaviour is undefined, see `empty_parens_take_front_of_empty_list`), the lexer
has reported the end of the input and the rewind stack is empty; if an error is
recorded then the result is that error, not a module; and an error that was
recorded before the call gives an error result. -/
theorem no_partial_trees (ops : operators_def) (analyze_js_ast : Node → Option String)
    (s : parser_base) :
    (∃ r s1, ∀ fuel, 64 * pending s + 8 ≤ fuel →
      parse ops analyze_js_ast fuel false s = some (r, s1)) ∧
    (∀ fuel r s1, parse ops analyze_js_ast fuel false s = some (r, s1) →
      (∀ ast, r = .module ast →
        s1.error = none ∧ (¬ s1.crit → s1.lexer = [] ∧ s1.rewind_stack = [])) ∧
      (∀ err, s1.error = some err → r = .error err ∧ ∀ ast, r ≠ .module ast) ∧
      (s.error.isSome = true → ∃ err, r = .error err)) := by
  refine ⟨?_, fun fuel r s1 h => ?_⟩
  · obtain ⟨r, s1, e, _⟩ := parse_halts ops analyze_js_ast false s _ (Nat.le_refl _)
    exact ⟨r, s1, fun fuel hf => parse_mono ops analyze_js_ast false hf s _ e⟩
  · obtain ⟨h1, h2, h3⟩ := parse_spec ops analyze_js_ast fuel false s r s1 h
    refine ⟨fun ast hr => ?_, fun err he => ?_, fun h0 => ?_⟩
    · obtain ⟨a, b⟩ := h3 ast hr
      exact ⟨a, fun hc => ⟨(b hc).1, (b hc).2.1⟩⟩
    · have := h2 err he
      refine ⟨this, fun ast ha => ?_⟩
      rw [this] at ha
      cases ha
    · have h4 := h1 h0
      cases he : s1.error with
      | none => rw [he] at h4; simp at h4
      | some err => exact ⟨err, h2 err he⟩

theorem no_partial_trees_witness :
    parse js_operators no_analysis 6 false (fresh_state (tokens [(.IDENTIFIER, "a")])) =
      some (.module (.module ⟨0, 0⟩ [.identifier_expr ⟨1, 1⟩ "a"]),
        { fresh_state [] with current_token := ⟨.IDENTIFIER, "a", ⟨1, 1⟩⟩ }) ∧
    (({ fresh_state [] with current_token := ⟨.IDENTIFIER, "a", ⟨1, 1⟩⟩ } :
        parser_base).error = none ∧
      (¬ ({ fresh_state [] with current_token := ⟨.IDENTIFIER, "a", ⟨1, 1⟩⟩ } :
          parser_base).crit →
        ({ fresh_state [] with current_token := ⟨.IDENTIFIER, "a", ⟨1, 1⟩⟩ } :
          parser_base).lexer = [] ∧
        ({ fresh_state [] with current_token := ⟨.IDENTIFIER, "a", ⟨1, 1⟩⟩ } :
          parser_base).rewind_stack = [])) :=
  ⟨rfl, ((no_partial_trees js_operators no_analysis
    (fresh_state (tokens [(.IDENTIFIER, "a")]))).2 6 _ _ rfl).1 _ rfl⟩

theorem parse_terminates_witness :
    ∃ r s1, (∀ fuel, 64 * pending (fresh_state (tokens [(.IDENTIFIER, "a")])) + 8 ≤ fuel →
        parse js_operators no_analysis fuel false (fresh_state (tokens [(.IDENTIFIER, "a")])) =
          some (r, s1)) ∧
      pending s1 ≤ pending (fresh_state (tokens [(.IDENTIFIER, "a")])) :=
  (parse_terminates js_operators no_analysis false (fresh_state (tokens [(.IDENTIFIER, "a")]))).1

/-- C9: the code reports a second `default` header with another error when the
statement before it is a compound statement.  `switch ( 1 ) { default : if ( a )
b ; default : 3 ; }` is the error "Unexpected token after statement: KEYWORD" at
the second `default`, not "Switch statement already has a default clause": the
body of the `if` consumes the `;`, the terminator check of the `if` statement then
meets the keyword, and the loop over the clauses never sees the second header.
After a statement that is not compound the second header is reported as the loop
over the clauses reports it: `switch ( 1 ) { default : 2 ; default : 3 ; }`. -/
theorem second_default_after_compound_is_another_error :
    parse_fresh 60 (tokens [(.KEYWORD, "switch"), (.PAREN_OPEN, "("), (.INT_LITERAL, "1"),
        (.PAREN_CLOSE, ")"), (.BRACE_OPEN, "\x7b"), (.KEYWORD, "default"), (.COLON, ":"),
        (.KEYWORD, "if"), (.PAREN_OPEN, "("), (.IDENTIFIER, "a"), (.PAREN_CLOSE, ")"),
        (.IDENTIFIER, "b"), (.SEMICOLON, ";"), (.KEYWORD, "default"), (.COLON, ":"),
        (.INT_LITERAL, "3"), (.SEMICOLON, ";"), (.BRACE_CLOSE, "\x7d")]) =
      some (.error ⟨"Unexpected token after statement: KEYWORD", ⟨1, 14⟩⟩) ∧
    parse_fresh 60 (tokens [(.KEYWORD, "switch"), (.PAREN_OPEN, "("), (.INT_LITERAL, "1"),
        (.PAREN_CLOSE, ")"), (.BRACE_OPEN, "\x7b"), (.KEYWORD, "default"), (.COLON, ":"),
        (.INT_LITERAL, "2"), (.SEMICOLON, ";"), (.KEYWORD, "default"), (.COLON, ":"),
        (.INT_LITERAL, "3"), (.SEMICOLON, ";"), (.BRACE_CLOSE, "\x7d")]) =
      some (.error ⟨"Switch statement already has a default clause", ⟨1, 10⟩⟩) :=
  ⟨is_error_eq (by decide!), is_error_eq (by decide!)⟩

/-- C17: the code rejects a labelled statement that is followed by a statement.
`l : b ; c` starts with an identifier followed by a colon, and `parse` returns the
error "Unexpected token after statement: IDENTIFIER" at `c` instead of a
`label_stmt` followed by `c`: the statement after the colon consumes the `;`, and
the terminator check that `parse_statement` runs on the `label_stmt` then meets
`c`.  Without the label, `b ; c` parses to two statements, and `l : b` and
`l : b ;` alone parse to the `label_stmt`. -/
theorem labelled_statement_before_statement_is_rejected :
    parse_fresh 40 (tokens [(.IDENTIFIER, "l"), (.COLON, ":"), (.IDENTIFIER, "b"),
        (.SEMICOLON, ";"), (.IDENTIFIER, "c")]) =
      some (.error ⟨"Unexpected token after statement: IDENTIFIER", ⟨1, 5⟩⟩) ∧
    (match parse_fresh 40 (tokens [(.IDENTIFIER, "b"), (.SEMICOLON, ";"),
        (.IDENTIFIER, "c")]) with
     | some (.module (.module _ [.identifier_expr _ "b", .identifier_expr _ "c"])) => true
     | _ => false) = true ∧
    (match parse_fresh 40 (tokens [(.IDENTIFIER, "l"), (.COLON, ":"), (.IDENTIFIER, "b")]) with
     | some (.module (.module _ [.label_stmt _ "l" (.identifier_expr _ "b")])) => true
     | _ => false) = true ∧
    (match parse_fresh 40 (tokens [(.IDENTIFIER, "l"), (.COLON, ":"), (.IDENTIFIER, "b"),
        (.SEMICOLON, ";")]) with
     | some (.module (.module _ [.label_stmt _ "l" (.identifier_expr _ "b")])) => true
     | _ => false) = true :=
  ⟨is_error_eq (by decide!), by decide!, by decide!, by decide!⟩

/-- C18, amended: what the number-literal boundary rejects.  The token sequence
INT_LITERAL, DOT, IDENTIFIER is not rejected: whatever the texts and locations of
the three tokens are, it parses to the module that holds the member access on the
literal.  When the current token is a number literal and `advance` delivers a token that
`is_follow_expression` does not accept (an IDENTIFIER for instance),
`parse_number_literal` records the error "Unexpected token after number literal"
at that token and returns no node, in every state.  And `parse(false)` of a new
parser whose input starts with a number literal `n` directly followed by such a
token `t` (not a comment) returns that error at the location of `t`, whatever
follows and whatever the operator table is; no module is returned. -/
theorem number_literal_boundary (ops : operators_def) (an : Node → Option String)
    (n t : token) (rest : List lexer_result) (fuel : Nat)
    (hn : n.is_number_literal = true)
    (ht : t.type ≠ .LINE_COMMENT ∧ t.type ≠ .BLOCK_COMMENT)
    (hf : is_follow_expression t = false) :
    (∀ (a b c : String) (la lb lc : source_location) (fuel2 : Nat), 20 ≤ fuel2 →
      parse ops an fuel2 false (fresh_state [.tok ⟨.INT_LITERAL, a, la⟩, .tok ⟨.DOT, b, lb⟩,
          .tok ⟨.IDENTIFIER, c, lc⟩]) =
        some (.module (.module ⟨0, 0⟩ [.member_access lb (.int_literal la a) c]),
          { fresh_state [] with current_token := ⟨.IDENTIFIER, c, lc⟩ })) ∧
    (∀ s s1 : parser_base, s.current_token.is_number_literal = true →
      advance s = some (true, s1) → is_follow_expression s1.current_token = false →
      parse_number_literal s = some (.null, { s1 with
        error := some ⟨"Unexpected token after number literal", s1.current_token.loc⟩ })) ∧
    ((parse ops an (fuel + 5) false) (fresh_state (.tok n :: .tok t :: rest))).map Prod.fst =
      some (.error ⟨"Unexpected token after number literal", t.loc⟩) := by
  refine ⟨fun a b c la lb lc fuel2 h20 => parse_mono ops an false h20 _ _
    (by simp only [parse, parse_loop]; rfl),
    fun s s1 h1 h2 h3 => parse_number_literal_reject h1 h2 h3, ?_⟩
  have hnc : n.type ≠ .LINE_COMMENT ∧ n.type ≠ .BLOCK_COMMENT := by
    rcases number_literal_type hn with h | h | h | h | h <;> simp [h]
  have hadv : advance { fresh_state (.tok t :: rest) with current_token := n } =
      some (true, { fresh_state rest with current_token := t }) := by
    simp [advance, fresh_state, advance_lexer, ht.1, ht.2]
  have hu : is_unary_prefix_op n = false := by
    rcases number_literal_type hn with h | h | h | h | h <;>
    simp [is_unary_prefix_op, is_prefix_op_type, h]
  have hty : n.type ≠ .SEMICOLON ∧ n.type ≠ .BRACE_OPEN ∧ n.type ≠ .KEYWORD ∧
      n.type ≠ .IDENTIFIER := by
    rcases number_literal_type hn with h | h | h | h | h <;> simp [h]
  have h1 := parse_number_literal_reject hn hadv hf
  rw [← atomic_start_number (parsers ops fuel) hn] at h1
  have h2 := parse_atomic_expr_fail _ h1 rfl
  rw [← parsers_succ_parse_atomic_expr] at h2
  have h3 := parse_unary_or_atomic_expr_fail _ hu h2 rfl
  rw [← parsers_succ_parse_unary_or_atomic_expr] at h3
  have h4 := parse_expression_fail _ true h3 rfl
  rw [← parsers_succ_parse_expression] at h4
  have h5 := parse_statement_expression_fail _ hty.1 hty.2.1 hty.2.2.1 hty.2.2.2 h4 rfl
  rw [← parsers_succ_parse_statement] at h5
  exact parse_first_statement_error ops an (fuel + 4) n _ hnc h5 rfl

theorem number_literal_boundary_witness :
    ((parse js_operators no_analysis 5 false)
        (fresh_state (.tok ⟨.FLOAT_LITERAL, "1.", ⟨1, 1⟩⟩ ::
          .tok ⟨.IDENTIFIER, "window", ⟨1, 3⟩⟩ :: []))).map Prod.fst =
      some (.error ⟨"Unexpected token after number literal", ⟨1, 3⟩⟩) :=
  (number_literal_boundary js_operators no_analysis ⟨.FLOAT_LITERAL, "1.", ⟨1, 1⟩⟩
    ⟨.IDENTIFIER, "window", ⟨1, 3⟩⟩ [] 0 rfl (by decide) rfl).2.2

/-! ## Statements in source order

The parser functions agree with themselves on a longer input: what they return
on an expression that takes all of its input, they return when a `;` and more
follow it. -/

theorem pending_eq_feed (s : parser_base) : pending s = (feed s).length := by
  simp [pending, feed]
  omega

theorem feed_nil {s : parser_base} (h : feed s = []) : s.rewind_stack = [] ∧ s.lexer = [] := by
  simpa [feed] using h

theorem pending_zero_feed {s : parser_base} (h : pending s = 0) : feed s = [] := by
  rw [pending_eq_feed] at h
  exact List.length_eq_zero.mp h

theorem clean_tail {r : lexer_result} {l : List lexer_result} (h : clean (r :: l)) :
    clean l := fun x hx => h x (List.mem_cons_of_mem _ hx)

theorem clean_head {r : lexer_result} {l : List lexer_result} (h : clean (r :: l)) :
    ∃ t, r = .tok t ∧ clean_tok t := h r (List.mem_cons_self _ _)

theorem clean_cons {t : token} {l : List lexer_result} (ht : clean_tok t) (h : clean l) :
    clean (.tok t :: l) := by
  intro r hr
  rcases List.mem_cons.mp hr with rfl | hr
  · exact ⟨t, rfl, ht⟩
  · exact h r hr

/-- What `advance` does when the feed starts with a token that is not a comment. -/
theorem advance_feed_cons {s : parser_base} {u : token} {F : List lexer_result}
    (hu : clean_tok u) (h : feed s = .tok u :: F) :
    ∃ s1, advance s = some (true, s1) ∧ s1.current_token = u ∧ s1.error = s.error ∧
      feed s1 = F := by
  unfold advance
  cases hst : s.rewind_stack with
  | cons t0 stack =>
    simp only [feed, hst, List.map_cons, List.cons_append, List.cons.injEq,
      lexer_result.tok.injEq] at h
    refine ⟨_, rfl, h.1, rfl, ?_⟩
    simpa [feed] using h.2
  | nil =>
    simp only [feed, hst, List.map_nil, List.nil_append] at h
    simp only [h, advance_lexer, hu.1, hu.2, or_self, if_false]
    exact ⟨_, rfl, rfl, rfl, by simp [feed, hst]⟩

/-- What `advance` does when nothing is left. -/
theorem advance_feed_nil {s : parser_base} (h : feed s = []) :
    advance s = some (false, s) := by
  obtain ⟨h1, h2⟩ := feed_nil h
  unfold advance
  rw [h1, h2]
  simp only [advance_lexer]
  cases s
  simp only at h2
  subst h2
  rfl

theorem longer.pending_le {X : List lexer_result} {s t : parser_base} (h : longer X s t) :
    pending s ≤ pending t := by
  rw [pending_eq_feed, pending_eq_feed, h.feed_eq]
  simp

/-- Both states deliver the next token of the common part of their feeds. -/
theorem longer.advance_true {X : List lexer_result} {s t : parser_base} (h : longer X s t)
    {s1 : parser_base} (ha : advance s = some (true, s1)) :
    ∃ t1, advance t = some (true, t1) ∧ longer X s1 t1 := by
  cases hf : feed s with
  | nil =>
    rw [advance_feed_nil hf] at ha
    cases ha
  | cons r F =>
    have hc := h.clean_feed
    rw [hf] at hc
    obtain ⟨u, rfl, hu⟩ := clean_head hc
    obtain ⟨s2, e1, e2, e3, e4⟩ := advance_feed_cons hu hf
    rw [e1] at ha
    simp only [Option.some.injEq, Prod.mk.injEq, true_and] at ha
    subst ha
    have hft : feed t = .tok u :: (F ++ X) := by rw [h.feed_eq, hf]; rfl
    obtain ⟨t1, f1, f2, f3, f4⟩ := advance_feed_cons hu hft
    refine ⟨t1, f1, ⟨?_, ?_, ?_, ?_, ?_⟩⟩
    · rw [f2, e2]
    · rw [f3, e3, h.err_eq]
    · rw [f4, e4]
    · rw [e4]; exact clean_tail hc
    · rw [e2]; exact hu

/-- At the end of the shorter feed, with nothing appended: both states report
the end of the input. -/
theorem longer.advance_false_nil {s t : parser_base} (h : longer [] s t)
    {s1 : parser_base} (ha : advance s = some (false, s1)) :
    s1 = s ∧ advance t = some (false, t) ∧ feed s = [] := by
  cases hf : feed s with
  | nil =>
    rw [advance_feed_nil hf] at ha
    simp only [Option.some.injEq, Prod.mk.injEq, true_and] at ha
    refine ⟨ha.symm, advance_feed_nil ?_, rfl⟩
    rw [h.feed_eq, hf]
    rfl
  | cons r F =>
    have hc := h.clean_feed
    rw [hf] at hc
    obtain ⟨u, rfl, hu⟩ := clean_head hc
    obtain ⟨s2, e1, _⟩ := advance_feed_cons hu hf
    rw [e1] at ha
    cases ha

/-- At the end of the shorter feed, with `;` and more appended: the shorter
state reports the end of the input, the longer one delivers the `;`; and a
`rewind` of the longer state to the token that was current restores the
relation. -/
theorem longer.advance_false_semi {semi : token} {rest : List lexer_result}
    {s t : parser_base} (h : longer (.tok semi :: rest) s t) (hs : semi.type = .SEMICOLON)
    {s1 : parser_base} (ha : advance s = some (false, s1)) :
    s1 = s ∧ feed s = [] ∧ ∃ t1, advance t = some (true, t1) ∧ t1.current_token = semi ∧
      t1.error = s.error ∧
      rewind s.current_token t1 = some ((), { t1 with
        rewind_stack := semi :: t1.rewind_stack, current_token := s.current_token }) ∧
      longer (.tok semi :: rest) s { t1 with
        rewind_stack := semi :: t1.rewind_stack, current_token := s.current_token } := by
  have hsc : clean_tok semi := by simp [clean_tok, hs]
  cases hf : feed s with
  | nil =>
    rw [advance_feed_nil hf] at ha
    simp only [Option.some.injEq, Prod.mk.injEq, true_and] at ha
    have hft : feed t = .tok semi :: rest := by rw [h.feed_eq, hf]; rfl
    obtain ⟨t1, f1, f2, f3, f4⟩ := advance_feed_cons hsc hft
    refine ⟨ha.symm, rfl, t1, f1, f2, by rw [f3, h.err_eq], ?_, ⟨rfl, ?_, ?_, ?_, h.cur_ok⟩⟩
    · rw [rewind_ok _ _ ⟨h.cur_ok.2, h.cur_ok.1⟩, f2]
    · show t1.error = s.error
      rw [f3, h.err_eq]
    · show feed _ = feed s ++ _
      rw [hf]
      simp only [feed, List.map_cons, List.cons_append, List.nil_append, List.cons.injEq,
        true_and]
      exact f4
    · rw [hf]
      intro r hr
      cases hr
  | cons r F =>
    have hc := h.clean_feed
    rw [hf] at hc
    obtain ⟨u, rfl, hu⟩ := clean_head hc
    obtain ⟨s2, e1, _⟩ := advance_feed_cons hu hf
    rw [e1] at ha
    cases ha

theorem sticky_ASSERT_PARSE_RESULT (v : Node) (k : P Node) :
    sticky (ASSERT_PARSE_RESULT v k) := by
  intro s a s' hr he
  have : ASSERT_PARSE_RESULT v k s = some (.null, s.check (decide (True ∧ v.isNull = true))
      .assert_parse_result) := by
    simp [ASSERT_PARSE_RESULT, has_error, he, assert_that]
  rw [this] at hr
  cases hr
  unfold parser_base.check
  split <;> exact he

theorem sticky_pure {α : Type} (a : α) : sticky (pure a : P α) := by
  intro s b s' hr he
  cases hr
  exact he

theorem sticky_bind {α β : Type} {m : P α} {k : α → P β} (hm : sticky m)
    (hk : ∀ a, sticky (k a)) : sticky (m >>= k) := by
  intro s b s' hr he
  cases hms : m s with
  | none => simp [hms] at hr
  | some r =>
    obtain ⟨v, s1⟩ := r
    simp only [P_bind_apply, hms, Option.some_bind] at hr
    exact hk v s1 b s' hr (hm s v s1 hms he)

theorem sticky_ite {α : Type} {c : Prop} [Decidable c] {a b : P α} (ha : sticky a)
    (hb : sticky b) : sticky (if c then a else b) := by
  split
  · exact ha
  · exact hb

theorem sticky_out_of_fuel {α : Type} : sticky (out_of_fuel : P α) := by
  intro s b s' hr
  cases hr

theorem sticky_current_token : sticky current_token := by
  intro s b s' hr he
  cases hr
  exact he

theorem sticky_has_error : sticky has_error := by
  intro s b s' hr he
  cases hr
  exact he

theorem sticky_assert_that (c : Prop) [Decidable c] (v : violation) :
    sticky (assert_that c v) := by
  intro s b s' hr he
  cases hr
  unfold parser_base.check
  split <;> exact he

theorem sticky_set_error (msg : String) (loc : source_location) :
    sticky (set_error msg loc) := by
  intro s b s' hr _
  cases hr
  rfl

theorem sticky_advance : sticky advance :=
  fun _ _ _ hr he => (le_advance hr).1 he

theorem sticky_rewind (t : token) : sticky (rewind t) := by
  unfold rewind
  refine sticky_bind (sticky_assert_that _ _) (fun _ => ?_)
  intro s b s' hr he
  cases hr
  exact he

theorem sticky_ADVANCE_OR_ERROR {α : Type} (msg : String) (rv : α) (k : P α) :
    sticky (ADVANCE_OR_ERROR msg rv k) := by
  intro s a s' hr he
  rw [ADVANCE_OR_ERROR_error msg rv k he] at hr
  cases hr
  exact he

theorem sticky_EXPECT_SEVERAL {α : Type} (types : List token_type) (rv : α) {k : P α}
    (hk : sticky k) : sticky (EXPECT_SEVERAL types rv k) := by
  unfold EXPECT_SEVERAL
  refine sticky_bind sticky_current_token (fun _ => sticky_ite hk ?_)
  exact sticky_bind (sticky_set_error _ _) (fun _ => sticky_pure _)

theorem sticky_EXPECT {α : Type} (type : token_type) (rv : α) {k : P α}
    (hk : sticky k) : sticky (EXPECT type rv k) :=
  sticky_EXPECT_SEVERAL _ _ hk

theorem sticky_SUBPARSE (m : P Node) (k : Node → P Node) (hm : sticky m) :
    sticky (SUBPARSE m k) :=
  sticky_bind hm (fun _ => sticky_ASSERT_PARSE_RESULT _ _)

theorem sticky_statement_end (stmt : Node) : sticky (statement_end stmt) :=
  sticky_ASSERT_PARSE_RESULT _ _


theorem sticky_make_number_expression (t : token) : sticky (make_number_expression t) := by
  unfold make_number_expression
  with_reducible refine sticky_bind ?_ (fun _ => ?_)
  with_reducible exact sticky_assert_that _ _
  with_reducible exact sticky_pure _

theorem sticky_make_unary_prefix_op (op : token) (value : Node) : sticky (make_unary_prefix_op op value) := by
  unfold make_unary_prefix_op
  with_reducible refine sticky_bind ?_ (fun _ => ?_)
  with_reducible exact sticky_assert_that _ _
  with_reducible refine sticky_bind ?_ (fun _ => ?_)
  with_reducible exact sticky_assert_that _ _
  with_reducible exact sticky_pure _

theorem sticky_make_binary_expr (op : token) (lhs : Node) (rhs : Node) : sticky (make_binary_expr op lhs rhs) := by
  unfold make_binary_expr
  with_reducible refine sticky_bind ?_ (fun _ => ?_)
  with_reducible exact sticky_assert_that _ _
  with_reducible refine sticky_bind ?_ (fun _ => ?_)
  with_reducible exact sticky_assert_that _ _
  with_reducible exact sticky_pure _

theorem sticky_parse_import : sticky parse_import := by
  unfold parse_import
  with_reducible refine sticky_bind ?_ (fun _ => ?_)
  with_reducible exact sticky_current_token
  with_reducible refine sticky_bind ?_ (fun _ => ?_)
  with_reducible exact sticky_assert_that _ _
  with_reducible refine sticky_bind ?_ (fun _ => ?_)
  with_reducible exact sticky_set_error _ _
  with_reducible exact sticky_pure _

theorem sticky_parse_export : sticky parse_export := by
  unfold parse_export
  with_reducible refine sticky_bind ?_ (fun _ => ?_)
  with_reducible exact sticky_current_token
  with_reducible refine sticky_bind ?_ (fun _ => ?_)
  with_reducible exact sticky_assert_that _ _
  with_reducible refine sticky_bind ?_ (fun _ => ?_)
  with_reducible exact sticky_set_error _ _
  with_reducible exact sticky_pure _

theorem sticky_parse_class_stmt : sticky parse_class_stmt := by
  unfold parse_class_stmt
  with_reducible refine sticky_bind ?_ (fun _ => ?_)
  with_reducible exact sticky_current_token
  with_reducible refine sticky_bind ?_ (fun _ => ?_)
  with_reducible exact sticky_assert_that _ _
  with_reducible refine sticky_bind ?_ (fun _ => ?_)
  with_reducible exact sticky_set_error _ _
  with_reducible exact sticky_pure _

theorem sticky_parse_class_expr : sticky parse_class_expr := by
  unfold parse_class_expr
  with_reducible refine sticky_bind ?_ (fun _ => ?_)
  with_reducible exact sticky_current_token
  with_reducible refine sticky_bind ?_ (fun _ => ?_)
  with_reducible exact sticky_assert_that _ _
  with_reducible refine sticky_bind ?_ (fun _ => ?_)
  with_reducible exact sticky_set_error _ _
  with_reducible exact sticky_pure _

theorem sticky_parse_number_literal : sticky parse_number_literal := by
  unfold parse_number_literal
  with_reducible refine sticky_bind ?_ (fun _ => ?_)
  with_reducible exact sticky_current_token
  with_reducible refine sticky_bind ?_ (fun _ => ?_)
  with_reducible exact sticky_make_number_expression _
  with_reducible refine sticky_bind ?_ (fun _ => ?_)
  with_reducible exact sticky_advance
  with_reducible refine sticky_bind ?_ (fun _ => ?_)
  with_reducible exact sticky_current_token
  with_reducible refine sticky_ite ?_ ?_
  with_reducible refine sticky_ite ?_ ?_
  with_reducible refine sticky_bind ?_ (fun _ => ?_)
  with_reducible exact sticky_rewind _
  with_reducible exact sticky_pure _
  with_reducible exact sticky_pure _
  with_reducible refine sticky_bind ?_ (fun _ => ?_)
  with_reducible exact sticky_set_error _ _
  with_reducible exact sticky_pure _

theorem sticky_parse_string_literal : sticky parse_string_literal := by
  unfold parse_string_literal
  with_reducible refine sticky_bind ?_ (fun _ => ?_)
  with_reducible exact sticky_current_token
  with_reducible refine sticky_bind ?_ (fun _ => ?_)
  with_reducible exact sticky_assert_that _ _
  with_reducible refine sticky_bind ?_ (fun _ => ?_)
  with_reducible exact sticky_advance
  with_reducible refine sticky_bind ?_ (fun _ => ?_)
  with_reducible exact sticky_current_token
  with_reducible refine sticky_ite ?_ ?_
  with_reducible refine sticky_ite ?_ ?_
  with_reducible refine sticky_bind ?_ (fun _ => ?_)
  with_reducible exact sticky_rewind _
  with_reducible exact sticky_pure _
  with_reducible exact sticky_pure _
  with_reducible refine sticky_bind ?_ (fun _ => ?_)
  with_reducible exact sticky_set_error _ _
  with_reducible exact sticky_pure _

theorem sticky_parse_member_access (base : Node) : sticky (parse_member_access base) := by
  unfold parse_member_access
  with_reducible refine sticky_bind ?_ (fun _ => ?_)
  with_reducible exact sticky_current_token
  with_reducible refine sticky_bind ?_ (fun _ => ?_)
  with_reducible exact sticky_assert_that _ _
  with_reducible exact sticky_ADVANCE_OR_ERROR _ _ _

theorem sticky_atomic_postfix_step (expr : Node) : sticky (atomic_postfix_step expr) := by
  unfold atomic_postfix_step
  with_reducible refine sticky_bind ?_ (fun _ => ?_)
  with_reducible exact sticky_current_token
  with_reducible refine sticky_bind ?_ (fun _ => ?_)
  with_reducible exact sticky_advance
  with_reducible refine sticky_ite ?_ ?_
  with_reducible refine sticky_bind ?_ (fun _ => ?_)
  with_reducible exact sticky_current_token
  with_reducible refine sticky_ite ?_ ?_
  with_reducible exact sticky_pure _
  with_reducible refine sticky_ite ?_ ?_
  with_reducible exact sticky_pure _
  with_reducible refine sticky_bind ?_ (fun _ => ?_)
  with_reducible exact sticky_rewind _
  with_reducible exact sticky_pure _
  with_reducible exact sticky_pure _

theorem sticky_param_list_close (loc : source_location) (names : List String) (rest : Option String) : sticky (param_list_close loc names rest) := by
  unfold param_list_close
  with_reducible refine sticky_bind ?_ (fun _ => ?_)
  with_reducible exact sticky_current_token
  with_reducible refine sticky_ite ?_ ?_
  with_reducible exact sticky_pure _
  with_reducible refine sticky_bind ?_ (fun _ => ?_)
  with_reducible exact sticky_set_error _ _
  with_reducible exact sticky_pure _

theorem sticky_param_list_tail (loc : source_location) (names : List String) : sticky (param_list_tail loc names) := by
  unfold param_list_tail
  with_reducible refine sticky_bind ?_ (fun _ => ?_)
  with_reducible exact sticky_current_token
  with_reducible refine sticky_ite ?_ ?_
  with_reducible exact sticky_ADVANCE_OR_ERROR _ _ _
  with_reducible exact sticky_param_list_close _ _ _

theorem sticky_parse_statement {self : parser_fns} (h : fns_sticky self) :
    sticky (parse_statement self) := by
  unfold parse_statement
  with_reducible refine sticky_bind ?_ (fun _ => ?_)
  with_reducible exact sticky_current_token
  with_reducible refine sticky_ite ?_ ?_
  with_reducible exact sticky_pure _
  with_reducible refine sticky_ite ?_ ?_
  with_reducible exact h.parse_block_or_obj _
  with_reducible refine sticky_ite ?_ ?_
  with_reducible refine sticky_bind ?_ (fun _ => ?_)
  with_reducible exact h.parse_keyword_stmt
  with_reducible exact sticky_statement_end _
  with_reducible refine sticky_ite ?_ ?_
  with_reducible refine sticky_bind ?_ (fun _ => ?_)
  with_reducible exact sticky_advance
  with_reducible refine sticky_ite ?_ ?_
  with_reducible refine sticky_bind ?_ (fun _ => ?_)
  with_reducible exact h.parse_expression _
  with_reducible exact sticky_statement_end _
  with_reducible refine sticky_bind ?_ (fun _ => ?_)
  with_reducible exact sticky_current_token
  with_reducible refine sticky_ite ?_ ?_
  with_reducible exact sticky_ADVANCE_OR_ERROR _ _ _
  with_reducible refine sticky_bind ?_ (fun _ => ?_)
  with_reducible exact sticky_rewind _
  with_reducible refine sticky_bind ?_ (fun _ => ?_)
  with_reducible exact h.parse_expression _
  with_reducible exact sticky_statement_end _
  with_reducible refine sticky_bind ?_ (fun _ => ?_)
  with_reducible exact h.parse_expression _
  with_reducible exact sticky_statement_end _

theorem sticky_parse_keyword_stmt {self : parser_fns} (h : fns_sticky self) :
    sticky (parse_keyword_stmt self) := by
  unfold parse_keyword_stmt
  with_reducible refine sticky_bind ?_ (fun _ => ?_)
  with_reducible exact sticky_current_token
  with_reducible refine sticky_bind ?_ (fun _ => ?_)
  with_reducible exact sticky_assert_that _ _
  with_reducible refine sticky_ite ?_ ?_
  with_reducible exact h.parse_function_stmt
  with_reducible refine sticky_ite ?_ ?_
  with_reducible exact h.parse_if_stmt
  with_reducible refine sticky_ite ?_ ?_
  with_reducible exact h.parse_do_while
  with_reducible refine sticky_ite ?_ ?_
  with_reducible exact h.parse_while_stmt
  with_reducible refine sticky_ite ?_ ?_
  with_reducible exact h.parse_for_stmt
  with_reducible refine sticky_ite ?_ ?_
  with_reducible exact h.parse_switch_stmt
  with_reducible refine sticky_ite ?_ ?_
  with_reducible exact sticky_pure _
  with_reducible refine sticky_ite ?_ ?_
  with_reducible exact sticky_pure _
  with_reducible refine sticky_ite ?_ ?_
  with_reducible exact h.parse_return_stmt
  with_reducible refine sticky_ite ?_ ?_
  with_reducible exact h.parse_throw_stmt
  with_reducible refine sticky_ite ?_ ?_
  with_reducible exact h.parse_try_stmt
  with_reducible refine sticky_ite ?_ ?_
  with_reducible exact sticky_parse_import
  with_reducible refine sticky_ite ?_ ?_
  with_reducible exact sticky_parse_export
  with_reducible refine sticky_ite ?_ ?_
  with_reducible exact sticky_parse_class_stmt
  with_reducible refine sticky_ite ?_ ?_
  with_reducible exact h.parse_call _
  with_reducible refine sticky_ite ?_ ?_
  with_reducible exact h.parse_var_decl
  with_reducible exact h.parse_keyword_expr

theorem sticky_parse_keyword_expr {self : parser_fns} (h : fns_sticky self) :
    sticky (parse_keyword_expr self) := by
  unfold parse_keyword_expr
  with_reducible refine sticky_bind ?_ (fun _ => ?_)
  with_reducible exact sticky_current_token
  with_reducible refine sticky_bind ?_ (fun _ => ?_)
  with_reducible exact sticky_assert_that _ _
  with_reducible refine sticky_ite ?_ ?_
  with_reducible exact h.parse_unary_or_atomic_expr
  with_reducible exact h.parse_atomic_keyword_expr

theorem sticky_parse_if_stmt {self : parser_fns} (h : fns_sticky self) :
    sticky (parse_if_stmt self) := by
  unfold parse_if_stmt
  with_reducible refine sticky_bind ?_ (fun _ => ?_)
  with_reducible exact sticky_current_token
  with_reducible refine sticky_bind ?_ (fun _ => ?_)
  with_reducible exact sticky_assert_that _ _
  with_reducible exact sticky_ADVANCE_OR_ERROR _ _ _

theorem sticky_parse_do_while {self : parser_fns} (h : fns_sticky self) :
    sticky (parse_do_while self) := by
  unfold parse_do_while
  with_reducible refine sticky_bind ?_ (fun _ => ?_)
  with_reducible exact sticky_current_token
  with_reducible refine sticky_bind ?_ (fun _ => ?_)
  with_reducible exact sticky_assert_that _ _
  with_reducible exact sticky_ADVANCE_OR_ERROR _ _ _

theorem sticky_parse_while_stmt {self : parser_fns} (h : fns_sticky self) :
    sticky (parse_while_stmt self) := by
  unfold parse_while_stmt
  with_reducible refine sticky_bind ?_ (fun _ => ?_)
  with_reducible exact sticky_current_token
  with_reducible refine sticky_bind ?_ (fun _ => ?_)
  with_reducible exact sticky_assert_that _ _
  with_reducible exact sticky_ADVANCE_OR_ERROR _ _ _

theorem sticky_parse_for_stmt {self : parser_fns} (h : fns_sticky self) :
    sticky (parse_for_stmt self) := by
  unfold parse_for_stmt for_in_of for_c_style
  with_reducible refine sticky_bind ?_ (fun _ => ?_)
  with_reducible exact sticky_current_token
  with_reducible refine sticky_bind ?_ (fun _ => ?_)
  with_reducible exact sticky_assert_that _ _
  with_reducible exact sticky_ADVANCE_OR_ERROR _ _ _

theorem sticky_parse_switch_stmt {self : parser_fns} (h : fns_sticky self) :
    sticky (parse_switch_stmt self) := by
  unfold parse_switch_stmt
  with_reducible refine sticky_bind ?_ (fun _ => ?_)
  with_reducible exact sticky_current_token
  with_reducible refine sticky_bind ?_ (fun _ => ?_)
  with_reducible exact sticky_assert_that _ _
  with_reducible exact sticky_ADVANCE_OR_ERROR _ _ _

theorem sticky_switch_clauses_loop {self : parser_fns} (h : fns_sticky self) (loc : source_location) (value : Node) (hasDefault : Bool) (clauses : List Node) :
    sticky (switch_clauses_loop self loc value hasDefault clauses) := by
  unfold switch_clauses_loop
  with_reducible refine sticky_EXPECT_SEVERAL _ _ ?_
  with_reducible refine sticky_bind ?_ (fun _ => ?_)
  with_reducible exact sticky_current_token
  with_reducible refine sticky_ite ?_ ?_
  with_reducible exact sticky_pure _
  with_reducible refine sticky_ite ?_ ?_
  with_reducible refine sticky_ite ?_ ?_
  with_reducible refine sticky_bind ?_ (fun _ => ?_)
  with_reducible exact sticky_set_error _ _
  with_reducible exact sticky_pure _
  with_reducible exact sticky_ADVANCE_OR_ERROR _ _ _
  with_reducible refine sticky_ite ?_ ?_
  with_reducible exact sticky_ADVANCE_OR_ERROR _ _ _
  with_reducible refine sticky_bind ?_ (fun _ => ?_)
  with_reducible exact sticky_set_error _ _
  with_reducible exact sticky_pure _

theorem sticky_switch_stmts_loop {self : parser_fns} (h : fns_sticky self) (loc : source_location) (value : Node) (hasDefault : Bool) (clauses : List Node) (clause : Node) :
    sticky (switch_stmts_loop self loc value hasDefault clauses clause) := by
  unfold switch_stmts_loop
  with_reducible refine sticky_bind ?_ (fun _ => ?_)
  with_reducible exact sticky_current_token
  with_reducible refine sticky_ite ?_ ?_
  with_reducible exact h.switch_clauses_loop _ _ _ _
  with_reducible refine sticky_SUBPARSE _ _ ?_
  with_reducible exact h.parse_statement

theorem sticky_parse_return_stmt {self : parser_fns} (h : fns_sticky self) :
    sticky (parse_return_stmt self) := by
  unfold parse_return_stmt
  with_reducible refine sticky_bind ?_ (fun _ => ?_)
  with_reducible exact sticky_current_token
  with_reducible refine sticky_bind ?_ (fun _ => ?_)
  with_reducible exact sticky_assert_that _ _
  with_reducible refine sticky_bind ?_ (fun _ => ?_)
  with_reducible exact sticky_advance
  with_reducible refine sticky_bind ?_ (fun _ => ?_)
  with_reducible exact sticky_current_token
  with_reducible refine sticky_ite ?_ ?_
  with_reducible refine sticky_SUBPARSE _ _ ?_
  with_reducible exact h.parse_expression _
  with_reducible exact sticky_pure _

theorem sticky_parse_throw_stmt {self : parser_fns} (h : fns_sticky self) :
    sticky (parse_throw_stmt self) := by
  unfold parse_throw_stmt
  with_reducible refine sticky_bind ?_ (fun _ => ?_)
  with_reducible exact sticky_current_token
  with_reducible refine sticky_bind ?_ (fun _ => ?_)
  with_reducible exact sticky_assert_that _ _
  with_reducible exact sticky_ADVANCE_OR_ERROR _ _ _

theorem sticky_parse_try_stmt {self : parser_fns} (h : fns_sticky self) :
    sticky (parse_try_stmt self) := by
  unfold parse_try_stmt try_finally
  with_reducible refine sticky_bind ?_ (fun _ => ?_)
  with_reducible exact sticky_current_token
  with_reducible refine sticky_bind ?_ (fun _ => ?_)
  with_reducible exact sticky_assert_that _ _
  with_reducible exact sticky_ADVANCE_OR_ERROR _ _ _

theorem sticky_parse_expression {self : parser_fns} (h : fns_sticky self) (comma_is_operator : Bool) :
    sticky (parse_expression self comma_is_operator) := by
  unfold parse_expression
  with_reducible refine sticky_bind ?_ (fun _ => ?_)
  with_reducible exact h.parse_unary_or_atomic_expr
  with_reducible refine sticky_ite ?_ ?_
  with_reducible refine sticky_bind ?_ (fun _ => ?_)
  with_reducible exact sticky_current_token
  with_reducible refine sticky_bind ?_ (fun _ => ?_)
  with_reducible exact sticky_advance
  with_reducible refine sticky_ite ?_ ?_
  with_reducible exact sticky_pure _
  with_reducible refine sticky_bind ?_ (fun _ => ?_)
  with_reducible exact sticky_current_token
  with_reducible refine sticky_ite ?_ ?_
  with_reducible refine sticky_bind ?_ (fun _ => ?_)
  with_reducible exact sticky_rewind _
  with_reducible exact sticky_pure _
  with_reducible refine sticky_ite ?_ ?_
  with_reducible exact h.parse_bin_op _ _
  with_reducible refine sticky_bind ?_ (fun _ => ?_)
  with_reducible exact sticky_rewind _
  with_reducible exact sticky_pure _
  with_reducible refine sticky_bind ?_ (fun _ => ?_)
  with_reducible exact sticky_has_error
  with_reducible refine sticky_ite ?_ ?_
  with_reducible exact sticky_pure _
  with_reducible refine sticky_bind ?_ (fun _ => ?_)
  with_reducible exact sticky_current_token
  with_reducible refine sticky_bind ?_ (fun _ => ?_)
  with_reducible exact sticky_set_error _ _
  with_reducible exact sticky_pure _

theorem sticky_parse_unary_or_atomic_expr {self : parser_fns} (h : fns_sticky self) :
    sticky (parse_unary_or_atomic_expr self) := by
  unfold parse_unary_or_atomic_expr
  with_reducible refine sticky_bind ?_ (fun _ => ?_)
  with_reducible exact sticky_current_token
  with_reducible refine sticky_ite ?_ ?_
  with_reducible exact sticky_ADVANCE_OR_ERROR _ _ _
  with_reducible refine sticky_bind ?_ (fun _ => ?_)
  with_reducible exact h.parse_atomic_expr
  with_reducible exact sticky_ASSERT_PARSE_RESULT _ _

theorem sticky_atomic_postfix_loop {self : parser_fns} (h : fns_sticky self) (expr : Node) :
    sticky (atomic_postfix_loop self expr) := by
  unfold atomic_postfix_loop
  with_reducible refine sticky_bind ?_ (fun _ => ?_)
  with_reducible exact sticky_current_token
  with_reducible refine sticky_bind ?_ (fun _ => ?_)
  with_reducible exact sticky_advance
  with_reducible refine sticky_ite ?_ ?_
  with_reducible refine sticky_bind ?_ (fun _ => ?_)
  with_reducible exact sticky_current_token
  with_reducible refine sticky_ite ?_ ?_
  with_reducible refine sticky_bind ?_ (fun _ => ?_)
  with_reducible exact sticky_parse_member_access _
  with_reducible exact h.atomic_postfix_loop _
  with_reducible refine sticky_ite ?_ ?_
  with_reducible refine sticky_bind ?_ (fun _ => ?_)
  with_reducible exact h.parse_call _
  with_reducible exact h.atomic_postfix_loop _
  with_reducible refine sticky_ite ?_ ?_
  with_reducible refine sticky_bind ?_ (fun _ => ?_)
  with_reducible exact h.parse_computed_access _
  with_reducible exact h.atomic_postfix_loop _
  with_reducible refine sticky_bind ?_ (fun _ => ?_)
  with_reducible exact sticky_rewind _
  with_reducible exact sticky_pure _
  with_reducible exact sticky_pure _

theorem sticky_parse_atomic_expr {self : parser_fns} (h : fns_sticky self) :
    sticky (parse_atomic_expr self) := by
  unfold parse_atomic_expr atomic_start
  with_reducible refine sticky_bind ?_ (fun _ => ?_)
  with_reducible refine sticky_bind ?_ (fun _ => ?_)
  with_reducible exact sticky_current_token
  with_reducible refine sticky_ite ?_ ?_
  with_reducible exact h.parse_atomic_keyword_expr
  with_reducible refine sticky_ite ?_ ?_
  with_reducible exact sticky_pure _
  with_reducible refine sticky_ite ?_ ?_
  with_reducible exact sticky_parse_number_literal
  with_reducible refine sticky_ite ?_ ?_
  with_reducible exact sticky_parse_string_literal
  with_reducible refine sticky_ite ?_ ?_
  with_reducible exact h.parse_template_literal
  with_reducible refine sticky_ite ?_ ?_
  with_reducible exact sticky_pure _
  with_reducible refine sticky_ite ?_ ?_
  with_reducible exact h.parse_array_literal
  with_reducible refine sticky_ite ?_ ?_
  with_reducible exact h.parse_object_literal
  with_reducible refine sticky_ite ?_ ?_
  with_reducible exact h.parse_parens_expr
  with_reducible exact sticky_pure _
  with_reducible refine sticky_ite ?_ ?_
  with_reducible refine sticky_bind ?_ (fun _ => ?_)
  with_reducible exact sticky_has_error
  with_reducible refine sticky_ite ?_ ?_
  with_reducible refine sticky_bind ?_ (fun _ => ?_)
  with_reducible exact sticky_current_token
  with_reducible refine sticky_bind ?_ (fun _ => ?_)
  with_reducible exact sticky_set_error _ _
  with_reducible exact sticky_pure _
  with_reducible exact sticky_pure _
  with_reducible refine sticky_bind ?_ (fun _ => ?_)
  with_reducible exact h.atomic_postfix_loop _
  with_reducible exact sticky_atomic_postfix_step _

theorem sticky_parens_list_loop {self : parser_fns} (h : fns_sticky self) (loc : source_location) (reason_no_paramlist : Option token) (exprs : List Node) :
    sticky (parens_list_loop self loc reason_no_paramlist exprs) := by
  unfold parens_list_loop parens_tail parens_arrow
  with_reducible refine sticky_bind ?_ (fun _ => ?_)
  with_reducible exact sticky_current_token
  with_reducible refine sticky_ite ?_ ?_
  with_reducible exact sticky_ADVANCE_OR_ERROR _ _ _
  with_reducible refine sticky_SUBPARSE _ _ ?_
  with_reducible exact h.parse_expression _

theorem sticky_parse_parens_expr {self : parser_fns} (h : fns_sticky self) :
    sticky (parse_parens_expr self) := by
  unfold parse_parens_expr parens_tail parens_arrow
  with_reducible refine sticky_bind ?_ (fun _ => ?_)
  with_reducible exact sticky_current_token
  with_reducible refine sticky_bind ?_ (fun _ => ?_)
  with_reducible exact sticky_assert_that _ _
  with_reducible exact sticky_ADVANCE_OR_ERROR _ _ _

theorem sticky_parse_bin_op (ops : operators_def) {self : parser_fns} (h : fns_sticky self) (lhs : Node) (comma_is_operator : Bool) :
    sticky (parse_bin_op ops self lhs comma_is_operator) := by
  unfold parse_bin_op bin_op_tail
  with_reducible refine sticky_bind ?_ (fun _ => ?_)
  with_reducible exact sticky_current_token
  with_reducible refine sticky_bind ?_ (fun _ => ?_)
  with_reducible exact sticky_assert_that _ _
  with_reducible exact sticky_ADVANCE_OR_ERROR _ _ _

theorem sticky_parse_atomic_keyword_expr {self : parser_fns} (h : fns_sticky self) :
    sticky (parse_atomic_keyword_expr self) := by
  unfold parse_atomic_keyword_expr
  with_reducible refine sticky_EXPECT _ _ ?_
  with_reducible refine sticky_bind ?_ (fun _ => ?_)
  with_reducible exact sticky_current_token
  with_reducible refine sticky_ite ?_ ?_
  with_reducible exact sticky_parse_class_expr
  with_reducible refine sticky_ite ?_ ?_
  with_reducible exact h.parse_function_expr
  with_reducible refine sticky_ite ?_ ?_
  with_reducible exact h.parse_new_keyword
  with_reducible refine sticky_bind ?_ (fun _ => ?_)
  with_reducible exact sticky_set_error _ _
  with_reducible exact sticky_pure _

theorem sticky_parse_new_keyword {self : parser_fns} (h : fns_sticky self) :
    sticky (parse_new_keyword self) := by
  unfold parse_new_keyword
  with_reducible refine sticky_bind ?_ (fun _ => ?_)
  with_reducible exact sticky_current_token
  with_reducible refine sticky_bind ?_ (fun _ => ?_)
  with_reducible exact sticky_assert_that _ _
  with_reducible exact sticky_ADVANCE_OR_ERROR _ _ _

theorem sticky_template_loop {self : parser_fns} (h : fns_sticky self) (loc : source_location) (strs : List String) (exprs : List Node) :
    sticky (template_loop self loc strs exprs) := by
  unfold template_loop
  with_reducible exact sticky_ADVANCE_OR_ERROR _ _ _

theorem sticky_parse_template_literal {self : parser_fns} (h : fns_sticky self) :
    sticky (parse_template_literal self) := by
  unfold parse_template_literal
  with_reducible refine sticky_bind ?_ (fun _ => ?_)
  with_reducible exact sticky_current_token
  with_reducible refine sticky_bind ?_ (fun _ => ?_)
  with_reducible exact sticky_assert_that _ _
  with_reducible exact h.template_loop _ _ _

theorem sticky_parse_function_stmt {self : parser_fns} (h : fns_sticky self) :
    sticky (parse_function_stmt self) := by
  unfold parse_function_stmt
  with_reducible refine sticky_bind ?_ (fun _ => ?_)
  with_reducible exact sticky_current_token
  with_reducible refine sticky_bind ?_ (fun _ => ?_)
  with_reducible exact sticky_assert_that _ _
  with_reducible exact sticky_ADVANCE_OR_ERROR _ _ _

theorem sticky_parse_function_expr {self : parser_fns} (h : fns_sticky self) :
    sticky (parse_function_expr self) := by
  unfold parse_function_expr function_expr_tail
  with_reducible refine sticky_bind ?_ (fun _ => ?_)
  with_reducible exact sticky_current_token
  with_reducible refine sticky_bind ?_ (fun _ => ?_)
  with_reducible exact sticky_assert_that _ _
  with_reducible exact sticky_ADVANCE_OR_ERROR _ _ _

theorem sticky_param_list_loop {self : parser_fns} (h : fns_sticky self) (loc : source_location) (names : List String) :
    sticky (param_list_loop self loc names) := by
  unfold param_list_loop
  with_reducible exact sticky_ADVANCE_OR_ERROR _ _ _

theorem sticky_parse_param_list {self : parser_fns} (h : fns_sticky self) :
    sticky (parse_param_list self) := by
  unfold parse_param_list
  with_reducible refine sticky_bind ?_ (fun _ => ?_)
  with_reducible exact sticky_current_token
  with_reducible refine sticky_bind ?_ (fun _ => ?_)
  with_reducible exact sticky_assert_that _ _
  with_reducible exact h.param_list_loop _ _

theorem sticky_block_loop {self : parser_fns} (h : fns_sticky self) (loc : source_location) (stmts : List Node) :
    sticky (block_loop self loc stmts) := by
  unfold block_loop
  with_reducible refine sticky_bind ?_ (fun _ => ?_)
  with_reducible exact sticky_current_token
  with_reducible refine sticky_ite ?_ ?_
  with_reducible refine sticky_bind ?_ (fun _ => ?_)
  with_reducible exact sticky_assert_that _ _
  with_reducible refine sticky_bind ?_ (fun _ => ?_)
  with_reducible exact h.parse_statement
  with_reducible exact sticky_ADVANCE_OR_ERROR _ _ _
  with_reducible exact sticky_pure _

theorem sticky_parse_block {self : parser_fns} (h : fns_sticky self) :
    sticky (parse_block self) := by
  unfold parse_block
  with_reducible refine sticky_EXPECT _ _ ?_
  with_reducible refine sticky_bind ?_ (fun _ => ?_)
  with_reducible exact sticky_current_token
  with_reducible exact sticky_ADVANCE_OR_ERROR _ _ _

theorem sticky_var_decl_loop {self : parser_fns} (h : fns_sticky self) (loc : source_location) (keyword : String) (parts : List Node) :
    sticky (var_decl_loop self loc keyword parts) := by
  unfold var_decl_loop
  with_reducible refine sticky_bind ?_ (fun _ => ?_)
  with_reducible exact sticky_current_token
  with_reducible refine sticky_bind ?_ (fun _ => ?_)
  with_reducible exact sticky_advance
  with_reducible refine sticky_ite ?_ ?_
  with_reducible refine sticky_bind ?_ (fun _ => ?_)
  with_reducible exact sticky_current_token
  with_reducible refine sticky_ite ?_ ?_
  with_reducible exact sticky_ADVANCE_OR_ERROR _ _ _
  with_reducible refine sticky_ite ?_ ?_
  with_reducible exact sticky_ADVANCE_OR_ERROR _ _ _
  with_reducible refine sticky_bind ?_ (fun _ => ?_)
  with_reducible exact sticky_rewind _
  with_reducible exact sticky_pure _
  with_reducible exact sticky_pure _

theorem sticky_parse_var_decl {self : parser_fns} (h : fns_sticky self) :
    sticky (parse_var_decl self) := by
  unfold parse_var_decl
  with_reducible refine sticky_bind ?_ (fun _ => ?_)
  with_reducible exact sticky_current_token
  with_reducible refine sticky_bind ?_ (fun _ => ?_)
  with_reducible exact sticky_assert_that _ _
  with_reducible exact sticky_ADVANCE_OR_ERROR _ _ _

theorem sticky_array_loop {self : parser_fns} (h : fns_sticky self) (loc : source_location) (values : List Node) :
    sticky (array_loop self loc values) := by
  unfold array_loop array_entry_end
  with_reducible refine sticky_bind ?_ (fun _ => ?_)
  with_reducible exact sticky_current_token
  with_reducible refine sticky_ite ?_ ?_
  with_reducible exact sticky_ADVANCE_OR_ERROR _ _ _
  with_reducible refine sticky_bind ?_ (fun _ => ?_)
  with_reducible exact h.parse_expression _
  with_reducible exact sticky_ADVANCE_OR_ERROR _ _ _

theorem sticky_parse_array_literal {self : parser_fns} (h : fns_sticky self) :
    sticky (parse_array_literal self) := by
  unfold parse_array_literal
  with_reducible refine sticky_bind ?_ (fun _ => ?_)
  with_reducible exact sticky_current_token
  with_reducible refine sticky_bind ?_ (fun _ => ?_)
  with_reducible exact sticky_assert_that _ _
  with_reducible exact sticky_ADVANCE_OR_ERROR _ _ _

theorem sticky_object_loop {self : parser_fns} (h : fns_sticky self) (loc : source_location) (entries : List Node) :
    sticky (object_loop self loc entries) := by
  unfold object_loop object_entry_end
  with_reducible refine sticky_bind ?_ (fun _ => ?_)
  with_reducible exact sticky_current_token
  with_reducible refine sticky_ite ?_ ?_
  with_reducible refine sticky_EXPECT _ _ ?_
  with_reducible exact sticky_pure _
  with_reducible refine sticky_ite ?_ ?_
  with_reducible exact sticky_ADVANCE_OR_ERROR _ _ _
  with_reducible refine sticky_ite ?_ ?_
  with_reducible exact sticky_ADVANCE_OR_ERROR _ _ _
  with_reducible refine sticky_bind ?_ (fun _ => ?_)
  with_reducible exact sticky_set_error _ _
  with_reducible exact sticky_pure _

theorem sticky_parse_object_literal {self : parser_fns} (h : fns_sticky self) :
    sticky (parse_object_literal self) := by
  unfold parse_object_literal
  with_reducible refine sticky_bind ?_ (fun _ => ?_)
  with_reducible exact sticky_current_token
  with_reducible refine sticky_bind ?_ (fun _ => ?_)
  with_reducible exact sticky_assert_that _ _
  with_reducible exact sticky_ADVANCE_OR_ERROR _ _ _

theorem sticky_parse_computed_access {self : parser_fns} (h : fns_sticky self) (base : Node) :
    sticky (parse_computed_access self base) := by
  unfold parse_computed_access
  with_reducible refine sticky_bind ?_ (fun _ => ?_)
  with_reducible exact sticky_current_token
  with_reducible refine sticky_bind ?_ (fun _ => ?_)
  with_reducible exact sticky_assert_that _ _
  with_reducible exact sticky_ADVANCE_OR_ERROR _ _ _

theorem sticky_call_loop {self : parser_fns} (h : fns_sticky self) (loc : source_location) (callee : Node) (values : List Node) :
    sticky (call_loop self loc callee values) := by
  unfold call_loop
  with_reducible refine sticky_SUBPARSE _ _ ?_
  with_reducible exact h.parse_expression _

theorem sticky_parse_call {self : parser_fns} (h : fns_sticky self) (callee : Node) :
    sticky (parse_call self callee) := by
  unfold parse_call
  with_reducible refine sticky_bind ?_ (fun _ => ?_)
  with_reducible exact sticky_current_token
  with_reducible refine sticky_bind ?_ (fun _ => ?_)
  with_reducible exact sticky_assert_that _ _
  with_reducible exact sticky_ADVANCE_OR_ERROR _ _ _

theorem sticky_parse_block_or_obj {self : parser_fns} (h : fns_sticky self) (_prefer_block_over_obj : Bool) :
    sticky (parse_block_or_obj self _prefer_block_over_obj) := by
  unfold parse_block_or_obj
  with_reducible refine sticky_EXPECT _ _ ?_
  with_reducible exact h.parse_block

theorem parsers_sticky (ops : operators_def) : ∀ fuel, fns_sticky (parsers ops fuel)
  | 0 => by
    constructor <;> intros <;> exact sticky_out_of_fuel
  | fuel + 1 =>
    { parse_statement := sticky_parse_statement (parsers_sticky ops fuel)
      parse_keyword_stmt := sticky_parse_keyword_stmt (parsers_sticky ops fuel)
      parse_keyword_expr := sticky_parse_keyword_expr (parsers_sticky ops fuel)
      parse_if_stmt := sticky_parse_if_stmt (parsers_sticky ops fuel)
      parse_do_while := sticky_parse_do_while (parsers_sticky ops fuel)
      parse_while_stmt := sticky_parse_while_stmt (parsers_sticky ops fuel)
      parse_for_stmt := sticky_parse_for_stmt (parsers_sticky ops fuel)
      parse_switch_stmt := sticky_parse_switch_stmt (parsers_sticky ops fuel)
      switch_clauses_loop := fun x0 x1 x2 x3 => sticky_switch_clauses_loop (parsers_sticky ops fuel) x0 x1 x2 x3
      switch_stmts_loop := fun x0 x1 x2 x3 x4 => sticky_switch_stmts_loop (parsers_sticky ops fuel) x0 x1 x2 x3 x4
      parse_return_stmt := sticky_parse_return_stmt (parsers_sticky ops fuel)
      parse_throw_stmt := sticky_parse_throw_stmt (parsers_sticky ops fuel)
      parse_try_stmt := sticky_parse_try_stmt (parsers_sticky ops fuel)
      parse_expression := fun x0 => sticky_parse_expression (parsers_sticky ops fuel) x0
      parse_unary_or_atomic_expr := sticky_parse_unary_or_atomic_expr (parsers_sticky ops fuel)
      parse_atomic_expr := sticky_parse_atomic_expr (parsers_sticky ops fuel)
      atomic_postfix_loop := fun x0 => sticky_atomic_postfix_loop (parsers_sticky ops fuel) x0
      parse_parens_expr := sticky_parse_parens_expr (parsers_sticky ops fuel)
      parens_list_loop := fun x0 x1 x2 => sticky_parens_list_loop (parsers_sticky ops fuel) x0 x1 x2
      parse_bin_op := fun x0 x1 => sticky_parse_bin_op ops (parsers_sticky ops fuel) x0 x1
      parse_atomic_keyword_expr := sticky_parse_atomic_keyword_expr (parsers_sticky ops fuel)
      parse_new_keyword := sticky_parse_new_keyword (parsers_sticky ops fuel)
      parse_template_literal := sticky_parse_template_literal (parsers_sticky ops fuel)
      template_loop := fun x0 x1 x2 => sticky_template_loop (parsers_sticky ops fuel) x0 x1 x2
      parse_function_stmt := sticky_parse_function_stmt (parsers_sticky ops fuel)
      parse_function_expr := sticky_parse_function_expr (parsers_sticky ops fuel)
      parse_param_list := sticky_parse_param_list (parsers_sticky ops fuel)
      param_list_loop := fun x0 x1 => sticky_param_list_loop (parsers_sticky ops fuel) x0 x1
      parse_block := sticky_parse_block (parsers_sticky ops fuel)
      block_loop := fun x0 x1 => sticky_block_loop (parsers_sticky ops fuel) x0 x1
      parse_var_decl := sticky_parse_var_decl (parsers_sticky ops fuel)
      var_decl_loop := fun x0 x1 x2 => sticky_var_decl_loop (parsers_sticky ops fuel) x0 x1 x2
      parse_array_literal := sticky_parse_array_literal (parsers_sticky ops fuel)
      array_loop := fun x0 x1 => sticky_array_loop (parsers_sticky ops fuel) x0 x1
      parse_object_literal := sticky_parse_object_literal (parsers_sticky ops fuel)
      object_loop := fun x0 x1 => sticky_object_loop (parsers_sticky ops fuel) x0 x1
      parse_computed_access := fun x0 => sticky_parse_computed_access (parsers_sticky ops fuel) x0
      parse_call := fun x0 => sticky_parse_call (parsers_sticky ops fuel) x0
      call_loop := fun x0 x1 x2 => sticky_call_loop (parsers_sticky ops fuel) x0 x1 x2
      parse_block_or_obj := fun x0 => sticky_parse_block_or_obj (parsers_sticky ops fuel) x0 }

theorem longer_check {X : List lexer_result} {s t : parser_base} (h : longer X s t)
    (c : Bool) (v : violation) : longer X (s.check c v) (t.check c v) := by
  unfold parser_base.check
  split
  · exact h
  · exact ⟨h.cur_eq, h.err_eq, h.feed_eq, h.clean_feed, h.cur_ok⟩

theorem keeps_pure {w : Bool} {X : List lexer_result} {a : Node} {s t : parser_base}
    (h : longer X s t) : keeps w X (pure a) (pure a) s t := by
  intro b s' hr _
  cases hr
  exact Or.inr ⟨t, rfl, h⟩

theorem keeps_drained {w : Bool} {X : List lexer_result} {m m2 : P Node} {s t : parser_base}
    (hx : X ≠ []) (h : drained w m s) : keeps w X m m2 s t :=
  fun a s' hr he => Or.inl ⟨(h a s' hr he).1, hx, (h a s' hr he).2⟩

theorem keeps_weaken {X : List lexer_result} {m m2 : P Node} {s t : parser_base}
    (h : keeps false X m m2 s t) (w : Bool) : keeps w X m m2 s t := by
  intro a s' hr he
  rcases h a s' hr he with h1 | h1
  · exact absurd h1.1 (by decide)
  · exact Or.inr h1

theorem keeps_call {w wc : Bool} {X : List lexer_result} {m m2 : P Node} {s t : parser_base}
    (h : keeps wc X m m2 s t) (hw : wc = true → w = true) : keeps w X m m2 s t := by
  intro a s' hr he
  rcases h a s' hr he with h1 | h1
  · exact Or.inl ⟨hw h1.1, h1.2⟩
  · exact Or.inr h1

theorem keeps_nil {w : Bool} {m m2 : P Node} {s t : parser_base}
    (h : keeps w [] m m2 s t) {a : Node} {s' : parser_base} (hr : m s = some (a, s'))
    (he : s'.error = none) : ∃ t', m2 t = some (a, t') ∧ longer [] s' t' := by
  rcases h a s' hr he with h1 | h1
  · exact absurd rfl h1.2.1
  · exact h1

theorem keeps_bind_pure {w : Bool} {X : List lexer_result} {α : Type} {a : α}
    {k k2 : α → P Node} {s t : parser_base} (h : keeps w X (k a) (k2 a) s t) :
    keeps w X ((pure a : P α) >>= k) ((pure a : P α) >>= k2) s t := h

theorem keeps_bind_current_token {w : Bool} {X : List lexer_result} {k k2 : token → P Node}
    {s t : parser_base} (h : longer X s t)
    (hk : keeps w X (k s.current_token) (k2 s.current_token) s t) :
    keeps w X (current_token >>= k) (current_token >>= k2) s t := by
  intro a s' hr he
  have e : (current_token >>= k2) t = k2 s.current_token t := by
    rw [← h.cur_eq]
    rfl
  rw [e]
  exact hk a s' hr he

theorem keeps_bind_has_error {w : Bool} {X : List lexer_result} {k k2 : Bool → P Node}
    {s t : parser_base} (h : longer X s t)
    (hk : keeps w X (k s.error.isSome) (k2 s.error.isSome) s t) :
    keeps w X (has_error >>= k) (has_error >>= k2) s t := by
  intro a s' hr he
  have e : (has_error >>= k2) t = k2 s.error.isSome t := by
    rw [← h.err_eq]
    rfl
  rw [e]
  exact hk a s' hr he

theorem keeps_bind_assert_that {w : Bool} {X : List lexer_result} {c : Prop} [Decidable c]
    {v : violation} {k k2 : Unit → P Node} {s t : parser_base} (h : longer X s t)
    (hk : ∀ s1 t1, longer X s1 t1 → s1.current_token = s.current_token →
      keeps w X (k ()) (k2 ()) s1 t1) :
    keeps w X (assert_that c v >>= k) (assert_that c v >>= k2) s t :=
  hk _ _ (longer_check h _ _) (by unfold parser_base.check; split <;> rfl)

theorem keeps_set_error_pure {w : Bool} {X : List lexer_result} {msg : String}
    {loc : source_location} {a : Node} {m2 : P Node} {s t : parser_base} :
    keeps w X (set_error msg loc >>= fun _ => pure a) m2 s t := by
  intro b s' hr he
  cases hr
  cases he

theorem keeps_bind_rewind {w : Bool} {X : List lexer_result} {prev : token}
    {k k2 : Unit → P Node} {s t : parser_base} (h : longer X s t) (hp : clean_tok prev)
    (hk : ∀ s1 t1, longer X s1 t1 → keeps w X (k ()) (k2 ()) s1 t1) :
    keeps w X (rewind prev >>= k) (rewind prev >>= k2) s t := by
  intro a s' hr he
  have e1 := rewind_ok prev s ⟨hp.2, hp.1⟩
  have e2 := rewind_ok prev t ⟨hp.2, hp.1⟩
  simp only [P_bind_apply, e1, Option.some_bind] at hr
  simp only [P_bind_apply, e2, Option.some_bind]
  refine hk { s with rewind_stack := s.current_token :: s.rewind_stack, current_token := prev }
    { t with rewind_stack := t.current_token :: t.rewind_stack, current_token := prev }
    ⟨rfl, h.err_eq, ?_, ?_, hp⟩ a s' hr he
  · show feed _ = feed _ ++ X
    simp only [feed, List.map_cons, List.cons_append, List.cons.injEq]
    exact ⟨by rw [h.cur_eq], h.feed_eq⟩
  · show clean (feed _)
    simp only [feed, List.map_cons, List.cons_append]
    exact clean_cons h.cur_ok h.clean_feed

theorem keeps_bind_advance {w : Bool} {X : List lexer_result} {k k2 : Bool → P Node}
    {s t : parser_base} (h : longer X s t) (hX : tail_ok X)
    (ht : ∀ s1 t1, longer X s1 t1 → keeps w X (k true) (k2 true) s1 t1)
    (hf : X = [] → feed s = [] → keeps w X (k false) (k2 false) s t)
    (hd : ∀ t1, handed X s t1 → keeps w X (k false) (k2 true) s t1) :
    keeps w X (advance >>= k) (advance >>= k2) s t := by
  intro a s' hr he
  obtain ⟨b, s1, ha⟩ := advance_total s
  simp only [P_bind_apply, ha, Option.some_bind] at hr
  cases b with
  | true =>
    obtain ⟨t1, e, hl⟩ := h.advance_true ha
    simp only [P_bind_apply, e, Option.some_bind]
    exact ht s1 t1 hl a s' hr he
  | false =>
    rcases hX with rfl | ⟨semi, rest, rfl, hs⟩
    · obtain ⟨e1, e2, e3⟩ := h.advance_false_nil ha
      subst e1
      simp only [P_bind_apply, e2, Option.some_bind]
      exact hf rfl e3 a s' hr he
    · obtain ⟨e1, e2, t1, e3, e4, e5, e6, e7⟩ := h.advance_false_semi hs ha
      subst e1
      simp only [P_bind_apply, e3, Option.some_bind]
      exact hd t1 ⟨by simp, e2, by rw [e4, hs], e5, _, e6, e7⟩ a s' hr he

theorem keeps_ADVANCE_OR_ERROR {w : Bool} {X : List lexer_result} {msg : String} {rv : Node}
    {k k2 : P Node} {s t : parser_base} (h : longer X s t)
    (hk : ∀ s1 t1, longer X s1 t1 → keeps w X k k2 s1 t1) :
    keeps w X (ADVANCE_OR_ERROR msg rv k) (ADVANCE_OR_ERROR msg rv k2) s t := by
  intro a s' hr he
  cases hse : s.error with
  | some e =>
    rw [ADVANCE_OR_ERROR_error msg rv k (by simp [hse])] at hr
    cases hr
    rw [hse] at he
    cases he
  | none =>
    obtain ⟨b, s1, ha⟩ := advance_total s
    cases b with
    | true =>
      rw [ADVANCE_OR_ERROR_ok msg rv k hse ha] at hr
      obtain ⟨t1, e, hl⟩ := h.advance_true ha
      rw [ADVANCE_OR_ERROR_ok msg rv k2 (by rw [h.err_eq, hse]) e]
      exact hk s1 t1 hl a s' hr he
    | false =>
      rw [ADVANCE_OR_ERROR_eof msg rv k hse ha] at hr
      cases hr
      cases he

theorem keeps_EXPECT_SEVERAL {w : Bool} {X : List lexer_result} {types : List token_type}
    {rv : Node} {k k2 : P Node} {s t : parser_base} (h : longer X s t)
    (hk : keeps w X k k2 s t) :
    keeps w X (EXPECT_SEVERAL types rv k) (EXPECT_SEVERAL types rv k2) s t := by
  intro a s' hr he
  by_cases hc : s.current_token.type ∈ types
  · rw [EXPECT_SEVERAL_ok types rv k hc] at hr
    rw [EXPECT_SEVERAL_ok types rv k2 (by rw [h.cur_eq]; exact hc)]
    exact hk a s' hr he
  · rw [EXPECT_SEVERAL_fail types rv k hc] at hr
    cases hr
    cases he

theorem keeps_EXPECT {w : Bool} {X : List lexer_result} {type : token_type}
    {rv : Node} {k k2 : P Node} {s t : parser_base} (h : longer X s t)
    (hk : keeps w X k k2 s t) :
    keeps w X (EXPECT type rv k) (EXPECT type rv k2) s t :=
  keeps_EXPECT_SEVERAL h hk

theorem keeps_ASSERT_PARSE_RESULT {w : Bool} {X : List lexer_result} {v : Node}
    {k k2 : P Node} {s t : parser_base} (h : longer X s t)
    (hk : v.isNull = false → s.error = none → keeps w X k k2 s t) :
    keeps w X (ASSERT_PARSE_RESULT v k) (ASSERT_PARSE_RESULT v k2) s t := by
  intro a s' hr he
  cases hse : s.error with
  | some e =>
    have : ASSERT_PARSE_RESULT v k s = some (.null, s.check (decide (True ∧ v.isNull = true))
        .assert_parse_result) := by
      simp [ASSERT_PARSE_RESULT, has_error, hse, assert_that]
    rw [this] at hr
    cases hr
    have : (s.check (decide (True ∧ v.isNull = true)) .assert_parse_result).error = s.error := by
      unfold parser_base.check
      split <;> rfl
    rw [this, hse] at he
    cases he
  | none =>
    cases hv : v.isNull with
    | false =>
      rw [ASSERT_PARSE_RESULT_ok v k hse hv] at hr
      rw [ASSERT_PARSE_RESULT_ok v k2 (by rw [h.err_eq, hse]) hv]
      exact hk hv hse a s' hr he
    | true =>
      have e1 : ASSERT_PARSE_RESULT v k s = some (.null, s.check false
          .assert_parse_result) := by
        simp [ASSERT_PARSE_RESULT, has_error, hse, hv, assert_that]
      have e2 : ASSERT_PARSE_RESULT v k2 t = some (.null, t.check false
          .assert_parse_result) := by
        simp [ASSERT_PARSE_RESULT, has_error, h.err_eq, hse, hv, assert_that]
      rw [e1] at hr
      cases hr
      exact Or.inr ⟨_, e2, longer_check h _ _⟩

theorem keeps_bind_call {w wc : Bool} {X : List lexer_result} {m : P Node}
    {k k2 : Node → P Node} {s t : parser_base}
    (hm : keeps wc X m m s t) (hs : ∀ a, sticky (k a))
    (hwc : wc = true → ∀ a s1, pending s1 = 0 → a.isNull = false → s1.error = none →
      drained w (k a) s1)
    (hk : ∀ a s1 t1, longer X s1 t1 → keeps w X (k a) (k2 a) s1 t1) :
    keeps w X (m >>= k) (m >>= k2) s t := by
  intro a s' hr he
  cases hms : m s with
  | none => simp [hms] at hr
  | some r =>
    obtain ⟨v, s1⟩ := r
    simp only [P_bind_apply, hms, Option.some_bind] at hr
    have he1 : s1.error = none := by
      cases hse : s1.error with
      | none => rfl
      | some e =>
        have := hs v s1 a s' hr (by simp [hse])
        rw [he] at this
        cases this
    rcases hm v s1 hms he1 with h1 | ⟨t1, e, hl⟩
    · have := hwc h1.1 v s1 h1.2.2.1 h1.2.2.2 he1 a s' hr he
      exact Or.inl ⟨this.1, h1.2.1, this.2⟩
    · simp only [P_bind_apply, e, Option.some_bind]
      exact hk v s1 t1 hl a s' hr he

theorem keeps_SUBPARSE {w wc : Bool} {X : List lexer_result} {m : P Node}
    {k k2 : Node → P Node} {s t : parser_base}
    (hm : keeps wc X m m s t)
    (hwc : wc = true → ∀ a s1, pending s1 = 0 → a.isNull = false → s1.error = none →
      drained w (k a) s1)
    (hk : ∀ a s1 t1, longer X s1 t1 → keeps w X (k a) (k2 a) s1 t1) :
    keeps w X (SUBPARSE m k) (SUBPARSE m k2) s t := by
  intro a s' hr he
  cases hms : m s with
  | none => simp [SUBPARSE, hms] at hr
  | some r =>
    obtain ⟨v, s1⟩ := r
    simp only [SUBPARSE, P_bind_apply, hms, Option.some_bind] at hr
    cases hse : s1.error with
    | some e =>
      have : ASSERT_PARSE_RESULT v (k v) s1 = some (.null,
          s1.check (decide (True ∧ v.isNull = true)) .assert_parse_result) := by
        simp [ASSERT_PARSE_RESULT, has_error, hse, assert_that]
      rw [this] at hr
      cases hr
      have : (s1.check (decide (True ∧ v.isNull = true)) .assert_parse_result).error =
          s1.error := by
        unfold parser_base.check
        split <;> rfl
      rw [this, hse] at he
      cases he
    | none =>
      rcases hm v s1 hms hse with h1 | ⟨t1, e, hl⟩
      · rw [ASSERT_PARSE_RESULT_ok v (k v) hse h1.2.2.2] at hr
        have := hwc h1.1 v s1 h1.2.2.1 h1.2.2.2 hse a s' hr he
        exact Or.inl ⟨this.1, h1.2.1, this.2⟩
      · simp only [SUBPARSE, P_bind_apply, e, Option.some_bind]
        exact keeps_ASSERT_PARSE_RESULT hl (fun _ _ => hk v s1 t1 hl) a s' hr he

theorem keeps_ite {w : Bool} {X : List lexer_result} {c : Prop} [Decidable c]
    {a a2 b b2 : P Node} {s t : parser_base}
    (h1 : c → keeps w X a a2 s t) (h2 : ¬ c → keeps w X b b2 s t) :
    keeps w X (if c then a else b) (if c then a2 else b2) s t := by
  split
  · exact h1 ‹_›
  · exact h2 ‹_›

theorem keeps_bind_ite {w : Bool} {X : List lexer_result} {α : Type} {c : Prop} [Decidable c]
    {a b : P α} {k k2 : α → P Node} {s t : parser_base}
    (h1 : c → keeps w X (a >>= k) (a >>= k2) s t)
    (h2 : ¬ c → keeps w X (b >>= k) (b >>= k2) s t) :
    keeps w X ((if c then a else b) >>= k) ((if c then a else b) >>= k2) s t := by
  split
  · exact h1 ‹_›
  · exact h2 ‹_›

theorem keeps_bind_assoc {w : Bool} {X : List lexer_result} {α β : Type} {m : P α}
    {f : α → P β} {k k2 : β → P Node} {s t : parser_base}
    (h : keeps w X (m >>= fun a => f a >>= k) (m >>= fun a => f a >>= k2) s t) :
    keeps w X ((m >>= f) >>= k) ((m >>= f) >>= k2) s t := by
  rw [bind_assoc, bind_assoc]
  exact h

theorem drained_pure {a : Node} {s : parser_base} (hp : pending s = 0)
    (ha : a.isNull = false) : drained true (pure a) s := by
  intro b s' hr _
  cases hr
  exact ⟨rfl, hp, ha⟩

theorem drained_ADVANCE_OR_ERROR {w : Bool} {msg : String} {rv : Node} {k : P Node}
    {s : parser_base} (hp : pending s = 0) : drained w (ADVANCE_OR_ERROR msg rv k) s := by
  intro a s' hr he
  cases hse : s.error with
  | some e =>
    rw [ADVANCE_OR_ERROR_error msg rv k (by simp [hse])] at hr
    cases hr
    rw [hse] at he
    cases he
  | none =>
    rw [ADVANCE_OR_ERROR_eof msg rv k hse (advance_feed_nil (pending_zero_feed hp))] at hr
    cases hr
    cases he

theorem drained_EXPECT_SEVERAL {w : Bool} {types : List token_type} {rv : Node} {k : P Node}
    {s : parser_base} (hk : drained w k s) : drained w (EXPECT_SEVERAL types rv k) s := by
  intro a s' hr he
  by_cases hc : s.current_token.type ∈ types
  · rw [EXPECT_SEVERAL_ok types rv k hc] at hr
    exact hk a s' hr he
  · rw [EXPECT_SEVERAL_fail types rv k hc] at hr
    cases hr
    cases he

theorem drained_EXPECT {w : Bool} {type : token_type} {rv : Node} {k : P Node}
    {s : parser_base} (hk : drained w k s) : drained w (EXPECT type rv k) s :=
  drained_EXPECT_SEVERAL hk

theorem drained_bind_current_token {w : Bool} {k : token → P Node} {s : parser_base}
    (hk : drained w (k s.current_token) s) : drained w (current_token >>= k) s := hk

theorem drained_bind_has_error {w : Bool} {k : Bool → P Node} {s : parser_base}
    (hk : drained w (k s.error.isSome) s) : drained w (has_error >>= k) s := hk

theorem drained_bind_advance {w : Bool} {k : Bool → P Node} {s : parser_base}
    (hp : pending s = 0) (hk : drained w (k false) s) : drained w (advance >>= k) s := by
  intro a s' hr he
  simp only [P_bind_apply, advance_feed_nil (pending_zero_feed hp), Option.some_bind] at hr
  exact hk a s' hr he

theorem drained_ite {w : Bool} {c : Prop} [Decidable c] {a b : P Node} {s : parser_base}
    (h1 : c → drained w a s) (h2 : ¬ c → drained w b s) :
    drained w (if c then a else b) s := by
  split
  · exact h1 ‹_›
  · exact h2 ‹_›

theorem drained_ASSERT_PARSE_RESULT {w : Bool} {v : Node} {k : P Node} {s : parser_base}
    (hk : v.isNull = false → drained w k s) (hv : v.isNull = false) :
    drained w (ASSERT_PARSE_RESULT v k) s := by
  intro a s' hr he
  cases hse : s.error with
  | some e =>
    have := sticky_ASSERT_PARSE_RESULT v k s a s' hr (by simp [hse])
    rw [he] at this
    cases this
  | none =>
    rw [ASSERT_PARSE_RESULT_ok v k hse hv] at hr
    exact hk hv a s' hr he

theorem handed_pending {X : List lexer_result} {s t : parser_base} (h : handed X s t) :
    pending s = 0 := by
  rw [pending_eq_feed, h.drained]
  rfl

/-- After the `;` was handed over: the longer run pushes it back, and the two
runs are related again. -/
theorem keeps_right_rewind_handed {w : Bool} {X : List lexer_result} {m : P Node}
    {k2 : Unit → P Node} {prev : token} {s t1 : parser_base} (hh : handed X s t1)
    (hp : prev = s.current_token)
    (hk : ∀ t2, longer X s t2 → keeps w X m (k2 ()) s t2) :
    keeps w X m (rewind prev >>= k2) s t1 := by
  subst hp
  obtain ⟨t2, e, hl⟩ := hh.back
  intro a s' hr he
  simp only [P_bind_apply, e, Option.some_bind]
  exact hk t2 hl a s' hr he

theorem keeps_right_current_token {w : Bool} {X : List lexer_result} {m : P Node}
    {k2 : token → P Node} {s t : parser_base} (_hh : handed X s t)
    (hk : keeps w X m (k2 t.current_token) s t) :
    keeps w X m (current_token >>= k2) s t := hk

theorem keeps_left_current_token {w : Bool} {X : List lexer_result} {m2 : P Node}
    {k : token → P Node} {s t : parser_base} (_hh : handed X s t)
    (hk : keeps w X (k s.current_token) m2 s t) :
    keeps w X (current_token >>= k) m2 s t := hk

theorem keeps_right_has_error {w : Bool} {X : List lexer_result} {m : P Node}
    {k2 : Bool → P Node} {s t : parser_base} (hh : handed X s t)
    (hk : keeps w X m (k2 s.error.isSome) s t) :
    keeps w X m (has_error >>= k2) s t := by
  intro a s' hr he
  have e : (has_error >>= k2) t = k2 s.error.isSome t := by
    rw [← hh.err_eq]
    rfl
  rw [e]
  exact hk a s' hr he

theorem keeps_left_has_error {w : Bool} {X : List lexer_result} {m2 : P Node}
    {k : Bool → P Node} {s t : parser_base} (_hh : handed X s t)
    (hk : keeps w X (k s.error.isSome) m2 s t) :
    keeps w X (has_error >>= k) m2 s t := hk

theorem keeps_right_ite_pos {w : Bool} {X : List lexer_result} {m : P Node} {c : Prop}
    [Decidable c] {a2 b2 : P Node} {s t : parser_base} (hh : handed X s t)
    (hc : t.current_token.type = .SEMICOLON → c) (h : keeps w X m a2 s t) :
    keeps w X m (if c then a2 else b2) s t := by
  rw [if_pos (hc hh.semi)]
  exact h

theorem keeps_right_ite_neg {w : Bool} {X : List lexer_result} {m : P Node} {c : Prop}
    [Decidable c] {a2 b2 : P Node} {s t : parser_base} (hh : handed X s t)
    (hc : t.current_token.type = .SEMICOLON → ¬ c) (h : keeps w X m b2 s t) :
    keeps w X m (if c then a2 else b2) s t := by
  rw [if_neg (hc hh.semi)]
  exact h

theorem keeps_left_ite_pos {w : Bool} {X : List lexer_result} {m2 : P Node} {c : Prop}
    [Decidable c] {a b : P Node} {s t : parser_base} (_hh : handed X s t)
    (hc : c) (h : keeps w X a m2 s t) :
    keeps w X (if c then a else b) m2 s t := by
  rw [if_pos hc]
  exact h

theorem keeps_left_ite_neg {w : Bool} {X : List lexer_result} {m2 : P Node} {c : Prop}
    [Decidable c] {a b : P Node} {s t : parser_base} (_hh : handed X s t)
    (hc : ¬ c) (h : keeps w X b m2 s t) :
    keeps w X (if c then a else b) m2 s t := by
  rw [if_neg hc]
  exact h

theorem keeps_drained_h {w : Bool} {X : List lexer_result} {m m2 : P Node} {s t : parser_base}
    (hh : handed X s t) (h : drained w m s) : keeps w X m m2 s t :=
  keeps_drained hh.tail h

theorem keeps_left_pure_bind {w : Bool} {X : List lexer_result} {α : Type} {a : α}
    {k : α → P Node} {m2 : P Node} {s t : parser_base} (_hh : handed X s t)
    (h : keeps w X (k a) m2 s t) : keeps w X ((pure a : P α) >>= k) m2 s t := h

theorem keeps_right_pure_bind {w : Bool} {X : List lexer_result} {α : Type} {a : α}
    {k2 : α → P Node} {m : P Node} {s t : parser_base} (_hh : handed X s t)
    (h : keeps w X m (k2 a) s t) : keeps w X m ((pure a : P α) >>= k2) s t := h

theorem keeps_left_bind_ite_pos {w : Bool} {X : List lexer_result} {α : Type} {m2 : P Node}
    {c : Prop} [Decidable c] {a b : P α} {k : α → P Node} {s t : parser_base}
    (_hh : handed X s t) (hc : c) (h : keeps w X (a >>= k) m2 s t) :
    keeps w X ((if c then a else b) >>= k) m2 s t := by
  rw [if_pos hc]
  exact h

theorem keeps_left_bind_ite_neg {w : Bool} {X : List lexer_result} {α : Type} {m2 : P Node}
    {c : Prop} [Decidable c] {a b : P α} {k : α → P Node} {s t : parser_base}
    (_hh : handed X s t) (hc : ¬ c) (h : keeps w X (b >>= k) m2 s t) :
    keeps w X ((if c then a else b) >>= k) m2 s t := by
  rw [if_neg hc]
  exact h

theorem keeps_right_bind_ite_pos {w : Bool} {X : List lexer_result} {α : Type} {m : P Node}
    {c : Prop} [Decidable c] {a b : P α} {k2 : α → P Node} {s t : parser_base}
    (hh : handed X s t) (hc : t.current_token.type = .SEMICOLON → c)
    (h : keeps w X m (a >>= k2) s t) :
    keeps w X m ((if c then a else b) >>= k2) s t := by
  rw [if_pos (hc hh.semi)]
  exact h

theorem keeps_right_bind_ite_neg {w : Bool} {X : List lexer_result} {α : Type} {m : P Node}
    {c : Prop} [Decidable c] {a b : P α} {k2 : α → P Node} {s t : parser_base}
    (hh : handed X s t) (hc : t.current_token.type = .SEMICOLON → ¬ c)
    (h : keeps w X m (b >>= k2) s t) :
    keeps w X m ((if c then a else b) >>= k2) s t := by
  rw [if_neg (hc hh.semi)]
  exact h

theorem drained_statement_end {stmt : Node} {s : parser_base} (hp : pending s = 0)
    (hn : stmt.isNull = false) : drained true (statement_end stmt) s := by
  unfold statement_end
  refine drained_ASSERT_PARSE_RESULT (fun _ => ?_) hn
  refine drained_bind_current_token ?_
  refine drained_bind_advance hp ?_
  refine drained_bind_has_error ?_
  refine drained_ite (fun _ => ?_) (fun _ => ?_)
  · intro a s' hr he
    cases hr
    simp_all
  · refine drained_ite (fun hc => absurd hc (by decide)) (fun _ => drained_pure hp hn)

theorem keeps_make_number_expression {X : List lexer_result} (hX : tail_ok X) (t : token) (sa sb : parser_base)
    (hl : longer X sa sb) : keeps false X (make_number_expression t) (make_number_expression t) sa sb := by
  unfold make_number_expression
  with_reducible refine keeps_bind_assert_that (by assumption) (fun _ _ _ _ => ?_)
  with_reducible refine keeps_pure (by assumption)

theorem keeps_make_unary_prefix_op {X : List lexer_result} (hX : tail_ok X) (op : token) (value : Node) (sa sb : parser_base)
    (hl : longer X sa sb) : keeps false X (make_unary_prefix_op op value) (make_unary_prefix_op op value) sa sb := by
  unfold make_unary_prefix_op
  with_reducible refine keeps_bind_assert_that (by assumption) (fun _ _ _ _ => ?_)
  with_reducible refine keeps_bind_assert_that (by assumption) (fun _ _ _ _ => ?_)
  with_reducible refine keeps_pure (by assumption)

theorem keeps_make_binary_expr {X : List lexer_result} (hX : tail_ok X) (op : token) (lhs : Node) (rhs : Node) (sa sb : parser_base)
    (hl : longer X sa sb) : keeps false X (make_binary_expr op lhs rhs) (make_binary_expr op lhs rhs) sa sb := by
  unfold make_binary_expr
  with_reducible refine keeps_bind_assert_that (by assumption) (fun _ _ _ _ => ?_)
  with_reducible refine keeps_bind_assert_that (by assumption) (fun _ _ _ _ => ?_)
  with_reducible refine keeps_pure (by assumption)

theorem keeps_statement_end {X : List lexer_result} (hX : tail_ok X) (stmt : Node) (sa sb : parser_base)
    (hl : longer X sa sb) : keeps true X (statement_end stmt) (statement_end stmt) sa sb := by
  unfold statement_end
  with_reducible refine keeps_ASSERT_PARSE_RESULT (by assumption) (fun _ _ => ?_)
  with_reducible refine keeps_bind_current_token (by assumption) ?_
  with_reducible refine keeps_bind_advance (by assumption) hX (fun _ _ _ => ?_) (fun _ _ => ?_) (fun _ _ => ?_)
  with_reducible refine keeps_bind_has_error (by assumption) ?_
  with_reducible refine keeps_ite (fun _ => ?_) (fun _ => ?_)
  with_reducible refine keeps_pure (by assumption)
  with_reducible refine keeps_ite (fun _ => ?_) (fun _ => ?_)
  with_reducible refine keeps_bind_current_token (by assumption) ?_
  with_reducible refine keeps_ite (fun _ => ?_) (fun _ => ?_)
  with_reducible exact keeps_set_error_pure
  with_reducible refine keeps_ite (fun _ => ?_) (fun _ => ?_)
  with_reducible refine keeps_bind_rewind (by assumption) ?_ (fun _ _ _ => ?_)
  with_reducible exact longer.cur_ok (by assumption)
  with_reducible refine keeps_pure (by assumption)
  with_reducible refine keeps_pure (by assumption)
  with_reducible exact absurd rfl (by assumption : ¬ true = true)
  with_reducible refine keeps_bind_has_error (by assumption) ?_
  with_reducible refine keeps_ite (fun _ => ?_) (fun _ => ?_)
  with_reducible refine keeps_pure (by assumption)
  with_reducible refine keeps_ite (fun _ => ?_) (fun _ => ?_)
  with_reducible exact absurd (by assumption : false = true) (by decide)
  with_reducible refine keeps_pure (by assumption)
  with_reducible refine keeps_right_has_error (by assumption) ?_
  with_reducible refine keeps_drained_h (by assumption) ?_
  with_reducible refine drained_bind_has_error ?_
  with_reducible refine drained_ite (fun _ => ?_) (fun _ => ?_)
  with_reducible refine drained_pure (by first | assumption | exact handed_pending (by assumption)) ?_
  focus with_reducible (exfalso; simp_all; done)
  with_reducible refine drained_ite (fun _ => ?_) (fun _ => ?_)
  with_reducible exact absurd (by assumption : false = true) (by decide)
  with_reducible refine drained_pure (by first | assumption | exact handed_pending (by assumption)) ?_
  focus with_reducible (show Node.isNull _ = false; first | assumption | rfl | (simp [Node.isNull]; done))

theorem keeps_parse_import {X : List lexer_result} (hX : tail_ok X) (sa sb : parser_base)
    (hl : longer X sa sb) : keeps false X parse_import parse_import sa sb := by
  unfold parse_import
  with_reducible refine keeps_bind_current_token (by assumption) ?_
  with_reducible refine keeps_bind_assert_that (by assumption) (fun _ _ _ _ => ?_)
  with_reducible exact keeps_set_error_pure

theorem keeps_parse_export {X : List lexer_result} (hX : tail_ok X) (sa sb : parser_base)
    (hl : longer X sa sb) : keeps false X parse_export parse_export sa sb := by
  unfold parse_export
  with_reducible refine keeps_bind_current_token (by assumption) ?_
  with_reducible refine keeps_bind_assert_that (by assumption) (fun _ _ _ _ => ?_)
  with_reducible exact keeps_set_error_pure

theorem keeps_parse_class_stmt {X : List lexer_result} (hX : tail_ok X) (sa sb : parser_base)
    (hl : longer X sa sb) : keeps false X parse_class_stmt parse_class_stmt sa sb := by
  unfold parse_class_stmt
  with_reducible refine keeps_bind_current_token (by assumption) ?_
  with_reducible refine keeps_bind_assert_that (by assumption) (fun _ _ _ _ => ?_)
  with_reducible exact keeps_set_error_pure

theorem keeps_parse_class_expr {X : List lexer_result} (hX : tail_ok X) (sa sb : parser_base)
    (hl : longer X sa sb) : keeps false X parse_class_expr parse_class_expr sa sb := by
  unfold parse_class_expr
  with_reducible refine keeps_bind_current_token (by assumption) ?_
  with_reducible refine keeps_bind_assert_that (by assumption) (fun _ _ _ _ => ?_)
  with_reducible exact keeps_set_error_pure

theorem keeps_parse_number_literal {X : List lexer_result} (hX : tail_ok X) (sa sb : parser_base)
    (hl : longer X sa sb) : keeps false X parse_number_literal parse_number_literal sa sb := by
  unfold parse_number_literal make_number_expression
  with_reducible refine keeps_bind_current_token (by assumption) ?_
  with_reducible refine keeps_bind_assoc ?_
  with_reducible refine keeps_bind_assert_that (by assumption) (fun _ _ _ _ => ?_)
  with_reducible refine keeps_bind_pure ?_
  with_reducible refine keeps_bind_advance (by assumption) hX (fun _ _ _ => ?_) (fun _ _ => ?_) (fun _ _ => ?_)
  with_reducible refine keeps_bind_current_token (by assumption) ?_
  with_reducible refine keeps_ite (fun _ => ?_) (fun _ => ?_)
  with_reducible refine keeps_ite (fun _ => ?_) (fun _ => ?_)
  with_reducible refine keeps_bind_rewind (by assumption) ?_ (fun _ _ _ => ?_)
  with_reducible exact longer.cur_ok (by assumption)
  with_reducible refine keeps_pure (by assumption)
  with_reducible exact absurd rfl (by assumption : ¬ true = true)
  with_reducible exact keeps_set_error_pure
  with_reducible refine keeps_bind_current_token (by assumption) ?_
  with_reducible refine keeps_ite (fun _ => ?_) (fun _ => ?_)
  with_reducible refine keeps_ite (fun _ => ?_) (fun _ => ?_)
  with_reducible exact absurd (by assumption : false = true) (by decide)
  with_reducible refine keeps_pure (by assumption)
  with_reducible exact keeps_set_error_pure
  with_reducible refine keeps_left_current_token (by assumption) ?_
  focus with_reducible (refine keeps_left_ite_pos (by assumption) ?_ ?_; · simp)
  focus with_reducible (refine keeps_left_ite_neg (by assumption) ?_ ?_; · simp)
  with_reducible refine keeps_right_current_token (by assumption) ?_
  focus with_reducible (refine keeps_right_ite_pos (by assumption) ?_ ?_; · (intro e; simp [e, is_expression_end, is_follow_expression, is_stmt_end]))
  focus with_reducible (refine keeps_right_ite_pos (by assumption) ?_ ?_; · (intro e; simp [e, is_expression_end, is_follow_expression, is_stmt_end]))
  with_reducible refine keeps_right_rewind_handed (by assumption) (by first | rfl | assumption | exact Eq.symm (by assumption)) (fun _ _ => ?_)
  with_reducible refine keeps_pure (by assumption)

theorem keeps_parse_string_literal {X : List lexer_result} (hX : tail_ok X) (sa sb : parser_base)
    (hl : longer X sa sb) : keeps false X parse_string_literal parse_string_literal sa sb := by
  unfold parse_string_literal
  with_reducible refine keeps_bind_current_token (by assumption) ?_
  with_reducible refine keeps_bind_assert_that (by assumption) (fun _ _ _ _ => ?_)
  with_reducible refine keeps_bind_advance (by assumption) hX (fun _ _ _ => ?_) (fun _ _ => ?_) (fun _ _ => ?_)
  with_reducible refine keeps_bind_current_token (by assumption) ?_
  with_reducible refine keeps_ite (fun _ => ?_) (fun _ => ?_)
  with_reducible refine keeps_ite (fun _ => ?_) (fun _ => ?_)
  with_reducible refine keeps_bind_rewind (by assumption) ?_ (fun _ _ _ => ?_)
  with_reducible exact longer.cur_ok (by assumption)
  with_reducible refine keeps_pure (by assumption)
  with_reducible exact absurd rfl (by assumption : ¬ true = true)
  with_reducible exact keeps_set_error_pure
  with_reducible refine keeps_bind_current_token (by assumption) ?_
  with_reducible refine keeps_ite (fun _ => ?_) (fun _ => ?_)
  with_reducible refine keeps_ite (fun _ => ?_) (fun _ => ?_)
  with_reducible exact absurd (by assumption : false = true) (by decide)
  with_reducible refine keeps_pure (by assumption)
  with_reducible exact keeps_set_error_pure
  with_reducible refine keeps_left_current_token (by assumption) ?_
  focus with_reducible (refine keeps_left_ite_pos (by assumption) ?_ ?_; · simp)
  focus with_reducible (refine keeps_left_ite_neg (by assumption) ?_ ?_; · simp)
  with_reducible refine keeps_right_current_token (by assumption) ?_
  focus with_reducible (refine keeps_right_ite_pos (by assumption) ?_ ?_; · (intro e; simp [e, is_expression_end, is_follow_expression, is_stmt_end]))
  focus with_reducible (refine keeps_right_ite_pos (by assumption) ?_ ?_; · (intro e; simp [e, is_expression_end, is_follow_expression, is_stmt_end]))
  with_reducible refine keeps_right_rewind_handed (by assumption) (by first | rfl | assumption | exact Eq.symm (by assumption)) (fun _ _ => ?_)
  with_reducible refine keeps_pure (by assumption)

theorem keeps_parse_member_access {X : List lexer_result} (hX : tail_ok X) (base : Node) (sa sb : parser_base)
    (hl : longer X sa sb) : keeps false X (parse_member_access base) (parse_member_access base) sa sb := by
  unfold parse_member_access
  with_reducible refine keeps_bind_current_token (by assumption) ?_
  with_reducible refine keeps_bind_assert_that (by assumption) (fun _ _ _ _ => ?_)
  with_reducible refine keeps_ADVANCE_OR_ERROR (by assumption) (fun _ _ _ => ?_)
  with_reducible refine keeps_EXPECT (by assumption) ?_
  with_reducible refine keeps_bind_current_token (by assumption) ?_
  with_reducible refine keeps_pure (by assumption)

theorem keeps_atomic_postfix_step {X : List lexer_result} (hX : tail_ok X) (expr : Node) (sa sb : parser_base)
    (hl : longer X sa sb) : keeps false X (atomic_postfix_step expr) (atomic_postfix_step expr) sa sb := by
  unfold atomic_postfix_step
  with_reducible refine keeps_bind_current_token (by assumption) ?_
  with_reducible refine keeps_bind_advance (by assumption) hX (fun _ _ _ => ?_) (fun _ _ => ?_) (fun _ _ => ?_)
  with_reducible refine keeps_ite (fun _ => ?_) (fun _ => ?_)
  with_reducible refine keeps_bind_current_token (by assumption) ?_
  with_reducible refine keeps_ite (fun _ => ?_) (fun _ => ?_)
  with_reducible refine keeps_pure (by assumption)
  with_reducible refine keeps_ite (fun _ => ?_) (fun _ => ?_)
  with_reducible refine keeps_pure (by assumption)
  with_reducible refine keeps_bind_rewind (by assumption) ?_ (fun _ _ _ => ?_)
  with_reducible exact longer.cur_ok (by assumption)
  with_reducible refine keeps_pure (by assumption)
  with_reducible exact absurd rfl (by assumption : ¬ true = true)
  with_reducible refine keeps_ite (fun _ => ?_) (fun _ => ?_)
  with_reducible exact absurd (by assumption : false = true) (by decide)
  with_reducible refine keeps_pure (by assumption)
  focus with_reducible (refine keeps_left_ite_neg (by assumption) ?_ ?_; · simp)
  focus with_reducible (refine keeps_right_ite_pos (by assumption) ?_ ?_; · (intro e; simp [e, is_expression_end, is_follow_expression, is_stmt_end]))
  with_reducible refine keeps_right_current_token (by assumption) ?_
  focus with_reducible (refine keeps_right_ite_neg (by assumption) ?_ ?_; · (intro e; simp [e, is_expression_end, is_follow_expression, is_stmt_end]))
  focus with_reducible (refine keeps_right_ite_neg (by assumption) ?_ ?_; · (intro e; simp [e, is_expression_end, is_follow_expression, is_stmt_end]))
  with_reducible refine keeps_right_rewind_handed (by assumption) (by first | rfl | assumption | exact Eq.symm (by assumption)) (fun _ _ => ?_)
  with_reducible refine keeps_pure (by assumption)

theorem keeps_param_list_close {X : List lexer_result} (hX : tail_ok X) (loc : source_location) (names : List String) (rest : Option String) (sa sb : parser_base)
    (hl : longer X sa sb) : keeps false X (param_list_close loc names rest) (param_list_close loc names rest) sa sb := by
  unfold param_list_close
  with_reducible refine keeps_bind_current_token (by assumption) ?_
  with_reducible refine keeps_ite (fun _ => ?_) (fun _ => ?_)
  with_reducible refine keeps_pure (by assumption)
  with_reducible exact keeps_set_error_pure

theorem keeps_param_list_tail {X : List lexer_result} (hX : tail_ok X) (loc : source_location) (names : List String) (sa sb : parser_base)
    (hl : longer X sa sb) : keeps false X (param_list_tail loc names) (param_list_tail loc names) sa sb := by
  unfold param_list_tail
  with_reducible refine keeps_bind_current_token (by assumption) ?_
  with_reducible refine keeps_ite (fun _ => ?_) (fun _ => ?_)
  with_reducible refine keeps_ADVANCE_OR_ERROR (by assumption) (fun _ _ _ => ?_)
  with_reducible refine keeps_bind_current_token (by assumption) ?_
  with_reducible refine keeps_ite (fun _ => ?_) (fun _ => ?_)
  with_reducible refine keeps_ADVANCE_OR_ERROR (by assumption) (fun _ _ _ => ?_)
  with_reducible refine keeps_call (keeps_param_list_close hX _ _ _ _ _ (by assumption)) (by decide)
  with_reducible refine keeps_call (keeps_param_list_close hX _ _ _ _ _ (by assumption)) (by decide)
  with_reducible refine keeps_call (keeps_param_list_close hX _ _ _ _ _ (by assumption)) (by decide)

theorem keeps_parse_statement {X : List lexer_result} (hX : tail_ok X) {self : parser_fns}
    (h : fns_keeps X self) (hst : fns_sticky self) (sa sb : parser_base)
    (hl : longer X sa sb) : keeps true X (parse_statement self) (parse_statement self) sa sb := by
  unfold parse_statement
  with_reducible refine keeps_bind_current_token (by assumption) ?_
  with_reducible refine keeps_ite (fun _ => ?_) (fun _ => ?_)
  with_reducible refine keeps_pure (by assumption)
  with_reducible refine keeps_ite (fun _ => ?_) (fun _ => ?_)
  with_reducible refine keeps_call (h.parse_block_or_obj _ _ _ (by assumption)) (by decide)
  with_reducible refine keeps_ite (fun _ => ?_) (fun _ => ?_)
  with_reducible refine keeps_bind_call (h.parse_keyword_stmt _ _ (by assumption)) (fun _ => ?_) (fun _ _ _ _ _ _ => ?_) (fun _ _ _ _ => ?_)
  with_reducible exact sticky_statement_end _
  with_reducible refine drained_statement_end (by first | assumption | exact handed_pending (by assumption)) ?_
  focus with_reducible (show Node.isNull _ = false; first | assumption | rfl | (simp [Node.isNull]; done))
  with_reducible refine keeps_call (keeps_statement_end hX _ _ _ (by assumption)) (by decide)
  with_reducible refine keeps_ite (fun _ => ?_) (fun _ => ?_)
  with_reducible refine keeps_bind_advance (by assumption) hX (fun _ _ _ => ?_) (fun _ _ => ?_) (fun _ _ => ?_)
  with_reducible refine keeps_ite (fun _ => ?_) (fun _ => ?_)
  with_reducible refine keeps_bind_call (h.parse_expression _ _ _ (by assumption)) (fun _ => ?_) (fun _ _ _ _ _ _ => ?_) (fun _ _ _ _ => ?_)
  with_reducible exact sticky_statement_end _
  with_reducible exact absurd (by assumption : false = true) (by decide)
  with_reducible refine keeps_call (keeps_statement_end hX _ _ _ (by assumption)) (by decide)
  with_reducible refine keeps_bind_current_token (by assumption) ?_
  with_reducible refine keeps_ite (fun _ => ?_) (fun _ => ?_)
  with_reducible refine keeps_ADVANCE_OR_ERROR (by assumption) (fun _ _ _ => ?_)
  with_reducible refine keeps_SUBPARSE (h.parse_statement _ _ (by assumption)) (fun _ _ _ _ _ _ => ?_) (fun _ _ _ _ => ?_)
  with_reducible refine drained_statement_end (by first | assumption | exact handed_pending (by assumption)) ?_
  focus with_reducible (show Node.isNull _ = false; first | assumption | rfl | (simp [Node.isNull]; done))
  with_reducible refine keeps_call (keeps_statement_end hX _ _ _ (by assumption)) (by decide)
  with_reducible refine keeps_bind_rewind (by assumption) ?_ (fun _ _ _ => ?_)
  with_reducible exact longer.cur_ok (by assumption)
  with_reducible refine keeps_bind_call (h.parse_expression _ _ _ (by assumption)) (fun _ => ?_) (fun _ _ _ _ _ _ => ?_) (fun _ _ _ _ => ?_)
  with_reducible exact sticky_statement_end _
  with_reducible exact absurd (by assumption : false = true) (by decide)
  with_reducible refine keeps_call (keeps_statement_end hX _ _ _ (by assumption)) (by decide)
  with_reducible refine keeps_ite (fun _ => ?_) (fun _ => ?_)
  with_reducible refine keeps_bind_call (h.parse_expression _ _ _ (by assumption)) (fun _ => ?_) (fun _ _ _ _ _ _ => ?_) (fun _ _ _ _ => ?_)
  with_reducible exact sticky_statement_end _
  with_reducible exact absurd (by assumption : false = true) (by decide)
  with_reducible refine keeps_call (keeps_statement_end hX _ _ _ (by assumption)) (by decide)
  with_reducible refine keeps_bind_current_token (by assumption) ?_
  with_reducible refine keeps_ite (fun _ => ?_) (fun _ => ?_)
  with_reducible refine keeps_ADVANCE_OR_ERROR (by assumption) (fun _ _ _ => ?_)
  with_reducible refine keeps_SUBPARSE (h.parse_statement _ _ (by assumption)) (fun _ _ _ _ _ _ => ?_) (fun _ _ _ _ => ?_)
  with_reducible refine drained_statement_end (by first | assumption | exact handed_pending (by assumption)) ?_
  focus with_reducible (show Node.isNull _ = false; first | assumption | rfl | (simp [Node.isNull]; done))
  with_reducible refine keeps_call (keeps_statement_end hX _ _ _ (by assumption)) (by decide)
  with_reducible refine keeps_bind_rewind (by assumption) ?_ (fun _ _ _ => ?_)
  with_reducible exact longer.cur_ok (by assumption)
  with_reducible refine keeps_bind_call (h.parse_expression _ _ _ (by assumption)) (fun _ => ?_) (fun _ _ _ _ _ _ => ?_) (fun _ _ _ _ => ?_)
  with_reducible exact sticky_statement_end _
  with_reducible exact absurd (by assumption : false = true) (by decide)
  with_reducible refine keeps_call (keeps_statement_end hX _ _ _ (by assumption)) (by decide)
  focus with_reducible (refine keeps_left_ite_pos (by assumption) ?_ ?_; · simp)
  focus with_reducible (refine keeps_right_ite_neg (by assumption) ?_ ?_; · (intro e; simp [e, is_expression_end, is_follow_expression, is_stmt_end]))
  with_reducible refine keeps_right_current_token (by assumption) ?_
  focus with_reducible (refine keeps_right_ite_neg (by assumption) ?_ ?_; · (intro e; simp [e, is_expression_end, is_follow_expression, is_stmt_end]))
  with_reducible refine keeps_right_rewind_handed (by assumption) (by first | rfl | assumption | exact Eq.symm (by assumption)) (fun _ _ => ?_)
  with_reducible refine keeps_bind_call (h.parse_expression _ _ _ (by assumption)) (fun _ => ?_) (fun _ _ _ _ _ _ => ?_) (fun _ _ _ _ => ?_)
  with_reducible exact sticky_statement_end _
  with_reducible exact absurd (by assumption : false = true) (by decide)
  with_reducible refine keeps_call (keeps_statement_end hX _ _ _ (by assumption)) (by decide)
  with_reducible refine keeps_bind_call (h.parse_expression _ _ _ (by assumption)) (fun _ => ?_) (fun _ _ _ _ _ _ => ?_) (fun _ _ _ _ => ?_)
  with_reducible exact sticky_statement_end _
  with_reducible exact absurd (by assumption : false = true) (by decide)
  with_reducible refine keeps_call (keeps_statement_end hX _ _ _ (by assumption)) (by decide)

theorem keeps_parse_keyword_stmt {X : List lexer_result} (hX : tail_ok X) {self : parser_fns}
    (h : fns_keeps X self) (hst : fns_sticky self) (sa sb : parser_base)
    (hl : longer X sa sb) : keeps true X (parse_keyword_stmt self) (parse_keyword_stmt self) sa sb := by
  unfold parse_keyword_stmt
  with_reducible refine keeps_bind_current_token (by assumption) ?_
  with_reducible refine keeps_bind_assert_that (by assumption) (fun _ _ _ _ => ?_)
  with_reducible refine keeps_ite (fun _ => ?_) (fun _ => ?_)
  with_reducible refine keeps_call (h.parse_function_stmt _ _ (by assumption)) (by decide)
  with_reducible refine keeps_ite (fun _ => ?_) (fun _ => ?_)
  with_reducible refine keeps_call (h.parse_if_stmt _ _ (by assumption)) (by decide)
  with_reducible refine keeps_ite (fun _ => ?_) (fun _ => ?_)
  with_reducible refine keeps_call (h.parse_do_while _ _ (by assumption)) (by decide)
  with_reducible refine keeps_ite (fun _ => ?_) (fun _ => ?_)
  with_reducible refine keeps_call (h.parse_while_stmt _ _ (by assumption)) (by decide)
  with_reducible refine keeps_ite (fun _ => ?_) (fun _ => ?_)
  with_reducible refine keeps_call (h.parse_for_stmt _ _ (by assumption)) (by decide)
  with_reducible refine keeps_ite (fun _ => ?_) (fun _ => ?_)
  with_reducible refine keeps_call (h.parse_switch_stmt _ _ (by assumption)) (by decide)
  with_reducible refine keeps_ite (fun _ => ?_) (fun _ => ?_)
  with_reducible refine keeps_pure (by assumption)
  with_reducible refine keeps_ite (fun _ => ?_) (fun _ => ?_)
  with_reducible refine keeps_pure (by assumption)
  with_reducible refine keeps_ite (fun _ => ?_) (fun _ => ?_)
  with_reducible refine keeps_call (h.parse_return_stmt _ _ (by assumption)) (by decide)
  with_reducible refine keeps_ite (fun _ => ?_) (fun _ => ?_)
  with_reducible refine keeps_call (h.parse_throw_stmt _ _ (by assumption)) (by decide)
  with_reducible refine keeps_ite (fun _ => ?_) (fun _ => ?_)
  with_reducible refine keeps_call (h.parse_try_stmt _ _ (by assumption)) (by decide)
  with_reducible refine keeps_ite (fun _ => ?_) (fun _ => ?_)
  with_reducible refine keeps_call (keeps_parse_import hX _ _ (by assumption)) (by decide)
  with_reducible refine keeps_ite (fun _ => ?_) (fun _ => ?_)
  with_reducible refine keeps_call (keeps_parse_export hX _ _ (by assumption)) (by decide)
  with_reducible refine keeps_ite (fun _ => ?_) (fun _ => ?_)
  with_reducible refine keeps_call (keeps_parse_class_stmt hX _ _ (by assumption)) (by decide)
  with_reducible refine keeps_ite (fun _ => ?_) (fun _ => ?_)
  with_reducible refine keeps_call (h.parse_call _ _ _ (by assumption)) (by decide)
  with_reducible refine keeps_ite (fun _ => ?_) (fun _ => ?_)
  with_reducible refine keeps_call (h.parse_var_decl _ _ (by assumption)) (by decide)
  with_reducible refine keeps_call (h.parse_keyword_expr _ _ (by assumption)) (by decide)

theorem keeps_parse_keyword_expr {X : List lexer_result} (hX : tail_ok X) {self : parser_fns}
    (h : fns_keeps X self) (hst : fns_sticky self) (sa sb : parser_base)
    (hl : longer X sa sb) : keeps false X (parse_keyword_expr self) (parse_keyword_expr self) sa sb := by
  unfold parse_keyword_expr
  with_reducible refine keeps_bind_current_token (by assumption) ?_
  with_reducible refine keeps_bind_assert_that (by assumption) (fun _ _ _ _ => ?_)
  with_reducible refine keeps_ite (fun _ => ?_) (fun _ => ?_)
  with_reducible refine keeps_call (h.parse_unary_or_atomic_expr _ _ (by assumption)) (by decide)
  with_reducible refine keeps_call (h.parse_atomic_keyword_expr _ _ (by assumption)) (by decide)

theorem keeps_parse_if_stmt {X : List lexer_result} (hX : tail_ok X) {self : parser_fns}
    (h : fns_keeps X self) (hst : fns_sticky self) (sa sb : parser_base)
    (hl : longer X sa sb) : keeps true X (parse_if_stmt self) (parse_if_stmt self) sa sb := by
  unfold parse_if_stmt
  with_reducible refine keeps_bind_current_token (by assumption) ?_
  with_reducible refine keeps_bind_assert_that (by assumption) (fun _ _ _ _ => ?_)
  with_reducible refine keeps_ADVANCE_OR_ERROR (by assumption) (fun _ _ _ => ?_)
  with_reducible refine keeps_EXPECT (by assumption) ?_
  with_reducible refine keeps_ADVANCE_OR_ERROR (by assumption) (fun _ _ _ => ?_)
  with_reducible refine keeps_SUBPARSE (h.parse_expression _ _ _ (by assumption)) (fun _ _ _ _ _ _ => ?_) (fun _ _ _ _ => ?_)
  with_reducible exact absurd (by assumption : false = true) (by decide)
  with_reducible refine keeps_ADVANCE_OR_ERROR (by assumption) (fun _ _ _ => ?_)
  with_reducible refine keeps_EXPECT (by assumption) ?_
  with_reducible refine keeps_ADVANCE_OR_ERROR (by assumption) (fun _ _ _ => ?_)
  with_reducible refine keeps_SUBPARSE (h.parse_statement _ _ (by assumption)) (fun _ _ _ _ _ _ => ?_) (fun _ _ _ _ => ?_)
  with_reducible refine drained_bind_current_token ?_
  with_reducible refine drained_bind_advance (by first | assumption | exact handed_pending (by assumption)) ?_
  with_reducible refine drained_ite (fun _ => ?_) (fun _ => ?_)
  with_reducible exact absurd (by assumption : false = true) (by decide)
  with_reducible refine drained_pure (by first | assumption | exact handed_pending (by assumption)) ?_
  focus with_reducible (show Node.isNull _ = false; first | assumption | rfl | (simp [Node.isNull]; done))
  with_reducible refine keeps_bind_current_token (by assumption) ?_
  with_reducible refine keeps_bind_advance (by assumption) hX (fun _ _ _ => ?_) (fun _ _ => ?_) (fun _ _ => ?_)
  with_reducible refine keeps_ite (fun _ => ?_) (fun _ => ?_)
  with_reducible refine keeps_bind_current_token (by assumption) ?_
  with_reducible refine keeps_ite (fun _ => ?_) (fun _ => ?_)
  with_reducible refine keeps_ADVANCE_OR_ERROR (by assumption) (fun _ _ _ => ?_)
  with_reducible refine keeps_SUBPARSE (h.parse_statement _ _ (by assumption)) (fun _ _ _ _ _ _ => ?_) (fun _ _ _ _ => ?_)
  with_reducible refine drained_pure (by first | assumption | exact handed_pending (by assumption)) ?_
  focus with_reducible (show Node.isNull _ = false; first | assumption | rfl | (simp [Node.isNull]; done))
  with_reducible refine keeps_pure (by assumption)
  with_reducible refine keeps_bind_rewind (by assumption) ?_ (fun _ _ _ => ?_)
  with_reducible exact longer.cur_ok (by assumption)
  with_reducible refine keeps_pure (by assumption)
  with_reducible exact absurd rfl (by assumption : ¬ true = true)
  with_reducible refine keeps_ite (fun _ => ?_) (fun _ => ?_)
  with_reducible exact absurd (by assumption : false = true) (by decide)
  with_reducible refine keeps_pure (by assumption)
  focus with_reducible (refine keeps_left_ite_neg (by assumption) ?_ ?_; · simp)
  focus with_reducible (refine keeps_right_ite_pos (by assumption) ?_ ?_; · (intro e; simp [e, is_expression_end, is_follow_expression, is_stmt_end]))
  with_reducible refine keeps_right_current_token (by assumption) ?_
  focus with_reducible (refine keeps_right_ite_neg (by assumption) ?_ ?_; · (intro e; simp [e, is_expression_end, is_follow_expression, is_stmt_end]))
  with_reducible refine keeps_right_rewind_handed (by assumption) (by first | rfl | assumption | exact Eq.symm (by assumption)) (fun _ _ => ?_)
  with_reducible refine keeps_pure (by assumption)

theorem keeps_parse_do_while {X : List lexer_result} (hX : tail_ok X) {self : parser_fns}
    (h : fns_keeps X self) (hst : fns_sticky self) (sa sb : parser_base)
    (hl : longer X sa sb) : keeps false X (parse_do_while self) (parse_do_while self) sa sb := by
  unfold parse_do_while
  with_reducible refine keeps_bind_current_token (by assumption) ?_
  with_reducible refine keeps_bind_assert_that (by assumption) (fun _ _ _ _ => ?_)
  with_reducible refine keeps_ADVANCE_OR_ERROR (by assumption) (fun _ _ _ => ?_)
  with_reducible refine keeps_SUBPARSE (h.parse_statement _ _ (by assumption)) (fun _ _ _ _ _ _ => ?_) (fun _ _ _ _ => ?_)
  with_reducible exact drained_ADVANCE_OR_ERROR (by first | assumption | exact handed_pending (by assumption))
  with_reducible refine keeps_ADVANCE_OR_ERROR (by assumption) (fun _ _ _ => ?_)
  with_reducible refine keeps_EXPECT (by assumption) ?_
  with_reducible refine keeps_bind_current_token (by assumption) ?_
  with_reducible refine keeps_ite (fun _ => ?_) (fun _ => ?_)
  with_reducible exact keeps_set_error_pure
  with_reducible refine keeps_ADVANCE_OR_ERROR (by assumption) (fun _ _ _ => ?_)
  with_reducible refine keeps_EXPECT (by assumption) ?_
  with_reducible refine keeps_ADVANCE_OR_ERROR (by assumption) (fun _ _ _ => ?_)
  with_reducible refine keeps_SUBPARSE (h.parse_expression _ _ _ (by assumption)) (fun _ _ _ _ _ _ => ?_) (fun _ _ _ _ => ?_)
  with_reducible exact absurd (by assumption : false = true) (by decide)
  with_reducible refine keeps_ADVANCE_OR_ERROR (by assumption) (fun _ _ _ => ?_)
  with_reducible refine keeps_EXPECT (by assumption) ?_
  with_reducible refine keeps_pure (by assumption)

theorem keeps_parse_while_stmt {X : List lexer_result} (hX : tail_ok X) {self : parser_fns}
    (h : fns_keeps X self) (hst : fns_sticky self) (sa sb : parser_base)
    (hl : longer X sa sb) : keeps true X (parse_while_stmt self) (parse_while_stmt self) sa sb := by
  unfold parse_while_stmt
  with_reducible refine keeps_bind_current_token (by assumption) ?_
  with_reducible refine keeps_bind_assert_that (by assumption) (fun _ _ _ _ => ?_)
  with_reducible refine keeps_ADVANCE_OR_ERROR (by assumption) (fun _ _ _ => ?_)
  with_reducible refine keeps_EXPECT (by assumption) ?_
  with_reducible refine keeps_ADVANCE_OR_ERROR (by assumption) (fun _ _ _ => ?_)
  with_reducible refine keeps_SUBPARSE (h.parse_expression _ _ _ (by assumption)) (fun _ _ _ _ _ _ => ?_) (fun _ _ _ _ => ?_)
  with_reducible exact absurd (by assumption : false = true) (by decide)
  with_reducible refine keeps_ADVANCE_OR_ERROR (by assumption) (fun _ _ _ => ?_)
  with_reducible refine keeps_EXPECT (by assumption) ?_
  with_reducible refine keeps_ADVANCE_OR_ERROR (by assumption) (fun _ _ _ => ?_)
  with_reducible refine keeps_SUBPARSE (h.parse_statement _ _ (by assumption)) (fun _ _ _ _ _ _ => ?_) (fun _ _ _ _ => ?_)
  with_reducible refine drained_pure (by first | assumption | exact handed_pending (by assumption)) ?_
  focus with_reducible (show Node.isNull _ = false; first | assumption | rfl | (simp [Node.isNull]; done))
  with_reducible refine keeps_pure (by assumption)

theorem keeps_parse_for_stmt {X : List lexer_result} (hX : tail_ok X) {self : parser_fns}
    (h : fns_keeps X self) (hst : fns_sticky self) (sa sb : parser_base)
    (hl : longer X sa sb) : keeps true X (parse_for_stmt self) (parse_for_stmt self) sa sb := by
  unfold parse_for_stmt for_in_of for_c_style
  with_reducible refine keeps_bind_current_token (by assumption) ?_
  with_reducible refine keeps_bind_assert_that (by assumption) (fun _ _ _ _ => ?_)
  with_reducible refine keeps_ADVANCE_OR_ERROR (by assumption) (fun _ _ _ => ?_)
  with_reducible refine keeps_EXPECT (by assumption) ?_
  with_reducible refine keeps_ADVANCE_OR_ERROR (by assumption) (fun _ _ _ => ?_)
  with_reducible refine keeps_bind_current_token (by assumption) ?_
  with_reducible refine keeps_ite (fun _ => ?_) (fun _ => ?_)
  with_reducible refine keeps_ADVANCE_OR_ERROR (by assumption) (fun _ _ _ => ?_)
  with_reducible refine keeps_EXPECT (by assumption) ?_
  with_reducible refine keeps_bind_current_token (by assumption) ?_
  with_reducible refine keeps_ite (fun _ => ?_) (fun _ => ?_)
  with_reducible refine keeps_ADVANCE_OR_ERROR (by assumption) (fun _ _ _ => ?_)
  with_reducible refine keeps_bind_current_token (by assumption) ?_
  with_reducible refine keeps_ite (fun _ => ?_) (fun _ => ?_)
  with_reducible refine keeps_ADVANCE_OR_ERROR (by assumption) (fun _ _ _ => ?_)
  with_reducible refine keeps_SUBPARSE (h.parse_expression _ _ _ (by assumption)) (fun _ _ _ _ _ _ => ?_) (fun _ _ _ _ => ?_)
  with_reducible exact absurd (by assumption : false = true) (by decide)
  with_reducible refine keeps_ADVANCE_OR_ERROR (by assumption) (fun _ _ _ => ?_)
  with_reducible refine keeps_EXPECT (by assumption) ?_
  with_reducible refine keeps_ADVANCE_OR_ERROR (by assumption) (fun _ _ _ => ?_)
  with_reducible refine keeps_SUBPARSE (h.parse_statement _ _ (by assumption)) (fun _ _ _ _ _ _ => ?_) (fun _ _ _ _ => ?_)
  with_reducible refine drained_pure (by first | assumption | exact handed_pending (by assumption)) ?_
  focus with_reducible (show Node.isNull _ = false; first | assumption | rfl | (simp [Node.isNull]; done))
  with_reducible refine keeps_pure (by assumption)
  with_reducible refine keeps_ite (fun _ => ?_) (fun _ => ?_)
  with_reducible refine keeps_ADVANCE_OR_ERROR (by assumption) (fun _ _ _ => ?_)
  with_reducible refine keeps_SUBPARSE (h.parse_expression _ _ _ (by assumption)) (fun _ _ _ _ _ _ => ?_) (fun _ _ _ _ => ?_)
  with_reducible exact absurd (by assumption : false = true) (by decide)
  with_reducible refine keeps_ADVANCE_OR_ERROR (by assumption) (fun _ _ _ => ?_)
  with_reducible refine keeps_EXPECT (by assumption) ?_
  with_reducible refine keeps_ADVANCE_OR_ERROR (by assumption) (fun _ _ _ => ?_)
  with_reducible refine keeps_SUBPARSE (h.parse_statement _ _ (by assumption)) (fun _ _ _ _ _ _ => ?_) (fun _ _ _ _ => ?_)
  with_reducible refine drained_pure (by first | assumption | exact handed_pending (by assumption)) ?_
  focus with_reducible (show Node.isNull _ = false; first | assumption | rfl | (simp [Node.isNull]; done))
  with_reducible refine keeps_pure (by assumption)
  with_reducible refine keeps_bind_rewind (by assumption) ?_ (fun _ _ _ => ?_)
  with_reducible exact longer.cur_ok (by assumption)
  with_reducible refine keeps_bind_rewind (by assumption) ?_ (fun _ _ _ => ?_)
  with_reducible exact longer.cur_ok (by assumption)
  with_reducible refine keeps_SUBPARSE (h.parse_statement _ _ (by assumption)) (fun _ _ _ _ _ _ => ?_) (fun _ _ _ _ => ?_)
  with_reducible refine drained_EXPECT ?_
  with_reducible exact drained_ADVANCE_OR_ERROR (by first | assumption | exact handed_pending (by assumption))
  with_reducible refine keeps_EXPECT (by assumption) ?_
  with_reducible refine keeps_ADVANCE_OR_ERROR (by assumption) (fun _ _ _ => ?_)
  with_reducible refine keeps_SUBPARSE (h.parse_expression _ _ _ (by assumption)) (fun _ _ _ _ _ _ => ?_) (fun _ _ _ _ => ?_)
  with_reducible exact absurd (by assumption : false = true) (by decide)
  with_reducible refine keeps_ADVANCE_OR_ERROR (by assumption) (fun _ _ _ => ?_)
  with_reducible refine keeps_EXPECT (by assumption) ?_
  with_reducible refine keeps_ADVANCE_OR_ERROR (by assumption) (fun _ _ _ => ?_)
  with_reducible refine keeps_SUBPARSE (h.parse_statement _ _ (by assumption)) (fun _ _ _ _ _ _ => ?_) (fun _ _ _ _ => ?_)
  with_reducible exact drained_ADVANCE_OR_ERROR (by first | assumption | exact handed_pending (by assumption))
  with_reducible refine keeps_ADVANCE_OR_ERROR (by assumption) (fun _ _ _ => ?_)
  with_reducible refine keeps_EXPECT (by assumption) ?_
  with_reducible refine keeps_ADVANCE_OR_ERROR (by assumption) (fun _ _ _ => ?_)
  with_reducible refine keeps_SUBPARSE (h.parse_statement _ _ (by assumption)) (fun _ _ _ _ _ _ => ?_) (fun _ _ _ _ => ?_)
  with_reducible refine drained_pure (by first | assumption | exact handed_pending (by assumption)) ?_
  focus with_reducible (show Node.isNull _ = false; first | assumption | rfl | (simp [Node.isNull]; done))
  with_reducible refine keeps_pure (by assumption)
  with_reducible refine keeps_bind_rewind (by assumption) ?_ (fun _ _ _ => ?_)
  with_reducible exact longer.cur_ok (by assumption)
  with_reducible refine keeps_SUBPARSE (h.parse_statement _ _ (by assumption)) (fun _ _ _ _ _ _ => ?_) (fun _ _ _ _ => ?_)
  with_reducible refine drained_EXPECT ?_
  with_reducible exact drained_ADVANCE_OR_ERROR (by first | assumption | exact handed_pending (by assumption))
  with_reducible refine keeps_EXPECT (by assumption) ?_
  with_reducible refine keeps_ADVANCE_OR_ERROR (by assumption) (fun _ _ _ => ?_)
  with_reducible refine keeps_SUBPARSE (h.parse_expression _ _ _ (by assumption)) (fun _ _ _ _ _ _ => ?_) (fun _ _ _ _ => ?_)
  with_reducible exact absurd (by assumption : false = true) (by decide)
  with_reducible refine keeps_ADVANCE_OR_ERROR (by assumption) (fun _ _ _ => ?_)
  with_reducible refine keeps_EXPECT (by assumption) ?_
  with_reducible refine keeps_ADVANCE_OR_ERROR (by assumption) (fun _ _ _ => ?_)
  with_reducible refine keeps_SUBPARSE (h.parse_statement _ _ (by assumption)) (fun _ _ _ _ _ _ => ?_) (fun _ _ _ _ => ?_)
  with_reducible exact drained_ADVANCE_OR_ERROR (by first | assumption | exact handed_pending (by assumption))
  with_reducible refine keeps_ADVANCE_OR_ERROR (by assumption) (fun _ _ _ => ?_)
  with_reducible refine keeps_EXPECT (by assumption) ?_
  with_reducible refine keeps_ADVANCE_OR_ERROR (by assumption) (fun _ _ _ => ?_)
  with_reducible refine keeps_SUBPARSE (h.parse_statement _ _ (by assumption)) (fun _ _ _ _ _ _ => ?_) (fun _ _ _ _ => ?_)
  with_reducible refine drained_pure (by first | assumption | exact handed_pending (by assumption)) ?_
  focus with_reducible (show Node.isNull _ = false; first | assumption | rfl | (simp [Node.isNull]; done))
  with_reducible refine keeps_pure (by assumption)
  with_reducible refine keeps_bind_current_token (by assumption) ?_
  with_reducible refine keeps_ite (fun _ => ?_) (fun _ => ?_)
  with_reducible refine keeps_ADVANCE_OR_ERROR (by assumption) (fun _ _ _ => ?_)
  with_reducible refine keeps_bind_current_token (by assumption) ?_
  with_reducible refine keeps_ite (fun _ => ?_) (fun _ => ?_)
  with_reducible refine keeps_ADVANCE_OR_ERROR (by assumption) (fun _ _ _ => ?_)
  with_reducible refine keeps_SUBPARSE (h.parse_expression _ _ _ (by assumption)) (fun _ _ _ _ _ _ => ?_) (fun _ _ _ _ => ?_)
  with_reducible exact absurd (by assumption : false = true) (by decide)
  with_reducible refine keeps_ADVANCE_OR_ERROR (by assumption) (fun _ _ _ => ?_)
  with_reducible refine keeps_EXPECT (by assumption) ?_
  with_reducible refine keeps_ADVANCE_OR_ERROR (by assumption) (fun _ _ _ => ?_)
  with_reducible refine keeps_SUBPARSE (h.parse_statement _ _ (by assumption)) (fun _ _ _ _ _ _ => ?_) (fun _ _ _ _ => ?_)
  with_reducible refine drained_pure (by first | assumption | exact handed_pending (by assumption)) ?_
  focus with_reducible (show Node.isNull _ = false; first | assumption | rfl | (simp [Node.isNull]; done))
  with_reducible refine keeps_pure (by assumption)
  with_reducible refine keeps_ite (fun _ => ?_) (fun _ => ?_)
  with_reducible refine keeps_ADVANCE_OR_ERROR (by assumption) (fun _ _ _ => ?_)
  with_reducible refine keeps_SUBPARSE (h.parse_expression _ _ _ (by assumption)) (fun _ _ _ _ _ _ => ?_) (fun _ _ _ _ => ?_)
  with_reducible exact absurd (by assumption : false = true) (by decide)
  with_reducible refine keeps_ADVANCE_OR_ERROR (by assumption) (fun _ _ _ => ?_)
  with_reducible refine keeps_EXPECT (by assumption) ?_
  with_reducible refine keeps_ADVANCE_OR_ERROR (by assumption) (fun _ _ _ => ?_)
  with_reducible refine keeps_SUBPARSE (h.parse_statement _ _ (by assumption)) (fun _ _ _ _ _ _ => ?_) (fun _ _ _ _ => ?_)
  with_reducible refine drained_pure (by first | assumption | exact handed_pending (by assumption)) ?_
  focus with_reducible (show Node.isNull _ = false; first | assumption | rfl | (simp [Node.isNull]; done))
  with_reducible refine keeps_pure (by assumption)
  with_reducible refine keeps_bind_rewind (by assumption) ?_ (fun _ _ _ => ?_)
  with_reducible exact longer.cur_ok (by assumption)
  with_reducible refine keeps_bind_pure ?_
  with_reducible refine keeps_SUBPARSE (h.parse_statement _ _ (by assumption)) (fun _ _ _ _ _ _ => ?_) (fun _ _ _ _ => ?_)
  with_reducible refine drained_EXPECT ?_
  with_reducible exact drained_ADVANCE_OR_ERROR (by first | assumption | exact handed_pending (by assumption))
  with_reducible refine keeps_EXPECT (by assumption) ?_
  with_reducible refine keeps_ADVANCE_OR_ERROR (by assumption) (fun _ _ _ => ?_)
  with_reducible refine keeps_SUBPARSE (h.parse_expression _ _ _ (by assumption)) (fun _ _ _ _ _ _ => ?_) (fun _ _ _ _ => ?_)
  with_reducible exact absurd (by assumption : false = true) (by decide)
  with_reducible refine keeps_ADVANCE_OR_ERROR (by assumption) (fun _ _ _ => ?_)
  with_reducible refine keeps_EXPECT (by assumption) ?_
  with_reducible refine keeps_ADVANCE_OR_ERROR (by assumption) (fun _ _ _ => ?_)
  with_reducible refine keeps_SUBPARSE (h.parse_statement _ _ (by assumption)) (fun _ _ _ _ _ _ => ?_) (fun _ _ _ _ => ?_)
  with_reducible exact drained_ADVANCE_OR_ERROR (by first | assumption | exact handed_pending (by assumption))
  with_reducible refine keeps_ADVANCE_OR_ERROR (by assumption) (fun _ _ _ => ?_)
  with_reducible refine keeps_EXPECT (by assumption) ?_
  with_reducible refine keeps_ADVANCE_OR_ERROR (by assumption) (fun _ _ _ => ?_)
  with_reducible refine keeps_SUBPARSE (h.parse_statement _ _ (by assumption)) (fun _ _ _ _ _ _ => ?_) (fun _ _ _ _ => ?_)
  with_reducible refine drained_pure (by first | assumption | exact handed_pending (by assumption)) ?_
  focus with_reducible (show Node.isNull _ = false; first | assumption | rfl | (simp [Node.isNull]; done))
  with_reducible refine keeps_pure (by assumption)
  with_reducible refine keeps_bind_pure ?_
  with_reducible refine keeps_SUBPARSE (h.parse_statement _ _ (by assumption)) (fun _ _ _ _ _ _ => ?_) (fun _ _ _ _ => ?_)
  with_reducible refine drained_EXPECT ?_
  with_reducible exact drained_ADVANCE_OR_ERROR (by first | assumption | exact handed_pending (by assumption))
  with_reducible refine keeps_EXPECT (by assumption) ?_
  with_reducible refine keeps_ADVANCE_OR_ERROR (by assumption) (fun _ _ _ => ?_)
  with_reducible refine keeps_SUBPARSE (h.parse_expression _ _ _ (by assumption)) (fun _ _ _ _ _ _ => ?_) (fun _ _ _ _ => ?_)
  with_reducible exact absurd (by assumption : false = true) (by decide)
  with_reducible refine keeps_ADVANCE_OR_ERROR (by assumption) (fun _ _ _ => ?_)
  with_reducible refine keeps_EXPECT (by assumption) ?_
  with_reducible refine keeps_ADVANCE_OR_ERROR (by assumption) (fun _ _ _ => ?_)
  with_reducible refine keeps_SUBPARSE (h.parse_statement _ _ (by assumption)) (fun _ _ _ _ _ _ => ?_) (fun _ _ _ _ => ?_)
  with_reducible exact drained_ADVANCE_OR_ERROR (by first | assumption | exact handed_pending (by assumption))
  with_reducible refine keeps_ADVANCE_OR_ERROR (by assumption) (fun _ _ _ => ?_)
  with_reducible refine keeps_EXPECT (by assumption) ?_
  with_reducible refine keeps_ADVANCE_OR_ERROR (by assumption) (fun _ _ _ => ?_)
  with_reducible refine keeps_SUBPARSE (h.parse_statement _ _ (by assumption)) (fun _ _ _ _ _ _ => ?_) (fun _ _ _ _ => ?_)
  with_reducible refine drained_pure (by first | assumption | exact handed_pending (by assumption)) ?_
  focus with_reducible (show Node.isNull _ = false; first | assumption | rfl | (simp [Node.isNull]; done))
  with_reducible refine keeps_pure (by assumption)

theorem keeps_parse_switch_stmt {X : List lexer_result} (hX : tail_ok X) {self : parser_fns}
    (h : fns_keeps X self) (hst : fns_sticky self) (sa sb : parser_base)
    (hl : longer X sa sb) : keeps false X (parse_switch_stmt self) (parse_switch_stmt self) sa sb := by
  unfold parse_switch_stmt
  with_reducible refine keeps_bind_current_token (by assumption) ?_
  with_reducible refine keeps_bind_assert_that (by assumption) (fun _ _ _ _ => ?_)
  with_reducible refine keeps_ADVANCE_OR_ERROR (by assumption) (fun _ _ _ => ?_)
  with_reducible refine keeps_EXPECT (by assumption) ?_
  with_reducible refine keeps_ADVANCE_OR_ERROR (by assumption) (fun _ _ _ => ?_)
  with_reducible refine keeps_SUBPARSE (h.parse_expression _ _ _ (by assumption)) (fun _ _ _ _ _ _ => ?_) (fun _ _ _ _ => ?_)
  with_reducible exact absurd (by assumption : false = true) (by decide)
  with_reducible refine keeps_ADVANCE_OR_ERROR (by assumption) (fun _ _ _ => ?_)
  with_reducible refine keeps_EXPECT (by assumption) ?_
  with_reducible refine keeps_ADVANCE_OR_ERROR (by assumption) (fun _ _ _ => ?_)
  with_reducible refine keeps_EXPECT (by assumption) ?_
  with_reducible refine keeps_ADVANCE_OR_ERROR (by assumption) (fun _ _ _ => ?_)
  with_reducible refine keeps_call (h.switch_clauses_loop _ _ _ _ _ _ (by assumption)) (by decide)

theorem keeps_switch_clauses_loop {X : List lexer_result} (hX : tail_ok X) {self : parser_fns}
    (h : fns_keeps X self) (hst : fns_sticky self) (loc : source_location) (value : Node) (hasDefault : Bool) (clauses : List Node) (sa sb : parser_base)
    (hl : longer X sa sb) : keeps false X (switch_clauses_loop self loc value hasDefault clauses) (switch_clauses_loop self loc value hasDefault clauses) sa sb := by
  unfold switch_clauses_loop
  with_reducible refine keeps_EXPECT_SEVERAL (by assumption) ?_
  with_reducible refine keeps_bind_current_token (by assumption) ?_
  with_reducible refine keeps_ite (fun _ => ?_) (fun _ => ?_)
  with_reducible refine keeps_pure (by assumption)
  with_reducible refine keeps_ite (fun _ => ?_) (fun _ => ?_)
  with_reducible refine keeps_ite (fun _ => ?_) (fun _ => ?_)
  with_reducible exact keeps_set_error_pure
  with_reducible refine keeps_ADVANCE_OR_ERROR (by assumption) (fun _ _ _ => ?_)
  with_reducible refine keeps_EXPECT (by assumption) ?_
  with_reducible refine keeps_ADVANCE_OR_ERROR (by assumption) (fun _ _ _ => ?_)
  with_reducible refine keeps_call (h.switch_stmts_loop _ _ _ _ _ _ _ (by assumption)) (by decide)
  with_reducible refine keeps_ite (fun _ => ?_) (fun _ => ?_)
  with_reducible refine keeps_ADVANCE_OR_ERROR (by assumption) (fun _ _ _ => ?_)
  with_reducible refine keeps_SUBPARSE (h.parse_expression _ _ _ (by assumption)) (fun _ _ _ _ _ _ => ?_) (fun _ _ _ _ => ?_)
  with_reducible exact absurd (by assumption : false = true) (by decide)
  with_reducible refine keeps_ADVANCE_OR_ERROR (by assumption) (fun _ _ _ => ?_)
  with_reducible refine keeps_EXPECT (by assumption) ?_
  with_reducible refine keeps_ADVANCE_OR_ERROR (by assumption) (fun _ _ _ => ?_)
  with_reducible refine keeps_call (h.switch_stmts_loop _ _ _ _ _ _ _ (by assumption)) (by decide)
  with_reducible exact keeps_set_error_pure

theorem keeps_switch_stmts_loop {X : List lexer_result} (hX : tail_ok X) {self : parser_fns}
    (h : fns_keeps X self) (hst : fns_sticky self) (loc : source_location) (value : Node) (hasDefault : Bool) (clauses : List Node) (clause : Node) (sa sb : parser_base)
    (hl : longer X sa sb) : keeps false X (switch_stmts_loop self loc value hasDefault clauses clause) (switch_stmts_loop self loc value hasDefault clauses clause) sa sb := by
  unfold switch_stmts_loop
  with_reducible refine keeps_bind_current_token (by assumption) ?_
  with_reducible refine keeps_ite (fun _ => ?_) (fun _ => ?_)
  with_reducible refine keeps_call (h.switch_clauses_loop _ _ _ _ _ _ (by assumption)) (by decide)
  with_reducible refine keeps_SUBPARSE (h.parse_statement _ _ (by assumption)) (fun _ _ _ _ _ _ => ?_) (fun _ _ _ _ => ?_)
  with_reducible exact drained_ADVANCE_OR_ERROR (by first | assumption | exact handed_pending (by assumption))
  with_reducible refine keeps_ADVANCE_OR_ERROR (by assumption) (fun _ _ _ => ?_)
  with_reducible refine keeps_call (h.switch_stmts_loop _ _ _ _ _ _ _ (by assumption)) (by decide)

theorem keeps_parse_return_stmt {X : List lexer_result} (hX : tail_ok X) {self : parser_fns}
    (h : fns_keeps X self) (hst : fns_sticky self) (sa sb : parser_base)
    (hl : longer X sa sb) : keeps true X (parse_return_stmt self) (parse_return_stmt self) sa sb := by
  unfold parse_return_stmt
  with_reducible refine keeps_bind_current_token (by assumption) ?_
  with_reducible refine keeps_bind_assert_that (by assumption) (fun _ _ _ _ => ?_)
  with_reducible refine keeps_bind_advance (by assumption) hX (fun _ _ _ => ?_) (fun _ _ => ?_) (fun _ _ => ?_)
  with_reducible refine keeps_bind_current_token (by assumption) ?_
  with_reducible refine keeps_ite (fun _ => ?_) (fun _ => ?_)
  with_reducible refine keeps_SUBPARSE (h.parse_expression _ _ _ (by assumption)) (fun _ _ _ _ _ _ => ?_) (fun _ _ _ _ => ?_)
  with_reducible exact absurd (by assumption : false = true) (by decide)
  with_reducible refine keeps_pure (by assumption)
  with_reducible refine keeps_pure (by assumption)
  with_reducible refine keeps_bind_current_token (by assumption) ?_
  with_reducible refine keeps_ite (fun _ => ?_) (fun _ => ?_)
  with_reducible refine keeps_SUBPARSE (h.parse_expression _ _ _ (by assumption)) (fun _ _ _ _ _ _ => ?_) (fun _ _ _ _ => ?_)
  with_reducible exact absurd (by assumption : false = true) (by decide)
  with_reducible refine keeps_pure (by assumption)
  with_reducible refine keeps_pure (by assumption)
  with_reducible refine keeps_left_current_token (by assumption) ?_
  focus with_reducible (refine keeps_left_ite_neg (by assumption) ?_ ?_; · simp)
  with_reducible refine keeps_right_current_token (by assumption) ?_
  focus with_reducible (refine keeps_right_ite_neg (by assumption) ?_ ?_; · (intro e; simp [e, is_expression_end, is_follow_expression, is_stmt_end]))
  with_reducible refine keeps_drained_h (by assumption) ?_
  with_reducible refine drained_pure (by first | assumption | exact handed_pending (by assumption)) ?_
  focus with_reducible (show Node.isNull _ = false; first | assumption | rfl | (simp [Node.isNull]; done))

theorem keeps_parse_throw_stmt {X : List lexer_result} (hX : tail_ok X) {self : parser_fns}
    (h : fns_keeps X self) (hst : fns_sticky self) (sa sb : parser_base)
    (hl : longer X sa sb) : keeps false X (parse_throw_stmt self) (parse_throw_stmt self) sa sb := by
  unfold parse_throw_stmt
  with_reducible refine keeps_bind_current_token (by assumption) ?_
  with_reducible refine keeps_bind_assert_that (by assumption) (fun _ _ _ _ => ?_)
  with_reducible refine keeps_ADVANCE_OR_ERROR (by assumption) (fun _ _ _ => ?_)
  with_reducible refine keeps_SUBPARSE (h.parse_expression _ _ _ (by assumption)) (fun _ _ _ _ _ _ => ?_) (fun _ _ _ _ => ?_)
  with_reducible exact absurd (by assumption : false = true) (by decide)
  with_reducible refine keeps_pure (by assumption)

theorem keeps_parse_try_stmt {X : List lexer_result} (hX : tail_ok X) {self : parser_fns}
    (h : fns_keeps X self) (hst : fns_sticky self) (sa sb : parser_base)
    (hl : longer X sa sb) : keeps true X (parse_try_stmt self) (parse_try_stmt self) sa sb := by
  unfold parse_try_stmt try_finally
  with_reducible refine keeps_bind_current_token (by assumption) ?_
  with_reducible refine keeps_bind_assert_that (by assumption) (fun _ _ _ _ => ?_)
  with_reducible refine keeps_ADVANCE_OR_ERROR (by assumption) (fun _ _ _ => ?_)
  with_reducible refine keeps_EXPECT (by assumption) ?_
  with_reducible refine keeps_SUBPARSE (h.parse_block _ _ (by assumption)) (fun _ _ _ _ _ _ => ?_) (fun _ _ _ _ => ?_)
  with_reducible exact absurd (by assumption : false = true) (by decide)
  with_reducible refine keeps_ADVANCE_OR_ERROR (by assumption) (fun _ _ _ => ?_)
  with_reducible refine keeps_bind_current_token (by assumption) ?_
  with_reducible refine keeps_ite (fun _ => ?_) (fun _ => ?_)
  with_reducible refine keeps_ADVANCE_OR_ERROR (by assumption) (fun _ _ _ => ?_)
  with_reducible refine keeps_EXPECT (by assumption) ?_
  with_reducible refine keeps_ADVANCE_OR_ERROR (by assumption) (fun _ _ _ => ?_)
  with_reducible refine keeps_EXPECT (by assumption) ?_
  with_reducible refine keeps_bind_current_token (by assumption) ?_
  with_reducible refine keeps_ADVANCE_OR_ERROR (by assumption) (fun _ _ _ => ?_)
  with_reducible refine keeps_EXPECT (by assumption) ?_
  with_reducible refine keeps_ADVANCE_OR_ERROR (by assumption) (fun _ _ _ => ?_)
  with_reducible refine keeps_EXPECT (by assumption) ?_
  with_reducible refine keeps_SUBPARSE (h.parse_block _ _ (by assumption)) (fun _ _ _ _ _ _ => ?_) (fun _ _ _ _ => ?_)
  with_reducible exact absurd (by assumption : false = true) (by decide)
  with_reducible refine keeps_bind_advance (by assumption) hX (fun _ _ _ => ?_) (fun _ _ => ?_) (fun _ _ => ?_)
  with_reducible refine keeps_ite (fun _ => ?_) (fun _ => ?_)
  with_reducible refine keeps_pure (by assumption)
  with_reducible refine keeps_bind_current_token (by assumption) ?_
  with_reducible refine keeps_ite (fun _ => ?_) (fun _ => ?_)
  with_reducible refine keeps_ADVANCE_OR_ERROR (by assumption) (fun _ _ _ => ?_)
  with_reducible refine keeps_EXPECT (by assumption) ?_
  with_reducible refine keeps_SUBPARSE (h.parse_block _ _ (by assumption)) (fun _ _ _ _ _ _ => ?_) (fun _ _ _ _ => ?_)
  with_reducible exact absurd (by assumption : false = true) (by decide)
  with_reducible refine keeps_pure (by assumption)
  with_reducible refine keeps_ite (fun _ => ?_) (fun _ => ?_)
  with_reducible exact keeps_set_error_pure
  with_reducible refine keeps_pure (by assumption)
  with_reducible refine keeps_ite (fun _ => ?_) (fun _ => ?_)
  with_reducible refine keeps_pure (by assumption)
  with_reducible refine keeps_bind_current_token (by assumption) ?_
  with_reducible refine keeps_ite (fun _ => ?_) (fun _ => ?_)
  with_reducible refine keeps_ADVANCE_OR_ERROR (by assumption) (fun _ _ _ => ?_)
  with_reducible refine keeps_EXPECT (by assumption) ?_
  with_reducible refine keeps_SUBPARSE (h.parse_block _ _ (by assumption)) (fun _ _ _ _ _ _ => ?_) (fun _ _ _ _ => ?_)
  with_reducible exact absurd (by assumption : false = true) (by decide)
  with_reducible refine keeps_pure (by assumption)
  with_reducible refine keeps_ite (fun _ => ?_) (fun _ => ?_)
  with_reducible exact keeps_set_error_pure
  with_reducible refine keeps_pure (by assumption)
  focus with_reducible (refine keeps_left_ite_pos (by assumption) ?_ ?_; · simp)
  focus with_reducible (refine keeps_right_ite_neg (by assumption) ?_ ?_; · (intro e; simp [e, is_expression_end, is_follow_expression, is_stmt_end]))
  with_reducible refine keeps_right_current_token (by assumption) ?_
  focus with_reducible (refine keeps_right_ite_neg (by assumption) ?_ ?_; · (intro e; simp [e, is_expression_end, is_follow_expression, is_stmt_end]))
  focus with_reducible (refine keeps_right_ite_neg (by assumption) ?_ ?_; · (intro e; simp [e, is_expression_end, is_follow_expression, is_stmt_end]))
  with_reducible refine keeps_drained_h (by assumption) ?_
  with_reducible refine drained_pure (by first | assumption | exact handed_pending (by assumption)) ?_
  focus with_reducible (show Node.isNull _ = false; first | assumption | rfl | (simp [Node.isNull]; done))
  with_reducible refine keeps_bind_current_token (by assumption) ?_
  with_reducible refine keeps_ite (fun _ => ?_) (fun _ => ?_)
  with_reducible refine keeps_ADVANCE_OR_ERROR (by assumption) (fun _ _ _ => ?_)
  with_reducible refine keeps_EXPECT (by assumption) ?_
  with_reducible refine keeps_SUBPARSE (h.parse_block _ _ (by assumption)) (fun _ _ _ _ _ _ => ?_) (fun _ _ _ _ => ?_)
  with_reducible exact absurd (by assumption : false = true) (by decide)
  with_reducible refine keeps_pure (by assumption)
  with_reducible refine keeps_ite (fun _ => ?_) (fun _ => ?_)
  with_reducible exact keeps_set_error_pure
  with_reducible refine keeps_pure (by assumption)

theorem keeps_parse_expression {X : List lexer_result} (hX : tail_ok X) {self : parser_fns}
    (h : fns_keeps X self) (hst : fns_sticky self) (comma_is_operator : Bool) (sa sb : parser_base)
    (hl : longer X sa sb) : keeps false X (parse_expression self comma_is_operator) (parse_expression self comma_is_operator) sa sb := by
  unfold parse_expression
  with_reducible refine keeps_bind_call (h.parse_unary_or_atomic_expr _ _ (by assumption)) (fun _ => ?_) (fun _ _ _ _ _ _ => ?_) (fun _ _ _ _ => ?_)
  with_reducible refine sticky_ite ?_ ?_
  with_reducible refine sticky_bind ?_ (fun _ => ?_)
  with_reducible exact sticky_current_token
  with_reducible refine sticky_bind ?_ (fun _ => ?_)
  with_reducible exact sticky_advance
  with_reducible refine sticky_ite ?_ ?_
  with_reducible exact sticky_pure _
  with_reducible refine sticky_bind ?_ (fun _ => ?_)
  with_reducible exact sticky_current_token
  with_reducible refine sticky_ite ?_ ?_
  with_reducible refine sticky_bind ?_ (fun _ => ?_)
  with_reducible exact sticky_rewind _
  with_reducible exact sticky_pure _
  with_reducible refine sticky_ite ?_ ?_
  with_reducible exact hst.parse_bin_op _ _
  with_reducible refine sticky_bind ?_ (fun _ => ?_)
  with_reducible exact sticky_rewind _
  with_reducible exact sticky_pure _
  with_reducible refine sticky_bind ?_ (fun _ => ?_)
  with_reducible exact sticky_has_error
  with_reducible refine sticky_ite ?_ ?_
  with_reducible exact sticky_pure _
  with_reducible refine sticky_bind ?_ (fun _ => ?_)
  with_reducible exact sticky_current_token
  with_reducible refine sticky_bind ?_ (fun _ => ?_)
  with_reducible exact sticky_set_error _ _
  with_reducible exact sticky_pure _
  with_reducible exact absurd (by assumption : false = true) (by decide)
  with_reducible refine keeps_ite (fun _ => ?_) (fun _ => ?_)
  with_reducible refine keeps_bind_current_token (by assumption) ?_
  with_reducible refine keeps_bind_advance (by assumption) hX (fun _ _ _ => ?_) (fun _ _ => ?_) (fun _ _ => ?_)
  with_reducible refine keeps_ite (fun _ => ?_) (fun _ => ?_)
  with_reducible refine keeps_pure (by assumption)
  with_reducible refine keeps_bind_current_token (by assumption) ?_
  with_reducible refine keeps_ite (fun _ => ?_) (fun _ => ?_)
  with_reducible refine keeps_bind_rewind (by assumption) ?_ (fun _ _ _ => ?_)
  with_reducible exact longer.cur_ok (by assumption)
  with_reducible refine keeps_pure (by assumption)
  with_reducible refine keeps_ite (fun _ => ?_) (fun _ => ?_)
  with_reducible refine keeps_call (h.parse_bin_op _ _ _ _ (by assumption)) (by decide)
  with_reducible refine keeps_bind_rewind (by assumption) ?_ (fun _ _ _ => ?_)
  with_reducible exact longer.cur_ok (by assumption)
  with_reducible refine keeps_pure (by assumption)
  with_reducible refine keeps_ite (fun _ => ?_) (fun _ => ?_)
  with_reducible refine keeps_pure (by assumption)
  with_reducible refine keeps_bind_current_token (by assumption) ?_
  with_reducible refine keeps_ite (fun _ => ?_) (fun _ => ?_)
  with_reducible refine keeps_bind_rewind (by assumption) ?_ (fun _ _ _ => ?_)
  with_reducible exact longer.cur_ok (by assumption)
  with_reducible refine keeps_pure (by assumption)
  with_reducible refine keeps_ite (fun _ => ?_) (fun _ => ?_)
  with_reducible refine keeps_call (h.parse_bin_op _ _ _ _ (by assumption)) (by decide)
  with_reducible refine keeps_bind_rewind (by assumption) ?_ (fun _ _ _ => ?_)
  with_reducible exact longer.cur_ok (by assumption)
  with_reducible refine keeps_pure (by assumption)
  focus with_reducible (refine keeps_left_ite_pos (by assumption) ?_ ?_; · simp)
  focus with_reducible (refine keeps_right_ite_neg (by assumption) ?_ ?_; · (intro e; simp [e, is_expression_end, is_follow_expression, is_stmt_end]))
  with_reducible refine keeps_right_current_token (by assumption) ?_
  focus with_reducible (refine keeps_right_ite_pos (by assumption) ?_ ?_; · (intro e; simp [e, is_expression_end, is_follow_expression, is_stmt_end]))
  with_reducible refine keeps_right_rewind_handed (by assumption) (by first | rfl | assumption | exact Eq.symm (by assumption)) (fun _ _ => ?_)
  with_reducible refine keeps_pure (by assumption)
  with_reducible refine keeps_bind_has_error (by assumption) ?_
  with_reducible refine keeps_ite (fun _ => ?_) (fun _ => ?_)
  with_reducible refine keeps_pure (by assumption)
  with_reducible refine keeps_bind_current_token (by assumption) ?_
  with_reducible exact keeps_set_error_pure

theorem keeps_parse_unary_or_atomic_expr {X : List lexer_result} (hX : tail_ok X) {self : parser_fns}
    (h : fns_keeps X self) (hst : fns_sticky self) (sa sb : parser_base)
    (hl : longer X sa sb) : keeps false X (parse_unary_or_atomic_expr self) (parse_unary_or_atomic_expr self) sa sb := by
  unfold parse_unary_or_atomic_expr
  with_reducible refine keeps_bind_current_token (by assumption) ?_
  with_reducible refine keeps_ite (fun _ => ?_) (fun _ => ?_)
  with_reducible refine keeps_ADVANCE_OR_ERROR (by assumption) (fun _ _ _ => ?_)
  with_reducible refine keeps_SUBPARSE (h.parse_atomic_expr _ _ (by assumption)) (fun _ _ _ _ _ _ => ?_) (fun _ _ _ _ => ?_)
  with_reducible exact absurd (by assumption : false = true) (by decide)
  with_reducible refine keeps_bind_call (keeps_make_unary_prefix_op hX _ _ _ _ (by assumption)) (fun _ => ?_) (fun _ _ _ _ _ _ => ?_) (fun _ _ _ _ => ?_)
  with_reducible exact sticky_ASSERT_PARSE_RESULT _ _
  with_reducible exact absurd (by assumption : false = true) (by decide)
  with_reducible refine keeps_ASSERT_PARSE_RESULT (by assumption) (fun _ _ => ?_)
  with_reducible refine keeps_pure (by assumption)
  with_reducible refine keeps_bind_call (h.parse_atomic_expr _ _ (by assumption)) (fun _ => ?_) (fun _ _ _ _ _ _ => ?_) (fun _ _ _ _ => ?_)
  with_reducible exact sticky_ASSERT_PARSE_RESULT _ _
  with_reducible exact absurd (by assumption : false = true) (by decide)
  with_reducible refine keeps_ASSERT_PARSE_RESULT (by assumption) (fun _ _ => ?_)
  with_reducible refine keeps_pure (by assumption)

theorem keeps_atomic_postfix_loop {X : List lexer_result} (hX : tail_ok X) {self : parser_fns}
    (h : fns_keeps X self) (hst : fns_sticky self) (expr : Node) (sa sb : parser_base)
    (hl : longer X sa sb) : keeps false X (atomic_postfix_loop self expr) (atomic_postfix_loop self expr) sa sb := by
  unfold atomic_postfix_loop
  with_reducible refine keeps_bind_current_token (by assumption) ?_
  with_reducible refine keeps_bind_advance (by assumption) hX (fun _ _ _ => ?_) (fun _ _ => ?_) (fun _ _ => ?_)
  with_reducible refine keeps_ite (fun _ => ?_) (fun _ => ?_)
  with_reducible refine keeps_bind_current_token (by assumption) ?_
  with_reducible refine keeps_ite (fun _ => ?_) (fun _ => ?_)
  with_reducible refine keeps_bind_call (keeps_parse_member_access hX _ _ _ (by assumption)) (fun _ => ?_) (fun _ _ _ _ _ _ => ?_) (fun _ _ _ _ => ?_)
  with_reducible exact hst.atomic_postfix_loop _
  with_reducible exact absurd (by assumption : false = true) (by decide)
  with_reducible refine keeps_call (h.atomic_postfix_loop _ _ _ (by assumption)) (by decide)
  with_reducible refine keeps_ite (fun _ => ?_) (fun _ => ?_)
  with_reducible refine keeps_bind_call (h.parse_call _ _ _ (by assumption)) (fun _ => ?_) (fun _ _ _ _ _ _ => ?_) (fun _ _ _ _ => ?_)
  with_reducible exact hst.atomic_postfix_loop _
  with_reducible exact absurd (by assumption : false = true) (by decide)
  with_reducible refine keeps_call (h.atomic_postfix_loop _ _ _ (by assumption)) (by decide)
  with_reducible refine keeps_ite (fun _ => ?_) (fun _ => ?_)
  with_reducible refine keeps_bind_call (h.parse_computed_access _ _ _ (by assumption)) (fun _ => ?_) (fun _ _ _ _ _ _ => ?_) (fun _ _ _ _ => ?_)
  with_reducible exact hst.atomic_postfix_loop _
  with_reducible exact absurd (by assumption : false = true) (by decide)
  with_reducible refine keeps_call (h.atomic_postfix_loop _ _ _ (by assumption)) (by decide)
  with_reducible refine keeps_bind_rewind (by assumption) ?_ (fun _ _ _ => ?_)
  with_reducible exact longer.cur_ok (by assumption)
  with_reducible refine keeps_pure (by assumption)
  with_reducible exact absurd rfl (by assumption : ¬ true = true)
  with_reducible refine keeps_ite (fun _ => ?_) (fun _ => ?_)
  with_reducible exact absurd (by assumption : false = true) (by decide)
  with_reducible refine keeps_pure (by assumption)
  focus with_reducible (refine keeps_left_ite_neg (by assumption) ?_ ?_; · simp)
  focus with_reducible (refine keeps_right_ite_pos (by assumption) ?_ ?_; · (intro e; simp [e, is_expression_end, is_follow_expression, is_stmt_end]))
  with_reducible refine keeps_right_current_token (by assumption) ?_
  focus with_reducible (refine keeps_right_ite_neg (by assumption) ?_ ?_; · (intro e; simp [e, is_expression_end, is_follow_expression, is_stmt_end]))
  focus with_reducible (refine keeps_right_ite_neg (by assumption) ?_ ?_; · (intro e; simp [e, is_expression_end, is_follow_expression, is_stmt_end]))
  focus with_reducible (refine keeps_right_ite_neg (by assumption) ?_ ?_; · (intro e; simp [e, is_expression_end, is_follow_expression, is_stmt_end]))
  with_reducible refine keeps_right_rewind_handed (by assumption) (by first | rfl | assumption | exact Eq.symm (by assumption)) (fun _ _ => ?_)
  with_reducible refine keeps_pure (by assumption)

theorem keeps_parse_atomic_expr {X : List lexer_result} (hX : tail_ok X) {self : parser_fns}
    (h : fns_keeps X self) (hst : fns_sticky self) (sa sb : parser_base)
    (hl : longer X sa sb) : keeps false X (parse_atomic_expr self) (parse_atomic_expr self) sa sb := by
  unfold parse_atomic_expr atomic_start
  with_reducible refine keeps_bind_assoc ?_
  with_reducible refine keeps_bind_current_token (by assumption) ?_
  with_reducible refine keeps_bind_ite (fun _ => ?_) (fun _ => ?_)
  with_reducible refine keeps_bind_call (h.parse_atomic_keyword_expr _ _ (by assumption)) (fun _ => ?_) (fun _ _ _ _ _ _ => ?_) (fun _ _ _ _ => ?_)
  with_reducible refine sticky_ite ?_ ?_
  with_reducible refine sticky_bind ?_ (fun _ => ?_)
  with_reducible exact sticky_has_error
  with_reducible refine sticky_ite ?_ ?_
  with_reducible refine sticky_bind ?_ (fun _ => ?_)
  with_reducible exact sticky_current_token
  with_reducible refine sticky_bind ?_ (fun _ => ?_)
  with_reducible exact sticky_set_error _ _
  with_reducible exact sticky_pure _
  with_reducible exact sticky_pure _
  with_reducible refine sticky_bind ?_ (fun _ => ?_)
  with_reducible exact hst.atomic_postfix_loop _
  with_reducible exact sticky_atomic_postfix_step _
  with_reducible exact absurd (by assumption : false = true) (by decide)
  with_reducible refine keeps_ite (fun _ => ?_) (fun _ => ?_)
  with_reducible refine keeps_bind_has_error (by assumption) ?_
  with_reducible refine keeps_ite (fun _ => ?_) (fun _ => ?_)
  with_reducible refine keeps_bind_current_token (by assumption) ?_
  with_reducible exact keeps_set_error_pure
  with_reducible refine keeps_pure (by assumption)
  with_reducible refine keeps_bind_call (h.atomic_postfix_loop _ _ _ (by assumption)) (fun _ => ?_) (fun _ _ _ _ _ _ => ?_) (fun _ _ _ _ => ?_)
  with_reducible exact sticky_atomic_postfix_step _
  with_reducible exact absurd (by assumption : false = true) (by decide)
  with_reducible refine keeps_call (keeps_atomic_postfix_step hX _ _ _ (by assumption)) (by decide)
  with_reducible refine keeps_bind_ite (fun _ => ?_) (fun _ => ?_)
  with_reducible refine keeps_bind_pure ?_
  with_reducible refine keeps_ite (fun _ => ?_) (fun _ => ?_)
  with_reducible refine keeps_bind_has_error (by assumption) ?_
  with_reducible refine keeps_ite (fun _ => ?_) (fun _ => ?_)
  with_reducible refine keeps_bind_current_token (by assumption) ?_
  with_reducible exact keeps_set_error_pure
  with_reducible refine keeps_pure (by assumption)
  with_reducible refine keeps_bind_call (h.atomic_postfix_loop _ _ _ (by assumption)) (fun _ => ?_) (fun _ _ _ _ _ _ => ?_) (fun _ _ _ _ => ?_)
  with_reducible exact sticky_atomic_postfix_step _
  with_reducible exact absurd (by assumption : false = true) (by decide)
  with_reducible refine keeps_call (keeps_atomic_postfix_step hX _ _ _ (by assumption)) (by decide)
  with_reducible refine keeps_bind_ite (fun _ => ?_) (fun _ => ?_)
  with_reducible refine keeps_bind_call (keeps_parse_number_literal hX _ _ (by assumption)) (fun _ => ?_) (fun _ _ _ _ _ _ => ?_) (fun _ _ _ _ => ?_)
  with_reducible refine sticky_ite ?_ ?_
  with_reducible refine sticky_bind ?_ (fun _ => ?_)
  with_reducible exact sticky_has_error
  with_reducible refine sticky_ite ?_ ?_
  with_reducible refine sticky_bind ?_ (fun _ => ?_)
  with_reducible exact sticky_current_token
  with_reducible refine sticky_bind ?_ (fun _ => ?_)
  with_reducible exact sticky_set_error _ _
  with_reducible exact sticky_pure _
  with_reducible exact sticky_pure _
  with_reducible refine sticky_bind ?_ (fun _ => ?_)
  with_reducible exact hst.atomic_postfix_loop _
  with_reducible exact sticky_atomic_postfix_step _
  with_reducible exact absurd (by assumption : false = true) (by decide)
  with_reducible refine keeps_ite (fun _ => ?_) (fun _ => ?_)
  with_reducible refine keeps_bind_has_error (by assumption) ?_
  with_reducible refine keeps_ite (fun _ => ?_) (fun _ => ?_)
  with_reducible refine keeps_bind_current_token (by assumption) ?_
  with_reducible exact keeps_set_error_pure
  with_reducible refine keeps_pure (by assumption)
  with_reducible refine keeps_bind_call (h.atomic_postfix_loop _ _ _ (by assumption)) (fun _ => ?_) (fun _ _ _ _ _ _ => ?_) (fun _ _ _ _ => ?_)
  with_reducible exact sticky_atomic_postfix_step _
  with_reducible exact absurd (by assumption : false = true) (by decide)
  with_reducible refine keeps_call (keeps_atomic_postfix_step hX _ _ _ (by assumption)) (by decide)
  with_reducible refine keeps_bind_ite (fun _ => ?_) (fun _ => ?_)
  with_reducible refine keeps_bind_call (keeps_parse_string_literal hX _ _ (by assumption)) (fun _ => ?_) (fun _ _ _ _ _ _ => ?_) (fun _ _ _ _ => ?_)
  with_reducible refine sticky_ite ?_ ?_
  with_reducible refine sticky_bind ?_ (fun _ => ?_)
  with_reducible exact sticky_has_error
  with_reducible refine sticky_ite ?_ ?_
  with_reducible refine sticky_bind ?_ (fun _ => ?_)
  with_reducible exact sticky_current_token
  with_reducible refine sticky_bind ?_ (fun _ => ?_)
  with_reducible exact sticky_set_error _ _
  with_reducible exact sticky_pure _
  with_reducible exact sticky_pure _
  with_reducible refine sticky_bind ?_ (fun _ => ?_)
  with_reducible exact hst.atomic_postfix_loop _
  with_reducible exact sticky_atomic_postfix_step _
  with_reducible exact absurd (by assumption : false = true) (by decide)
  with_reducible refine keeps_ite (fun _ => ?_) (fun _ => ?_)
  with_reducible refine keeps_bind_has_error (by assumption) ?_
  with_reducible refine keeps_ite (fun _ => ?_) (fun _ => ?_)
  with_reducible refine keeps_bind_current_token (by assumption) ?_
  with_reducible exact keeps_set_error_pure
  with_reducible refine keeps_pure (by assumption)
  with_reducible refine keeps_bind_call (h.atomic_postfix_loop _ _ _ (by assumption)) (fun _ => ?_) (fun _ _ _ _ _ _ => ?_) (fun _ _ _ _ => ?_)
  with_reducible exact sticky_atomic_postfix_step _
  with_reducible exact absurd (by assumption : false = true) (by decide)
  with_reducible refine keeps_call (keeps_atomic_postfix_step hX _ _ _ (by assumption)) (by decide)
  with_reducible refine keeps_bind_ite (fun _ => ?_) (fun _ => ?_)
  with_reducible refine keeps_bind_call (h.parse_template_literal _ _ (by assumption)) (fun _ => ?_) (fun _ _ _ _ _ _ => ?_) (fun _ _ _ _ => ?_)
  with_reducible refine sticky_ite ?_ ?_
  with_reducible refine sticky_bind ?_ (fun _ => ?_)
  with_reducible exact sticky_has_error
  with_reducible refine sticky_ite ?_ ?_
  with_reducible refine sticky_bind ?_ (fun _ => ?_)
  with_reducible exact sticky_current_token
  with_reducible refine sticky_bind ?_ (fun _ => ?_)
  with_reducible exact sticky_set_error _ _
  with_reducible exact sticky_pure _
  with_reducible exact sticky_pure _
  with_reducible refine sticky_bind ?_ (fun _ => ?_)
  with_reducible exact hst.atomic_postfix_loop _
  with_reducible exact sticky_atomic_postfix_step _
  with_reducible exact absurd (by assumption : false = true) (by decide)
  with_reducible refine keeps_ite (fun _ => ?_) (fun _ => ?_)
  with_reducible refine keeps_bind_has_error (by assumption) ?_
  with_reducible refine keeps_ite (fun _ => ?_) (fun _ => ?_)
  with_reducible refine keeps_bind_current_token (by assumption) ?_
  with_reducible exact keeps_set_error_pure
  with_reducible refine keeps_pure (by assumption)
  with_reducible refine keeps_bind_call (h.atomic_postfix_loop _ _ _ (by assumption)) (fun _ => ?_) (fun _ _ _ _ _ _ => ?_) (fun _ _ _ _ => ?_)
  with_reducible exact sticky_atomic_postfix_step _
  with_reducible exact absurd (by assumption : false = true) (by decide)
  with_reducible refine keeps_call (keeps_atomic_postfix_step hX _ _ _ (by assumption)) (by decide)
  with_reducible refine keeps_bind_ite (fun _ => ?_) (fun _ => ?_)
  with_reducible refine keeps_bind_pure ?_
  with_reducible refine keeps_ite (fun _ => ?_) (fun _ => ?_)
  with_reducible refine keeps_bind_has_error (by assumption) ?_
  with_reducible refine keeps_ite (fun _ => ?_) (fun _ => ?_)
  with_reducible refine keeps_bind_current_token (by assumption) ?_
  with_reducible exact keeps_set_error_pure
  with_reducible refine keeps_pure (by assumption)
  with_reducible refine keeps_bind_call (h.atomic_postfix_loop _ _ _ (by assumption)) (fun _ => ?_) (fun _ _ _ _ _ _ => ?_) (fun _ _ _ _ => ?_)
  with_reducible exact sticky_atomic_postfix_step _
  with_reducible exact absurd (by assumption : false = true) (by decide)
  with_reducible refine keeps_call (keeps_atomic_postfix_step hX _ _ _ (by assumption)) (by decide)
  with_reducible refine keeps_bind_ite (fun _ => ?_) (fun _ => ?_)
  with_reducible refine keeps_bind_call (h.parse_array_literal _ _ (by assumption)) (fun _ => ?_) (fun _ _ _ _ _ _ => ?_) (fun _ _ _ _ => ?_)
  with_reducible refine sticky_ite ?_ ?_
  with_reducible refine sticky_bind ?_ (fun _ => ?_)
  with_reducible exact sticky_has_error
  with_reducible refine sticky_ite ?_ ?_
  with_reducible refine sticky_bind ?_ (fun _ => ?_)
  with_reducible exact sticky_current_token
  with_reducible refine sticky_bind ?_ (fun _ => ?_)
  with_reducible exact sticky_set_error _ _
  with_reducible exact sticky_pure _
  with_reducible exact sticky_pure _
  with_reducible refine sticky_bind ?_ (fun _ => ?_)
  with_reducible exact hst.atomic_postfix_loop _
  with_reducible exact sticky_atomic_postfix_step _
  with_reducible exact absurd (by assumption : false = true) (by decide)
  with_reducible refine keeps_ite (fun _ => ?_) (fun _ => ?_)
  with_reducible refine keeps_bind_has_error (by assumption) ?_
  with_reducible refine keeps_ite (fun _ => ?_) (fun _ => ?_)
  with_reducible refine keeps_bind_current_token (by assumption) ?_
  with_reducible exact keeps_set_error_pure
  with_reducible refine keeps_pure (by assumption)
  with_reducible refine keeps_bind_call (h.atomic_postfix_loop _ _ _ (by assumption)) (fun _ => ?_) (fun _ _ _ _ _ _ => ?_) (fun _ _ _ _ => ?_)
  with_reducible exact sticky_atomic_postfix_step _
  with_reducible exact absurd (by assumption : false = true) (by decide)
  with_reducible refine keeps_call (keeps_atomic_postfix_step hX _ _ _ (by assumption)) (by decide)
  with_reducible refine keeps_bind_ite (fun _ => ?_) (fun _ => ?_)
  with_reducible refine keeps_bind_call (h.parse_object_literal _ _ (by assumption)) (fun _ => ?_) (fun _ _ _ _ _ _ => ?_) (fun _ _ _ _ => ?_)
  with_reducible refine sticky_ite ?_ ?_
  with_reducible refine sticky_bind ?_ (fun _ => ?_)
  with_reducible exact sticky_has_error
  with_reducible refine sticky_ite ?_ ?_
  with_reducible refine sticky_bind ?_ (fun _ => ?_)
  with_reducible exact sticky_current_token
  with_reducible refine sticky_bind ?_ (fun _ => ?_)
  with_reducible exact sticky_set_error _ _
  with_reducible exact sticky_pure _
  with_reducible exact sticky_pure _
  with_reducible refine sticky_bind ?_ (fun _ => ?_)
  with_reducible exact hst.atomic_postfix_loop _
  with_reducible exact sticky_atomic_postfix_step _
  with_reducible exact absurd (by assumption : false = true) (by decide)
  with_reducible refine keeps_ite (fun _ => ?_) (fun _ => ?_)
  with_reducible refine keeps_bind_has_error (by assumption) ?_
  with_reducible refine keeps_ite (fun _ => ?_) (fun _ => ?_)
  with_reducible refine keeps_bind_current_token (by assumption) ?_
  with_reducible exact keeps_set_error_pure
  with_reducible refine keeps_pure (by assumption)
  with_reducible refine keeps_bind_call (h.atomic_postfix_loop _ _ _ (by assumption)) (fun _ => ?_) (fun _ _ _ _ _ _ => ?_) (fun _ _ _ _ => ?_)
  with_reducible exact sticky_atomic_postfix_step _
  with_reducible exact absurd (by assumption : false = true) (by decide)
  with_reducible refine keeps_call (keeps_atomic_postfix_step hX _ _ _ (by assumption)) (by decide)
  with_reducible refine keeps_bind_ite (fun _ => ?_) (fun _ => ?_)
  with_reducible refine keeps_bind_call (h.parse_parens_expr _ _ (by assumption)) (fun _ => ?_) (fun _ _ _ _ _ _ => ?_) (fun _ _ _ _ => ?_)
  with_reducible refine sticky_ite ?_ ?_
  with_reducible refine sticky_bind ?_ (fun _ => ?_)
  with_reducible exact sticky_has_error
  with_reducible refine sticky_ite ?_ ?_
  with_reducible refine sticky_bind ?_ (fun _ => ?_)
  with_reducible exact sticky_current_token
  with_reducible refine sticky_bind ?_ (fun _ => ?_)
  with_reducible exact sticky_set_error _ _
  with_reducible exact sticky_pure _
  with_reducible exact sticky_pure _
  with_reducible refine sticky_bind ?_ (fun _ => ?_)
  with_reducible exact hst.atomic_postfix_loop _
  with_reducible exact sticky_atomic_postfix_step _
  with_reducible exact absurd (by assumption : false = true) (by decide)
  with_reducible refine keeps_ite (fun _ => ?_) (fun _ => ?_)
  with_reducible refine keeps_bind_has_error (by assumption) ?_
  with_reducible refine keeps_ite (fun _ => ?_) (fun _ => ?_)
  with_reducible refine keeps_bind_current_token (by assumption) ?_
  with_reducible exact keeps_set_error_pure
  with_reducible refine keeps_pure (by assumption)
  with_reducible refine keeps_bind_call (h.atomic_postfix_loop _ _ _ (by assumption)) (fun _ => ?_) (fun _ _ _ _ _ _ => ?_) (fun _ _ _ _ => ?_)
  with_reducible exact sticky_atomic_postfix_step _
  with_reducible exact absurd (by assumption : false = true) (by decide)
  with_reducible refine keeps_call (keeps_atomic_postfix_step hX _ _ _ (by assumption)) (by decide)
  with_reducible refine keeps_bind_pure ?_
  with_reducible refine keeps_ite (fun _ => ?_) (fun _ => ?_)
  with_reducible refine keeps_bind_has_error (by assumption) ?_
  with_reducible refine keeps_ite (fun _ => ?_) (fun _ => ?_)
  with_reducible refine keeps_bind_current_token (by assumption) ?_
  with_reducible exact keeps_set_error_pure
  with_reducible refine keeps_pure (by assumption)
  with_reducible refine keeps_bind_call (h.atomic_postfix_loop _ _ _ (by assumption)) (fun _ => ?_) (fun _ _ _ _ _ _ => ?_) (fun _ _ _ _ => ?_)
  with_reducible exact sticky_atomic_postfix_step _
  with_reducible exact absurd (by assumption : false = true) (by decide)
  with_reducible refine keeps_call (keeps_atomic_postfix_step hX _ _ _ (by assumption)) (by decide)

theorem keeps_parens_list_loop {X : List lexer_result} (hX : tail_ok X) {self : parser_fns}
    (h : fns_keeps X self) (hst : fns_sticky self) (loc : source_location) (reason_no_paramlist : Option token) (exprs : List Node) (sa sb : parser_base)
    (hl : longer X sa sb) : keeps false X (parens_list_loop self loc reason_no_paramlist exprs) (parens_list_loop self loc reason_no_paramlist exprs) sa sb := by
  unfold parens_list_loop parens_tail parens_arrow
  with_reducible refine keeps_bind_current_token (by assumption) ?_
  with_reducible refine keeps_ite (fun _ => ?_) (fun _ => ?_)
  with_reducible refine keeps_ADVANCE_OR_ERROR (by assumption) (fun _ _ _ => ?_)
  with_reducible refine keeps_EXPECT (by assumption) ?_
  with_reducible refine keeps_bind_current_token (by assumption) ?_
  with_reducible refine keeps_ADVANCE_OR_ERROR (by assumption) (fun _ _ _ => ?_)
  with_reducible refine keeps_EXPECT (by assumption) ?_
  with_reducible refine keeps_EXPECT (by assumption) ?_
  with_reducible refine keeps_bind_current_token (by assumption) ?_
  with_reducible refine keeps_bind_advance (by assumption) hX (fun _ _ _ => ?_) (fun _ _ => ?_) (fun _ _ => ?_)
  with_reducible refine keeps_bind_current_token (by assumption) ?_
  with_reducible refine keeps_ite (fun _ => ?_) (fun _ => ?_)
  focus with_reducible (show keeps _ _ _ _ _ _; split)
  with_reducible exact keeps_set_error_pure
  with_reducible refine keeps_ADVANCE_OR_ERROR (by assumption) (fun _ _ _ => ?_)
  with_reducible refine keeps_bind_current_token (by assumption) ?_
  with_reducible refine keeps_ite (fun _ => ?_) (fun _ => ?_)
  with_reducible refine keeps_bind_call (h.parse_block_or_obj _ _ _ (by assumption)) (fun _ => ?_) (fun _ _ _ _ _ _ => ?_) (fun _ _ _ _ => ?_)
  with_reducible exact sticky_ASSERT_PARSE_RESULT _ _
  with_reducible exact absurd (by assumption : false = true) (by decide)
  with_reducible refine keeps_ASSERT_PARSE_RESULT (by assumption) (fun _ _ => ?_)
  with_reducible refine keeps_pure (by assumption)
  with_reducible refine keeps_bind_call (h.parse_expression _ _ _ (by assumption)) (fun _ => ?_) (fun _ _ _ _ _ _ => ?_) (fun _ _ _ _ => ?_)
  with_reducible exact sticky_ASSERT_PARSE_RESULT _ _
  with_reducible exact absurd (by assumption : false = true) (by decide)
  with_reducible refine keeps_ASSERT_PARSE_RESULT (by assumption) (fun _ _ => ?_)
  with_reducible refine keeps_pure (by assumption)
  with_reducible refine keeps_ite (fun _ => ?_) (fun _ => ?_)
  with_reducible refine keeps_bind_rewind (by assumption) ?_ (fun _ _ _ => ?_)
  with_reducible exact longer.cur_ok (by assumption)
  with_reducible exact keeps_set_error_pure
  with_reducible exact absurd rfl (by assumption : ¬ true = true)
  with_reducible refine keeps_bind_current_token (by assumption) ?_
  with_reducible refine keeps_ite (fun _ => ?_) (fun _ => ?_)
  focus with_reducible (show keeps _ _ _ _ _ _; split)
  with_reducible exact keeps_set_error_pure
  with_reducible refine keeps_ADVANCE_OR_ERROR (by assumption) (fun _ _ _ => ?_)
  with_reducible refine keeps_bind_current_token (by assumption) ?_
  with_reducible refine keeps_ite (fun _ => ?_) (fun _ => ?_)
  with_reducible refine keeps_bind_call (h.parse_block_or_obj _ _ _ (by assumption)) (fun _ => ?_) (fun _ _ _ _ _ _ => ?_) (fun _ _ _ _ => ?_)
  with_reducible exact sticky_ASSERT_PARSE_RESULT _ _
  with_reducible exact absurd (by assumption : false = true) (by decide)
  with_reducible refine keeps_ASSERT_PARSE_RESULT (by assumption) (fun _ _ => ?_)
  with_reducible refine keeps_pure (by assumption)
  with_reducible refine keeps_bind_call (h.parse_expression _ _ _ (by assumption)) (fun _ => ?_) (fun _ _ _ _ _ _ => ?_) (fun _ _ _ _ => ?_)
  with_reducible exact sticky_ASSERT_PARSE_RESULT _ _
  with_reducible exact absurd (by assumption : false = true) (by decide)
  with_reducible refine keeps_ASSERT_PARSE_RESULT (by assumption) (fun _ _ => ?_)
  with_reducible refine keeps_pure (by assumption)
  with_reducible refine keeps_ite (fun _ => ?_) (fun _ => ?_)
  with_reducible exact absurd (by assumption : false = true) (by decide)
  with_reducible refine keeps_bind_pure ?_
  with_reducible exact keeps_set_error_pure
  with_reducible refine keeps_left_current_token (by assumption) ?_
  focus with_reducible (refine keeps_left_ite_neg (by assumption) ?_ ?_; · simp)
  focus with_reducible (refine keeps_left_ite_neg (by assumption) ?_ ?_; · simp)
  with_reducible refine keeps_left_pure_bind (by assumption) ?_
  with_reducible exact keeps_set_error_pure
  with_reducible refine keeps_SUBPARSE (h.parse_expression _ _ _ (by assumption)) (fun _ _ _ _ _ _ => ?_) (fun _ _ _ _ => ?_)
  with_reducible exact absurd (by assumption : false = true) (by decide)
  with_reducible refine keeps_bind_assert_that (by assumption) (fun _ _ _ _ => ?_)
  with_reducible refine keeps_ADVANCE_OR_ERROR (by assumption) (fun _ _ _ => ?_)
  with_reducible refine keeps_EXPECT_SEVERAL (by assumption) ?_
  with_reducible refine keeps_bind_current_token (by assumption) ?_
  with_reducible refine keeps_ite (fun _ => ?_) (fun _ => ?_)
  with_reducible refine keeps_EXPECT (by assumption) ?_
  with_reducible refine keeps_bind_current_token (by assumption) ?_
  with_reducible refine keeps_bind_advance (by assumption) hX (fun _ _ _ => ?_) (fun _ _ => ?_) (fun _ _ => ?_)
  with_reducible refine keeps_bind_current_token (by assumption) ?_
  with_reducible refine keeps_ite (fun _ => ?_) (fun _ => ?_)
  focus with_reducible (show keeps _ _ _ _ _ _; split)
  with_reducible exact keeps_set_error_pure
  with_reducible refine keeps_ADVANCE_OR_ERROR (by assumption) (fun _ _ _ => ?_)
  with_reducible refine keeps_bind_current_token (by assumption) ?_
  with_reducible refine keeps_ite (fun _ => ?_) (fun _ => ?_)
  with_reducible refine keeps_bind_call (h.parse_block_or_obj _ _ _ (by assumption)) (fun _ => ?_) (fun _ _ _ _ _ _ => ?_) (fun _ _ _ _ => ?_)
  with_reducible exact sticky_ASSERT_PARSE_RESULT _ _
  with_reducible exact absurd (by assumption : false = true) (by decide)
  with_reducible refine keeps_ASSERT_PARSE_RESULT (by assumption) (fun _ _ => ?_)
  with_reducible refine keeps_pure (by assumption)
  with_reducible refine keeps_bind_call (h.parse_expression _ _ _ (by assumption)) (fun _ => ?_) (fun _ _ _ _ _ _ => ?_) (fun _ _ _ _ => ?_)
  with_reducible exact sticky_ASSERT_PARSE_RESULT _ _
  with_reducible exact absurd (by assumption : false = true) (by decide)
  with_reducible refine keeps_ASSERT_PARSE_RESULT (by assumption) (fun _ _ => ?_)
  with_reducible refine keeps_pure (by assumption)
  with_reducible refine keeps_ite (fun _ => ?_) (fun _ => ?_)
  with_reducible refine keeps_bind_rewind (by assumption) ?_ (fun _ _ _ => ?_)
  with_reducible exact longer.cur_ok (by assumption)
  focus with_reducible (show keeps _ _ _ _ _ _; split)
  with_reducible exact keeps_set_error_pure
  focus with_reducible (show keeps _ _ _ _ _ _; split)
  with_reducible refine keeps_bind_assert_that (by assumption) (fun _ _ _ _ => ?_)
  with_reducible refine keeps_pure (by assumption)
  with_reducible refine keeps_pure (by assumption)
  with_reducible exact absurd rfl (by assumption : ¬ true = true)
  with_reducible refine keeps_bind_current_token (by assumption) ?_
  with_reducible refine keeps_ite (fun _ => ?_) (fun _ => ?_)
  focus with_reducible (show keeps _ _ _ _ _ _; split)
  with_reducible exact keeps_set_error_pure
  with_reducible refine keeps_ADVANCE_OR_ERROR (by assumption) (fun _ _ _ => ?_)
  with_reducible refine keeps_bind_current_token (by assumption) ?_
  with_reducible refine keeps_ite (fun _ => ?_) (fun _ => ?_)
  with_reducible refine keeps_bind_call (h.parse_block_or_obj _ _ _ (by assumption)) (fun _ => ?_) (fun _ _ _ _ _ _ => ?_) (fun _ _ _ _ => ?_)
  with_reducible exact sticky_ASSERT_PARSE_RESULT _ _
  with_reducible exact absurd (by assumption : false = true) (by decide)
  with_reducible refine keeps_ASSERT_PARSE_RESULT (by assumption) (fun _ _ => ?_)
  with_reducible refine keeps_pure (by assumption)
  with_reducible refine keeps_bind_call (h.parse_expression _ _ _ (by assumption)) (fun _ => ?_) (fun _ _ _ _ _ _ => ?_) (fun _ _ _ _ => ?_)
  with_reducible exact sticky_ASSERT_PARSE_RESULT _ _
  with_reducible exact absurd (by assumption : false = true) (by decide)
  with_reducible refine keeps_ASSERT_PARSE_RESULT (by assumption) (fun _ _ => ?_)
  with_reducible refine keeps_pure (by assumption)
  with_reducible refine keeps_ite (fun _ => ?_) (fun _ => ?_)
  with_reducible exact absurd (by assumption : false = true) (by decide)
  with_reducible refine keeps_bind_pure ?_
  focus with_reducible (show keeps _ _ _ _ _ _; split)
  with_reducible exact keeps_set_error_pure
  focus with_reducible (show keeps _ _ _ _ _ _; split)
  with_reducible refine keeps_bind_assert_that (by assumption) (fun _ _ _ _ => ?_)
  with_reducible refine keeps_pure (by assumption)
  with_reducible refine keeps_pure (by assumption)
  with_reducible refine keeps_left_current_token (by assumption) ?_
  focus with_reducible (refine keeps_left_ite_neg (by assumption) ?_ ?_; · simp)
  focus with_reducible (refine keeps_left_ite_neg (by assumption) ?_ ?_; · simp)
  with_reducible refine keeps_left_pure_bind (by assumption) ?_
  with_reducible refine keeps_right_current_token (by assumption) ?_
  focus with_reducible (refine keeps_right_ite_neg (by assumption) ?_ ?_; · (intro e; simp [e, is_expression_end, is_follow_expression, is_stmt_end]))
  focus with_reducible (refine keeps_right_ite_pos (by assumption) ?_ ?_; · (intro e; simp [e, is_expression_end, is_follow_expression, is_stmt_end]))
  with_reducible refine keeps_right_rewind_handed (by assumption) (by first | rfl | assumption | exact Eq.symm (by assumption)) (fun _ _ => ?_)
  focus with_reducible (show keeps _ _ _ _ _ _; split)
  with_reducible exact keeps_set_error_pure
  focus with_reducible (show keeps _ _ _ _ _ _; split)
  with_reducible refine keeps_bind_assert_that (by assumption) (fun _ _ _ _ => ?_)
  with_reducible refine keeps_pure (by assumption)
  with_reducible refine keeps_pure (by assumption)
  with_reducible refine keeps_ite (fun _ => ?_) (fun _ => ?_)
  with_reducible refine keeps_ADVANCE_OR_ERROR (by assumption) (fun _ _ _ => ?_)
  with_reducible refine keeps_call (h.parens_list_loop _ _ _ _ _ (by assumption)) (by decide)
  with_reducible refine keeps_call (h.parens_list_loop _ _ _ _ _ (by assumption)) (by decide)

theorem keeps_parse_parens_expr {X : List lexer_result} (hX : tail_ok X) {self : parser_fns}
    (h : fns_keeps X self) (hst : fns_sticky self) (sa sb : parser_base)
    (hl : longer X sa sb) : keeps false X (parse_parens_expr self) (parse_parens_expr self) sa sb := by
  unfold parse_parens_expr parens_tail parens_arrow
  with_reducible refine keeps_bind_current_token (by assumption) ?_
  with_reducible refine keeps_bind_assert_that (by assumption) (fun _ _ _ _ => ?_)
  with_reducible refine keeps_ADVANCE_OR_ERROR (by assumption) (fun _ _ _ => ?_)
  with_reducible refine keeps_bind_current_token (by assumption) ?_
  with_reducible refine keeps_ite (fun _ => ?_) (fun _ => ?_)
  with_reducible refine keeps_call (h.parens_list_loop _ _ _ _ _ (by assumption)) (by decide)
  with_reducible refine keeps_EXPECT (by assumption) ?_
  with_reducible refine keeps_bind_current_token (by assumption) ?_
  with_reducible refine keeps_bind_advance (by assumption) hX (fun _ _ _ => ?_) (fun _ _ => ?_) (fun _ _ => ?_)
  with_reducible refine keeps_bind_current_token (by assumption) ?_
  with_reducible refine keeps_ite (fun _ => ?_) (fun _ => ?_)
  with_reducible refine keeps_ADVANCE_OR_ERROR (by assumption) (fun _ _ _ => ?_)
  with_reducible refine keeps_bind_current_token (by assumption) ?_
  with_reducible refine keeps_ite (fun _ => ?_) (fun _ => ?_)
  with_reducible refine keeps_bind_call (h.parse_block_or_obj _ _ _ (by assumption)) (fun _ => ?_) (fun _ _ _ _ _ _ => ?_) (fun _ _ _ _ => ?_)
  with_reducible exact sticky_ASSERT_PARSE_RESULT _ _
  with_reducible exact absurd (by assumption : false = true) (by decide)
  with_reducible refine keeps_ASSERT_PARSE_RESULT (by assumption) (fun _ _ => ?_)
  with_reducible refine keeps_pure (by assumption)
  with_reducible refine keeps_bind_call (h.parse_expression _ _ _ (by assumption)) (fun _ => ?_) (fun _ _ _ _ _ _ => ?_) (fun _ _ _ _ => ?_)
  with_reducible exact sticky_ASSERT_PARSE_RESULT _ _
  with_reducible exact absurd (by assumption : false = true) (by decide)
  with_reducible refine keeps_ASSERT_PARSE_RESULT (by assumption) (fun _ _ => ?_)
  with_reducible refine keeps_pure (by assumption)
  with_reducible refine keeps_ite (fun _ => ?_) (fun _ => ?_)
  with_reducible refine keeps_bind_rewind (by assumption) ?_ (fun _ _ _ => ?_)
  with_reducible exact longer.cur_ok (by assumption)
  with_reducible refine keeps_bind_assert_that (by assumption) (fun _ _ _ _ => ?_)
  with_reducible refine keeps_pure (by assumption)
  with_reducible exact absurd rfl (by assumption : ¬ true = true)
  with_reducible refine keeps_bind_current_token (by assumption) ?_
  with_reducible refine keeps_ite (fun _ => ?_) (fun _ => ?_)
  with_reducible refine keeps_ADVANCE_OR_ERROR (by assumption) (fun _ _ _ => ?_)
  with_reducible refine keeps_bind_current_token (by assumption) ?_
  with_reducible refine keeps_ite (fun _ => ?_) (fun _ => ?_)
  with_reducible refine keeps_bind_call (h.parse_block_or_obj _ _ _ (by assumption)) (fun _ => ?_) (fun _ _ _ _ _ _ => ?_) (fun _ _ _ _ => ?_)
  with_reducible exact sticky_ASSERT_PARSE_RESULT _ _
  with_reducible exact absurd (by assumption : false = true) (by decide)
  with_reducible refine keeps_ASSERT_PARSE_RESULT (by assumption) (fun _ _ => ?_)
  with_reducible refine keeps_pure (by assumption)
  with_reducible refine keeps_bind_call (h.parse_expression _ _ _ (by assumption)) (fun _ => ?_) (fun _ _ _ _ _ _ => ?_) (fun _ _ _ _ => ?_)
  with_reducible exact sticky_ASSERT_PARSE_RESULT _ _
  with_reducible exact absurd (by assumption : false = true) (by decide)
  with_reducible refine keeps_ASSERT_PARSE_RESULT (by assumption) (fun _ _ => ?_)
  with_reducible refine keeps_pure (by assumption)
  with_reducible refine keeps_ite (fun _ => ?_) (fun _ => ?_)
  with_reducible exact absurd (by assumption : false = true) (by decide)
  with_reducible refine keeps_bind_pure ?_
  with_reducible refine keeps_bind_assert_that (by assumption) (fun _ _ _ _ => ?_)
  with_reducible refine keeps_pure (by assumption)
  with_reducible refine keeps_left_current_token (by assumption) ?_
  focus with_reducible (refine keeps_left_ite_neg (by assumption) ?_ ?_; · simp)
  focus with_reducible (refine keeps_left_ite_neg (by assumption) ?_ ?_; · simp)
  with_reducible refine keeps_left_pure_bind (by assumption) ?_
  with_reducible refine keeps_right_current_token (by assumption) ?_
  focus with_reducible (refine keeps_right_ite_neg (by assumption) ?_ ?_; · (intro e; simp [e, is_expression_end, is_follow_expression, is_stmt_end]))
  focus with_reducible (refine keeps_right_ite_pos (by assumption) ?_ ?_; · (intro e; simp [e, is_expression_end, is_follow_expression, is_stmt_end]))
  with_reducible refine keeps_right_rewind_handed (by assumption) (by first | rfl | assumption | exact Eq.symm (by assumption)) (fun _ _ => ?_)
  with_reducible refine keeps_bind_assert_that (by assumption) (fun _ _ _ _ => ?_)
  with_reducible refine keeps_pure (by assumption)

theorem keeps_parse_bin_op (ops : operators_def) {X : List lexer_result} (hX : tail_ok X) {self : parser_fns}
    (h : fns_keeps X self) (hst : fns_sticky self) (lhs : Node) (comma_is_operator : Bool) (sa sb : parser_base)
    (hl : longer X sa sb) : keeps false X (parse_bin_op ops self lhs comma_is_operator) (parse_bin_op ops self lhs comma_is_operator) sa sb := by
  unfold parse_bin_op bin_op_tail
  with_reducible refine keeps_bind_current_token (by assumption) ?_
  with_reducible refine keeps_bind_assert_that (by assumption) (fun _ _ _ _ => ?_)
  with_reducible refine keeps_ADVANCE_OR_ERROR (by assumption) (fun _ _ _ => ?_)
  with_reducible refine keeps_ite (fun _ => ?_) (fun _ => ?_)
  with_reducible refine keeps_SUBPARSE (h.parse_expression _ _ _ (by assumption)) (fun _ _ _ _ _ _ => ?_) (fun _ _ _ _ => ?_)
  with_reducible exact absurd (by assumption : false = true) (by decide)
  with_reducible refine keeps_ADVANCE_OR_ERROR (by assumption) (fun _ _ _ => ?_)
  with_reducible refine keeps_EXPECT (by assumption) ?_
  with_reducible refine keeps_ADVANCE_OR_ERROR (by assumption) (fun _ _ _ => ?_)
  with_reducible refine keeps_SUBPARSE (h.parse_expression _ _ _ (by assumption)) (fun _ _ _ _ _ _ => ?_) (fun _ _ _ _ => ?_)
  with_reducible exact absurd (by assumption : false = true) (by decide)
  with_reducible refine keeps_bind_current_token (by assumption) ?_
  with_reducible refine keeps_bind_advance (by assumption) hX (fun _ _ _ => ?_) (fun _ _ => ?_) (fun _ _ => ?_)
  with_reducible refine keeps_ite (fun _ => ?_) (fun _ => ?_)
  with_reducible refine keeps_pure (by assumption)
  with_reducible refine keeps_bind_current_token (by assumption) ?_
  with_reducible refine keeps_ite (fun _ => ?_) (fun _ => ?_)
  with_reducible refine keeps_bind_rewind (by assumption) ?_ (fun _ _ _ => ?_)
  with_reducible exact longer.cur_ok (by assumption)
  with_reducible refine keeps_pure (by assumption)
  with_reducible refine keeps_ite (fun _ => ?_) (fun _ => ?_)
  with_reducible refine keeps_ite (fun _ => ?_) (fun _ => ?_)
  with_reducible refine keeps_SUBPARSE (h.parse_bin_op _ _ _ _ (by assumption)) (fun _ _ _ _ _ _ => ?_) (fun _ _ _ _ => ?_)
  with_reducible exact absurd (by assumption : false = true) (by decide)
  with_reducible refine keeps_pure (by assumption)
  with_reducible refine keeps_ite (fun _ => ?_) (fun _ => ?_)
  with_reducible refine keeps_bind_assert_that (by assumption) (fun _ _ _ _ => ?_)
  with_reducible refine keeps_ite (fun _ => ?_) (fun _ => ?_)
  with_reducible refine keeps_SUBPARSE (h.parse_bin_op _ _ _ _ (by assumption)) (fun _ _ _ _ _ _ => ?_) (fun _ _ _ _ => ?_)
  with_reducible exact absurd (by assumption : false = true) (by decide)
  with_reducible refine keeps_pure (by assumption)
  with_reducible refine keeps_SUBPARSE (h.parse_bin_op _ _ _ _ (by assumption)) (fun _ _ _ _ _ _ => ?_) (fun _ _ _ _ => ?_)
  with_reducible exact absurd (by assumption : false = true) (by decide)
  with_reducible refine keeps_pure (by assumption)
  with_reducible refine keeps_SUBPARSE (h.parse_bin_op _ _ _ _ (by assumption)) (fun _ _ _ _ _ _ => ?_) (fun _ _ _ _ => ?_)
  with_reducible exact absurd (by assumption : false = true) (by decide)
  with_reducible refine keeps_pure (by assumption)
  with_reducible exact keeps_set_error_pure
  with_reducible refine keeps_ite (fun _ => ?_) (fun _ => ?_)
  with_reducible refine keeps_pure (by assumption)
  with_reducible refine keeps_bind_current_token (by assumption) ?_
  with_reducible refine keeps_ite (fun _ => ?_) (fun _ => ?_)
  with_reducible refine keeps_bind_rewind (by assumption) ?_ (fun _ _ _ => ?_)
  with_reducible exact longer.cur_ok (by assumption)
  with_reducible refine keeps_pure (by assumption)
  with_reducible refine keeps_ite (fun _ => ?_) (fun _ => ?_)
  with_reducible refine keeps_ite (fun _ => ?_) (fun _ => ?_)
  with_reducible refine keeps_SUBPARSE (h.parse_bin_op _ _ _ _ (by assumption)) (fun _ _ _ _ _ _ => ?_) (fun _ _ _ _ => ?_)
  with_reducible exact absurd (by assumption : false = true) (by decide)
  with_reducible refine keeps_pure (by assumption)
  with_reducible refine keeps_ite (fun _ => ?_) (fun _ => ?_)
  with_reducible refine keeps_bind_assert_that (by assumption) (fun _ _ _ _ => ?_)
  with_reducible refine keeps_ite (fun _ => ?_) (fun _ => ?_)
  with_reducible refine keeps_SUBPARSE (h.parse_bin_op _ _ _ _ (by assumption)) (fun _ _ _ _ _ _ => ?_) (fun _ _ _ _ => ?_)
  with_reducible exact absurd (by assumption : false = true) (by decide)
  with_reducible refine keeps_pure (by assumption)
  with_reducible refine keeps_SUBPARSE (h.parse_bin_op _ _ _ _ (by assumption)) (fun _ _ _ _ _ _ => ?_) (fun _ _ _ _ => ?_)
  with_reducible exact absurd (by assumption : false = true) (by decide)
  with_reducible refine keeps_pure (by assumption)
  with_reducible refine keeps_SUBPARSE (h.parse_bin_op _ _ _ _ (by assumption)) (fun _ _ _ _ _ _ => ?_) (fun _ _ _ _ => ?_)
  with_reducible exact absurd (by assumption : false = true) (by decide)
  with_reducible refine keeps_pure (by assumption)
  with_reducible exact keeps_set_error_pure
  focus with_reducible (refine keeps_left_ite_pos (by assumption) ?_ ?_; · simp)
  focus with_reducible (refine keeps_right_ite_neg (by assumption) ?_ ?_; · (intro e; simp [e, is_expression_end, is_follow_expression, is_stmt_end]))
  with_reducible refine keeps_right_current_token (by assumption) ?_
  focus with_reducible (refine keeps_right_ite_pos (by assumption) ?_ ?_; · (intro e; simp [e, is_expression_end, is_follow_expression, is_stmt_end]))
  with_reducible refine keeps_right_rewind_handed (by assumption) (by first | rfl | assumption | exact Eq.symm (by assumption)) (fun _ _ => ?_)
  with_reducible refine keeps_pure (by assumption)
  with_reducible refine keeps_SUBPARSE (h.parse_unary_or_atomic_expr _ _ (by assumption)) (fun _ _ _ _ _ _ => ?_) (fun _ _ _ _ => ?_)
  with_reducible exact absurd (by assumption : false = true) (by decide)
  with_reducible refine keeps_bind_call (keeps_make_binary_expr hX _ _ _ _ _ (by assumption)) (fun _ => ?_) (fun _ _ _ _ _ _ => ?_) (fun _ _ _ _ => ?_)
  with_reducible refine sticky_bind ?_ (fun _ => ?_)
  with_reducible exact sticky_current_token
  with_reducible refine sticky_bind ?_ (fun _ => ?_)
  with_reducible exact sticky_advance
  with_reducible refine sticky_ite ?_ ?_
  with_reducible exact sticky_pure _
  with_reducible refine sticky_bind ?_ (fun _ => ?_)
  with_reducible exact sticky_current_token
  with_reducible refine sticky_ite ?_ ?_
  with_reducible refine sticky_bind ?_ (fun _ => ?_)
  with_reducible exact sticky_rewind _
  with_reducible exact sticky_pure _
  with_reducible refine sticky_ite ?_ ?_
  with_reducible refine sticky_ite ?_ ?_
  with_reducible refine sticky_SUBPARSE _ _ ?_
  with_reducible exact hst.parse_bin_op _ _
  with_reducible refine sticky_ite ?_ ?_
  with_reducible refine sticky_bind ?_ (fun _ => ?_)
  with_reducible exact sticky_assert_that _ _
  with_reducible refine sticky_ite ?_ ?_
  with_reducible refine sticky_SUBPARSE _ _ ?_
  with_reducible exact hst.parse_bin_op _ _
  with_reducible refine sticky_SUBPARSE _ _ ?_
  with_reducible exact hst.parse_bin_op _ _
  with_reducible refine sticky_SUBPARSE _ _ ?_
  with_reducible exact hst.parse_bin_op _ _
  with_reducible refine sticky_bind ?_ (fun _ => ?_)
  with_reducible exact sticky_set_error _ _
  with_reducible exact sticky_pure _
  with_reducible exact absurd (by assumption : false = true) (by decide)
  with_reducible refine keeps_bind_current_token (by assumption) ?_
  with_reducible refine keeps_bind_advance (by assumption) hX (fun _ _ _ => ?_) (fun _ _ => ?_) (fun _ _ => ?_)
  with_reducible refine keeps_ite (fun _ => ?_) (fun _ => ?_)
  with_reducible refine keeps_pure (by assumption)
  with_reducible refine keeps_bind_current_token (by assumption) ?_
  with_reducible refine keeps_ite (fun _ => ?_) (fun _ => ?_)
  with_reducible refine keeps_bind_rewind (by assumption) ?_ (fun _ _ _ => ?_)
  with_reducible exact longer.cur_ok (by assumption)
  with_reducible refine keeps_pure (by assumption)
  with_reducible refine keeps_ite (fun _ => ?_) (fun _ => ?_)
  with_reducible refine keeps_ite (fun _ => ?_) (fun _ => ?_)
  with_reducible refine keeps_SUBPARSE (h.parse_bin_op _ _ _ _ (by assumption)) (fun _ _ _ _ _ _ => ?_) (fun _ _ _ _ => ?_)
  with_reducible exact absurd (by assumption : false = true) (by decide)
  with_reducible refine keeps_pure (by assumption)
  with_reducible refine keeps_ite (fun _ => ?_) (fun _ => ?_)
  with_reducible refine keeps_bind_assert_that (by assumption) (fun _ _ _ _ => ?_)
  with_reducible refine keeps_ite (fun _ => ?_) (fun _ => ?_)
  with_reducible refine keeps_SUBPARSE (h.parse_bin_op _ _ _ _ (by assumption)) (fun _ _ _ _ _ _ => ?_) (fun _ _ _ _ => ?_)
  with_reducible exact absurd (by assumption : false = true) (by decide)
  with_reducible refine keeps_pure (by assumption)
  with_reducible refine keeps_SUBPARSE (h.parse_bin_op _ _ _ _ (by assumption)) (fun _ _ _ _ _ _ => ?_) (fun _ _ _ _ => ?_)
  with_reducible exact absurd (by assumption : false = true) (by decide)
  with_reducible refine keeps_pure (by assumption)
  with_reducible refine keeps_SUBPARSE (h.parse_bin_op _ _ _ _ (by assumption)) (fun _ _ _ _ _ _ => ?_) (fun _ _ _ _ => ?_)
  with_reducible exact absurd (by assumption : false = true) (by decide)
  with_reducible refine keeps_pure (by assumption)
  with_reducible exact keeps_set_error_pure
  with_reducible refine keeps_ite (fun _ => ?_) (fun _ => ?_)
  with_reducible refine keeps_pure (by assumption)
  with_reducible refine keeps_bind_current_token (by assumption) ?_
  with_reducible refine keeps_ite (fun _ => ?_) (fun _ => ?_)
  with_reducible refine keeps_bind_rewind (by assumption) ?_ (fun _ _ _ => ?_)
  with_reducible exact longer.cur_ok (by assumption)
  with_reducible refine keeps_pure (by assumption)
  with_reducible refine keeps_ite (fun _ => ?_) (fun _ => ?_)
  with_reducible refine keeps_ite (fun _ => ?_) (fun _ => ?_)
  with_reducible refine keeps_SUBPARSE (h.parse_bin_op _ _ _ _ (by assumption)) (fun _ _ _ _ _ _ => ?_) (fun _ _ _ _ => ?_)
  with_reducible exact absurd (by assumption : false = true) (by decide)
  with_reducible refine keeps_pure (by assumption)
  with_reducible refine keeps_ite (fun _ => ?_) (fun _ => ?_)
  with_reducible refine keeps_bind_assert_that (by assumption) (fun _ _ _ _ => ?_)
  with_reducible refine keeps_ite (fun _ => ?_) (fun _ => ?_)
  with_reducible refine keeps_SUBPARSE (h.parse_bin_op _ _ _ _ (by assumption)) (fun _ _ _ _ _ _ => ?_) (fun _ _ _ _ => ?_)
  with_reducible exact absurd (by assumption : false = true) (by decide)
  with_reducible refine keeps_pure (by assumption)
  with_reducible refine keeps_SUBPARSE (h.parse_bin_op _ _ _ _ (by assumption)) (fun _ _ _ _ _ _ => ?_) (fun _ _ _ _ => ?_)
  with_reducible exact absurd (by assumption : false = true) (by decide)
  with_reducible refine keeps_pure (by assumption)
  with_reducible refine keeps_SUBPARSE (h.parse_bin_op _ _ _ _ (by assumption)) (fun _ _ _ _ _ _ => ?_) (fun _ _ _ _ => ?_)
  with_reducible exact absurd (by assumption : false = true) (by decide)
  with_reducible refine keeps_pure (by assumption)
  with_reducible exact keeps_set_error_pure
  focus with_reducible (refine keeps_left_ite_pos (by assumption) ?_ ?_; · simp)
  focus with_reducible (refine keeps_right_ite_neg (by assumption) ?_ ?_; · (intro e; simp [e, is_expression_end, is_follow_expression, is_stmt_end]))
  with_reducible refine keeps_right_current_token (by assumption) ?_
  focus with_reducible (refine keeps_right_ite_pos (by assumption) ?_ ?_; · (intro e; simp [e, is_expression_end, is_follow_expression, is_stmt_end]))
  with_reducible refine keeps_right_rewind_handed (by assumption) (by first | rfl | assumption | exact Eq.symm (by assumption)) (fun _ _ => ?_)
  with_reducible refine keeps_pure (by assumption)

theorem keeps_parse_atomic_keyword_expr {X : List lexer_result} (hX : tail_ok X) {self : parser_fns}
    (h : fns_keeps X self) (hst : fns_sticky self) (sa sb : parser_base)
    (hl : longer X sa sb) : keeps false X (parse_atomic_keyword_expr self) (parse_atomic_keyword_expr self) sa sb := by
  unfold parse_atomic_keyword_expr
  with_reducible refine keeps_EXPECT (by assumption) ?_
  with_reducible refine keeps_bind_current_token (by assumption) ?_
  with_reducible refine keeps_ite (fun _ => ?_) (fun _ => ?_)
  with_reducible refine keeps_call (keeps_parse_class_expr hX _ _ (by assumption)) (by decide)
  with_reducible refine keeps_ite (fun _ => ?_) (fun _ => ?_)
  with_reducible refine keeps_call (h.parse_function_expr _ _ (by assumption)) (by decide)
  with_reducible refine keeps_ite (fun _ => ?_) (fun _ => ?_)
  with_reducible refine keeps_call (h.parse_new_keyword _ _ (by assumption)) (by decide)
  with_reducible exact keeps_set_error_pure

theorem keeps_parse_new_keyword {X : List lexer_result} (hX : tail_ok X) {self : parser_fns}
    (h : fns_keeps X self) (hst : fns_sticky self) (sa sb : parser_base)
    (hl : longer X sa sb) : keeps false X (parse_new_keyword self) (parse_new_keyword self) sa sb := by
  unfold parse_new_keyword
  with_reducible refine keeps_bind_current_token (by assumption) ?_
  with_reducible refine keeps_bind_assert_that (by assumption) (fun _ _ _ _ => ?_)
  with_reducible refine keeps_ADVANCE_OR_ERROR (by assumption) (fun _ _ _ => ?_)
  with_reducible refine keeps_bind_current_token (by assumption) ?_
  with_reducible refine keeps_ite (fun _ => ?_) (fun _ => ?_)
  with_reducible refine keeps_ADVANCE_OR_ERROR (by assumption) (fun _ _ _ => ?_)
  with_reducible refine keeps_EXPECT (by assumption) ?_
  with_reducible refine keeps_bind_current_token (by assumption) ?_
  with_reducible refine keeps_ite (fun _ => ?_) (fun _ => ?_)
  with_reducible exact keeps_set_error_pure
  with_reducible refine keeps_pure (by assumption)
  with_reducible refine keeps_SUBPARSE (h.parse_atomic_expr _ _ (by assumption)) (fun _ _ _ _ _ _ => ?_) (fun _ _ _ _ => ?_)
  with_reducible exact absurd (by assumption : false = true) (by decide)
  with_reducible refine keeps_bind_assert_that (by assumption) (fun _ _ _ _ => ?_)
  focus with_reducible (show keeps _ _ _ _ _ _; split)
  with_reducible refine keeps_pure (by assumption)
  with_reducible refine keeps_pure (by assumption)

theorem keeps_template_loop {X : List lexer_result} (hX : tail_ok X) {self : parser_fns}
    (h : fns_keeps X self) (hst : fns_sticky self) (loc : source_location) (strs : List String) (exprs : List Node) (sa sb : parser_base)
    (hl : longer X sa sb) : keeps false X (template_loop self loc strs exprs) (template_loop self loc strs exprs) sa sb := by
  unfold template_loop
  with_reducible refine keeps_ADVANCE_OR_ERROR (by assumption) (fun _ _ _ => ?_)
  with_reducible refine keeps_SUBPARSE (h.parse_expression _ _ _ (by assumption)) (fun _ _ _ _ _ _ => ?_) (fun _ _ _ _ => ?_)
  with_reducible exact absurd (by assumption : false = true) (by decide)
  with_reducible refine keeps_ADVANCE_OR_ERROR (by assumption) (fun _ _ _ => ?_)
  with_reducible refine keeps_EXPECT_SEVERAL (by assumption) ?_
  with_reducible refine keeps_bind_current_token (by assumption) ?_
  with_reducible refine keeps_ite (fun _ => ?_) (fun _ => ?_)
  with_reducible refine keeps_call (h.template_loop _ _ _ _ _ (by assumption)) (by decide)
  with_reducible refine keeps_bind_assert_that (by assumption) (fun _ _ _ _ => ?_)
  with_reducible refine keeps_pure (by assumption)

theorem keeps_parse_template_literal {X : List lexer_result} (hX : tail_ok X) {self : parser_fns}
    (h : fns_keeps X self) (hst : fns_sticky self) (sa sb : parser_base)
    (hl : longer X sa sb) : keeps false X (parse_template_literal self) (parse_template_literal self) sa sb := by
  unfold parse_template_literal
  with_reducible refine keeps_bind_current_token (by assumption) ?_
  with_reducible refine keeps_bind_assert_that (by assumption) (fun _ _ _ _ => ?_)
  with_reducible refine keeps_call (h.template_loop _ _ _ _ _ (by assumption)) (by decide)

theorem keeps_parse_function_stmt {X : List lexer_result} (hX : tail_ok X) {self : parser_fns}
    (h : fns_keeps X self) (hst : fns_sticky self) (sa sb : parser_base)
    (hl : longer X sa sb) : keeps false X (parse_function_stmt self) (parse_function_stmt self) sa sb := by
  unfold parse_function_stmt
  with_reducible refine keeps_bind_current_token (by assumption) ?_
  with_reducible refine keeps_bind_assert_that (by assumption) (fun _ _ _ _ => ?_)
  with_reducible refine keeps_ADVANCE_OR_ERROR (by assumption) (fun _ _ _ => ?_)
  with_reducible refine keeps_EXPECT (by assumption) ?_
  with_reducible refine keeps_bind_current_token (by assumption) ?_
  with_reducible refine keeps_ADVANCE_OR_ERROR (by assumption) (fun _ _ _ => ?_)
  with_reducible refine keeps_EXPECT (by assumption) ?_
  with_reducible refine keeps_SUBPARSE (h.parse_param_list _ _ (by assumption)) (fun _ _ _ _ _ _ => ?_) (fun _ _ _ _ => ?_)
  with_reducible exact absurd (by assumption : false = true) (by decide)
  with_reducible refine keeps_ADVANCE_OR_ERROR (by assumption) (fun _ _ _ => ?_)
  with_reducible refine keeps_EXPECT (by assumption) ?_
  with_reducible refine keeps_SUBPARSE (h.parse_block _ _ (by assumption)) (fun _ _ _ _ _ _ => ?_) (fun _ _ _ _ => ?_)
  with_reducible exact absurd (by assumption : false = true) (by decide)
  with_reducible refine keeps_pure (by assumption)

theorem keeps_parse_function_expr {X : List lexer_result} (hX : tail_ok X) {self : parser_fns}
    (h : fns_keeps X self) (hst : fns_sticky self) (sa sb : parser_base)
    (hl : longer X sa sb) : keeps false X (parse_function_expr self) (parse_function_expr self) sa sb := by
  unfold parse_function_expr function_expr_tail
  with_reducible refine keeps_bind_current_token (by assumption) ?_
  with_reducible refine keeps_bind_assert_that (by assumption) (fun _ _ _ _ => ?_)
  with_reducible refine keeps_ADVANCE_OR_ERROR (by assumption) (fun _ _ _ => ?_)
  with_reducible refine keeps_bind_current_token (by assumption) ?_
  with_reducible refine keeps_ite (fun _ => ?_) (fun _ => ?_)
  with_reducible refine keeps_ADVANCE_OR_ERROR (by assumption) (fun _ _ _ => ?_)
  with_reducible refine keeps_EXPECT (by assumption) ?_
  with_reducible refine keeps_SUBPARSE (h.parse_param_list _ _ (by assumption)) (fun _ _ _ _ _ _ => ?_) (fun _ _ _ _ => ?_)
  with_reducible exact absurd (by assumption : false = true) (by decide)
  with_reducible refine keeps_ADVANCE_OR_ERROR (by assumption) (fun _ _ _ => ?_)
  with_reducible refine keeps_EXPECT (by assumption) ?_
  with_reducible refine keeps_SUBPARSE (h.parse_block _ _ (by assumption)) (fun _ _ _ _ _ _ => ?_) (fun _ _ _ _ => ?_)
  with_reducible exact absurd (by assumption : false = true) (by decide)
  with_reducible refine keeps_pure (by assumption)
  with_reducible refine keeps_EXPECT (by assumption) ?_
  with_reducible refine keeps_SUBPARSE (h.parse_param_list _ _ (by assumption)) (fun _ _ _ _ _ _ => ?_) (fun _ _ _ _ => ?_)
  with_reducible exact absurd (by assumption : false = true) (by decide)
  with_reducible refine keeps_ADVANCE_OR_ERROR (by assumption) (fun _ _ _ => ?_)
  with_reducible refine keeps_EXPECT (by assumption) ?_
  with_reducible refine keeps_SUBPARSE (h.parse_block _ _ (by assumption)) (fun _ _ _ _ _ _ => ?_) (fun _ _ _ _ => ?_)
  with_reducible exact absurd (by assumption : false = true) (by decide)
  with_reducible refine keeps_pure (by assumption)

theorem keeps_param_list_loop {X : List lexer_result} (hX : tail_ok X) {self : parser_fns}
    (h : fns_keeps X self) (hst : fns_sticky self) (loc : source_location) (names : List String) (sa sb : parser_base)
    (hl : longer X sa sb) : keeps false X (param_list_loop self loc names) (param_list_loop self loc names) sa sb := by
  unfold param_list_loop
  with_reducible refine keeps_ADVANCE_OR_ERROR (by assumption) (fun _ _ _ => ?_)
  with_reducible refine keeps_bind_current_token (by assumption) ?_
  with_reducible refine keeps_ite (fun _ => ?_) (fun _ => ?_)
  with_reducible refine keeps_ADVANCE_OR_ERROR (by assumption) (fun _ _ _ => ?_)
  with_reducible refine keeps_bind_current_token (by assumption) ?_
  with_reducible refine keeps_ite (fun _ => ?_) (fun _ => ?_)
  with_reducible refine keeps_call (h.param_list_loop _ _ _ _ (by assumption)) (by decide)
  with_reducible refine keeps_call (keeps_param_list_tail hX _ _ _ _ (by assumption)) (by decide)
  with_reducible refine keeps_ite (fun _ => ?_) (fun _ => ?_)
  with_reducible refine keeps_call (h.param_list_loop _ _ _ _ (by assumption)) (by decide)
  with_reducible refine keeps_call (keeps_param_list_tail hX _ _ _ _ (by assumption)) (by decide)

theorem keeps_parse_param_list {X : List lexer_result} (hX : tail_ok X) {self : parser_fns}
    (h : fns_keeps X self) (hst : fns_sticky self) (sa sb : parser_base)
    (hl : longer X sa sb) : keeps false X (parse_param_list self) (parse_param_list self) sa sb := by
  unfold parse_param_list
  with_reducible refine keeps_bind_current_token (by assumption) ?_
  with_reducible refine keeps_bind_assert_that (by assumption) (fun _ _ _ _ => ?_)
  with_reducible refine keeps_call (h.param_list_loop _ _ _ _ (by assumption)) (by decide)

theorem keeps_block_loop {X : List lexer_result} (hX : tail_ok X) {self : parser_fns}
    (h : fns_keeps X self) (hst : fns_sticky self) (loc : source_location) (stmts : List Node) (sa sb : parser_base)
    (hl : longer X sa sb) : keeps false X (block_loop self loc stmts) (block_loop self loc stmts) sa sb := by
  unfold block_loop
  with_reducible refine keeps_bind_current_token (by assumption) ?_
  with_reducible refine keeps_ite (fun _ => ?_) (fun _ => ?_)
  with_reducible refine keeps_bind_assert_that (by assumption) (fun _ _ _ _ => ?_)
  with_reducible refine keeps_bind_call (h.parse_statement _ _ (by assumption)) (fun _ => ?_) (fun _ _ _ _ _ _ => ?_) (fun _ _ _ _ => ?_)
  with_reducible exact sticky_ADVANCE_OR_ERROR _ _ _
  with_reducible exact drained_ADVANCE_OR_ERROR (by first | assumption | exact handed_pending (by assumption))
  with_reducible refine keeps_ADVANCE_OR_ERROR (by assumption) (fun _ _ _ => ?_)
  with_reducible refine keeps_call (h.block_loop _ _ _ _ (by assumption)) (by decide)
  with_reducible refine keeps_pure (by assumption)

theorem keeps_parse_block {X : List lexer_result} (hX : tail_ok X) {self : parser_fns}
    (h : fns_keeps X self) (hst : fns_sticky self) (sa sb : parser_base)
    (hl : longer X sa sb) : keeps false X (parse_block self) (parse_block self) sa sb := by
  unfold parse_block
  with_reducible refine keeps_EXPECT (by assumption) ?_
  with_reducible refine keeps_bind_current_token (by assumption) ?_
  with_reducible refine keeps_ADVANCE_OR_ERROR (by assumption) (fun _ _ _ => ?_)
  with_reducible refine keeps_call (h.block_loop _ _ _ _ (by assumption)) (by decide)

theorem keeps_var_decl_loop {X : List lexer_result} (hX : tail_ok X) {self : parser_fns}
    (h : fns_keeps X self) (hst : fns_sticky self) (loc : source_location) (keyword : String) (parts : List Node) (sa sb : parser_base)
    (hl : longer X sa sb) : keeps false X (var_decl_loop self loc keyword parts) (var_decl_loop self loc keyword parts) sa sb := by
  unfold var_decl_loop
  with_reducible refine keeps_bind_current_token (by assumption) ?_
  with_reducible refine keeps_bind_advance (by assumption) hX (fun _ _ _ => ?_) (fun _ _ => ?_) (fun _ _ => ?_)
  with_reducible refine keeps_ite (fun _ => ?_) (fun _ => ?_)
  with_reducible refine keeps_bind_current_token (by assumption) ?_
  with_reducible refine keeps_ite (fun _ => ?_) (fun _ => ?_)
  with_reducible refine keeps_ADVANCE_OR_ERROR (by assumption) (fun _ _ _ => ?_)
  with_reducible refine keeps_SUBPARSE (h.parse_expression _ _ _ (by assumption)) (fun _ _ _ _ _ _ => ?_) (fun _ _ _ _ => ?_)
  with_reducible exact absurd (by assumption : false = true) (by decide)
  with_reducible refine keeps_call (h.var_decl_loop _ _ _ _ _ (by assumption)) (by decide)
  with_reducible refine keeps_ite (fun _ => ?_) (fun _ => ?_)
  with_reducible refine keeps_ADVANCE_OR_ERROR (by assumption) (fun _ _ _ => ?_)
  with_reducible refine keeps_EXPECT (by assumption) ?_
  with_reducible refine keeps_bind_current_token (by assumption) ?_
  with_reducible refine keeps_call (h.var_decl_loop _ _ _ _ _ (by assumption)) (by decide)
  with_reducible refine keeps_bind_rewind (by assumption) ?_ (fun _ _ _ => ?_)
  with_reducible exact longer.cur_ok (by assumption)
  with_reducible refine keeps_pure (by assumption)
  with_reducible exact absurd rfl (by assumption : ¬ true = true)
  with_reducible refine keeps_ite (fun _ => ?_) (fun _ => ?_)
  with_reducible exact absurd (by assumption : false = true) (by decide)
  with_reducible refine keeps_pure (by assumption)
  focus with_reducible (refine keeps_left_ite_neg (by assumption) ?_ ?_; · simp)
  focus with_reducible (refine keeps_right_ite_pos (by assumption) ?_ ?_; · (intro e; simp [e, is_expression_end, is_follow_expression, is_stmt_end]))
  with_reducible refine keeps_right_current_token (by assumption) ?_
  focus with_reducible (refine keeps_right_ite_neg (by assumption) ?_ ?_; · (intro e; simp [e, is_expression_end, is_follow_expression, is_stmt_end]))
  focus with_reducible (refine keeps_right_ite_neg (by assumption) ?_ ?_; · (intro e; simp [e, is_expression_end, is_follow_expression, is_stmt_end]))
  with_reducible refine keeps_right_rewind_handed (by assumption) (by first | rfl | assumption | exact Eq.symm (by assumption)) (fun _ _ => ?_)
  with_reducible refine keeps_pure (by assumption)

theorem keeps_parse_var_decl {X : List lexer_result} (hX : tail_ok X) {self : parser_fns}
    (h : fns_keeps X self) (hst : fns_sticky self) (sa sb : parser_base)
    (hl : longer X sa sb) : keeps false X (parse_var_decl self) (parse_var_decl self) sa sb := by
  unfold parse_var_decl
  with_reducible refine keeps_bind_current_token (by assumption) ?_
  with_reducible refine keeps_bind_assert_that (by assumption) (fun _ _ _ _ => ?_)
  with_reducible refine keeps_ADVANCE_OR_ERROR (by assumption) (fun _ _ _ => ?_)
  with_reducible refine keeps_EXPECT (by assumption) ?_
  with_reducible refine keeps_bind_current_token (by assumption) ?_
  with_reducible refine keeps_call (h.var_decl_loop _ _ _ _ _ (by assumption)) (by decide)

theorem keeps_array_loop {X : List lexer_result} (hX : tail_ok X) {self : parser_fns}
    (h : fns_keeps X self) (hst : fns_sticky self) (loc : source_location) (values : List Node) (sa sb : parser_base)
    (hl : longer X sa sb) : keeps false X (array_loop self loc values) (array_loop self loc values) sa sb := by
  unfold array_loop array_entry_end
  with_reducible refine keeps_bind_current_token (by assumption) ?_
  with_reducible refine keeps_ite (fun _ => ?_) (fun _ => ?_)
  with_reducible refine keeps_ADVANCE_OR_ERROR (by assumption) (fun _ _ _ => ?_)
  with_reducible refine keeps_bind_call (h.parse_expression _ _ _ (by assumption)) (fun _ => ?_) (fun _ _ _ _ _ _ => ?_) (fun _ _ _ _ => ?_)
  with_reducible exact sticky_ADVANCE_OR_ERROR _ _ _
  with_reducible exact absurd (by assumption : false = true) (by decide)
  with_reducible refine keeps_ADVANCE_OR_ERROR (by assumption) (fun _ _ _ => ?_)
  with_reducible refine keeps_EXPECT_SEVERAL (by assumption) ?_
  with_reducible refine keeps_bind_current_token (by assumption) ?_
  with_reducible refine keeps_ite (fun _ => ?_) (fun _ => ?_)
  with_reducible refine keeps_pure (by assumption)
  with_reducible refine keeps_ite (fun _ => ?_) (fun _ => ?_)
  with_reducible refine keeps_ADVANCE_OR_ERROR (by assumption) (fun _ _ _ => ?_)
  with_reducible refine keeps_call (h.array_loop _ _ _ _ (by assumption)) (by decide)
  with_reducible refine keeps_call (h.array_loop _ _ _ _ (by assumption)) (by decide)
  with_reducible refine keeps_bind_call (h.parse_expression _ _ _ (by assumption)) (fun _ => ?_) (fun _ _ _ _ _ _ => ?_) (fun _ _ _ _ => ?_)
  with_reducible exact sticky_ADVANCE_OR_ERROR _ _ _
  with_reducible exact absurd (by assumption : false = true) (by decide)
  with_reducible refine keeps_ADVANCE_OR_ERROR (by assumption) (fun _ _ _ => ?_)
  with_reducible refine keeps_EXPECT_SEVERAL (by assumption) ?_
  with_reducible refine keeps_bind_current_token (by assumption) ?_
  with_reducible refine keeps_ite (fun _ => ?_) (fun _ => ?_)
  with_reducible refine keeps_pure (by assumption)
  with_reducible refine keeps_ite (fun _ => ?_) (fun _ => ?_)
  with_reducible refine keeps_ADVANCE_OR_ERROR (by assumption) (fun _ _ _ => ?_)
  with_reducible refine keeps_call (h.array_loop _ _ _ _ (by assumption)) (by decide)
  with_reducible refine keeps_call (h.array_loop _ _ _ _ (by assumption)) (by decide)

theorem keeps_parse_array_literal {X : List lexer_result} (hX : tail_ok X) {self : parser_fns}
    (h : fns_keeps X self) (hst : fns_sticky self) (sa sb : parser_base)
    (hl : longer X sa sb) : keeps false X (parse_array_literal self) (parse_array_literal self) sa sb := by
  unfold parse_array_literal
  with_reducible refine keeps_bind_current_token (by assumption) ?_
  with_reducible refine keeps_bind_assert_that (by assumption) (fun _ _ _ _ => ?_)
  with_reducible refine keeps_ADVANCE_OR_ERROR (by assumption) (fun _ _ _ => ?_)
  with_reducible refine keeps_bind_current_token (by assumption) ?_
  with_reducible refine keeps_ite (fun _ => ?_) (fun _ => ?_)
  with_reducible refine keeps_call (h.array_loop _ _ _ _ (by assumption)) (by decide)
  with_reducible refine keeps_pure (by assumption)

theorem keeps_object_loop {X : List lexer_result} (hX : tail_ok X) {self : parser_fns}
    (h : fns_keeps X self) (hst : fns_sticky self) (loc : source_location) (entries : List Node) (sa sb : parser_base)
    (hl : longer X sa sb) : keeps false X (object_loop self loc entries) (object_loop self loc entries) sa sb := by
  unfold object_loop object_entry_end
  with_reducible refine keeps_bind_current_token (by assumption) ?_
  with_reducible refine keeps_ite (fun _ => ?_) (fun _ => ?_)
  with_reducible refine keeps_EXPECT (by assumption) ?_
  with_reducible refine keeps_pure (by assumption)
  with_reducible refine keeps_ite (fun _ => ?_) (fun _ => ?_)
  with_reducible refine keeps_ADVANCE_OR_ERROR (by assumption) (fun _ _ _ => ?_)
  with_reducible refine keeps_bind_call (h.parse_expression _ _ _ (by assumption)) (fun _ => ?_) (fun _ _ _ _ _ _ => ?_) (fun _ _ _ _ => ?_)
  with_reducible exact sticky_ADVANCE_OR_ERROR _ _ _
  with_reducible exact absurd (by assumption : false = true) (by decide)
  with_reducible refine keeps_ADVANCE_OR_ERROR (by assumption) (fun _ _ _ => ?_)
  with_reducible refine keeps_EXPECT_SEVERAL (by assumption) ?_
  with_reducible refine keeps_bind_current_token (by assumption) ?_
  with_reducible refine keeps_ite (fun _ => ?_) (fun _ => ?_)
  with_reducible refine keeps_ADVANCE_OR_ERROR (by assumption) (fun _ _ _ => ?_)
  with_reducible refine keeps_call (h.object_loop _ _ _ _ (by assumption)) (by decide)
  with_reducible refine keeps_call (h.object_loop _ _ _ _ (by assumption)) (by decide)
  with_reducible refine keeps_ite (fun _ => ?_) (fun _ => ?_)
  with_reducible refine keeps_ADVANCE_OR_ERROR (by assumption) (fun _ _ _ => ?_)
  with_reducible refine keeps_bind_current_token (by assumption) ?_
  with_reducible refine keeps_ite (fun _ => ?_) (fun _ => ?_)
  with_reducible refine keeps_bind_rewind (by assumption) ?_ (fun _ _ _ => ?_)
  with_reducible exact longer.cur_ok (by assumption)
  with_reducible refine keeps_ADVANCE_OR_ERROR (by assumption) (fun _ _ _ => ?_)
  with_reducible refine keeps_EXPECT_SEVERAL (by assumption) ?_
  with_reducible refine keeps_bind_current_token (by assumption) ?_
  with_reducible refine keeps_ite (fun _ => ?_) (fun _ => ?_)
  with_reducible refine keeps_ADVANCE_OR_ERROR (by assumption) (fun _ _ _ => ?_)
  with_reducible refine keeps_call (h.object_loop _ _ _ _ (by assumption)) (by decide)
  with_reducible refine keeps_call (h.object_loop _ _ _ _ (by assumption)) (by decide)
  with_reducible refine keeps_ADVANCE_OR_ERROR (by assumption) (fun _ _ _ => ?_)
  with_reducible refine keeps_bind_call (h.parse_expression _ _ _ (by assumption)) (fun _ => ?_) (fun _ _ _ _ _ _ => ?_) (fun _ _ _ _ => ?_)
  with_reducible exact sticky_ADVANCE_OR_ERROR _ _ _
  with_reducible exact absurd (by assumption : false = true) (by decide)
  with_reducible refine keeps_ADVANCE_OR_ERROR (by assumption) (fun _ _ _ => ?_)
  with_reducible refine keeps_EXPECT_SEVERAL (by assumption) ?_
  with_reducible refine keeps_bind_current_token (by assumption) ?_
  with_reducible refine keeps_ite (fun _ => ?_) (fun _ => ?_)
  with_reducible refine keeps_ADVANCE_OR_ERROR (by assumption) (fun _ _ _ => ?_)
  with_reducible refine keeps_call (h.object_loop _ _ _ _ (by assumption)) (by decide)
  with_reducible refine keeps_call (h.object_loop _ _ _ _ (by assumption)) (by decide)
  with_reducible exact keeps_set_error_pure

theorem keeps_parse_object_literal {X : List lexer_result} (hX : tail_ok X) {self : parser_fns}
    (h : fns_keeps X self) (hst : fns_sticky self) (sa sb : parser_base)
    (hl : longer X sa sb) : keeps false X (parse_object_literal self) (parse_object_literal self) sa sb := by
  unfold parse_object_literal
  with_reducible refine keeps_bind_current_token (by assumption) ?_
  with_reducible refine keeps_bind_assert_that (by assumption) (fun _ _ _ _ => ?_)
  with_reducible refine keeps_ADVANCE_OR_ERROR (by assumption) (fun _ _ _ => ?_)
  with_reducible refine keeps_call (h.object_loop _ _ _ _ (by assumption)) (by decide)

theorem keeps_parse_computed_access {X : List lexer_result} (hX : tail_ok X) {self : parser_fns}
    (h : fns_keeps X self) (hst : fns_sticky self) (base : Node) (sa sb : parser_base)
    (hl : longer X sa sb) : keeps false X (parse_computed_access self base) (parse_computed_access self base) sa sb := by
  unfold parse_computed_access
  with_reducible refine keeps_bind_current_token (by assumption) ?_
  with_reducible refine keeps_bind_assert_that (by assumption) (fun _ _ _ _ => ?_)
  with_reducible refine keeps_ADVANCE_OR_ERROR (by assumption) (fun _ _ _ => ?_)
  with_reducible refine keeps_SUBPARSE (h.parse_expression _ _ _ (by assumption)) (fun _ _ _ _ _ _ => ?_) (fun _ _ _ _ => ?_)
  with_reducible exact absurd (by assumption : false = true) (by decide)
  with_reducible refine keeps_ADVANCE_OR_ERROR (by assumption) (fun _ _ _ => ?_)
  with_reducible refine keeps_EXPECT (by assumption) ?_
  with_reducible refine keeps_pure (by assumption)

theorem keeps_call_loop {X : List lexer_result} (hX : tail_ok X) {self : parser_fns}
    (h : fns_keeps X self) (hst : fns_sticky self) (loc : source_location) (callee : Node) (values : List Node) (sa sb : parser_base)
    (hl : longer X sa sb) : keeps false X (call_loop self loc callee values) (call_loop self loc callee values) sa sb := by
  unfold call_loop
  with_reducible refine keeps_SUBPARSE (h.parse_expression _ _ _ (by assumption)) (fun _ _ _ _ _ _ => ?_) (fun _ _ _ _ => ?_)
  with_reducible exact absurd (by assumption : false = true) (by decide)
  with_reducible refine keeps_ADVANCE_OR_ERROR (by assumption) (fun _ _ _ => ?_)
  with_reducible refine keeps_bind_current_token (by assumption) ?_
  with_reducible refine keeps_ite (fun _ => ?_) (fun _ => ?_)
  with_reducible refine keeps_ADVANCE_OR_ERROR (by assumption) (fun _ _ _ => ?_)
  with_reducible refine keeps_call (h.call_loop _ _ _ _ _ (by assumption)) (by decide)
  with_reducible refine keeps_ite (fun _ => ?_) (fun _ => ?_)
  with_reducible refine keeps_bind_assert_that (by assumption) (fun _ _ _ _ => ?_)
  with_reducible refine keeps_pure (by assumption)
  with_reducible exact keeps_set_error_pure

theorem keeps_parse_call {X : List lexer_result} (hX : tail_ok X) {self : parser_fns}
    (h : fns_keeps X self) (hst : fns_sticky self) (callee : Node) (sa sb : parser_base)
    (hl : longer X sa sb) : keeps false X (parse_call self callee) (parse_call self callee) sa sb := by
  unfold parse_call
  with_reducible refine keeps_bind_current_token (by assumption) ?_
  with_reducible refine keeps_bind_assert_that (by assumption) (fun _ _ _ _ => ?_)
  with_reducible refine keeps_ADVANCE_OR_ERROR (by assumption) (fun _ _ _ => ?_)
  with_reducible refine keeps_bind_current_token (by assumption) ?_
  with_reducible refine keeps_ite (fun _ => ?_) (fun _ => ?_)
  with_reducible refine keeps_pure (by assumption)
  with_reducible refine keeps_call (h.call_loop _ _ _ _ _ (by assumption)) (by decide)

theorem keeps_parse_block_or_obj {X : List lexer_result} (hX : tail_ok X) {self : parser_fns}
    (h : fns_keeps X self) (hst : fns_sticky self) (_prefer_block_over_obj : Bool) (sa sb : parser_base)
    (hl : longer X sa sb) : keeps false X (parse_block_or_obj self _prefer_block_over_obj) (parse_block_or_obj self _prefer_block_over_obj) sa sb := by
  unfold parse_block_or_obj
  with_reducible refine keeps_EXPECT (by assumption) ?_
  with_reducible refine keeps_call (h.parse_block _ _ (by assumption)) (by decide)

/-- The functions of the parser agree with themselves on a longer input. -/
theorem parsers_keeps (ops : operators_def) {X : List lexer_result} (hX : tail_ok X) :
    ∀ fuel, fns_keeps X (parsers ops fuel)
  | 0 => by
    constructor <;> intros <;> intro a s1 hr <;> cases hr
  | fuel + 1 =>
    { parse_statement := fun s t hl => keeps_parse_statement hX (parsers_keeps ops hX fuel) (parsers_sticky ops fuel) s t hl
      parse_keyword_stmt := fun s t hl => keeps_parse_keyword_stmt hX (parsers_keeps ops hX fuel) (parsers_sticky ops fuel) s t hl
      parse_keyword_expr := fun s t hl => keeps_parse_keyword_expr hX (parsers_keeps ops hX fuel) (parsers_sticky ops fuel) s t hl
      parse_if_stmt := fun s t hl => keeps_parse_if_stmt hX (parsers_keeps ops hX fuel) (parsers_sticky ops fuel) s t hl
      parse_do_while := fun s t hl => keeps_parse_do_while hX (parsers_keeps ops hX fuel) (parsers_sticky ops fuel) s t hl
      parse_while_stmt := fun s t hl => keeps_parse_while_stmt hX (parsers_keeps ops hX fuel) (parsers_sticky ops fuel) s t hl
      parse_for_stmt := fun s t hl => keeps_parse_for_stmt hX (parsers_keeps ops hX fuel) (parsers_sticky ops fuel) s t hl
      parse_switch_stmt := fun s t hl => keeps_parse_switch_stmt hX (parsers_keeps ops hX fuel) (parsers_sticky ops fuel) s t hl
      switch_clauses_loop := fun x0 x1 x2 x3 s t hl => keeps_switch_clauses_loop hX (parsers_keeps ops hX fuel) (parsers_sticky ops fuel) x0 x1 x2 x3 s t hl
      switch_stmts_loop := fun x0 x1 x2 x3 x4 s t hl => keeps_switch_stmts_loop hX (parsers_keeps ops hX fuel) (parsers_sticky ops fuel) x0 x1 x2 x3 x4 s t hl
      parse_return_stmt := fun s t hl => keeps_parse_return_stmt hX (parsers_keeps ops hX fuel) (parsers_sticky ops fuel) s t hl
      parse_throw_stmt := fun s t hl => keeps_parse_throw_stmt hX (parsers_keeps ops hX fuel) (parsers_sticky ops fuel) s t hl
      parse_try_stmt := fun s t hl => keeps_parse_try_stmt hX (parsers_keeps ops hX fuel) (parsers_sticky ops fuel) s t hl
      parse_expression := fun x0 s t hl => keeps_parse_expression hX (parsers_keeps ops hX fuel) (parsers_sticky ops fuel) x0 s t hl
      parse_unary_or_atomic_expr := fun s t hl => keeps_parse_unary_or_atomic_expr hX (parsers_keeps ops hX fuel) (parsers_sticky ops fuel) s t hl
      parse_atomic_expr := fun s t hl => keeps_parse_atomic_expr hX (parsers_keeps ops hX fuel) (parsers_sticky ops fuel) s t hl
      atomic_postfix_loop := fun x0 s t hl => keeps_atomic_postfix_loop hX (parsers_keeps ops hX fuel) (parsers_sticky ops fuel) x0 s t hl
      parse_parens_expr := fun s t hl => keeps_parse_parens_expr hX (parsers_keeps ops hX fuel) (parsers_sticky ops fuel) s t hl
      parens_list_loop := fun x0 x1 x2 s t hl => keeps_parens_list_loop hX (parsers_keeps ops hX fuel) (parsers_sticky ops fuel) x0 x1 x2 s t hl
      parse_bin_op := fun x0 x1 s t hl => keeps_parse_bin_op ops hX (parsers_keeps ops hX fuel) (parsers_sticky ops fuel) x0 x1 s t hl
      parse_atomic_keyword_expr := fun s t hl => keeps_parse_atomic_keyword_expr hX (parsers_keeps ops hX fuel) (parsers_sticky ops fuel) s t hl
      parse_new_keyword := fun s t hl => keeps_parse_new_keyword hX (parsers_keeps ops hX fuel) (parsers_sticky ops fuel) s t hl
      parse_template_literal := fun s t hl => keeps_parse_template_literal hX (parsers_keeps ops hX fuel) (parsers_sticky ops fuel) s t hl
      template_loop := fun x0 x1 x2 s t hl => keeps_template_loop hX (parsers_keeps ops hX fuel) (parsers_sticky ops fuel) x0 x1 x2 s t hl
      parse_function_stmt := fun s t hl => keeps_parse_function_stmt hX (parsers_keeps ops hX fuel) (parsers_sticky ops fuel) s t hl
      parse_function_expr := fun s t hl => keeps_parse_function_expr hX (parsers_keeps ops hX fuel) (parsers_sticky ops fuel) s t hl
      parse_param_list := fun s t hl => keeps_parse_param_list hX (parsers_keeps ops hX fuel) (parsers_sticky ops fuel) s t hl
      param_list_loop := fun x0 x1 s t hl => keeps_param_list_loop hX (parsers_keeps ops hX fuel) (parsers_sticky ops fuel) x0 x1 s t hl
      parse_block := fun s t hl => keeps_parse_block hX (parsers_keeps ops hX fuel) (parsers_sticky ops fuel) s t hl
      block_loop := fun x0 x1 s t hl => keeps_block_loop hX (parsers_keeps ops hX fuel) (parsers_sticky ops fuel) x0 x1 s t hl
      parse_var_decl := fun s t hl => keeps_parse_var_decl hX (parsers_keeps ops hX fuel) (parsers_sticky ops fuel) s t hl
      var_decl_loop := fun x0 x1 x2 s t hl => keeps_var_decl_loop hX (parsers_keeps ops hX fuel) (parsers_sticky ops fuel) x0 x1 x2 s t hl
      parse_array_literal := fun s t hl => keeps_parse_array_literal hX (parsers_keeps ops hX fuel) (parsers_sticky ops fuel) s t hl
      array_loop := fun x0 x1 s t hl => keeps_array_loop hX (parsers_keeps ops hX fuel) (parsers_sticky ops fuel) x0 x1 s t hl
      parse_object_literal := fun s t hl => keeps_parse_object_literal hX (parsers_keeps ops hX fuel) (parsers_sticky ops fuel) s t hl
      object_loop := fun x0 x1 s t hl => keeps_object_loop hX (parsers_keeps ops hX fuel) (parsers_sticky ops fuel) x0 x1 s t hl
      parse_computed_access := fun x0 s t hl => keeps_parse_computed_access hX (parsers_keeps ops hX fuel) (parsers_sticky ops fuel) x0 s t hl
      parse_call := fun x0 s t hl => keeps_parse_call hX (parsers_keeps ops hX fuel) (parsers_sticky ops fuel) x0 s t hl
      call_loop := fun x0 x1 x2 s t hl => keeps_call_loop hX (parsers_keeps ops hX fuel) (parsers_sticky ops fuel) x0 x1 x2 s t hl
      parse_block_or_obj := fun x0 s t hl => keeps_parse_block_or_obj hX (parsers_keeps ops hX fuel) (parsers_sticky ops fuel) x0 s t hl }

theorem parse_statement_other (self : parser_fns) (s : parser_base)
    (h1 : s.current_token.type ≠ .SEMICOLON) (h2 : s.current_token.type ≠ .BRACE_OPEN)
    (h3 : s.current_token.type ≠ .KEYWORD) (h4 : s.current_token.type ≠ .IDENTIFIER) :
    parse_statement self s = (self.parse_expression true >>= statement_end) s := by
  simp [parse_statement, current_token, h1, h2, h3, h4, bind, StateT.bind]

theorem parse_statement_keyword (self : parser_fns) (s : parser_base)
    (h3 : s.current_token.type = .KEYWORD) :
    parse_statement self s = (self.parse_keyword_stmt >>= statement_end) s := by
  simp [parse_statement, current_token, h3, bind, StateT.bind]

theorem parse_keyword_stmt_expression (self : parser_fns) (s : parser_base)
    (h3 : s.current_token.type = .KEYWORD)
    (hk : is_expression_keyword s.current_token = true) :
    parse_keyword_stmt self s = self.parse_keyword_expr s := by
  simp only [is_expression_keyword, Bool.and_eq_true, decide_eq_true_eq, Bool.not_eq_true,
    Bool.not_eq_eq_eq_not, Bool.not_true] at hk
  obtain ⟨⟨⟨⟨⟨⟨⟨⟨⟨⟨⟨⟨⟨⟨⟨k1, k2⟩, k3⟩, k4⟩, k5⟩, k6⟩, k7⟩, k8⟩, k9⟩, k10⟩, k11⟩, k12⟩, k13⟩, k14⟩,
    k15⟩, k16⟩ := hk
  simp [parse_keyword_stmt, current_token, assert_that, parser_base.check, h3, bind,
    StateT.bind, k1, k2, k3, k4, k5, k6, k7, k8, k9, k10, k11, k12, k13, k14, k15, k16]

theorem feed_rewound (s : parser_base) (t u : token) :
    feed { s with rewind_stack := u :: s.rewind_stack, current_token := t } =
      .tok u :: feed s := by
  simp [feed]

/-- The look-ahead of `parse_statement` behind an identifier that starts no
label: the expression parser is called with the same token and the same feed. -/
theorem parse_statement_identifier (self : parser_fns) (a : parser_base)
    (hi : a.current_token.type = .IDENTIFIER)
    (hf : feed a = [] ∨ ∃ u F, feed a = .tok u :: F ∧ clean_tok u ∧ u.type ≠ .COLON) :
    ∃ a0, parse_statement self a = (self.parse_expression true >>= statement_end) a0 ∧
      a0.current_token = a.current_token ∧ a0.error = a.error ∧ feed a0 = feed a := by
  rcases hf with hf | ⟨u, F, hf, hu, hc⟩
  · refine ⟨a, ?_, rfl, rfl, rfl⟩
    have ha := advance_feed_nil hf
    simp [parse_statement, current_token, hi, bind, StateT.bind, ha]
  · obtain ⟨a1, ha, e1, e2, e3⟩ := advance_feed_cons hu hf
    have hr := rewind_ok a.current_token a1 (by rw [hi]; simp)
    refine ⟨{ a1 with rewind_stack := a1.current_token :: a1.rewind_stack,
                      current_token := a.current_token }, ?_, rfl, e2, ?_⟩
    · have hc1 : a1.current_token.type ≠ .COLON := by rw [e1]; exact hc
      simp [parse_statement, current_token, hi, bind, StateT.bind, ha, hc1, hr]
    · rw [feed_rewound, e3, hf, e1]

/-- The terminator check at the end of a statement whose expression took the
whole feed but the appended part: the `;` that starts the appended part is
taken. -/
theorem statement_end_tail {X : List lexer_result} (hX : tail_ok X) (T : Node)
    (a : parser_base) (he : a.error = none) (hT : T.isNull = false) (hf : feed a = X) :
    ∃ a1, statement_end T a = some (T, a1) ∧ a1.error = none ∧ feed a1 = X.tail := by
  rw [statement_end, ASSERT_PARSE_RESULT_ok _ _ he hT]
  rcases hX with rfl | ⟨semi, rest, rfl, hs⟩
  · have ha := advance_feed_nil hf
    refine ⟨a, ?_, he, hf⟩
    simp [current_token, has_error, bind, StateT.bind, ha, he]
  · obtain ⟨a1, ha, e1, e2, e3⟩ := advance_feed_cons (by simp [clean_tok, hs]) hf
    refine ⟨a1, ?_, by rw [e2, he], e3⟩
    simp [current_token, has_error, bind, StateT.bind, ha, e2, he, e1, is_stmt_end, hs]

theorem statement_after {X : List lexer_result} (hX : tail_ok X) {m : P Node}
    {own a0 s1 : parser_base} {T : Node} (hk : keeps false X m m own a0)
    (hrun : m own = some (T, s1)) (he1 : s1.error = none) (hfeed : feed s1 = [])
    (hT : T.isNull = false) :
    ∃ a1, (m >>= statement_end) a0 = some (T, a1) ∧ a1.error = none ∧ feed a1 = X.tail := by
  rcases hk T s1 hrun he1 with h | ⟨t1, e, hl⟩
  · exact absurd h.1 (by simp)
  · obtain ⟨a1, f1, f2, f3⟩ := statement_end_tail hX T t1 (by rw [hl.err_eq, he1]) hT
      (by rw [hl.feed_eq, hfeed]; rfl)
    exact ⟨a1, by simp only [P_bind_apply, e, Option.some_bind, f1], f2, f3⟩

theorem statement_expression_mono (head : token) (a b : parser_fns) (h : fns_le a b) :
    run_le (statement_expression head a) (statement_expression head b) := by
  unfold statement_expression
  split
  · exact h.parse_keyword_expr
  · exact h.parse_expression true

theorem tail_ok_head {X : List lexer_result} (hX : tail_ok X) :
    X = [] ∨ ∃ u F, X = .tok u :: F ∧ clean_tok u ∧ u.type ≠ .COLON := by
  rcases hX with rfl | ⟨semi, rest, rfl, hs⟩
  · exact Or.inl rfl
  · exact Or.inr ⟨semi, rest, rfl, by simp [clean_tok, hs], by simp [hs]⟩

/-- One statement of the stream: on the tokens of an expression statement with
a `;` and more behind them, or with nothing behind them, `parse_statement`
returns the tree of the statement and has taken its tokens and the `;`. -/
theorem parse_statement_of_expression_statement (ops : operators_def) {E : List token}
    {T : Node} (hE : expression_statement ops E T) {X : List lexer_result} (hX : tail_ok X) :
    ∃ head tail, E = head :: tail ∧ clean_tok head ∧ ∃ fuel0, ∀ fuel, fuel0 ≤ fuel →
      ∀ a : parser_base, a.current_token = head → a.error = none →
        feed a = tail.map .tok ++ X →
        ∃ a1, (parsers ops fuel).parse_statement a = some (T, a1) ∧ a1.error = none ∧
          feed a1 = X.tail := by
  obtain ⟨head, tail, s1, rfl, hclean, hsemi, hbrace, hlabel, hkw, ⟨n0, hrun⟩, he1, hl1, hr1,
    hT⟩ := hE
  have hch : clean_tok head := hclean head (List.mem_cons_self _ _)
  refine ⟨head, tail, rfl, hch, n0 + 2, fun fuel hfuel a hcur herr hfeed => ?_⟩
  obtain ⟨f, rfl⟩ : ∃ f, fuel = f + 2 := ⟨fuel - 2, by omega⟩
  have hfs : feed s1 = [] := by simp [feed, hl1, hr1]
  have hown : feed (expression_start head tail) = tail.map .tok := by
    simp [feed, expression_start, fresh_state]
  have hcf : clean (tail.map lexer_result.tok) := by
    intro r hr
    obtain ⟨u, hu, rfl⟩ := List.mem_map.mp hr
    exact ⟨u, rfl, hclean u (List.mem_cons_of_mem _ hu)⟩
  have hl : longer X (expression_start head tail) a :=
    ⟨hcur, herr, by rw [hfeed, hown], by rw [hown]; exact hcf, hch⟩
  rw [parsers_succ_parse_statement]
  by_cases hk : head.type = .KEYWORD
  · have hrun2 : (parsers ops f).parse_keyword_expr (expression_start head tail) =
        some (T, s1) := by
      have := runs_mono (statement_expression_mono head) hrun (show n0 ≤ f by omega)
      simpa [statement_expression, hk] using this
    have hks := (parsers_keeps ops hX f).parse_keyword_expr _ _ hl
    obtain ⟨a1, f1, f2, f3⟩ := statement_after hX hks hrun2 he1 hfs hT
    refine ⟨a1, ?_, f2, f3⟩
    rw [parse_statement_keyword _ _ (by rw [hcur]; exact hk)]
    simp only [P_bind_apply] at f1 ⊢
    rw [parsers_succ_parse_keyword_stmt,
      parse_keyword_stmt_expression _ _ (by rw [hcur]; exact hk) (by rw [hcur]; exact hkw hk)]
    exact f1
  · have hrun2 : (parsers ops (f + 1)).parse_expression true (expression_start head tail) =
        some (T, s1) := by
      have := runs_mono (statement_expression_mono head) hrun (show n0 ≤ f + 1 by omega)
      simpa [statement_expression, hk] using this
    by_cases hi : head.type = .IDENTIFIER
    · have hfa : feed a = [] ∨ ∃ u F, feed a = .tok u :: F ∧ clean_tok u ∧ u.type ≠ .COLON := by
        rw [hfeed]
        cases tail with
        | nil => simpa using tail_ok_head hX
        | cons u rest =>
          exact Or.inr ⟨u, _, rfl, hclean u (by simp), hlabel hi u rest rfl⟩
      obtain ⟨a0, g1, g2, g3, g4⟩ := parse_statement_identifier (parsers ops (f + 1)) a
        (by rw [hcur]; exact hi) hfa
      have hl0 : longer X (expression_start head tail) a0 :=
        ⟨by rw [g2]; exact hl.cur_eq, by rw [g3]; exact hl.err_eq,
          by rw [g4]; exact hl.feed_eq, hl.clean_feed, hl.cur_ok⟩
      have hks := (parsers_keeps ops hX (f + 1)).parse_expression true _ _ hl0
      obtain ⟨a1, f1, f2, f3⟩ := statement_after hX hks hrun2 he1 hfs hT
      exact ⟨a1, by rw [g1]; exact f1, f2, f3⟩
    · have hks := (parsers_keeps ops hX (f + 1)).parse_expression true _ _ hl
      obtain ⟨a1, f1, f2, f3⟩ := statement_after hX hks hrun2 he1 hfs hT
      refine ⟨a1, ?_, f2, f3⟩
      rw [parse_statement_other _ _ (by rw [hcur]; exact hsemi) (by rw [hcur]; exact hbrace)
        (by rw [hcur]; exact hk) (by rw [hcur]; exact hi)]
      exact f1

/-- One round of the loop of `parse` over a statement of the stream. -/
theorem parse_loop_round (ops : operators_def) {E : List token} {T : Node}
    (hE : expression_statement ops E T) {X : List lexer_result} (hX : tail_ok X) :
    ∃ fuel0, ∀ fuel, fuel0 ≤ fuel → ∀ (stmts : List Node) (a : parser_base),
      a.error = none → feed a = E.map .tok ++ X →
      ∃ a1, parse_loop ops (fuel + 1) stmts a = parse_loop ops fuel (stmts ++ [T]) a1 ∧
        a1.error = none ∧ feed a1 = X.tail := by
  obtain ⟨head, tail, rfl, hch, fuel0, h⟩ := parse_statement_of_expression_statement ops hE hX
  refine ⟨fuel0, fun fuel hfuel stmts a herr hfeed => ?_⟩
  obtain ⟨b, hb, e1, e2, e3⟩ := advance_feed_cons hch
    (show feed a = .tok head :: (tail.map .tok ++ X) by rw [hfeed]; rfl)
  obtain ⟨a1, f1, f2, f3⟩ := h fuel hfuel b e1 (by rw [e2, herr]) e3
  have hT : T.isNull = false := by
    obtain ⟨_, _, _, _, _, _, _, _, _, _, _, _, _, hT⟩ := hE
    exact hT
  refine ⟨a1, ?_, f2, f3⟩
  rw [parse_loop]
  simp [has_error, bind, StateT.bind, herr, hb, f1, f2, hT]

theorem parse_loop_end (ops : operators_def) (fuel : Nat) (stmts : List Node)
    (a : parser_base) (herr : a.error = none) (hfeed : feed a = []) :
    parse_loop ops (fuel + 1) stmts a = some (stmts, a) := by
  rw [parse_loop]
  simp [has_error, bind, StateT.bind, herr, advance_feed_nil hfeed]

/-- The loop of `parse` over the stream `E1 ; ... ; En`. -/
theorem parse_loop_stream (ops : operators_def) {last : List token} {T : Node}
    (hlast : expression_statement ops last T) :
    ∀ (items : List (List token × token)) (trees : List Node),
      List.Forall₂ (fun x Ti => expression_statement ops x.1 Ti ∧ x.2.type = .SEMICOLON)
        items trees →
      ∃ fuel0, ∀ fuel, fuel0 ≤ fuel → ∀ (stmts : List Node) (a : parser_base),
        a.error = none → feed a = statement_stream items last →
        ∃ a1, parse_loop ops fuel stmts a = some (stmts ++ trees ++ [T], a1) ∧
          a1.error = none
  | [], trees, h => by
    cases h
    obtain ⟨fuel0, h0⟩ := parse_loop_round ops hlast (Or.inl rfl)
    refine ⟨fuel0 + 2, fun fuel hfuel stmts a herr hfeed => ?_⟩
    obtain ⟨f, rfl⟩ : ∃ f, fuel = f + 2 := ⟨fuel - 2, by omega⟩
    obtain ⟨a1, f1, f2, f3⟩ := h0 (f + 1) (by omega) stmts a herr
      (by simpa [statement_stream] using hfeed)
    refine ⟨a1, ?_, f2⟩
    rw [f1, parse_loop_end ops f _ a1 f2 f3]
    simp
  | (E, semi) :: more, trees, h => by
    cases h with
    | cons h1 h2 =>
      rename_i Ti rest
      obtain ⟨fuel1, hrec⟩ := parse_loop_stream ops hlast more rest h2
      obtain ⟨fuel0, h0⟩ := parse_loop_round ops h1.1
        (Or.inr ⟨semi, statement_stream more last, rfl, h1.2⟩)
      refine ⟨max fuel0 fuel1 + 1, fun fuel hfuel stmts a herr hfeed => ?_⟩
      obtain ⟨f, rfl⟩ : ∃ f, fuel = f + 1 := ⟨fuel - 1, by omega⟩
      obtain ⟨a1, f1, f2, f3⟩ := h0 f (by omega) stmts a herr
        (by simpa [statement_stream] using hfeed)
      obtain ⟨a2, g1, g2⟩ := hrec f (by omega) (stmts ++ [Ti]) a1 f2 f3
      refine ⟨a2, ?_, g2⟩
      rw [f1, g1]
      simp

/-- C3: top-level statements are kept in source order.  For expression
statements `E1, ..., En` without a top-level `;` with the trees `T1, ..., Tn`
(each `Ei` is taken entirely by the expression parser, which returns `Ti`),
`parse` on the stream `E1 ; E2 ; ... ; En` returns, whenever the fuel covers the
pending tokens, the module whose `stmts` are exactly `T1, ..., Tn` in that
order; and on the empty stream it returns the empty module. -/
theorem statements_in_source_order (ops : operators_def)
    (analyze_js_ast : Node → Option String) (items : List (List token × token))
    (trees : List Node) (last : List token) (T : Node) (s : parser_base)
    (hitems : List.Forall₂
      (fun x Ti => expression_statement ops x.1 Ti ∧ x.2.type = .SEMICOLON) items trees)
    (hlast : expression_statement ops last T) (hs : s.error = none) :
    (∀ fuel, 64 * pending { s with lexer := statement_stream items last } + 8 ≤ fuel →
      ∃ s1, parse ops analyze_js_ast fuel false
          { s with lexer := statement_stream items last } =
        some (.module (.module ⟨0, 0⟩ (trees ++ [T])), s1)) ∧
    (∀ fuel, 0 < fuel → ∃ s1, parse ops analyze_js_ast fuel false { s with lexer := [] } =
      some (.module (.module ⟨0, 0⟩ []), s1)) := by
  constructor
  · intro fuel hfuel
    obtain ⟨fuel0, h0⟩ := parse_loop_stream ops hlast items trees hitems
    obtain ⟨a1, f1, f2⟩ := h0 (max fuel fuel0) (Nat.le_max_right _ _) []
      { s with lexer := statement_stream items last, rewind_stack := [] } hs
      (by simp [feed])
    have hbig : parse ops analyze_js_ast (max fuel fuel0) false
        { s with lexer := statement_stream items last } =
        some (.module (.module ⟨0, 0⟩ (trees ++ [T])), a1) := by
      unfold parse
      simp only [bind, StateT.bind, reset, get, getThe, MonadStateOf.get, StateT.get, pure,
        StateT.pure, Option.bind, f1, f2]
      simp
      rfl
    obtain ⟨r, s1, e, _⟩ := parse_halts ops analyze_js_ast false
      { s with lexer := statement_stream items last } fuel hfuel
    have := parse_mono ops analyze_js_ast false (Nat.le_max_left fuel fuel0) _ _ e
    rw [hbig] at this
    cases this
    exact ⟨_, e⟩
  · intro fuel hfuel
    obtain ⟨f, rfl⟩ : ∃ f, fuel = f + 1 := ⟨fuel - 1, by omega⟩
    have := parse_loop_end ops f [] { s with lexer := [], rewind_stack := [] } hs
      (by simp [feed])
    refine ⟨{ s with lexer := [], rewind_stack := [] }, ?_⟩
    unfold parse
    simp only [bind, StateT.bind, reset, get, getThe, MonadStateOf.get, StateT.get, pure,
      StateT.pure, Option.bind, this]
    simp only [hs]
    rfl


theorem statements_in_source_order_witness :
    expression_statement js_operators
      [⟨.IDENTIFIER, "a", ⟨1, 1⟩⟩, ⟨.EQ, "=", ⟨1, 2⟩⟩, ⟨.IDENTIFIER, "b", ⟨1, 3⟩⟩]
      (.bin_op_expr .assign ⟨1, 2⟩ (.identifier_expr ⟨1, 1⟩ "a")
        (.identifier_expr ⟨1, 3⟩ "b")) ∧
    expression_statement js_operators
      [⟨.KEYWORD, "typeof", ⟨1, 5⟩⟩, ⟨.IDENTIFIER, "c", ⟨1, 6⟩⟩]
      (.unary_expr .typeof_expr ⟨1, 5⟩ (.identifier_expr ⟨1, 6⟩ "c")) ∧
    ∃ s1, parse js_operators no_analysis 400 false
        (fresh_state (tokens_from 1 [(.IDENTIFIER, "a"), (.EQ, "="), (.IDENTIFIER, "b"),
          (.SEMICOLON, ";"), (.KEYWORD, "typeof"), (.IDENTIFIER, "c")])) =
      some (.module (.module ⟨0, 0⟩
        [.bin_op_expr .assign ⟨1, 2⟩ (.identifier_expr ⟨1, 1⟩ "a")
          (.identifier_expr ⟨1, 3⟩ "b"),
         .unary_expr .typeof_expr ⟨1, 5⟩ (.identifier_expr ⟨1, 6⟩ "c")]), s1) := by
  have h1 : expression_statement js_operators
      [⟨.IDENTIFIER, "a", ⟨1, 1⟩⟩, ⟨.EQ, "=", ⟨1, 2⟩⟩, ⟨.IDENTIFIER, "b", ⟨1, 3⟩⟩]
      (.bin_op_expr .assign ⟨1, 2⟩ (.identifier_expr ⟨1, 1⟩ "a")
        (.identifier_expr ⟨1, 3⟩ "b")) :=
    ⟨_, _, { fresh_state [] with current_token := ⟨.IDENTIFIER, "b", ⟨1, 3⟩⟩ }, rfl,
      by decide, by decide, by decide, fun _ u rest h => by cases h; decide,
      fun h => absurd h (by decide), ⟨6, rfl⟩, rfl, rfl, rfl, rfl⟩
  have h2 : expression_statement js_operators
      [⟨.KEYWORD, "typeof", ⟨1, 5⟩⟩, ⟨.IDENTIFIER, "c", ⟨1, 6⟩⟩]
      (.unary_expr .typeof_expr ⟨1, 5⟩ (.identifier_expr ⟨1, 6⟩ "c")) :=
    ⟨_, _, { fresh_state [] with current_token := ⟨.IDENTIFIER, "c", ⟨1, 6⟩⟩ }, rfl,
      by decide, by decide, by decide, fun h => absurd h (by decide),
      fun _ => by decide, ⟨6, rfl⟩, rfl, rfl, rfl, rfl⟩
  exact ⟨h1, h2, (statements_in_source_order js_operators no_analysis
    [([⟨.IDENTIFIER, "a", ⟨1, 1⟩⟩, ⟨.EQ, "=", ⟨1, 2⟩⟩, ⟨.IDENTIFIER, "b", ⟨1, 3⟩⟩],
      ⟨.SEMICOLON, ";", ⟨1, 4⟩⟩)] _ _ _ (fresh_state [])
    (List.Forall₂.cons ⟨h1, rfl⟩ List.Forall₂.nil) h2 rfl).1 400 (by decide)⟩

end jnsn
